import Mathlib

/-!
K-file parser: shallow embedding and verified properties.

The development embeds `src/core/kfile_parser/src/parser.cpp` (with the entity
headers next to it) and proves properties of the embedded functions.

Conventions of the embedding:

* a `std::string` is a `List Char`, one `Char` per byte of the C++ string;
* `int32_t`, `int8_t` and `size_t` values are `Int` / `Nat`; the places where the
  C++ code can leave the 32-bit range (`std::stoi`) carry the range check explicitly;
* `double` is an abstract type `F` with the operations of `DoubleModel`;
* a C++ function that may throw returns `Except Exn _`; a block of statements that
  mutates the parser runs in `Run`, which keeps the effects made before a throw.
-/

namespace KFile

/-- A `std::string`: the sequence of its bytes. -/
abbrev Str := List Char

/-- The exceptions thrown by the standard-library calls the parser uses
(`substr`, `stoi`, `stod`); all derive from `std::exception`. -/
inductive Exn where
  | out_of_range (what : String)
  | invalid_argument (what : String)
  deriving DecidableEq, Repr

/-- The text returned by `e.what()`. -/
def Exn.what : Exn → Str
  | .out_of_range w => w.toList
  | .invalid_argument w => w.toList

/-! ## Standard-library primitives -/

/-- Embeds `std::isspace` in the "C" locale: space, `\t`, `\n`, `\v`, `\f`, `\r`. -/
def isspace (c : Char) : Bool :=
  c.toNat = 32 || (9 ≤ c.toNat && c.toNat ≤ 13)

/-- Embeds `std::isdigit`. -/
def isdigit (c : Char) : Bool :=
  48 ≤ c.toNat && c.toNat ≤ 57

/-- Embeds `std::toupper` in the "C" locale. -/
def toupper (c : Char) : Char :=
  if 97 ≤ c.toNat ∧ c.toNat ≤ 122 then Char.ofNat (c.toNat - 32) else c

/-- Embeds `std::string::substr(pos, n)`: throws when `pos > size()`, otherwise the at most
`n` characters from `pos`. -/
def substr (s : Str) (pos n : Nat) : Except Exn Str :=
  if pos > s.length then .error (.out_of_range "basic_string::substr")
  else .ok ((s.drop pos).take n)

/-- Embeds `std::string::substr(pos)`: the tail from `pos`, throwing when `pos > size()`. -/
def substr_from (s : Str) (pos : Nat) : Except Exn Str :=
  if pos > s.length then .error (.out_of_range "basic_string::substr")
  else .ok (s.drop pos)

/-- Embeds `std::string::find(pat)`: the first position at which `pat` occurs, `none` for
`npos`. -/
def find (s pat : Str) : Option Nat :=
  if pat.isPrefixOf s then some 0
  else match s with
    | [] => none
    | _ :: t => (find t pat).map (· + 1)

/-- Embeds `std::string::find(ch, pos)`: the first position `≥ pos` holding `ch`. -/
def find_char_from (s : Str) (ch : Char) (pos : Nat) : Option Nat :=
  ((s.drop pos).indexOf? ch).map (· + pos)

/-- Embeds `INT_MIN` of a 32-bit `int`. -/
def INT_MIN : Int := -2147483648

/-- Embeds `INT_MAX` of a 32-bit `int`. -/
def INT_MAX : Int := 2147483647

/-- The value of a string of decimal digits, most significant first. -/
def digits_value (ds : Str) : Nat :=
  ds.foldl (fun acc c => acc * 10 + (c.toNat - 48)) 0

/-- Embeds `std::stoi(str)` (base 10): skips leading whitespace, reads an optional sign and
the longest run of digits, ignores what follows; throws `invalid_argument` when
there is no digit and `out_of_range` when the value does not fit an `int`. -/
def stoi (s : Str) : Except Exn Int :=
  let body := s.dropWhile isspace
  let neg := body.head? = some '-'
  let unsigned_part :=
    if body.head? = some '-' ∨ body.head? = some '+' then body.tail else body
  let ds := unsigned_part.takeWhile isdigit
  if ds.isEmpty then .error (.invalid_argument "stoi")
  else
    let v : Int := if neg then -(digits_value ds : Int) else (digits_value ds : Int)
    if v < INT_MIN ∨ INT_MAX < v then .error (.out_of_range "stoi") else .ok v

/-- The operations on `double` the parser relies on. -/
class DoubleModel (F : Type) where
  /-- Embeds `std::stod(str)`. -/
  stod : Str → Except Exn F
  /-- The `double` written as the decimal literal `m * 10^e` in the source. -/
  lit : Int → Int → F
  /-- Embeds `static_cast<int32_t>(x)`. -/
  to_int32 : F → Int

/-- The literal `0.0`. -/
def dzero {F : Type} [DoubleModel F] : F := DoubleModel.lit 0 0

/-- The literal `1.0`. -/
def done {F : Type} [DoubleModel F] : F := DoubleModel.lit 1 0

/-! ## String utilities of the parser -/

/-- Embeds `KFileParser::trim`: `start` is the first non-space position, `end` is one past
the last non-space position; the result is the range between them when
`start < end`, the empty string otherwise. -/
def trim (str : Str) : Str :=
  let start := (str.takeWhile isspace).length
  let end_ := str.length - (str.reverse.takeWhile isspace).length
  if start < end_ then (str.drop start).take (end_ - start) else []

/-- Embeds `KFileParser::to_upper`. -/
def to_upper (str : Str) : Str := str.map toupper

/-- Embeds `KFileParser::is_keyword`. -/
def is_keyword (line : Str) : Bool :=
  match line with
  | [] => false
  | c :: _ => c = '*'

/-- Embeds `KFileParser::is_comment`. -/
def is_comment (line : Str) : Bool :=
  match line with
  | [] => false
  | c :: _ => c = '$'

/-- Embeds `KFileParser::is_empty_or_whitespace`. -/
def is_empty_or_whitespace (line : Str) : Bool := line.all isspace

/-! ## Fixed-width column decoders -/

/-- Embeds `KFileParser::parse_int`. -/
def parse_int (line : Str) (start len : Nat) : Except Exn Int :=
  if start ≥ line.length then .ok 0
  else do
    let actual_len := min len (line.length - start)
    let field ← substr line start actual_len
    let field := trim field
    if field.isEmpty then .ok 0
    else
      match stoi field with
      | .ok v => .ok v
      | .error _ => .ok 0

/-- Embeds `KFileParser::parse_double`. -/
def parse_double {F : Type} [DoubleModel F] (line : Str) (start len : Nat) : Except Exn F :=
  if start ≥ line.length then .ok dzero
  else do
    let actual_len := min len (line.length - start)
    let field ← substr line start actual_len
    let field := trim field
    if field.isEmpty then .ok dzero
    else
      match (DoubleModel.stod field : Except Exn F) with
      | .ok v => .ok v
      | .error _ => .ok dzero

/-- Embeds `KFileParser::parse_string_field`. -/
def parse_string_field (line : Str) (start len : Nat) : Except Exn Str :=
  if start ≥ line.length then .ok []
  else do
    let actual_len := min len (line.length - start)
    let s ← substr line start actual_len
    .ok (trim s)

/-! ## Entity definitions -/

/-- Entity of `node.hpp`. -/
structure Node (F : Type) where
  nid : Int
  x : F
  y : F
  z : F
  tc : Int
  rc : Int

/-- Embeds `Node::Node()`. -/
def Node.init {F : Type} [DoubleModel F] : Node F :=
  { nid := 0, x := dzero, y := dzero, z := dzero, tc := 0, rc := 0 }

/-- Entity of `part.hpp`. -/
structure Part where
  name : Str
  pid : Int
  secid : Int
  mid : Int
  eosid : Int
  hgid : Int
  grav : Int
  adpopt : Int
  tmid : Int
  deriving DecidableEq

/-- Embeds `Part::Part()`. -/
def Part.init : Part :=
  { name := [], pid := 0, secid := 0, mid := 0, eosid := 0, hgid := 0, grav := 0,
    adpopt := 0, tmid := 0 }

/-- Embeds `enum class ElementType`. -/
inductive ElementType where
  | SHELL | SOLID | BEAM
  deriving DecidableEq, Repr

/-- Entity of `element.hpp`; `nodes` is the `std::array<int32_t, 8>`. -/
structure Element where
  eid : Int
  pid : Int
  nodes : List Int
  type : ElementType
  node_count : Int
  deriving DecidableEq

/-- Embeds `Element::Element()`. -/
def Element.init : Element :=
  { eid := 0, pid := 0, nodes := List.replicate 8 0, type := .SHELL, node_count := 0 }

/-- Embeds `enum class SetType`. -/
inductive SetType where
  | NODE_LIST | PART_LIST | SEGMENT | SHELL | SOLID
  deriving DecidableEq, Repr

/-- Entity of `set.hpp`; a segment is the list of its four node ids. -/
structure Set (F : Type) where
  sid : Int
  type : SetType
  da1 : F
  da2 : F
  da3 : F
  da4 : F
  solver : Str
  ids : List Int
  segments : List (List Int)

/-- Embeds `Set::Set()`. -/
def Set.init {F : Type} [DoubleModel F] : Set F :=
  { sid := 0, type := .NODE_LIST, da1 := dzero, da2 := dzero, da3 := dzero, da4 := dzero,
    solver := "MECH".toList, ids := [], segments := [] }

/-- Embeds `Set::count`. -/
def Set.count {F : Type} (s : Set F) : Nat :=
  if s.type = .SEGMENT then s.segments.length else s.ids.length

/-- Embeds `Set::add_id`. -/
def Set.add_id {F : Type} (s : Set F) (id : Int) : Set F :=
  if id > 0 then { s with ids := s.ids ++ [id] } else s

/-- Embeds `Set::add_segment`. -/
def Set.add_segment {F : Type} (s : Set F) (n1 n2 n3 n4 : Int) : Set F :=
  if n1 > 0 ∨ n2 > 0 ∨ n3 > 0 ∨ n4 > 0 then
    { s with segments := s.segments ++ [[n1, n2, n3, n4]] }
  else s

/-- Embeds `enum class SectionType`. -/
inductive SectionType where
  | SHELL | SOLID | BEAM
  deriving DecidableEq, Repr

/-- Entity of `section.hpp`; `thickness`, `ts`, `tt` are the `std::array`s. -/
structure Section (F : Type) where
  secid : Int
  type : SectionType
  elform : Int
  shrf : F
  nip : Int
  propt : F
  qr_irid : Int
  icomp : Int
  setyp : Int
  thickness : List F
  nloc : F
  marea : F
  idof : F
  edgset : F
  aet : Int
  cst : F
  scoor : F
  ts : List F
  tt : List F
  nsloc : F
  ntloc : F

/-- Embeds `Section::Section()`. -/
def Section.init {F : Type} [DoubleModel F] : Section F :=
  { secid := 0, type := .SHELL, elform := 0, shrf := done, nip := 2, propt := done,
    qr_irid := 0, icomp := 0, setyp := 1, thickness := List.replicate 4 dzero,
    nloc := dzero, marea := dzero, idof := dzero, edgset := dzero, aet := 0,
    cst := dzero, scoor := dzero, ts := List.replicate 2 dzero,
    tt := List.replicate 2 dzero, nsloc := dzero, ntloc := dzero }

/-- Embeds `enum class ContactType`. -/
inductive ContactType where
  | AUTOMATIC_SINGLE_SURFACE | AUTOMATIC_SURFACE_TO_SURFACE | AUTOMATIC_NODES_TO_SURFACE
  | AUTOMATIC_GENERAL | TIED_SURFACE_TO_SURFACE | TIED_NODES_TO_SURFACE
  | TIED_SHELL_EDGE_TO_SURFACE | SURFACE_TO_SURFACE | NODES_TO_SURFACE | OTHER
  deriving DecidableEq, Repr

/-- Entity of `contact.hpp`. -/
structure Contact (F : Type) where
  type : ContactType
  type_name : Str
  ssid : Int
  msid : Int
  sstyp : Int
  mstyp : Int
  sboxid : Int
  mboxid : Int
  spr : Int
  mpr : Int
  fs : F
  fd : F
  dc : F
  vc : F
  vdc : F
  penchk : Int
  bt : F
  dt : F
  sfs : F
  sfm : F
  sst : F
  mst : F
  sfst : F
  sfmt : F
  fsf : F
  vsf : F
  cards_parsed : Int

/-- Embeds `Contact::Contact()`. -/
def Contact.init {F : Type} [DoubleModel F] : Contact F :=
  { type := .OTHER, type_name := [], ssid := 0, msid := 0, sstyp := 0, mstyp := 0,
    sboxid := 0, mboxid := 0, spr := 0, mpr := 0, fs := dzero, fd := dzero, dc := dzero,
    vc := dzero, vdc := dzero, penchk := 0, bt := dzero, dt := DoubleModel.lit 1 20,
    sfs := done, sfm := done, sst := dzero, mst := dzero, sfst := done, sfmt := done,
    fsf := done, vsf := done, cards_parsed := 0 }

/-- Embeds `enum class MaterialType`. -/
inductive MaterialType where
  | ELASTIC | ORTHOTROPIC_ELASTIC | PLASTIC_KINEMATIC | RIGID
  | PIECEWISE_LINEAR_PLASTICITY | FABRIC | COMPOSITE_DAMAGE
  | LAMINATED_COMPOSITE_FABRIC | COMPOSITE_FAILURE | OTHER
  deriving DecidableEq, Repr

/-- Entity of `material.hpp`. -/
structure Material (F : Type) where
  mid : Int
  type : MaterialType
  type_name : Str
  ro : F
  e : F
  pr : F
  eb : F
  ec : F
  prca : F
  prcb : F
  gab : F
  gbc : F
  gca : F
  sigy : F
  etan : F
  fail : F
  tdel : F
  cmo : F
  con1 : F
  con2 : F
  xc : F
  xt : F
  yc : F
  yt : F
  sc : F
  aopt : Int
  macf : Int
  cards : List (List F)
  cards_parsed : Int
  title : Str

/-- Embeds `Material::Material()`. -/
def Material.init {F : Type} [DoubleModel F] : Material F :=
  { mid := 0, type := .OTHER, type_name := [], ro := dzero, e := dzero, pr := dzero,
    eb := dzero, ec := dzero, prca := dzero, prcb := dzero, gab := dzero, gbc := dzero,
    gca := dzero, sigy := dzero, etan := dzero, fail := dzero, tdel := dzero,
    cmo := dzero, con1 := dzero, con2 := dzero, xc := dzero, xt := dzero, yc := dzero,
    yt := dzero, sc := dzero, aopt := 0, macf := 0, cards := [], cards_parsed := 0,
    title := [] }

/-- Entity of `include.hpp`. -/
structure Include where
  filepath : Str
  is_path_only : Bool
  is_relative : Bool
  deriving DecidableEq

/-- Embeds `Include::Include()`. -/
def Include.init : Include :=
  { filepath := [], is_path_only := false, is_relative := false }

/-- Entity of `curve.hpp`. -/
structure Curve (F : Type) where
  lcid : Int
  sidr : Int
  sfa : F
  sfo : F
  offa : F
  offo : F
  dattyp : Int
  points : List (F × F)
  title : Str

/-- Embeds `Curve::Curve()`. -/
def Curve.init {F : Type} [DoubleModel F] : Curve F :=
  { lcid := 0, sidr := 0, sfa := done, sfo := done, offa := dzero, offo := dzero,
    dattyp := 0, points := [], title := [] }

/-- Embeds `Curve::add_point`. -/
def Curve.add_point {F : Type} (c : Curve F) (a o : F) : Curve F :=
  { c with points := c.points ++ [(a, o)] }

/-- Embeds `enum class BoundaryType`. -/
inductive BoundaryType where
  | SPC_NODE | SPC_SET | PRESCRIBED_MOTION_NODE | PRESCRIBED_MOTION_SET | OTHER
  deriving DecidableEq, Repr

/-- Entity of `boundary.hpp`; the `dof*` members are `int8_t`. -/
structure BoundarySPC where
  type : BoundaryType
  nid : Int
  cid : Int
  dofx : Int
  dofy : Int
  dofz : Int
  dofrx : Int
  dofry : Int
  dofrz : Int
  dof : Int
  vad : Int
  title : Str
  deriving DecidableEq

/-- Embeds `BoundarySPC::BoundarySPC()`. -/
def BoundarySPC.init : BoundarySPC :=
  { type := .OTHER, nid := 0, cid := 0, dofx := 0, dofy := 0, dofz := 0, dofrx := 0,
    dofry := 0, dofrz := 0, dof := 0, vad := 0, title := [] }

/-- Entity of `boundary.hpp`. -/
structure BoundaryPrescribedMotion (F : Type) where
  type : BoundaryType
  nid : Int
  dof : Int
  vad : Int
  lcid : Int
  sf : F
  vid : Int
  death : F
  birth : F
  title : Str

/-- Embeds `BoundaryPrescribedMotion::BoundaryPrescribedMotion()`. -/
def BoundaryPrescribedMotion.init {F : Type} [DoubleModel F] : BoundaryPrescribedMotion F :=
  { type := .OTHER, nid := 0, dof := 0, vad := 0, lcid := 0, sf := done, vid := 0,
    death := dzero, birth := dzero, title := [] }

/-- Embeds `enum class LoadType`. -/
inductive LoadType where
  | NODE | SEGMENT | SHELL_SET | BODY | RIGID_BODY | THERMAL | OTHER
  deriving DecidableEq, Repr

/-- Entity of `load.hpp`. -/
structure LoadNode (F : Type) where
  type : LoadType
  nid : Int
  dof : Int
  lcid : Int
  sf : F
  cid : Int
  m1 : Int
  m2 : Int
  m3 : Int
  is_set : Bool
  title : Str

/-- Embeds `LoadNode::LoadNode()`. -/
def LoadNode.init {F : Type} [DoubleModel F] : LoadNode F :=
  { type := .NODE, nid := 0, dof := 0, lcid := 0, sf := done, cid := 0, m1 := 0, m2 := 0,
    m3 := 0, is_set := false, title := [] }

/-- Entity of `load.hpp`. -/
structure LoadSegment (F : Type) where
  lcid : Int
  sf : F
  «at» : F
  n1 : Int
  n2 : Int
  n3 : Int
  n4 : Int
  title : Str

/-- Embeds `LoadSegment::LoadSegment()`. -/
def LoadSegment.init {F : Type} [DoubleModel F] : LoadSegment F :=
  { lcid := 0, sf := done, «at» := dzero, n1 := 0, n2 := 0, n3 := 0, n4 := 0, title := [] }

/-- Entity of `load.hpp`; `direction` is an `int8_t`. -/
structure LoadBody (F : Type) where
  direction : Int
  lcid : Int
  sf : F
  lciddr : Int
  xc : F
  yc : F
  zc : F
  cid : Int

/-- Embeds `LoadBody::LoadBody()`. -/
def LoadBody.init {F : Type} [DoubleModel F] : LoadBody F :=
  { direction := 0, lcid := 0, sf := dzero, lciddr := 0, xc := dzero, yc := dzero,
    zc := dzero, cid := 0 }

/-- Entity of `control.hpp`. -/
structure ControlTermination (F : Type) where
  endtim : F
  endcyc : F
  dtmin : F
  endeng : F
  endmas : F
  nosol : Int

/-- Embeds `ControlTermination()` with its default member initialisers. -/
def ControlTermination.init {F : Type} [DoubleModel F] : ControlTermination F :=
  { endtim := dzero, endcyc := dzero, dtmin := dzero, endeng := dzero, endmas := dzero,
    nosol := 0 }

/-- Entity of `control.hpp`. -/
structure ControlTimestep (F : Type) where
  dtinit : F
  tssfac : F
  isdo : Int
  tslimt : F
  dt2ms : F
  lctm : Int
  erode : Int
  ms1st : Int

/-- Embeds `ControlTimestep()` with its default member initialisers. -/
def ControlTimestep.init {F : Type} [DoubleModel F] : ControlTimestep F :=
  { dtinit := dzero, tssfac := DoubleModel.lit 9 (-1), isdo := 0, tslimt := dzero,
    dt2ms := dzero, lctm := 0, erode := 0, ms1st := 0 }

/-- Entity of `control.hpp`. -/
structure ControlEnergy where
  hgen : Int
  rwen : Int
  slnten : Int
  rylen : Int
  deriving DecidableEq

/-- Embeds `ControlEnergy()` with its default member initialisers. -/
def ControlEnergy.init : ControlEnergy := { hgen := 2, rwen := 2, slnten := 2, rylen := 2 }

/-- Entity of `control.hpp`. -/
structure ControlOutput where
  npopt : Int
  netefm : Int
  nflcit : Int
  nprint : Int
  ikedit : Int
  iflush : Int
  iprtf : Int
  ierode : Int
  deriving DecidableEq

/-- Embeds `ControlOutput()` with its default member initialisers. -/
def ControlOutput.init : ControlOutput :=
  { npopt := 0, netefm := 0, nflcit := 0, nprint := 0, ikedit := 0, iflush := 5000,
    iprtf := 0, ierode := 0 }

/-- Entity of `control.hpp`. -/
structure ControlShell (F : Type) where
  wrpang : F
  esort : Int
  irnxx : Int
  istupd : Int
  theory : Int
  bwc : Int
  miter : Int
  proj : Int

/-- Embeds `ControlShell()` with its default member initialisers. -/
def ControlShell.init {F : Type} [DoubleModel F] : ControlShell F :=
  { wrpang := DoubleModel.lit 20 0, esort := 0, irnxx := -1, istupd := 0, theory := 2,
    bwc := 2, miter := 1, proj := 0 }

/-- Entity of `control.hpp`. -/
structure ControlContact (F : Type) where
  slsfac : F
  rwpnal : F
  islchk : Int
  shlthk : Int
  penopt : Int
  thkchg : F
  otefm : Int
  enmass : Int

/-- Embeds `ControlContact()` with its default member initialisers. -/
def ControlContact.init {F : Type} [DoubleModel F] : ControlContact F :=
  { slsfac := DoubleModel.lit 1 (-1), rwpnal := dzero, islchk := 1, shlthk := 0,
    penopt := 1, thkchg := dzero, otefm := 0, enmass := 0 }

/-- Entity of `control.hpp`. -/
structure ControlHourglass (F : Type) where
  ihq : Int
  qh : F

/-- Embeds `ControlHourglass()` with its default member initialisers. -/
def ControlHourglass.init {F : Type} [DoubleModel F] : ControlHourglass F :=
  { ihq := 1, qh := DoubleModel.lit 1 (-1) }

/-- Entity of `control.hpp`. -/
structure ControlBulkViscosity (F : Type) where
  q1 : F
  q2 : F
  type : Int

/-- Embeds `ControlBulkViscosity()` with its default member initialisers. -/
def ControlBulkViscosity.init {F : Type} [DoubleModel F] : ControlBulkViscosity F :=
  { q1 := DoubleModel.lit 15 (-1), q2 := DoubleModel.lit 6 (-2), type := 1 }

/-- Embeds `enum class DatabaseType`. -/
inductive DatabaseType where
  | BINARY_D3PLOT | BINARY_D3THDT | BINARY_D3DUMP | BINARY_RUNRSF | BINARY_INTFOR
  | GLSTAT | MATSUM | NODOUT | ELOUT | RCFORC | SLEOUT | NODFOR | SECFORC | RWFORC
  | ABSTAT | BNDOUT | SPCFORC | JNTFORC | DEFORC | OTHER
  deriving DecidableEq, Repr

/-- Entity of `database.hpp`. -/
structure DatabaseBinary (F : Type) where
  type : DatabaseType
  dt : F
  lcdt : Int
  beam : Int
  npltc : Int
  psetid : Int

/-- Embeds `DatabaseBinary(DatabaseType t)`; the default constructor is `of_type OTHER`. -/
def DatabaseBinary.of_type {F : Type} [DoubleModel F] (t : DatabaseType) : DatabaseBinary F :=
  { type := t, dt := dzero, lcdt := 0, beam := 0, npltc := 0, psetid := 0 }

/-- Embeds `DatabaseBinary()`. -/
def DatabaseBinary.init {F : Type} [DoubleModel F] : DatabaseBinary F :=
  DatabaseBinary.of_type .OTHER

/-- Entity of `database.hpp`. -/
structure DatabaseASCII (F : Type) where
  type : DatabaseType
  dt : F
  lcdt : Int
  binary : Int
  lcur : Int
  ioopt : Int

/-- Embeds `DatabaseASCII(DatabaseType t)`. -/
def DatabaseASCII.of_type {F : Type} [DoubleModel F] (t : DatabaseType) : DatabaseASCII F :=
  { type := t, dt := dzero, lcdt := 0, binary := 0, lcur := 0, ioopt := 0 }

/-- Embeds `DatabaseASCII()`. -/
def DatabaseASCII.init {F : Type} [DoubleModel F] : DatabaseASCII F :=
  DatabaseASCII.of_type .OTHER

/-- Entity of `database.hpp`. -/
structure DatabaseHistoryNode where
  node_ids : List Int
  title : Str
  deriving DecidableEq

/-- Embeds `DatabaseHistoryNode()`. -/
def DatabaseHistoryNode.init : DatabaseHistoryNode := { node_ids := [], title := [] }

/-- Embeds `DatabaseHistoryNode::add_node`. -/
def DatabaseHistoryNode.add_node (h : DatabaseHistoryNode) (nid : Int) : DatabaseHistoryNode :=
  { h with node_ids := h.node_ids ++ [nid] }

/-- Entity of `database.hpp`; `element_type` is an `int8_t`. -/
structure DatabaseHistoryElement where
  element_ids : List Int
  title : Str
  element_type : Int
  deriving DecidableEq

/-- Embeds `DatabaseHistoryElement()`. -/
def DatabaseHistoryElement.init : DatabaseHistoryElement :=
  { element_ids := [], title := [], element_type := 0 }

/-- Embeds `DatabaseHistoryElement::add_element`. -/
def DatabaseHistoryElement.add_element (h : DatabaseHistoryElement) (eid : Int) :
    DatabaseHistoryElement :=
  { h with element_ids := h.element_ids ++ [eid] }

/-- Entity of `database.hpp`. -/
structure DatabaseCrossSection (F : Type) where
  csid : Int
  title : Str
  psid : Int
  ssid : Int
  tsid : Int
  dsid : Int
  xct : F
  yct : F
  zct : F
  xch : F
  ych : F
  zch : F
  id : Int
  itype : Int

/-- Embeds `DatabaseCrossSection()`. -/
def DatabaseCrossSection.init {F : Type} [DoubleModel F] : DatabaseCrossSection F :=
  { csid := 0, title := [], psid := 0, ssid := 0, tsid := 0, dsid := 0, xct := dzero,
    yct := dzero, zct := dzero, xch := dzero, ych := dzero, zch := dzero, id := 0,
    itype := 0 }

/-- Embeds `enum class InitialVelocityType`. -/
inductive InitialVelocityType where
  | NODE | SET | GENERATION | OTHER
  deriving DecidableEq, Repr

/-- Entity of `initial.hpp`; `icid` is an `int8_t`. -/
structure InitialVelocity (F : Type) where
  type : InitialVelocityType
  nsid : Int
  nsidex : Int
  boxid : Int
  irigid : Int
  vx : F
  vy : F
  vz : F
  vxr : F
  vyr : F
  vzr : F
  omega : F
  xc : F
  yc : F
  zc : F
  ax : F
  ay : F
  az : F
  icid : Int

/-- Embeds `InitialVelocity(InitialVelocityType t)`. -/
def InitialVelocity.of_type {F : Type} [DoubleModel F] (t : InitialVelocityType) :
    InitialVelocity F :=
  { type := t, nsid := 0, nsidex := 0, boxid := 0, irigid := 0, vx := dzero, vy := dzero,
    vz := dzero, vxr := dzero, vyr := dzero, vzr := dzero, omega := dzero, xc := dzero,
    yc := dzero, zc := dzero, ax := dzero, ay := dzero, az := dzero, icid := 0 }

/-- Embeds `InitialVelocity()`. -/
def InitialVelocity.init {F : Type} [DoubleModel F] : InitialVelocity F :=
  InitialVelocity.of_type .OTHER

/-- Entity of `initial.hpp`; `nhisv` is an `int8_t`. -/
structure InitialStress (F : Type) where
  eid : Int
  nplane : Int
  nthick : Int
  large : Int
  nhisv : Int
  sigxx : F
  sigyy : F
  sigzz : F
  sigxy : F
  sigyz : F
  sigzx : F
  eps : F

/-- Embeds `enum class ConstrainedType`. -/
inductive ConstrainedType where
  | NODAL_RIGID_BODY | EXTRA_NODES | JOINT_REVOLUTE | JOINT_SPHERICAL | JOINT_CYLINDRICAL
  | JOINT_TRANSLATIONAL | JOINT_UNIVERSAL | JOINT_PLANAR | RIGID_BODY_STOPPERS | SPOTWELD
  | GENERALIZED_WELD | OTHER
  deriving DecidableEq, Repr

/-- Entity of `constrained.hpp`. -/
structure ConstrainedNodalRigidBody (F : Type) where
  pid : Int
  cid : Int
  nsid : Int
  pnode : Int
  iprt : Int
  drflag : Int
  rrflag : Int
  title : Str
  cmo : F
  xc : F
  yc : F
  zc : F
  ixx : F
  ixy : F
  ixz : F
  iyy : F
  iyz : F
  izz : F
  has_inertia : Bool

/-- Embeds `ConstrainedNodalRigidBody()`. -/
def ConstrainedNodalRigidBody.init {F : Type} [DoubleModel F] : ConstrainedNodalRigidBody F :=
  { pid := 0, cid := 0, nsid := 0, pnode := 0, iprt := 0, drflag := 0, rrflag := 0,
    title := [], cmo := dzero, xc := dzero, yc := dzero, zc := dzero, ixx := dzero,
    ixy := dzero, ixz := dzero, iyy := dzero, iyz := dzero, izz := dzero,
    has_inertia := false }

/-- Entity of `constrained.hpp`. -/
structure ConstrainedExtraNodes where
  pid : Int
  nsid : Int
  node_ids : List Int
  iflag : Int
  title : Str
  is_set : Bool
  deriving DecidableEq

/-- Embeds `ConstrainedExtraNodes()`. -/
def ConstrainedExtraNodes.init : ConstrainedExtraNodes :=
  { pid := 0, nsid := 0, node_ids := [], iflag := 0, title := [], is_set := false }

/-- Embeds `ConstrainedExtraNodes::add_node`. -/
def ConstrainedExtraNodes.add_node (c : ConstrainedExtraNodes) (nid : Int) :
    ConstrainedExtraNodes :=
  { c with node_ids := c.node_ids ++ [nid] }

/-- Entity of `constrained.hpp`. -/
structure ConstrainedJoint (F : Type) where
  joint_type : ConstrainedType
  jid : Int
  n1 : Int
  n2 : Int
  n3 : Int
  n4 : Int
  n5 : Int
  n6 : Int
  rps : Int
  damp : Int
  lcid : F
  title : Str
  stiff : F
  pf : F

/-- Embeds `ConstrainedJoint()`. -/
def ConstrainedJoint.init {F : Type} [DoubleModel F] : ConstrainedJoint F :=
  { joint_type := .OTHER, jid := 0, n1 := 0, n2 := 0, n3 := 0, n4 := 0, n5 := 0, n6 := 0,
    rps := 0, damp := 0, lcid := dzero, title := [], stiff := dzero, pf := dzero }

/-- Entity of `constrained.hpp`. -/
structure ConstrainedSpotweld (F : Type) where
  n1 : Int
  n2 : Int
  sn : F
  ss : F
  n : Int
  m : Int
  tf : F
  pid : Int
  ep_fail : F
  title : Str

/-- Embeds `ConstrainedSpotweld()`. -/
def ConstrainedSpotweld.init {F : Type} [DoubleModel F] : ConstrainedSpotweld F :=
  { n1 := 0, n2 := 0, sn := dzero, ss := dzero, n := 0, m := 0, tf := dzero, pid := 0,
    ep_fail := dzero, title := [] }

/-! ## Parse result, parser state and parser object -/

/-- An `std::unordered_map<int32_t, size_t>`: the lookup function of the map. -/
abbrev IndexMap := Int → Option Nat

/-- The empty map (`clear()`). -/
def IndexMap.empty : IndexMap := fun _ => none

/-- The loop `for (i = 0; i < v.size(); ++i) index[key(v[i])] = i` run on an empty
map, given the keys of `v` in order. -/
def index_of_keys (keys : List Int) : IndexMap :=
  keys.enum.foldl (fun m ik => Function.update m ik.2 (some ik.1)) IndexMap.empty

/-- Embeds `struct ParseResult` (the wall-clock member `parse_time_ms` is left out). -/
structure ParseResult (F : Type) where
  nodes : List (Node F)
  parts : List Part
  elements : List Element
  sets : List (Set F)
  sections : List (Section F)
  contacts : List (Contact F)
  materials : List (Material F)
  includes : List Include
  curves : List (Curve F)
  boundary_spcs : List BoundarySPC
  boundary_motions : List (BoundaryPrescribedMotion F)
  load_nodes : List (LoadNode F)
  load_segments : List (LoadSegment F)
  load_bodies : List (LoadBody F)
  control_terminations : List (ControlTermination F)
  control_timesteps : List (ControlTimestep F)
  control_energies : List ControlEnergy
  control_outputs : List ControlOutput
  control_shells : List (ControlShell F)
  control_contacts : List (ControlContact F)
  control_hourglasses : List (ControlHourglass F)
  control_bulk_viscosities : List (ControlBulkViscosity F)
  database_binaries : List (DatabaseBinary F)
  database_asciis : List (DatabaseASCII F)
  database_history_nodes : List DatabaseHistoryNode
  database_history_elements : List DatabaseHistoryElement
  database_cross_sections : List (DatabaseCrossSection F)
  initial_velocities : List (InitialVelocity F)
  initial_stresses : List (InitialStress F)
  constrained_nodal_rigid_bodies : List (ConstrainedNodalRigidBody F)
  constrained_extra_nodes : List ConstrainedExtraNodes
  constrained_joints : List (ConstrainedJoint F)
  constrained_spotwelds : List (ConstrainedSpotweld F)
  node_index : IndexMap
  part_index : IndexMap
  element_index : IndexMap
  set_index : IndexMap
  section_index : IndexMap
  contact_index : IndexMap
  material_index : IndexMap
  curve_index : IndexMap
  total_lines : Nat
  warnings : List Str
  errors : List Str

/-- A default-constructed `ParseResult`, which is also its state after `clear()`. -/
def ParseResult.init {F : Type} : ParseResult F :=
  { nodes := [], parts := [], elements := [], sets := [], sections := [], contacts := [],
    materials := [], includes := [], curves := [], boundary_spcs := [],
    boundary_motions := [], load_nodes := [], load_segments := [], load_bodies := [],
    control_terminations := [], control_timesteps := [], control_energies := [],
    control_outputs := [], control_shells := [], control_contacts := [],
    control_hourglasses := [], control_bulk_viscosities := [], database_binaries := [],
    database_asciis := [], database_history_nodes := [], database_history_elements := [],
    database_cross_sections := [], initial_velocities := [], initial_stresses := [],
    constrained_nodal_rigid_bodies := [], constrained_extra_nodes := [],
    constrained_joints := [], constrained_spotwelds := [],
    node_index := IndexMap.empty, part_index := IndexMap.empty,
    element_index := IndexMap.empty, set_index := IndexMap.empty,
    section_index := IndexMap.empty, contact_index := IndexMap.empty,
    material_index := IndexMap.empty, curve_index := IndexMap.empty,
    total_lines := 0, warnings := [], errors := [] }

/-- Embeds `ParseResult::build_indices`. -/
def ParseResult.build_indices {F : Type} (r : ParseResult F) : ParseResult F :=
  { r with
    node_index := index_of_keys (r.nodes.map (·.nid))
    part_index := index_of_keys (r.parts.map (·.pid))
    element_index := index_of_keys (r.elements.map (·.eid))
    set_index := index_of_keys (r.sets.map (·.sid))
    section_index := index_of_keys (r.sections.map (·.secid))
    contact_index := index_of_keys (r.contacts.map (·.ssid))
    material_index := index_of_keys (r.materials.map (·.mid))
    curve_index := index_of_keys (r.curves.map (·.lcid)) }

/-- Embeds `enum class ParseState`. -/
inductive ParseState where
  | IDLE
  | IN_NODE
  | IN_PART_NAME
  | IN_PART_DATA
  | IN_ELEMENT_SHELL
  | IN_ELEMENT_SOLID
  | IN_ELEMENT_BEAM
  | IN_SET_NODE_HEADER
  | IN_SET_NODE_DATA
  | IN_SET_PART_HEADER
  | IN_SET_PART_DATA
  | IN_SET_SEGMENT_HEADER
  | IN_SET_SEGMENT_DATA
  | IN_SET_SHELL_HEADER
  | IN_SET_SHELL_DATA
  | IN_SET_SOLID_HEADER
  | IN_SET_SOLID_DATA
  | IN_SECTION_SHELL_HEADER
  | IN_SECTION_SHELL_DATA
  | IN_SECTION_SOLID
  | IN_SECTION_BEAM_HEADER
  | IN_SECTION_BEAM_DATA
  | IN_CONTACT_ID
  | IN_CONTACT_TITLE
  | IN_CONTACT_CARD1
  | IN_CONTACT_CARD2
  | IN_CONTACT_CARD3
  | IN_SECTION_SHELL_TITLE
  | IN_SECTION_SOLID_TITLE
  | IN_SECTION_BEAM_TITLE
  | IN_SET_TITLE
  | IN_MATERIAL_TITLE
  | IN_MATERIAL_DATA
  | IN_INCLUDE
  | IN_CURVE_TITLE
  | IN_CURVE_HEADER
  | IN_CURVE_DATA
  | IN_BOUNDARY_SPC
  | IN_BOUNDARY_MOTION
  | IN_LOAD_NODE
  | IN_LOAD_SEGMENT
  | IN_LOAD_BODY
  | IN_CONTROL_TERMINATION
  | IN_CONTROL_TIMESTEP
  | IN_CONTROL_ENERGY
  | IN_CONTROL_OUTPUT
  | IN_CONTROL_SHELL
  | IN_CONTROL_CONTACT
  | IN_CONTROL_HOURGLASS
  | IN_CONTROL_BULK_VISCOSITY
  | IN_DATABASE_BINARY
  | IN_DATABASE_ASCII
  | IN_DATABASE_HISTORY_NODE
  | IN_DATABASE_HISTORY_ELEMENT
  | IN_DATABASE_CROSS_SECTION
  | IN_INITIAL_VELOCITY
  | IN_INITIAL_VELOCITY_GENERATION
  | IN_INITIAL_STRESS
  | IN_CONSTRAINED_NODAL_RIGID_BODY
  | IN_CONSTRAINED_NODAL_RIGID_BODY_INERTIA
  | IN_CONSTRAINED_EXTRA_NODES
  | IN_CONSTRAINED_JOINT
  | IN_CONSTRAINED_SPOTWELD
  deriving DecidableEq, Repr

/-- The data members of `class KFileParser`: the enable flags and the in-flight
entities. `material_expected_cards_` has no initialiser in the source. -/
structure KFileParser (F : Type) where
  parse_nodes_ : Bool
  parse_parts_ : Bool
  parse_elements_ : Bool
  parse_sets_ : Bool
  parse_sections_ : Bool
  parse_contacts_ : Bool
  parse_materials_ : Bool
  parse_includes_ : Bool
  parse_curves_ : Bool
  parse_boundaries_ : Bool
  parse_loads_ : Bool
  parse_controls_ : Bool
  parse_databases_ : Bool
  parse_initials_ : Bool
  parse_constraineds_ : Bool
  build_index_ : Bool
  current_set_ : Set F
  current_section_ : Section F
  current_contact_ : Contact F
  current_material_ : Material F
  material_expected_cards_ : Int
  current_curve_ : Curve F
  current_boundary_spc_ : BoundarySPC
  current_boundary_motion_ : BoundaryPrescribedMotion F
  current_load_node_ : LoadNode F
  current_load_body_ : LoadBody F
  current_control_termination_ : ControlTermination F
  current_control_timestep_ : ControlTimestep F
  current_database_binary_ : DatabaseBinary F
  current_database_ascii_ : DatabaseASCII F
  current_database_history_node_ : DatabaseHistoryNode
  current_database_history_element_ : DatabaseHistoryElement
  current_initial_velocity_ : InitialVelocity F
  current_constrained_nodal_rigid_body_ : ConstrainedNodalRigidBody F
  current_constrained_extra_nodes_ : ConstrainedExtraNodes
  current_constrained_joint_ : ConstrainedJoint F
  current_constrained_spotweld_ : ConstrainedSpotweld F

/-- Embeds `KFileParser::KFileParser()`: every flag enabled, every in-flight entity
default-constructed; the uninitialised `material_expected_cards_` is a parameter. -/
def KFileParser.init {F : Type} [DoubleModel F] (expected_cards : Int) : KFileParser F :=
  { parse_nodes_ := true, parse_parts_ := true, parse_elements_ := true,
    parse_sets_ := true, parse_sections_ := true, parse_contacts_ := true,
    parse_materials_ := true, parse_includes_ := true, parse_curves_ := true,
    parse_boundaries_ := true, parse_loads_ := true, parse_controls_ := true,
    parse_databases_ := true, parse_initials_ := true, parse_constraineds_ := true,
    build_index_ := true,
    current_set_ := Set.init, current_section_ := Section.init,
    current_contact_ := Contact.init, current_material_ := Material.init,
    material_expected_cards_ := expected_cards, current_curve_ := Curve.init,
    current_boundary_spc_ := BoundarySPC.init,
    current_boundary_motion_ := BoundaryPrescribedMotion.init,
    current_load_node_ := LoadNode.init, current_load_body_ := LoadBody.init,
    current_control_termination_ := ControlTermination.init,
    current_control_timestep_ := ControlTimestep.init,
    current_database_binary_ := DatabaseBinary.init,
    current_database_ascii_ := DatabaseASCII.init,
    current_database_history_node_ := DatabaseHistoryNode.init,
    current_database_history_element_ := DatabaseHistoryElement.init,
    current_initial_velocity_ := InitialVelocity.init,
    current_constrained_nodal_rigid_body_ := ConstrainedNodalRigidBody.init,
    current_constrained_extra_nodes_ := ConstrainedExtraNodes.init,
    current_constrained_joint_ := ConstrainedJoint.init,
    current_constrained_spotweld_ := ConstrainedSpotweld.init }

/-- Everything `process_line` can read and write: the parser object (`this`) and the
three reference parameters `state`, `part_name`, `result`. -/
structure Ctx (F : Type) where
  self : KFileParser F
  state : ParseState
  part_name : Str
  result : ParseResult F

/-! ## Statement blocks -/

/-- A block of statements run against the mutable state `σ`: the state it leaves
behind, with the value it computed or the exception that escaped from it. Effects
made before a throw are kept, as in C++. -/
@[reducible] def Run (σ α : Type) : Type := σ → Except Exn α × σ

namespace Run

variable {σ α β : Type}

/-- A block that only yields `a`. -/
def ret (a : α) : Run σ α := fun s => (.ok a, s)

/-- Sequencing: `f` runs only when `m` did not throw. -/
def seq_bind (m : Run σ α) (f : α → Run σ β) : Run σ β := fun s =>
  match m s with
  | (.ok a, s1) => f a s1
  | (.error e, s1) => (.error e, s1)

instance : Monad (Run σ) where
  pure := ret
  bind := seq_bind

/-- Evaluate an expression that may throw. -/
def eval (x : Except Exn α) : Run σ α := fun s => (x, s)

/-- Apply an update to the state. -/
def update (f : σ → σ) : Run σ Unit := fun s => (.ok (), f s)

/-- Read the state. -/
def read : Run σ σ := fun s => (.ok s, s)

/-- The statement `lhs = rhs;` where `rhs` may throw: nothing is stored on a throw. -/
def assign (rhs : Except Exn α) (store : α → σ → σ) : Run σ Unit := fun s =>
  match rhs with
  | .ok v => (.ok (), store v s)
  | .error e => (.error e, s)

/-- The statement `try body catch (const std::exception& e) handler`. -/
def try_catch (body : Run σ α) (handler : Exn → Run σ α) : Run σ α := fun s =>
  match body s with
  | (.ok a, s1) => (.ok a, s1)
  | (.error e, s1) => handler e s1

end Run

namespace Run

variable {σ τ α : Type}

/-- Run a block written against a part `τ` of the state (an object passed by
reference) inside the whole state `σ`. -/
def zoom (get : σ → τ) (put : τ → σ → σ) (m : Run τ α) : Run σ α := fun s =>
  match m (get s) with
  | (r, t) => (r, put t s)

end Run

/-! ## Static decoding utilities of the parser -/

/-- Embeds `KFileParser::parse_node_line`. -/
def parse_node_line {F : Type} [DoubleModel F] (line : Str) : Except Exn (Node F) := do
  let nid ← parse_int line 0 8
  let x ← parse_double line 8 16
  let y ← parse_double line 24 16
  let z ← parse_double line 40 16
  let tc ← if line.length > 56 then parse_int line 56 8 else .ok 0
  let rc ← if line.length > 64 then parse_int line 64 8 else .ok 0
  .ok { nid := nid, x := x, y := y, z := z, tc := tc, rc := rc }

/-- Embeds `KFileParser::parse_part_lines`. -/
def parse_part_lines (name_line data_line : Str) : Except Exn Part := do
  let name_field ← substr name_line 0 (min 80 name_line.length)
  let name := trim name_field
  let pid ← parse_int data_line 0 10
  let secid ← parse_int data_line 10 10
  let mid ← parse_int data_line 20 10
  let eosid ← if data_line.length > 30 then parse_int data_line 30 10 else .ok 0
  let hgid ← if data_line.length > 40 then parse_int data_line 40 10 else .ok 0
  let grav ← if data_line.length > 50 then parse_int data_line 50 10 else .ok 0
  let adpopt ← if data_line.length > 60 then parse_int data_line 60 10 else .ok 0
  let tmid ← if data_line.length > 70 then parse_int data_line 70 10 else .ok 0
  .ok { name := name, pid := pid, secid := secid, mid := mid, eosid := eosid,
        hgid := hgid, grav := grav, adpopt := adpopt, tmid := tmid }

/-- The loop `for (int i = 0; i < 8; ++i)` of `parse_element_line`, run over the
remaining values of `i`; the state is the element under construction and `count`. -/
def parse_element_nodes (line : Str) : List Nat → Element × Int → Except Exn (Element × Int)
  | [], st => .ok st
  | i :: rest, (elem, count) =>
    let start := 16 + i * 8
    if start < line.length then do
      let nid ← parse_int line start 8
      let elem := { elem with nodes := elem.nodes.set i nid }
      let count := if nid > 0 then (i : Int) + 1 else count
      parse_element_nodes line rest (elem, count)
    else
      parse_element_nodes line rest ({ elem with nodes := elem.nodes.set i 0 }, count)

/-- Embeds `KFileParser::parse_element_line`. -/
def parse_element_line (line : Str) (type : ElementType) : Except Exn Element := do
  let elem := { Element.init with type := type }
  let eid ← parse_int line 0 8
  let elem := { elem with eid := eid }
  let pid ← parse_int line 8 8
  let elem := { elem with pid := pid }
  let (elem, count) ← parse_element_nodes line [0, 1, 2, 3, 4, 5, 6, 7] (elem, 0)
  .ok { elem with node_count := if count ≥ 3 then count else 0 }

/-- Embeds `KFileParser::parse_set_header`. -/
def parse_set_header {F : Type} [DoubleModel F] (line : Str) (type : SetType) :
    Except Exn (Set F) := do
  let set : Set F := { (Set.init : Set F) with type := type }
  let sid ← parse_int line 0 10
  let da1 ← parse_double line 10 10
  let da2 ← parse_double line 20 10
  let da3 ← parse_double line 30 10
  let da4 ← parse_double line 40 10
  let set := { set with sid := sid, da1 := da1, da2 := da2, da3 := da3, da4 := da4 }
  if line.length > 50 then do
    let field ← parse_string_field line 50 10
    .ok { set with solver := trim field }
  else .ok set

/-- The loop `for (int i = 0; i < 8; ++i)` of `parse_set_data_line`, run over the
remaining values of `i` against the set passed by reference. -/
def parse_set_data_loop {F : Type} (line : Str) : List Nat → Run (Set F) Unit
  | [] => pure ()
  | i :: rest => do
    let start := i * 10
    if start < line.length then
      let id ← Run.eval (parse_int line start 10)
      Run.update (fun set => set.add_id id)
    parse_set_data_loop line rest

/-- Embeds `KFileParser::parse_set_data_line`. -/
def parse_set_data_line {F : Type} (line : Str) : Run (Set F) Unit :=
  parse_set_data_loop line [0, 1, 2, 3, 4, 5, 6, 7]

/-- Embeds `KFileParser::parse_segment_data_line`. -/
def parse_segment_data_line {F : Type} (line : Str) : Run (Set F) Unit := do
  let n1 ← Run.eval (parse_int line 0 10)
  let n2 ← Run.eval (parse_int line 10 10)
  let n3 ← Run.eval (parse_int line 20 10)
  let n4 ← Run.eval (parse_int line 30 10)
  Run.update (fun set => set.add_segment n1 n2 n3 n4)

/-! ## `process_line`: the keyword branch -/

section Keyword

variable {F : Type} [DoubleModel F]

/-- The test `s.find(pat) == 0`. -/
def found_at_0 (s : Str) (pat : String) : Bool := find s pat.toList = some 0

/-- The test `s.find(pat) != std::string::npos`. -/
def found (s : Str) (pat : String) : Bool := (find s pat.toList).isSome

/-- The statement `state = st;`. -/
def set_state (st : ParseState) : Run (Ctx F) Unit :=
  Run.update (fun c => { c with state := st })

/-- The statement `result.warnings.push_back(msg + std::string(e.what()));`. -/
def warn (msg : String) (e : Exn) : Run (Ctx F) Unit :=
  Run.update (fun c => { c with result.warnings := c.result.warnings ++ [msg.toList ++ e.what] })

/-- The shape `if (flag) body else state = ParseState::IDLE;`. -/
def when_enabled (flag : KFileParser F → Bool) (body : Run (Ctx F) Unit) : Run (Ctx F) Unit :=
  fun c => if flag c.self then body c else set_state .IDLE c

/-- The shape `state = flag ? st : ParseState::IDLE;`. -/
def select_state (flag : KFileParser F → Bool) (st : ParseState) : Run (Ctx F) Unit :=
  Run.update (fun c => { c with state := if flag c.self then st else .IDLE })

/-- The statement
`if (current_set_.sid > 0 && current_set_.count() > 0) result.sets.push_back(current_set_);`. -/
def push_current_set : Run (Ctx F) Unit :=
  Run.update (fun c =>
    if c.self.current_set_.sid > 0 ∧ c.self.current_set_.count > 0 then
      { c with result.sets := c.result.sets ++ [c.self.current_set_] }
    else c)

/-- The body shared by the five `*SET_...` branches (parser.cpp 115-199): commit the
in-flight set, start a new one of the given type and pick the title or header
state. -/
def begin_set (upper_line : Str) (type : SetType) (header : ParseState) : Run (Ctx F) Unit :=
  when_enabled (·.parse_sets_) (do
    push_current_set
    Run.update (fun c => { c with self.current_set_ := Set.init })
    Run.update (fun c => { c with self.current_set_.type := type })
    if found upper_line "_TITLE" then set_state .IN_SET_TITLE else set_state header)

/-- The body shared by the three `*SECTION_...` branches (parser.cpp 201-243). -/
def begin_section (upper_line : Str) (type : SectionType) (title header : ParseState) :
    Run (Ctx F) Unit :=
  when_enabled (·.parse_sections_) (do
    Run.update (fun c => { c with self.current_section_ := Section.init })
    Run.update (fun c => { c with self.current_section_.type := type })
    if found upper_line "_TITLE" then set_state title else set_state header)

/-- The `while (option_pos != npos)` loop of the `*CONTACT_` branch (parser.cpp
257-273). The state is `(type_name, has_id, has_title)`; `option_pos` grows on every
iteration, so `fuel = type_name.size() + 1` iterations always suffice. -/
def contact_options : Nat → Option Nat → Str × Bool × Bool → Except Exn (Str × Bool × Bool)
  | 0, _, st => .ok st
  | _ + 1, none, st => .ok st
  | fuel + 1, some option_pos, (type_name, has_id, has_title) => do
    let suffix ← substr_from type_name (option_pos + 1)
    if suffix = "ID".toList ∨ find suffix "ID".toList = some 0 then
      let type_name ← substr type_name 0 option_pos
      .ok (type_name, true, has_title)
    else if suffix = "TITLE".toList ∨ find suffix "TITLE".toList = some 0 then
      let type_name ← substr type_name 0 option_pos
      .ok (type_name, has_id, true)
    else if suffix = "MPP".toList ∨ find suffix "MPP".toList = some 0 then
      let type_name ← substr type_name 0 option_pos
      .ok (type_name, has_id, has_title)
    else
      contact_options fuel (find_char_from type_name '_' (option_pos + 1))
        (type_name, has_id, has_title)

/-- The chain that maps the stripped contact name to `ContactType` (parser.cpp
277-297). -/
def contact_type_of (type_name : Str) : ContactType :=
  if found_at_0 type_name "AUTOMATIC_SINGLE_SURFACE" then .AUTOMATIC_SINGLE_SURFACE
  else if found_at_0 type_name "AUTOMATIC_SURFACE_TO_SURFACE" then .AUTOMATIC_SURFACE_TO_SURFACE
  else if found_at_0 type_name "AUTOMATIC_NODES_TO_SURFACE" then .AUTOMATIC_NODES_TO_SURFACE
  else if found_at_0 type_name "AUTOMATIC_GENERAL" then .AUTOMATIC_GENERAL
  else if found_at_0 type_name "TIED_SURFACE_TO_SURFACE" then .TIED_SURFACE_TO_SURFACE
  else if found_at_0 type_name "TIED_NODES_TO_SURFACE" then .TIED_NODES_TO_SURFACE
  else if found_at_0 type_name "TIED_SHELL_EDGE_TO_SURFACE" then .TIED_SHELL_EDGE_TO_SURFACE
  else if found_at_0 type_name "SURFACE_TO_SURFACE" then .SURFACE_TO_SURFACE
  else if found_at_0 type_name "NODES_TO_SURFACE" then .NODES_TO_SURFACE
  else .OTHER

/-- The `*CONTACT_` branch (parser.cpp 245-310). -/
def begin_contact (upper_line : Str) : Run (Ctx F) Unit :=
  when_enabled (·.parse_contacts_) (do
    Run.update (fun c => { c with self.current_contact_ := Contact.init })
    let type_name ← Run.eval (substr_from upper_line 9)
    let (type_name, has_id, has_title) ← Run.eval
      (contact_options (type_name.length + 1) (find_char_from type_name '_' 0)
        (type_name, false, false))
    Run.update (fun c => { c with self.current_contact_.type_name := type_name })
    Run.update (fun c => { c with self.current_contact_.type := contact_type_of type_name })
    if has_id then set_state .IN_CONTACT_ID
    else if has_title then set_state .IN_CONTACT_TITLE
    else set_state .IN_CONTACT_CARD1)

/-- The chain that maps the material type text to `MaterialType` and the expected
number of cards (parser.cpp 331-362). -/
def material_type_of (type_str : Str) : MaterialType × Int :=
  if type_str = "ELASTIC".toList ∨ type_str = "001".toList then (.ELASTIC, 1)
  else if type_str = "ORTHOTROPIC_ELASTIC".toList ∨ type_str = "002".toList then
    (.ORTHOTROPIC_ELASTIC, 2)
  else if type_str = "PLASTIC_KINEMATIC".toList ∨ type_str = "003".toList then
    (.PLASTIC_KINEMATIC, 1)
  else if type_str = "RIGID".toList ∨ type_str = "020".toList then (.RIGID, 3)
  else if type_str = "PIECEWISE_LINEAR_PLASTICITY".toList ∨ type_str = "024".toList then
    (.PIECEWISE_LINEAR_PLASTICITY, 2)
  else if type_str = "FABRIC".toList ∨ type_str = "034".toList then (.FABRIC, 4)
  else if type_str = "COMPOSITE_DAMAGE".toList ∨ type_str = "054".toList
      ∨ type_str = "055".toList then (.COMPOSITE_DAMAGE, 6)
  else if type_str = "LAMINATED_COMPOSITE_FABRIC".toList ∨ type_str = "058".toList then
    (.LAMINATED_COMPOSITE_FABRIC, 5)
  else if type_str = "COMPOSITE_FAILURE".toList
      ∨ type_str = "ENHANCED_COMPOSITE_DAMAGE".toList ∨ type_str = "059".toList then
    (.COMPOSITE_FAILURE, 5)
  else (.OTHER, 10)

/-- The statement
`if (current_material_.mid > 0) result.materials.push_back(current_material_);`. -/
def push_current_material : Run (Ctx F) Unit :=
  Run.update (fun c =>
    if c.self.current_material_.mid > 0 then
      { c with result.materials := c.result.materials ++ [c.self.current_material_] }
    else c)

/-- The `*MAT_` branch (parser.cpp 312-369). -/
def begin_material (upper_line : Str) : Run (Ctx F) Unit :=
  when_enabled (·.parse_materials_) (do
    push_current_material
    Run.update (fun c => { c with self.current_material_ := Material.init })
    let type_str ← Run.eval (substr_from upper_line 5)
    let has_title := found type_str "_TITLE"
    let type_str ←
      if has_title then
        Run.eval (substr type_str 0 ((find type_str "_TITLE".toList).getD 0))
      else pure type_str
    Run.update (fun c => { c with self.current_material_.type_name := type_str })
    Run.update (fun c => { c with
      self.current_material_.type := (material_type_of type_str).1,
      self.material_expected_cards_ := (material_type_of type_str).2 })
    set_state (if has_title then .IN_MATERIAL_TITLE else .IN_MATERIAL_DATA))

/-- The statement
`if (current_curve_.lcid > 0) result.curves.push_back(current_curve_);`. -/
def push_current_curve : Run (Ctx F) Unit :=
  Run.update (fun c =>
    if c.self.current_curve_.lcid > 0 then
      { c with result.curves := c.result.curves ++ [c.self.current_curve_] }
    else c)

/-- The `*DEFINE_CURVE` branch (parser.cpp 382-394). -/
def begin_curve (upper_line : Str) : Run (Ctx F) Unit :=
  when_enabled (·.parse_curves_) (do
    push_current_curve
    Run.update (fun c => { c with self.current_curve_ := Curve.init })
    let has_title := found upper_line "_TITLE"
    set_state (if has_title then .IN_CURVE_TITLE else .IN_CURVE_HEADER))

/-- The `*BOUNDARY_SPC` branch (parser.cpp 396-410). -/
def begin_boundary_spc (upper_line : Str) : Run (Ctx F) Unit :=
  when_enabled (·.parse_boundaries_) (do
    Run.update (fun c => { c with self.current_boundary_spc_ := BoundarySPC.init })
    if found_at_0 upper_line "*BOUNDARY_SPC_SET" then
      Run.update (fun c => { c with self.current_boundary_spc_.type := .SPC_SET })
    else if found_at_0 upper_line "*BOUNDARY_SPC_NODE" then
      Run.update (fun c => { c with self.current_boundary_spc_.type := .SPC_NODE })
    else
      Run.update (fun c => { c with self.current_boundary_spc_.type := .SPC_NODE })
    set_state .IN_BOUNDARY_SPC)

/-- The `*BOUNDARY_PRESCRIBED_MOTION` branch (parser.cpp 412-425). -/
def begin_boundary_motion (upper_line : Str) : Run (Ctx F) Unit :=
  when_enabled (·.parse_boundaries_) (do
    Run.update (fun c => { c with self.current_boundary_motion_ := BoundaryPrescribedMotion.init })
    if found upper_line "_SET" then
      Run.update (fun c => { c with self.current_boundary_motion_.type := .PRESCRIBED_MOTION_SET })
    else
      Run.update (fun c => { c with self.current_boundary_motion_.type := .PRESCRIBED_MOTION_NODE })
    set_state .IN_BOUNDARY_MOTION)

/-- The `*LOAD_NODE` branch (parser.cpp 427-437). -/
def begin_load_node (upper_line : Str) : Run (Ctx F) Unit :=
  when_enabled (·.parse_loads_) (do
    Run.update (fun c => { c with self.current_load_node_ := LoadNode.init })
    Run.update (fun c => { c with self.current_load_node_.type := .NODE })
    Run.update (fun c => { c with self.current_load_node_.is_set := found upper_line "_SET" })
    set_state .IN_LOAD_NODE)

/-- The `*LOAD_BODY` branch (parser.cpp 447-462). -/
def begin_load_body (upper_line : Str) : Run (Ctx F) Unit :=
  when_enabled (·.parse_loads_) (do
    Run.update (fun c => { c with self.current_load_body_ := LoadBody.init })
    if found_at_0 upper_line "*LOAD_BODY_X" then
      Run.update (fun c => { c with self.current_load_body_.direction := 1 })
    else if found_at_0 upper_line "*LOAD_BODY_Y" then
      Run.update (fun c => { c with self.current_load_body_.direction := 2 })
    else if found_at_0 upper_line "*LOAD_BODY_Z" then
      Run.update (fun c => { c with self.current_load_body_.direction := 3 })
    set_state .IN_LOAD_BODY)

/-- The `*DATABASE_BINARY_...` branches (parser.cpp 536-552). -/
def begin_database_binary (t : DatabaseType) : Run (Ctx F) Unit :=
  when_enabled (·.parse_databases_) (do
    Run.update (fun c => { c with self.current_database_binary_ := DatabaseBinary.of_type t })
    set_state .IN_DATABASE_BINARY)

/-- The ASCII `*DATABASE_...` branches (parser.cpp 554-609). -/
def begin_database_ascii (t : DatabaseType) : Run (Ctx F) Unit :=
  when_enabled (·.parse_databases_) (do
    Run.update (fun c => { c with self.current_database_ascii_ := DatabaseASCII.of_type t })
    set_state .IN_DATABASE_ASCII)

/-- The `*DATABASE_HISTORY_NODE` branch (parser.cpp 611-619). -/
def begin_database_history_node : Run (Ctx F) Unit :=
  when_enabled (·.parse_databases_) (do
    Run.update (fun c => { c with
      self.current_database_history_node_ := DatabaseHistoryNode.init })
    set_state .IN_DATABASE_HISTORY_NODE)

/-- The `*DATABASE_HISTORY_SHELL/SOLID/BEAM` branches (parser.cpp 621-647). -/
def begin_database_history_element (element_type : Int) : Run (Ctx F) Unit :=
  when_enabled (·.parse_databases_) (do
    Run.update (fun c => { c with
      self.current_database_history_element_ := DatabaseHistoryElement.init })
    Run.update (fun c => { c with
      self.current_database_history_element_.element_type := element_type })
    set_state .IN_DATABASE_HISTORY_ELEMENT)

/-- The `*INITIAL_VELOCITY_GENERATION` branch (parser.cpp 649-657). -/
def begin_initial_velocity_generation : Run (Ctx F) Unit :=
  when_enabled (·.parse_initials_) (do
    Run.update (fun c => { c with
      self.current_initial_velocity_ := InitialVelocity.of_type .GENERATION })
    set_state .IN_INITIAL_VELOCITY_GENERATION)

/-- The `*INITIAL_VELOCITY` branch (parser.cpp 658-672). -/
def begin_initial_velocity (upper_line : Str) : Run (Ctx F) Unit :=
  when_enabled (·.parse_initials_) (do
    Run.update (fun c => { c with self.current_initial_velocity_ := InitialVelocity.init })
    if found upper_line "_SET" then
      Run.update (fun c => { c with self.current_initial_velocity_.type := .SET })
    else if found upper_line "_NODE" then
      Run.update (fun c => { c with self.current_initial_velocity_.type := .NODE })
    else
      Run.update (fun c => { c with self.current_initial_velocity_.type := .NODE })
    set_state .IN_INITIAL_VELOCITY)

/-- The `*CONSTRAINED_NODAL_RIGID_BODY` branch (parser.cpp 674-686). -/
def begin_constrained_nodal_rigid_body (upper_line : Str) : Run (Ctx F) Unit :=
  when_enabled (·.parse_constraineds_) (do
    Run.update (fun c => { c with
      self.current_constrained_nodal_rigid_body_ := ConstrainedNodalRigidBody.init })
    if found upper_line "_INERTIA" then
      Run.update (fun c => { c with self.current_constrained_nodal_rigid_body_.has_inertia := true })
      set_state .IN_CONSTRAINED_NODAL_RIGID_BODY_INERTIA
    else
      set_state .IN_CONSTRAINED_NODAL_RIGID_BODY)

/-- The `*CONSTRAINED_EXTRA_NODES` branch (parser.cpp 688-697). -/
def begin_constrained_extra_nodes (upper_line : Str) : Run (Ctx F) Unit :=
  when_enabled (·.parse_constraineds_) (do
    Run.update (fun c => { c with
      self.current_constrained_extra_nodes_ := ConstrainedExtraNodes.init })
    Run.update (fun c => { c with
      self.current_constrained_extra_nodes_.is_set := found upper_line "_SET" })
    set_state .IN_CONSTRAINED_EXTRA_NODES)

/-- The chain selecting the joint subtype (parser.cpp 702-714); `none` when no
subtype atom occurs and the member keeps its default. -/
def joint_type_of (upper_line : Str) : Option ConstrainedType :=
  if found upper_line "_REVOLUTE" then some .JOINT_REVOLUTE
  else if found upper_line "_SPHERICAL" then some .JOINT_SPHERICAL
  else if found upper_line "_CYLINDRICAL" then some .JOINT_CYLINDRICAL
  else if found upper_line "_TRANSLATIONAL" then some .JOINT_TRANSLATIONAL
  else if found upper_line "_UNIVERSAL" then some .JOINT_UNIVERSAL
  else if found upper_line "_PLANAR" then some .JOINT_PLANAR
  else none

/-- The `*CONSTRAINED_JOINT` branch (parser.cpp 699-719). -/
def begin_constrained_joint (upper_line : Str) : Run (Ctx F) Unit :=
  when_enabled (·.parse_constraineds_) (do
    Run.update (fun c => { c with self.current_constrained_joint_ := ConstrainedJoint.init })
    match joint_type_of upper_line with
    | some t => Run.update (fun c => { c with self.current_constrained_joint_.joint_type := t })
    | none => pure ()
    set_state .IN_CONSTRAINED_JOINT)

/-- The `*CONSTRAINED_SPOTWELD` branch (parser.cpp 721-729). -/
def begin_constrained_spotweld : Run (Ctx F) Unit :=
  when_enabled (·.parse_constraineds_) (do
    Run.update (fun c => { c with
      self.current_constrained_spotweld_ := ConstrainedSpotweld.init })
    set_state .IN_CONSTRAINED_SPOTWELD)

/-- The final `else` of the keyword chain (parser.cpp 730-747): commit and reset the
in-flight set, material and curve, then go idle. -/
def other_keyword : Run (Ctx F) Unit := do
  Run.update (fun c =>
    if c.self.current_set_.sid > 0 ∧ c.self.current_set_.count > 0 then
      { c with result.sets := c.result.sets ++ [c.self.current_set_],
               self.current_set_ := Set.init }
    else c)
  Run.update (fun c =>
    if c.self.current_material_.mid > 0 then
      { c with result.materials := c.result.materials ++ [c.self.current_material_],
               self.current_material_ := Material.init }
    else c)
  Run.update (fun c =>
    if c.self.current_curve_.lcid > 0 then
      { c with result.curves := c.result.curves ++ [c.self.current_curve_],
               self.current_curve_ := Curve.init }
    else c)
  set_state .IDLE

end Keyword

/-! ## `process_line`: the data states -/

section Data

variable {F : Type} [DoubleModel F]

/-- Embeds `static_cast<int8_t>(v)` for an `int32_t` value. -/
def to_int8 (v : Int) : Int := (v + 128) % 256 - 128

/-- Embeds `case ParseState::IN_NODE` (parser.cpp 745-753). -/
def case_IN_NODE (line : Str) : Run (Ctx F) Unit :=
  Run.try_catch
    (Run.assign (parse_node_line line)
      (fun node c => { c with result.nodes := c.result.nodes ++ [node] }))
    (fun e => warn "Node parse warning: " e)

/-- Embeds `case ParseState::IN_PART_NAME` (parser.cpp 755-759). -/
def case_IN_PART_NAME (line : Str) : Run (Ctx F) Unit := do
  Run.assign (parse_string_field line 0 80) (fun v c => { c with part_name := v })
  set_state .IN_PART_DATA

/-- Embeds `case ParseState::IN_PART_DATA` (parser.cpp 761-770). -/
def case_IN_PART_DATA (line : Str) : Run (Ctx F) Unit := do
  Run.try_catch
    (do
      let c ← Run.read
      Run.assign (parse_part_lines c.part_name line)
        (fun part c => { c with result.parts := c.result.parts ++ [part] }))
    (fun e => warn "Part parse warning: " e)
  set_state .IDLE

/-- Embeds `case ParseState::IN_ELEMENT_SHELL / SOLID / BEAM` (parser.cpp 772-800). -/
def case_IN_ELEMENT (line : Str) (type : ElementType) : Run (Ctx F) Unit :=
  Run.try_catch
    (Run.assign (parse_element_line line type)
      (fun elem c => { c with result.elements := c.result.elements ++ [elem] }))
    (fun e => warn "Element parse warning: " e)

/-- Embeds `case ParseState::IN_SET_TITLE` (parser.cpp 802-822). -/
def case_IN_SET_TITLE : Run (Ctx F) Unit := do
  let c ← Run.read
  match c.self.current_set_.type with
  | .NODE_LIST => set_state .IN_SET_NODE_HEADER
  | .PART_LIST => set_state .IN_SET_PART_HEADER
  | .SEGMENT => set_state .IN_SET_SEGMENT_HEADER
  | .SHELL => set_state .IN_SET_SHELL_HEADER
  | .SOLID => set_state .IN_SET_SOLID_HEADER

/-- The five `IN_SET_*_HEADER` cases (parser.cpp 825-904). -/
def case_IN_SET_HEADER (line : Str) (type : SetType) (data : ParseState) : Run (Ctx F) Unit :=
  Run.try_catch
    (do
      Run.assign (parse_set_header line type) (fun s c => { c with self.current_set_ := s })
      set_state data)
    (fun e => do
      warn "Set header parse warning: " e
      set_state .IDLE)

/-- The `IN_SET_NODE/PART/SHELL/SOLID_DATA` cases (parser.cpp 835-913). -/
def case_IN_SET_DATA (line : Str) : Run (Ctx F) Unit :=
  Run.try_catch
    (Run.zoom (fun c => c.self.current_set_) (fun s c => { c with self.current_set_ := s })
      (parse_set_data_line line))
    (fun e => warn "Set data parse warning: " e)

/-- Embeds `case ParseState::IN_SET_SEGMENT_DATA` (parser.cpp 866-873). -/
def case_IN_SET_SEGMENT_DATA (line : Str) : Run (Ctx F) Unit :=
  Run.try_catch
    (Run.zoom (fun c => c.self.current_set_) (fun s c => { c with self.current_set_ := s })
      (parse_segment_data_line line))
    (fun e => warn "Segment data parse warning: " e)

/-- The statements `result.sections.push_back(current_section_); current_section_ =
Section();`. -/
def push_current_section : Run (Ctx F) Unit :=
  Run.update (fun c =>
    { c with result.sections := c.result.sections ++ [c.self.current_section_],
             self.current_section_ := Section.init })

/-- Embeds `case ParseState::IN_SECTION_SHELL_HEADER` (parser.cpp 935-953). -/
def case_IN_SECTION_SHELL_HEADER (line : Str) : Run (Ctx F) Unit :=
  Run.try_catch
    (do
      Run.assign (parse_int line 0 10) (fun v c => { c with self.current_section_.secid := v })
      Run.assign (parse_int line 10 10) (fun v c => { c with self.current_section_.elform := v })
      Run.assign (parse_double line 20 10) (fun v c => { c with self.current_section_.shrf := v })
      Run.assign (parse_int line 30 10) (fun v c => { c with self.current_section_.nip := v })
      Run.assign (parse_double line 40 10) (fun v c => { c with self.current_section_.propt := v })
      Run.assign (parse_int line 50 10) (fun v c => { c with self.current_section_.qr_irid := v })
      Run.assign (parse_int line 60 10) (fun v c => { c with self.current_section_.icomp := v })
      Run.assign (parse_int line 70 10) (fun v c => { c with self.current_section_.setyp := v })
      set_state .IN_SECTION_SHELL_DATA)
    (fun e => do
      warn "Section shell header parse warning: " e
      set_state .IDLE)

/-- Embeds `case ParseState::IN_SECTION_SHELL_DATA` (parser.cpp 954-973). -/
def case_IN_SECTION_SHELL_DATA (line : Str) : Run (Ctx F) Unit := do
  Run.try_catch
    (do
      Run.assign (parse_double line 0 10) (fun v c => { c with
        self.current_section_.thickness := c.self.current_section_.thickness.set 0 v })
      Run.assign (parse_double line 10 10) (fun v c => { c with
        self.current_section_.thickness := c.self.current_section_.thickness.set 1 v })
      Run.assign (parse_double line 20 10) (fun v c => { c with
        self.current_section_.thickness := c.self.current_section_.thickness.set 2 v })
      Run.assign (parse_double line 30 10) (fun v c => { c with
        self.current_section_.thickness := c.self.current_section_.thickness.set 3 v })
      Run.assign (parse_double line 40 10) (fun v c => { c with self.current_section_.nloc := v })
      Run.assign (parse_double line 50 10) (fun v c => { c with self.current_section_.marea := v })
      Run.assign (parse_double line 60 10) (fun v c => { c with self.current_section_.idof := v })
      Run.assign (parse_double line 70 10) (fun v c => { c with self.current_section_.edgset := v })
      push_current_section)
    (fun e => warn "Section shell data parse warning: " e)
  set_state .IDLE

/-- Embeds `case ParseState::IN_SECTION_SOLID` (parser.cpp 975-989). -/
def case_IN_SECTION_SOLID (line : Str) : Run (Ctx F) Unit := do
  Run.try_catch
    (do
      Run.assign (parse_int line 0 10) (fun v c => { c with self.current_section_.secid := v })
      Run.assign (parse_int line 10 10) (fun v c => { c with self.current_section_.elform := v })
      Run.assign (parse_int line 20 10) (fun v c => { c with self.current_section_.aet := v })
      push_current_section)
    (fun e => warn "Section solid parse warning: " e)
  set_state .IDLE

/-- Embeds `case ParseState::IN_SECTION_BEAM_HEADER` (parser.cpp 991-1008). -/
def case_IN_SECTION_BEAM_HEADER (line : Str) : Run (Ctx F) Unit :=
  Run.try_catch
    (do
      Run.assign (parse_int line 0 10) (fun v c => { c with self.current_section_.secid := v })
      Run.assign (parse_int line 10 10) (fun v c => { c with self.current_section_.elform := v })
      Run.assign (parse_double line 20 10) (fun v c => { c with self.current_section_.shrf := v })
      Run.assign (parse_int line 30 10) (fun v c => { c with self.current_section_.qr_irid := v })
      Run.assign (parse_double line 40 10) (fun v c => { c with self.current_section_.cst := v })
      Run.assign (parse_double line 50 10) (fun v c => { c with self.current_section_.scoor := v })
      set_state .IN_SECTION_BEAM_DATA)
    (fun e => do
      warn "Section beam header parse warning: " e
      set_state .IDLE)

/-- Embeds `case ParseState::IN_SECTION_BEAM_DATA` (parser.cpp 1009-1025). -/
def case_IN_SECTION_BEAM_DATA (line : Str) : Run (Ctx F) Unit := do
  Run.try_catch
    (do
      Run.assign (parse_double line 0 10) (fun v c => { c with
        self.current_section_.ts := c.self.current_section_.ts.set 0 v })
      Run.assign (parse_double line 10 10) (fun v c => { c with
        self.current_section_.ts := c.self.current_section_.ts.set 1 v })
      Run.assign (parse_double line 20 10) (fun v c => { c with
        self.current_section_.tt := c.self.current_section_.tt.set 0 v })
      Run.assign (parse_double line 30 10) (fun v c => { c with
        self.current_section_.tt := c.self.current_section_.tt.set 1 v })
      Run.assign (parse_double line 40 10) (fun v c => { c with self.current_section_.nsloc := v })
      Run.assign (parse_double line 50 10) (fun v c => { c with self.current_section_.ntloc := v })
      push_current_section)
    (fun e => warn "Section beam data parse warning: " e)
  set_state .IDLE

/-- The statements `result.contacts.push_back(current_contact_); current_contact_ =
Contact();`. -/
def push_current_contact : Run (Ctx F) Unit :=
  Run.update (fun c =>
    { c with result.contacts := c.result.contacts ++ [c.self.current_contact_],
             self.current_contact_ := Contact.init })

/-- Embeds `case ParseState::IN_CONTACT_CARD1` (parser.cpp 1041-1058). -/
def case_IN_CONTACT_CARD1 (line : Str) : Run (Ctx F) Unit :=
  Run.try_catch
    (do
      Run.assign (parse_int line 0 10) (fun v c => { c with self.current_contact_.ssid := v })
      Run.assign (parse_int line 10 10) (fun v c => { c with self.current_contact_.msid := v })
      Run.assign (parse_int line 20 10) (fun v c => { c with self.current_contact_.sstyp := v })
      Run.assign (parse_int line 30 10) (fun v c => { c with self.current_contact_.mstyp := v })
      Run.assign (parse_int line 40 10) (fun v c => { c with self.current_contact_.sboxid := v })
      Run.assign (parse_int line 50 10) (fun v c => { c with self.current_contact_.mboxid := v })
      Run.assign (parse_int line 60 10) (fun v c => { c with self.current_contact_.spr := v })
      Run.assign (parse_int line 70 10) (fun v c => { c with self.current_contact_.mpr := v })
      Run.update (fun c => { c with self.current_contact_.cards_parsed := 1 })
      set_state .IN_CONTACT_CARD2)
    (fun e => do
      warn "Contact card1 parse warning: " e
      set_state .IDLE)

/-- Embeds `case ParseState::IN_CONTACT_CARD2` (parser.cpp 1060-1081). -/
def case_IN_CONTACT_CARD2 (line : Str) : Run (Ctx F) Unit :=
  Run.try_catch
    (do
      Run.assign (parse_double line 0 10) (fun v c => { c with self.current_contact_.fs := v })
      Run.assign (parse_double line 10 10) (fun v c => { c with self.current_contact_.fd := v })
      Run.assign (parse_double line 20 10) (fun v c => { c with self.current_contact_.dc := v })
      Run.assign (parse_double line 30 10) (fun v c => { c with self.current_contact_.vc := v })
      Run.assign (parse_double line 40 10) (fun v c => { c with self.current_contact_.vdc := v })
      Run.assign (parse_int line 50 10) (fun v c => { c with self.current_contact_.penchk := v })
      Run.assign (parse_double line 60 10) (fun v c => { c with self.current_contact_.bt := v })
      Run.assign (parse_double line 70 10) (fun v c => { c with self.current_contact_.dt := v })
      Run.update (fun c => { c with self.current_contact_.cards_parsed := 2 })
      set_state .IN_CONTACT_CARD3)
    (fun e => do
      warn "Contact card2 parse warning: " e
      push_current_contact
      set_state .IDLE)

/-- Embeds `case ParseState::IN_CONTACT_CARD3` (parser.cpp 1083-1105). -/
def case_IN_CONTACT_CARD3 (line : Str) : Run (Ctx F) Unit := do
  Run.try_catch
    (do
      Run.assign (parse_double line 0 10) (fun v c => { c with self.current_contact_.sfs := v })
      Run.assign (parse_double line 10 10) (fun v c => { c with self.current_contact_.sfm := v })
      Run.assign (parse_double line 20 10) (fun v c => { c with self.current_contact_.sst := v })
      Run.assign (parse_double line 30 10) (fun v c => { c with self.current_contact_.mst := v })
      Run.assign (parse_double line 40 10) (fun v c => { c with self.current_contact_.sfst := v })
      Run.assign (parse_double line 50 10) (fun v c => { c with self.current_contact_.sfmt := v })
      Run.assign (parse_double line 60 10) (fun v c => { c with self.current_contact_.fsf := v })
      Run.assign (parse_double line 70 10) (fun v c => { c with self.current_contact_.vsf := v })
      Run.update (fun c => { c with self.current_contact_.cards_parsed := 3 })
      push_current_contact)
    (fun e => do
      warn "Contact card3 parse warning: " e
      push_current_contact)
  set_state .IDLE

end Data

section Data

variable {F : Type} [DoubleModel F]

/-- The loop of `IN_MATERIAL_DATA` that decodes the eight columns of a card into
`card_values` (parser.cpp 1124-1129), run over the remaining values of `i`. -/
def material_card_values (line : Str) : List Nat → List F → Except Exn (List F)
  | [], card_values => .ok card_values
  | i :: rest, card_values => do
    let val ← parse_double line (i * 10) 10
    material_card_values line rest (card_values ++ [val])

/-- The statements of `IN_MATERIAL_DATA` from `cards.push_back(card_values)` to the end
of the per-card projections (parser.cpp 1130-1197), applied to `current_material_`. -/
def store_material_card (cv : List F) (m : Material F) : Material F :=
  let v : Nat → F := fun i => cv.getD i dzero
  let m := { m with cards := m.cards ++ [cv], cards_parsed := m.cards_parsed + 1 }
  let composite : Bool :=
    m.type = .COMPOSITE_DAMAGE || m.type = .LAMINATED_COMPOSITE_FABRIC
      || m.type = .COMPOSITE_FAILURE
  if m.cards_parsed = 1 then
    let m := { m with mid := DoubleModel.to_int32 (v 0), ro := v 1, e := v 2, pr := v 3 }
    if m.type = .PIECEWISE_LINEAR_PLASTICITY ∨ m.type = .PLASTIC_KINEMATIC then
      { m with sigy := v 4, etan := v 5, fail := v 6, tdel := v 7 }
    else if m.type = .ORTHOTROPIC_ELASTIC then
      { m with eb := v 3, ec := v 4, pr := v 5, prca := v 6, prcb := v 7 }
    else if composite then
      { m with eb := v 3, ec := v 4, pr := v 5 }
    else m
  else if m.cards_parsed = 2 then
    if m.type = .ORTHOTROPIC_ELASTIC then
      { m with gab := v 0, gbc := v 1, gca := v 2, aopt := DoubleModel.to_int32 (v 3) }
    else if composite then
      { m with gab := v 0, gbc := v 1, gca := v 2 }
    else if m.type = .RIGID then
      { m with cmo := v 0, con1 := v 1, con2 := v 2 }
    else m
  else if m.cards_parsed = 3 then
    if composite then
      { m with xc := v 0, xt := v 1, yc := v 2, yt := v 3, sc := v 4 }
    else m
  else m

/-- Embeds `case ParseState::IN_MATERIAL_TITLE` (parser.cpp 1108-1112). -/
def case_IN_MATERIAL_TITLE (line : Str) : Run (Ctx F) Unit := do
  Run.update (fun c => { c with self.current_material_.title := trim line })
  set_state .IN_MATERIAL_DATA

/-- Embeds `case ParseState::IN_MATERIAL_DATA` (parser.cpp 1115-1216). -/
def case_IN_MATERIAL_DATA (line : Str) : Run (Ctx F) Unit :=
  Run.try_catch
    (do
      let card_values ← Run.eval (material_card_values line [0, 1, 2, 3, 4, 5, 6, 7] [])
      Run.update (fun c => { c with
        self.current_material_ := store_material_card card_values c.self.current_material_ })
      let c ← Run.read
      if c.self.current_material_.cards_parsed ≥ c.self.material_expected_cards_ then
        Run.update (fun c =>
          { c with result.materials := c.result.materials ++ [c.self.current_material_],
                   self.current_material_ := Material.init })
        set_state .IDLE)
    (fun e => do
      warn "Material data parse warning: " e
      Run.update (fun c =>
        if c.self.current_material_.mid > 0 then
          { c with result.materials := c.result.materials ++ [c.self.current_material_],
                   self.current_material_ := Material.init }
        else c)
      set_state .IDLE)

/-- Embeds `case ParseState::IN_INCLUDE` (parser.cpp 1219-1227). -/
def case_IN_INCLUDE (line : Str) : Run (Ctx F) Unit := do
  let inc : Include := Include.init
  let inc := { inc with filepath := trim line }
  let inc := { inc with is_path_only := false }
  let inc := { inc with is_relative := false }
  Run.update (fun c => { c with result.includes := c.result.includes ++ [inc] })
  set_state .IDLE

/-- Embeds `case ParseState::IN_CURVE_TITLE` (parser.cpp 1230-1234). -/
def case_IN_CURVE_TITLE (line : Str) : Run (Ctx F) Unit := do
  Run.update (fun c => { c with self.current_curve_.title := trim line })
  set_state .IN_CURVE_HEADER

/-- Embeds `case ParseState::IN_CURVE_HEADER` (parser.cpp 1237-1252). -/
def case_IN_CURVE_HEADER (line : Str) : Run (Ctx F) Unit :=
  Run.try_catch
    (do
      Run.assign (parse_int line 0 10) (fun v c => { c with self.current_curve_.lcid := v })
      Run.assign (parse_int line 10 10) (fun v c => { c with self.current_curve_.sidr := v })
      Run.assign (parse_double line 20 10) (fun v c => { c with self.current_curve_.sfa := v })
      Run.assign (parse_double line 30 10) (fun v c => { c with self.current_curve_.sfo := v })
      Run.assign (parse_double line 40 10) (fun v c => { c with self.current_curve_.offa := v })
      Run.assign (parse_double line 50 10) (fun v c => { c with self.current_curve_.offo := v })
      Run.assign (parse_int line 60 10) (fun v c => { c with self.current_curve_.dattyp := v })
      set_state .IN_CURVE_DATA)
    (fun e => do
      warn "Curve header parse warning: " e
      set_state .IDLE)

/-- Embeds `case ParseState::IN_CURVE_DATA` (parser.cpp 1255-1264). -/
def case_IN_CURVE_DATA (line : Str) : Run (Ctx F) Unit :=
  Run.try_catch
    (do
      let a ← Run.eval (parse_double line 0 20)
      let o ← Run.eval (parse_double line 20 20)
      Run.update (fun c => { c with self.current_curve_ := c.self.current_curve_.add_point a o }))
    (fun e => warn "Curve data parse warning: " e)

/-- Embeds `case ParseState::IN_BOUNDARY_SPC` (parser.cpp 1267-1292). -/
def case_IN_BOUNDARY_SPC (line : Str) : Run (Ctx F) Unit :=
  Run.try_catch
    (do
      let c ← Run.read
      if c.self.current_boundary_spc_.type = .SPC_SET then
        Run.assign (parse_int line 0 10) (fun v c => { c with self.current_boundary_spc_.nid := v })
        Run.assign (parse_int line 10 10) (fun v c => { c with self.current_boundary_spc_.cid := v })
        Run.assign (parse_int line 20 10)
          (fun v c => { c with self.current_boundary_spc_.dofx := to_int8 v })
        Run.assign (parse_int line 30 10)
          (fun v c => { c with self.current_boundary_spc_.dofy := to_int8 v })
        Run.assign (parse_int line 40 10)
          (fun v c => { c with self.current_boundary_spc_.dofz := to_int8 v })
        Run.assign (parse_int line 50 10)
          (fun v c => { c with self.current_boundary_spc_.dofrx := to_int8 v })
        Run.assign (parse_int line 60 10)
          (fun v c => { c with self.current_boundary_spc_.dofry := to_int8 v })
        Run.assign (parse_int line 70 10)
          (fun v c => { c with self.current_boundary_spc_.dofrz := to_int8 v })
      else
        Run.assign (parse_int line 0 10) (fun v c => { c with self.current_boundary_spc_.nid := v })
        Run.assign (parse_int line 10 10)
          (fun v c => { c with self.current_boundary_spc_.dof := to_int8 v })
        Run.assign (parse_int line 20 10)
          (fun v c => { c with self.current_boundary_spc_.vad := to_int8 v })
      Run.update (fun c =>
        { c with result.boundary_spcs := c.result.boundary_spcs ++ [c.self.current_boundary_spc_],
                 self.current_boundary_spc_ := BoundarySPC.init }))
    (fun e => warn "Boundary SPC parse warning: " e)

/-- Embeds `case ParseState::IN_BOUNDARY_MOTION` (parser.cpp 1295-1313). -/
def case_IN_BOUNDARY_MOTION (line : Str) : Run (Ctx F) Unit :=
  Run.try_catch
    (do
      Run.assign (parse_int line 0 10) (fun v c => { c with self.current_boundary_motion_.nid := v })
      Run.assign (parse_int line 10 10)
        (fun v c => { c with self.current_boundary_motion_.dof := to_int8 v })
      Run.assign (parse_int line 20 10)
        (fun v c => { c with self.current_boundary_motion_.vad := to_int8 v })
      Run.assign (parse_int line 30 10)
        (fun v c => { c with self.current_boundary_motion_.lcid := v })
      Run.assign (parse_double line 40 10)
        (fun v c => { c with self.current_boundary_motion_.sf := v })
      Run.assign (parse_int line 50 10) (fun v c => { c with self.current_boundary_motion_.vid := v })
      Run.assign (parse_double line 60 10)
        (fun v c => { c with self.current_boundary_motion_.death := v })
      Run.assign (parse_double line 70 10)
        (fun v c => { c with self.current_boundary_motion_.birth := v })
      Run.update (fun c =>
        { c with
          result.boundary_motions := c.result.boundary_motions ++ [c.self.current_boundary_motion_],
          self.current_boundary_motion_ := BoundaryPrescribedMotion.init }))
    (fun e => warn "Boundary motion parse warning: " e)

/-- Embeds `case ParseState::IN_LOAD_NODE` (parser.cpp 1316-1334). -/
def case_IN_LOAD_NODE (line : Str) : Run (Ctx F) Unit :=
  Run.try_catch
    (do
      Run.assign (parse_int line 0 10) (fun v c => { c with self.current_load_node_.nid := v })
      Run.assign (parse_int line 10 10)
        (fun v c => { c with self.current_load_node_.dof := to_int8 v })
      Run.assign (parse_int line 20 10) (fun v c => { c with self.current_load_node_.lcid := v })
      Run.assign (parse_double line 30 10) (fun v c => { c with self.current_load_node_.sf := v })
      Run.assign (parse_int line 40 10) (fun v c => { c with self.current_load_node_.cid := v })
      Run.assign (parse_int line 50 10) (fun v c => { c with self.current_load_node_.m1 := v })
      Run.assign (parse_int line 60 10) (fun v c => { c with self.current_load_node_.m2 := v })
      Run.assign (parse_int line 70 10) (fun v c => { c with self.current_load_node_.m3 := v })
      Run.update (fun c =>
        { c with result.load_nodes := c.result.load_nodes ++ [c.self.current_load_node_],
                 self.current_load_node_ := LoadNode.init }))
    (fun e => warn "Load node parse warning: " e)

/-- The local `LoadSegment seg` of `IN_LOAD_SEGMENT` with its seven assignments. -/
def decode_load_segment (line : Str) : Except Exn (LoadSegment F) := do
  let seg : LoadSegment F := LoadSegment.init
  let seg := { seg with lcid := ← parse_int line 0 10 }
  let seg := { seg with sf := ← parse_double line 10 10 }
  let seg := { seg with «at» := ← parse_double line 20 10 }
  let seg := { seg with n1 := ← parse_int line 30 10 }
  let seg := { seg with n2 := ← parse_int line 40 10 }
  let seg := { seg with n3 := ← parse_int line 50 10 }
  let seg := { seg with n4 := ← parse_int line 60 10 }
  .ok seg

/-- Embeds `case ParseState::IN_LOAD_SEGMENT` (parser.cpp 1337-1355). -/
def case_IN_LOAD_SEGMENT (line : Str) : Run (Ctx F) Unit :=
  Run.try_catch
    (Run.assign (decode_load_segment line)
      (fun seg c => { c with result.load_segments := c.result.load_segments ++ [seg] }))
    (fun e => warn "Load segment parse warning: " e)

/-- Embeds `case ParseState::IN_LOAD_BODY` (parser.cpp 1358-1375). -/
def case_IN_LOAD_BODY (line : Str) : Run (Ctx F) Unit := do
  Run.try_catch
    (do
      Run.assign (parse_int line 0 10) (fun v c => { c with self.current_load_body_.lcid := v })
      Run.assign (parse_double line 10 10) (fun v c => { c with self.current_load_body_.sf := v })
      Run.assign (parse_int line 20 10) (fun v c => { c with self.current_load_body_.lciddr := v })
      Run.assign (parse_double line 30 10) (fun v c => { c with self.current_load_body_.xc := v })
      Run.assign (parse_double line 40 10) (fun v c => { c with self.current_load_body_.yc := v })
      Run.assign (parse_double line 50 10) (fun v c => { c with self.current_load_body_.zc := v })
      Run.assign (parse_int line 60 10) (fun v c => { c with self.current_load_body_.cid := v })
      Run.update (fun c =>
        { c with result.load_bodies := c.result.load_bodies ++ [c.self.current_load_body_],
                 self.current_load_body_ := LoadBody.init }))
    (fun e => warn "Load body parse warning: " e)
  set_state .IDLE

end Data

section Data

variable {F : Type} [DoubleModel F]

/-- The local `ControlTermination ctrl` of `IN_CONTROL_TERMINATION` with its
assignments (parser.cpp 1380-1386). -/
def decode_control_termination (line : Str) : Except Exn (ControlTermination F) := do
  let ctrl : ControlTermination F := ControlTermination.init
  let ctrl := { ctrl with endtim := ← parse_double line 0 10 }
  let ctrl := { ctrl with endcyc := ← parse_double line 10 10 }
  let ctrl := { ctrl with dtmin := ← parse_double line 20 10 }
  let ctrl := { ctrl with endeng := ← parse_double line 30 10 }
  let ctrl := { ctrl with endmas := ← parse_double line 40 10 }
  let ctrl := { ctrl with nosol := ← parse_int line 50 10 }
  .ok ctrl

/-- Embeds `case ParseState::IN_CONTROL_TERMINATION` (parser.cpp 1378-1393). -/
def case_IN_CONTROL_TERMINATION (line : Str) : Run (Ctx F) Unit := do
  Run.try_catch
    (Run.assign (decode_control_termination line) (fun ctrl c =>
      { c with result.control_terminations := c.result.control_terminations ++ [ctrl] }))
    (fun e => warn "Control termination parse warning: " e)
  set_state .IDLE

/-- The local `ControlTimestep ctrl` with its assignments (parser.cpp 1398-1406). -/
def decode_control_timestep (line : Str) : Except Exn (ControlTimestep F) := do
  let ctrl : ControlTimestep F := ControlTimestep.init
  let ctrl := { ctrl with dtinit := ← parse_double line 0 10 }
  let ctrl := { ctrl with tssfac := ← parse_double line 10 10 }
  let ctrl := { ctrl with isdo := ← parse_int line 20 10 }
  let ctrl := { ctrl with tslimt := ← parse_double line 30 10 }
  let ctrl := { ctrl with dt2ms := ← parse_double line 40 10 }
  let ctrl := { ctrl with lctm := ← parse_int line 50 10 }
  let ctrl := { ctrl with erode := ← parse_int line 60 10 }
  let ctrl := { ctrl with ms1st := ← parse_int line 70 10 }
  .ok ctrl

/-- Embeds `case ParseState::IN_CONTROL_TIMESTEP` (parser.cpp 1396-1413). -/
def case_IN_CONTROL_TIMESTEP (line : Str) : Run (Ctx F) Unit := do
  Run.try_catch
    (Run.assign (decode_control_timestep line) (fun ctrl c =>
      { c with result.control_timesteps := c.result.control_timesteps ++ [ctrl] }))
    (fun e => warn "Control timestep parse warning: " e)
  set_state .IDLE

/-- The local `ControlEnergy ctrl` with its assignments (parser.cpp 1418-1422). -/
def decode_control_energy (line : Str) : Except Exn ControlEnergy := do
  let ctrl : ControlEnergy := ControlEnergy.init
  let ctrl := { ctrl with hgen := ← parse_int line 0 10 }
  let ctrl := { ctrl with rwen := ← parse_int line 10 10 }
  let ctrl := { ctrl with slnten := ← parse_int line 20 10 }
  let ctrl := { ctrl with rylen := ← parse_int line 30 10 }
  .ok ctrl

/-- Embeds `case ParseState::IN_CONTROL_ENERGY` (parser.cpp 1416-1429). -/
def case_IN_CONTROL_ENERGY (line : Str) : Run (Ctx F) Unit := do
  Run.try_catch
    (Run.assign (decode_control_energy line) (fun ctrl c =>
      { c with result.control_energies := c.result.control_energies ++ [ctrl] }))
    (fun e => warn "Control energy parse warning: " e)
  set_state .IDLE

/-- The local `ControlOutput ctrl` with its assignments (parser.cpp 1434-1442). -/
def decode_control_output (line : Str) : Except Exn ControlOutput := do
  let ctrl : ControlOutput := ControlOutput.init
  let ctrl := { ctrl with npopt := ← parse_int line 0 10 }
  let ctrl := { ctrl with netefm := ← parse_int line 10 10 }
  let ctrl := { ctrl with nflcit := ← parse_int line 20 10 }
  let ctrl := { ctrl with nprint := ← parse_int line 30 10 }
  let ctrl := { ctrl with ikedit := ← parse_int line 40 10 }
  let ctrl := { ctrl with iflush := ← parse_int line 50 10 }
  let ctrl := { ctrl with iprtf := ← parse_int line 60 10 }
  let ctrl := { ctrl with ierode := ← parse_int line 70 10 }
  .ok ctrl

/-- Embeds `case ParseState::IN_CONTROL_OUTPUT` (parser.cpp 1432-1449). -/
def case_IN_CONTROL_OUTPUT (line : Str) : Run (Ctx F) Unit := do
  Run.try_catch
    (Run.assign (decode_control_output line) (fun ctrl c =>
      { c with result.control_outputs := c.result.control_outputs ++ [ctrl] }))
    (fun e => warn "Control output parse warning: " e)
  set_state .IDLE

/-- The local `ControlShell ctrl` with its assignments (parser.cpp 1454-1462). -/
def decode_control_shell (line : Str) : Except Exn (ControlShell F) := do
  let ctrl : ControlShell F := ControlShell.init
  let ctrl := { ctrl with wrpang := ← parse_double line 0 10 }
  let ctrl := { ctrl with esort := ← parse_int line 10 10 }
  let ctrl := { ctrl with irnxx := ← parse_int line 20 10 }
  let ctrl := { ctrl with istupd := ← parse_int line 30 10 }
  let ctrl := { ctrl with theory := ← parse_int line 40 10 }
  let ctrl := { ctrl with bwc := ← parse_int line 50 10 }
  let ctrl := { ctrl with miter := ← parse_int line 60 10 }
  let ctrl := { ctrl with proj := ← parse_int line 70 10 }
  .ok ctrl

/-- Embeds `case ParseState::IN_CONTROL_SHELL` (parser.cpp 1452-1469). -/
def case_IN_CONTROL_SHELL (line : Str) : Run (Ctx F) Unit := do
  Run.try_catch
    (Run.assign (decode_control_shell line) (fun ctrl c =>
      { c with result.control_shells := c.result.control_shells ++ [ctrl] }))
    (fun e => warn "Control shell parse warning: " e)
  set_state .IDLE

/-- The local `ControlContact ctrl` with its assignments (parser.cpp 1474-1482). -/
def decode_control_contact (line : Str) : Except Exn (ControlContact F) := do
  let ctrl : ControlContact F := ControlContact.init
  let ctrl := { ctrl with slsfac := ← parse_double line 0 10 }
  let ctrl := { ctrl with rwpnal := ← parse_double line 10 10 }
  let ctrl := { ctrl with islchk := ← parse_int line 20 10 }
  let ctrl := { ctrl with shlthk := ← parse_int line 30 10 }
  let ctrl := { ctrl with penopt := ← parse_int line 40 10 }
  let ctrl := { ctrl with thkchg := ← parse_double line 50 10 }
  let ctrl := { ctrl with otefm := ← parse_int line 60 10 }
  let ctrl := { ctrl with enmass := ← parse_int line 70 10 }
  .ok ctrl

/-- Embeds `case ParseState::IN_CONTROL_CONTACT` (parser.cpp 1472-1489). -/
def case_IN_CONTROL_CONTACT (line : Str) : Run (Ctx F) Unit := do
  Run.try_catch
    (Run.assign (decode_control_contact line) (fun ctrl c =>
      { c with result.control_contacts := c.result.control_contacts ++ [ctrl] }))
    (fun e => warn "Control contact parse warning: " e)
  set_state .IDLE

/-- The local `ControlHourglass ctrl` with its assignments (parser.cpp 1494-1496). -/
def decode_control_hourglass (line : Str) : Except Exn (ControlHourglass F) := do
  let ctrl : ControlHourglass F := ControlHourglass.init
  let ctrl := { ctrl with ihq := ← parse_int line 0 10 }
  let ctrl := { ctrl with qh := ← parse_double line 10 10 }
  .ok ctrl

/-- Embeds `case ParseState::IN_CONTROL_HOURGLASS` (parser.cpp 1492-1503). -/
def case_IN_CONTROL_HOURGLASS (line : Str) : Run (Ctx F) Unit := do
  Run.try_catch
    (Run.assign (decode_control_hourglass line) (fun ctrl c =>
      { c with result.control_hourglasses := c.result.control_hourglasses ++ [ctrl] }))
    (fun e => warn "Control hourglass parse warning: " e)
  set_state .IDLE

/-- The local `ControlBulkViscosity ctrl` with its assignments (parser.cpp 1508-1511). -/
def decode_control_bulk_viscosity (line : Str) : Except Exn (ControlBulkViscosity F) := do
  let ctrl : ControlBulkViscosity F := ControlBulkViscosity.init
  let ctrl := { ctrl with q1 := ← parse_double line 0 10 }
  let ctrl := { ctrl with q2 := ← parse_double line 10 10 }
  let ctrl := { ctrl with type := ← parse_int line 20 10 }
  .ok ctrl

/-- Embeds `case ParseState::IN_CONTROL_BULK_VISCOSITY` (parser.cpp 1506-1518). -/
def case_IN_CONTROL_BULK_VISCOSITY (line : Str) : Run (Ctx F) Unit := do
  Run.try_catch
    (Run.assign (decode_control_bulk_viscosity line) (fun ctrl c =>
      { c with result.control_bulk_viscosities := c.result.control_bulk_viscosities ++ [ctrl] }))
    (fun e => warn "Control bulk viscosity parse warning: " e)
  set_state .IDLE

/-- Embeds `case ParseState::IN_DATABASE_BINARY` (parser.cpp 1521-1535). -/
def case_IN_DATABASE_BINARY (line : Str) : Run (Ctx F) Unit := do
  Run.try_catch
    (do
      Run.assign (parse_double line 0 10) (fun v c => { c with self.current_database_binary_.dt := v })
      Run.assign (parse_int line 10 10) (fun v c => { c with self.current_database_binary_.lcdt := v })
      Run.assign (parse_int line 20 10) (fun v c => { c with self.current_database_binary_.beam := v })
      Run.assign (parse_int line 30 10)
        (fun v c => { c with self.current_database_binary_.npltc := v })
      Run.assign (parse_int line 40 10)
        (fun v c => { c with self.current_database_binary_.psetid := v })
      Run.update (fun c =>
        { c with
          result.database_binaries := c.result.database_binaries ++ [c.self.current_database_binary_],
          self.current_database_binary_ := DatabaseBinary.init }))
    (fun e => warn "Database binary parse warning: " e)
  set_state .IDLE

/-- Embeds `case ParseState::IN_DATABASE_ASCII` (parser.cpp 1538-1552). -/
def case_IN_DATABASE_ASCII (line : Str) : Run (Ctx F) Unit := do
  Run.try_catch
    (do
      Run.assign (parse_double line 0 10) (fun v c => { c with self.current_database_ascii_.dt := v })
      Run.assign (parse_int line 10 10) (fun v c => { c with self.current_database_ascii_.lcdt := v })
      Run.assign (parse_int line 20 10)
        (fun v c => { c with self.current_database_ascii_.binary := v })
      Run.assign (parse_int line 30 10) (fun v c => { c with self.current_database_ascii_.lcur := v })
      Run.assign (parse_int line 40 10) (fun v c => { c with self.current_database_ascii_.ioopt := v })
      Run.update (fun c =>
        { c with
          result.database_asciis := c.result.database_asciis ++ [c.self.current_database_ascii_],
          self.current_database_ascii_ := DatabaseASCII.init }))
    (fun e => warn "Database ASCII parse warning: " e)
  set_state .IDLE

/-- The id-list loop `for (int i = 0; i < 8; ++i)` shared by the history and
extra-nodes cases: every column that starts inside the line is decoded and `add`
is applied for a positive id. -/
def id_list_loop (line : Str) (add : Int → Ctx F → Ctx F) : List Nat → Run (Ctx F) Unit
  | [] => pure ()
  | i :: rest => do
    let start := i * 10
    if start < line.length then
      let id ← Run.eval (parse_int line start 10)
      if id > 0 then
        Run.update (add id)
    id_list_loop line add rest

/-- Embeds `case ParseState::IN_DATABASE_HISTORY_NODE` (parser.cpp 1555-1572). -/
def case_IN_DATABASE_HISTORY_NODE (line : Str) : Run (Ctx F) Unit :=
  Run.try_catch
    (id_list_loop line
      (fun nid c => { c with
        self.current_database_history_node_ := c.self.current_database_history_node_.add_node nid })
      [0, 1, 2, 3, 4, 5, 6, 7])
    (fun e => warn "Database history node parse warning: " e)

/-- Embeds `case ParseState::IN_DATABASE_HISTORY_ELEMENT` (parser.cpp 1575-1592). -/
def case_IN_DATABASE_HISTORY_ELEMENT (line : Str) : Run (Ctx F) Unit :=
  Run.try_catch
    (id_list_loop line
      (fun eid c => { c with
        self.current_database_history_element_ :=
          c.self.current_database_history_element_.add_element eid })
      [0, 1, 2, 3, 4, 5, 6, 7])
    (fun e => warn "Database history element parse warning: " e)

/-- The local `DatabaseCrossSection cs` with its assignments (parser.cpp 1597-1602). -/
def decode_database_cross_section (line : Str) : Except Exn (DatabaseCrossSection F) := do
  let cs : DatabaseCrossSection F := DatabaseCrossSection.init
  let cs := { cs with csid := ← parse_int line 0 10 }
  let cs := { cs with psid := ← parse_int line 10 10 }
  let cs := { cs with ssid := ← parse_int line 20 10 }
  let cs := { cs with tsid := ← parse_int line 30 10 }
  let cs := { cs with dsid := ← parse_int line 40 10 }
  .ok cs

/-- Embeds `case ParseState::IN_DATABASE_CROSS_SECTION` (parser.cpp 1595-1610). -/
def case_IN_DATABASE_CROSS_SECTION (line : Str) : Run (Ctx F) Unit := do
  Run.try_catch
    (Run.assign (decode_database_cross_section line) (fun cs c =>
      { c with result.database_cross_sections := c.result.database_cross_sections ++ [cs] }))
    (fun e => warn "Database cross section parse warning: " e)
  set_state .IDLE

/-- The statements `result.initial_velocities.push_back(current_initial_velocity_);
current_initial_velocity_ = InitialVelocity();`. -/
def push_current_initial_velocity : Run (Ctx F) Unit :=
  Run.update (fun c =>
    { c with
      result.initial_velocities := c.result.initial_velocities ++ [c.self.current_initial_velocity_],
      self.current_initial_velocity_ := InitialVelocity.init })

/-- Embeds `case ParseState::IN_INITIAL_VELOCITY` (parser.cpp 1613-1630). -/
def case_IN_INITIAL_VELOCITY (line : Str) : Run (Ctx F) Unit := do
  Run.try_catch
    (do
      Run.assign (parse_int line 0 10) (fun v c => { c with self.current_initial_velocity_.nsid := v })
      Run.assign (parse_int line 10 10)
        (fun v c => { c with self.current_initial_velocity_.nsidex := v })
      Run.assign (parse_int line 20 10)
        (fun v c => { c with self.current_initial_velocity_.boxid := v })
      Run.assign (parse_int line 30 10)
        (fun v c => { c with self.current_initial_velocity_.irigid := v })
      Run.assign (parse_double line 40 10) (fun v c => { c with self.current_initial_velocity_.vx := v })
      Run.assign (parse_double line 50 10) (fun v c => { c with self.current_initial_velocity_.vy := v })
      Run.assign (parse_double line 60 10) (fun v c => { c with self.current_initial_velocity_.vz := v })
      Run.assign (parse_double line 70 10)
        (fun v c => { c with self.current_initial_velocity_.vxr := v })
      push_current_initial_velocity)
    (fun e => warn "Initial velocity parse warning: " e)
  set_state .IDLE

/-- Embeds `case ParseState::IN_INITIAL_VELOCITY_GENERATION` (parser.cpp 1633-1650). -/
def case_IN_INITIAL_VELOCITY_GENERATION (line : Str) : Run (Ctx F) Unit := do
  Run.try_catch
    (do
      Run.assign (parse_int line 0 10) (fun v c => { c with self.current_initial_velocity_.nsid := v })
      Run.assign (parse_double line 10 10)
        (fun v c => { c with self.current_initial_velocity_.omega := v })
      Run.assign (parse_double line 20 10) (fun v c => { c with self.current_initial_velocity_.vx := v })
      Run.assign (parse_double line 30 10) (fun v c => { c with self.current_initial_velocity_.vy := v })
      Run.assign (parse_double line 40 10) (fun v c => { c with self.current_initial_velocity_.vz := v })
      Run.assign (parse_double line 50 10) (fun v c => { c with self.current_initial_velocity_.xc := v })
      Run.assign (parse_double line 60 10) (fun v c => { c with self.current_initial_velocity_.yc := v })
      Run.assign (parse_double line 70 10) (fun v c => { c with self.current_initial_velocity_.zc := v })
      push_current_initial_velocity)
    (fun e => warn "Initial velocity generation parse warning: " e)
  set_state .IDLE

/-- The statements `result.constrained_nodal_rigid_bodies.push_back(...);
current_constrained_nodal_rigid_body_ = ConstrainedNodalRigidBody();`. -/
def push_current_nodal_rigid_body : Run (Ctx F) Unit :=
  Run.update (fun c =>
    { c with
      result.constrained_nodal_rigid_bodies :=
        c.result.constrained_nodal_rigid_bodies ++ [c.self.current_constrained_nodal_rigid_body_],
      self.current_constrained_nodal_rigid_body_ := ConstrainedNodalRigidBody.init })

/-- Embeds `case ParseState::IN_CONSTRAINED_NODAL_RIGID_BODY` (parser.cpp 1661-1677). -/
def case_IN_CONSTRAINED_NODAL_RIGID_BODY (line : Str) : Run (Ctx F) Unit := do
  Run.try_catch
    (do
      Run.assign (parse_int line 0 10)
        (fun v c => { c with self.current_constrained_nodal_rigid_body_.pid := v })
      Run.assign (parse_int line 10 10)
        (fun v c => { c with self.current_constrained_nodal_rigid_body_.cid := v })
      Run.assign (parse_int line 20 10)
        (fun v c => { c with self.current_constrained_nodal_rigid_body_.nsid := v })
      Run.assign (parse_int line 30 10)
        (fun v c => { c with self.current_constrained_nodal_rigid_body_.pnode := v })
      Run.assign (parse_int line 40 10)
        (fun v c => { c with self.current_constrained_nodal_rigid_body_.iprt := v })
      Run.assign (parse_int line 50 10)
        (fun v c => { c with self.current_constrained_nodal_rigid_body_.drflag := v })
      Run.assign (parse_int line 60 10)
        (fun v c => { c with self.current_constrained_nodal_rigid_body_.rrflag := v })
      push_current_nodal_rigid_body)
    (fun e => warn "Constrained nodal rigid body parse warning: " e)
  set_state .IDLE

/-- Embeds `case ParseState::IN_CONSTRAINED_NODAL_RIGID_BODY_INERTIA` (parser.cpp 1680-1694). -/
def case_IN_CONSTRAINED_NODAL_RIGID_BODY_INERTIA (line : Str) : Run (Ctx F) Unit := do
  Run.try_catch
    (do
      Run.assign (parse_int line 0 10)
        (fun v c => { c with self.current_constrained_nodal_rigid_body_.pid := v })
      Run.assign (parse_int line 10 10)
        (fun v c => { c with self.current_constrained_nodal_rigid_body_.cid := v })
      Run.assign (parse_int line 20 10)
        (fun v c => { c with self.current_constrained_nodal_rigid_body_.nsid := v })
      Run.assign (parse_int line 30 10)
        (fun v c => { c with self.current_constrained_nodal_rigid_body_.pnode := v })
      push_current_nodal_rigid_body)
    (fun e => warn "Constrained nodal rigid body inertia parse warning: " e)
  set_state .IDLE

/-- Embeds `case ParseState::IN_CONSTRAINED_EXTRA_NODES` (parser.cpp 1697-1725). -/
def case_IN_CONSTRAINED_EXTRA_NODES (line : Str) : Run (Ctx F) Unit :=
  Run.try_catch
    (do
      let c ← Run.read
      if c.self.current_constrained_extra_nodes_.is_set then
        Run.assign (parse_int line 0 10)
          (fun v c => { c with self.current_constrained_extra_nodes_.pid := v })
        Run.assign (parse_int line 10 10)
          (fun v c => { c with self.current_constrained_extra_nodes_.nsid := v })
        Run.update (fun c =>
          { c with
            result.constrained_extra_nodes :=
              c.result.constrained_extra_nodes ++ [c.self.current_constrained_extra_nodes_],
            self.current_constrained_extra_nodes_ := ConstrainedExtraNodes.init })
        set_state .IDLE
      else if c.self.current_constrained_extra_nodes_.pid = 0 then
        Run.assign (parse_int line 0 10)
          (fun v c => { c with self.current_constrained_extra_nodes_.pid := v })
      else
        id_list_loop line
          (fun nid c => { c with
            self.current_constrained_extra_nodes_ :=
              c.self.current_constrained_extra_nodes_.add_node nid })
          [0, 1, 2, 3, 4, 5, 6, 7])
    (fun e => warn "Constrained extra nodes parse warning: " e)

/-- Embeds `case ParseState::IN_CONSTRAINED_JOINT` (parser.cpp 1728-1746). -/
def case_IN_CONSTRAINED_JOINT (line : Str) : Run (Ctx F) Unit := do
  Run.try_catch
    (do
      Run.assign (parse_int line 0 10) (fun v c => { c with self.current_constrained_joint_.n1 := v })
      Run.assign (parse_int line 10 10) (fun v c => { c with self.current_constrained_joint_.n2 := v })
      Run.assign (parse_int line 20 10) (fun v c => { c with self.current_constrained_joint_.n3 := v })
      Run.assign (parse_int line 30 10) (fun v c => { c with self.current_constrained_joint_.n4 := v })
      Run.assign (parse_int line 40 10) (fun v c => { c with self.current_constrained_joint_.n5 := v })
      Run.assign (parse_int line 50 10) (fun v c => { c with self.current_constrained_joint_.n6 := v })
      Run.assign (parse_int line 60 10) (fun v c => { c with self.current_constrained_joint_.rps := v })
      Run.assign (parse_int line 70 10)
        (fun v c => { c with self.current_constrained_joint_.damp := v })
      Run.update (fun c =>
        { c with
          result.constrained_joints := c.result.constrained_joints ++ [c.self.current_constrained_joint_],
          self.current_constrained_joint_ := ConstrainedJoint.init }))
    (fun e => warn "Constrained joint parse warning: " e)
  set_state .IDLE

end Data

section Process

variable {F : Type} [DoubleModel F]

/-- Embeds `case ParseState::IN_CONSTRAINED_SPOTWELD` (parser.cpp 1749-1765). -/
def case_IN_CONSTRAINED_SPOTWELD (line : Str) : Run (Ctx F) Unit := do
  Run.try_catch
    (do
      Run.assign (parse_int line 0 10)
        (fun v c => { c with self.current_constrained_spotweld_.n1 := v })
      Run.assign (parse_int line 10 10)
        (fun v c => { c with self.current_constrained_spotweld_.n2 := v })
      Run.assign (parse_double line 20 10)
        (fun v c => { c with self.current_constrained_spotweld_.sn := v })
      Run.assign (parse_double line 30 10)
        (fun v c => { c with self.current_constrained_spotweld_.ss := v })
      Run.assign (parse_int line 40 10)
        (fun v c => { c with self.current_constrained_spotweld_.n := v })
      Run.assign (parse_int line 50 10)
        (fun v c => { c with self.current_constrained_spotweld_.m := v })
      Run.assign (parse_double line 60 10)
        (fun v c => { c with self.current_constrained_spotweld_.tf := v })
      Run.update (fun c =>
        { c with
          result.constrained_spotwelds :=
            c.result.constrained_spotwelds ++ [c.self.current_constrained_spotweld_],
          self.current_constrained_spotweld_ := ConstrainedSpotweld.init }))
    (fun e => warn "Constrained spotweld parse warning: " e)
  set_state .IDLE

/-- The keyword branch of `process_line` (parser.cpp 94-735): the `if / else if` chain
over `upper_line`, in source order. -/
def process_keyword (upper_line : Str) : Run (Ctx F) Unit :=
  if found_at_0 upper_line "*NODE" && !found upper_line "*NODE_" then
    select_state (·.parse_nodes_) .IN_NODE
  else if found_at_0 upper_line "*PART" && !found upper_line "*PART_" then do
    select_state (·.parse_parts_) .IN_PART_NAME
    Run.update (fun c => { c with part_name := [] })
  else if found_at_0 upper_line "*ELEMENT_SHELL" then
    select_state (·.parse_elements_) .IN_ELEMENT_SHELL
  else if found_at_0 upper_line "*ELEMENT_SOLID" then
    select_state (·.parse_elements_) .IN_ELEMENT_SOLID
  else if found_at_0 upper_line "*ELEMENT_BEAM" then
    select_state (·.parse_elements_) .IN_ELEMENT_BEAM
  else if found_at_0 upper_line "*SET_NODE_LIST" then
    begin_set upper_line .NODE_LIST .IN_SET_NODE_HEADER
  else if found_at_0 upper_line "*SET_PART_LIST" then
    begin_set upper_line .PART_LIST .IN_SET_PART_HEADER
  else if found_at_0 upper_line "*SET_SEGMENT" then
    begin_set upper_line .SEGMENT .IN_SET_SEGMENT_HEADER
  else if found_at_0 upper_line "*SET_SHELL" then
    begin_set upper_line .SHELL .IN_SET_SHELL_HEADER
  else if found_at_0 upper_line "*SET_SOLID" then
    begin_set upper_line .SOLID .IN_SET_SOLID_HEADER
  else if found_at_0 upper_line "*SECTION_SHELL" then
    begin_section upper_line .SHELL .IN_SECTION_SHELL_TITLE .IN_SECTION_SHELL_HEADER
  else if found_at_0 upper_line "*SECTION_SOLID" then
    begin_section upper_line .SOLID .IN_SECTION_SOLID_TITLE .IN_SECTION_SOLID
  else if found_at_0 upper_line "*SECTION_BEAM" then
    begin_section upper_line .BEAM .IN_SECTION_BEAM_TITLE .IN_SECTION_BEAM_HEADER
  else if found_at_0 upper_line "*CONTACT_" then
    begin_contact upper_line
  else if found_at_0 upper_line "*MAT_" then
    begin_material upper_line
  else if found_at_0 upper_line "*INCLUDE" then
    when_enabled (·.parse_includes_) (set_state .IN_INCLUDE)
  else if found_at_0 upper_line "*DEFINE_CURVE" then
    begin_curve upper_line
  else if found_at_0 upper_line "*BOUNDARY_SPC" then
    begin_boundary_spc upper_line
  else if found_at_0 upper_line "*BOUNDARY_PRESCRIBED_MOTION" then
    begin_boundary_motion upper_line
  else if found_at_0 upper_line "*LOAD_NODE" then
    begin_load_node upper_line
  else if found_at_0 upper_line "*LOAD_SEGMENT" then
    when_enabled (·.parse_loads_) (set_state .IN_LOAD_SEGMENT)
  else if found_at_0 upper_line "*LOAD_BODY" then
    begin_load_body upper_line
  else if found_at_0 upper_line "*CONTROL_TERMINATION" then
    when_enabled (·.parse_controls_) (do
      Run.update (fun c => { c with
        self.current_control_termination_ := ControlTermination.init })
      set_state .IN_CONTROL_TERMINATION)
  else if found_at_0 upper_line "*CONTROL_TIMESTEP" then
    when_enabled (·.parse_controls_) (do
      Run.update (fun c => { c with self.current_control_timestep_ := ControlTimestep.init })
      set_state .IN_CONTROL_TIMESTEP)
  else if found_at_0 upper_line "*CONTROL_ENERGY" then
    when_enabled (·.parse_controls_) (set_state .IN_CONTROL_ENERGY)
  else if found_at_0 upper_line "*CONTROL_OUTPUT" then
    when_enabled (·.parse_controls_) (set_state .IN_CONTROL_OUTPUT)
  else if found_at_0 upper_line "*CONTROL_SHELL" then
    when_enabled (·.parse_controls_) (set_state .IN_CONTROL_SHELL)
  else if found_at_0 upper_line "*CONTROL_CONTACT" then
    when_enabled (·.parse_controls_) (set_state .IN_CONTROL_CONTACT)
  else if found_at_0 upper_line "*CONTROL_HOURGLASS" then
    when_enabled (·.parse_controls_) (set_state .IN_CONTROL_HOURGLASS)
  else if found_at_0 upper_line "*CONTROL_BULK_VISCOSITY" then
    when_enabled (·.parse_controls_) (set_state .IN_CONTROL_BULK_VISCOSITY)
  else if found_at_0 upper_line "*DATABASE_BINARY_D3PLOT" then
    begin_database_binary .BINARY_D3PLOT
  else if found_at_0 upper_line "*DATABASE_BINARY_D3THDT" then
    begin_database_binary .BINARY_D3THDT
  else if found_at_0 upper_line "*DATABASE_GLSTAT" then begin_database_ascii .GLSTAT
  else if found_at_0 upper_line "*DATABASE_MATSUM" then begin_database_ascii .MATSUM
  else if found_at_0 upper_line "*DATABASE_NODOUT" then begin_database_ascii .NODOUT
  else if found_at_0 upper_line "*DATABASE_ELOUT" then begin_database_ascii .ELOUT
  else if found_at_0 upper_line "*DATABASE_RCFORC" then begin_database_ascii .RCFORC
  else if found_at_0 upper_line "*DATABASE_SECFORC" then begin_database_ascii .SECFORC
  else if found_at_0 upper_line "*DATABASE_SPCFORC" then begin_database_ascii .SPCFORC
  else if found_at_0 upper_line "*DATABASE_HISTORY_NODE" then
    begin_database_history_node
  else if found_at_0 upper_line "*DATABASE_HISTORY_SHELL" then
    begin_database_history_element 1
  else if found_at_0 upper_line "*DATABASE_HISTORY_SOLID" then
    begin_database_history_element 2
  else if found_at_0 upper_line "*DATABASE_HISTORY_BEAM" then
    begin_database_history_element 3
  else if found_at_0 upper_line "*INITIAL_VELOCITY_GENERATION" then
    begin_initial_velocity_generation
  else if found_at_0 upper_line "*INITIAL_VELOCITY" then
    begin_initial_velocity upper_line
  else if found_at_0 upper_line "*CONSTRAINED_NODAL_RIGID_BODY" then
    begin_constrained_nodal_rigid_body upper_line
  else if found_at_0 upper_line "*CONSTRAINED_EXTRA_NODES" then
    begin_constrained_extra_nodes upper_line
  else if found_at_0 upper_line "*CONSTRAINED_JOINT" then
    begin_constrained_joint upper_line
  else if found_at_0 upper_line "*CONSTRAINED_SPOTWELD" then
    begin_constrained_spotweld
  else
    other_keyword

/-- The `switch (state)` of `process_line` (parser.cpp 743-1771). -/
def process_data (line : Str) : Run (Ctx F) Unit := fun c =>
  match c.state with
  | .IN_NODE => case_IN_NODE line c
  | .IN_PART_NAME => case_IN_PART_NAME line c
  | .IN_PART_DATA => case_IN_PART_DATA line c
  | .IN_ELEMENT_SHELL => case_IN_ELEMENT line .SHELL c
  | .IN_ELEMENT_SOLID => case_IN_ELEMENT line .SOLID c
  | .IN_ELEMENT_BEAM => case_IN_ELEMENT line .BEAM c
  | .IN_SET_TITLE => case_IN_SET_TITLE c
  | .IN_SET_NODE_HEADER => case_IN_SET_HEADER line .NODE_LIST .IN_SET_NODE_DATA c
  | .IN_SET_NODE_DATA => case_IN_SET_DATA line c
  | .IN_SET_PART_HEADER => case_IN_SET_HEADER line .PART_LIST .IN_SET_PART_DATA c
  | .IN_SET_PART_DATA => case_IN_SET_DATA line c
  | .IN_SET_SEGMENT_HEADER => case_IN_SET_HEADER line .SEGMENT .IN_SET_SEGMENT_DATA c
  | .IN_SET_SEGMENT_DATA => case_IN_SET_SEGMENT_DATA line c
  | .IN_SET_SHELL_HEADER => case_IN_SET_HEADER line .SHELL .IN_SET_SHELL_DATA c
  | .IN_SET_SHELL_DATA => case_IN_SET_DATA line c
  | .IN_SET_SOLID_HEADER => case_IN_SET_HEADER line .SOLID .IN_SET_SOLID_DATA c
  | .IN_SET_SOLID_DATA => case_IN_SET_DATA line c
  | .IN_SECTION_SHELL_TITLE => set_state .IN_SECTION_SHELL_HEADER c
  | .IN_SECTION_SOLID_TITLE => set_state .IN_SECTION_SOLID c
  | .IN_SECTION_BEAM_TITLE => set_state .IN_SECTION_BEAM_HEADER c
  | .IN_SECTION_SHELL_HEADER => case_IN_SECTION_SHELL_HEADER line c
  | .IN_SECTION_SHELL_DATA => case_IN_SECTION_SHELL_DATA line c
  | .IN_SECTION_SOLID => case_IN_SECTION_SOLID line c
  | .IN_SECTION_BEAM_HEADER => case_IN_SECTION_BEAM_HEADER line c
  | .IN_SECTION_BEAM_DATA => case_IN_SECTION_BEAM_DATA line c
  | .IN_CONTACT_ID => set_state .IN_CONTACT_CARD1 c
  | .IN_CONTACT_TITLE => set_state .IN_CONTACT_CARD1 c
  | .IN_CONTACT_CARD1 => case_IN_CONTACT_CARD1 line c
  | .IN_CONTACT_CARD2 => case_IN_CONTACT_CARD2 line c
  | .IN_CONTACT_CARD3 => case_IN_CONTACT_CARD3 line c
  | .IN_MATERIAL_TITLE => case_IN_MATERIAL_TITLE line c
  | .IN_MATERIAL_DATA => case_IN_MATERIAL_DATA line c
  | .IN_INCLUDE => case_IN_INCLUDE line c
  | .IN_CURVE_TITLE => case_IN_CURVE_TITLE line c
  | .IN_CURVE_HEADER => case_IN_CURVE_HEADER line c
  | .IN_CURVE_DATA => case_IN_CURVE_DATA line c
  | .IN_BOUNDARY_SPC => case_IN_BOUNDARY_SPC line c
  | .IN_BOUNDARY_MOTION => case_IN_BOUNDARY_MOTION line c
  | .IN_LOAD_NODE => case_IN_LOAD_NODE line c
  | .IN_LOAD_SEGMENT => case_IN_LOAD_SEGMENT line c
  | .IN_LOAD_BODY => case_IN_LOAD_BODY line c
  | .IN_CONTROL_TERMINATION => case_IN_CONTROL_TERMINATION line c
  | .IN_CONTROL_TIMESTEP => case_IN_CONTROL_TIMESTEP line c
  | .IN_CONTROL_ENERGY => case_IN_CONTROL_ENERGY line c
  | .IN_CONTROL_OUTPUT => case_IN_CONTROL_OUTPUT line c
  | .IN_CONTROL_SHELL => case_IN_CONTROL_SHELL line c
  | .IN_CONTROL_CONTACT => case_IN_CONTROL_CONTACT line c
  | .IN_CONTROL_HOURGLASS => case_IN_CONTROL_HOURGLASS line c
  | .IN_CONTROL_BULK_VISCOSITY => case_IN_CONTROL_BULK_VISCOSITY line c
  | .IN_DATABASE_BINARY => case_IN_DATABASE_BINARY line c
  | .IN_DATABASE_ASCII => case_IN_DATABASE_ASCII line c
  | .IN_DATABASE_HISTORY_NODE => case_IN_DATABASE_HISTORY_NODE line c
  | .IN_DATABASE_HISTORY_ELEMENT => case_IN_DATABASE_HISTORY_ELEMENT line c
  | .IN_DATABASE_CROSS_SECTION => case_IN_DATABASE_CROSS_SECTION line c
  | .IN_INITIAL_VELOCITY => case_IN_INITIAL_VELOCITY line c
  | .IN_INITIAL_VELOCITY_GENERATION => case_IN_INITIAL_VELOCITY_GENERATION line c
  | .IN_INITIAL_STRESS => set_state .IDLE c
  | .IN_CONSTRAINED_NODAL_RIGID_BODY => case_IN_CONSTRAINED_NODAL_RIGID_BODY line c
  | .IN_CONSTRAINED_NODAL_RIGID_BODY_INERTIA =>
    case_IN_CONSTRAINED_NODAL_RIGID_BODY_INERTIA line c
  | .IN_CONSTRAINED_EXTRA_NODES => case_IN_CONSTRAINED_EXTRA_NODES line c
  | .IN_CONSTRAINED_JOINT => case_IN_CONSTRAINED_JOINT line c
  | .IN_CONSTRAINED_SPOTWELD => case_IN_CONSTRAINED_SPOTWELD line c
  | .IDLE => (.ok (), c)

/-- Embeds `KFileParser::process_line`. -/
def process_line (line : Str) : Run (Ctx F) Unit :=
  if is_empty_or_whitespace line then pure ()
  else if is_keyword line then process_keyword (to_upper line)
  else if is_comment line then pure ()
  else process_data line

/-- The lines delivered by the successive `std::getline(stream, line)` calls on
`content`; `cur` holds, reversed, the characters of the line being read. -/
def getlines_from : Str → Str → List Str
  | [], cur => if cur.isEmpty then [] else [cur.reverse]
  | c :: rest, cur =>
    if c = '\n' then cur.reverse :: getlines_from rest []
    else getlines_from rest (c :: cur)

/-- The lines of `content` as read by the `while (std::getline(stream, line))` loop. -/
def getlines (content : Str) : List Str := getlines_from content []

/-- The loop `while (std::getline(stream, line)) { ++line_count; process_line(...); }`
over the lines still to be read; it yields the final `line_count`. -/
def read_loop : List Str → Nat → Run (Ctx F) Nat
  | [], line_count => pure line_count
  | line :: rest, line_count => do
    process_line line
    read_loop rest (line_count + 1)

/-- The statements of `parse_string` after the read loop (parser.cpp 54-79), given the
final `line_count`. -/
def finish_parse (line_count : Nat) : Run (Ctx F) Unit := do
  Run.update (fun c => { c with result.total_lines := line_count })
  Run.update (fun c =>
    if c.self.current_set_.sid > 0 ∧ c.self.current_set_.count > 0 then
      { c with result.sets := c.result.sets ++ [c.self.current_set_],
               self.current_set_ := Set.init }
    else c)
  Run.update (fun c =>
    if c.self.current_material_.mid > 0 then
      { c with result.materials := c.result.materials ++ [c.self.current_material_],
               self.current_material_ := Material.init }
    else c)
  Run.update (fun c =>
    if c.self.current_curve_.lcid > 0 then
      { c with result.curves := c.result.curves ++ [c.self.current_curve_],
               self.current_curve_ := Curve.init }
    else c)
  Run.update (fun c =>
    if c.self.build_index_ then { c with result := c.result.build_indices } else c)

/-- The body of `parse_string` run on the locals `state`, `part_name`, `result`
and the parser object. -/
def parse_body (content : Str) : Run (Ctx F) (ParseResult F) := do
  let line_count ← read_loop (getlines content) 0
  finish_parse line_count
  let c ← Run.read
  pure c.result

/-- Embeds `KFileParser::parse_string`: a member function, so it runs against the parser
object and yields the returned `ParseResult` (or the exception that escaped). -/
def parse_string (content : Str) : Run (KFileParser F) (ParseResult F) := fun self =>
  match parse_body content
      { self := self, state := .IDLE, part_name := [], result := ParseResult.init } with
  | (r, c) => (r, c.self)

end Process

/-! ## A concrete `DoubleModel` for evaluating the embedding -/

/-- Symbolic doubles: a value is kept as the text it was decoded from (or, for a
literal, as its decimal mantissa and exponent). -/
inductive SymDouble where
  | text (s : Str)
  | literal (m e : Int)
  deriving DecidableEq, Repr

/-- The `stod` of symbolic doubles: it accepts a text that starts, after an optional sign,
with a digit or a decimal point. -/
def SymDouble.stod (s : Str) : Except Exn SymDouble :=
  let body := s.dropWhile isspace
  let unsigned_part :=
    match body with
    | '-' :: t => t
    | '+' :: t => t
    | _ => body
  match unsigned_part with
  | c :: _ => if isdigit c ∨ c = '.' then .ok (.text body) else .error (.invalid_argument "stod")
  | [] => .error (.invalid_argument "stod")

/-- Truncation of a symbolic double: the integer prefix of its text. -/
def SymDouble.to_int32 : SymDouble → Int
  | .text s => match stoi s with
    | .ok v => v
    | .error _ => 0
  | .literal m e => if e = 0 then m else 0

instance : DoubleModel SymDouble where
  stod := SymDouble.stod
  lit := SymDouble.literal
  to_int32 := SymDouble.to_int32

/-! ## Derived descriptions used in the statements -/

/-- The text of the column `[start, start + len)` of a line: the slice clipped to the
line, then trimmed. -/
def column_text (line : Str) (start len : Nat) : Str :=
  trim ((line.drop start).take len)

/-- The integer a column decoder yields for the trimmed text of a field: `0` for an
empty text or one `std::stoi` rejects, the decoded value otherwise. -/
def int_of_field (field : Str) : Int :=
  if field.isEmpty then 0
  else
    match stoi field with
    | .ok v => v
    | .error _ => 0

/-- The double a column decoder yields for the trimmed text of a field. -/
def double_of_field {F : Type} [DoubleModel F] (field : Str) : F :=
  if field.isEmpty then dzero
  else
    match (DoubleModel.stod field : Except Exn F) with
    | .ok v => v
    | .error _ => dzero

/-- The decimal rendering of an integer: a minus sign for a negative number, then the
decimal digits of its absolute value without leading zeros (the text `toString` and
`std::to_string` produce). -/
def render (n : Int) : Str :=
  if n < 0 then '-' :: Nat.toDigits 10 n.natAbs else Nat.toDigits 10 n.natAbs

/-- The value decoded for node slot `i` (0-based) of an element line: the 8-wide
integer column that starts at offset `16 + 8 i`. -/
def node_slot (line : Str) (i : Nat) : Int :=
  int_of_field (column_text line (16 + i * 8) 8)

/-- The 1-based index of the last entry of a list that satisfies `p`, `0` when no
entry does. -/
def last_index_where (p : Int → Bool) : List Int → Nat
  | [] => 0
  | x :: xs =>
    if last_index_where p xs > 0 then last_index_where p xs + 1
    else if p x then 1 else 0

/-- The value of `count` after scanning the slots `vs`, the first of which has index
`i`, starting from `count`: every positive slot sets it to its 1-based index. -/
def scan_count : List Int → Nat → Int → Int
  | [], _, count => count
  | v :: vs, i, count => scan_count vs (i + 1) (if v > 0 then (i : Int) + 1 else count)

instance {ε α : Type} [DecidableEq ε] [DecidableEq α] : DecidableEq (Except ε α) :=
  fun a b =>
    match a, b with
    | .ok x, .ok y => if h : x = y then isTrue (by rw [h]) else isFalse (by
        intro h2; cases h2; exact h rfl)
    | .error x, .error y => if h : x = y then isTrue (by rw [h]) else isFalse (by
        intro h2; cases h2; exact h rfl)
    | .ok _, .error _ => isFalse (by intro h; cases h)
    | .error _, .ok _ => isFalse (by intro h; cases h)

/-- The text made of the given lines, each terminated by a line feed. -/
def unlines (lines : List Str) : Str :=
  match lines with
  | [] => []
  | l :: rest => l ++ '\n' :: unlines rest

/-- A data line: not blank and not starting with `*` or `$`. -/
def data_line (l : Str) : Prop :=
  is_empty_or_whitespace l = false ∧ is_keyword l = false ∧ is_comment l = false

instance (l : Str) : Decidable (data_line l) := by
  unfold data_line
  infer_instance

/-- The locals of `parse_string` when its read loop starts: `state = IDLE`, an empty
`part_name` and a cleared `result`, next to the parser object. -/
def start_ctx {F : Type} (self : KFileParser F) : Ctx F :=
  { self := self, state := .IDLE, part_name := [], result := ParseResult.init }

/-- The locals and parser object after the read loop has consumed `lines`. -/
def ctx_after {F : Type} [DoubleModel F] (lines : List Str) (c : Ctx F) : Ctx F :=
  (read_loop lines 0 c).2

/-- A `ParseResult` with `total_lines` increased by one. -/
def ParseResult.one_more_line {F : Type} (r : ParseResult F) : ParseResult F :=
  { r with total_lines := r.total_lines + 1 }

/-- The value decoded for id column `i` (0-based) of a set data line: the 10-wide
integer column that starts at offset `10 i`. -/
def id_column (line : Str) (i : Nat) : Int :=
  int_of_field (column_text line (i * 10) 10)

/-- The eight 10-wide integer columns of a line, in column order. -/
def id_columns (line : Str) : List Int :=
  [0, 1, 2, 3, 4, 5, 6, 7].map (id_column line)

/-! ## Properties of statement blocks -/

namespace Run

variable {σ α β : Type}

/-- The block never throws: from every state it yields a value. -/
def Total (m : Run σ α) : Prop := ∀ s, ∃ a, (m s).1 = Except.ok a

/-- The block keeps the invariant `I`, whether it throws or not. -/
def Preserves (I : σ → Prop) (m : Run σ α) : Prop := ∀ s, I s → I (m s).2

end Run

/-- The block leaves the part `π` of the context as it found it, and leaves the
parse state either untouched or in one of the states `S`, whether it throws or
not. -/
def Frame {F α β : Type} (π : Ctx F → β) (S : ParseState → Prop) (m : Run (Ctx F) α) : Prop :=
  ∀ c, π (m c).2 = π c ∧ ((m c).2.state = c.state ∨ S (m c).2.state)

/-- Whenever the block returns, the parse state it leaves is one of the states `S`. -/
def Ends {F α : Type} (S : ParseState → Prop) (m : Run (Ctx F) α) : Prop :=
  ∀ c a, (m c).1 = Except.ok a → S (m c).2.state

/-- The entity a parse state belongs to, as far as sets, materials, contacts and
curves are concerned. -/
inductive StateFamily where
  | set | material | contact | curve | other
  deriving DecidableEq, Repr

/-- The family of a parse state: the `IN_SET_*` states, the `IN_MATERIAL_*` states,
the `IN_CONTACT_*` states, the `IN_CURVE_*` states, and all the others. -/
def ParseState.family : ParseState → StateFamily
  | .IN_SET_TITLE | .IN_SET_NODE_HEADER | .IN_SET_NODE_DATA | .IN_SET_PART_HEADER
  | .IN_SET_PART_DATA | .IN_SET_SEGMENT_HEADER | .IN_SET_SEGMENT_DATA
  | .IN_SET_SHELL_HEADER | .IN_SET_SHELL_DATA | .IN_SET_SOLID_HEADER
  | .IN_SET_SOLID_DATA => .set
  | .IN_MATERIAL_TITLE | .IN_MATERIAL_DATA => .material
  | .IN_CONTACT_ID | .IN_CONTACT_TITLE | .IN_CONTACT_CARD1 | .IN_CONTACT_CARD2
  | .IN_CONTACT_CARD3 => .contact
  | .IN_CURVE_TITLE | .IN_CURVE_HEADER | .IN_CURVE_DATA => .curve
  | _ => .other

/-- The states a handler of family `f` may move to: its own and the neutral ones. -/
def ParseState.within (f : StateFamily) (st : ParseState) : Prop :=
  st.family = f ∨ st.family = .other

instance (f : StateFamily) (st : ParseState) : Decidable (st.within f) := by
  unfold ParseState.within
  infer_instance

/-- What the parser holds about sets: the enable flag, the in-flight set and the
committed sets. -/
def set_view {F : Type} (c : Ctx F) : Bool × Set F × List (Set F) :=
  (c.self.parse_sets_, c.self.current_set_, c.result.sets)

/-- What the parser holds about materials: the enable flag, the in-flight material,
the expected number of cards and the committed materials. -/
def material_view {F : Type} (c : Ctx F) : Bool × Material F × Int × List (Material F) :=
  (c.self.parse_materials_, c.self.current_material_, c.self.material_expected_cards_,
    c.result.materials)

/-- What the parser holds about contacts: the enable flag and the committed
contacts. -/
def contact_view {F : Type} (c : Ctx F) : Bool × List (Contact F) :=
  (c.self.parse_contacts_, c.result.contacts)

/-- What the parser holds about curves: the enable flag, the in-flight curve and the
committed curves. -/
def curve_view {F : Type} (c : Ctx F) : Bool × Curve F × List (Curve F) :=
  (c.self.parse_curves_, c.self.current_curve_, c.result.curves)

/-- Everything the parser holds about sets, materials, contacts and curves. -/
def entity_view {F : Type} (c : Ctx F) :=
  (set_view c, material_view c, contact_view c, curve_view c)

/-- The block never throws and adds no warning. -/
def Quiet {F α : Type} (m : Run (Ctx F) α) : Prop :=
  ∀ c, (∃ a, (m c).1 = Except.ok a) ∧ (m c).2.result.warnings = c.result.warnings

/-- The set type a keyword line announces, if it is one of the five set keywords. -/
def set_keyword_type (u : Str) : Option SetType :=
  if found_at_0 u "*SET_NODE_LIST" then some .NODE_LIST
  else if found_at_0 u "*SET_PART_LIST" then some .PART_LIST
  else if found_at_0 u "*SET_SEGMENT" then some .SEGMENT
  else if found_at_0 u "*SET_SHELL" then some .SHELL
  else if found_at_0 u "*SET_SOLID" then some .SOLID
  else none

/-- The header state of a set type (the switch of `IN_SET_TITLE`, parser.cpp 805-820). -/
def header_state_of : SetType → ParseState
  | .NODE_LIST => .IN_SET_NODE_HEADER
  | .PART_LIST => .IN_SET_PART_HEADER
  | .SEGMENT => .IN_SET_SEGMENT_HEADER
  | .SHELL => .IN_SET_SHELL_HEADER
  | .SOLID => .IN_SET_SOLID_HEADER

/-- What a branch `m` of the keyword chain can be, for the upper-cased line `u`: one
of the branches that handle sets, contacts, materials or curves, the final branch
for unrecognised keywords, or a branch that leaves everything the parser holds
about these four families alone and ends in a neutral state. -/
def KeywordBranch {F : Type} [DoubleModel F] (u : Str) (m : Run (Ctx F) Unit) : Prop :=
  (∃ ty, set_keyword_type u = some ty ∧ m = begin_set u ty (header_state_of ty))
  ∨ (found_at_0 u "*CONTACT_" = true ∧ m = begin_contact u)
  ∨ (found_at_0 u "*MAT_" = true ∧ m = begin_material u)
  ∨ (found_at_0 u "*DEFINE_CURVE" = true ∧ m = begin_curve u)
  ∨ m = other_keyword
  ∨ (Frame entity_view (ParseState.within .other) m ∧ Ends (ParseState.within .other) m)

/-! ## Definitions used in the statements about whole parses -/

/-- A freshly constructed parser over symbolic doubles (the uninitialised
`material_expected_cards_` taken as `0`). -/
def fresh_instance : KFileParser SymDouble := KFileParser.init 0

/-- The result `parse_string` returns for `text` on a freshly constructed parser,
`none` when an exception escapes. -/
def parsed (text : String) : Option (ParseResult SymDouble) :=
  (parse_string text.toList fresh_instance).1.toOption

/-- The context after `process_line` has run on `line`. -/
def after_line {F : Type} [DoubleModel F] (line : Str) (c : Ctx F) : Ctx F :=
  (process_line line c).2

/-- The effect the specification gives for a keyword line that matches no recognised
head: the in-flight set (if `sid > 0` and non-empty), material (if `mid > 0`) and
curve (if `lcid > 0`) are appended to the result and reset, and the state becomes
idle; nothing else changes. -/
def commit_in_flight {F : Type} [DoubleModel F] (c : Ctx F) : Ctx F :=
  let set_ok : Bool := c.self.current_set_.sid > 0 ∧ c.self.current_set_.count > 0
  let mat_ok : Bool := c.self.current_material_.mid > 0
  let curve_ok : Bool := c.self.current_curve_.lcid > 0
  { c with
    state := .IDLE
    result.sets := if set_ok then c.result.sets ++ [c.self.current_set_] else c.result.sets
    result.materials :=
      if mat_ok then c.result.materials ++ [c.self.current_material_] else c.result.materials
    result.curves :=
      if curve_ok then c.result.curves ++ [c.self.current_curve_] else c.result.curves
    self.current_set_ := if set_ok then Set.init else c.self.current_set_
    self.current_material_ := if mat_ok then Material.init else c.self.current_material_
    self.current_curve_ := if curve_ok then Curve.init else c.self.current_curve_ }

/-- The heads the keyword chain of `process_line` recognises (parser.cpp 95-729): the
disjunction of its conditions, in source order. -/
def recognised_head (u : Str) : Bool :=
  (found_at_0 u "*NODE" && !found u "*NODE_")
  || (found_at_0 u "*PART" && !found u "*PART_")
  || found_at_0 u "*ELEMENT_SHELL" || found_at_0 u "*ELEMENT_SOLID"
  || found_at_0 u "*ELEMENT_BEAM"
  || found_at_0 u "*SET_NODE_LIST" || found_at_0 u "*SET_PART_LIST"
  || found_at_0 u "*SET_SEGMENT" || found_at_0 u "*SET_SHELL" || found_at_0 u "*SET_SOLID"
  || found_at_0 u "*SECTION_SHELL" || found_at_0 u "*SECTION_SOLID"
  || found_at_0 u "*SECTION_BEAM"
  || found_at_0 u "*CONTACT_" || found_at_0 u "*MAT_" || found_at_0 u "*INCLUDE"
  || found_at_0 u "*DEFINE_CURVE" || found_at_0 u "*BOUNDARY_SPC"
  || found_at_0 u "*BOUNDARY_PRESCRIBED_MOTION"
  || found_at_0 u "*LOAD_NODE" || found_at_0 u "*LOAD_SEGMENT" || found_at_0 u "*LOAD_BODY"
  || found_at_0 u "*CONTROL_TERMINATION" || found_at_0 u "*CONTROL_TIMESTEP"
  || found_at_0 u "*CONTROL_ENERGY" || found_at_0 u "*CONTROL_OUTPUT"
  || found_at_0 u "*CONTROL_SHELL" || found_at_0 u "*CONTROL_CONTACT"
  || found_at_0 u "*CONTROL_HOURGLASS" || found_at_0 u "*CONTROL_BULK_VISCOSITY"
  || found_at_0 u "*DATABASE_BINARY_D3PLOT" || found_at_0 u "*DATABASE_BINARY_D3THDT"
  || found_at_0 u "*DATABASE_GLSTAT" || found_at_0 u "*DATABASE_MATSUM"
  || found_at_0 u "*DATABASE_NODOUT" || found_at_0 u "*DATABASE_ELOUT"
  || found_at_0 u "*DATABASE_RCFORC" || found_at_0 u "*DATABASE_SECFORC"
  || found_at_0 u "*DATABASE_SPCFORC"
  || found_at_0 u "*DATABASE_HISTORY_NODE" || found_at_0 u "*DATABASE_HISTORY_SHELL"
  || found_at_0 u "*DATABASE_HISTORY_SOLID" || found_at_0 u "*DATABASE_HISTORY_BEAM"
  || found_at_0 u "*INITIAL_VELOCITY_GENERATION" || found_at_0 u "*INITIAL_VELOCITY"
  || found_at_0 u "*CONSTRAINED_NODAL_RIGID_BODY" || found_at_0 u "*CONSTRAINED_EXTRA_NODES"
  || found_at_0 u "*CONSTRAINED_JOINT" || found_at_0 u "*CONSTRAINED_SPOTWELD"

/-- An index map holds, for the keys `keys` of a collection (in collection order), the
position of the last entity with each key: `m k = some i` exactly when position
`i` holds key `k` and no later position does. -/
def last_wins (m : IndexMap) (keys : List Int) : Prop :=
  ∀ (k : Int) (i : Nat), m k = some i ↔ (keys[i]? = some k ∧ ∀ j : Nat, i < j → keys[j]? ≠ some k)

/-- The key set of an index map is exactly the set of keys of the collection. -/
def keys_exact (m : IndexMap) (keys : List Int) : Prop :=
  ∀ k : Int, (m k).isSome = true ↔ k ∈ keys

/-! ### Set blocks, as the specification describes them -/

/-- The data state that follows the header state of a set type. -/
def data_state_of : SetType → ParseState
  | .NODE_LIST => .IN_SET_NODE_DATA
  | .PART_LIST => .IN_SET_PART_DATA
  | .SEGMENT => .IN_SET_SEGMENT_DATA
  | .SHELL => .IN_SET_SHELL_DATA
  | .SOLID => .IN_SET_SOLID_DATA

/-- The condition under which the parser commits a set: `sid > 0 && count() > 0`. -/
def Set.committable {F : Type} (s : Set F) : Prop := s.sid > 0 ∧ s.count > 0

instance {F : Type} (s : Set F) : Decidable s.committable := by
  unfold Set.committable
  infer_instance

/-- The list holding `s` when it is committable, the empty list otherwise. -/
def Set.if_committable {F : Type} (s : Set F) : List (Set F) :=
  if s.committable then [s] else []

/-- The data lines of the block that follows a keyword line: among the lines up to
the next keyword line, those that are neither blank nor comments. -/
def block_data (rest : List Str) : List Str :=
  (rest.takeWhile (fun l => !is_keyword l)).filter (fun l => decide (data_line l))

/-- The set decoded from a header card (the default set when the decoder throws). -/
def decoded_set_header {F : Type} [DoubleModel F] (card : Str) (ty : SetType) : Set F :=
  match parse_set_header card ty with
  | .ok s => s
  | .error _ => Set.init

/-- The items one data card adds to a set of type `ty`: a segment for a segment set,
the ids of the card otherwise. -/
def add_set_card {F : Type} (ty : SetType) (s : Set F) (card : Str) : Set F :=
  if ty = .SEGMENT then (parse_segment_data_line card s).2 else (parse_set_data_line card s).2

/-- The set a block describes: after the title line of a `_TITLE` keyword, the first
data line is the header card and every further data line is a data card; a block
without header card describes no set. -/
def set_of_block {F : Type} [DoubleModel F] (u : Str) (ty : SetType) (datas : List Str) :
    Option (Set F) :=
  match (if found u "_TITLE" then datas.drop 1 else datas) with
  | [] => none
  | header :: cards => some (cards.foldl (add_set_card ty) (decoded_set_header header ty))

/-- The sets of an input, block by block in source order: every set keyword line
contributes the set of its block when that set has `sid > 0` and at least one
item. -/
def spec_sets {F : Type} [DoubleModel F] : List Str → List (Set F)
  | [] => []
  | l :: rest =>
    (if is_keyword l then
      match set_keyword_type (to_upper l) with
      | some ty =>
        match (set_of_block (to_upper l) ty (block_data rest) : Option (Set F)) with
        | some s => s.if_committable
        | none => []
      | none => []
    else []) ++ spec_sets rest

/-- Every id stored in the set is strictly positive. -/
def Set.ids_positive {F : Type} (s : Set F) : Prop := ∀ id ∈ s.ids, id > 0

/-- The in-flight set of a context that is in a set state, after the data lines
`datas` have been fed to it; the in-flight set itself in any other state. -/
def set_in_flight {F : Type} [DoubleModel F] (c : Ctx F) (datas : List Str) : Set F :=
  match c.state with
  | .IN_SET_TITLE =>
    match datas.drop 1 with
    | [] => c.self.current_set_
    | h :: cards =>
      cards.foldl (add_set_card c.self.current_set_.type)
        (decoded_set_header h c.self.current_set_.type)
  | .IN_SET_NODE_HEADER =>
    match datas with
    | [] => c.self.current_set_
    | h :: cards => cards.foldl (add_set_card .NODE_LIST) (decoded_set_header h .NODE_LIST)
  | .IN_SET_PART_HEADER =>
    match datas with
    | [] => c.self.current_set_
    | h :: cards => cards.foldl (add_set_card .PART_LIST) (decoded_set_header h .PART_LIST)
  | .IN_SET_SEGMENT_HEADER =>
    match datas with
    | [] => c.self.current_set_
    | h :: cards => cards.foldl (add_set_card .SEGMENT) (decoded_set_header h .SEGMENT)
  | .IN_SET_SHELL_HEADER =>
    match datas with
    | [] => c.self.current_set_
    | h :: cards => cards.foldl (add_set_card .SHELL) (decoded_set_header h .SHELL)
  | .IN_SET_SOLID_HEADER =>
    match datas with
    | [] => c.self.current_set_
    | h :: cards => cards.foldl (add_set_card .SOLID) (decoded_set_header h .SOLID)
  | .IN_SET_NODE_DATA => datas.foldl (add_set_card .NODE_LIST) c.self.current_set_
  | .IN_SET_PART_DATA => datas.foldl (add_set_card .PART_LIST) c.self.current_set_
  | .IN_SET_SEGMENT_DATA => datas.foldl (add_set_card .SEGMENT) c.self.current_set_
  | .IN_SET_SHELL_DATA => datas.foldl (add_set_card .SHELL) c.self.current_set_
  | .IN_SET_SOLID_DATA => datas.foldl (add_set_card .SOLID) c.self.current_set_
  | _ => c.self.current_set_

/-- The set invariant of a context: the ids of the in-flight set and of every
committed set are strictly positive. -/
def sets_ids_positive {F : Type} (c : Ctx F) : Prop :=
  c.self.current_set_.ids_positive ∧ ∀ s ∈ c.result.sets, s.ids_positive

/-- The property (P4) of a set: a segment set counts its segments; any other set
counts its ids, all of which are strictly positive. -/
def Set.well_formed {F : Type} (s : Set F) : Prop :=
  (s.type = .SEGMENT → s.count = s.segments.length)
  ∧ (s.type ≠ .SEGMENT → s.count = s.ids.length ∧ ∀ id ∈ s.ids, id > 0)

/-! ### Materials, as the specification describes them -/

/-- The eight 10-wide floating-point columns of a card, in column order. -/
def decoded_card {F : Type} [DoubleModel F] (line : Str) : List F :=
  [0, 1, 2, 3, 4, 5, 6, 7].map (fun i => double_of_field (column_text line (i * 10) 10))

/-- The head of a `*MAT_` keyword line: the text after `*MAT_`, up to the `_TITLE`
option when the line carries one. -/
def material_head (u : Str) : Str :=
  if found (u.drop 5) "_TITLE" then
    (u.drop 5).take ((find (u.drop 5) "_TITLE".toList).getD 0)
  else u.drop 5

/-- Whether a `*MAT_` keyword line carries the `_TITLE` option. -/
def material_has_title (u : Str) : Bool := found (u.drop 5) "_TITLE"

/-- The closed table of material heads given by the specification. -/
def spec_material_type (head : Str) : MaterialType :=
  if head = "ELASTIC".toList ∨ head = "001".toList then .ELASTIC
  else if head = "ORTHOTROPIC_ELASTIC".toList ∨ head = "002".toList then .ORTHOTROPIC_ELASTIC
  else if head = "PLASTIC_KINEMATIC".toList ∨ head = "003".toList then .PLASTIC_KINEMATIC
  else if head = "RIGID".toList ∨ head = "020".toList then .RIGID
  else if head = "PIECEWISE_LINEAR_PLASTICITY".toList ∨ head = "024".toList then
    .PIECEWISE_LINEAR_PLASTICITY
  else if head = "FABRIC".toList ∨ head = "034".toList then .FABRIC
  else if head = "COMPOSITE_DAMAGE".toList ∨ head = "054".toList ∨ head = "055".toList then
    .COMPOSITE_DAMAGE
  else if head = "LAMINATED_COMPOSITE_FABRIC".toList ∨ head = "058".toList then
    .LAMINATED_COMPOSITE_FABRIC
  else if head = "COMPOSITE_FAILURE".toList ∨ head = "ENHANCED_COMPOSITE_DAMAGE".toList
      ∨ head = "059".toList then .COMPOSITE_FAILURE
  else .OTHER

/-- The expected number of cards of each material type given by the specification. -/
def spec_expected_cards : MaterialType → Int
  | .ELASTIC => 1
  | .PLASTIC_KINEMATIC => 1
  | .PIECEWISE_LINEAR_PLASTICITY => 2
  | .ORTHOTROPIC_ELASTIC => 2
  | .RIGID => 3
  | .FABRIC => 4
  | .LAMINATED_COMPOSITE_FABRIC => 5
  | .COMPOSITE_FAILURE => 5
  | .COMPOSITE_DAMAGE => 6
  | .OTHER => 10

/-- Property (P5) of a material: `cards_parsed` is the number of stored cards and
every stored card has exactly eight values. -/
def Material.well_formed {F : Type} (m : Material F) : Prop :=
  m.cards_parsed = m.cards.length ∧ ∀ row ∈ m.cards, row.length = 8

/-- A material with the given type, name and title and every other member at its
default: the in-flight material of a block before its first card. -/
def Material.blank {F : Type} [DoubleModel F] (type : MaterialType) (type_name title : Str) :
    Material F :=
  { (Material.init : Material F) with type := type, type_name := type_name, title := title }

/-- The material that results from storing the cards `cards`, in order, in a blank
material. -/
def material_of_cards {F : Type} [DoubleModel F] (type : MaterialType) (type_name title : Str)
    (cards : List (List F)) : Material F :=
  cards.foldl (fun m cv => store_material_card cv m) (Material.blank type type_name title)

/-- The in-flight material is what storing its own cards in a blank material of its
type, name and title gives, and each of its cards has eight values. -/
def Material.replayed {F : Type} [DoubleModel F] (m : Material F) : Prop :=
  m = material_of_cards m.type m.type_name m.title m.cards ∧ ∀ row ∈ m.cards, row.length = 8

/-- The material invariant of a context: the in-flight material and every committed
material are replays of their cards. -/
def materials_replayed {F : Type} [DoubleModel F] (c : Ctx F) : Prop :=
  c.self.current_material_.replayed ∧ ∀ m ∈ c.result.materials, m.replayed

/-- The typed slots the specification's table gives for an `ORTHOTROPIC_ELASTIC`
material with at least two cards. -/
def Material.orthotropic_slots {F : Type} [DoubleModel F] (m : Material F) : Prop :=
  ∃ c0 c1 rest, m.cards = c0 :: c1 :: rest
    ∧ m.mid = DoubleModel.to_int32 (c0.getD 0 dzero)
    ∧ m.ro = c0.getD 1 dzero ∧ m.e = c0.getD 2 dzero ∧ m.eb = c0.getD 3 dzero
    ∧ m.ec = c0.getD 4 dzero ∧ m.pr = c0.getD 5 dzero ∧ m.prca = c0.getD 6 dzero
    ∧ m.prcb = c0.getD 7 dzero
    ∧ m.gab = c1.getD 0 dzero ∧ m.gbc = c1.getD 1 dzero ∧ m.gca = c1.getD 2 dzero
    ∧ m.aopt = DoubleModel.to_int32 (c1.getD 3 dzero)

/-- What the code projects for a material of type `OTHER`: from the first card
`mid`, `ro`, `e` and `pr` (columns 0 to 3), and nothing else; every other typed
slot keeps its default. -/
def Material.other_slots {F : Type} [DoubleModel F] (m : Material F) : Prop :=
  (∀ c0 rest, m.cards = c0 :: rest →
    m.mid = DoubleModel.to_int32 (c0.getD 0 dzero) ∧ m.ro = c0.getD 1 dzero
    ∧ m.e = c0.getD 2 dzero ∧ m.pr = c0.getD 3 dzero)
  ∧ m.eb = dzero ∧ m.ec = dzero ∧ m.prca = dzero ∧ m.prcb = dzero ∧ m.gab = dzero
  ∧ m.gbc = dzero ∧ m.gca = dzero ∧ m.sigy = dzero ∧ m.etan = dzero ∧ m.fail = dzero
  ∧ m.tdel = dzero ∧ m.cmo = dzero ∧ m.con1 = dzero ∧ m.con2 = dzero ∧ m.xc = dzero
  ∧ m.xt = dzero ∧ m.yc = dzero ∧ m.yt = dzero ∧ m.sc = dzero ∧ m.aopt = 0 ∧ m.macf = 0

/-- The typed slots of a material, in declaration order. -/
def Material.slots {F : Type} (m : Material F) :=
  (m.mid, m.ro, m.e, m.pr, m.eb, m.ec, m.prca, m.prcb, m.gab, m.gbc, m.gca, m.sigy, m.etan,
    m.fail, m.tdel, m.cmo, m.con1, m.con2, m.xc, m.xt, m.yc, m.yt, m.sc, m.aopt, m.macf)

/-- A property of materials that holds of a blank material and is kept by storing a
card of eight values and by setting the title. -/
structure MaterialInvariant {F : Type} [DoubleModel F] (P : Material F → Prop) : Prop where
  blank : ∀ ty tn, P (Material.blank ty tn [])
  store : ∀ m cv, P m → cv.length = 8 → P (store_material_card cv m)
  title : ∀ m t, P m → P { m with title := t }

/-- The list holding the material when its `mid` is positive (the guard of the commits
at a keyword and at the end of the input), the empty list otherwise. -/
def Material.if_keyed {F : Type} (m : Material F) : List (Material F) :=
  if m.mid > 0 then [m] else []

/-- The in-flight contact after its first card (parser.cpp 1041-1050). -/
def contact_card1 {F : Type} (line : Str) (k : Contact F) : Contact F :=
  { k with
    ssid := int_of_field (column_text line 0 10)
    msid := int_of_field (column_text line 10 10)
    sstyp := int_of_field (column_text line 20 10)
    mstyp := int_of_field (column_text line 30 10)
    sboxid := int_of_field (column_text line 40 10)
    mboxid := int_of_field (column_text line 50 10)
    spr := int_of_field (column_text line 60 10)
    mpr := int_of_field (column_text line 70 10)
    cards_parsed := 1 }

/-- The in-flight contact after its second card (parser.cpp 1060-1072). -/
def contact_card2 {F : Type} [DoubleModel F] (line : Str) (k : Contact F) : Contact F :=
  { k with
    fs := double_of_field (column_text line 0 10)
    fd := double_of_field (column_text line 10 10)
    dc := double_of_field (column_text line 20 10)
    vc := double_of_field (column_text line 30 10)
    vdc := double_of_field (column_text line 40 10)
    penchk := int_of_field (column_text line 50 10)
    bt := double_of_field (column_text line 60 10)
    dt := double_of_field (column_text line 70 10)
    cards_parsed := 2 }

/-- The contact committed after its third card (parser.cpp 1083-1095). -/
def contact_card3 {F : Type} [DoubleModel F] (line : Str) (k : Contact F) : Contact F :=
  { k with
    sfs := double_of_field (column_text line 0 10)
    sfm := double_of_field (column_text line 10 10)
    sst := double_of_field (column_text line 20 10)
    mst := double_of_field (column_text line 30 10)
    sfst := double_of_field (column_text line 40 10)
    sfmt := double_of_field (column_text line 50 10)
    fsf := double_of_field (column_text line 60 10)
    vsf := double_of_field (column_text line 70 10)
    cards_parsed := 3 }

/-! ### Curves, as the specification describes them -/

/-- The list holding the curve when its `lcid` is positive (the guard of the commits
at a keyword and at the end of the input), the empty list otherwise. -/
def Curve.if_keyed {F : Type} (k : Curve F) : List (Curve F) :=
  if k.lcid > 0 then [k] else []

/-- The in-flight curve after its header card: the 10-wide columns
`[lcid, sidr, sfa, sfo, offa, offo, dattyp]`. -/
def curve_header {F : Type} [DoubleModel F] (line : Str) (k : Curve F) : Curve F :=
  { k with
    lcid := int_of_field (column_text line 0 10)
    sidr := int_of_field (column_text line 10 10)
    sfa := double_of_field (column_text line 20 10)
    sfo := double_of_field (column_text line 30 10)
    offa := double_of_field (column_text line 40 10)
    offo := double_of_field (column_text line 50 10)
    dattyp := int_of_field (column_text line 60 10) }

/-- The point a data card holds: the 20-wide column at 0 and the 20-wide column at
20. -/
def curve_point {F : Type} [DoubleModel F] (line : Str) : F × F :=
  (double_of_field (column_text line 0 20), double_of_field (column_text line 20 20))

/-- The in-flight curve after one more data card. -/
def add_curve_card {F : Type} [DoubleModel F] (k : Curve F) (line : Str) : Curve F :=
  k.add_point (curve_point line).1 (curve_point line).2

/-- The curve a block describes: after the title line of a `_TITLE` keyword, the first
data line is the header card and every further data line is one point; a block
without header card describes no curve. -/
def curve_of_block {F : Type} [DoubleModel F] (u : Str) (datas : List Str) :
    Option (Curve F) :=
  match (if found u "_TITLE" then datas.drop 1 else datas) with
  | [] => none
  | header :: cards =>
    some
      { lcid := int_of_field (column_text header 0 10)
        sidr := int_of_field (column_text header 10 10)
        sfa := double_of_field (column_text header 20 10)
        sfo := double_of_field (column_text header 30 10)
        offa := double_of_field (column_text header 40 10)
        offo := double_of_field (column_text header 50 10)
        dattyp := int_of_field (column_text header 60 10)
        points := cards.map curve_point
        title := if found u "_TITLE" then (datas.head?.map trim).getD [] else [] }

/-- The curves of an input, block by block in source order: every `*DEFINE_CURVE`
keyword line contributes the curve of its block when that curve has `lcid > 0`. -/
def spec_curves {F : Type} [DoubleModel F] : List Str → List (Curve F)
  | [] => []
  | l :: rest =>
    (if is_keyword l = true ∧ found_at_0 (to_upper l) "*DEFINE_CURVE" = true then
      match (curve_of_block (to_upper l) (block_data rest) : Option (Curve F)) with
      | some k => k.if_keyed
      | none => []
    else []) ++ spec_curves rest

/-- The in-flight curve of a context that is in a curve state, after the data lines
`datas` have been fed to it; the in-flight curve itself in any other state. -/
def curve_in_flight {F : Type} [DoubleModel F] (c : Ctx F) (datas : List Str) : Curve F :=
  match c.state with
  | .IN_CURVE_TITLE =>
    match datas with
    | [] => c.self.current_curve_
    | t :: rest =>
      match rest with
      | [] => { c.self.current_curve_ with title := trim t }
      | h :: cards =>
        cards.foldl add_curve_card (curve_header h { c.self.current_curve_ with title := trim t })
  | .IN_CURVE_HEADER =>
    match datas with
    | [] => c.self.current_curve_
    | h :: cards => cards.foldl add_curve_card (curve_header h c.self.current_curve_)
  | .IN_CURVE_DATA => datas.foldl add_curve_card c.self.current_curve_
  | _ => c.self.current_curve_

/-! ### Sections -/

/-- The section type a keyword line announces, if it is one of the three section
keywords. -/
def section_keyword_type (u : Str) : Option SectionType :=
  if found_at_0 u "*SECTION_SHELL" then some .SHELL
  else if found_at_0 u "*SECTION_SOLID" then some .SOLID
  else if found_at_0 u "*SECTION_BEAM" then some .BEAM
  else none

/-- The state in which the title line of a section block is awaited. -/
def section_title_state : SectionType → ParseState
  | .SHELL => .IN_SECTION_SHELL_TITLE
  | .SOLID => .IN_SECTION_SOLID_TITLE
  | .BEAM => .IN_SECTION_BEAM_TITLE

/-- The state in which the first card of a section block is awaited. -/
def section_first_state : SectionType → ParseState
  | .SHELL => .IN_SECTION_SHELL_HEADER
  | .SOLID => .IN_SECTION_SOLID
  | .BEAM => .IN_SECTION_BEAM_HEADER

/-- The number of cards of a section block: two for shell and beam sections, one
for solid sections. -/
def spec_section_cards : SectionType → Nat
  | .SHELL => 2
  | .SOLID => 1
  | .BEAM => 2

/-- The in-flight section after the header card of a shell section (parser.cpp
935-946). -/
def section_shell_header {F : Type} [DoubleModel F] (line : Str) (s : Section F) : Section F :=
  { s with
    secid := int_of_field (column_text line 0 10)
    elform := int_of_field (column_text line 10 10)
    shrf := double_of_field (column_text line 20 10)
    nip := int_of_field (column_text line 30 10)
    propt := double_of_field (column_text line 40 10)
    qr_irid := int_of_field (column_text line 50 10)
    icomp := int_of_field (column_text line 60 10)
    setyp := int_of_field (column_text line 70 10) }

/-- The section committed after the data card of a shell section (parser.cpp
954-966). -/
def section_shell_data {F : Type} [DoubleModel F] (line : Str) (s : Section F) : Section F :=
  { s with
    thickness :=
      ((((s.thickness.set 0 (double_of_field (column_text line 0 10))).set 1
        (double_of_field (column_text line 10 10))).set 2
        (double_of_field (column_text line 20 10))).set 3
        (double_of_field (column_text line 30 10)))
    nloc := double_of_field (column_text line 40 10)
    marea := double_of_field (column_text line 50 10)
    idof := double_of_field (column_text line 60 10)
    edgset := double_of_field (column_text line 70 10) }

/-- The section committed after the card of a solid section: `secid`, `elform`,
`aet` (parser.cpp 975-982). -/
def section_solid_card {F : Type} (line : Str) (s : Section F) : Section F :=
  { s with
    secid := int_of_field (column_text line 0 10)
    elform := int_of_field (column_text line 10 10)
    aet := int_of_field (column_text line 20 10) }

/-- The in-flight section after the header card of a beam section (parser.cpp
991-1000). -/
def section_beam_header {F : Type} [DoubleModel F] (line : Str) (s : Section F) : Section F :=
  { s with
    secid := int_of_field (column_text line 0 10)
    elform := int_of_field (column_text line 10 10)
    shrf := double_of_field (column_text line 20 10)
    qr_irid := int_of_field (column_text line 30 10)
    cst := double_of_field (column_text line 40 10)
    scoor := double_of_field (column_text line 50 10) }

/-- The section committed after the data card of a beam section (parser.cpp
1009-1019). -/
def section_beam_data {F : Type} [DoubleModel F] (line : Str) (s : Section F) : Section F :=
  { s with
    ts := ((s.ts.set 0 (double_of_field (column_text line 0 10))).set 1
      (double_of_field (column_text line 10 10)))
    tt := ((s.tt.set 0 (double_of_field (column_text line 20 10))).set 1
      (double_of_field (column_text line 30 10)))
    nsloc := double_of_field (column_text line 40 10)
    ntloc := double_of_field (column_text line 50 10) }

/-- The section a block of the given type yields from its cards. -/
def section_of_cards {F : Type} [DoubleModel F] (ty : SectionType) (cards : List Str) :
    Section F :=
  match ty, cards with
  | .SHELL, h :: d :: _ =>
    section_shell_data d (section_shell_header h { (Section.init : Section F) with type := .SHELL })
  | .BEAM, h :: d :: _ =>
    section_beam_data d (section_beam_header h { (Section.init : Section F) with type := .BEAM })
  | .SOLID, h :: _ => section_solid_card h { (Section.init : Section F) with type := .SOLID }
  | _, _ => Section.init

/-! ## Overlaying one context on another

To compare two runs of the parser the development overlays a context `c` on a
context `src`: the overlay takes from `c` the parts that are selected and from
`src` the others. A branch of `process_line` that reads and writes selected parts
only runs on the overlay as it runs on `c`. -/

/-- A choice among the fifteen entity families, one bit per enable flag of the
parser. -/
structure FamilySel where
  nodes : Bool
  parts : Bool
  elements : Bool
  sets : Bool
  sections : Bool
  contacts : Bool
  materials : Bool
  includes : Bool
  curves : Bool
  boundaries : Bool
  loads : Bool
  controls : Bool
  databases : Bool
  initials : Bool
  constraineds : Bool
  deriving DecidableEq

/-- Every family. -/
def FamilySel.all : FamilySel :=
  { nodes := true, parts := true, elements := true, sets := true, sections := true, contacts := true,
    materials := true, includes := true, curves := true, boundaries := true, loads := true,
    controls := true, databases := true, initials := true, constraineds := true }

/-- No family. -/
def FamilySel.empty : FamilySel :=
  { nodes := false, parts := false, elements := false, sets := false, sections := false, contacts := false,
    materials := false, includes := false, curves := false, boundaries := false, loads := false,
    controls := false, databases := false, initials := false, constraineds := false }

/-- The entity families. -/
inductive Family where
  | nodes
  | parts
  | elements
  | sets
  | sections
  | contacts
  | materials
  | includes
  | curves
  | boundaries
  | loads
  | controls
  | databases
  | initials
  | constraineds
  deriving DecidableEq, Repr

/-- Whether a family is chosen. -/
def FamilySel.has (A : FamilySel) : Family → Bool
  | .nodes => A.nodes
  | .parts => A.parts
  | .elements => A.elements
  | .sets => A.sets
  | .sections => A.sections
  | .contacts => A.contacts
  | .materials => A.materials
  | .includes => A.includes
  | .curves => A.curves
  | .boundaries => A.boundaries
  | .loads => A.loads
  | .controls => A.controls
  | .databases => A.databases
  | .initials => A.initials
  | .constraineds => A.constraineds

/-- The enable flag of a family. -/
def KFileParser.enabled {F : Type} (p : KFileParser F) : Family → Bool
  | .nodes => p.parse_nodes_
  | .parts => p.parse_parts_
  | .elements => p.parse_elements_
  | .sets => p.parse_sets_
  | .sections => p.parse_sections_
  | .contacts => p.parse_contacts_
  | .materials => p.parse_materials_
  | .includes => p.parse_includes_
  | .curves => p.parse_curves_
  | .boundaries => p.parse_boundaries_
  | .loads => p.parse_loads_
  | .controls => p.parse_controls_
  | .databases => p.parse_databases_
  | .initials => p.parse_initials_
  | .constraineds => p.parse_constraineds_

/-- A choice among the in-flight members of the parser (and the local `part_name`
of `parse_string`); `current_material` stands for `current_material_` together with
`material_expected_cards_`. -/
structure MemberSel where
  part_name : Bool
  current_set : Bool
  current_section : Bool
  current_contact : Bool
  current_material : Bool
  current_curve : Bool
  current_boundary_spc : Bool
  current_boundary_motion : Bool
  current_load_node : Bool
  current_load_body : Bool
  current_control_termination : Bool
  current_control_timestep : Bool
  current_database_binary : Bool
  current_database_ascii : Bool
  current_database_history_node : Bool
  current_database_history_element : Bool
  current_initial_velocity : Bool
  current_constrained_nodal_rigid_body : Bool
  current_constrained_extra_nodes : Bool
  current_constrained_joint : Bool
  current_constrained_spotweld : Bool
  deriving DecidableEq

/-- No member. -/
def MemberSel.empty : MemberSel :=
  { part_name := false, current_set := false, current_section := false,
    current_contact := false, current_material := false, current_curve := false,
    current_boundary_spc := false, current_boundary_motion := false,
    current_load_node := false, current_load_body := false,
    current_control_termination := false, current_control_timestep := false,
    current_database_binary := false, current_database_ascii := false,
    current_database_history_node := false, current_database_history_element := false,
    current_initial_velocity := false, current_constrained_nodal_rigid_body := false,
    current_constrained_extra_nodes := false, current_constrained_joint := false,
    current_constrained_spotweld := false }

/-- The in-flight members. -/
inductive Member where
  | part_name
  | current_set
  | current_section
  | current_contact
  | current_material
  | current_curve
  | current_boundary_spc
  | current_boundary_motion
  | current_load_node
  | current_load_body
  | current_control_termination
  | current_control_timestep
  | current_database_binary
  | current_database_ascii
  | current_database_history_node
  | current_database_history_element
  | current_initial_velocity
  | current_constrained_nodal_rigid_body
  | current_constrained_extra_nodes
  | current_constrained_joint
  | current_constrained_spotweld
  deriving DecidableEq, Repr

/-- Whether a member is chosen. -/
def MemberSel.has (B : MemberSel) : Member → Bool
  | .part_name => B.part_name
  | .current_set => B.current_set
  | .current_section => B.current_section
  | .current_contact => B.current_contact
  | .current_material => B.current_material
  | .current_curve => B.current_curve
  | .current_boundary_spc => B.current_boundary_spc
  | .current_boundary_motion => B.current_boundary_motion
  | .current_load_node => B.current_load_node
  | .current_load_body => B.current_load_body
  | .current_control_termination => B.current_control_termination
  | .current_control_timestep => B.current_control_timestep
  | .current_database_binary => B.current_database_binary
  | .current_database_ascii => B.current_database_ascii
  | .current_database_history_node => B.current_database_history_node
  | .current_database_history_element => B.current_database_history_element
  | .current_initial_velocity => B.current_initial_velocity
  | .current_constrained_nodal_rigid_body => B.current_constrained_nodal_rigid_body
  | .current_constrained_extra_nodes => B.current_constrained_extra_nodes
  | .current_constrained_joint => B.current_constrained_joint
  | .current_constrained_spotweld => B.current_constrained_spotweld

/-- The in-flight member the `case` of a parse state reads, if it reads one. -/
def ParseState.owner : ParseState → Option Member
  | .IN_PART_NAME => some .part_name
  | .IN_PART_DATA => some .part_name
  | .IN_SET_NODE_HEADER => some .current_set
  | .IN_SET_NODE_DATA => some .current_set
  | .IN_SET_PART_HEADER => some .current_set
  | .IN_SET_PART_DATA => some .current_set
  | .IN_SET_SEGMENT_HEADER => some .current_set
  | .IN_SET_SEGMENT_DATA => some .current_set
  | .IN_SET_SHELL_HEADER => some .current_set
  | .IN_SET_SHELL_DATA => some .current_set
  | .IN_SET_SOLID_HEADER => some .current_set
  | .IN_SET_SOLID_DATA => some .current_set
  | .IN_SECTION_SHELL_HEADER => some .current_section
  | .IN_SECTION_SHELL_DATA => some .current_section
  | .IN_SECTION_SOLID => some .current_section
  | .IN_SECTION_BEAM_HEADER => some .current_section
  | .IN_SECTION_BEAM_DATA => some .current_section
  | .IN_CONTACT_ID => some .current_contact
  | .IN_CONTACT_TITLE => some .current_contact
  | .IN_CONTACT_CARD1 => some .current_contact
  | .IN_CONTACT_CARD2 => some .current_contact
  | .IN_CONTACT_CARD3 => some .current_contact
  | .IN_SECTION_SHELL_TITLE => some .current_section
  | .IN_SECTION_SOLID_TITLE => some .current_section
  | .IN_SECTION_BEAM_TITLE => some .current_section
  | .IN_SET_TITLE => some .current_set
  | .IN_MATERIAL_TITLE => some .current_material
  | .IN_MATERIAL_DATA => some .current_material
  | .IN_CURVE_TITLE => some .current_curve
  | .IN_CURVE_HEADER => some .current_curve
  | .IN_CURVE_DATA => some .current_curve
  | .IN_BOUNDARY_SPC => some .current_boundary_spc
  | .IN_BOUNDARY_MOTION => some .current_boundary_motion
  | .IN_LOAD_NODE => some .current_load_node
  | .IN_LOAD_BODY => some .current_load_body
  | .IN_CONTROL_TERMINATION => some .current_control_termination
  | .IN_CONTROL_TIMESTEP => some .current_control_timestep
  | .IN_DATABASE_BINARY => some .current_database_binary
  | .IN_DATABASE_ASCII => some .current_database_ascii
  | .IN_DATABASE_HISTORY_NODE => some .current_database_history_node
  | .IN_DATABASE_HISTORY_ELEMENT => some .current_database_history_element
  | .IN_INITIAL_VELOCITY => some .current_initial_velocity
  | .IN_INITIAL_VELOCITY_GENERATION => some .current_initial_velocity
  | .IN_CONSTRAINED_NODAL_RIGID_BODY => some .current_constrained_nodal_rigid_body
  | .IN_CONSTRAINED_NODAL_RIGID_BODY_INERTIA => some .current_constrained_nodal_rigid_body
  | .IN_CONSTRAINED_EXTRA_NODES => some .current_constrained_extra_nodes
  | .IN_CONSTRAINED_JOINT => some .current_constrained_joint
  | .IN_CONSTRAINED_SPOTWELD => some .current_constrained_spotweld
  | _ => none

/-- The entity family whose keyword selects a parse state (none for `IDLE`). -/
def ParseState.flag_family : ParseState → Option Family
  | .IN_NODE => some .nodes
  | .IN_PART_NAME => some .parts
  | .IN_PART_DATA => some .parts
  | .IN_ELEMENT_SHELL => some .elements
  | .IN_ELEMENT_SOLID => some .elements
  | .IN_ELEMENT_BEAM => some .elements
  | .IN_SET_NODE_HEADER => some .sets
  | .IN_SET_NODE_DATA => some .sets
  | .IN_SET_PART_HEADER => some .sets
  | .IN_SET_PART_DATA => some .sets
  | .IN_SET_SEGMENT_HEADER => some .sets
  | .IN_SET_SEGMENT_DATA => some .sets
  | .IN_SET_SHELL_HEADER => some .sets
  | .IN_SET_SHELL_DATA => some .sets
  | .IN_SET_SOLID_HEADER => some .sets
  | .IN_SET_SOLID_DATA => some .sets
  | .IN_SECTION_SHELL_HEADER => some .sections
  | .IN_SECTION_SHELL_DATA => some .sections
  | .IN_SECTION_SOLID => some .sections
  | .IN_SECTION_BEAM_HEADER => some .sections
  | .IN_SECTION_BEAM_DATA => some .sections
  | .IN_CONTACT_ID => some .contacts
  | .IN_CONTACT_TITLE => some .contacts
  | .IN_CONTACT_CARD1 => some .contacts
  | .IN_CONTACT_CARD2 => some .contacts
  | .IN_CONTACT_CARD3 => some .contacts
  | .IN_SECTION_SHELL_TITLE => some .sections
  | .IN_SECTION_SOLID_TITLE => some .sections
  | .IN_SECTION_BEAM_TITLE => some .sections
  | .IN_SET_TITLE => some .sets
  | .IN_MATERIAL_TITLE => some .materials
  | .IN_MATERIAL_DATA => some .materials
  | .IN_INCLUDE => some .includes
  | .IN_CURVE_TITLE => some .curves
  | .IN_CURVE_HEADER => some .curves
  | .IN_CURVE_DATA => some .curves
  | .IN_BOUNDARY_SPC => some .boundaries
  | .IN_BOUNDARY_MOTION => some .boundaries
  | .IN_LOAD_NODE => some .loads
  | .IN_LOAD_SEGMENT => some .loads
  | .IN_LOAD_BODY => some .loads
  | .IN_CONTROL_TERMINATION => some .controls
  | .IN_CONTROL_TIMESTEP => some .controls
  | .IN_CONTROL_ENERGY => some .controls
  | .IN_CONTROL_OUTPUT => some .controls
  | .IN_CONTROL_SHELL => some .controls
  | .IN_CONTROL_CONTACT => some .controls
  | .IN_CONTROL_HOURGLASS => some .controls
  | .IN_CONTROL_BULK_VISCOSITY => some .controls
  | .IN_DATABASE_BINARY => some .databases
  | .IN_DATABASE_ASCII => some .databases
  | .IN_DATABASE_HISTORY_NODE => some .databases
  | .IN_DATABASE_HISTORY_ELEMENT => some .databases
  | .IN_DATABASE_CROSS_SECTION => some .databases
  | .IN_INITIAL_VELOCITY => some .initials
  | .IN_INITIAL_VELOCITY_GENERATION => some .initials
  | .IN_INITIAL_STRESS => some .initials
  | .IN_CONSTRAINED_NODAL_RIGID_BODY => some .constraineds
  | .IN_CONSTRAINED_NODAL_RIGID_BODY_INERTIA => some .constraineds
  | .IN_CONSTRAINED_EXTRA_NODES => some .constraineds
  | .IN_CONSTRAINED_JOINT => some .constraineds
  | .IN_CONSTRAINED_SPOTWELD => some .constraineds
  | .IDLE => none

/-- The parser object of an overlay: for a chosen family the enable flag of `p`, for
a chosen member the member of `p`, `build_index_` of `p`; everything else from `q`. -/
def graft_self {F : Type} (A : FamilySel) (B : MemberSel) (p q : KFileParser F) :
    KFileParser F :=
  {
    parse_nodes_ := bif A.nodes then p.parse_nodes_ else q.parse_nodes_
    parse_parts_ := bif A.parts then p.parse_parts_ else q.parse_parts_
    parse_elements_ := bif A.elements then p.parse_elements_ else q.parse_elements_
    parse_sets_ := bif A.sets then p.parse_sets_ else q.parse_sets_
    parse_sections_ := bif A.sections then p.parse_sections_ else q.parse_sections_
    parse_contacts_ := bif A.contacts then p.parse_contacts_ else q.parse_contacts_
    parse_materials_ := bif A.materials then p.parse_materials_ else q.parse_materials_
    parse_includes_ := bif A.includes then p.parse_includes_ else q.parse_includes_
    parse_curves_ := bif A.curves then p.parse_curves_ else q.parse_curves_
    parse_boundaries_ := bif A.boundaries then p.parse_boundaries_ else q.parse_boundaries_
    parse_loads_ := bif A.loads then p.parse_loads_ else q.parse_loads_
    parse_controls_ := bif A.controls then p.parse_controls_ else q.parse_controls_
    parse_databases_ := bif A.databases then p.parse_databases_ else q.parse_databases_
    parse_initials_ := bif A.initials then p.parse_initials_ else q.parse_initials_
    parse_constraineds_ := bif A.constraineds then p.parse_constraineds_ else q.parse_constraineds_
    build_index_ := p.build_index_
    current_set_ := bif B.current_set then p.current_set_ else q.current_set_
    current_section_ := bif B.current_section then p.current_section_ else q.current_section_
    current_contact_ := bif B.current_contact then p.current_contact_ else q.current_contact_
    current_material_ := bif B.current_material then p.current_material_ else q.current_material_
    material_expected_cards_ := bif B.current_material then p.material_expected_cards_ else q.material_expected_cards_
    current_curve_ := bif B.current_curve then p.current_curve_ else q.current_curve_
    current_boundary_spc_ := bif B.current_boundary_spc then p.current_boundary_spc_ else q.current_boundary_spc_
    current_boundary_motion_ := bif B.current_boundary_motion then p.current_boundary_motion_ else q.current_boundary_motion_
    current_load_node_ := bif B.current_load_node then p.current_load_node_ else q.current_load_node_
    current_load_body_ := bif B.current_load_body then p.current_load_body_ else q.current_load_body_
    current_control_termination_ := bif B.current_control_termination then p.current_control_termination_ else q.current_control_termination_
    current_control_timestep_ := bif B.current_control_timestep then p.current_control_timestep_ else q.current_control_timestep_
    current_database_binary_ := bif B.current_database_binary then p.current_database_binary_ else q.current_database_binary_
    current_database_ascii_ := bif B.current_database_ascii then p.current_database_ascii_ else q.current_database_ascii_
    current_database_history_node_ := bif B.current_database_history_node then p.current_database_history_node_ else q.current_database_history_node_
    current_database_history_element_ := bif B.current_database_history_element then p.current_database_history_element_ else q.current_database_history_element_
    current_initial_velocity_ := bif B.current_initial_velocity then p.current_initial_velocity_ else q.current_initial_velocity_
    current_constrained_nodal_rigid_body_ := bif B.current_constrained_nodal_rigid_body then p.current_constrained_nodal_rigid_body_ else q.current_constrained_nodal_rigid_body_
    current_constrained_extra_nodes_ := bif B.current_constrained_extra_nodes then p.current_constrained_extra_nodes_ else q.current_constrained_extra_nodes_
    current_constrained_joint_ := bif B.current_constrained_joint then p.current_constrained_joint_ else q.current_constrained_joint_
    current_constrained_spotweld_ := bif B.current_constrained_spotweld then p.current_constrained_spotweld_ else q.current_constrained_spotweld_ }

/-- The result of an overlay: for a chosen family the collections of `P` followed by
those of `r`; the indices, `total_lines`, the warnings and the errors of `r`;
everything else from `s`. -/
def graft_result {F : Type} (P : ParseResult F) (A : FamilySel) (r s : ParseResult F) :
    ParseResult F :=
  {
    nodes := bif A.nodes then P.nodes ++ r.nodes else s.nodes
    parts := bif A.parts then P.parts ++ r.parts else s.parts
    elements := bif A.elements then P.elements ++ r.elements else s.elements
    sets := bif A.sets then P.sets ++ r.sets else s.sets
    sections := bif A.sections then P.sections ++ r.sections else s.sections
    contacts := bif A.contacts then P.contacts ++ r.contacts else s.contacts
    materials := bif A.materials then P.materials ++ r.materials else s.materials
    includes := bif A.includes then P.includes ++ r.includes else s.includes
    curves := bif A.curves then P.curves ++ r.curves else s.curves
    boundary_spcs := bif A.boundaries then P.boundary_spcs ++ r.boundary_spcs else s.boundary_spcs
    boundary_motions := bif A.boundaries then P.boundary_motions ++ r.boundary_motions else s.boundary_motions
    load_nodes := bif A.loads then P.load_nodes ++ r.load_nodes else s.load_nodes
    load_segments := bif A.loads then P.load_segments ++ r.load_segments else s.load_segments
    load_bodies := bif A.loads then P.load_bodies ++ r.load_bodies else s.load_bodies
    control_terminations := bif A.controls then P.control_terminations ++ r.control_terminations else s.control_terminations
    control_timesteps := bif A.controls then P.control_timesteps ++ r.control_timesteps else s.control_timesteps
    control_energies := bif A.controls then P.control_energies ++ r.control_energies else s.control_energies
    control_outputs := bif A.controls then P.control_outputs ++ r.control_outputs else s.control_outputs
    control_shells := bif A.controls then P.control_shells ++ r.control_shells else s.control_shells
    control_contacts := bif A.controls then P.control_contacts ++ r.control_contacts else s.control_contacts
    control_hourglasses := bif A.controls then P.control_hourglasses ++ r.control_hourglasses else s.control_hourglasses
    control_bulk_viscosities := bif A.controls then P.control_bulk_viscosities ++ r.control_bulk_viscosities else s.control_bulk_viscosities
    database_binaries := bif A.databases then P.database_binaries ++ r.database_binaries else s.database_binaries
    database_asciis := bif A.databases then P.database_asciis ++ r.database_asciis else s.database_asciis
    database_history_nodes := bif A.databases then P.database_history_nodes ++ r.database_history_nodes else s.database_history_nodes
    database_history_elements := bif A.databases then P.database_history_elements ++ r.database_history_elements else s.database_history_elements
    database_cross_sections := bif A.databases then P.database_cross_sections ++ r.database_cross_sections else s.database_cross_sections
    initial_velocities := bif A.initials then P.initial_velocities ++ r.initial_velocities else s.initial_velocities
    initial_stresses := bif A.initials then P.initial_stresses ++ r.initial_stresses else s.initial_stresses
    constrained_nodal_rigid_bodies := bif A.constraineds then P.constrained_nodal_rigid_bodies ++ r.constrained_nodal_rigid_bodies else s.constrained_nodal_rigid_bodies
    constrained_extra_nodes := bif A.constraineds then P.constrained_extra_nodes ++ r.constrained_extra_nodes else s.constrained_extra_nodes
    constrained_joints := bif A.constraineds then P.constrained_joints ++ r.constrained_joints else s.constrained_joints
    constrained_spotwelds := bif A.constraineds then P.constrained_spotwelds ++ r.constrained_spotwelds else s.constrained_spotwelds
    node_index := r.node_index
    part_index := r.part_index
    element_index := r.element_index
    set_index := r.set_index
    section_index := r.section_index
    contact_index := r.contact_index
    material_index := r.material_index
    curve_index := r.curve_index
    total_lines := r.total_lines
    warnings := r.warnings
    errors := r.errors }

/-- The overlay of `c` on `src`. For a chosen family it has the enable flag of `c` and,
as collections, those of `P` followed by those of `c`; for a chosen member it has the
member of `c`; the parse state, `build_index_`, the indices, `total_lines`, the
warnings and the errors are those of `c`. Everything else is taken from `src`. -/
def graft {F : Type} (P : ParseResult F) (A : FamilySel) (B : MemberSel) (c src : Ctx F) :
    Ctx F :=
  { self := graft_self A B c.self src.self
    state := c.state
    part_name := bif B.part_name then c.part_name else src.part_name
    result := graft_result P A c.result src.result }

/-- The overlay commutes with the block: run on the overlay of `c`, the block does
what it does on `c`, overlaid in the same way. -/
def Local {F α : Type} (K : Ctx F → Ctx F → Ctx F) (m : Run (Ctx F) α) : Prop :=
  ∀ c src, m (K c src) = ((m c).1, K (m c).2 src)

/-- The block turns the overlay `K` into the overlay `K2`: it overwrites, before it
reads them, the parts that `K2` takes from `c` and `K` does not. -/
def Absorbs {F α : Type} (K K2 : Ctx F → Ctx F → Ctx F) (m : Run (Ctx F) α) : Prop :=
  ∀ c src, m (K c src) = ((m c).1, K2 (m c).2 src)

/-- The block does not read the parse state and sets it before it returns: when it
returns, it does the same from every state. -/
def StateBlind {F α : Type} (m : Run (Ctx F) α) : Prop :=
  ∀ (c : Ctx F) (s : ParseState), (∃ a, (m c).1 = Except.ok a) → m { c with state := s } = m c

/-- The block does not read the parse state and, unless it sets it, leaves it as it
found it. -/
def StateFree {F α : Type} (m : Run (Ctx F) α) : Prop :=
  ∀ (c : Ctx F) (s : ParseState),
    m { c with state := s } = ((m c).1, { (m c).2 with state := s })

/-- The choice `A` with the family `f` added. -/
def FamilySel.add (A : FamilySel) : Family → FamilySel
  | .nodes => { A with nodes := true }
  | .parts => { A with parts := true }
  | .elements => { A with elements := true }
  | .sets => { A with sets := true }
  | .sections => { A with sections := true }
  | .contacts => { A with contacts := true }
  | .materials => { A with materials := true }
  | .includes => { A with includes := true }
  | .curves => { A with curves := true }
  | .boundaries => { A with boundaries := true }
  | .loads => { A with loads := true }
  | .controls => { A with controls := true }
  | .databases => { A with databases := true }
  | .initials => { A with initials := true }
  | .constraineds => { A with constraineds := true }

/-- The choice `A` with the family `f` added, if there is one. -/
def FamilySel.add_opt (A : FamilySel) : Option Family → FamilySel
  | Option.some f => A.add f
  | Option.none => A

/-- The choice `A` without the family `f`. -/
def FamilySel.remove (A : FamilySel) : Family → FamilySel
  | .nodes => { A with nodes := false }
  | .parts => { A with parts := false }
  | .elements => { A with elements := false }
  | .sets => { A with sets := false }
  | .sections => { A with sections := false }
  | .contacts => { A with contacts := false }
  | .materials => { A with materials := false }
  | .includes => { A with includes := false }
  | .curves => { A with curves := false }
  | .boundaries => { A with boundaries := false }
  | .loads => { A with loads := false }
  | .controls => { A with controls := false }
  | .databases => { A with databases := false }
  | .initials => { A with initials := false }
  | .constraineds => { A with constraineds := false }

/-- The choice `B` with the member `g` added. -/
def MemberSel.add (B : MemberSel) : Member → MemberSel
  | .part_name => { B with part_name := true }
  | .current_set => { B with current_set := true }
  | .current_section => { B with current_section := true }
  | .current_contact => { B with current_contact := true }
  | .current_material => { B with current_material := true }
  | .current_curve => { B with current_curve := true }
  | .current_boundary_spc => { B with current_boundary_spc := true }
  | .current_boundary_motion => { B with current_boundary_motion := true }
  | .current_load_node => { B with current_load_node := true }
  | .current_load_body => { B with current_load_body := true }
  | .current_control_termination => { B with current_control_termination := true }
  | .current_control_timestep => { B with current_control_timestep := true }
  | .current_database_binary => { B with current_database_binary := true }
  | .current_database_ascii => { B with current_database_ascii := true }
  | .current_database_history_node => { B with current_database_history_node := true }
  | .current_database_history_element => { B with current_database_history_element := true }
  | .current_initial_velocity => { B with current_initial_velocity := true }
  | .current_constrained_nodal_rigid_body => { B with current_constrained_nodal_rigid_body := true }
  | .current_constrained_extra_nodes => { B with current_constrained_extra_nodes := true }
  | .current_constrained_joint => { B with current_constrained_joint := true }
  | .current_constrained_spotweld => { B with current_constrained_spotweld := true }

/-- The choice `B` with the member `g` added, if there is one. -/
def MemberSel.add_opt (B : MemberSel) : Option Member → MemberSel
  | Option.some g => B.add g
  | Option.none => B

/-- Every member. -/
def MemberSel.all : MemberSel :=
  { part_name := true, current_set := true, current_section := true, current_contact := true,
    current_material := true, current_curve := true, current_boundary_spc := true,
    current_boundary_motion := true, current_load_node := true, current_load_body := true,
    current_control_termination := true, current_control_timestep := true,
    current_database_binary := true, current_database_ascii := true,
    current_database_history_node := true, current_database_history_element := true,
    current_initial_velocity := true, current_constrained_nodal_rigid_body := true,
    current_constrained_extra_nodes := true, current_constrained_joint := true,
    current_constrained_spotweld := true }

/-- The family a member belongs to: the one whose keyword starts its block. -/
def Member.family : Member → Family
  | .part_name => .parts
  | .current_set => .sets
  | .current_section => .sections
  | .current_contact => .contacts
  | .current_material => .materials
  | .current_curve => .curves
  | .current_boundary_spc => .boundaries
  | .current_boundary_motion => .boundaries
  | .current_load_node => .loads
  | .current_load_body => .loads
  | .current_control_termination => .controls
  | .current_control_timestep => .controls
  | .current_database_binary => .databases
  | .current_database_ascii => .databases
  | .current_database_history_node => .databases
  | .current_database_history_element => .databases
  | .current_initial_velocity => .initials
  | .current_constrained_nodal_rigid_body => .constraineds
  | .current_constrained_extra_nodes => .constraineds
  | .current_constrained_joint => .constraineds
  | .current_constrained_spotweld => .constraineds

/-- Every member except those of the family `f`. -/
def MemberSel.outside (f : Family) : MemberSel :=
  { part_name := decide (Member.part_name.family ≠ f),
    current_set := decide (Member.current_set.family ≠ f),
    current_section := decide (Member.current_section.family ≠ f),
    current_contact := decide (Member.current_contact.family ≠ f),
    current_material := decide (Member.current_material.family ≠ f),
    current_curve := decide (Member.current_curve.family ≠ f),
    current_boundary_spc := decide (Member.current_boundary_spc.family ≠ f),
    current_boundary_motion := decide (Member.current_boundary_motion.family ≠ f),
    current_load_node := decide (Member.current_load_node.family ≠ f),
    current_load_body := decide (Member.current_load_body.family ≠ f),
    current_control_termination := decide (Member.current_control_termination.family ≠ f),
    current_control_timestep := decide (Member.current_control_timestep.family ≠ f),
    current_database_binary := decide (Member.current_database_binary.family ≠ f),
    current_database_ascii := decide (Member.current_database_ascii.family ≠ f),
    current_database_history_node := decide (Member.current_database_history_node.family ≠ f),
    current_database_history_element := decide (Member.current_database_history_element.family ≠ f),
    current_initial_velocity := decide (Member.current_initial_velocity.family ≠ f),
    current_constrained_nodal_rigid_body := decide (Member.current_constrained_nodal_rigid_body.family ≠ f),
    current_constrained_extra_nodes := decide (Member.current_constrained_extra_nodes.family ≠ f),
    current_constrained_joint := decide (Member.current_constrained_joint.family ≠ f),
    current_constrained_spotweld := decide (Member.current_constrained_spotweld.family ≠ f) }

/-- The states a branch of family `fam` working on the member `g` may move to: idle,
or a state of the same family that reads the same member. -/
def ParseState.akin (fam : Option Family) (g : Option Member) (st : ParseState) : Prop :=
  st = .IDLE ∨ (st.flag_family = fam ∧ st.owner = g)

instance (fam : Option Family) (g : Option Member) (st : ParseState) :
    Decidable (st.akin fam g) := by
  unfold ParseState.akin
  infer_instance

/-- The member the case of the parse state reads is chosen. -/
def MemberSel.covers (B : MemberSel) (st : ParseState) : Prop :=
  ∀ g, st.owner = some g → B.has g = true

/-- The family of the parse state is chosen. -/
def FamilySel.covers (A : FamilySel) (st : ParseState) : Prop :=
  ∀ f, st.flag_family = some f → A.has f = true

/-- What a keyword line of a disabled family does: the state becomes idle (and, for
`*PART`, the part name is cleared). -/
def Ctx.idled {F : Type} (g : Option Member) (c : Ctx F) : Ctx F :=
  { c with state := .IDLE, part_name := if g = some .part_name then [] else c.part_name }

/-- The guards of the three conditional commits are all false: no set, material or
curve would be appended by the next commit. -/
def Ctx.nothing_pending {F : Type} (c : Ctx F) : Prop :=
  ¬ (c.self.current_set_.sid > 0 ∧ c.self.current_set_.count > 0)
  ∧ ¬ c.self.current_material_.mid > 0
  ∧ ¬ c.self.current_curve_.lcid > 0

/-- The parts of the context that no line changes: the enable flags, `build_index_`,
the indices, `total_lines` and the errors. -/
def fixed_view {F : Type} (c : Ctx F) :=
  (c.self.enabled, c.self.build_index_, c.result.node_index, c.result.part_index,
    c.result.element_index, c.result.set_index, c.result.section_index,
    c.result.contact_index, c.result.material_index, c.result.curve_index,
    c.result.total_lines, c.result.errors)

/-- For each of the in-flight set, material and curve: either the overlay takes it
from `c`, or neither `c` nor `src` would commit it. -/
def MemberSel.settled {F : Type} (B : MemberSel) (c src : Ctx F) : Prop :=
  (B.current_set = true
    ∨ (¬ (c.self.current_set_.sid > 0 ∧ c.self.current_set_.count > 0)
        ∧ ¬ (src.self.current_set_.sid > 0 ∧ src.self.current_set_.count > 0)))
  ∧ (B.current_material = true
    ∨ (¬ c.self.current_material_.mid > 0 ∧ ¬ src.self.current_material_.mid > 0))
  ∧ (B.current_curve = true
    ∨ (¬ c.self.current_curve_.lcid > 0 ∧ ¬ src.self.current_curve_.lcid > 0))

/-- A keyword branch `m` of the family `fam` that works on the member `g` (if any)
and on nothing else: it commutes with every overlay that selects `fam` and `g`; with
the family enabled it overwrites `g` before reading it; with the family disabled it
only makes the state idle; it lands in a state of its family that reads `g`; and `g`
is a member of the family. -/
structure PlainBranch {F : Type} [DoubleModel F] (fam : Family) (g : Option Member)
    (m : Run (Ctx F) Unit) : Prop where
  commutes : ∀ (P : ParseResult F) (A : FamilySel) (B : MemberSel),
    Local (graft P (A.add fam) (B.add_opt g)) m
  absorbs : ∀ (P : ParseResult F) (A : FamilySel) (B : MemberSel) (c src : Ctx F),
    c.self.enabled fam = true →
      m (graft P (A.add fam) B c src)
        = ((m c).1, graft P (A.add fam) (B.add_opt g) (m c).2 src)
  disabled : ∀ c : Ctx F, c.self.enabled fam = false → m c = (Except.ok (), c.idled g)
  lands : Ends (ParseState.akin (some fam) g) m
  family_plain : fam ≠ .sets ∧ fam ≠ .materials ∧ fam ≠ .curves
  member_plain : g ≠ some .current_set ∧ g ≠ some .current_material ∧ g ≠ some .current_curve
  member_family : ∀ k, g = some k → k.family = fam

/-- What a branch `m` of the keyword chain can be, for the upper-cased line `u`: one
of the three branches that commit an in-flight entity before starting a new one
(sets, materials, curves), the final branch for unrecognised keywords, or a plain
branch of some family. -/
def KeywordShape {F : Type} [DoubleModel F] (u : Str) (m : Run (Ctx F) Unit) : Prop :=
  (∃ ty, set_keyword_type u = some ty ∧ m = begin_set u ty (header_state_of ty))
  ∨ (found_at_0 u "*MAT_" = true ∧ m = begin_material u)
  ∨ (found_at_0 u "*DEFINE_CURVE" = true ∧ m = begin_curve u)
  ∨ m = other_keyword
  ∨ (∃ fam g, PlainBranch fam g m)

/-- The last statements of `parse_string` on the result: `total_lines` is stored and
the indices are built if requested. -/
def ParseResult.finalized {F : Type} (r : ParseResult F) (line_count : Nat) (build : Bool) :
    ParseResult F :=
  if build then { r with total_lines := line_count }.build_indices
  else { r with total_lines := line_count }

/-- The conditional commit of the in-flight set: the statement
`if (current_set_.sid > 0 && current_set_.count() > 0) { result.sets.push_back(current_set_);
current_set_ = Set(); }` of the final keyword branch and of `parse_string`. -/
def commit_set {F : Type} [DoubleModel F] (c : Ctx F) : Ctx F :=
  if c.self.current_set_.sid > 0 ∧ c.self.current_set_.count > 0 then
    { c with result.sets := c.result.sets ++ [c.self.current_set_],
             self.current_set_ := Set.init }
  else c

/-- The conditional commit of the in-flight material. -/
def commit_material {F : Type} [DoubleModel F] (c : Ctx F) : Ctx F :=
  if c.self.current_material_.mid > 0 then
    { c with result.materials := c.result.materials ++ [c.self.current_material_],
             self.current_material_ := Material.init }
  else c

/-- The conditional commit of the in-flight curve. -/
def commit_curve {F : Type} [DoubleModel F] (c : Ctx F) : Ctx F :=
  if c.self.current_curve_.lcid > 0 then
    { c with result.curves := c.result.curves ++ [c.self.current_curve_],
             self.current_curve_ := Curve.init }
  else c

/-- The three conditional commits in the order of the source. -/
def commit_pending {F : Type} [DoubleModel F] (c : Ctx F) : Ctx F :=
  commit_curve (commit_material (commit_set c))

/-! ## Definitions used in the statements about two runs of the parser -/

/-- A parser as configured by its user: the constructor (whose uninitialised
`material_expected_cards_` is the parameter) followed by the setters `set_parse_nodes`,
..., `set_parse_constraineds` and `set_build_index`. -/
def KFileParser.configured {F : Type} [DoubleModel F] (flags : FamilySel) (build_index : Bool)
    (expected_cards : Int) : KFileParser F :=
  { (KFileParser.init expected_cards : KFileParser F) with
    parse_nodes_ := flags.nodes
    parse_parts_ := flags.parts
    parse_elements_ := flags.elements
    parse_sets_ := flags.sets
    parse_sections_ := flags.sections
    parse_contacts_ := flags.contacts
    parse_materials_ := flags.materials
    parse_includes_ := flags.includes
    parse_curves_ := flags.curves
    parse_boundaries_ := flags.boundaries
    parse_loads_ := flags.loads
    parse_controls_ := flags.controls
    parse_databases_ := flags.databases
    parse_initials_ := flags.initials
    parse_constraineds_ := flags.constraineds
    build_index_ := build_index }

/-- The collections of `a` followed by those of `b`, family by family; the other
members are those of `b`. -/
def ParseResult.concat {F : Type} (a b : ParseResult F) : ParseResult F :=
  { b with
    nodes := a.nodes ++ b.nodes
    parts := a.parts ++ b.parts
    elements := a.elements ++ b.elements
    sets := a.sets ++ b.sets
    sections := a.sections ++ b.sections
    contacts := a.contacts ++ b.contacts
    materials := a.materials ++ b.materials
    includes := a.includes ++ b.includes
    curves := a.curves ++ b.curves
    boundary_spcs := a.boundary_spcs ++ b.boundary_spcs
    boundary_motions := a.boundary_motions ++ b.boundary_motions
    load_nodes := a.load_nodes ++ b.load_nodes
    load_segments := a.load_segments ++ b.load_segments
    load_bodies := a.load_bodies ++ b.load_bodies
    control_terminations := a.control_terminations ++ b.control_terminations
    control_timesteps := a.control_timesteps ++ b.control_timesteps
    control_energies := a.control_energies ++ b.control_energies
    control_outputs := a.control_outputs ++ b.control_outputs
    control_shells := a.control_shells ++ b.control_shells
    control_contacts := a.control_contacts ++ b.control_contacts
    control_hourglasses := a.control_hourglasses ++ b.control_hourglasses
    control_bulk_viscosities := a.control_bulk_viscosities ++ b.control_bulk_viscosities
    database_binaries := a.database_binaries ++ b.database_binaries
    database_asciis := a.database_asciis ++ b.database_asciis
    database_history_nodes := a.database_history_nodes ++ b.database_history_nodes
    database_history_elements := a.database_history_elements ++ b.database_history_elements
    database_cross_sections := a.database_cross_sections ++ b.database_cross_sections
    initial_velocities := a.initial_velocities ++ b.initial_velocities
    initial_stresses := a.initial_stresses ++ b.initial_stresses
    constrained_nodal_rigid_bodies := a.constrained_nodal_rigid_bodies ++ b.constrained_nodal_rigid_bodies
    constrained_extra_nodes := a.constrained_extra_nodes ++ b.constrained_extra_nodes
    constrained_joints := a.constrained_joints ++ b.constrained_joints
    constrained_spotwelds := a.constrained_spotwelds ++ b.constrained_spotwelds }

/-- The entity collections of a result alone: the indices, `total_lines`, the warnings
and the errors are blanked. -/
def ParseResult.entities {F : Type} (r : ParseResult F) : ParseResult F :=
  { r with
    node_index := IndexMap.empty, part_index := IndexMap.empty,
    element_index := IndexMap.empty, set_index := IndexMap.empty,
    section_index := IndexMap.empty, contact_index := IndexMap.empty,
    material_index := IndexMap.empty, curve_index := IndexMap.empty,
    total_lines := 0, warnings := [], errors := [] }

/-- The collections of the families other than `f`: the collections of `f` are
blanked, with the indices, `total_lines`, the warnings and the errors. -/
def ParseResult.without {F : Type} (r : ParseResult F) (f : Family) : ParseResult F :=
  (graft_result ParseResult.init (FamilySel.all.remove f) r ParseResult.init).entities

/-- The collections of the family `f`, the others blanked. -/
def ParseResult.only {F : Type} (r : ParseResult F) (f : Family) : ParseResult F :=
  (graft_result ParseResult.init (FamilySel.empty.add f) r ParseResult.init).entities
/-! ## Definitions for the comparison of two runs that differ in one enable flag -/

/-- Every member of the family `f`. -/
def MemberSel.inside (f : Family) : MemberSel :=
  { part_name := decide (Member.part_name.family = f),
    current_set := decide (Member.current_set.family = f),
    current_section := decide (Member.current_section.family = f),
    current_contact := decide (Member.current_contact.family = f),
    current_material := decide (Member.current_material.family = f),
    current_curve := decide (Member.current_curve.family = f),
    current_boundary_spc := decide (Member.current_boundary_spc.family = f),
    current_boundary_motion := decide (Member.current_boundary_motion.family = f),
    current_load_node := decide (Member.current_load_node.family = f),
    current_load_body := decide (Member.current_load_body.family = f),
    current_control_termination := decide (Member.current_control_termination.family = f),
    current_control_timestep := decide (Member.current_control_timestep.family = f),
    current_database_binary := decide (Member.current_database_binary.family = f),
    current_database_ascii := decide (Member.current_database_ascii.family = f),
    current_database_history_node := decide (Member.current_database_history_node.family = f),
    current_database_history_element := decide (Member.current_database_history_element.family = f),
    current_initial_velocity := decide (Member.current_initial_velocity.family = f),
    current_constrained_nodal_rigid_body := decide (Member.current_constrained_nodal_rigid_body.family = f),
    current_constrained_extra_nodes := decide (Member.current_constrained_extra_nodes.family = f),
    current_constrained_joint := decide (Member.current_constrained_joint.family = f),
    current_constrained_spotweld := decide (Member.current_constrained_spotweld.family = f) }

/-- A keyword branch `m` of the family `fam` that works on the member `g` (if any):
it commutes with every overlay that selects `fam` and `g`; with the family disabled it
only makes the state idle (and clears the part name, for `*PART`); it lands in a state
of its family that reads `g`; and `g` is a member of the family. -/
structure FamilyBranch {F : Type} [DoubleModel F] (fam : Family) (g : Option Member)
    (m : Run (Ctx F) Unit) : Prop where
  commutes : ∀ (P : ParseResult F) (A : FamilySel) (B : MemberSel),
    Local (graft P (A.add fam) (B.add_opt g)) m
  disabled : ∀ c : Ctx F, c.self.enabled fam = false → m c = (Except.ok (), c.idled g)
  lands : Ends (ParseState.akin (some fam) g) m
  member_family : ∀ k, g = some k → k.family = fam

/-- The context `v` with `build_index_`, the indices, `total_lines`, the warnings and
the errors of `u`. -/
def Ctx.with_shared {F : Type} (u v : Ctx F) : Ctx F :=
  { v with
    self.build_index_ := u.self.build_index_
    result.node_index := u.result.node_index
    result.part_index := u.result.part_index
    result.element_index := u.result.element_index
    result.set_index := u.result.set_index
    result.section_index := u.result.section_index
    result.contact_index := u.result.contact_index
    result.material_index := u.result.material_index
    result.curve_index := u.result.curve_index
    result.total_lines := u.result.total_lines
    result.warnings := u.result.warnings
    result.errors := u.result.errors }

/-- The in-flight entity of the family `f` would not be appended by the next commit
(for a family whose in-flight entity is appended conditionally: sets, materials and
curves). -/
def Ctx.dormant {F : Type} (f : Family) (c : Ctx F) : Prop :=
  match f with
  | .sets => ¬ (c.self.current_set_.sid > 0 ∧ c.self.current_set_.count > 0)
  | .materials => ¬ c.self.current_material_.mid > 0
  | .curves => ¬ c.self.current_curve_.lcid > 0
  | _ => True

/-- How the parse states of two runs are related when the second run has the family
`f` disabled: they are the same state, not one of `f`; or the first run is in a
state of `f` and the second is idle. -/
def ParseState.apart (f : Family) (s1 s2 : ParseState) : Prop :=
  (s2 = s1 ∧ s1.flag_family ≠ some f) ∨ (s2 = .IDLE ∧ s1.flag_family = some f)

/-- The contexts of two runs, the second with the family `f` disabled: outside the
family `f` (its enable flag, its collections, its in-flight members) and the parse
state, the second context is the first; in the second context nothing of `f` is
pending and the collections of `f` are empty. -/
def Beside {F : Type} (f : Family) (c1 c2 : Ctx F) : Prop :=
  graft ParseResult.init (FamilySel.all.remove f) (MemberSel.outside f)
      { c1 with state := c2.state } c2 = c2
  ∧ c2.self.enabled f = false
  ∧ c2.dormant f
  ∧ c2.result.only f = (ParseResult.init : ParseResult F).only f

/-- The contexts of two runs over the same lines, the second with the family `f`
disabled. -/
def Apart {F : Type} (f : Family) (c1 c2 : Ctx F) : Prop :=
  Beside f c1 c2 ∧ c1.state.apart f c2.state
/-! ## Definitions for the comparison of a run with the run that commits first

The run over the second text of a concatenation starts with the in-flight set,
material and curve of the first text not yet committed; it is compared with the run
that starts after they have been committed. -/

/-- Which of the in-flight set, material and curve the first of two runs has still to
commit, the second run having committed them already. -/
structure Pending where
  set : Bool
  material : Bool
  curve : Bool
  deriving DecidableEq

/-- The families in which the two runs agree: all but those still to be committed. -/
def Pending.families (D : Pending) : FamilySel :=
  { FamilySel.all with sets := !D.set, materials := !D.material, curves := !D.curve }

/-- The members in which the two runs agree. -/
def Pending.members (D : Pending) : MemberSel :=
  { MemberSel.all with
    current_set := !D.set, current_material := !D.material, current_curve := !D.curve }

/-- The contexts `x` and `y` of two runs over the same lines, where `x` has still to
commit the in-flight entities `D` and `y` has committed them: the second context is
the first except for these entities; such an entity would be committed by `x`, is
the last of its collection in `y`, and the active state does not read it. -/
def Deferred {F : Type} [DoubleModel F] (D : Pending) (x y : Ctx F) : Prop :=
  graft ParseResult.init D.families D.members x y = y
  ∧ D.members.covers x.state
  ∧ (D.set = true →
      (x.self.current_set_.sid > 0 ∧ x.self.current_set_.count > 0)
      ∧ y.result.sets = x.result.sets ++ [x.self.current_set_]
      ∧ y.self.current_set_ = Set.init
      ∧ x.self.parse_sets_ = y.self.parse_sets_)
  ∧ (D.material = true →
      x.self.current_material_.mid > 0
      ∧ y.result.materials = x.result.materials ++ [x.self.current_material_]
      ∧ y.self.current_material_ = Material.init
      ∧ y.self.material_expected_cards_ = x.self.material_expected_cards_
      ∧ x.self.parse_materials_ = y.self.parse_materials_)
  ∧ (D.curve = true →
      x.self.current_curve_.lcid > 0
      ∧ y.result.curves = x.result.curves ++ [x.self.current_curve_]
      ∧ y.self.current_curve_ = Curve.init
      ∧ x.self.parse_curves_ = y.self.parse_curves_)

/-- A line that `process_line` skips: blank, or a comment (first character `$`). -/
def skipped (l : Str) : Bool := is_empty_or_whitespace l || is_comment l

/-- The first line that is neither blank nor a comment, if there is one, is a keyword
line (first character `*`). -/
def keyword_first : List Str → Bool
  | [] => true
  | l :: rest => if skipped l then keyword_first rest else is_keyword l

/-! ## Basic facts about the primitives -/

theorem substr_of_le (s : Str) (pos n : Nat) (h : pos ≤ s.length) :
    substr s pos n = .ok ((s.drop pos).take n) := by
  unfold substr
  rw [if_neg (by omega)]

theorem take_min_drop (line : Str) (start len : Nat) :
    (line.drop start).take (min len (line.length - start)) = (line.drop start).take len := by
  rcases Nat.le_total len (line.length - start) with h | h
  · rw [Nat.min_eq_left h]
  · rw [Nat.min_eq_right h, List.take_of_length_le (by simp),
      List.take_of_length_le (by simp; omega)]

theorem trim_nil : trim [] = [] := by
  simp [trim]

theorem drop_of_length_le_nil (line : Str) (start : Nat) (h : line.length ≤ start) :
    line.drop start = [] := List.drop_of_length_le h

/-- The function `trim` removes the leading and then the trailing run of whitespace. -/
theorem trim_eq_dropWhile (s : Str) :
    trim s = (s.dropWhile isspace).rdropWhile isspace := by
  have hs : s.takeWhile isspace ++ s.dropWhile isspace = s := List.takeWhile_append_dropWhile _ _
  generalize ha : s.takeWhile isspace = a at hs
  generalize hr : s.dropWhile isspace = r at hs
  have hall : ∀ c ∈ a, isspace c = true := by
    intro c hc
    rw [← ha] at hc
    exact List.mem_takeWhile_imp hc
  rcases r with _ | ⟨x, r'⟩
  · -- the string is all whitespace
    have hsa : s = a := by simpa using hs.symm
    have hrev : (s.reverse.takeWhile isspace) = s.reverse := by
      rw [List.takeWhile_eq_self_iff]
      intro c hc
      rw [hsa] at hc
      exact hall c (List.mem_reverse.mp hc)
    unfold trim
    simp only [hrev, List.length_reverse, Nat.sub_self, Nat.not_lt_zero, if_false, ha]
    simp [List.rdropWhile]
  · -- `x` is the first character that is not whitespace
    have hx : isspace x = false := by
      have := List.head_dropWhile_not isspace s (by rw [hr]; simp)
      simpa [hr] using this
    set r := x :: r' with hrdef
    have hrev : s.reverse.takeWhile isspace = r.reverse.takeWhile isspace := by
      rw [← hs, List.reverse_append, List.takeWhile_append]
      have : (r.reverse.takeWhile isspace).length ≠ r.reverse.length := by
        intro h
        have h2 : r.reverse.takeWhile isspace = r.reverse :=
          (List.takeWhile_sublist _).eq_of_length h
        rw [List.takeWhile_eq_self_iff] at h2
        have := h2 x (by simp [hrdef])
        rw [hx] at this
        exact Bool.false_ne_true this
      rw [if_neg this]
    have hsplit : r.reverse.takeWhile isspace ++ r.reverse.dropWhile isspace = r.reverse :=
      List.takeWhile_append_dropWhile _ _
    generalize ht : r.reverse.takeWhile isspace = t at hsplit hrev
    have hr2 : r = (r.reverse.dropWhile isspace).reverse ++ t.reverse := by
      have := congrArg List.reverse hsplit
      rw [List.reverse_append, List.reverse_reverse] at this
      exact this.symm
    have hcore : r.rdropWhile isspace = (r.reverse.dropWhile isspace).reverse := rfl
    generalize hk : (r.reverse.dropWhile isspace).reverse = core at hr2 hcore
    have hcore_ne : core ≠ [] := by
      intro h
      rw [h, List.nil_append] at hr2
      have hmem : x ∈ t := by
        have : x ∈ r := by simp [hrdef]
        rw [hr2] at this
        exact List.mem_reverse.mp this
      rw [← ht] at hmem
      have := List.mem_takeWhile_imp hmem
      rw [hx] at this
      exact Bool.false_ne_true this
    have hlen : r.length = core.length + t.length := by
      conv_lhs => rw [hr2]
      simp
    have hcl : 0 < core.length := List.length_pos.mpr hcore_ne
    have hslen : s.length = a.length + r.length := by rw [← hs]; simp
    unfold trim
    rw [hrev, ha, hcore]
    simp only []
    rw [if_pos (by omega)]
    have hd : s.drop a.length = r := by
      rw [← hs]; simp
    rw [hd]
    have : s.length - t.length - a.length = core.length := by omega
    rw [this, hr2]
    simp

/-! ## The column decoders never throw -/

theorem column_text_past_end (line : Str) (start len : Nat) (h : line.length ≤ start) :
    column_text line start len = [] := by
  unfold column_text
  rw [List.drop_of_length_le h]
  simp [trim_nil]

theorem parse_int_eq (line : Str) (start len : Nat) :
    parse_int line start len = .ok (int_of_field (column_text line start len)) := by
  unfold parse_int
  by_cases h : start ≥ line.length
  · rw [if_pos h, column_text_past_end line start len h]
    rfl
  · rw [if_neg h]
    dsimp only
    rw [substr_of_le line start _ (by omega), take_min_drop]
    show (if (trim ((line.drop start).take len)).isEmpty = true then Except.ok 0
      else match stoi (trim ((line.drop start).take len)) with
        | .ok v => Except.ok v
        | .error _ => Except.ok 0) = _
    unfold int_of_field column_text
    generalize trim ((line.drop start).take len) = fld
    split
    · rfl
    · cases stoi fld <;> rfl

theorem parse_double_eq {F : Type} [DoubleModel F] (line : Str) (start len : Nat) :
    (parse_double line start len : Except Exn F)
      = .ok (double_of_field (column_text line start len)) := by
  unfold parse_double
  by_cases h : start ≥ line.length
  · rw [if_pos h, column_text_past_end line start len h]
    rfl
  · rw [if_neg h]
    dsimp only
    rw [substr_of_le line start _ (by omega), take_min_drop]
    show (if (trim ((line.drop start).take len)).isEmpty = true then Except.ok dzero
      else match (DoubleModel.stod (trim ((line.drop start).take len)) : Except Exn F) with
        | .ok v => Except.ok v
        | .error _ => Except.ok dzero) = _
    unfold double_of_field column_text
    generalize trim ((line.drop start).take len) = fld
    split
    · rfl
    · cases (DoubleModel.stod fld : Except Exn F) <;> rfl

theorem parse_string_field_eq (line : Str) (start len : Nat) :
    parse_string_field line start len = .ok (column_text line start len) := by
  unfold parse_string_field
  by_cases h : start ≥ line.length
  · rw [if_pos h, column_text_past_end line start len h]
  · rw [if_neg h]
    dsimp only
    rw [substr_of_le line start _ (by omega), take_min_drop]
    rfl

/-- C2. A start at or beyond the end of the line makes `parse_int` return `0`,
`parse_double` return `0.0` and `parse_string_field` return the empty string; and for
every `(line, start, len)` the three decoders return a value, never an exception: the
value decoded from the slice clipped to the line. -/
theorem decoders_return_and_default_past_end {F : Type} [DoubleModel F]
    (line : Str) (start len : Nat) :
    (∃ v, parse_int line start len = .ok v)
    ∧ (∃ v : F, parse_double line start len = .ok v)
    ∧ parse_string_field line start len = .ok (trim ((line.drop start).take len))
    ∧ (line.length ≤ start →
        parse_int line start len = .ok 0
        ∧ (parse_double line start len : Except Exn F) = .ok dzero
        ∧ parse_string_field line start len = .ok []) := by
  refine ⟨⟨_, parse_int_eq line start len⟩, ⟨_, parse_double_eq line start len⟩,
    parse_string_field_eq line start len, ?_⟩
  intro h
  refine ⟨?_, ?_, ?_⟩
  · rw [parse_int_eq, column_text_past_end line start len h]; rfl
  · rw [parse_double_eq, column_text_past_end line start len h]; rfl
  · rw [parse_string_field_eq, column_text_past_end line start len h]

/-- Witness for C2: a two-character line read at offset 5. -/
theorem decoders_return_and_default_past_end_witness :
    parse_int "ab".toList 5 3 = .ok 0
    ∧ (parse_double "ab".toList 5 3 : Except Exn SymDouble) = .ok dzero
    ∧ parse_string_field "ab".toList 5 3 = .ok [] :=
  (decoders_return_and_default_past_end "ab".toList 5 3).2.2.2 (by decide)

/-! ## Decimal rendering and `std::stoi` -/

theorem digitChar_toNat (k : Nat) (hk : k < 10) : (Nat.digitChar k).toNat = 48 + k := by
  interval_cases k <;> rfl

theorem digitChar_isdigit (k : Nat) (hk : k < 10) : isdigit (Nat.digitChar k) = true := by
  interval_cases k <;> rfl

theorem digits_value_append (pre : Str) (c : Char) :
    ∀ acc : Nat, (pre ++ [c]).foldl (fun acc c => acc * 10 + (c.toNat - 48)) acc
      = (pre.foldl (fun acc c => acc * 10 + (c.toNat - 48)) acc) * 10 + (c.toNat - 48) := by
  intro acc
  rw [List.foldl_append]
  rfl

/-- What `Nat.toDigitsCore` puts in front of its accumulator: a non-empty run of
decimal digits whose value is `n`. -/
theorem toDigitsCore_spec (n : Nat) :
    ∀ fuel, n < fuel → ∀ ds : Str, ∃ pre : Str,
      Nat.toDigitsCore 10 fuel n ds = pre ++ ds ∧ pre ≠ [] ∧ (∀ c ∈ pre, isdigit c = true)
      ∧ (∀ acc : Nat, pre.foldl (fun acc c => acc * 10 + (c.toNat - 48)) acc
          = acc * 10 ^ pre.length + n) := by
  induction n using Nat.strong_induction_on with
  | _ n ih =>
    intro fuel hfuel ds
    obtain ⟨f, rfl⟩ : ∃ f, fuel = f + 1 := ⟨fuel - 1, by omega⟩
    have hmod : n % 10 < 10 := Nat.mod_lt _ (by decide)
    unfold Nat.toDigitsCore
    by_cases h0 : n / 10 = 0
    · simp only [h0, if_true]
      refine ⟨[Nat.digitChar (n % 10)], rfl, by simp, ?_, ?_⟩
      · intro c hc
        rw [List.mem_singleton] at hc
        rw [hc]
        exact digitChar_isdigit _ hmod
      · intro acc
        have hn : n % 10 = n := Nat.mod_eq_of_lt (by omega)
        simp only [List.foldl_cons, List.foldl_nil, List.length_singleton, pow_one,
          digitChar_toNat _ hmod]
        omega
    · simp only [h0, if_false]
      have hlt : n / 10 < n := by omega
      obtain ⟨pre, hpre, hne, hdig, hval⟩ :=
        ih (n / 10) hlt f (by omega) (Nat.digitChar (n % 10) :: ds)
      refine ⟨pre ++ [Nat.digitChar (n % 10)], ?_, by simp, ?_, ?_⟩
      · rw [hpre]; simp
      · intro c hc
        rw [List.mem_append, List.mem_singleton] at hc
        rcases hc with hc | hc
        · exact hdig c hc
        · rw [hc]; exact digitChar_isdigit _ hmod
      · intro acc
        rw [digits_value_append, hval acc, digitChar_toNat _ hmod, List.length_append,
          List.length_singleton, pow_succ]
        have := Nat.div_add_mod n 10
        have e : 48 + n % 10 - 48 = n % 10 := by omega
        rw [e]
        ring_nf
        omega

theorem toDigits_spec (n : Nat) :
    Nat.toDigits 10 n ≠ [] ∧ (∀ c ∈ Nat.toDigits 10 n, isdigit c = true)
      ∧ digits_value (Nat.toDigits 10 n) = n := by
  obtain ⟨pre, hpre, hne, hdig, hval⟩ := toDigitsCore_spec n (n + 1) (by omega) []
  have h : Nat.toDigits 10 n = pre := by
    unfold Nat.toDigits
    rw [hpre, List.append_nil]
  rw [h]
  refine ⟨hne, hdig, ?_⟩
  unfold digits_value
  rw [hval 0]
  simp

theorem isdigit_not_isspace (c : Char) (h : isdigit c = true) : isspace c = false := by
  unfold isdigit at h
  unfold isspace
  simp only [Bool.and_eq_true, decide_eq_true_eq] at h
  simp only [Bool.or_eq_false_iff, decide_eq_false_iff_not, Bool.and_eq_false_imp,
    decide_eq_true_eq]
  omega

theorem isdigit_ne_sign (c : Char) (h : isdigit c = true) : c ≠ '-' ∧ c ≠ '+' := by
  unfold isdigit at h
  simp only [Bool.and_eq_true, decide_eq_true_eq] at h
  constructor
  · rintro rfl
    have : ('-' : Char).toNat = 45 := rfl
    omega
  · rintro rfl
    have : ('+' : Char).toNat = 43 := rfl
    omega

/-- The result of `std::stoi` on a run of digits whose value fits an `int`. -/
theorem stoi_digits (ds : Str) (hne : ds ≠ []) (hdig : ∀ c ∈ ds, isdigit c = true)
    (hhi : (digits_value ds : Int) ≤ INT_MAX) : stoi ds = .ok (digits_value ds) := by
  obtain ⟨c, t, rfl⟩ : ∃ c t, ds = c :: t := by
    cases ds with
    | nil => exact absurd rfl hne
    | cons c t => exact ⟨c, t, rfl⟩
  have hc : isdigit c = true := hdig c (by simp)
  have hsp : isspace c = false := isdigit_not_isspace c hc
  have hsign := isdigit_ne_sign c hc
  have hbody : (c :: t).dropWhile isspace = c :: t := by
    simp [List.dropWhile, hsp]
  have htw : (c :: t).takeWhile isdigit = c :: t := by
    rw [List.takeWhile_eq_self_iff]
    exact hdig
  unfold stoi
  simp only [hbody, List.head?_cons, Option.some.injEq, hsign.1, hsign.2, or_self, if_false,
    htw, List.isEmpty_cons, Bool.false_eq_true, decide_False]
  have hlo : ¬ ((digits_value (c :: t) : Int) < INT_MIN) := by
    unfold INT_MIN
    omega
  simp [hlo, not_lt.mpr hhi]

/-- The result of `std::stoi` on a minus sign followed by a run of digits whose negated value fits
an `int`. -/
theorem stoi_neg_digits (ds : Str) (hne : ds ≠ []) (hdig : ∀ c ∈ ds, isdigit c = true)
    (hlo : INT_MIN ≤ -(digits_value ds : Int)) :
    stoi ('-' :: ds) = .ok (-(digits_value ds : Int)) := by
  have hsp : isspace '-' = false := rfl
  have hbody : ('-' :: ds).dropWhile isspace = '-' :: ds := by
    simp [List.dropWhile, hsp]
  have htw : ds.takeWhile isdigit = ds := by
    rw [List.takeWhile_eq_self_iff]
    exact hdig
  have hem : ds.isEmpty = false := by
    cases ds with
    | nil => exact absurd rfl hne
    | cons c t => rfl
  unfold stoi
  simp only [hbody, List.head?_cons, true_or, if_true, List.tail_cons, htw, hem,
    Bool.false_eq_true, if_false, decide_True]
  have hhi : ¬ (INT_MAX < -(digits_value ds : Int)) := by
    unfold INT_MAX
    omega
  simp [not_lt.mpr hlo, hhi]

theorem render_ne_nil (n : Int) : render n ≠ [] := by
  unfold render
  split
  · simp
  · exact (toDigits_spec _).1

theorem stoi_render (n : Int) (hlo : INT_MIN ≤ n) (hhi : n ≤ INT_MAX) :
    stoi (render n) = .ok n := by
  obtain ⟨hne, hdig, hval⟩ := toDigits_spec n.natAbs
  unfold render
  by_cases hn : n < 0
  · rw [if_pos hn]
    have e : -(digits_value (Nat.toDigits 10 n.natAbs) : Int) = n := by
      rw [hval]; omega
    have := stoi_neg_digits _ hne hdig (by rw [e]; exact hlo)
    rw [e] at this
    exact this
  · rw [if_neg hn]
    have e : (digits_value (Nat.toDigits 10 n.natAbs) : Int) = n := by
      rw [hval]; omega
    have := stoi_digits _ hne hdig (by rw [e]; exact hhi)
    rw [e] at this
    exact this

theorem dropWhile_of_head_not (p : Char → Bool) (l : Str) (h : ∀ hl : l ≠ [], p (l.head hl) = false) :
    l.dropWhile p = l := by
  cases l with
  | nil => rfl
  | cons c t =>
    have := h (by simp)
    simp only [List.head_cons] at this
    simp [List.dropWhile, this]

/-- Trimming whitespace padding around a text without whitespace gives the text. -/
theorem trim_padded (core wl wr : Str) (hl : ∀ c ∈ wl, isspace c = true)
    (hr : ∀ c ∈ wr, isspace c = true) (hcore : ∀ c ∈ core, isspace c = false) :
    trim (wl ++ core ++ wr) = core := by
  rw [trim_eq_dropWhile, List.append_assoc, List.dropWhile_append_of_pos hl]
  cases core with
  | nil =>
    rw [List.nil_append]
    have : wr.dropWhile isspace = [] := List.dropWhile_eq_nil_iff.mpr hr
    rw [this]
    simp [List.rdropWhile]
  | cons c t =>
    have hc : isspace c = false := hcore c (by simp)
    have h1 : (c :: t ++ wr).dropWhile isspace = c :: t ++ wr := by
      simp [List.dropWhile, hc]
    rw [h1]
    unfold List.rdropWhile
    rw [List.reverse_append, List.dropWhile_append_of_pos (by
      intro x hx; exact hr x (List.mem_reverse.mp hx))]
    rw [dropWhile_of_head_not]
    · simp
    · intro hne
      have hmem : (c :: t).reverse.head hne ∈ (c :: t) :=
        List.mem_reverse.mp (List.head_mem hne)
      exact hcore _ hmem

theorem render_no_space (n : Int) : ∀ c ∈ render n, isspace c = false := by
  have hd := (toDigits_spec n.natAbs).2.1
  intro c hc
  unfold render at hc
  split at hc
  · rw [List.mem_cons] at hc
    rcases hc with rfl | hc
    · rfl
    · exact isdigit_not_isspace c (hd c hc)
  · exact isdigit_not_isspace c (hd c hc)

theorem int_of_field_render (n : Int) (hlo : INT_MIN ≤ n) (hhi : n ≤ INT_MAX) :
    int_of_field (render n) = n := by
  unfold int_of_field
  have hne : (render n).isEmpty = false := by
    have := render_ne_nil n
    cases h : render n with
    | nil => exact absurd h this
    | cons c t => rfl
  rw [hne, stoi_render n hlo hhi]
  rfl

/-- C3. Round trip of `parse_int`: a field that holds the decimal rendering of a
signed 32-bit integer `n`, padded with `a` spaces on the left and `b` spaces on the
right and placed at offset `start = before.length` of any line, decodes to `n`. -/
theorem parse_int_round_trip (n : Int) (hlo : INT_MIN ≤ n) (hhi : n ≤ INT_MAX)
    (a b : Nat) (before after : Str) :
    parse_int (before ++ (List.replicate a ' ' ++ render n ++ List.replicate b ' ') ++ after)
        before.length (a + (render n).length + b) = .ok n := by
  rw [parse_int_eq]
  have hslice : column_text
      (before ++ (List.replicate a ' ' ++ render n ++ List.replicate b ' ') ++ after)
      before.length (a + (render n).length + b) = render n := by
    unfold column_text
    rw [List.append_assoc, List.drop_left]
    have hlen : (List.replicate a ' ' ++ render n ++ List.replicate b ' ').length
        = a + (render n).length + b := by simp; omega
    rw [← hlen, List.take_left]
    apply trim_padded
    · intro c hc; rw [List.eq_of_mem_replicate hc]; rfl
    · intro c hc; rw [List.eq_of_mem_replicate hc]; rfl
    · exact render_no_space n
  rw [hslice, int_of_field_render n hlo hhi]

/-- Witness for C3: `-42` in an eight-wide field at offset 2. -/
theorem parse_int_round_trip_witness :
    render (-42) = "-42".toList
    ∧ parse_int ("xx".toList ++ (List.replicate 3 ' ' ++ render (-42) ++ List.replicate 2 ' ')
        ++ "yy".toList) 2 (3 + (render (-42)).length + 2) = .ok (-42) :=
  ⟨by decide, parse_int_round_trip (-42) (by decide) (by decide) 3 2 "xx".toList "yy".toList⟩

/-! ## When `parse_int` returns zero -/

/-- C4, counterexample. On the one-character line `0` the decoder returns 0 although
the trimmed slice is neither empty nor rejected by `std::stoi`: "returns 0 exactly
when the slice is empty or does not parse" fails. -/
theorem parse_int_zero_text_counterexample :
    parse_int "0".toList 0 1 = .ok 0
    ∧ ¬ (column_text "0".toList 0 1 = []
          ∨ ∃ e, stoi (column_text "0".toList 0 1) = .error e) := by
  refine ⟨rfl, ?_⟩
  have h : stoi (column_text "0".toList 0 1) = .ok 0 := rfl
  rintro (h0 | ⟨e, he⟩)
  · exact absurd h0 (by decide)
  · rw [h] at he
    cases he

/-- C4, amended. `parse_int` returns 0 exactly when the slice `[start, start+len)`,
clipped to the line and trimmed, is empty, is rejected by `std::stoi`, or decodes to
the value zero; and whenever it returns a non-zero value, that value is the one
`std::stoi` decodes from the trimmed slice. -/
theorem parse_int_zero_iff (line : Str) (start len : Nat) :
    (parse_int line start len = .ok 0 ↔
      (column_text line start len = []
        ∨ (∃ e, stoi (column_text line start len) = .error e)
        ∨ stoi (column_text line start len) = .ok 0))
    ∧ (∀ v, parse_int line start len = .ok v → v ≠ 0 →
        stoi (column_text line start len) = .ok v) := by
  rw [parse_int_eq]
  generalize column_text line start len = fld
  unfold int_of_field
  cases fld with
  | nil =>
    refine ⟨⟨fun _ => Or.inl rfl, fun _ => rfl⟩, ?_⟩
    intro v hv hv0
    simp only [List.isEmpty_nil, if_true, Except.ok.injEq] at hv
    exact absurd hv.symm hv0
  | cons c t =>
    simp only [List.isEmpty_cons, Bool.false_eq_true, if_false]
    cases hst : stoi (c :: t) with
    | error e =>
      refine ⟨⟨fun _ => Or.inr (Or.inl ⟨e, rfl⟩), fun _ => rfl⟩, ?_⟩
      intro v hv hv0
      simp only [Except.ok.injEq] at hv
      exact absurd hv.symm hv0
    | ok w =>
      refine ⟨⟨?_, ?_⟩, ?_⟩
      · intro h
        simp only [Except.ok.injEq] at h
        exact Or.inr (Or.inr (by rw [h]))
      · rintro (h | ⟨e, he⟩ | h)
        · cases h
        · cases he
        · simp only [Except.ok.injEq] at h
          rw [h]
      · intro v hv _
        simp only [Except.ok.injEq] at hv
        rw [hv]

/-- Witness for C4 (amended): the field `12` decodes to the non-zero value 12. -/
theorem parse_int_zero_iff_witness :
    stoi (column_text " 12 ".toList 0 4) = .ok 12 :=
  (parse_int_zero_iff " 12 ".toList 0 4).2 12 rfl (by decide)

/-! ## `parse_element_line` -/

theorem parse_element_nodes_cons (line : Str) (i : Nat) (rest : List Nat) (elem : Element)
    (count : Int) :
    parse_element_nodes line (i :: rest) (elem, count)
      = parse_element_nodes line rest
          ({ elem with nodes := elem.nodes.set i (node_slot line i) },
            if node_slot line i > 0 then (i : Int) + 1 else count) := by
  rw [parse_element_nodes]
  dsimp only
  by_cases h : 16 + i * 8 < line.length
  · rw [if_pos h, parse_int_eq]
    rfl
  · rw [if_neg h]
    have h0 : node_slot line i = 0 := by
      unfold node_slot
      rw [column_text_past_end line _ 8 (by omega)]
      rfl
    rw [h0]
    rfl

/-- The element `parse_element_line` returns, in closed form. -/
theorem parse_element_line_eq (line : Str) (type : ElementType) :
    parse_element_line line type = .ok
      { eid := int_of_field (column_text line 0 8)
        pid := int_of_field (column_text line 8 8)
        nodes := [node_slot line 0, node_slot line 1, node_slot line 2, node_slot line 3,
                  node_slot line 4, node_slot line 5, node_slot line 6, node_slot line 7]
        type := type
        node_count :=
          if scan_count [node_slot line 0, node_slot line 1, node_slot line 2,
              node_slot line 3, node_slot line 4, node_slot line 5, node_slot line 6,
              node_slot line 7] 0 0 ≥ 3
          then scan_count [node_slot line 0, node_slot line 1, node_slot line 2,
              node_slot line 3, node_slot line 4, node_slot line 5, node_slot line 6,
              node_slot line 7] 0 0
          else 0 } := by
  unfold parse_element_line
  rw [parse_int_eq, parse_int_eq]
  simp only [parse_element_nodes_cons]
  rfl

theorem scan_count_eq (vs : List Int) :
    ∀ (i : Nat) (count : Int), scan_count vs i count
      = if last_index_where (fun v => decide (v > 0)) vs > 0
        then ((i + last_index_where (fun v => decide (v > 0)) vs : Nat) : Int) else count := by
  induction vs with
  | nil => intro i count; simp [scan_count, last_index_where]
  | cons v vs ih =>
    intro i count
    rw [scan_count, ih, last_index_where]
    by_cases hr : last_index_where (fun v => decide (v > 0)) vs > 0
    · simp only [hr, if_true]
      rw [if_pos (by omega)]
      push_cast
      omega
    · simp only [hr, if_false]
      by_cases hv : v > 0
      · simp [hv]
      · simp [hv]

theorem last_index_where_le (p : Int → Bool) (vs : List Int) :
    last_index_where p vs ≤ vs.length := by
  induction vs with
  | nil => simp [last_index_where]
  | cons v vs ih =>
    rw [last_index_where]
    split
    · simp; omega
    · split <;> simp

/-- What `last_index_where` computes: the entry at that 1-based index satisfies `p`
(when the index is not 0) and no later entry does. -/
theorem last_index_where_spec (p : Int → Bool) (vs : List Int) :
    (last_index_where p vs > 0 → p (vs.getD (last_index_where p vs - 1) 0) = true)
    ∧ (∀ i, last_index_where p vs ≤ i → i < vs.length → p (vs.getD i 0) = false) := by
  induction vs with
  | nil => simp [last_index_where]
  | cons v vs ih =>
    rw [last_index_where]
    by_cases hr : last_index_where p vs > 0
    · simp only [hr, if_true]
      refine ⟨fun _ => ?_, ?_⟩
      · have := ih.1 hr
        obtain ⟨k, hk⟩ : ∃ k, last_index_where p vs = k + 1 := ⟨_, (Nat.succ_pred_eq_of_pos hr).symm⟩
        rw [hk] at this ⊢
        simpa using this
      · intro i hi hlt
        obtain ⟨j, rfl⟩ : ∃ j, i = j + 1 := ⟨i - 1, by omega⟩
        have := ih.2 j (by omega) (by simpa using hlt)
        simpa using this
    · simp only [hr, if_false]
      have hz : last_index_where p vs = 0 := by omega
      by_cases hv : p v = true
      · simp only [hv, if_true]
        refine ⟨fun _ => by simpa using hv, ?_⟩
        intro i hi hlt
        obtain ⟨j, rfl⟩ : ∃ j, i = j + 1 := ⟨i - 1, by omega⟩
        have := ih.2 j (by omega) (by simpa using hlt)
        simpa using this
      · simp only [hv, if_false]
        refine ⟨fun h => absurd h (by simp), ?_⟩
        intro i _ hlt
        cases i with
        | zero => simpa using hv
        | succ j =>
          have := ih.2 j (by omega) (by simpa using hlt)
          simpa using this

/-- C8, counterexample. A shell line whose fourth node column holds `-4`: the nodes
array is `[1, 2, 3, -4, 0, 0, 0, 0]`, its highest non-zero entry has 1-based index 4,
yet `node_count` is 3, because a slot only counts when its id is positive. -/
theorem node_count_nonzero_counterexample :
    parse_element_line "       1       1       1       2       3      -4".toList .SHELL
      = .ok { eid := 1, pid := 1, nodes := [1, 2, 3, -4, 0, 0, 0, 0], type := .SHELL,
              node_count := 3 }
    ∧ last_index_where (fun v => decide (v ≠ 0)) [1, 2, 3, -4, 0, 0, 0, 0] = 4 := by
  decide

/-- The element returned by `parse_element_line` has eight slots and a `node_count`
derived from the last positive slot. -/
theorem element_count_closed_form (line : Str) (type : ElementType) :
    ∃ e, parse_element_line line type = .ok e
      ∧ e.nodes.length = 8
      ∧ e.node_count =
          if 3 ≤ last_index_where (fun v => decide (v > 0)) e.nodes
          then (last_index_where (fun v => decide (v > 0)) e.nodes : Int) else 0 := by
  refine ⟨_, parse_element_line_eq line type, rfl, ?_⟩
  simp only [scan_count_eq]
  generalize last_index_where (fun v => decide (v > 0)) _ = k
  by_cases hk : k > 0
  · simp only [hk, if_true, Nat.zero_add]
    by_cases h3 : 3 ≤ k
    · rw [if_pos (by omega), if_pos h3]
    · rw [if_neg (by omega), if_neg h3]
  · have : k = 0 := by omega
    subst this
    simp

/-- C8, amended. For every line and element type, `parse_element_line` returns an
element whose `node_count` is the 1-based index of the highest positive entry of its
eight-slot nodes array (0 when none is positive), replaced by zero when that index is
less than 3. -/
theorem node_count_highest_positive (line : Str) (type : ElementType) :
    ∃ e, parse_element_line line type = .ok e
      ∧ e.nodes.length = 8
      ∧ e.node_count =
          if 3 ≤ last_index_where (fun v => decide (v > 0)) e.nodes
          then (last_index_where (fun v => decide (v > 0)) e.nodes : Int) else 0 := by
  refine ⟨_, parse_element_line_eq line type, rfl, ?_⟩
  -- the loop's `count` is the index of the last positive slot
  simp only [scan_count_eq]
  generalize last_index_where (fun v => decide (v > 0)) _ = k
  rcases Nat.eq_zero_or_pos k with hk | hk
  · subst hk
    simp
  · simp only [gt_iff_lt, hk, if_true, Nat.zero_add]
    by_cases h3 : 3 ≤ k
    · rw [if_pos (by omega), if_pos h3]
    · rw [if_neg (by omega), if_neg h3]

/-- C9. For every line and element type, `parse_element_line` returns an element
whose `node_count` is 0 or lies between 3 and 8. -/
theorem node_count_range (line : Str) (type : ElementType) :
    ∃ e, parse_element_line line type = .ok e
      ∧ (e.node_count = 0 ∨ (3 ≤ e.node_count ∧ e.node_count ≤ 8)) := by
  obtain ⟨e, he, hlen, hcount⟩ := element_count_closed_form line type
  refine ⟨e, he, ?_⟩
  have hle := last_index_where_le (fun v => decide (v > 0)) e.nodes
  rw [hlen] at hle
  rw [hcount]
  split
  · right; omega
  · left; rfl

/-- C10, counterexample. A beam line with two node ids: `node_count` is clamped to 0
while slots 0 and 1 keep the ids 1 and 2, so `nodes[i] = 0` fails for `i = 0` although
`node_count <= 0 < 8`; and on the line of the C8 counterexample slot 3 holds `-4`
although `node_count = 3`. -/
theorem nodes_beyond_count_counterexample :
    parse_element_line "       7       1       1       2".toList .BEAM
      = .ok { eid := 7, pid := 1, nodes := [1, 2, 0, 0, 0, 0, 0, 0], type := .BEAM,
              node_count := 0 }
    ∧ ([1, 2, 0, 0, 0, 0, 0, 0] : List Int).getD 0 0 ≠ 0
    ∧ parse_element_line "       1       1       1       2       3      -4".toList .SHELL
      = .ok { eid := 1, pid := 1, nodes := [1, 2, 3, -4, 0, 0, 0, 0], type := .SHELL,
              node_count := 3 }
    ∧ ([1, 2, 3, -4, 0, 0, 0, 0] : List Int).getD 3 0 ≠ 0 := by
  decide

/-- C10, amended. For every line and element type, the element `e` returned by
`parse_element_line` has no positive id in any slot `i` with `node_count <= i < 8`
and `2 <= i`: such a slot holds 0 or a negative number read from the line. -/
theorem nodes_beyond_count_not_positive (line : Str) (type : ElementType) :
    ∃ e, parse_element_line line type = .ok e
      ∧ ∀ i : Nat, e.node_count ≤ i → 2 ≤ i → i < 8 → e.nodes.getD i 0 ≤ 0 := by
  obtain ⟨e, he, hlen, hcount⟩ := element_count_closed_form line type
  refine ⟨e, he, ?_⟩
  intro i hi h2 h8
  have hspec := (last_index_where_spec (fun v => decide (v > 0)) e.nodes).2 i
  have hk : last_index_where (fun v => decide (v > 0)) e.nodes ≤ i := by
    rw [hcount] at hi
    split at hi
    · exact_mod_cast hi
    · omega
  have := hspec hk (by rw [hlen]; exact h8)
  simpa using this

/-- Witness for C10 (amended): slot 5 of a four-node shell line. -/
theorem nodes_beyond_count_not_positive_witness :
    ∃ e, parse_element_line "       1       1       1       2       3       4".toList .SHELL
        = .ok e ∧ e.node_count = 4 ∧ e.nodes.getD 5 0 ≤ 0 := by
  obtain ⟨e, he, h⟩ :=
    nodes_beyond_count_not_positive
      "       1       1       1       2       3       4".toList .SHELL
  have hval : parse_element_line "       1       1       1       2       3       4".toList .SHELL
      = .ok { eid := 1, pid := 1, nodes := [1, 2, 3, 4, 0, 0, 0, 0], type := .SHELL,
              node_count := 4 } := by decide
  have hc : e.node_count = 4 := by
    rw [hval] at he
    cases he
    rfl
  exact ⟨e, he, hc, h 5 (by rw [hc]; decide) (by decide) (by decide)⟩

/-! ## Statement blocks and the read loop -/

section ProcessLemmas

variable {F : Type} [DoubleModel F]

theorem Run.bind_apply {σ α β : Type} (m : Run σ α) (f : α → Run σ β) (s : σ) :
    (m >>= f) s = match m s with
      | (.ok a, s1) => f a s1
      | (.error e, s1) => (.error e, s1) := rfl

theorem process_line_blank (line : Str) (h : is_empty_or_whitespace line = true) (c : Ctx F) :
    process_line line c = (.ok (), c) := by
  unfold process_line
  rw [if_pos h]
  rfl

theorem process_line_comment (line : Str) (h : line.head? = some '$') (c : Ctx F) :
    process_line line c = (.ok (), c) := by
  cases line with
  | nil => cases h
  | cons ch t =>
    simp only [List.head?_cons, Option.some.injEq] at h
    subst h
    rfl

theorem process_line_data (line : Str) (h : data_line line) (c : Ctx F) :
    process_line line c = process_data line c := by
  unfold process_line
  rw [h.1, h.2.1, h.2.2]
  rfl

theorem read_loop_cons (line : Str) (rest : List Str) (n : Nat) (c c1 : Ctx F)
    (h : process_line line c = (.ok (), c1)) :
    read_loop (line :: rest) n c = read_loop rest (n + 1) c1 := by
  rw [read_loop, Run.bind_apply, h]

theorem read_loop_shift (lines : List Str) (k : Nat) :
    ∀ (n : Nat) (c : Ctx F), read_loop lines (n + k) c
      = (Except.map (· + k) (read_loop lines n c).1, (read_loop lines n c).2) := by
  induction lines with
  | nil => intro n c; rfl
  | cons l rest ih =>
    intro n c
    rw [read_loop, read_loop, Run.bind_apply, Run.bind_apply]
    rcases hpl : process_line l c with ⟨r, c1⟩
    cases r with
    | error e => rfl
    | ok u =>
      have : n + k + 1 = (n + 1) + k := by omega
      simp only [this]
      exact ih (n + 1) c1

theorem read_loop_append (pre rest : List Str) :
    ∀ (n : Nat) (c : Ctx F), read_loop (pre ++ rest) n c
      = match read_loop pre n c with
        | (.ok m, c1) => read_loop rest m c1
        | (.error e, c1) => (.error e, c1) := by
  induction pre with
  | nil => intro n c; rfl
  | cons l pre ih =>
    intro n c
    rw [List.cons_append, read_loop, read_loop, Run.bind_apply, Run.bind_apply]
    rcases hpl : process_line l c with ⟨r, c1⟩
    cases r with
    | error e => rfl
    | ok u => exact ih (n + 1) c1

theorem finish_parse_ok (n : Nat) (c : Ctx F) :
    finish_parse n c = (.ok (), (finish_parse n c).2) := rfl

theorem finish_parse_succ (n : Nat) (c : Ctx F) :
    (finish_parse (n + 1) c).2
      = { (finish_parse n c).2 with
          result := (finish_parse n c).2.result.one_more_line } := by
  unfold finish_parse
  simp only [Run.bind_apply, Run.update]
  by_cases h1 : c.self.current_set_.sid > 0 ∧ c.self.current_set_.count > 0 <;>
  by_cases h2 : c.self.current_material_.mid > 0 <;>
  by_cases h3 : c.self.current_curve_.lcid > 0 <;>
  by_cases h4 : c.self.build_index_ = true <;>
  simp [h1, h2, h3, h4, ParseResult.one_more_line, ParseResult.build_indices]

theorem finish_parse_self_flags (n : Nat) (c : Ctx F) :
    (finish_parse n c).2.result.nodes = c.result.nodes
    ∧ (finish_parse n c).2.result.parts = c.result.parts
    ∧ (finish_parse n c).2.result.elements = c.result.elements := by
  unfold finish_parse
  simp only [Run.bind_apply, Run.update]
  by_cases h1 : c.self.current_set_.sid > 0 ∧ c.self.current_set_.count > 0 <;>
  by_cases h2 : c.self.current_material_.mid > 0 <;>
  by_cases h3 : c.self.current_curve_.lcid > 0 <;>
  by_cases h4 : c.self.build_index_ = true <;>
  simp [h1, h2, h3, h4, ParseResult.build_indices]

theorem parse_body_eq (content : Str) (c : Ctx F) :
    parse_body content c
      = match read_loop (getlines content) 0 c with
        | (.ok n, c1) => (.ok (finish_parse n c1).2.result, (finish_parse n c1).2)
        | (.error e, c1) => (.error e, c1) := by
  unfold parse_body
  rw [Run.bind_apply]
  rcases read_loop (getlines content) 0 c with ⟨r, c1⟩
  cases r with
  | error e => rfl
  | ok n => rfl

end ProcessLemmas

/-! ## Line classification and skipped lines -/

section Classify

variable {F : Type} [DoubleModel F]

/-- C5, counterexample. With leading spaces the lines are not classified as the lines
without them: from the idle state `*NODE` selects the node handler but ` *NODE` does
not, and in the node state `$ note` is skipped while ` $ note` is decoded as a node. -/
theorem leading_space_classification_counterexample :
    (process_line "*NODE".toList (start_ctx (KFileParser.init 0 : KFileParser SymDouble))).2.state
      = .IN_NODE
    ∧ (process_line " *NODE".toList (start_ctx (KFileParser.init 0 : KFileParser SymDouble))).2.state
      = .IDLE
    ∧ (process_line "$ note".toList
        { start_ctx (KFileParser.init 0 : KFileParser SymDouble) with state := .IN_NODE }
        ).2.result.nodes.length = 0
    ∧ (process_line " $ note".toList
        { start_ctx (KFileParser.init 0 : KFileParser SymDouble) with state := .IN_NODE }
        ).2.result.nodes.length = 1 := by
  decide

/-- C5, amended. `process_line` treats a line as blank when every character of it
is whitespace; otherwise it classifies the line by its first character (column 1): `*`
makes it a keyword line, handled by the keyword chain on the upper-cased line, `$`
makes it a comment, which is skipped, and any other first character (a space
included) routes it as data to the active handler. -/
theorem process_line_classification (line : Str) (c : Ctx F) :
    process_line line c =
      if line.all isspace = true then (.ok (), c)
      else if line.head? = some '*' then process_keyword (to_upper line) c
      else if line.head? = some '$' then (.ok (), c)
      else process_data line c := by
  unfold process_line is_empty_or_whitespace
  by_cases hb : line.all isspace = true
  · rw [if_pos hb, if_pos hb]; rfl
  · rw [if_neg hb, if_neg hb]
    cases line with
    | nil => exact absurd rfl hb
    | cons ch t =>
      simp only [is_keyword, is_comment, List.head?_cons, Option.some.injEq,
        decide_eq_true_eq]
      by_cases hk : ch = '*'
      · rw [if_pos hk, if_pos hk]
      · rw [if_neg hk, if_neg hk]
        by_cases hc : ch = '$'
        · rw [if_pos hc, if_pos hc]; rfl
        · rw [if_neg hc, if_neg hc]

theorem getlines_from_line (l : Str) (hl : '\n' ∉ l) (rest : Str) :
    ∀ cur : Str, getlines_from (l ++ '\n' :: rest) cur
      = (cur.reverse ++ l) :: getlines_from rest [] := by
  induction l with
  | nil =>
    intro cur
    rw [List.nil_append, getlines_from, if_pos rfl, List.append_nil]
  | cons ch t ih =>
    intro cur
    have hch : ch ≠ '\n' := fun h => hl (by rw [h]; simp)
    have ht : '\n' ∉ t := fun h => hl (List.mem_cons_of_mem _ h)
    rw [List.cons_append, getlines_from, if_neg hch, ih ht]
    simp

theorem getlines_unlines (lines : List Str) (h : ∀ l ∈ lines, '\n' ∉ l) :
    getlines (unlines lines) = lines := by
  induction lines with
  | nil => rfl
  | cons l rest ih =>
    unfold getlines at ih ⊢
    rw [unlines, getlines_from_line l (h l (by simp)), ih (fun x hx => h x (by simp [hx]))]
    simp

/-- Inserting a line that `process_line` skips changes the outcome of the read loop
only in the line count. -/
theorem read_loop_insert_skipped (pre post : List Str) (l : Str)
    (hl : ∀ c : Ctx F, process_line l c = (.ok (), c)) (n : Nat) (c : Ctx F) :
    read_loop (pre ++ l :: post) n c
      = (Except.map (· + 1) (read_loop (pre ++ post) n c).1,
          (read_loop (pre ++ post) n c).2) := by
  rw [read_loop_append, read_loop_append]
  rcases read_loop pre n c with ⟨r, c1⟩
  cases r with
  | error e => rfl
  | ok m =>
    show read_loop (l :: post) m c1 = _
    rw [read_loop_cons l post m c1 c1 (hl c1)]
    exact read_loop_shift post 1 m c1

theorem skipped_line (l : Str) (hl : is_empty_or_whitespace l = true ∨ l.head? = some '$')
    (c : Ctx F) : process_line l c = (.ok (), c) := by
  rcases hl with h | h
  · exact process_line_blank l h c
  · exact process_line_comment l h c

/-- C6. Let `content'` be `content` with one more line `l` inserted at a line boundary
(the lines of `content` are `pre ++ post`, those of `content'` are `pre ++ l :: post`),
where `l` is empty or whitespace-only or starts with `$`. Then the read loop leaves
the same parser state (handler state, pending part name, in-flight entities and
result under construction), and `parse_string` returns the same result, every
collection included, except that `total_lines` is one larger; the parser object is
left the same. -/
theorem inserted_blank_or_comment_line (p : KFileParser F) (content content' : Str)
    (pre post : List Str) (l : Str)
    (hl : is_empty_or_whitespace l = true ∨ l.head? = some '$')
    (h : getlines content = pre ++ post) (h' : getlines content' = pre ++ l :: post) :
    (∀ c : Ctx F, ctx_after (getlines content') c = ctx_after (getlines content) c)
    ∧ parse_string content' p
        = (Except.map ParseResult.one_more_line (parse_string content p).1,
            (parse_string content p).2) := by
  have key := fun (n : Nat) (c : Ctx F) =>
    read_loop_insert_skipped pre post l (skipped_line l hl) n c
  constructor
  · intro c
    unfold ctx_after
    rw [h, h', key 0 c]
  · unfold parse_string
    rw [parse_body_eq, parse_body_eq, h, h', key 0]
    rcases read_loop (pre ++ post) 0
        ({ self := p, state := .IDLE, part_name := [], result := ParseResult.init } : Ctx F)
      with ⟨r, c1⟩
    cases r with
    | error e => rfl
    | ok n =>
      show ((Except.ok (finish_parse (n + 1) c1).2.result : Except Exn (ParseResult F)),
          (finish_parse (n + 1) c1).2.self) = _
      rw [finish_parse_succ]
      rfl

/-- Witness for C6: a comment line inserted between the keyword and the node card. -/
theorem inserted_blank_or_comment_line_witness :
    parse_string "*NODE\n$ id x y z\n       1     1.0\n".toList
        (KFileParser.init 0 : KFileParser SymDouble)
      = (Except.map ParseResult.one_more_line
          (parse_string "*NODE\n       1     1.0\n".toList
            (KFileParser.init 0 : KFileParser SymDouble)).1,
         (parse_string "*NODE\n       1     1.0\n".toList
            (KFileParser.init 0 : KFileParser SymDouble)).2) :=
  (inserted_blank_or_comment_line (KFileParser.init 0 : KFileParser SymDouble)
    "*NODE\n       1     1.0\n".toList "*NODE\n$ id x y z\n       1     1.0\n".toList
    ["*NODE".toList] ["       1     1.0".toList] "$ id x y z".toList
    (Or.inr rfl) (by decide) (by decide)).2

end Classify

/-! ## The node block -/

section NodeBlock

variable {F : Type} [DoubleModel F]

theorem parse_node_line_ok (line : Str) :
    ∃ node : Node F, parse_node_line line = .ok node := by
  unfold parse_node_line
  simp only [parse_int_eq, parse_double_eq]
  by_cases h1 : line.length > 56 <;> by_cases h2 : line.length > 64 <;>
    simp only [h1, h2, if_true, if_false] <;> exact ⟨_, rfl⟩

theorem node_lines_decode (ds : List Str) :
    ∃ nodes : List (Node F), ds.map parse_node_line = nodes.map Except.ok := by
  induction ds with
  | nil => exact ⟨[], rfl⟩
  | cons d ds ih =>
    obtain ⟨nodes, hn⟩ := ih
    obtain ⟨node, hd⟩ := parse_node_line_ok (F := F) d
    exact ⟨node :: nodes, by simp [hd, hn]⟩

theorem process_line_in_node (d : Str) (hd : data_line d) (node : Node F)
    (hn : parse_node_line d = .ok node) (c : Ctx F) (hs : c.state = .IN_NODE) :
    process_line d c = (.ok (), { c with result.nodes := c.result.nodes ++ [node] }) := by
  have hcase : process_data d c = case_IN_NODE d c := by
    unfold process_data
    simp only [hs]
  rw [process_line_data d hd, hcase]
  unfold case_IN_NODE Run.try_catch Run.assign
  simp only [hn]

/-- The read loop over data lines in the node state: one node per line, in order,
and the state stays `IN_NODE`. -/
theorem read_loop_in_node (ds : List Str) (hds : ∀ d ∈ ds, data_line d) :
    ∀ (nodes : List (Node F)), ds.map parse_node_line = nodes.map Except.ok →
    ∀ (n : Nat) (c : Ctx F), c.state = .IN_NODE →
      read_loop ds n c
        = (.ok (n + ds.length), { c with result.nodes := c.result.nodes ++ nodes }) := by
  induction ds with
  | nil =>
    intro nodes hn n c _
    cases nodes with
    | nil => simp [read_loop]; rfl
    | cons x xs => simp at hn
  | cons d ds ih =>
    intro nodes hn n c hs
    cases nodes with
    | nil => simp at hn
    | cons node nodes =>
      simp only [List.map_cons, List.cons.injEq] at hn
      rw [read_loop_cons d ds n c { c with result.nodes := c.result.nodes ++ [node] }
        (process_line_in_node d (hds d (by simp)) node hn.1 c hs)]
      rw [ih (fun x hx => hds x (by simp [hx])) nodes hn.2 (n + 1)
        { c with result.nodes := c.result.nodes ++ [node] } hs]
      have e1 : n + 1 + ds.length = n + (d :: ds).length := by
        rw [List.length_cons]; omega
      have e2 : c.result.nodes ++ [node] ++ nodes = c.result.nodes ++ node :: nodes := by
        simp
      rw [e1]
      simp only [e2]

theorem process_line_node_keyword (c : Ctx F) (hp : c.self.parse_nodes_ = true) :
    process_line "*NODE".toList c = (.ok (), { c with state := .IN_NODE }) := by
  have : process_line "*NODE".toList c
      = (.ok (), { c with state := if c.self.parse_nodes_ then .IN_NODE else .IDLE }) := rfl
  rw [this, hp]
  rfl

/-- C1. For `*NODE` followed by data lines `ds` (each non-blank and not beginning
with `*` or `$`) with node parsing enabled: every data line decodes to a node; after
the keyword and the first `k` data lines, for every `k`, the handler is in the node
state and the nodes collected so far are those of the first `k` lines appended, in
source order, to what was there; and `parse_string` on the text made of these lines
returns a result whose `nodes` are exactly the decoded nodes of `ds`. -/
theorem node_block_one_node_per_line (ds : List Str) (hds : ∀ d ∈ ds, data_line d) :
    ∃ nodes : List (Node F),
      ds.map parse_node_line = nodes.map Except.ok
      ∧ (∀ (c : Ctx F), c.self.parse_nodes_ = true → ∀ k, k ≤ ds.length →
          (ctx_after ("*NODE".toList :: ds.take k) c).state = .IN_NODE
          ∧ (ctx_after ("*NODE".toList :: ds.take k) c).result.nodes
              = c.result.nodes ++ nodes.take k)
      ∧ (∀ p : KFileParser F, p.parse_nodes_ = true → (∀ d ∈ ds, '\n' ∉ d) →
          ∃ r, (parse_string (unlines ("*NODE".toList :: ds)) p).1 = .ok r
            ∧ r.nodes = nodes) := by
  obtain ⟨nodes, hn⟩ := node_lines_decode (F := F) ds
  refine ⟨nodes, hn, ?_, ?_⟩
  · intro c hp k _
    unfold ctx_after
    rw [read_loop_cons _ _ 0 c _ (process_line_node_keyword c hp)]
    rw [read_loop_in_node (ds.take k) (fun d hd => hds d (List.mem_of_mem_take hd))
      (nodes.take k) (by simpa only [List.map_take] using congrArg (List.take k) hn) 1 _ rfl]
    exact ⟨rfl, rfl⟩
  · intro p hp hnl
    have hlines : getlines (unlines ("*NODE".toList :: ds)) = "*NODE".toList :: ds := by
      apply getlines_unlines
      intro l hl
      rw [List.mem_cons] at hl
      rcases hl with rfl | hl
      · decide
      · exact hnl l hl
    unfold parse_string
    rw [parse_body_eq, hlines]
    rw [read_loop_cons _ _ 0 _ _ (process_line_node_keyword _ hp)]
    rw [read_loop_in_node ds hds nodes hn 1 _ rfl]
    refine ⟨_, rfl, ?_⟩
    rw [(finish_parse_self_flags _ _).1]
    rfl

/-- Witness for C1: two node cards. -/
theorem node_block_one_node_per_line_witness :
    ∃ nodes : List (Node SymDouble),
      ["       1     1.0".toList, "       2     2.5".toList].map parse_node_line
        = nodes.map Except.ok
      ∧ ∃ r, (parse_string (unlines
            ("*NODE".toList :: ["       1     1.0".toList, "       2     2.5".toList]))
            (KFileParser.init 0 : KFileParser SymDouble)).1 = .ok r
          ∧ r.nodes = nodes := by
  obtain ⟨nodes, h1, _, h3⟩ := node_block_one_node_per_line (F := SymDouble)
    ["       1     1.0".toList, "       2     2.5".toList] (by decide)
  exact ⟨nodes, h1, h3 (KFileParser.init 0) rfl (by decide)⟩

end NodeBlock

/-! ## The part block -/

section PartBlock

variable {F : Type} [DoubleModel F]

theorem trim_length_le (s : Str) : (trim s).length ≤ s.length := by
  rw [trim_eq_dropWhile]
  have h1 : ((s.dropWhile isspace).rdropWhile isspace).length ≤ (s.dropWhile isspace).length :=
    ( List.rdropWhile_prefix isspace _).length_le
  have h2 : (s.dropWhile isspace).length ≤ s.length :=
    (List.dropWhile_suffix isspace).length_le
  omega

theorem trim_idem (s : Str) : trim (trim s) = trim s := by
  rw [trim_eq_dropWhile (trim s), trim_eq_dropWhile s]
  generalize hz : s.dropWhile isspace = z
  have hd : (z.rdropWhile isspace).dropWhile isspace = z.rdropWhile isspace := by
    apply dropWhile_of_head_not
    intro hne
    obtain ⟨t, ht⟩ := List.rdropWhile_prefix isspace z
    have hzne : z ≠ [] := by
      intro h
      rw [h] at hne
      simp [List.rdropWhile] at hne
    have hhead : (z.rdropWhile isspace).head hne = z.head hzne := by
      have : z.head hzne = (z.rdropWhile isspace ++ t).head (by simp [hne]) := by
        congr 1
        exact ht.symm
      rw [this, List.head_append_of_ne_nil]
    rw [hhead]
    have := List.head_dropWhile_not isspace s (by rw [hz]; exact hzne)
    simpa [hz] using this
  rw [hd, List.rdropWhile_idempotent]

theorem parse_part_lines_eq (name_line d2 : Str) :
    parse_part_lines name_line d2 = .ok
      { name := trim (name_line.take 80)
        pid := int_of_field (column_text d2 0 10)
        secid := int_of_field (column_text d2 10 10)
        mid := int_of_field (column_text d2 20 10)
        eosid := int_of_field (column_text d2 30 10)
        hgid := int_of_field (column_text d2 40 10)
        grav := int_of_field (column_text d2 50 10)
        adpopt := int_of_field (column_text d2 60 10)
        tmid := int_of_field (column_text d2 70 10) } := by
  have hv : ∀ start, int_of_field (column_text d2 start 10)
      = if d2.length > start then int_of_field (column_text d2 start 10) else 0 := by
    intro start
    split
    · rfl
    · rw [column_text_past_end d2 start 10 (by omega)]
      rfl
  have hname : substr name_line 0 (min 80 name_line.length) = .ok (name_line.take 80) := by
    rw [substr_of_le _ _ _ (Nat.zero_le _), List.drop_zero]
    have := take_min_drop name_line 0 80
    simp only [List.drop_zero, Nat.sub_zero] at this
    rw [this]
  unfold parse_part_lines
  simp only [parse_int_eq, hname]
  rw [hv 30, hv 40, hv 50, hv 60, hv 70]
  by_cases h3 : d2.length > 30 <;> by_cases h4 : d2.length > 40 <;>
  by_cases h5 : d2.length > 50 <;> by_cases h6 : d2.length > 60 <;>
  by_cases h7 : d2.length > 70 <;>
  simp only [h3, h4, h5, h6, h7, if_true, if_false] <;> rfl

theorem process_line_part_keyword (c : Ctx F) (hp : c.self.parse_parts_ = true) :
    process_line "*PART".toList c
      = (.ok (), { c with state := .IN_PART_NAME, part_name := [] }) := by
  have : process_line "*PART".toList c
      = (.ok (), { c with state := if c.self.parse_parts_ then .IN_PART_NAME else .IDLE,
                          part_name := [] }) := rfl
  rw [this, hp]
  rfl

theorem process_line_part_name (d1 : Str) (h1 : data_line d1) (c : Ctx F)
    (hs : c.state = .IN_PART_NAME) :
    process_line d1 c
      = (.ok (), { c with part_name := trim (d1.take 80), state := .IN_PART_DATA }) := by
  have hcase : process_data d1 c = case_IN_PART_NAME d1 c := by
    unfold process_data
    simp only [hs]
  rw [process_line_data d1 h1, hcase]
  unfold case_IN_PART_NAME
  rw [Run.bind_apply]
  unfold Run.assign
  simp only [parse_string_field_eq]
  rfl

theorem process_line_part_data (d2 : Str) (h2 : data_line d2) (c : Ctx F)
    (hs : c.state = .IN_PART_DATA) (part : Part)
    (hpart : parse_part_lines c.part_name d2 = .ok part) :
    process_line d2 c
      = (.ok (), { c with result.parts := c.result.parts ++ [part], state := .IDLE }) := by
  have hcase : process_data d2 c = case_IN_PART_DATA d2 c := by
    unfold process_data
    simp only [hs]
  rw [process_line_data d2 h2, hcase]
  unfold case_IN_PART_DATA
  rw [Run.bind_apply]
  unfold Run.try_catch
  rw [Run.bind_apply]
  unfold Run.read Run.assign
  simp only [hpart]
  rfl

theorem read_loop_idle (ds : List Str) (hds : ∀ d ∈ ds, data_line d) :
    ∀ (n : Nat) (c : Ctx F), c.state = .IDLE → read_loop ds n c = (.ok (n + ds.length), c) := by
  induction ds with
  | nil => intro n c _; rfl
  | cons d ds ih =>
    intro n c hs
    have hstep : process_line d c = (.ok (), c) := by
      rw [process_line_data d (hds d (by simp))]
      unfold process_data
      simp only [hs]
    rw [read_loop_cons d ds n c c hstep, ih (fun x hx => hds x (by simp [hx])) (n + 1) c hs]
    rw [List.length_cons]
    congr 2
    omega

/-- The read loop over a part block from any context in which part parsing is
enabled: exactly one part is appended and the handler ends idle. -/
theorem read_loop_part_block (d1 d2 : Str) (ds : List Str) (h1 : data_line d1)
    (h2 : data_line d2) (hds : ∀ d ∈ ds, data_line d) (c : Ctx F)
    (hp : c.self.parse_parts_ = true) (n : Nat) :
    read_loop ("*PART".toList :: d1 :: d2 :: ds) n c
      = (.ok (n + 1 + 1 + 1 + ds.length),
          { c with
            part_name := trim (d1.take 80)
            state := .IDLE
            result.parts := c.result.parts ++
              [{ name := trim (d1.take 80)
                 pid := int_of_field (column_text d2 0 10)
                 secid := int_of_field (column_text d2 10 10)
                 mid := int_of_field (column_text d2 20 10)
                 eosid := int_of_field (column_text d2 30 10)
                 hgid := int_of_field (column_text d2 40 10)
                 grav := int_of_field (column_text d2 50 10)
                 adpopt := int_of_field (column_text d2 60 10)
                 tmid := int_of_field (column_text d2 70 10) }] }) := by
  have hname : trim ((trim (d1.take 80)).take 80) = trim (d1.take 80) := by
    have hl : (trim (d1.take 80)).length ≤ 80 :=
      le_trans (trim_length_le _) (by simp)
    rw [List.take_of_length_le hl, trim_idem]
  rw [read_loop_cons _ _ n c _ (process_line_part_keyword c hp)]
  rw [read_loop_cons _ _ (n + 1) _ _ (process_line_part_name d1 h1 _ rfl)]
  rw [read_loop_cons _ _ (n + 1 + 1) _ _
    (process_line_part_data d2 h2 _ rfl _ (parse_part_lines_eq _ d2))]
  rw [read_loop_idle ds hds _ _ rfl]
  simp only [hname]

/-- C7. For `*PART` followed by data lines `d1`, `d2` and any further data lines
`rest` (each non-blank and not beginning with `*` or `$`) with part parsing enabled:
the block yields exactly one Part, whose name is the first 80 characters of `d1`
trimmed and whose `pid, secid, mid, eosid, hgid, grav, adpopt, tmid` are the eight
10-wide integer columns of `d2`; after `d2` and after every further data line the
handler is idle and no other part has been added; and `parse_string` on the text made
of these lines returns a result whose `parts` hold exactly that Part. -/
theorem part_block_one_part (d1 d2 : Str) (rest : List Str) (h1 : data_line d1)
    (h2 : data_line d2) (hrest : ∀ d ∈ rest, data_line d) :
    ∃ pid secid mid eosid hgid grav adpopt tmid : Int,
      parse_int d2 0 10 = .ok pid ∧ parse_int d2 10 10 = .ok secid
      ∧ parse_int d2 20 10 = .ok mid ∧ parse_int d2 30 10 = .ok eosid
      ∧ parse_int d2 40 10 = .ok hgid ∧ parse_int d2 50 10 = .ok grav
      ∧ parse_int d2 60 10 = .ok adpopt ∧ parse_int d2 70 10 = .ok tmid
      ∧ (∀ (c : Ctx F), c.self.parse_parts_ = true → ∀ k, k ≤ rest.length →
          (ctx_after ("*PART".toList :: d1 :: d2 :: rest.take k) c).state = .IDLE
          ∧ (ctx_after ("*PART".toList :: d1 :: d2 :: rest.take k) c).result.parts
              = c.result.parts ++
                [{ name := trim (d1.take 80), pid := pid, secid := secid, mid := mid,
                   eosid := eosid, hgid := hgid, grav := grav, adpopt := adpopt,
                   tmid := tmid }])
      ∧ (∀ p : KFileParser F, p.parse_parts_ = true →
          (∀ d ∈ d1 :: d2 :: rest, '\n' ∉ d) →
          ∃ r, (parse_string (unlines ("*PART".toList :: d1 :: d2 :: rest)) p).1 = .ok r
            ∧ r.parts =
                [{ name := trim (d1.take 80), pid := pid, secid := secid, mid := mid,
                   eosid := eosid, hgid := hgid, grav := grav, adpopt := adpopt,
                   tmid := tmid }]) := by
  refine ⟨_, _, _, _, _, _, _, _, parse_int_eq d2 0 10, parse_int_eq d2 10 10,
    parse_int_eq d2 20 10, parse_int_eq d2 30 10, parse_int_eq d2 40 10,
    parse_int_eq d2 50 10, parse_int_eq d2 60 10, parse_int_eq d2 70 10, ?_, ?_⟩
  · intro c hp k _
    unfold ctx_after
    rw [read_loop_part_block d1 d2 (rest.take k) h1 h2
      (fun d hd => hrest d (List.mem_of_mem_take hd)) c hp 0]
    exact ⟨rfl, rfl⟩
  · intro p hp hnl
    have hlines : getlines (unlines ("*PART".toList :: d1 :: d2 :: rest))
        = "*PART".toList :: d1 :: d2 :: rest := by
      apply getlines_unlines
      intro l hl
      rw [List.mem_cons] at hl
      rcases hl with rfl | hl
      · decide
      · exact hnl l hl
    unfold parse_string
    rw [parse_body_eq, hlines]
    rw [read_loop_part_block d1 d2 rest h1 h2 hrest _ hp 0]
    refine ⟨_, rfl, ?_⟩
    rw [(finish_parse_self_flags _ _).2.1]
    rfl

/-- Witness for C7: the part block of scenario S2 followed by one more data line. -/
theorem part_block_one_part_witness :
    ∃ r, (parse_string (unlines ["*PART".toList, "Roof panel".toList,
            "         7         2         3         0         0         0         0         0".toList,
            "        99".toList])
          (KFileParser.init 0 : KFileParser SymDouble)).1 = .ok r
      ∧ r.parts = [{ name := "Roof panel".toList, pid := 7, secid := 2, mid := 3, eosid := 0,
                     hgid := 0, grav := 0, adpopt := 0, tmid := 0 }] := by
  obtain ⟨pid, secid, mid, eosid, hgid, grav, adpopt, tmid, e1, e2, e3, e4, e5, e6, e7, e8,
      _, h⟩ :=
    part_block_one_part (F := SymDouble) "Roof panel".toList
      "         7         2         3         0         0         0         0         0".toList
      ["        99".toList] (by decide) (by decide) (by decide)
  obtain ⟨r, hr, hparts⟩ := h (KFileParser.init 0) rfl (by decide)
  refine ⟨r, hr, ?_⟩
  rw [hparts]
  have v1 : pid = 7 := by
    have : (Except.ok pid : Except Exn Int) = .ok 7 := e1.symm.trans (by decide)
    exact Except.ok.inj this
  have v2 : secid = 2 := by
    have : (Except.ok secid : Except Exn Int) = .ok 2 := e2.symm.trans (by decide)
    exact Except.ok.inj this
  have v3 : mid = 3 := by
    have : (Except.ok mid : Except Exn Int) = .ok 3 := e3.symm.trans (by decide)
    exact Except.ok.inj this
  have v4 : eosid = 0 := by
    have : (Except.ok eosid : Except Exn Int) = .ok 0 := e4.symm.trans (by decide)
    exact Except.ok.inj this
  have v5 : hgid = 0 := by
    have : (Except.ok hgid : Except Exn Int) = .ok 0 := e5.symm.trans (by decide)
    exact Except.ok.inj this
  have v6 : grav = 0 := by
    have : (Except.ok grav : Except Exn Int) = .ok 0 := e6.symm.trans (by decide)
    exact Except.ok.inj this
  have v7 : adpopt = 0 := by
    have : (Except.ok adpopt : Except Exn Int) = .ok 0 := e7.symm.trans (by decide)
    exact Except.ok.inj this
  have v8 : tmid = 0 := by
    have : (Except.ok tmid : Except Exn Int) = .ok 0 := e8.symm.trans (by decide)
    exact Except.ok.inj this
  rw [v1, v2, v3, v4, v5, v6, v7, v8]
  decide

end PartBlock

/-! ## `parse_set_data_line` -/

section SetData

variable {F : Type}

theorem add_id_ids (s : Set F) (id : Int) :
    s.add_id id = { s with ids := s.ids ++ [id].filter (fun v => decide (v > 0)) } := by
  unfold Set.add_id
  by_cases h : id > 0
  · simp [h]
  · simp [h]

theorem parse_set_data_loop_cons (line : Str) (i : Nat) (rest : List Nat) (s : Set F) :
    parse_set_data_loop line (i :: rest) s
      = parse_set_data_loop line rest (s.add_id (id_column line i)) := by
  rw [parse_set_data_loop]
  dsimp only
  by_cases h : i * 10 < line.length
  · simp only [h, if_true, Run.bind_apply, Run.eval, parse_int_eq, Run.update]
    rfl
  · have h0 : id_column line i = 0 := by
      unfold id_column
      rw [column_text_past_end line _ 10 (by omega)]
      rfl
    simp only [h, if_false, Run.bind_apply, h0]
    rfl

theorem parse_set_data_loop_eq (line : Str) (idx : List Nat) :
    ∀ s : Set F, parse_set_data_loop line idx s
      = (.ok (), { s with ids := s.ids
          ++ (idx.map (id_column line)).filter (fun v => decide (v > 0)) }) := by
  induction idx with
  | nil =>
    intro s
    simp [parse_set_data_loop]
    rfl
  | cons i rest ih =>
    intro s
    rw [parse_set_data_loop_cons, ih, add_id_ids]
    simp only [List.map_cons, List.append_assoc]
    congr 3
    by_cases h : id_column line i > 0
    · simp [List.filter_cons, h]
    · simp [List.filter_cons, h]

/-- The effect of `parse_set_data_line`: it never throws and appends the positive
columns, in column order, to `ids`, leaving the rest of the set alone. -/
theorem parse_set_data_line_eq (line : Str) (s : Set F) :
    parse_set_data_line line s
      = (.ok (), { s with ids := s.ids ++ (id_columns line).filter (fun v => decide (v > 0)) }) := by
  unfold parse_set_data_line id_columns
  exact parse_set_data_loop_eq line _ s

/-- C11, counterexample. A data line whose first column holds `-5` and whose second
holds `7`: the first column is non-zero, yet only `7` is appended. -/
theorem set_data_negative_id_counterexample :
    id_columns "        -5         7".toList = [-5, 7, 0, 0, 0, 0, 0, 0]
    ∧ (parse_set_data_line "        -5         7".toList (Set.init : Set SymDouble)).2.ids
        = [7] := by
  decide

/-- C11, amended. For every line and every Set `s`, `parse_set_data_line(line, s)`
returns without throwing, keeps the existing ids of `s` as a prefix and appends after
them, in column order, exactly the positive values among the eight 10-wide integer
columns of the line; columns that are zero, negative, blank or beyond the end of the
line add nothing, and no other member of the set changes. -/
theorem set_data_line_appends_positive_columns (line : Str) (s : Set F) :
    parse_set_data_line line s
      = (.ok (), { s with ids := s.ids ++ (id_columns line).filter (fun v => decide (v > 0)) }) := by
  unfold parse_set_data_line id_columns
  exact parse_set_data_loop_eq line _ s

end SetData

/-! ## Rules for `Total`, `Preserves`, `Frame` and `Ends` -/

namespace Run

variable {σ α β : Type}

theorem pure_apply (a : α) (s : σ) : (pure a : Run σ α) s = (.ok a, s) := rfl

theorem Total.total_pure (a : α) : Total (pure a : Run σ α) := fun _ => ⟨a, rfl⟩

theorem Total.total_update (f : σ → σ) : Total (Run.update f) := fun _ => ⟨(), rfl⟩

theorem Total.total_read : Total (Run.read : Run σ σ) := fun s => ⟨s, rfl⟩

theorem Total.total_eval {x : Except Exn α} (h : ∃ v, x = .ok v) : Total (Run.eval x : Run σ α) := by
  obtain ⟨v, rfl⟩ := h
  exact fun _ => ⟨v, rfl⟩

theorem Total.total_assign {x : Except Exn α} (store : α → σ → σ) (h : ∃ v, x = .ok v) :
    Total (Run.assign x store) := by
  obtain ⟨v, rfl⟩ := h
  exact fun _ => ⟨(), rfl⟩

theorem Total.total_bind {m : Run σ α} {f : α → Run σ β} (hm : Total m) (hf : ∀ a, Total (f a)) :
    Total (m >>= f) := by
  intro s
  obtain ⟨a, ha⟩ := hm s
  have e : (m >>= f) s = f a (m s).2 := by
    show Run.seq_bind m f s = _
    unfold Run.seq_bind
    cases hms : m s with
    | mk r s1 =>
      rw [hms] at ha
      simp only at ha
      subst ha
      rfl
  rw [e]
  exact hf a _

theorem Total.total_try_catch {body : Run σ α} {handler : Exn → Run σ α}
    (hh : ∀ e, Total (handler e)) : Total (Run.try_catch body handler) := by
  intro s
  unfold Run.try_catch
  cases hms : body s with
  | mk r s1 =>
    cases r with
    | ok a => exact ⟨a, rfl⟩
    | error e => exact hh e s1

theorem Total.total_ite {c : Prop} [Decidable c] {a b : Run σ α} (ha : Total a) (hb : Total b) :
    Total (if c then a else b) := by
  split
  · exact ha
  · exact hb

theorem Preserves.preserves_pure (I : σ → Prop) (a : α) : Preserves I (pure a : Run σ α) :=
  fun _ h => h

theorem Preserves.preserves_update {I : σ → Prop} {f : σ → σ} (h : ∀ s, I s → I (f s)) :
    Preserves I (Run.update f) := h

theorem Preserves.preserves_read (I : σ → Prop) : Preserves I (Run.read : Run σ σ) := fun _ h => h

theorem Preserves.preserves_eval (I : σ → Prop) (x : Except Exn α) : Preserves I (Run.eval x : Run σ α) :=
  fun _ h => h

theorem Preserves.preserves_assign {I : σ → Prop} {x : Except Exn α} {store : α → σ → σ}
    (h : ∀ v s, x = .ok v → I s → I (store v s)) : Preserves I (Run.assign x store) := by
  intro s hs
  unfold Run.assign
  cases x with
  | ok v => exact h v s rfl hs
  | error e => exact hs

theorem Preserves.preserves_bind {I : σ → Prop} {m : Run σ α} {f : α → Run σ β}
    (hm : Preserves I m) (hf : ∀ a, Preserves I (f a)) : Preserves I (m >>= f) := by
  intro s hs
  show I (Run.seq_bind m f s).2
  unfold Run.seq_bind
  have h1 := hm s hs
  cases hms : m s with
  | mk r s1 =>
    rw [hms] at h1
    cases r with
    | ok a => exact hf a s1 h1
    | error e => exact h1

theorem Preserves.preserves_try_catch {I : σ → Prop} {body : Run σ α} {handler : Exn → Run σ α}
    (hb : Preserves I body) (hh : ∀ e, Preserves I (handler e)) :
    Preserves I (Run.try_catch body handler) := by
  intro s hs
  unfold Run.try_catch
  have h1 := hb s hs
  cases hms : body s with
  | mk r s1 =>
    rw [hms] at h1
    cases r with
    | ok a => exact h1
    | error e => exact hh e s1 h1

theorem Preserves.preserves_ite {I : σ → Prop} {c : Prop} [Decidable c] {a b : Run σ α}
    (ha : Preserves I a) (hb : Preserves I b) : Preserves I (if c then a else b) := by
  split
  · exact ha
  · exact hb

end Run

section FrameRules

variable {F α β γ : Type} {π : Ctx F → γ} {S : ParseState → Prop}

theorem Frame.frame_pure (a : α) : Frame π S (pure a : Run (Ctx F) α) :=
  fun _ => ⟨rfl, Or.inl rfl⟩

theorem Frame.frame_read : Frame π S (Run.read : Run (Ctx F) (Ctx F)) :=
  fun _ => ⟨rfl, Or.inl rfl⟩

theorem Frame.frame_eval (x : Except Exn α) : Frame π S (Run.eval x : Run (Ctx F) α) :=
  fun _ => ⟨rfl, Or.inl rfl⟩

theorem Frame.frame_update {f : Ctx F → Ctx F}
    (h : ∀ c, π (f c) = π c ∧ ((f c).state = c.state ∨ S (f c).state)) :
    Frame π S (Run.update f) := h

theorem Frame.frame_assign {x : Except Exn α} {store : α → Ctx F → Ctx F}
    (h : ∀ v c, π (store v c) = π c ∧ ((store v c).state = c.state ∨ S (store v c).state)) :
    Frame π S (Run.assign x store) := by
  intro c
  unfold Run.assign
  cases x with
  | ok v => exact h v c
  | error e => exact ⟨rfl, Or.inl rfl⟩

theorem Frame.frame_bind {m : Run (Ctx F) α} {f : α → Run (Ctx F) β}
    (hm : Frame π S m) (hf : ∀ a, Frame π S (f a)) : Frame π S (m >>= f) := by
  intro c
  show π (Run.seq_bind m f c).2 = π c
    ∧ ((Run.seq_bind m f c).2.state = c.state ∨ S (Run.seq_bind m f c).2.state)
  unfold Run.seq_bind
  have h1 := hm c
  cases hms : m c with
  | mk r c1 =>
    rw [hms] at h1
    cases r with
    | ok a =>
      have h2 := hf a c1
      refine ⟨h2.1.trans h1.1, ?_⟩
      rcases h2.2 with e2 | e2
      · rcases h1.2 with e1 | e1
        · exact Or.inl (e2.trans e1)
        · exact Or.inr (by simp only [e2]; exact e1)
      · exact Or.inr e2
    | error e => exact h1

theorem Frame.frame_try_catch {body : Run (Ctx F) α} {handler : Exn → Run (Ctx F) α}
    (hb : Frame π S body) (hh : ∀ e, Frame π S (handler e)) :
    Frame π S (Run.try_catch body handler) := by
  intro c
  unfold Run.try_catch
  have h1 := hb c
  cases hms : body c with
  | mk r c1 =>
    rw [hms] at h1
    cases r with
    | ok a => exact h1
    | error e =>
      have h2 := hh e c1
      refine ⟨h2.1.trans h1.1, ?_⟩
      rcases h2.2 with e2 | e2
      · rcases h1.2 with e1 | e1
        · exact Or.inl (e2.trans e1)
        · exact Or.inr (by simp only [e2]; exact e1)
      · exact Or.inr e2

theorem Frame.frame_ite {c : Prop} [Decidable c] {a b : Run (Ctx F) α}
    (ha : Frame π S a) (hb : Frame π S b) : Frame π S (if c then a else b) := by
  split
  · exact ha
  · exact hb

theorem Frame.frame_set_state (st : ParseState)
    (h : ∀ c : Ctx F, π { c with state := st } = π c) (hS : S st) :
    Frame π S (set_state st : Run (Ctx F) Unit) :=
  fun c => ⟨h c, Or.inr hS⟩

theorem Frame.frame_when_enabled {flag : KFileParser F → Bool} {body : Run (Ctx F) Unit}
    (h : ∀ c : Ctx F, π { c with state := .IDLE } = π c) (hS : S .IDLE)
    (hb : Frame π S body) : Frame π S (when_enabled flag body) := by
  intro c
  unfold KFile.when_enabled
  split
  · exact hb c
  · exact ⟨h c, Or.inr hS⟩

theorem Ends.ends_bind {m : Run (Ctx F) α} {f : α → Run (Ctx F) β} (hf : ∀ a, Ends S (f a)) :
    Ends S (m >>= f) := by
  intro c b
  show (Run.seq_bind m f c).1 = .ok b → S (Run.seq_bind m f c).2.state
  unfold Run.seq_bind
  cases hms : m c with
  | mk r c1 =>
    cases r with
    | ok a => exact hf a c1 b
    | error e => intro h; cases h

theorem Ends.ends_ite {c : Prop} [Decidable c] {a b : Run (Ctx F) α}
    (ha : Ends S a) (hb : Ends S b) : Ends S (if c then a else b) := by
  split
  · exact ha
  · exact hb

theorem Ends.ends_set_state (st : ParseState) (hS : S st) :
    Ends S (set_state st : Run (Ctx F) Unit) :=
  fun _ _ _ => hS

theorem Ends.ends_when_enabled {flag : KFileParser F → Bool} {body : Run (Ctx F) Unit}
    (hS : S .IDLE) (hb : Ends S body) : Ends S (when_enabled flag body) := by
  intro c a
  unfold KFile.when_enabled
  split
  · exact hb c a
  · exact fun _ => hS

theorem Ends.ends_select_state (flag : KFileParser F → Bool) (st : ParseState)
    (hS : S .IDLE) (hst : S st) : Ends S (select_state flag st) := by
  intro c a _
  show S (if flag c.self then st else .IDLE)
  split
  · exact hst
  · exact hS

end FrameRules

/-! ## Frames of the keyword branches and of the data cases

Each branch of `process_line` leaves alone what the parser holds about the entities
it does not handle, and moves only to states of its own family or to neutral ones. -/

section Frames

variable {F : Type} [DoubleModel F]

set_option linter.unusedTactic false
set_option linter.unreachableTactic false
set_option linter.unusedVariables false
set_option linter.unusedSectionVars false

theorem Frame.frame_select_state {γ : Type} {π : Ctx F → γ} {S : ParseState → Prop}
    (flag : KFileParser F → Bool) (st : ParseState)
    (h : ∀ (c : Ctx F) (s : ParseState), π { c with state := s } = π c)
    (hS : S .IDLE) (hst : S st) : Frame π S (select_state flag st) := by
  intro c
  refine ⟨h c _, Or.inr ?_⟩
  show S (if flag c.self then st else .IDLE)
  split
  · exact hst
  · exact hS

theorem Frame.frame_update_if {γ : Type} {π : Ctx F → γ} {S : ParseState → Prop}
    {p : Ctx F → Prop} [DecidablePred p] {g : Ctx F → Ctx F}
    (h : ∀ c, π (g c) = π c ∧ ((g c).state = c.state ∨ S (g c).state)) :
    Frame π S (Run.update (fun c => if p c then g c else c)) := by
  intro c
  show π (if p c then g c else c) = π c
    ∧ ((if p c then g c else c).state = c.state ∨ S (if p c then g c else c).state)
  split
  · exact h c
  · exact ⟨rfl, Or.inl rfl⟩

theorem Frame.frame_set_state_ite {γ : Type} {π : Ctx F → γ} {S : ParseState → Prop}
    {p : Prop} [Decidable p] {a b : ParseState}
    (h : ∀ (c : Ctx F) (s : ParseState), π { c with state := s } = π c)
    (ha : S a) (hb : S b) : Frame π S (KFile.set_state (if p then a else b)) := by
  intro c
  refine ⟨h c _, Or.inr ?_⟩
  show S (if p then a else b)
  split
  · exact ha
  · exact hb

theorem Frame.frame_zoom {γ τ α : Type} {π : Ctx F → γ} {S : ParseState → Prop}
    {get : Ctx F → τ} {put : τ → Ctx F → Ctx F} {m : Run τ α}
    (h : ∀ t c, π (put t c) = π c ∧ ((put t c).state = c.state ∨ S (put t c).state)) :
    Frame π S (Run.zoom get put m) := by
  intro c
  exact h _ c

theorem Frame.frame_warn {γ : Type} {π : Ctx F → γ} {S : ParseState → Prop} (msg : String) (e : Exn)
    (h : ∀ (c : Ctx F) (w : List Str), π { c with result.warnings := w } = π c) :
    Frame π S (KFile.warn msg e) :=
  fun c => ⟨h c _, Or.inl rfl⟩

theorem Frame.frame_id_list_loop {γ : Type} {π : Ctx F → γ} {S : ParseState → Prop} (line : Str)
    {add : Int → Ctx F → Ctx F}
    (h : ∀ id c, π (add id c) = π c ∧ ((add id c).state = c.state ∨ S (add id c).state))
    (idx : List Nat) : Frame π S (id_list_loop line add idx) := by
  induction idx with
  | nil => exact Frame.frame_pure _
  | cons i rest ih =>
    unfold KFile.id_list_loop
    repeat' first
      | exact ih
      | exact Frame.frame_pure _
      | exact Frame.frame_eval _
      | exact Frame.frame_update (h _)
      | apply Frame.frame_bind
      | apply Frame.frame_ite
      | intro _

theorem begin_set_frame (u : Str) (type : SetType) (header : ParseState) (hh : header.within .set) :
    Frame (fun c : Ctx F => (material_view c, contact_view c, curve_view c))
      (ParseState.within .set) (begin_set u type header : Run (Ctx F) Unit) := by
  unfold KFile.begin_set
  repeat' first
    | ((with_reducible refine Frame.frame_assign ?_); exact fun _ _ => ⟨rfl, Or.inl rfl⟩)
    | ((with_reducible refine Frame.frame_update ?_); exact fun _ => ⟨rfl, Or.inl rfl⟩)
    | with_reducible refine Frame.frame_bind ?_ (fun _ => ?_)
    | ((with_reducible refine Frame.frame_set_state _ ?_ ?_); exact fun _ => rfl; decide)
    | with_reducible refine Frame.frame_try_catch ?_ (fun _ => ?_)
    | ((with_reducible refine Frame.frame_warn _ _ ?_); exact fun _ _ => rfl)
    | ((with_reducible refine Frame.frame_when_enabled ?_ ?_ ?_); exact fun _ => rfl; decide)
    | with_reducible exact Frame.frame_pure _
    | with_reducible exact Frame.frame_read
    | with_reducible exact Frame.frame_eval _
    | ((with_reducible refine Frame.frame_zoom ?_); exact fun _ _ => ⟨rfl, Or.inl rfl⟩)
    | ((with_reducible refine Frame.frame_id_list_loop (F := F) _ ?_ _); exact fun _ _ => ⟨rfl, Or.inl rfl⟩)
    | ((with_reducible refine Frame.frame_select_state _ _ ?_ ?_ ?_); exact fun _ _ => rfl; decide; decide)
    | ((with_reducible refine Frame.frame_set_state_ite ?_ ?_ ?_); exact fun _ _ => rfl; decide; decide)
    | ((with_reducible refine Frame.frame_update_if ?_); exact fun _ => ⟨rfl, Or.inl rfl⟩)
    | with_reducible apply Frame.frame_ite
    | unfold KFile.warn
    | unfold KFile.push_current_set
    | ((with_reducible refine Frame.frame_set_state _ ?_ ?_); exact fun _ => rfl; exact hh)
    | split

theorem begin_section_frame (u : Str) (type : SectionType) (title header : ParseState) (ht : title.within .other) (hh : header.within .other) :
    Frame (entity_view)
      (ParseState.within .other) (begin_section u type title header : Run (Ctx F) Unit) := by
  unfold KFile.begin_section
  repeat' first
    | ((with_reducible refine Frame.frame_assign ?_); exact fun _ _ => ⟨rfl, Or.inl rfl⟩)
    | ((with_reducible refine Frame.frame_update ?_); exact fun _ => ⟨rfl, Or.inl rfl⟩)
    | with_reducible refine Frame.frame_bind ?_ (fun _ => ?_)
    | ((with_reducible refine Frame.frame_set_state _ ?_ ?_); exact fun _ => rfl; decide)
    | with_reducible refine Frame.frame_try_catch ?_ (fun _ => ?_)
    | ((with_reducible refine Frame.frame_warn _ _ ?_); exact fun _ _ => rfl)
    | ((with_reducible refine Frame.frame_when_enabled ?_ ?_ ?_); exact fun _ => rfl; decide)
    | with_reducible exact Frame.frame_pure _
    | with_reducible exact Frame.frame_read
    | with_reducible exact Frame.frame_eval _
    | ((with_reducible refine Frame.frame_zoom ?_); exact fun _ _ => ⟨rfl, Or.inl rfl⟩)
    | ((with_reducible refine Frame.frame_id_list_loop (F := F) _ ?_ _); exact fun _ _ => ⟨rfl, Or.inl rfl⟩)
    | ((with_reducible refine Frame.frame_select_state _ _ ?_ ?_ ?_); exact fun _ _ => rfl; decide; decide)
    | ((with_reducible refine Frame.frame_set_state_ite ?_ ?_ ?_); exact fun _ _ => rfl; decide; decide)
    | ((with_reducible refine Frame.frame_update_if ?_); exact fun _ => ⟨rfl, Or.inl rfl⟩)
    | with_reducible apply Frame.frame_ite
    | unfold KFile.warn
    | ((with_reducible refine Frame.frame_set_state _ ?_ ?_); exact fun _ => rfl; exact hh)
    | ((with_reducible refine Frame.frame_set_state _ ?_ ?_); exact fun _ => rfl; exact ht)
    | split

theorem begin_contact_frame (u : Str) :
    Frame (entity_view)
      (ParseState.within .contact) (begin_contact u : Run (Ctx F) Unit) := by
  unfold KFile.begin_contact
  repeat' first
    | ((with_reducible refine Frame.frame_assign ?_); exact fun _ _ => ⟨rfl, Or.inl rfl⟩)
    | ((with_reducible refine Frame.frame_update ?_); exact fun _ => ⟨rfl, Or.inl rfl⟩)
    | with_reducible refine Frame.frame_bind ?_ (fun _ => ?_)
    | ((with_reducible refine Frame.frame_set_state _ ?_ ?_); exact fun _ => rfl; decide)
    | with_reducible refine Frame.frame_try_catch ?_ (fun _ => ?_)
    | ((with_reducible refine Frame.frame_warn _ _ ?_); exact fun _ _ => rfl)
    | ((with_reducible refine Frame.frame_when_enabled ?_ ?_ ?_); exact fun _ => rfl; decide)
    | with_reducible exact Frame.frame_pure _
    | with_reducible exact Frame.frame_read
    | with_reducible exact Frame.frame_eval _
    | ((with_reducible refine Frame.frame_zoom ?_); exact fun _ _ => ⟨rfl, Or.inl rfl⟩)
    | ((with_reducible refine Frame.frame_id_list_loop (F := F) _ ?_ _); exact fun _ _ => ⟨rfl, Or.inl rfl⟩)
    | ((with_reducible refine Frame.frame_select_state _ _ ?_ ?_ ?_); exact fun _ _ => rfl; decide; decide)
    | ((with_reducible refine Frame.frame_set_state_ite ?_ ?_ ?_); exact fun _ _ => rfl; decide; decide)
    | ((with_reducible refine Frame.frame_update_if ?_); exact fun _ => ⟨rfl, Or.inl rfl⟩)
    | with_reducible apply Frame.frame_ite
    | unfold KFile.warn
    | split

theorem begin_material_frame (u : Str) :
    Frame (fun c : Ctx F => (set_view c, contact_view c, curve_view c))
      (ParseState.within .material) (begin_material u : Run (Ctx F) Unit) := by
  unfold KFile.begin_material
  repeat' first
    | ((with_reducible refine Frame.frame_assign ?_); exact fun _ _ => ⟨rfl, Or.inl rfl⟩)
    | ((with_reducible refine Frame.frame_update ?_); exact fun _ => ⟨rfl, Or.inl rfl⟩)
    | with_reducible refine Frame.frame_bind ?_ (fun _ => ?_)
    | ((with_reducible refine Frame.frame_set_state _ ?_ ?_); exact fun _ => rfl; decide)
    | with_reducible refine Frame.frame_try_catch ?_ (fun _ => ?_)
    | ((with_reducible refine Frame.frame_warn _ _ ?_); exact fun _ _ => rfl)
    | ((with_reducible refine Frame.frame_when_enabled ?_ ?_ ?_); exact fun _ => rfl; decide)
    | with_reducible exact Frame.frame_pure _
    | with_reducible exact Frame.frame_read
    | with_reducible exact Frame.frame_eval _
    | ((with_reducible refine Frame.frame_zoom ?_); exact fun _ _ => ⟨rfl, Or.inl rfl⟩)
    | ((with_reducible refine Frame.frame_id_list_loop (F := F) _ ?_ _); exact fun _ _ => ⟨rfl, Or.inl rfl⟩)
    | ((with_reducible refine Frame.frame_select_state _ _ ?_ ?_ ?_); exact fun _ _ => rfl; decide; decide)
    | ((with_reducible refine Frame.frame_set_state_ite ?_ ?_ ?_); exact fun _ _ => rfl; decide; decide)
    | ((with_reducible refine Frame.frame_update_if ?_); exact fun _ => ⟨rfl, Or.inl rfl⟩)
    | with_reducible apply Frame.frame_ite
    | unfold KFile.warn
    | unfold KFile.push_current_material
    | split

theorem begin_curve_frame (u : Str) :
    Frame (fun c : Ctx F => (set_view c, material_view c, contact_view c))
      (ParseState.within .curve) (begin_curve u : Run (Ctx F) Unit) := by
  unfold KFile.begin_curve
  repeat' first
    | ((with_reducible refine Frame.frame_assign ?_); exact fun _ _ => ⟨rfl, Or.inl rfl⟩)
    | ((with_reducible refine Frame.frame_update ?_); exact fun _ => ⟨rfl, Or.inl rfl⟩)
    | with_reducible refine Frame.frame_bind ?_ (fun _ => ?_)
    | ((with_reducible refine Frame.frame_set_state _ ?_ ?_); exact fun _ => rfl; decide)
    | with_reducible refine Frame.frame_try_catch ?_ (fun _ => ?_)
    | ((with_reducible refine Frame.frame_warn _ _ ?_); exact fun _ _ => rfl)
    | ((with_reducible refine Frame.frame_when_enabled ?_ ?_ ?_); exact fun _ => rfl; decide)
    | with_reducible exact Frame.frame_pure _
    | with_reducible exact Frame.frame_read
    | with_reducible exact Frame.frame_eval _
    | ((with_reducible refine Frame.frame_zoom ?_); exact fun _ _ => ⟨rfl, Or.inl rfl⟩)
    | ((with_reducible refine Frame.frame_id_list_loop (F := F) _ ?_ _); exact fun _ _ => ⟨rfl, Or.inl rfl⟩)
    | ((with_reducible refine Frame.frame_select_state _ _ ?_ ?_ ?_); exact fun _ _ => rfl; decide; decide)
    | ((with_reducible refine Frame.frame_set_state_ite ?_ ?_ ?_); exact fun _ _ => rfl; decide; decide)
    | ((with_reducible refine Frame.frame_update_if ?_); exact fun _ => ⟨rfl, Or.inl rfl⟩)
    | with_reducible apply Frame.frame_ite
    | unfold KFile.warn
    | unfold KFile.push_current_curve
    | split

theorem begin_boundary_spc_frame (u : Str) :
    Frame (entity_view)
      (ParseState.within .other) (begin_boundary_spc u : Run (Ctx F) Unit) := by
  unfold KFile.begin_boundary_spc
  repeat' first
    | ((with_reducible refine Frame.frame_assign ?_); exact fun _ _ => ⟨rfl, Or.inl rfl⟩)
    | ((with_reducible refine Frame.frame_update ?_); exact fun _ => ⟨rfl, Or.inl rfl⟩)
    | with_reducible refine Frame.frame_bind ?_ (fun _ => ?_)
    | ((with_reducible refine Frame.frame_set_state _ ?_ ?_); exact fun _ => rfl; decide)
    | with_reducible refine Frame.frame_try_catch ?_ (fun _ => ?_)
    | ((with_reducible refine Frame.frame_warn _ _ ?_); exact fun _ _ => rfl)
    | ((with_reducible refine Frame.frame_when_enabled ?_ ?_ ?_); exact fun _ => rfl; decide)
    | with_reducible exact Frame.frame_pure _
    | with_reducible exact Frame.frame_read
    | with_reducible exact Frame.frame_eval _
    | ((with_reducible refine Frame.frame_zoom ?_); exact fun _ _ => ⟨rfl, Or.inl rfl⟩)
    | ((with_reducible refine Frame.frame_id_list_loop (F := F) _ ?_ _); exact fun _ _ => ⟨rfl, Or.inl rfl⟩)
    | ((with_reducible refine Frame.frame_select_state _ _ ?_ ?_ ?_); exact fun _ _ => rfl; decide; decide)
    | ((with_reducible refine Frame.frame_set_state_ite ?_ ?_ ?_); exact fun _ _ => rfl; decide; decide)
    | ((with_reducible refine Frame.frame_update_if ?_); exact fun _ => ⟨rfl, Or.inl rfl⟩)
    | with_reducible apply Frame.frame_ite
    | unfold KFile.warn
    | split

theorem begin_boundary_motion_frame (u : Str) :
    Frame (entity_view)
      (ParseState.within .other) (begin_boundary_motion u : Run (Ctx F) Unit) := by
  unfold KFile.begin_boundary_motion
  repeat' first
    | ((with_reducible refine Frame.frame_assign ?_); exact fun _ _ => ⟨rfl, Or.inl rfl⟩)
    | ((with_reducible refine Frame.frame_update ?_); exact fun _ => ⟨rfl, Or.inl rfl⟩)
    | with_reducible refine Frame.frame_bind ?_ (fun _ => ?_)
    | ((with_reducible refine Frame.frame_set_state _ ?_ ?_); exact fun _ => rfl; decide)
    | with_reducible refine Frame.frame_try_catch ?_ (fun _ => ?_)
    | ((with_reducible refine Frame.frame_warn _ _ ?_); exact fun _ _ => rfl)
    | ((with_reducible refine Frame.frame_when_enabled ?_ ?_ ?_); exact fun _ => rfl; decide)
    | with_reducible exact Frame.frame_pure _
    | with_reducible exact Frame.frame_read
    | with_reducible exact Frame.frame_eval _
    | ((with_reducible refine Frame.frame_zoom ?_); exact fun _ _ => ⟨rfl, Or.inl rfl⟩)
    | ((with_reducible refine Frame.frame_id_list_loop (F := F) _ ?_ _); exact fun _ _ => ⟨rfl, Or.inl rfl⟩)
    | ((with_reducible refine Frame.frame_select_state _ _ ?_ ?_ ?_); exact fun _ _ => rfl; decide; decide)
    | ((with_reducible refine Frame.frame_set_state_ite ?_ ?_ ?_); exact fun _ _ => rfl; decide; decide)
    | ((with_reducible refine Frame.frame_update_if ?_); exact fun _ => ⟨rfl, Or.inl rfl⟩)
    | with_reducible apply Frame.frame_ite
    | unfold KFile.warn
    | split

theorem begin_load_node_frame (u : Str) :
    Frame (entity_view)
      (ParseState.within .other) (begin_load_node u : Run (Ctx F) Unit) := by
  unfold KFile.begin_load_node
  repeat' first
    | ((with_reducible refine Frame.frame_assign ?_); exact fun _ _ => ⟨rfl, Or.inl rfl⟩)
    | ((with_reducible refine Frame.frame_update ?_); exact fun _ => ⟨rfl, Or.inl rfl⟩)
    | with_reducible refine Frame.frame_bind ?_ (fun _ => ?_)
    | ((with_reducible refine Frame.frame_set_state _ ?_ ?_); exact fun _ => rfl; decide)
    | with_reducible refine Frame.frame_try_catch ?_ (fun _ => ?_)
    | ((with_reducible refine Frame.frame_warn _ _ ?_); exact fun _ _ => rfl)
    | ((with_reducible refine Frame.frame_when_enabled ?_ ?_ ?_); exact fun _ => rfl; decide)
    | with_reducible exact Frame.frame_pure _
    | with_reducible exact Frame.frame_read
    | with_reducible exact Frame.frame_eval _
    | ((with_reducible refine Frame.frame_zoom ?_); exact fun _ _ => ⟨rfl, Or.inl rfl⟩)
    | ((with_reducible refine Frame.frame_id_list_loop (F := F) _ ?_ _); exact fun _ _ => ⟨rfl, Or.inl rfl⟩)
    | ((with_reducible refine Frame.frame_select_state _ _ ?_ ?_ ?_); exact fun _ _ => rfl; decide; decide)
    | ((with_reducible refine Frame.frame_set_state_ite ?_ ?_ ?_); exact fun _ _ => rfl; decide; decide)
    | ((with_reducible refine Frame.frame_update_if ?_); exact fun _ => ⟨rfl, Or.inl rfl⟩)
    | with_reducible apply Frame.frame_ite
    | unfold KFile.warn
    | split

theorem begin_load_body_frame (u : Str) :
    Frame (entity_view)
      (ParseState.within .other) (begin_load_body u : Run (Ctx F) Unit) := by
  unfold KFile.begin_load_body
  repeat' first
    | ((with_reducible refine Frame.frame_assign ?_); exact fun _ _ => ⟨rfl, Or.inl rfl⟩)
    | ((with_reducible refine Frame.frame_update ?_); exact fun _ => ⟨rfl, Or.inl rfl⟩)
    | with_reducible refine Frame.frame_bind ?_ (fun _ => ?_)
    | ((with_reducible refine Frame.frame_set_state _ ?_ ?_); exact fun _ => rfl; decide)
    | with_reducible refine Frame.frame_try_catch ?_ (fun _ => ?_)
    | ((with_reducible refine Frame.frame_warn _ _ ?_); exact fun _ _ => rfl)
    | ((with_reducible refine Frame.frame_when_enabled ?_ ?_ ?_); exact fun _ => rfl; decide)
    | with_reducible exact Frame.frame_pure _
    | with_reducible exact Frame.frame_read
    | with_reducible exact Frame.frame_eval _
    | ((with_reducible refine Frame.frame_zoom ?_); exact fun _ _ => ⟨rfl, Or.inl rfl⟩)
    | ((with_reducible refine Frame.frame_id_list_loop (F := F) _ ?_ _); exact fun _ _ => ⟨rfl, Or.inl rfl⟩)
    | ((with_reducible refine Frame.frame_select_state _ _ ?_ ?_ ?_); exact fun _ _ => rfl; decide; decide)
    | ((with_reducible refine Frame.frame_set_state_ite ?_ ?_ ?_); exact fun _ _ => rfl; decide; decide)
    | ((with_reducible refine Frame.frame_update_if ?_); exact fun _ => ⟨rfl, Or.inl rfl⟩)
    | with_reducible apply Frame.frame_ite
    | unfold KFile.warn
    | split

theorem begin_database_binary_frame (t : DatabaseType) :
    Frame (entity_view)
      (ParseState.within .other) (begin_database_binary t : Run (Ctx F) Unit) := by
  unfold KFile.begin_database_binary
  repeat' first
    | ((with_reducible refine Frame.frame_assign ?_); exact fun _ _ => ⟨rfl, Or.inl rfl⟩)
    | ((with_reducible refine Frame.frame_update ?_); exact fun _ => ⟨rfl, Or.inl rfl⟩)
    | with_reducible refine Frame.frame_bind ?_ (fun _ => ?_)
    | ((with_reducible refine Frame.frame_set_state _ ?_ ?_); exact fun _ => rfl; decide)
    | with_reducible refine Frame.frame_try_catch ?_ (fun _ => ?_)
    | ((with_reducible refine Frame.frame_warn _ _ ?_); exact fun _ _ => rfl)
    | ((with_reducible refine Frame.frame_when_enabled ?_ ?_ ?_); exact fun _ => rfl; decide)
    | with_reducible exact Frame.frame_pure _
    | with_reducible exact Frame.frame_read
    | with_reducible exact Frame.frame_eval _
    | ((with_reducible refine Frame.frame_zoom ?_); exact fun _ _ => ⟨rfl, Or.inl rfl⟩)
    | ((with_reducible refine Frame.frame_id_list_loop (F := F) _ ?_ _); exact fun _ _ => ⟨rfl, Or.inl rfl⟩)
    | ((with_reducible refine Frame.frame_select_state _ _ ?_ ?_ ?_); exact fun _ _ => rfl; decide; decide)
    | ((with_reducible refine Frame.frame_set_state_ite ?_ ?_ ?_); exact fun _ _ => rfl; decide; decide)
    | ((with_reducible refine Frame.frame_update_if ?_); exact fun _ => ⟨rfl, Or.inl rfl⟩)
    | with_reducible apply Frame.frame_ite
    | unfold KFile.warn
    | split

theorem begin_database_ascii_frame (t : DatabaseType) :
    Frame (entity_view)
      (ParseState.within .other) (begin_database_ascii t : Run (Ctx F) Unit) := by
  unfold KFile.begin_database_ascii
  repeat' first
    | ((with_reducible refine Frame.frame_assign ?_); exact fun _ _ => ⟨rfl, Or.inl rfl⟩)
    | ((with_reducible refine Frame.frame_update ?_); exact fun _ => ⟨rfl, Or.inl rfl⟩)
    | with_reducible refine Frame.frame_bind ?_ (fun _ => ?_)
    | ((with_reducible refine Frame.frame_set_state _ ?_ ?_); exact fun _ => rfl; decide)
    | with_reducible refine Frame.frame_try_catch ?_ (fun _ => ?_)
    | ((with_reducible refine Frame.frame_warn _ _ ?_); exact fun _ _ => rfl)
    | ((with_reducible refine Frame.frame_when_enabled ?_ ?_ ?_); exact fun _ => rfl; decide)
    | with_reducible exact Frame.frame_pure _
    | with_reducible exact Frame.frame_read
    | with_reducible exact Frame.frame_eval _
    | ((with_reducible refine Frame.frame_zoom ?_); exact fun _ _ => ⟨rfl, Or.inl rfl⟩)
    | ((with_reducible refine Frame.frame_id_list_loop (F := F) _ ?_ _); exact fun _ _ => ⟨rfl, Or.inl rfl⟩)
    | ((with_reducible refine Frame.frame_select_state _ _ ?_ ?_ ?_); exact fun _ _ => rfl; decide; decide)
    | ((with_reducible refine Frame.frame_set_state_ite ?_ ?_ ?_); exact fun _ _ => rfl; decide; decide)
    | ((with_reducible refine Frame.frame_update_if ?_); exact fun _ => ⟨rfl, Or.inl rfl⟩)
    | with_reducible apply Frame.frame_ite
    | unfold KFile.warn
    | split

theorem begin_database_history_node_frame :
    Frame (entity_view)
      (ParseState.within .other) (begin_database_history_node : Run (Ctx F) Unit) := by
  unfold KFile.begin_database_history_node
  repeat' first
    | ((with_reducible refine Frame.frame_assign ?_); exact fun _ _ => ⟨rfl, Or.inl rfl⟩)
    | ((with_reducible refine Frame.frame_update ?_); exact fun _ => ⟨rfl, Or.inl rfl⟩)
    | with_reducible refine Frame.frame_bind ?_ (fun _ => ?_)
    | ((with_reducible refine Frame.frame_set_state _ ?_ ?_); exact fun _ => rfl; decide)
    | with_reducible refine Frame.frame_try_catch ?_ (fun _ => ?_)
    | ((with_reducible refine Frame.frame_warn _ _ ?_); exact fun _ _ => rfl)
    | ((with_reducible refine Frame.frame_when_enabled ?_ ?_ ?_); exact fun _ => rfl; decide)
    | with_reducible exact Frame.frame_pure _
    | with_reducible exact Frame.frame_read
    | with_reducible exact Frame.frame_eval _
    | ((with_reducible refine Frame.frame_zoom ?_); exact fun _ _ => ⟨rfl, Or.inl rfl⟩)
    | ((with_reducible refine Frame.frame_id_list_loop (F := F) _ ?_ _); exact fun _ _ => ⟨rfl, Or.inl rfl⟩)
    | ((with_reducible refine Frame.frame_select_state _ _ ?_ ?_ ?_); exact fun _ _ => rfl; decide; decide)
    | ((with_reducible refine Frame.frame_set_state_ite ?_ ?_ ?_); exact fun _ _ => rfl; decide; decide)
    | ((with_reducible refine Frame.frame_update_if ?_); exact fun _ => ⟨rfl, Or.inl rfl⟩)
    | with_reducible apply Frame.frame_ite
    | unfold KFile.warn
    | split

theorem begin_database_history_element_frame (t : Int) :
    Frame (entity_view)
      (ParseState.within .other) (begin_database_history_element t : Run (Ctx F) Unit) := by
  unfold KFile.begin_database_history_element
  repeat' first
    | ((with_reducible refine Frame.frame_assign ?_); exact fun _ _ => ⟨rfl, Or.inl rfl⟩)
    | ((with_reducible refine Frame.frame_update ?_); exact fun _ => ⟨rfl, Or.inl rfl⟩)
    | with_reducible refine Frame.frame_bind ?_ (fun _ => ?_)
    | ((with_reducible refine Frame.frame_set_state _ ?_ ?_); exact fun _ => rfl; decide)
    | with_reducible refine Frame.frame_try_catch ?_ (fun _ => ?_)
    | ((with_reducible refine Frame.frame_warn _ _ ?_); exact fun _ _ => rfl)
    | ((with_reducible refine Frame.frame_when_enabled ?_ ?_ ?_); exact fun _ => rfl; decide)
    | with_reducible exact Frame.frame_pure _
    | with_reducible exact Frame.frame_read
    | with_reducible exact Frame.frame_eval _
    | ((with_reducible refine Frame.frame_zoom ?_); exact fun _ _ => ⟨rfl, Or.inl rfl⟩)
    | ((with_reducible refine Frame.frame_id_list_loop (F := F) _ ?_ _); exact fun _ _ => ⟨rfl, Or.inl rfl⟩)
    | ((with_reducible refine Frame.frame_select_state _ _ ?_ ?_ ?_); exact fun _ _ => rfl; decide; decide)
    | ((with_reducible refine Frame.frame_set_state_ite ?_ ?_ ?_); exact fun _ _ => rfl; decide; decide)
    | ((with_reducible refine Frame.frame_update_if ?_); exact fun _ => ⟨rfl, Or.inl rfl⟩)
    | with_reducible apply Frame.frame_ite
    | unfold KFile.warn
    | split

theorem begin_initial_velocity_generation_frame :
    Frame (entity_view)
      (ParseState.within .other) (begin_initial_velocity_generation : Run (Ctx F) Unit) := by
  unfold KFile.begin_initial_velocity_generation
  repeat' first
    | ((with_reducible refine Frame.frame_assign ?_); exact fun _ _ => ⟨rfl, Or.inl rfl⟩)
    | ((with_reducible refine Frame.frame_update ?_); exact fun _ => ⟨rfl, Or.inl rfl⟩)
    | with_reducible refine Frame.frame_bind ?_ (fun _ => ?_)
    | ((with_reducible refine Frame.frame_set_state _ ?_ ?_); exact fun _ => rfl; decide)
    | with_reducible refine Frame.frame_try_catch ?_ (fun _ => ?_)
    | ((with_reducible refine Frame.frame_warn _ _ ?_); exact fun _ _ => rfl)
    | ((with_reducible refine Frame.frame_when_enabled ?_ ?_ ?_); exact fun _ => rfl; decide)
    | with_reducible exact Frame.frame_pure _
    | with_reducible exact Frame.frame_read
    | with_reducible exact Frame.frame_eval _
    | ((with_reducible refine Frame.frame_zoom ?_); exact fun _ _ => ⟨rfl, Or.inl rfl⟩)
    | ((with_reducible refine Frame.frame_id_list_loop (F := F) _ ?_ _); exact fun _ _ => ⟨rfl, Or.inl rfl⟩)
    | ((with_reducible refine Frame.frame_select_state _ _ ?_ ?_ ?_); exact fun _ _ => rfl; decide; decide)
    | ((with_reducible refine Frame.frame_set_state_ite ?_ ?_ ?_); exact fun _ _ => rfl; decide; decide)
    | ((with_reducible refine Frame.frame_update_if ?_); exact fun _ => ⟨rfl, Or.inl rfl⟩)
    | with_reducible apply Frame.frame_ite
    | unfold KFile.warn
    | split

theorem begin_initial_velocity_frame (u : Str) :
    Frame (entity_view)
      (ParseState.within .other) (begin_initial_velocity u : Run (Ctx F) Unit) := by
  unfold KFile.begin_initial_velocity
  repeat' first
    | ((with_reducible refine Frame.frame_assign ?_); exact fun _ _ => ⟨rfl, Or.inl rfl⟩)
    | ((with_reducible refine Frame.frame_update ?_); exact fun _ => ⟨rfl, Or.inl rfl⟩)
    | with_reducible refine Frame.frame_bind ?_ (fun _ => ?_)
    | ((with_reducible refine Frame.frame_set_state _ ?_ ?_); exact fun _ => rfl; decide)
    | with_reducible refine Frame.frame_try_catch ?_ (fun _ => ?_)
    | ((with_reducible refine Frame.frame_warn _ _ ?_); exact fun _ _ => rfl)
    | ((with_reducible refine Frame.frame_when_enabled ?_ ?_ ?_); exact fun _ => rfl; decide)
    | with_reducible exact Frame.frame_pure _
    | with_reducible exact Frame.frame_read
    | with_reducible exact Frame.frame_eval _
    | ((with_reducible refine Frame.frame_zoom ?_); exact fun _ _ => ⟨rfl, Or.inl rfl⟩)
    | ((with_reducible refine Frame.frame_id_list_loop (F := F) _ ?_ _); exact fun _ _ => ⟨rfl, Or.inl rfl⟩)
    | ((with_reducible refine Frame.frame_select_state _ _ ?_ ?_ ?_); exact fun _ _ => rfl; decide; decide)
    | ((with_reducible refine Frame.frame_set_state_ite ?_ ?_ ?_); exact fun _ _ => rfl; decide; decide)
    | ((with_reducible refine Frame.frame_update_if ?_); exact fun _ => ⟨rfl, Or.inl rfl⟩)
    | with_reducible apply Frame.frame_ite
    | unfold KFile.warn
    | split

theorem begin_constrained_nodal_rigid_body_frame (u : Str) :
    Frame (entity_view)
      (ParseState.within .other) (begin_constrained_nodal_rigid_body u : Run (Ctx F) Unit) := by
  unfold KFile.begin_constrained_nodal_rigid_body
  repeat' first
    | ((with_reducible refine Frame.frame_assign ?_); exact fun _ _ => ⟨rfl, Or.inl rfl⟩)
    | ((with_reducible refine Frame.frame_update ?_); exact fun _ => ⟨rfl, Or.inl rfl⟩)
    | with_reducible refine Frame.frame_bind ?_ (fun _ => ?_)
    | ((with_reducible refine Frame.frame_set_state _ ?_ ?_); exact fun _ => rfl; decide)
    | with_reducible refine Frame.frame_try_catch ?_ (fun _ => ?_)
    | ((with_reducible refine Frame.frame_warn _ _ ?_); exact fun _ _ => rfl)
    | ((with_reducible refine Frame.frame_when_enabled ?_ ?_ ?_); exact fun _ => rfl; decide)
    | with_reducible exact Frame.frame_pure _
    | with_reducible exact Frame.frame_read
    | with_reducible exact Frame.frame_eval _
    | ((with_reducible refine Frame.frame_zoom ?_); exact fun _ _ => ⟨rfl, Or.inl rfl⟩)
    | ((with_reducible refine Frame.frame_id_list_loop (F := F) _ ?_ _); exact fun _ _ => ⟨rfl, Or.inl rfl⟩)
    | ((with_reducible refine Frame.frame_select_state _ _ ?_ ?_ ?_); exact fun _ _ => rfl; decide; decide)
    | ((with_reducible refine Frame.frame_set_state_ite ?_ ?_ ?_); exact fun _ _ => rfl; decide; decide)
    | ((with_reducible refine Frame.frame_update_if ?_); exact fun _ => ⟨rfl, Or.inl rfl⟩)
    | with_reducible apply Frame.frame_ite
    | unfold KFile.warn
    | split

theorem begin_constrained_extra_nodes_frame (u : Str) :
    Frame (entity_view)
      (ParseState.within .other) (begin_constrained_extra_nodes u : Run (Ctx F) Unit) := by
  unfold KFile.begin_constrained_extra_nodes
  repeat' first
    | ((with_reducible refine Frame.frame_assign ?_); exact fun _ _ => ⟨rfl, Or.inl rfl⟩)
    | ((with_reducible refine Frame.frame_update ?_); exact fun _ => ⟨rfl, Or.inl rfl⟩)
    | with_reducible refine Frame.frame_bind ?_ (fun _ => ?_)
    | ((with_reducible refine Frame.frame_set_state _ ?_ ?_); exact fun _ => rfl; decide)
    | with_reducible refine Frame.frame_try_catch ?_ (fun _ => ?_)
    | ((with_reducible refine Frame.frame_warn _ _ ?_); exact fun _ _ => rfl)
    | ((with_reducible refine Frame.frame_when_enabled ?_ ?_ ?_); exact fun _ => rfl; decide)
    | with_reducible exact Frame.frame_pure _
    | with_reducible exact Frame.frame_read
    | with_reducible exact Frame.frame_eval _
    | ((with_reducible refine Frame.frame_zoom ?_); exact fun _ _ => ⟨rfl, Or.inl rfl⟩)
    | ((with_reducible refine Frame.frame_id_list_loop (F := F) _ ?_ _); exact fun _ _ => ⟨rfl, Or.inl rfl⟩)
    | ((with_reducible refine Frame.frame_select_state _ _ ?_ ?_ ?_); exact fun _ _ => rfl; decide; decide)
    | ((with_reducible refine Frame.frame_set_state_ite ?_ ?_ ?_); exact fun _ _ => rfl; decide; decide)
    | ((with_reducible refine Frame.frame_update_if ?_); exact fun _ => ⟨rfl, Or.inl rfl⟩)
    | with_reducible apply Frame.frame_ite
    | unfold KFile.warn
    | split

theorem begin_constrained_joint_frame (u : Str) :
    Frame (entity_view)
      (ParseState.within .other) (begin_constrained_joint u : Run (Ctx F) Unit) := by
  unfold KFile.begin_constrained_joint
  repeat' first
    | ((with_reducible refine Frame.frame_assign ?_); exact fun _ _ => ⟨rfl, Or.inl rfl⟩)
    | ((with_reducible refine Frame.frame_update ?_); exact fun _ => ⟨rfl, Or.inl rfl⟩)
    | with_reducible refine Frame.frame_bind ?_ (fun _ => ?_)
    | ((with_reducible refine Frame.frame_set_state _ ?_ ?_); exact fun _ => rfl; decide)
    | with_reducible refine Frame.frame_try_catch ?_ (fun _ => ?_)
    | ((with_reducible refine Frame.frame_warn _ _ ?_); exact fun _ _ => rfl)
    | ((with_reducible refine Frame.frame_when_enabled ?_ ?_ ?_); exact fun _ => rfl; decide)
    | with_reducible exact Frame.frame_pure _
    | with_reducible exact Frame.frame_read
    | with_reducible exact Frame.frame_eval _
    | ((with_reducible refine Frame.frame_zoom ?_); exact fun _ _ => ⟨rfl, Or.inl rfl⟩)
    | ((with_reducible refine Frame.frame_id_list_loop (F := F) _ ?_ _); exact fun _ _ => ⟨rfl, Or.inl rfl⟩)
    | ((with_reducible refine Frame.frame_select_state _ _ ?_ ?_ ?_); exact fun _ _ => rfl; decide; decide)
    | ((with_reducible refine Frame.frame_set_state_ite ?_ ?_ ?_); exact fun _ _ => rfl; decide; decide)
    | ((with_reducible refine Frame.frame_update_if ?_); exact fun _ => ⟨rfl, Or.inl rfl⟩)
    | with_reducible apply Frame.frame_ite
    | unfold KFile.warn
    | split

theorem begin_constrained_spotweld_frame :
    Frame (entity_view)
      (ParseState.within .other) (begin_constrained_spotweld : Run (Ctx F) Unit) := by
  unfold KFile.begin_constrained_spotweld
  repeat' first
    | ((with_reducible refine Frame.frame_assign ?_); exact fun _ _ => ⟨rfl, Or.inl rfl⟩)
    | ((with_reducible refine Frame.frame_update ?_); exact fun _ => ⟨rfl, Or.inl rfl⟩)
    | with_reducible refine Frame.frame_bind ?_ (fun _ => ?_)
    | ((with_reducible refine Frame.frame_set_state _ ?_ ?_); exact fun _ => rfl; decide)
    | with_reducible refine Frame.frame_try_catch ?_ (fun _ => ?_)
    | ((with_reducible refine Frame.frame_warn _ _ ?_); exact fun _ _ => rfl)
    | ((with_reducible refine Frame.frame_when_enabled ?_ ?_ ?_); exact fun _ => rfl; decide)
    | with_reducible exact Frame.frame_pure _
    | with_reducible exact Frame.frame_read
    | with_reducible exact Frame.frame_eval _
    | ((with_reducible refine Frame.frame_zoom ?_); exact fun _ _ => ⟨rfl, Or.inl rfl⟩)
    | ((with_reducible refine Frame.frame_id_list_loop (F := F) _ ?_ _); exact fun _ _ => ⟨rfl, Or.inl rfl⟩)
    | ((with_reducible refine Frame.frame_select_state _ _ ?_ ?_ ?_); exact fun _ _ => rfl; decide; decide)
    | ((with_reducible refine Frame.frame_set_state_ite ?_ ?_ ?_); exact fun _ _ => rfl; decide; decide)
    | ((with_reducible refine Frame.frame_update_if ?_); exact fun _ => ⟨rfl, Or.inl rfl⟩)
    | with_reducible apply Frame.frame_ite
    | unfold KFile.warn
    | split

theorem other_keyword_frame :
    Frame (fun c : Ctx F => contact_view c)
      (ParseState.within .other) (other_keyword : Run (Ctx F) Unit) := by
  unfold KFile.other_keyword
  repeat' first
    | ((with_reducible refine Frame.frame_assign ?_); exact fun _ _ => ⟨rfl, Or.inl rfl⟩)
    | ((with_reducible refine Frame.frame_update ?_); exact fun _ => ⟨rfl, Or.inl rfl⟩)
    | with_reducible refine Frame.frame_bind ?_ (fun _ => ?_)
    | ((with_reducible refine Frame.frame_set_state _ ?_ ?_); exact fun _ => rfl; decide)
    | with_reducible refine Frame.frame_try_catch ?_ (fun _ => ?_)
    | ((with_reducible refine Frame.frame_warn _ _ ?_); exact fun _ _ => rfl)
    | ((with_reducible refine Frame.frame_when_enabled ?_ ?_ ?_); exact fun _ => rfl; decide)
    | with_reducible exact Frame.frame_pure _
    | with_reducible exact Frame.frame_read
    | with_reducible exact Frame.frame_eval _
    | ((with_reducible refine Frame.frame_zoom ?_); exact fun _ _ => ⟨rfl, Or.inl rfl⟩)
    | ((with_reducible refine Frame.frame_id_list_loop (F := F) _ ?_ _); exact fun _ _ => ⟨rfl, Or.inl rfl⟩)
    | ((with_reducible refine Frame.frame_select_state _ _ ?_ ?_ ?_); exact fun _ _ => rfl; decide; decide)
    | ((with_reducible refine Frame.frame_set_state_ite ?_ ?_ ?_); exact fun _ _ => rfl; decide; decide)
    | ((with_reducible refine Frame.frame_update_if ?_); exact fun _ => ⟨rfl, Or.inl rfl⟩)
    | with_reducible apply Frame.frame_ite
    | unfold KFile.warn
    | split

theorem case_IN_NODE_frame (line : Str) :
    Frame (entity_view)
      (ParseState.within .other) (case_IN_NODE line : Run (Ctx F) Unit) := by
  unfold KFile.case_IN_NODE
  repeat' first
    | ((with_reducible refine Frame.frame_assign ?_); exact fun _ _ => ⟨rfl, Or.inl rfl⟩)
    | ((with_reducible refine Frame.frame_update ?_); exact fun _ => ⟨rfl, Or.inl rfl⟩)
    | with_reducible refine Frame.frame_bind ?_ (fun _ => ?_)
    | ((with_reducible refine Frame.frame_set_state _ ?_ ?_); exact fun _ => rfl; decide)
    | with_reducible refine Frame.frame_try_catch ?_ (fun _ => ?_)
    | ((with_reducible refine Frame.frame_warn _ _ ?_); exact fun _ _ => rfl)
    | ((with_reducible refine Frame.frame_when_enabled ?_ ?_ ?_); exact fun _ => rfl; decide)
    | with_reducible exact Frame.frame_pure _
    | with_reducible exact Frame.frame_read
    | with_reducible exact Frame.frame_eval _
    | ((with_reducible refine Frame.frame_zoom ?_); exact fun _ _ => ⟨rfl, Or.inl rfl⟩)
    | ((with_reducible refine Frame.frame_id_list_loop (F := F) _ ?_ _); exact fun _ _ => ⟨rfl, Or.inl rfl⟩)
    | ((with_reducible refine Frame.frame_select_state _ _ ?_ ?_ ?_); exact fun _ _ => rfl; decide; decide)
    | ((with_reducible refine Frame.frame_set_state_ite ?_ ?_ ?_); exact fun _ _ => rfl; decide; decide)
    | ((with_reducible refine Frame.frame_update_if ?_); exact fun _ => ⟨rfl, Or.inl rfl⟩)
    | with_reducible apply Frame.frame_ite
    | unfold KFile.warn
    | split

theorem case_IN_PART_NAME_frame (line : Str) :
    Frame (entity_view)
      (ParseState.within .other) (case_IN_PART_NAME line : Run (Ctx F) Unit) := by
  unfold KFile.case_IN_PART_NAME
  repeat' first
    | ((with_reducible refine Frame.frame_assign ?_); exact fun _ _ => ⟨rfl, Or.inl rfl⟩)
    | ((with_reducible refine Frame.frame_update ?_); exact fun _ => ⟨rfl, Or.inl rfl⟩)
    | with_reducible refine Frame.frame_bind ?_ (fun _ => ?_)
    | ((with_reducible refine Frame.frame_set_state _ ?_ ?_); exact fun _ => rfl; decide)
    | with_reducible refine Frame.frame_try_catch ?_ (fun _ => ?_)
    | ((with_reducible refine Frame.frame_warn _ _ ?_); exact fun _ _ => rfl)
    | ((with_reducible refine Frame.frame_when_enabled ?_ ?_ ?_); exact fun _ => rfl; decide)
    | with_reducible exact Frame.frame_pure _
    | with_reducible exact Frame.frame_read
    | with_reducible exact Frame.frame_eval _
    | ((with_reducible refine Frame.frame_zoom ?_); exact fun _ _ => ⟨rfl, Or.inl rfl⟩)
    | ((with_reducible refine Frame.frame_id_list_loop (F := F) _ ?_ _); exact fun _ _ => ⟨rfl, Or.inl rfl⟩)
    | ((with_reducible refine Frame.frame_select_state _ _ ?_ ?_ ?_); exact fun _ _ => rfl; decide; decide)
    | ((with_reducible refine Frame.frame_set_state_ite ?_ ?_ ?_); exact fun _ _ => rfl; decide; decide)
    | ((with_reducible refine Frame.frame_update_if ?_); exact fun _ => ⟨rfl, Or.inl rfl⟩)
    | with_reducible apply Frame.frame_ite
    | unfold KFile.warn
    | split

theorem case_IN_PART_DATA_frame (line : Str) :
    Frame (entity_view)
      (ParseState.within .other) (case_IN_PART_DATA line : Run (Ctx F) Unit) := by
  unfold KFile.case_IN_PART_DATA
  repeat' first
    | ((with_reducible refine Frame.frame_assign ?_); exact fun _ _ => ⟨rfl, Or.inl rfl⟩)
    | ((with_reducible refine Frame.frame_update ?_); exact fun _ => ⟨rfl, Or.inl rfl⟩)
    | with_reducible refine Frame.frame_bind ?_ (fun _ => ?_)
    | ((with_reducible refine Frame.frame_set_state _ ?_ ?_); exact fun _ => rfl; decide)
    | with_reducible refine Frame.frame_try_catch ?_ (fun _ => ?_)
    | ((with_reducible refine Frame.frame_warn _ _ ?_); exact fun _ _ => rfl)
    | ((with_reducible refine Frame.frame_when_enabled ?_ ?_ ?_); exact fun _ => rfl; decide)
    | with_reducible exact Frame.frame_pure _
    | with_reducible exact Frame.frame_read
    | with_reducible exact Frame.frame_eval _
    | ((with_reducible refine Frame.frame_zoom ?_); exact fun _ _ => ⟨rfl, Or.inl rfl⟩)
    | ((with_reducible refine Frame.frame_id_list_loop (F := F) _ ?_ _); exact fun _ _ => ⟨rfl, Or.inl rfl⟩)
    | ((with_reducible refine Frame.frame_select_state _ _ ?_ ?_ ?_); exact fun _ _ => rfl; decide; decide)
    | ((with_reducible refine Frame.frame_set_state_ite ?_ ?_ ?_); exact fun _ _ => rfl; decide; decide)
    | ((with_reducible refine Frame.frame_update_if ?_); exact fun _ => ⟨rfl, Or.inl rfl⟩)
    | with_reducible apply Frame.frame_ite
    | unfold KFile.warn
    | split

theorem case_IN_ELEMENT_frame (line : Str) (type : ElementType) :
    Frame (entity_view)
      (ParseState.within .other) (case_IN_ELEMENT line type : Run (Ctx F) Unit) := by
  unfold KFile.case_IN_ELEMENT
  repeat' first
    | ((with_reducible refine Frame.frame_assign ?_); exact fun _ _ => ⟨rfl, Or.inl rfl⟩)
    | ((with_reducible refine Frame.frame_update ?_); exact fun _ => ⟨rfl, Or.inl rfl⟩)
    | with_reducible refine Frame.frame_bind ?_ (fun _ => ?_)
    | ((with_reducible refine Frame.frame_set_state _ ?_ ?_); exact fun _ => rfl; decide)
    | with_reducible refine Frame.frame_try_catch ?_ (fun _ => ?_)
    | ((with_reducible refine Frame.frame_warn _ _ ?_); exact fun _ _ => rfl)
    | ((with_reducible refine Frame.frame_when_enabled ?_ ?_ ?_); exact fun _ => rfl; decide)
    | with_reducible exact Frame.frame_pure _
    | with_reducible exact Frame.frame_read
    | with_reducible exact Frame.frame_eval _
    | ((with_reducible refine Frame.frame_zoom ?_); exact fun _ _ => ⟨rfl, Or.inl rfl⟩)
    | ((with_reducible refine Frame.frame_id_list_loop (F := F) _ ?_ _); exact fun _ _ => ⟨rfl, Or.inl rfl⟩)
    | ((with_reducible refine Frame.frame_select_state _ _ ?_ ?_ ?_); exact fun _ _ => rfl; decide; decide)
    | ((with_reducible refine Frame.frame_set_state_ite ?_ ?_ ?_); exact fun _ _ => rfl; decide; decide)
    | ((with_reducible refine Frame.frame_update_if ?_); exact fun _ => ⟨rfl, Or.inl rfl⟩)
    | with_reducible apply Frame.frame_ite
    | unfold KFile.warn
    | split

theorem case_IN_SET_TITLE_frame :
    Frame (fun c : Ctx F => (material_view c, contact_view c, curve_view c))
      (ParseState.within .set) (case_IN_SET_TITLE : Run (Ctx F) Unit) := by
  unfold KFile.case_IN_SET_TITLE
  repeat' first
    | ((with_reducible refine Frame.frame_assign ?_); exact fun _ _ => ⟨rfl, Or.inl rfl⟩)
    | ((with_reducible refine Frame.frame_update ?_); exact fun _ => ⟨rfl, Or.inl rfl⟩)
    | with_reducible refine Frame.frame_bind ?_ (fun _ => ?_)
    | ((with_reducible refine Frame.frame_set_state _ ?_ ?_); exact fun _ => rfl; decide)
    | with_reducible refine Frame.frame_try_catch ?_ (fun _ => ?_)
    | ((with_reducible refine Frame.frame_warn _ _ ?_); exact fun _ _ => rfl)
    | ((with_reducible refine Frame.frame_when_enabled ?_ ?_ ?_); exact fun _ => rfl; decide)
    | with_reducible exact Frame.frame_pure _
    | with_reducible exact Frame.frame_read
    | with_reducible exact Frame.frame_eval _
    | ((with_reducible refine Frame.frame_zoom ?_); exact fun _ _ => ⟨rfl, Or.inl rfl⟩)
    | ((with_reducible refine Frame.frame_id_list_loop (F := F) _ ?_ _); exact fun _ _ => ⟨rfl, Or.inl rfl⟩)
    | ((with_reducible refine Frame.frame_select_state _ _ ?_ ?_ ?_); exact fun _ _ => rfl; decide; decide)
    | ((with_reducible refine Frame.frame_set_state_ite ?_ ?_ ?_); exact fun _ _ => rfl; decide; decide)
    | ((with_reducible refine Frame.frame_update_if ?_); exact fun _ => ⟨rfl, Or.inl rfl⟩)
    | with_reducible apply Frame.frame_ite
    | unfold KFile.warn
    | split

theorem case_IN_SET_HEADER_frame (line : Str) (type : SetType) (data : ParseState) (hd : data.within .set) :
    Frame (fun c : Ctx F => (material_view c, contact_view c, curve_view c))
      (ParseState.within .set) (case_IN_SET_HEADER line type data : Run (Ctx F) Unit) := by
  unfold KFile.case_IN_SET_HEADER
  repeat' first
    | ((with_reducible refine Frame.frame_assign ?_); exact fun _ _ => ⟨rfl, Or.inl rfl⟩)
    | ((with_reducible refine Frame.frame_update ?_); exact fun _ => ⟨rfl, Or.inl rfl⟩)
    | with_reducible refine Frame.frame_bind ?_ (fun _ => ?_)
    | ((with_reducible refine Frame.frame_set_state _ ?_ ?_); exact fun _ => rfl; decide)
    | with_reducible refine Frame.frame_try_catch ?_ (fun _ => ?_)
    | ((with_reducible refine Frame.frame_warn _ _ ?_); exact fun _ _ => rfl)
    | ((with_reducible refine Frame.frame_when_enabled ?_ ?_ ?_); exact fun _ => rfl; decide)
    | with_reducible exact Frame.frame_pure _
    | with_reducible exact Frame.frame_read
    | with_reducible exact Frame.frame_eval _
    | ((with_reducible refine Frame.frame_zoom ?_); exact fun _ _ => ⟨rfl, Or.inl rfl⟩)
    | ((with_reducible refine Frame.frame_id_list_loop (F := F) _ ?_ _); exact fun _ _ => ⟨rfl, Or.inl rfl⟩)
    | ((with_reducible refine Frame.frame_select_state _ _ ?_ ?_ ?_); exact fun _ _ => rfl; decide; decide)
    | ((with_reducible refine Frame.frame_set_state_ite ?_ ?_ ?_); exact fun _ _ => rfl; decide; decide)
    | ((with_reducible refine Frame.frame_update_if ?_); exact fun _ => ⟨rfl, Or.inl rfl⟩)
    | with_reducible apply Frame.frame_ite
    | unfold KFile.warn
    | ((with_reducible refine Frame.frame_set_state _ ?_ ?_); exact fun _ => rfl; exact hd)
    | split

theorem case_IN_SET_DATA_frame (line : Str) :
    Frame (fun c : Ctx F => (material_view c, contact_view c, curve_view c))
      (ParseState.within .set) (case_IN_SET_DATA line : Run (Ctx F) Unit) := by
  unfold KFile.case_IN_SET_DATA
  repeat' first
    | ((with_reducible refine Frame.frame_assign ?_); exact fun _ _ => ⟨rfl, Or.inl rfl⟩)
    | ((with_reducible refine Frame.frame_update ?_); exact fun _ => ⟨rfl, Or.inl rfl⟩)
    | with_reducible refine Frame.frame_bind ?_ (fun _ => ?_)
    | ((with_reducible refine Frame.frame_set_state _ ?_ ?_); exact fun _ => rfl; decide)
    | with_reducible refine Frame.frame_try_catch ?_ (fun _ => ?_)
    | ((with_reducible refine Frame.frame_warn _ _ ?_); exact fun _ _ => rfl)
    | ((with_reducible refine Frame.frame_when_enabled ?_ ?_ ?_); exact fun _ => rfl; decide)
    | with_reducible exact Frame.frame_pure _
    | with_reducible exact Frame.frame_read
    | with_reducible exact Frame.frame_eval _
    | ((with_reducible refine Frame.frame_zoom ?_); exact fun _ _ => ⟨rfl, Or.inl rfl⟩)
    | ((with_reducible refine Frame.frame_id_list_loop (F := F) _ ?_ _); exact fun _ _ => ⟨rfl, Or.inl rfl⟩)
    | ((with_reducible refine Frame.frame_select_state _ _ ?_ ?_ ?_); exact fun _ _ => rfl; decide; decide)
    | ((with_reducible refine Frame.frame_set_state_ite ?_ ?_ ?_); exact fun _ _ => rfl; decide; decide)
    | ((with_reducible refine Frame.frame_update_if ?_); exact fun _ => ⟨rfl, Or.inl rfl⟩)
    | with_reducible apply Frame.frame_ite
    | unfold KFile.warn
    | split

theorem case_IN_SET_SEGMENT_DATA_frame (line : Str) :
    Frame (fun c : Ctx F => (material_view c, contact_view c, curve_view c))
      (ParseState.within .set) (case_IN_SET_SEGMENT_DATA line : Run (Ctx F) Unit) := by
  unfold KFile.case_IN_SET_SEGMENT_DATA
  repeat' first
    | ((with_reducible refine Frame.frame_assign ?_); exact fun _ _ => ⟨rfl, Or.inl rfl⟩)
    | ((with_reducible refine Frame.frame_update ?_); exact fun _ => ⟨rfl, Or.inl rfl⟩)
    | with_reducible refine Frame.frame_bind ?_ (fun _ => ?_)
    | ((with_reducible refine Frame.frame_set_state _ ?_ ?_); exact fun _ => rfl; decide)
    | with_reducible refine Frame.frame_try_catch ?_ (fun _ => ?_)
    | ((with_reducible refine Frame.frame_warn _ _ ?_); exact fun _ _ => rfl)
    | ((with_reducible refine Frame.frame_when_enabled ?_ ?_ ?_); exact fun _ => rfl; decide)
    | with_reducible exact Frame.frame_pure _
    | with_reducible exact Frame.frame_read
    | with_reducible exact Frame.frame_eval _
    | ((with_reducible refine Frame.frame_zoom ?_); exact fun _ _ => ⟨rfl, Or.inl rfl⟩)
    | ((with_reducible refine Frame.frame_id_list_loop (F := F) _ ?_ _); exact fun _ _ => ⟨rfl, Or.inl rfl⟩)
    | ((with_reducible refine Frame.frame_select_state _ _ ?_ ?_ ?_); exact fun _ _ => rfl; decide; decide)
    | ((with_reducible refine Frame.frame_set_state_ite ?_ ?_ ?_); exact fun _ _ => rfl; decide; decide)
    | ((with_reducible refine Frame.frame_update_if ?_); exact fun _ => ⟨rfl, Or.inl rfl⟩)
    | with_reducible apply Frame.frame_ite
    | unfold KFile.warn
    | split

theorem case_IN_SECTION_SHELL_HEADER_frame (line : Str) :
    Frame (entity_view)
      (ParseState.within .other) (case_IN_SECTION_SHELL_HEADER line : Run (Ctx F) Unit) := by
  unfold KFile.case_IN_SECTION_SHELL_HEADER
  repeat' first
    | ((with_reducible refine Frame.frame_assign ?_); exact fun _ _ => ⟨rfl, Or.inl rfl⟩)
    | ((with_reducible refine Frame.frame_update ?_); exact fun _ => ⟨rfl, Or.inl rfl⟩)
    | with_reducible refine Frame.frame_bind ?_ (fun _ => ?_)
    | ((with_reducible refine Frame.frame_set_state _ ?_ ?_); exact fun _ => rfl; decide)
    | with_reducible refine Frame.frame_try_catch ?_ (fun _ => ?_)
    | ((with_reducible refine Frame.frame_warn _ _ ?_); exact fun _ _ => rfl)
    | ((with_reducible refine Frame.frame_when_enabled ?_ ?_ ?_); exact fun _ => rfl; decide)
    | with_reducible exact Frame.frame_pure _
    | with_reducible exact Frame.frame_read
    | with_reducible exact Frame.frame_eval _
    | ((with_reducible refine Frame.frame_zoom ?_); exact fun _ _ => ⟨rfl, Or.inl rfl⟩)
    | ((with_reducible refine Frame.frame_id_list_loop (F := F) _ ?_ _); exact fun _ _ => ⟨rfl, Or.inl rfl⟩)
    | ((with_reducible refine Frame.frame_select_state _ _ ?_ ?_ ?_); exact fun _ _ => rfl; decide; decide)
    | ((with_reducible refine Frame.frame_set_state_ite ?_ ?_ ?_); exact fun _ _ => rfl; decide; decide)
    | ((with_reducible refine Frame.frame_update_if ?_); exact fun _ => ⟨rfl, Or.inl rfl⟩)
    | with_reducible apply Frame.frame_ite
    | unfold KFile.warn
    | split

theorem case_IN_SECTION_SHELL_DATA_frame (line : Str) :
    Frame (entity_view)
      (ParseState.within .other) (case_IN_SECTION_SHELL_DATA line : Run (Ctx F) Unit) := by
  unfold KFile.case_IN_SECTION_SHELL_DATA
  repeat' first
    | ((with_reducible refine Frame.frame_assign ?_); exact fun _ _ => ⟨rfl, Or.inl rfl⟩)
    | ((with_reducible refine Frame.frame_update ?_); exact fun _ => ⟨rfl, Or.inl rfl⟩)
    | with_reducible refine Frame.frame_bind ?_ (fun _ => ?_)
    | ((with_reducible refine Frame.frame_set_state _ ?_ ?_); exact fun _ => rfl; decide)
    | with_reducible refine Frame.frame_try_catch ?_ (fun _ => ?_)
    | ((with_reducible refine Frame.frame_warn _ _ ?_); exact fun _ _ => rfl)
    | ((with_reducible refine Frame.frame_when_enabled ?_ ?_ ?_); exact fun _ => rfl; decide)
    | with_reducible exact Frame.frame_pure _
    | with_reducible exact Frame.frame_read
    | with_reducible exact Frame.frame_eval _
    | ((with_reducible refine Frame.frame_zoom ?_); exact fun _ _ => ⟨rfl, Or.inl rfl⟩)
    | ((with_reducible refine Frame.frame_id_list_loop (F := F) _ ?_ _); exact fun _ _ => ⟨rfl, Or.inl rfl⟩)
    | ((with_reducible refine Frame.frame_select_state _ _ ?_ ?_ ?_); exact fun _ _ => rfl; decide; decide)
    | ((with_reducible refine Frame.frame_set_state_ite ?_ ?_ ?_); exact fun _ _ => rfl; decide; decide)
    | ((with_reducible refine Frame.frame_update_if ?_); exact fun _ => ⟨rfl, Or.inl rfl⟩)
    | with_reducible apply Frame.frame_ite
    | unfold KFile.warn
    | unfold KFile.push_current_section
    | split

theorem case_IN_SECTION_SOLID_frame (line : Str) :
    Frame (entity_view)
      (ParseState.within .other) (case_IN_SECTION_SOLID line : Run (Ctx F) Unit) := by
  unfold KFile.case_IN_SECTION_SOLID
  repeat' first
    | ((with_reducible refine Frame.frame_assign ?_); exact fun _ _ => ⟨rfl, Or.inl rfl⟩)
    | ((with_reducible refine Frame.frame_update ?_); exact fun _ => ⟨rfl, Or.inl rfl⟩)
    | with_reducible refine Frame.frame_bind ?_ (fun _ => ?_)
    | ((with_reducible refine Frame.frame_set_state _ ?_ ?_); exact fun _ => rfl; decide)
    | with_reducible refine Frame.frame_try_catch ?_ (fun _ => ?_)
    | ((with_reducible refine Frame.frame_warn _ _ ?_); exact fun _ _ => rfl)
    | ((with_reducible refine Frame.frame_when_enabled ?_ ?_ ?_); exact fun _ => rfl; decide)
    | with_reducible exact Frame.frame_pure _
    | with_reducible exact Frame.frame_read
    | with_reducible exact Frame.frame_eval _
    | ((with_reducible refine Frame.frame_zoom ?_); exact fun _ _ => ⟨rfl, Or.inl rfl⟩)
    | ((with_reducible refine Frame.frame_id_list_loop (F := F) _ ?_ _); exact fun _ _ => ⟨rfl, Or.inl rfl⟩)
    | ((with_reducible refine Frame.frame_select_state _ _ ?_ ?_ ?_); exact fun _ _ => rfl; decide; decide)
    | ((with_reducible refine Frame.frame_set_state_ite ?_ ?_ ?_); exact fun _ _ => rfl; decide; decide)
    | ((with_reducible refine Frame.frame_update_if ?_); exact fun _ => ⟨rfl, Or.inl rfl⟩)
    | with_reducible apply Frame.frame_ite
    | unfold KFile.warn
    | unfold KFile.push_current_section
    | split

theorem case_IN_SECTION_BEAM_HEADER_frame (line : Str) :
    Frame (entity_view)
      (ParseState.within .other) (case_IN_SECTION_BEAM_HEADER line : Run (Ctx F) Unit) := by
  unfold KFile.case_IN_SECTION_BEAM_HEADER
  repeat' first
    | ((with_reducible refine Frame.frame_assign ?_); exact fun _ _ => ⟨rfl, Or.inl rfl⟩)
    | ((with_reducible refine Frame.frame_update ?_); exact fun _ => ⟨rfl, Or.inl rfl⟩)
    | with_reducible refine Frame.frame_bind ?_ (fun _ => ?_)
    | ((with_reducible refine Frame.frame_set_state _ ?_ ?_); exact fun _ => rfl; decide)
    | with_reducible refine Frame.frame_try_catch ?_ (fun _ => ?_)
    | ((with_reducible refine Frame.frame_warn _ _ ?_); exact fun _ _ => rfl)
    | ((with_reducible refine Frame.frame_when_enabled ?_ ?_ ?_); exact fun _ => rfl; decide)
    | with_reducible exact Frame.frame_pure _
    | with_reducible exact Frame.frame_read
    | with_reducible exact Frame.frame_eval _
    | ((with_reducible refine Frame.frame_zoom ?_); exact fun _ _ => ⟨rfl, Or.inl rfl⟩)
    | ((with_reducible refine Frame.frame_id_list_loop (F := F) _ ?_ _); exact fun _ _ => ⟨rfl, Or.inl rfl⟩)
    | ((with_reducible refine Frame.frame_select_state _ _ ?_ ?_ ?_); exact fun _ _ => rfl; decide; decide)
    | ((with_reducible refine Frame.frame_set_state_ite ?_ ?_ ?_); exact fun _ _ => rfl; decide; decide)
    | ((with_reducible refine Frame.frame_update_if ?_); exact fun _ => ⟨rfl, Or.inl rfl⟩)
    | with_reducible apply Frame.frame_ite
    | unfold KFile.warn
    | split

theorem case_IN_SECTION_BEAM_DATA_frame (line : Str) :
    Frame (entity_view)
      (ParseState.within .other) (case_IN_SECTION_BEAM_DATA line : Run (Ctx F) Unit) := by
  unfold KFile.case_IN_SECTION_BEAM_DATA
  repeat' first
    | ((with_reducible refine Frame.frame_assign ?_); exact fun _ _ => ⟨rfl, Or.inl rfl⟩)
    | ((with_reducible refine Frame.frame_update ?_); exact fun _ => ⟨rfl, Or.inl rfl⟩)
    | with_reducible refine Frame.frame_bind ?_ (fun _ => ?_)
    | ((with_reducible refine Frame.frame_set_state _ ?_ ?_); exact fun _ => rfl; decide)
    | with_reducible refine Frame.frame_try_catch ?_ (fun _ => ?_)
    | ((with_reducible refine Frame.frame_warn _ _ ?_); exact fun _ _ => rfl)
    | ((with_reducible refine Frame.frame_when_enabled ?_ ?_ ?_); exact fun _ => rfl; decide)
    | with_reducible exact Frame.frame_pure _
    | with_reducible exact Frame.frame_read
    | with_reducible exact Frame.frame_eval _
    | ((with_reducible refine Frame.frame_zoom ?_); exact fun _ _ => ⟨rfl, Or.inl rfl⟩)
    | ((with_reducible refine Frame.frame_id_list_loop (F := F) _ ?_ _); exact fun _ _ => ⟨rfl, Or.inl rfl⟩)
    | ((with_reducible refine Frame.frame_select_state _ _ ?_ ?_ ?_); exact fun _ _ => rfl; decide; decide)
    | ((with_reducible refine Frame.frame_set_state_ite ?_ ?_ ?_); exact fun _ _ => rfl; decide; decide)
    | ((with_reducible refine Frame.frame_update_if ?_); exact fun _ => ⟨rfl, Or.inl rfl⟩)
    | with_reducible apply Frame.frame_ite
    | unfold KFile.warn
    | unfold KFile.push_current_section
    | split

theorem case_IN_CONTACT_CARD1_frame (line : Str) :
    Frame (fun c : Ctx F => (set_view c, material_view c, curve_view c))
      (ParseState.within .contact) (case_IN_CONTACT_CARD1 line : Run (Ctx F) Unit) := by
  unfold KFile.case_IN_CONTACT_CARD1
  repeat' first
    | ((with_reducible refine Frame.frame_assign ?_); exact fun _ _ => ⟨rfl, Or.inl rfl⟩)
    | ((with_reducible refine Frame.frame_update ?_); exact fun _ => ⟨rfl, Or.inl rfl⟩)
    | with_reducible refine Frame.frame_bind ?_ (fun _ => ?_)
    | ((with_reducible refine Frame.frame_set_state _ ?_ ?_); exact fun _ => rfl; decide)
    | with_reducible refine Frame.frame_try_catch ?_ (fun _ => ?_)
    | ((with_reducible refine Frame.frame_warn _ _ ?_); exact fun _ _ => rfl)
    | ((with_reducible refine Frame.frame_when_enabled ?_ ?_ ?_); exact fun _ => rfl; decide)
    | with_reducible exact Frame.frame_pure _
    | with_reducible exact Frame.frame_read
    | with_reducible exact Frame.frame_eval _
    | ((with_reducible refine Frame.frame_zoom ?_); exact fun _ _ => ⟨rfl, Or.inl rfl⟩)
    | ((with_reducible refine Frame.frame_id_list_loop (F := F) _ ?_ _); exact fun _ _ => ⟨rfl, Or.inl rfl⟩)
    | ((with_reducible refine Frame.frame_select_state _ _ ?_ ?_ ?_); exact fun _ _ => rfl; decide; decide)
    | ((with_reducible refine Frame.frame_set_state_ite ?_ ?_ ?_); exact fun _ _ => rfl; decide; decide)
    | ((with_reducible refine Frame.frame_update_if ?_); exact fun _ => ⟨rfl, Or.inl rfl⟩)
    | with_reducible apply Frame.frame_ite
    | unfold KFile.warn
    | split

theorem case_IN_CONTACT_CARD2_frame (line : Str) :
    Frame (fun c : Ctx F => (set_view c, material_view c, curve_view c))
      (ParseState.within .contact) (case_IN_CONTACT_CARD2 line : Run (Ctx F) Unit) := by
  unfold KFile.case_IN_CONTACT_CARD2
  repeat' first
    | ((with_reducible refine Frame.frame_assign ?_); exact fun _ _ => ⟨rfl, Or.inl rfl⟩)
    | ((with_reducible refine Frame.frame_update ?_); exact fun _ => ⟨rfl, Or.inl rfl⟩)
    | with_reducible refine Frame.frame_bind ?_ (fun _ => ?_)
    | ((with_reducible refine Frame.frame_set_state _ ?_ ?_); exact fun _ => rfl; decide)
    | with_reducible refine Frame.frame_try_catch ?_ (fun _ => ?_)
    | ((with_reducible refine Frame.frame_warn _ _ ?_); exact fun _ _ => rfl)
    | ((with_reducible refine Frame.frame_when_enabled ?_ ?_ ?_); exact fun _ => rfl; decide)
    | with_reducible exact Frame.frame_pure _
    | with_reducible exact Frame.frame_read
    | with_reducible exact Frame.frame_eval _
    | ((with_reducible refine Frame.frame_zoom ?_); exact fun _ _ => ⟨rfl, Or.inl rfl⟩)
    | ((with_reducible refine Frame.frame_id_list_loop (F := F) _ ?_ _); exact fun _ _ => ⟨rfl, Or.inl rfl⟩)
    | ((with_reducible refine Frame.frame_select_state _ _ ?_ ?_ ?_); exact fun _ _ => rfl; decide; decide)
    | ((with_reducible refine Frame.frame_set_state_ite ?_ ?_ ?_); exact fun _ _ => rfl; decide; decide)
    | ((with_reducible refine Frame.frame_update_if ?_); exact fun _ => ⟨rfl, Or.inl rfl⟩)
    | with_reducible apply Frame.frame_ite
    | unfold KFile.warn
    | unfold KFile.push_current_contact
    | split

theorem case_IN_CONTACT_CARD3_frame (line : Str) :
    Frame (fun c : Ctx F => (set_view c, material_view c, curve_view c))
      (ParseState.within .contact) (case_IN_CONTACT_CARD3 line : Run (Ctx F) Unit) := by
  unfold KFile.case_IN_CONTACT_CARD3
  repeat' first
    | ((with_reducible refine Frame.frame_assign ?_); exact fun _ _ => ⟨rfl, Or.inl rfl⟩)
    | ((with_reducible refine Frame.frame_update ?_); exact fun _ => ⟨rfl, Or.inl rfl⟩)
    | with_reducible refine Frame.frame_bind ?_ (fun _ => ?_)
    | ((with_reducible refine Frame.frame_set_state _ ?_ ?_); exact fun _ => rfl; decide)
    | with_reducible refine Frame.frame_try_catch ?_ (fun _ => ?_)
    | ((with_reducible refine Frame.frame_warn _ _ ?_); exact fun _ _ => rfl)
    | ((with_reducible refine Frame.frame_when_enabled ?_ ?_ ?_); exact fun _ => rfl; decide)
    | with_reducible exact Frame.frame_pure _
    | with_reducible exact Frame.frame_read
    | with_reducible exact Frame.frame_eval _
    | ((with_reducible refine Frame.frame_zoom ?_); exact fun _ _ => ⟨rfl, Or.inl rfl⟩)
    | ((with_reducible refine Frame.frame_id_list_loop (F := F) _ ?_ _); exact fun _ _ => ⟨rfl, Or.inl rfl⟩)
    | ((with_reducible refine Frame.frame_select_state _ _ ?_ ?_ ?_); exact fun _ _ => rfl; decide; decide)
    | ((with_reducible refine Frame.frame_set_state_ite ?_ ?_ ?_); exact fun _ _ => rfl; decide; decide)
    | ((with_reducible refine Frame.frame_update_if ?_); exact fun _ => ⟨rfl, Or.inl rfl⟩)
    | with_reducible apply Frame.frame_ite
    | unfold KFile.warn
    | unfold KFile.push_current_contact
    | split

theorem case_IN_MATERIAL_TITLE_frame (line : Str) :
    Frame (fun c : Ctx F => (set_view c, contact_view c, curve_view c))
      (ParseState.within .material) (case_IN_MATERIAL_TITLE line : Run (Ctx F) Unit) := by
  unfold KFile.case_IN_MATERIAL_TITLE
  repeat' first
    | ((with_reducible refine Frame.frame_assign ?_); exact fun _ _ => ⟨rfl, Or.inl rfl⟩)
    | ((with_reducible refine Frame.frame_update ?_); exact fun _ => ⟨rfl, Or.inl rfl⟩)
    | with_reducible refine Frame.frame_bind ?_ (fun _ => ?_)
    | ((with_reducible refine Frame.frame_set_state _ ?_ ?_); exact fun _ => rfl; decide)
    | with_reducible refine Frame.frame_try_catch ?_ (fun _ => ?_)
    | ((with_reducible refine Frame.frame_warn _ _ ?_); exact fun _ _ => rfl)
    | ((with_reducible refine Frame.frame_when_enabled ?_ ?_ ?_); exact fun _ => rfl; decide)
    | with_reducible exact Frame.frame_pure _
    | with_reducible exact Frame.frame_read
    | with_reducible exact Frame.frame_eval _
    | ((with_reducible refine Frame.frame_zoom ?_); exact fun _ _ => ⟨rfl, Or.inl rfl⟩)
    | ((with_reducible refine Frame.frame_id_list_loop (F := F) _ ?_ _); exact fun _ _ => ⟨rfl, Or.inl rfl⟩)
    | ((with_reducible refine Frame.frame_select_state _ _ ?_ ?_ ?_); exact fun _ _ => rfl; decide; decide)
    | ((with_reducible refine Frame.frame_set_state_ite ?_ ?_ ?_); exact fun _ _ => rfl; decide; decide)
    | ((with_reducible refine Frame.frame_update_if ?_); exact fun _ => ⟨rfl, Or.inl rfl⟩)
    | with_reducible apply Frame.frame_ite
    | unfold KFile.warn
    | split

theorem case_IN_MATERIAL_DATA_frame (line : Str) :
    Frame (fun c : Ctx F => (set_view c, contact_view c, curve_view c))
      (ParseState.within .material) (case_IN_MATERIAL_DATA line : Run (Ctx F) Unit) := by
  unfold KFile.case_IN_MATERIAL_DATA
  repeat' first
    | ((with_reducible refine Frame.frame_assign ?_); exact fun _ _ => ⟨rfl, Or.inl rfl⟩)
    | ((with_reducible refine Frame.frame_update ?_); exact fun _ => ⟨rfl, Or.inl rfl⟩)
    | with_reducible refine Frame.frame_bind ?_ (fun _ => ?_)
    | ((with_reducible refine Frame.frame_set_state _ ?_ ?_); exact fun _ => rfl; decide)
    | with_reducible refine Frame.frame_try_catch ?_ (fun _ => ?_)
    | ((with_reducible refine Frame.frame_warn _ _ ?_); exact fun _ _ => rfl)
    | ((with_reducible refine Frame.frame_when_enabled ?_ ?_ ?_); exact fun _ => rfl; decide)
    | with_reducible exact Frame.frame_pure _
    | with_reducible exact Frame.frame_read
    | with_reducible exact Frame.frame_eval _
    | ((with_reducible refine Frame.frame_zoom ?_); exact fun _ _ => ⟨rfl, Or.inl rfl⟩)
    | ((with_reducible refine Frame.frame_id_list_loop (F := F) _ ?_ _); exact fun _ _ => ⟨rfl, Or.inl rfl⟩)
    | ((with_reducible refine Frame.frame_select_state _ _ ?_ ?_ ?_); exact fun _ _ => rfl; decide; decide)
    | ((with_reducible refine Frame.frame_set_state_ite ?_ ?_ ?_); exact fun _ _ => rfl; decide; decide)
    | ((with_reducible refine Frame.frame_update_if ?_); exact fun _ => ⟨rfl, Or.inl rfl⟩)
    | with_reducible apply Frame.frame_ite
    | unfold KFile.warn
    | split

theorem case_IN_INCLUDE_frame (line : Str) :
    Frame (entity_view)
      (ParseState.within .other) (case_IN_INCLUDE line : Run (Ctx F) Unit) := by
  unfold KFile.case_IN_INCLUDE
  repeat' first
    | ((with_reducible refine Frame.frame_assign ?_); exact fun _ _ => ⟨rfl, Or.inl rfl⟩)
    | ((with_reducible refine Frame.frame_update ?_); exact fun _ => ⟨rfl, Or.inl rfl⟩)
    | with_reducible refine Frame.frame_bind ?_ (fun _ => ?_)
    | ((with_reducible refine Frame.frame_set_state _ ?_ ?_); exact fun _ => rfl; decide)
    | with_reducible refine Frame.frame_try_catch ?_ (fun _ => ?_)
    | ((with_reducible refine Frame.frame_warn _ _ ?_); exact fun _ _ => rfl)
    | ((with_reducible refine Frame.frame_when_enabled ?_ ?_ ?_); exact fun _ => rfl; decide)
    | with_reducible exact Frame.frame_pure _
    | with_reducible exact Frame.frame_read
    | with_reducible exact Frame.frame_eval _
    | ((with_reducible refine Frame.frame_zoom ?_); exact fun _ _ => ⟨rfl, Or.inl rfl⟩)
    | ((with_reducible refine Frame.frame_id_list_loop (F := F) _ ?_ _); exact fun _ _ => ⟨rfl, Or.inl rfl⟩)
    | ((with_reducible refine Frame.frame_select_state _ _ ?_ ?_ ?_); exact fun _ _ => rfl; decide; decide)
    | ((with_reducible refine Frame.frame_set_state_ite ?_ ?_ ?_); exact fun _ _ => rfl; decide; decide)
    | ((with_reducible refine Frame.frame_update_if ?_); exact fun _ => ⟨rfl, Or.inl rfl⟩)
    | with_reducible apply Frame.frame_ite
    | unfold KFile.warn
    | split

theorem case_IN_CURVE_TITLE_frame (line : Str) :
    Frame (fun c : Ctx F => (set_view c, material_view c, contact_view c))
      (ParseState.within .curve) (case_IN_CURVE_TITLE line : Run (Ctx F) Unit) := by
  unfold KFile.case_IN_CURVE_TITLE
  repeat' first
    | ((with_reducible refine Frame.frame_assign ?_); exact fun _ _ => ⟨rfl, Or.inl rfl⟩)
    | ((with_reducible refine Frame.frame_update ?_); exact fun _ => ⟨rfl, Or.inl rfl⟩)
    | with_reducible refine Frame.frame_bind ?_ (fun _ => ?_)
    | ((with_reducible refine Frame.frame_set_state _ ?_ ?_); exact fun _ => rfl; decide)
    | with_reducible refine Frame.frame_try_catch ?_ (fun _ => ?_)
    | ((with_reducible refine Frame.frame_warn _ _ ?_); exact fun _ _ => rfl)
    | ((with_reducible refine Frame.frame_when_enabled ?_ ?_ ?_); exact fun _ => rfl; decide)
    | with_reducible exact Frame.frame_pure _
    | with_reducible exact Frame.frame_read
    | with_reducible exact Frame.frame_eval _
    | ((with_reducible refine Frame.frame_zoom ?_); exact fun _ _ => ⟨rfl, Or.inl rfl⟩)
    | ((with_reducible refine Frame.frame_id_list_loop (F := F) _ ?_ _); exact fun _ _ => ⟨rfl, Or.inl rfl⟩)
    | ((with_reducible refine Frame.frame_select_state _ _ ?_ ?_ ?_); exact fun _ _ => rfl; decide; decide)
    | ((with_reducible refine Frame.frame_set_state_ite ?_ ?_ ?_); exact fun _ _ => rfl; decide; decide)
    | ((with_reducible refine Frame.frame_update_if ?_); exact fun _ => ⟨rfl, Or.inl rfl⟩)
    | with_reducible apply Frame.frame_ite
    | unfold KFile.warn
    | split

theorem case_IN_CURVE_HEADER_frame (line : Str) :
    Frame (fun c : Ctx F => (set_view c, material_view c, contact_view c))
      (ParseState.within .curve) (case_IN_CURVE_HEADER line : Run (Ctx F) Unit) := by
  unfold KFile.case_IN_CURVE_HEADER
  repeat' first
    | ((with_reducible refine Frame.frame_assign ?_); exact fun _ _ => ⟨rfl, Or.inl rfl⟩)
    | ((with_reducible refine Frame.frame_update ?_); exact fun _ => ⟨rfl, Or.inl rfl⟩)
    | with_reducible refine Frame.frame_bind ?_ (fun _ => ?_)
    | ((with_reducible refine Frame.frame_set_state _ ?_ ?_); exact fun _ => rfl; decide)
    | with_reducible refine Frame.frame_try_catch ?_ (fun _ => ?_)
    | ((with_reducible refine Frame.frame_warn _ _ ?_); exact fun _ _ => rfl)
    | ((with_reducible refine Frame.frame_when_enabled ?_ ?_ ?_); exact fun _ => rfl; decide)
    | with_reducible exact Frame.frame_pure _
    | with_reducible exact Frame.frame_read
    | with_reducible exact Frame.frame_eval _
    | ((with_reducible refine Frame.frame_zoom ?_); exact fun _ _ => ⟨rfl, Or.inl rfl⟩)
    | ((with_reducible refine Frame.frame_id_list_loop (F := F) _ ?_ _); exact fun _ _ => ⟨rfl, Or.inl rfl⟩)
    | ((with_reducible refine Frame.frame_select_state _ _ ?_ ?_ ?_); exact fun _ _ => rfl; decide; decide)
    | ((with_reducible refine Frame.frame_set_state_ite ?_ ?_ ?_); exact fun _ _ => rfl; decide; decide)
    | ((with_reducible refine Frame.frame_update_if ?_); exact fun _ => ⟨rfl, Or.inl rfl⟩)
    | with_reducible apply Frame.frame_ite
    | unfold KFile.warn
    | split

theorem case_IN_CURVE_DATA_frame (line : Str) :
    Frame (fun c : Ctx F => (set_view c, material_view c, contact_view c))
      (ParseState.within .curve) (case_IN_CURVE_DATA line : Run (Ctx F) Unit) := by
  unfold KFile.case_IN_CURVE_DATA
  repeat' first
    | ((with_reducible refine Frame.frame_assign ?_); exact fun _ _ => ⟨rfl, Or.inl rfl⟩)
    | ((with_reducible refine Frame.frame_update ?_); exact fun _ => ⟨rfl, Or.inl rfl⟩)
    | with_reducible refine Frame.frame_bind ?_ (fun _ => ?_)
    | ((with_reducible refine Frame.frame_set_state _ ?_ ?_); exact fun _ => rfl; decide)
    | with_reducible refine Frame.frame_try_catch ?_ (fun _ => ?_)
    | ((with_reducible refine Frame.frame_warn _ _ ?_); exact fun _ _ => rfl)
    | ((with_reducible refine Frame.frame_when_enabled ?_ ?_ ?_); exact fun _ => rfl; decide)
    | with_reducible exact Frame.frame_pure _
    | with_reducible exact Frame.frame_read
    | with_reducible exact Frame.frame_eval _
    | ((with_reducible refine Frame.frame_zoom ?_); exact fun _ _ => ⟨rfl, Or.inl rfl⟩)
    | ((with_reducible refine Frame.frame_id_list_loop (F := F) _ ?_ _); exact fun _ _ => ⟨rfl, Or.inl rfl⟩)
    | ((with_reducible refine Frame.frame_select_state _ _ ?_ ?_ ?_); exact fun _ _ => rfl; decide; decide)
    | ((with_reducible refine Frame.frame_set_state_ite ?_ ?_ ?_); exact fun _ _ => rfl; decide; decide)
    | ((with_reducible refine Frame.frame_update_if ?_); exact fun _ => ⟨rfl, Or.inl rfl⟩)
    | with_reducible apply Frame.frame_ite
    | unfold KFile.warn
    | split

theorem case_IN_BOUNDARY_SPC_frame (line : Str) :
    Frame (entity_view)
      (ParseState.within .other) (case_IN_BOUNDARY_SPC line : Run (Ctx F) Unit) := by
  unfold KFile.case_IN_BOUNDARY_SPC
  repeat' first
    | ((with_reducible refine Frame.frame_assign ?_); exact fun _ _ => ⟨rfl, Or.inl rfl⟩)
    | ((with_reducible refine Frame.frame_update ?_); exact fun _ => ⟨rfl, Or.inl rfl⟩)
    | with_reducible refine Frame.frame_bind ?_ (fun _ => ?_)
    | ((with_reducible refine Frame.frame_set_state _ ?_ ?_); exact fun _ => rfl; decide)
    | with_reducible refine Frame.frame_try_catch ?_ (fun _ => ?_)
    | ((with_reducible refine Frame.frame_warn _ _ ?_); exact fun _ _ => rfl)
    | ((with_reducible refine Frame.frame_when_enabled ?_ ?_ ?_); exact fun _ => rfl; decide)
    | with_reducible exact Frame.frame_pure _
    | with_reducible exact Frame.frame_read
    | with_reducible exact Frame.frame_eval _
    | ((with_reducible refine Frame.frame_zoom ?_); exact fun _ _ => ⟨rfl, Or.inl rfl⟩)
    | ((with_reducible refine Frame.frame_id_list_loop (F := F) _ ?_ _); exact fun _ _ => ⟨rfl, Or.inl rfl⟩)
    | ((with_reducible refine Frame.frame_select_state _ _ ?_ ?_ ?_); exact fun _ _ => rfl; decide; decide)
    | ((with_reducible refine Frame.frame_set_state_ite ?_ ?_ ?_); exact fun _ _ => rfl; decide; decide)
    | ((with_reducible refine Frame.frame_update_if ?_); exact fun _ => ⟨rfl, Or.inl rfl⟩)
    | with_reducible apply Frame.frame_ite
    | unfold KFile.warn
    | split

theorem case_IN_BOUNDARY_MOTION_frame (line : Str) :
    Frame (entity_view)
      (ParseState.within .other) (case_IN_BOUNDARY_MOTION line : Run (Ctx F) Unit) := by
  unfold KFile.case_IN_BOUNDARY_MOTION
  repeat' first
    | ((with_reducible refine Frame.frame_assign ?_); exact fun _ _ => ⟨rfl, Or.inl rfl⟩)
    | ((with_reducible refine Frame.frame_update ?_); exact fun _ => ⟨rfl, Or.inl rfl⟩)
    | with_reducible refine Frame.frame_bind ?_ (fun _ => ?_)
    | ((with_reducible refine Frame.frame_set_state _ ?_ ?_); exact fun _ => rfl; decide)
    | with_reducible refine Frame.frame_try_catch ?_ (fun _ => ?_)
    | ((with_reducible refine Frame.frame_warn _ _ ?_); exact fun _ _ => rfl)
    | ((with_reducible refine Frame.frame_when_enabled ?_ ?_ ?_); exact fun _ => rfl; decide)
    | with_reducible exact Frame.frame_pure _
    | with_reducible exact Frame.frame_read
    | with_reducible exact Frame.frame_eval _
    | ((with_reducible refine Frame.frame_zoom ?_); exact fun _ _ => ⟨rfl, Or.inl rfl⟩)
    | ((with_reducible refine Frame.frame_id_list_loop (F := F) _ ?_ _); exact fun _ _ => ⟨rfl, Or.inl rfl⟩)
    | ((with_reducible refine Frame.frame_select_state _ _ ?_ ?_ ?_); exact fun _ _ => rfl; decide; decide)
    | ((with_reducible refine Frame.frame_set_state_ite ?_ ?_ ?_); exact fun _ _ => rfl; decide; decide)
    | ((with_reducible refine Frame.frame_update_if ?_); exact fun _ => ⟨rfl, Or.inl rfl⟩)
    | with_reducible apply Frame.frame_ite
    | unfold KFile.warn
    | split

theorem case_IN_LOAD_NODE_frame (line : Str) :
    Frame (entity_view)
      (ParseState.within .other) (case_IN_LOAD_NODE line : Run (Ctx F) Unit) := by
  unfold KFile.case_IN_LOAD_NODE
  repeat' first
    | ((with_reducible refine Frame.frame_assign ?_); exact fun _ _ => ⟨rfl, Or.inl rfl⟩)
    | ((with_reducible refine Frame.frame_update ?_); exact fun _ => ⟨rfl, Or.inl rfl⟩)
    | with_reducible refine Frame.frame_bind ?_ (fun _ => ?_)
    | ((with_reducible refine Frame.frame_set_state _ ?_ ?_); exact fun _ => rfl; decide)
    | with_reducible refine Frame.frame_try_catch ?_ (fun _ => ?_)
    | ((with_reducible refine Frame.frame_warn _ _ ?_); exact fun _ _ => rfl)
    | ((with_reducible refine Frame.frame_when_enabled ?_ ?_ ?_); exact fun _ => rfl; decide)
    | with_reducible exact Frame.frame_pure _
    | with_reducible exact Frame.frame_read
    | with_reducible exact Frame.frame_eval _
    | ((with_reducible refine Frame.frame_zoom ?_); exact fun _ _ => ⟨rfl, Or.inl rfl⟩)
    | ((with_reducible refine Frame.frame_id_list_loop (F := F) _ ?_ _); exact fun _ _ => ⟨rfl, Or.inl rfl⟩)
    | ((with_reducible refine Frame.frame_select_state _ _ ?_ ?_ ?_); exact fun _ _ => rfl; decide; decide)
    | ((with_reducible refine Frame.frame_set_state_ite ?_ ?_ ?_); exact fun _ _ => rfl; decide; decide)
    | ((with_reducible refine Frame.frame_update_if ?_); exact fun _ => ⟨rfl, Or.inl rfl⟩)
    | with_reducible apply Frame.frame_ite
    | unfold KFile.warn
    | split

theorem case_IN_LOAD_SEGMENT_frame (line : Str) :
    Frame (entity_view)
      (ParseState.within .other) (case_IN_LOAD_SEGMENT line : Run (Ctx F) Unit) := by
  unfold KFile.case_IN_LOAD_SEGMENT
  repeat' first
    | ((with_reducible refine Frame.frame_assign ?_); exact fun _ _ => ⟨rfl, Or.inl rfl⟩)
    | ((with_reducible refine Frame.frame_update ?_); exact fun _ => ⟨rfl, Or.inl rfl⟩)
    | with_reducible refine Frame.frame_bind ?_ (fun _ => ?_)
    | ((with_reducible refine Frame.frame_set_state _ ?_ ?_); exact fun _ => rfl; decide)
    | with_reducible refine Frame.frame_try_catch ?_ (fun _ => ?_)
    | ((with_reducible refine Frame.frame_warn _ _ ?_); exact fun _ _ => rfl)
    | ((with_reducible refine Frame.frame_when_enabled ?_ ?_ ?_); exact fun _ => rfl; decide)
    | with_reducible exact Frame.frame_pure _
    | with_reducible exact Frame.frame_read
    | with_reducible exact Frame.frame_eval _
    | ((with_reducible refine Frame.frame_zoom ?_); exact fun _ _ => ⟨rfl, Or.inl rfl⟩)
    | ((with_reducible refine Frame.frame_id_list_loop (F := F) _ ?_ _); exact fun _ _ => ⟨rfl, Or.inl rfl⟩)
    | ((with_reducible refine Frame.frame_select_state _ _ ?_ ?_ ?_); exact fun _ _ => rfl; decide; decide)
    | ((with_reducible refine Frame.frame_set_state_ite ?_ ?_ ?_); exact fun _ _ => rfl; decide; decide)
    | ((with_reducible refine Frame.frame_update_if ?_); exact fun _ => ⟨rfl, Or.inl rfl⟩)
    | with_reducible apply Frame.frame_ite
    | unfold KFile.warn
    | split

theorem case_IN_LOAD_BODY_frame (line : Str) :
    Frame (entity_view)
      (ParseState.within .other) (case_IN_LOAD_BODY line : Run (Ctx F) Unit) := by
  unfold KFile.case_IN_LOAD_BODY
  repeat' first
    | ((with_reducible refine Frame.frame_assign ?_); exact fun _ _ => ⟨rfl, Or.inl rfl⟩)
    | ((with_reducible refine Frame.frame_update ?_); exact fun _ => ⟨rfl, Or.inl rfl⟩)
    | with_reducible refine Frame.frame_bind ?_ (fun _ => ?_)
    | ((with_reducible refine Frame.frame_set_state _ ?_ ?_); exact fun _ => rfl; decide)
    | with_reducible refine Frame.frame_try_catch ?_ (fun _ => ?_)
    | ((with_reducible refine Frame.frame_warn _ _ ?_); exact fun _ _ => rfl)
    | ((with_reducible refine Frame.frame_when_enabled ?_ ?_ ?_); exact fun _ => rfl; decide)
    | with_reducible exact Frame.frame_pure _
    | with_reducible exact Frame.frame_read
    | with_reducible exact Frame.frame_eval _
    | ((with_reducible refine Frame.frame_zoom ?_); exact fun _ _ => ⟨rfl, Or.inl rfl⟩)
    | ((with_reducible refine Frame.frame_id_list_loop (F := F) _ ?_ _); exact fun _ _ => ⟨rfl, Or.inl rfl⟩)
    | ((with_reducible refine Frame.frame_select_state _ _ ?_ ?_ ?_); exact fun _ _ => rfl; decide; decide)
    | ((with_reducible refine Frame.frame_set_state_ite ?_ ?_ ?_); exact fun _ _ => rfl; decide; decide)
    | ((with_reducible refine Frame.frame_update_if ?_); exact fun _ => ⟨rfl, Or.inl rfl⟩)
    | with_reducible apply Frame.frame_ite
    | unfold KFile.warn
    | split

theorem case_IN_CONTROL_TERMINATION_frame (line : Str) :
    Frame (entity_view)
      (ParseState.within .other) (case_IN_CONTROL_TERMINATION line : Run (Ctx F) Unit) := by
  unfold KFile.case_IN_CONTROL_TERMINATION
  repeat' first
    | ((with_reducible refine Frame.frame_assign ?_); exact fun _ _ => ⟨rfl, Or.inl rfl⟩)
    | ((with_reducible refine Frame.frame_update ?_); exact fun _ => ⟨rfl, Or.inl rfl⟩)
    | with_reducible refine Frame.frame_bind ?_ (fun _ => ?_)
    | ((with_reducible refine Frame.frame_set_state _ ?_ ?_); exact fun _ => rfl; decide)
    | with_reducible refine Frame.frame_try_catch ?_ (fun _ => ?_)
    | ((with_reducible refine Frame.frame_warn _ _ ?_); exact fun _ _ => rfl)
    | ((with_reducible refine Frame.frame_when_enabled ?_ ?_ ?_); exact fun _ => rfl; decide)
    | with_reducible exact Frame.frame_pure _
    | with_reducible exact Frame.frame_read
    | with_reducible exact Frame.frame_eval _
    | ((with_reducible refine Frame.frame_zoom ?_); exact fun _ _ => ⟨rfl, Or.inl rfl⟩)
    | ((with_reducible refine Frame.frame_id_list_loop (F := F) _ ?_ _); exact fun _ _ => ⟨rfl, Or.inl rfl⟩)
    | ((with_reducible refine Frame.frame_select_state _ _ ?_ ?_ ?_); exact fun _ _ => rfl; decide; decide)
    | ((with_reducible refine Frame.frame_set_state_ite ?_ ?_ ?_); exact fun _ _ => rfl; decide; decide)
    | ((with_reducible refine Frame.frame_update_if ?_); exact fun _ => ⟨rfl, Or.inl rfl⟩)
    | with_reducible apply Frame.frame_ite
    | unfold KFile.warn
    | split

theorem case_IN_CONTROL_TIMESTEP_frame (line : Str) :
    Frame (entity_view)
      (ParseState.within .other) (case_IN_CONTROL_TIMESTEP line : Run (Ctx F) Unit) := by
  unfold KFile.case_IN_CONTROL_TIMESTEP
  repeat' first
    | ((with_reducible refine Frame.frame_assign ?_); exact fun _ _ => ⟨rfl, Or.inl rfl⟩)
    | ((with_reducible refine Frame.frame_update ?_); exact fun _ => ⟨rfl, Or.inl rfl⟩)
    | with_reducible refine Frame.frame_bind ?_ (fun _ => ?_)
    | ((with_reducible refine Frame.frame_set_state _ ?_ ?_); exact fun _ => rfl; decide)
    | with_reducible refine Frame.frame_try_catch ?_ (fun _ => ?_)
    | ((with_reducible refine Frame.frame_warn _ _ ?_); exact fun _ _ => rfl)
    | ((with_reducible refine Frame.frame_when_enabled ?_ ?_ ?_); exact fun _ => rfl; decide)
    | with_reducible exact Frame.frame_pure _
    | with_reducible exact Frame.frame_read
    | with_reducible exact Frame.frame_eval _
    | ((with_reducible refine Frame.frame_zoom ?_); exact fun _ _ => ⟨rfl, Or.inl rfl⟩)
    | ((with_reducible refine Frame.frame_id_list_loop (F := F) _ ?_ _); exact fun _ _ => ⟨rfl, Or.inl rfl⟩)
    | ((with_reducible refine Frame.frame_select_state _ _ ?_ ?_ ?_); exact fun _ _ => rfl; decide; decide)
    | ((with_reducible refine Frame.frame_set_state_ite ?_ ?_ ?_); exact fun _ _ => rfl; decide; decide)
    | ((with_reducible refine Frame.frame_update_if ?_); exact fun _ => ⟨rfl, Or.inl rfl⟩)
    | with_reducible apply Frame.frame_ite
    | unfold KFile.warn
    | split

theorem case_IN_CONTROL_ENERGY_frame (line : Str) :
    Frame (entity_view)
      (ParseState.within .other) (case_IN_CONTROL_ENERGY line : Run (Ctx F) Unit) := by
  unfold KFile.case_IN_CONTROL_ENERGY
  repeat' first
    | ((with_reducible refine Frame.frame_assign ?_); exact fun _ _ => ⟨rfl, Or.inl rfl⟩)
    | ((with_reducible refine Frame.frame_update ?_); exact fun _ => ⟨rfl, Or.inl rfl⟩)
    | with_reducible refine Frame.frame_bind ?_ (fun _ => ?_)
    | ((with_reducible refine Frame.frame_set_state _ ?_ ?_); exact fun _ => rfl; decide)
    | with_reducible refine Frame.frame_try_catch ?_ (fun _ => ?_)
    | ((with_reducible refine Frame.frame_warn _ _ ?_); exact fun _ _ => rfl)
    | ((with_reducible refine Frame.frame_when_enabled ?_ ?_ ?_); exact fun _ => rfl; decide)
    | with_reducible exact Frame.frame_pure _
    | with_reducible exact Frame.frame_read
    | with_reducible exact Frame.frame_eval _
    | ((with_reducible refine Frame.frame_zoom ?_); exact fun _ _ => ⟨rfl, Or.inl rfl⟩)
    | ((with_reducible refine Frame.frame_id_list_loop (F := F) _ ?_ _); exact fun _ _ => ⟨rfl, Or.inl rfl⟩)
    | ((with_reducible refine Frame.frame_select_state _ _ ?_ ?_ ?_); exact fun _ _ => rfl; decide; decide)
    | ((with_reducible refine Frame.frame_set_state_ite ?_ ?_ ?_); exact fun _ _ => rfl; decide; decide)
    | ((with_reducible refine Frame.frame_update_if ?_); exact fun _ => ⟨rfl, Or.inl rfl⟩)
    | with_reducible apply Frame.frame_ite
    | unfold KFile.warn
    | split

theorem case_IN_CONTROL_OUTPUT_frame (line : Str) :
    Frame (entity_view)
      (ParseState.within .other) (case_IN_CONTROL_OUTPUT line : Run (Ctx F) Unit) := by
  unfold KFile.case_IN_CONTROL_OUTPUT
  repeat' first
    | ((with_reducible refine Frame.frame_assign ?_); exact fun _ _ => ⟨rfl, Or.inl rfl⟩)
    | ((with_reducible refine Frame.frame_update ?_); exact fun _ => ⟨rfl, Or.inl rfl⟩)
    | with_reducible refine Frame.frame_bind ?_ (fun _ => ?_)
    | ((with_reducible refine Frame.frame_set_state _ ?_ ?_); exact fun _ => rfl; decide)
    | with_reducible refine Frame.frame_try_catch ?_ (fun _ => ?_)
    | ((with_reducible refine Frame.frame_warn _ _ ?_); exact fun _ _ => rfl)
    | ((with_reducible refine Frame.frame_when_enabled ?_ ?_ ?_); exact fun _ => rfl; decide)
    | with_reducible exact Frame.frame_pure _
    | with_reducible exact Frame.frame_read
    | with_reducible exact Frame.frame_eval _
    | ((with_reducible refine Frame.frame_zoom ?_); exact fun _ _ => ⟨rfl, Or.inl rfl⟩)
    | ((with_reducible refine Frame.frame_id_list_loop (F := F) _ ?_ _); exact fun _ _ => ⟨rfl, Or.inl rfl⟩)
    | ((with_reducible refine Frame.frame_select_state _ _ ?_ ?_ ?_); exact fun _ _ => rfl; decide; decide)
    | ((with_reducible refine Frame.frame_set_state_ite ?_ ?_ ?_); exact fun _ _ => rfl; decide; decide)
    | ((with_reducible refine Frame.frame_update_if ?_); exact fun _ => ⟨rfl, Or.inl rfl⟩)
    | with_reducible apply Frame.frame_ite
    | unfold KFile.warn
    | split

theorem case_IN_CONTROL_SHELL_frame (line : Str) :
    Frame (entity_view)
      (ParseState.within .other) (case_IN_CONTROL_SHELL line : Run (Ctx F) Unit) := by
  unfold KFile.case_IN_CONTROL_SHELL
  repeat' first
    | ((with_reducible refine Frame.frame_assign ?_); exact fun _ _ => ⟨rfl, Or.inl rfl⟩)
    | ((with_reducible refine Frame.frame_update ?_); exact fun _ => ⟨rfl, Or.inl rfl⟩)
    | with_reducible refine Frame.frame_bind ?_ (fun _ => ?_)
    | ((with_reducible refine Frame.frame_set_state _ ?_ ?_); exact fun _ => rfl; decide)
    | with_reducible refine Frame.frame_try_catch ?_ (fun _ => ?_)
    | ((with_reducible refine Frame.frame_warn _ _ ?_); exact fun _ _ => rfl)
    | ((with_reducible refine Frame.frame_when_enabled ?_ ?_ ?_); exact fun _ => rfl; decide)
    | with_reducible exact Frame.frame_pure _
    | with_reducible exact Frame.frame_read
    | with_reducible exact Frame.frame_eval _
    | ((with_reducible refine Frame.frame_zoom ?_); exact fun _ _ => ⟨rfl, Or.inl rfl⟩)
    | ((with_reducible refine Frame.frame_id_list_loop (F := F) _ ?_ _); exact fun _ _ => ⟨rfl, Or.inl rfl⟩)
    | ((with_reducible refine Frame.frame_select_state _ _ ?_ ?_ ?_); exact fun _ _ => rfl; decide; decide)
    | ((with_reducible refine Frame.frame_set_state_ite ?_ ?_ ?_); exact fun _ _ => rfl; decide; decide)
    | ((with_reducible refine Frame.frame_update_if ?_); exact fun _ => ⟨rfl, Or.inl rfl⟩)
    | with_reducible apply Frame.frame_ite
    | unfold KFile.warn
    | split

theorem case_IN_CONTROL_CONTACT_frame (line : Str) :
    Frame (entity_view)
      (ParseState.within .other) (case_IN_CONTROL_CONTACT line : Run (Ctx F) Unit) := by
  unfold KFile.case_IN_CONTROL_CONTACT
  repeat' first
    | ((with_reducible refine Frame.frame_assign ?_); exact fun _ _ => ⟨rfl, Or.inl rfl⟩)
    | ((with_reducible refine Frame.frame_update ?_); exact fun _ => ⟨rfl, Or.inl rfl⟩)
    | with_reducible refine Frame.frame_bind ?_ (fun _ => ?_)
    | ((with_reducible refine Frame.frame_set_state _ ?_ ?_); exact fun _ => rfl; decide)
    | with_reducible refine Frame.frame_try_catch ?_ (fun _ => ?_)
    | ((with_reducible refine Frame.frame_warn _ _ ?_); exact fun _ _ => rfl)
    | ((with_reducible refine Frame.frame_when_enabled ?_ ?_ ?_); exact fun _ => rfl; decide)
    | with_reducible exact Frame.frame_pure _
    | with_reducible exact Frame.frame_read
    | with_reducible exact Frame.frame_eval _
    | ((with_reducible refine Frame.frame_zoom ?_); exact fun _ _ => ⟨rfl, Or.inl rfl⟩)
    | ((with_reducible refine Frame.frame_id_list_loop (F := F) _ ?_ _); exact fun _ _ => ⟨rfl, Or.inl rfl⟩)
    | ((with_reducible refine Frame.frame_select_state _ _ ?_ ?_ ?_); exact fun _ _ => rfl; decide; decide)
    | ((with_reducible refine Frame.frame_set_state_ite ?_ ?_ ?_); exact fun _ _ => rfl; decide; decide)
    | ((with_reducible refine Frame.frame_update_if ?_); exact fun _ => ⟨rfl, Or.inl rfl⟩)
    | with_reducible apply Frame.frame_ite
    | unfold KFile.warn
    | split

theorem case_IN_CONTROL_HOURGLASS_frame (line : Str) :
    Frame (entity_view)
      (ParseState.within .other) (case_IN_CONTROL_HOURGLASS line : Run (Ctx F) Unit) := by
  unfold KFile.case_IN_CONTROL_HOURGLASS
  repeat' first
    | ((with_reducible refine Frame.frame_assign ?_); exact fun _ _ => ⟨rfl, Or.inl rfl⟩)
    | ((with_reducible refine Frame.frame_update ?_); exact fun _ => ⟨rfl, Or.inl rfl⟩)
    | with_reducible refine Frame.frame_bind ?_ (fun _ => ?_)
    | ((with_reducible refine Frame.frame_set_state _ ?_ ?_); exact fun _ => rfl; decide)
    | with_reducible refine Frame.frame_try_catch ?_ (fun _ => ?_)
    | ((with_reducible refine Frame.frame_warn _ _ ?_); exact fun _ _ => rfl)
    | ((with_reducible refine Frame.frame_when_enabled ?_ ?_ ?_); exact fun _ => rfl; decide)
    | with_reducible exact Frame.frame_pure _
    | with_reducible exact Frame.frame_read
    | with_reducible exact Frame.frame_eval _
    | ((with_reducible refine Frame.frame_zoom ?_); exact fun _ _ => ⟨rfl, Or.inl rfl⟩)
    | ((with_reducible refine Frame.frame_id_list_loop (F := F) _ ?_ _); exact fun _ _ => ⟨rfl, Or.inl rfl⟩)
    | ((with_reducible refine Frame.frame_select_state _ _ ?_ ?_ ?_); exact fun _ _ => rfl; decide; decide)
    | ((with_reducible refine Frame.frame_set_state_ite ?_ ?_ ?_); exact fun _ _ => rfl; decide; decide)
    | ((with_reducible refine Frame.frame_update_if ?_); exact fun _ => ⟨rfl, Or.inl rfl⟩)
    | with_reducible apply Frame.frame_ite
    | unfold KFile.warn
    | split

theorem case_IN_CONTROL_BULK_VISCOSITY_frame (line : Str) :
    Frame (entity_view)
      (ParseState.within .other) (case_IN_CONTROL_BULK_VISCOSITY line : Run (Ctx F) Unit) := by
  unfold KFile.case_IN_CONTROL_BULK_VISCOSITY
  repeat' first
    | ((with_reducible refine Frame.frame_assign ?_); exact fun _ _ => ⟨rfl, Or.inl rfl⟩)
    | ((with_reducible refine Frame.frame_update ?_); exact fun _ => ⟨rfl, Or.inl rfl⟩)
    | with_reducible refine Frame.frame_bind ?_ (fun _ => ?_)
    | ((with_reducible refine Frame.frame_set_state _ ?_ ?_); exact fun _ => rfl; decide)
    | with_reducible refine Frame.frame_try_catch ?_ (fun _ => ?_)
    | ((with_reducible refine Frame.frame_warn _ _ ?_); exact fun _ _ => rfl)
    | ((with_reducible refine Frame.frame_when_enabled ?_ ?_ ?_); exact fun _ => rfl; decide)
    | with_reducible exact Frame.frame_pure _
    | with_reducible exact Frame.frame_read
    | with_reducible exact Frame.frame_eval _
    | ((with_reducible refine Frame.frame_zoom ?_); exact fun _ _ => ⟨rfl, Or.inl rfl⟩)
    | ((with_reducible refine Frame.frame_id_list_loop (F := F) _ ?_ _); exact fun _ _ => ⟨rfl, Or.inl rfl⟩)
    | ((with_reducible refine Frame.frame_select_state _ _ ?_ ?_ ?_); exact fun _ _ => rfl; decide; decide)
    | ((with_reducible refine Frame.frame_set_state_ite ?_ ?_ ?_); exact fun _ _ => rfl; decide; decide)
    | ((with_reducible refine Frame.frame_update_if ?_); exact fun _ => ⟨rfl, Or.inl rfl⟩)
    | with_reducible apply Frame.frame_ite
    | unfold KFile.warn
    | split

theorem case_IN_DATABASE_BINARY_frame (line : Str) :
    Frame (entity_view)
      (ParseState.within .other) (case_IN_DATABASE_BINARY line : Run (Ctx F) Unit) := by
  unfold KFile.case_IN_DATABASE_BINARY
  repeat' first
    | ((with_reducible refine Frame.frame_assign ?_); exact fun _ _ => ⟨rfl, Or.inl rfl⟩)
    | ((with_reducible refine Frame.frame_update ?_); exact fun _ => ⟨rfl, Or.inl rfl⟩)
    | with_reducible refine Frame.frame_bind ?_ (fun _ => ?_)
    | ((with_reducible refine Frame.frame_set_state _ ?_ ?_); exact fun _ => rfl; decide)
    | with_reducible refine Frame.frame_try_catch ?_ (fun _ => ?_)
    | ((with_reducible refine Frame.frame_warn _ _ ?_); exact fun _ _ => rfl)
    | ((with_reducible refine Frame.frame_when_enabled ?_ ?_ ?_); exact fun _ => rfl; decide)
    | with_reducible exact Frame.frame_pure _
    | with_reducible exact Frame.frame_read
    | with_reducible exact Frame.frame_eval _
    | ((with_reducible refine Frame.frame_zoom ?_); exact fun _ _ => ⟨rfl, Or.inl rfl⟩)
    | ((with_reducible refine Frame.frame_id_list_loop (F := F) _ ?_ _); exact fun _ _ => ⟨rfl, Or.inl rfl⟩)
    | ((with_reducible refine Frame.frame_select_state _ _ ?_ ?_ ?_); exact fun _ _ => rfl; decide; decide)
    | ((with_reducible refine Frame.frame_set_state_ite ?_ ?_ ?_); exact fun _ _ => rfl; decide; decide)
    | ((with_reducible refine Frame.frame_update_if ?_); exact fun _ => ⟨rfl, Or.inl rfl⟩)
    | with_reducible apply Frame.frame_ite
    | unfold KFile.warn
    | split

theorem case_IN_DATABASE_ASCII_frame (line : Str) :
    Frame (entity_view)
      (ParseState.within .other) (case_IN_DATABASE_ASCII line : Run (Ctx F) Unit) := by
  unfold KFile.case_IN_DATABASE_ASCII
  repeat' first
    | ((with_reducible refine Frame.frame_assign ?_); exact fun _ _ => ⟨rfl, Or.inl rfl⟩)
    | ((with_reducible refine Frame.frame_update ?_); exact fun _ => ⟨rfl, Or.inl rfl⟩)
    | with_reducible refine Frame.frame_bind ?_ (fun _ => ?_)
    | ((with_reducible refine Frame.frame_set_state _ ?_ ?_); exact fun _ => rfl; decide)
    | with_reducible refine Frame.frame_try_catch ?_ (fun _ => ?_)
    | ((with_reducible refine Frame.frame_warn _ _ ?_); exact fun _ _ => rfl)
    | ((with_reducible refine Frame.frame_when_enabled ?_ ?_ ?_); exact fun _ => rfl; decide)
    | with_reducible exact Frame.frame_pure _
    | with_reducible exact Frame.frame_read
    | with_reducible exact Frame.frame_eval _
    | ((with_reducible refine Frame.frame_zoom ?_); exact fun _ _ => ⟨rfl, Or.inl rfl⟩)
    | ((with_reducible refine Frame.frame_id_list_loop (F := F) _ ?_ _); exact fun _ _ => ⟨rfl, Or.inl rfl⟩)
    | ((with_reducible refine Frame.frame_select_state _ _ ?_ ?_ ?_); exact fun _ _ => rfl; decide; decide)
    | ((with_reducible refine Frame.frame_set_state_ite ?_ ?_ ?_); exact fun _ _ => rfl; decide; decide)
    | ((with_reducible refine Frame.frame_update_if ?_); exact fun _ => ⟨rfl, Or.inl rfl⟩)
    | with_reducible apply Frame.frame_ite
    | unfold KFile.warn
    | split

theorem case_IN_DATABASE_HISTORY_NODE_frame (line : Str) :
    Frame (entity_view)
      (ParseState.within .other) (case_IN_DATABASE_HISTORY_NODE line : Run (Ctx F) Unit) := by
  unfold KFile.case_IN_DATABASE_HISTORY_NODE
  repeat' first
    | ((with_reducible refine Frame.frame_assign ?_); exact fun _ _ => ⟨rfl, Or.inl rfl⟩)
    | ((with_reducible refine Frame.frame_update ?_); exact fun _ => ⟨rfl, Or.inl rfl⟩)
    | with_reducible refine Frame.frame_bind ?_ (fun _ => ?_)
    | ((with_reducible refine Frame.frame_set_state _ ?_ ?_); exact fun _ => rfl; decide)
    | with_reducible refine Frame.frame_try_catch ?_ (fun _ => ?_)
    | ((with_reducible refine Frame.frame_warn _ _ ?_); exact fun _ _ => rfl)
    | ((with_reducible refine Frame.frame_when_enabled ?_ ?_ ?_); exact fun _ => rfl; decide)
    | with_reducible exact Frame.frame_pure _
    | with_reducible exact Frame.frame_read
    | with_reducible exact Frame.frame_eval _
    | ((with_reducible refine Frame.frame_zoom ?_); exact fun _ _ => ⟨rfl, Or.inl rfl⟩)
    | ((with_reducible refine Frame.frame_id_list_loop (F := F) _ ?_ _); exact fun _ _ => ⟨rfl, Or.inl rfl⟩)
    | ((with_reducible refine Frame.frame_select_state _ _ ?_ ?_ ?_); exact fun _ _ => rfl; decide; decide)
    | ((with_reducible refine Frame.frame_set_state_ite ?_ ?_ ?_); exact fun _ _ => rfl; decide; decide)
    | ((with_reducible refine Frame.frame_update_if ?_); exact fun _ => ⟨rfl, Or.inl rfl⟩)
    | with_reducible apply Frame.frame_ite
    | unfold KFile.warn
    | split

theorem case_IN_DATABASE_HISTORY_ELEMENT_frame (line : Str) :
    Frame (entity_view)
      (ParseState.within .other) (case_IN_DATABASE_HISTORY_ELEMENT line : Run (Ctx F) Unit) := by
  unfold KFile.case_IN_DATABASE_HISTORY_ELEMENT
  repeat' first
    | ((with_reducible refine Frame.frame_assign ?_); exact fun _ _ => ⟨rfl, Or.inl rfl⟩)
    | ((with_reducible refine Frame.frame_update ?_); exact fun _ => ⟨rfl, Or.inl rfl⟩)
    | with_reducible refine Frame.frame_bind ?_ (fun _ => ?_)
    | ((with_reducible refine Frame.frame_set_state _ ?_ ?_); exact fun _ => rfl; decide)
    | with_reducible refine Frame.frame_try_catch ?_ (fun _ => ?_)
    | ((with_reducible refine Frame.frame_warn _ _ ?_); exact fun _ _ => rfl)
    | ((with_reducible refine Frame.frame_when_enabled ?_ ?_ ?_); exact fun _ => rfl; decide)
    | with_reducible exact Frame.frame_pure _
    | with_reducible exact Frame.frame_read
    | with_reducible exact Frame.frame_eval _
    | ((with_reducible refine Frame.frame_zoom ?_); exact fun _ _ => ⟨rfl, Or.inl rfl⟩)
    | ((with_reducible refine Frame.frame_id_list_loop (F := F) _ ?_ _); exact fun _ _ => ⟨rfl, Or.inl rfl⟩)
    | ((with_reducible refine Frame.frame_select_state _ _ ?_ ?_ ?_); exact fun _ _ => rfl; decide; decide)
    | ((with_reducible refine Frame.frame_set_state_ite ?_ ?_ ?_); exact fun _ _ => rfl; decide; decide)
    | ((with_reducible refine Frame.frame_update_if ?_); exact fun _ => ⟨rfl, Or.inl rfl⟩)
    | with_reducible apply Frame.frame_ite
    | unfold KFile.warn
    | split

theorem case_IN_DATABASE_CROSS_SECTION_frame (line : Str) :
    Frame (entity_view)
      (ParseState.within .other) (case_IN_DATABASE_CROSS_SECTION line : Run (Ctx F) Unit) := by
  unfold KFile.case_IN_DATABASE_CROSS_SECTION
  repeat' first
    | ((with_reducible refine Frame.frame_assign ?_); exact fun _ _ => ⟨rfl, Or.inl rfl⟩)
    | ((with_reducible refine Frame.frame_update ?_); exact fun _ => ⟨rfl, Or.inl rfl⟩)
    | with_reducible refine Frame.frame_bind ?_ (fun _ => ?_)
    | ((with_reducible refine Frame.frame_set_state _ ?_ ?_); exact fun _ => rfl; decide)
    | with_reducible refine Frame.frame_try_catch ?_ (fun _ => ?_)
    | ((with_reducible refine Frame.frame_warn _ _ ?_); exact fun _ _ => rfl)
    | ((with_reducible refine Frame.frame_when_enabled ?_ ?_ ?_); exact fun _ => rfl; decide)
    | with_reducible exact Frame.frame_pure _
    | with_reducible exact Frame.frame_read
    | with_reducible exact Frame.frame_eval _
    | ((with_reducible refine Frame.frame_zoom ?_); exact fun _ _ => ⟨rfl, Or.inl rfl⟩)
    | ((with_reducible refine Frame.frame_id_list_loop (F := F) _ ?_ _); exact fun _ _ => ⟨rfl, Or.inl rfl⟩)
    | ((with_reducible refine Frame.frame_select_state _ _ ?_ ?_ ?_); exact fun _ _ => rfl; decide; decide)
    | ((with_reducible refine Frame.frame_set_state_ite ?_ ?_ ?_); exact fun _ _ => rfl; decide; decide)
    | ((with_reducible refine Frame.frame_update_if ?_); exact fun _ => ⟨rfl, Or.inl rfl⟩)
    | with_reducible apply Frame.frame_ite
    | unfold KFile.warn
    | split

theorem case_IN_INITIAL_VELOCITY_frame (line : Str) :
    Frame (entity_view)
      (ParseState.within .other) (case_IN_INITIAL_VELOCITY line : Run (Ctx F) Unit) := by
  unfold KFile.case_IN_INITIAL_VELOCITY
  repeat' first
    | ((with_reducible refine Frame.frame_assign ?_); exact fun _ _ => ⟨rfl, Or.inl rfl⟩)
    | ((with_reducible refine Frame.frame_update ?_); exact fun _ => ⟨rfl, Or.inl rfl⟩)
    | with_reducible refine Frame.frame_bind ?_ (fun _ => ?_)
    | ((with_reducible refine Frame.frame_set_state _ ?_ ?_); exact fun _ => rfl; decide)
    | with_reducible refine Frame.frame_try_catch ?_ (fun _ => ?_)
    | ((with_reducible refine Frame.frame_warn _ _ ?_); exact fun _ _ => rfl)
    | ((with_reducible refine Frame.frame_when_enabled ?_ ?_ ?_); exact fun _ => rfl; decide)
    | with_reducible exact Frame.frame_pure _
    | with_reducible exact Frame.frame_read
    | with_reducible exact Frame.frame_eval _
    | ((with_reducible refine Frame.frame_zoom ?_); exact fun _ _ => ⟨rfl, Or.inl rfl⟩)
    | ((with_reducible refine Frame.frame_id_list_loop (F := F) _ ?_ _); exact fun _ _ => ⟨rfl, Or.inl rfl⟩)
    | ((with_reducible refine Frame.frame_select_state _ _ ?_ ?_ ?_); exact fun _ _ => rfl; decide; decide)
    | ((with_reducible refine Frame.frame_set_state_ite ?_ ?_ ?_); exact fun _ _ => rfl; decide; decide)
    | ((with_reducible refine Frame.frame_update_if ?_); exact fun _ => ⟨rfl, Or.inl rfl⟩)
    | with_reducible apply Frame.frame_ite
    | unfold KFile.warn
    | unfold KFile.push_current_initial_velocity
    | split

theorem case_IN_INITIAL_VELOCITY_GENERATION_frame (line : Str) :
    Frame (entity_view)
      (ParseState.within .other) (case_IN_INITIAL_VELOCITY_GENERATION line : Run (Ctx F) Unit) := by
  unfold KFile.case_IN_INITIAL_VELOCITY_GENERATION
  repeat' first
    | ((with_reducible refine Frame.frame_assign ?_); exact fun _ _ => ⟨rfl, Or.inl rfl⟩)
    | ((with_reducible refine Frame.frame_update ?_); exact fun _ => ⟨rfl, Or.inl rfl⟩)
    | with_reducible refine Frame.frame_bind ?_ (fun _ => ?_)
    | ((with_reducible refine Frame.frame_set_state _ ?_ ?_); exact fun _ => rfl; decide)
    | with_reducible refine Frame.frame_try_catch ?_ (fun _ => ?_)
    | ((with_reducible refine Frame.frame_warn _ _ ?_); exact fun _ _ => rfl)
    | ((with_reducible refine Frame.frame_when_enabled ?_ ?_ ?_); exact fun _ => rfl; decide)
    | with_reducible exact Frame.frame_pure _
    | with_reducible exact Frame.frame_read
    | with_reducible exact Frame.frame_eval _
    | ((with_reducible refine Frame.frame_zoom ?_); exact fun _ _ => ⟨rfl, Or.inl rfl⟩)
    | ((with_reducible refine Frame.frame_id_list_loop (F := F) _ ?_ _); exact fun _ _ => ⟨rfl, Or.inl rfl⟩)
    | ((with_reducible refine Frame.frame_select_state _ _ ?_ ?_ ?_); exact fun _ _ => rfl; decide; decide)
    | ((with_reducible refine Frame.frame_set_state_ite ?_ ?_ ?_); exact fun _ _ => rfl; decide; decide)
    | ((with_reducible refine Frame.frame_update_if ?_); exact fun _ => ⟨rfl, Or.inl rfl⟩)
    | with_reducible apply Frame.frame_ite
    | unfold KFile.warn
    | unfold KFile.push_current_initial_velocity
    | split

theorem case_IN_CONSTRAINED_NODAL_RIGID_BODY_frame (line : Str) :
    Frame (entity_view)
      (ParseState.within .other) (case_IN_CONSTRAINED_NODAL_RIGID_BODY line : Run (Ctx F) Unit) := by
  unfold KFile.case_IN_CONSTRAINED_NODAL_RIGID_BODY
  repeat' first
    | ((with_reducible refine Frame.frame_assign ?_); exact fun _ _ => ⟨rfl, Or.inl rfl⟩)
    | ((with_reducible refine Frame.frame_update ?_); exact fun _ => ⟨rfl, Or.inl rfl⟩)
    | with_reducible refine Frame.frame_bind ?_ (fun _ => ?_)
    | ((with_reducible refine Frame.frame_set_state _ ?_ ?_); exact fun _ => rfl; decide)
    | with_reducible refine Frame.frame_try_catch ?_ (fun _ => ?_)
    | ((with_reducible refine Frame.frame_warn _ _ ?_); exact fun _ _ => rfl)
    | ((with_reducible refine Frame.frame_when_enabled ?_ ?_ ?_); exact fun _ => rfl; decide)
    | with_reducible exact Frame.frame_pure _
    | with_reducible exact Frame.frame_read
    | with_reducible exact Frame.frame_eval _
    | ((with_reducible refine Frame.frame_zoom ?_); exact fun _ _ => ⟨rfl, Or.inl rfl⟩)
    | ((with_reducible refine Frame.frame_id_list_loop (F := F) _ ?_ _); exact fun _ _ => ⟨rfl, Or.inl rfl⟩)
    | ((with_reducible refine Frame.frame_select_state _ _ ?_ ?_ ?_); exact fun _ _ => rfl; decide; decide)
    | ((with_reducible refine Frame.frame_set_state_ite ?_ ?_ ?_); exact fun _ _ => rfl; decide; decide)
    | ((with_reducible refine Frame.frame_update_if ?_); exact fun _ => ⟨rfl, Or.inl rfl⟩)
    | with_reducible apply Frame.frame_ite
    | unfold KFile.warn
    | unfold KFile.push_current_nodal_rigid_body
    | split

theorem case_IN_CONSTRAINED_NODAL_RIGID_BODY_INERTIA_frame (line : Str) :
    Frame (entity_view)
      (ParseState.within .other) (case_IN_CONSTRAINED_NODAL_RIGID_BODY_INERTIA line : Run (Ctx F) Unit) := by
  unfold KFile.case_IN_CONSTRAINED_NODAL_RIGID_BODY_INERTIA
  repeat' first
    | ((with_reducible refine Frame.frame_assign ?_); exact fun _ _ => ⟨rfl, Or.inl rfl⟩)
    | ((with_reducible refine Frame.frame_update ?_); exact fun _ => ⟨rfl, Or.inl rfl⟩)
    | with_reducible refine Frame.frame_bind ?_ (fun _ => ?_)
    | ((with_reducible refine Frame.frame_set_state _ ?_ ?_); exact fun _ => rfl; decide)
    | with_reducible refine Frame.frame_try_catch ?_ (fun _ => ?_)
    | ((with_reducible refine Frame.frame_warn _ _ ?_); exact fun _ _ => rfl)
    | ((with_reducible refine Frame.frame_when_enabled ?_ ?_ ?_); exact fun _ => rfl; decide)
    | with_reducible exact Frame.frame_pure _
    | with_reducible exact Frame.frame_read
    | with_reducible exact Frame.frame_eval _
    | ((with_reducible refine Frame.frame_zoom ?_); exact fun _ _ => ⟨rfl, Or.inl rfl⟩)
    | ((with_reducible refine Frame.frame_id_list_loop (F := F) _ ?_ _); exact fun _ _ => ⟨rfl, Or.inl rfl⟩)
    | ((with_reducible refine Frame.frame_select_state _ _ ?_ ?_ ?_); exact fun _ _ => rfl; decide; decide)
    | ((with_reducible refine Frame.frame_set_state_ite ?_ ?_ ?_); exact fun _ _ => rfl; decide; decide)
    | ((with_reducible refine Frame.frame_update_if ?_); exact fun _ => ⟨rfl, Or.inl rfl⟩)
    | with_reducible apply Frame.frame_ite
    | unfold KFile.warn
    | unfold KFile.push_current_nodal_rigid_body
    | split

theorem case_IN_CONSTRAINED_EXTRA_NODES_frame (line : Str) :
    Frame (entity_view)
      (ParseState.within .other) (case_IN_CONSTRAINED_EXTRA_NODES line : Run (Ctx F) Unit) := by
  unfold KFile.case_IN_CONSTRAINED_EXTRA_NODES
  repeat' first
    | ((with_reducible refine Frame.frame_assign ?_); exact fun _ _ => ⟨rfl, Or.inl rfl⟩)
    | ((with_reducible refine Frame.frame_update ?_); exact fun _ => ⟨rfl, Or.inl rfl⟩)
    | with_reducible refine Frame.frame_bind ?_ (fun _ => ?_)
    | ((with_reducible refine Frame.frame_set_state _ ?_ ?_); exact fun _ => rfl; decide)
    | with_reducible refine Frame.frame_try_catch ?_ (fun _ => ?_)
    | ((with_reducible refine Frame.frame_warn _ _ ?_); exact fun _ _ => rfl)
    | ((with_reducible refine Frame.frame_when_enabled ?_ ?_ ?_); exact fun _ => rfl; decide)
    | with_reducible exact Frame.frame_pure _
    | with_reducible exact Frame.frame_read
    | with_reducible exact Frame.frame_eval _
    | ((with_reducible refine Frame.frame_zoom ?_); exact fun _ _ => ⟨rfl, Or.inl rfl⟩)
    | ((with_reducible refine Frame.frame_id_list_loop (F := F) _ ?_ _); exact fun _ _ => ⟨rfl, Or.inl rfl⟩)
    | ((with_reducible refine Frame.frame_select_state _ _ ?_ ?_ ?_); exact fun _ _ => rfl; decide; decide)
    | ((with_reducible refine Frame.frame_set_state_ite ?_ ?_ ?_); exact fun _ _ => rfl; decide; decide)
    | ((with_reducible refine Frame.frame_update_if ?_); exact fun _ => ⟨rfl, Or.inl rfl⟩)
    | with_reducible apply Frame.frame_ite
    | unfold KFile.warn
    | split

theorem case_IN_CONSTRAINED_JOINT_frame (line : Str) :
    Frame (entity_view)
      (ParseState.within .other) (case_IN_CONSTRAINED_JOINT line : Run (Ctx F) Unit) := by
  unfold KFile.case_IN_CONSTRAINED_JOINT
  repeat' first
    | ((with_reducible refine Frame.frame_assign ?_); exact fun _ _ => ⟨rfl, Or.inl rfl⟩)
    | ((with_reducible refine Frame.frame_update ?_); exact fun _ => ⟨rfl, Or.inl rfl⟩)
    | with_reducible refine Frame.frame_bind ?_ (fun _ => ?_)
    | ((with_reducible refine Frame.frame_set_state _ ?_ ?_); exact fun _ => rfl; decide)
    | with_reducible refine Frame.frame_try_catch ?_ (fun _ => ?_)
    | ((with_reducible refine Frame.frame_warn _ _ ?_); exact fun _ _ => rfl)
    | ((with_reducible refine Frame.frame_when_enabled ?_ ?_ ?_); exact fun _ => rfl; decide)
    | with_reducible exact Frame.frame_pure _
    | with_reducible exact Frame.frame_read
    | with_reducible exact Frame.frame_eval _
    | ((with_reducible refine Frame.frame_zoom ?_); exact fun _ _ => ⟨rfl, Or.inl rfl⟩)
    | ((with_reducible refine Frame.frame_id_list_loop (F := F) _ ?_ _); exact fun _ _ => ⟨rfl, Or.inl rfl⟩)
    | ((with_reducible refine Frame.frame_select_state _ _ ?_ ?_ ?_); exact fun _ _ => rfl; decide; decide)
    | ((with_reducible refine Frame.frame_set_state_ite ?_ ?_ ?_); exact fun _ _ => rfl; decide; decide)
    | ((with_reducible refine Frame.frame_update_if ?_); exact fun _ => ⟨rfl, Or.inl rfl⟩)
    | with_reducible apply Frame.frame_ite
    | unfold KFile.warn
    | split

theorem case_IN_CONSTRAINED_SPOTWELD_frame (line : Str) :
    Frame (entity_view)
      (ParseState.within .other) (case_IN_CONSTRAINED_SPOTWELD line : Run (Ctx F) Unit) := by
  unfold KFile.case_IN_CONSTRAINED_SPOTWELD
  repeat' first
    | ((with_reducible refine Frame.frame_assign ?_); exact fun _ _ => ⟨rfl, Or.inl rfl⟩)
    | ((with_reducible refine Frame.frame_update ?_); exact fun _ => ⟨rfl, Or.inl rfl⟩)
    | with_reducible refine Frame.frame_bind ?_ (fun _ => ?_)
    | ((with_reducible refine Frame.frame_set_state _ ?_ ?_); exact fun _ => rfl; decide)
    | with_reducible refine Frame.frame_try_catch ?_ (fun _ => ?_)
    | ((with_reducible refine Frame.frame_warn _ _ ?_); exact fun _ _ => rfl)
    | ((with_reducible refine Frame.frame_when_enabled ?_ ?_ ?_); exact fun _ => rfl; decide)
    | with_reducible exact Frame.frame_pure _
    | with_reducible exact Frame.frame_read
    | with_reducible exact Frame.frame_eval _
    | ((with_reducible refine Frame.frame_zoom ?_); exact fun _ _ => ⟨rfl, Or.inl rfl⟩)
    | ((with_reducible refine Frame.frame_id_list_loop (F := F) _ ?_ _); exact fun _ _ => ⟨rfl, Or.inl rfl⟩)
    | ((with_reducible refine Frame.frame_select_state _ _ ?_ ?_ ?_); exact fun _ _ => rfl; decide; decide)
    | ((with_reducible refine Frame.frame_set_state_ite ?_ ?_ ?_); exact fun _ _ => rfl; decide; decide)
    | ((with_reducible refine Frame.frame_update_if ?_); exact fun _ => ⟨rfl, Or.inl rfl⟩)
    | with_reducible apply Frame.frame_ite
    | unfold KFile.warn
    | split

end Frames

/-! ## The decoders built from the column decoders never throw -/

section DecodersOk

variable {F : Type} [DoubleModel F]

theorem parse_set_header_ok (line : Str) (type : SetType) :
    ∃ s : Set F, parse_set_header line type = .ok s := by
  unfold parse_set_header
  simp only [parse_int_eq, parse_double_eq, parse_string_field_eq]
  by_cases h : line.length > 50 <;> simp only [h, if_true, if_false] <;> exact ⟨_, rfl⟩

theorem material_card_values_ok (line : Str) (idx : List Nat) :
    ∀ acc : List F, ∃ cv : List F, material_card_values line idx acc = .ok cv := by
  induction idx with
  | nil => exact fun acc => ⟨acc, rfl⟩
  | cons i rest ih =>
    intro acc
    unfold material_card_values
    simp only [parse_double_eq]
    exact ih _

theorem decode_load_segment_ok (line : Str) :
    ∃ v : LoadSegment F, decode_load_segment line = .ok v := by
  unfold decode_load_segment
  simp only [parse_int_eq, parse_double_eq]
  exact ⟨_, rfl⟩

theorem decode_control_termination_ok (line : Str) :
    ∃ v : ControlTermination F, decode_control_termination line = .ok v := by
  unfold decode_control_termination
  simp only [parse_int_eq, parse_double_eq]
  exact ⟨_, rfl⟩

theorem decode_control_timestep_ok (line : Str) :
    ∃ v : ControlTimestep F, decode_control_timestep line = .ok v := by
  unfold decode_control_timestep
  simp only [parse_int_eq, parse_double_eq]
  exact ⟨_, rfl⟩

theorem decode_control_energy_ok (line : Str) :
    ∃ v : ControlEnergy, decode_control_energy line = .ok v := by
  unfold decode_control_energy
  simp only [parse_int_eq]
  exact ⟨_, rfl⟩

theorem decode_control_output_ok (line : Str) :
    ∃ v : ControlOutput, decode_control_output line = .ok v := by
  unfold decode_control_output
  simp only [parse_int_eq]
  exact ⟨_, rfl⟩

theorem decode_control_shell_ok (line : Str) :
    ∃ v : ControlShell F, decode_control_shell line = .ok v := by
  unfold decode_control_shell
  simp only [parse_int_eq, parse_double_eq]
  exact ⟨_, rfl⟩

theorem decode_control_contact_ok (line : Str) :
    ∃ v : ControlContact F, decode_control_contact line = .ok v := by
  unfold decode_control_contact
  simp only [parse_int_eq, parse_double_eq]
  exact ⟨_, rfl⟩

theorem decode_control_hourglass_ok (line : Str) :
    ∃ v : ControlHourglass F, decode_control_hourglass line = .ok v := by
  unfold decode_control_hourglass
  simp only [parse_int_eq, parse_double_eq]
  exact ⟨_, rfl⟩

theorem decode_control_bulk_viscosity_ok (line : Str) :
    ∃ v : ControlBulkViscosity F, decode_control_bulk_viscosity line = .ok v := by
  unfold decode_control_bulk_viscosity
  simp only [parse_int_eq, parse_double_eq]
  exact ⟨_, rfl⟩

theorem decode_database_cross_section_ok (line : Str) :
    ∃ v : DatabaseCrossSection F, decode_database_cross_section line = .ok v := by
  unfold decode_database_cross_section
  simp only [parse_int_eq]
  exact ⟨_, rfl⟩

end DecodersOk

/-! ## Rules for `Quiet` -/

section QuietRules

variable {F α β : Type}

theorem Quiet.quiet_pure (a : α) : Quiet (pure a : Run (Ctx F) α) :=
  fun _ => ⟨⟨a, rfl⟩, rfl⟩

theorem Quiet.quiet_read : Quiet (Run.read : Run (Ctx F) (Ctx F)) :=
  fun c => ⟨⟨c, rfl⟩, rfl⟩

theorem Quiet.quiet_eval {x : Except Exn α} (h : ∃ v, x = .ok v) :
    Quiet (Run.eval x : Run (Ctx F) α) := by
  obtain ⟨v, rfl⟩ := h
  exact fun _ => ⟨⟨v, rfl⟩, rfl⟩

theorem Quiet.quiet_update {f : Ctx F → Ctx F}
    (h : ∀ c, (f c).result.warnings = c.result.warnings) : Quiet (Run.update f) :=
  fun c => ⟨⟨(), rfl⟩, h c⟩

theorem Quiet.quiet_update_if {p : Ctx F → Prop} [DecidablePred p] {g : Ctx F → Ctx F}
    (h : ∀ c, (g c).result.warnings = c.result.warnings) :
    Quiet (Run.update (fun c => if p c then g c else c)) := by
  intro c
  refine ⟨⟨(), rfl⟩, ?_⟩
  show (if p c then g c else c).result.warnings = c.result.warnings
  split
  · exact h c
  · rfl

theorem Quiet.quiet_assign {x : Except Exn α} {store : α → Ctx F → Ctx F}
    (hx : ∃ v, x = .ok v) (h : ∀ v c, (store v c).result.warnings = c.result.warnings) :
    Quiet (Run.assign x store) := by
  obtain ⟨v, rfl⟩ := hx
  exact fun c => ⟨⟨(), rfl⟩, h v c⟩

theorem Quiet.quiet_bind {m : Run (Ctx F) α} {f : α → Run (Ctx F) β}
    (hm : Quiet m) (hf : ∀ a, Quiet (f a)) : Quiet (m >>= f) := by
  intro c
  obtain ⟨⟨a, ha⟩, hw⟩ := hm c
  have e : (m >>= f) c = f a (m c).2 := by
    show Run.seq_bind m f c = _
    unfold Run.seq_bind
    cases hmc : m c with
    | mk r c1 =>
      rw [hmc] at ha
      simp only at ha
      subst ha
      rfl
  rw [e]
  exact ⟨(hf a _).1, ((hf a _).2).trans hw⟩

theorem Quiet.quiet_try_catch {body : Run (Ctx F) α} {handler : Exn → Run (Ctx F) α}
    (hb : Quiet body) : Quiet (Run.try_catch body handler) := by
  intro c
  obtain ⟨⟨a, ha⟩, hw⟩ := hb c
  have e : Run.try_catch body handler c = body c := by
    unfold Run.try_catch
    cases hbc : body c with
    | mk r c1 =>
      rw [hbc] at ha
      simp only at ha
      subst ha
      rfl
  rw [e]
  exact ⟨⟨a, ha⟩, hw⟩

theorem Quiet.quiet_ite {p : Prop} [Decidable p] {a b : Run (Ctx F) α}
    (ha : Quiet a) (hb : Quiet b) : Quiet (if p then a else b) := by
  split
  · exact ha
  · exact hb

theorem Quiet.quiet_ite_cases {p : Prop} [Decidable p] {a b : Run (Ctx F) α}
    (ha : p → Quiet a) (hb : ¬p → Quiet b) : Quiet (if p then a else b) := by
  split
  · exact ha (by assumption)
  · exact hb (by assumption)

theorem Quiet.quiet_set_state (st : ParseState) : Quiet (KFile.set_state st : Run (Ctx F) Unit) :=
  fun _ => ⟨⟨(), rfl⟩, rfl⟩

theorem Quiet.quiet_select_state (flag : KFileParser F → Bool) (st : ParseState) :
    Quiet (KFile.select_state flag st) :=
  fun _ => ⟨⟨(), rfl⟩, rfl⟩

theorem Quiet.quiet_when_enabled {flag : KFileParser F → Bool} {body : Run (Ctx F) Unit}
    (hb : Quiet body) : Quiet (KFile.when_enabled flag body) := by
  intro c
  unfold KFile.when_enabled
  split
  · exact hb c
  · exact ⟨⟨(), rfl⟩, rfl⟩

theorem Quiet.quiet_zoom {τ : Type} {get : Ctx F → τ} {put : τ → Ctx F → Ctx F} {m : Run τ α}
    (hm : Run.Total m) (h : ∀ t c, (put t c).result.warnings = c.result.warnings) :
    Quiet (Run.zoom get put m) := by
  intro c
  obtain ⟨a, ha⟩ := hm (get c)
  exact ⟨⟨a, ha⟩, h _ c⟩

end QuietRules

section QuietLoops

variable {F : Type}

theorem Quiet.quiet_id_list_loop (line : Str) {add : Int → Ctx F → Ctx F}
    (h : ∀ id c, (add id c).result.warnings = c.result.warnings) (idx : List Nat) :
    Quiet (KFile.id_list_loop line add idx) := by
  induction idx with
  | nil => exact Quiet.quiet_pure _
  | cons i rest ih =>
    unfold KFile.id_list_loop
    repeat' first
      | exact ih
      | exact Quiet.quiet_pure _
      | exact Quiet.quiet_eval ⟨_, parse_int_eq _ _ _⟩
      | exact Quiet.quiet_update (h _)
      | refine Quiet.quiet_bind ?_ (fun _ => ?_)
      | apply Quiet.quiet_ite

theorem parse_set_data_line_total (line : Str) :
    Run.Total (parse_set_data_line line : Run (Set F) Unit) :=
  fun s => ⟨(), by rw [parse_set_data_line_eq]⟩

theorem parse_segment_data_line_total (line : Str) :
    Run.Total (parse_segment_data_line line : Run (Set F) Unit) := by
  unfold parse_segment_data_line
  repeat' first
    | exact Run.Total.total_eval ⟨_, parse_int_eq _ _ _⟩
    | exact Run.Total.total_update _
    | refine Run.Total.total_bind ?_ (fun _ => ?_)

end QuietLoops

/-! ## No branch of `process_line` throws or warns

The column decoders never throw, so no `try` block of a data case is ever left by an
exception, and no branch appends to `result.warnings`. -/

section QuietBranches

variable {F : Type} [DoubleModel F]

set_option linter.unusedTactic false
set_option linter.unreachableTactic false
set_option linter.unusedVariables false
set_option linter.unusedSectionVars false

theorem begin_set_quiet (u : Str) (type : SetType) (header : ParseState) :
    Quiet (begin_set u type header : Run (Ctx F) Unit) := by
  unfold KFile.begin_set
  repeat' first
    | unfold KFile.push_current_set
    | ((with_reducible refine Quiet.quiet_assign ⟨_, parse_int_eq _ _ _⟩ ?_); exact fun _ _ => rfl)
    | ((with_reducible refine Quiet.quiet_assign ⟨_, parse_double_eq _ _ _⟩ ?_); exact fun _ _ => rfl)
    | ((with_reducible refine Quiet.quiet_update ?_); exact fun _ => rfl)
    | with_reducible refine Quiet.quiet_bind ?_ (fun _ => ?_)
    | with_reducible exact Quiet.quiet_set_state _
    | with_reducible refine Quiet.quiet_try_catch ?_
    | with_reducible refine Quiet.quiet_when_enabled ?_
    | with_reducible exact Quiet.quiet_pure _
    | with_reducible exact Quiet.quiet_read
    | with_reducible exact Quiet.quiet_eval ⟨_, parse_int_eq _ _ _⟩
    | with_reducible exact Quiet.quiet_eval ⟨_, parse_double_eq _ _ _⟩
    | ((with_reducible refine Quiet.quiet_assign ⟨_, parse_string_field_eq _ _ _⟩ ?_); exact fun _ _ => rfl)
    | with_reducible exact Quiet.quiet_select_state _ _
    | ((with_reducible refine Quiet.quiet_update_if ?_); exact fun _ => rfl)
    | with_reducible apply Quiet.quiet_ite
    | split

theorem begin_section_quiet (u : Str) (type : SectionType) (title header : ParseState) :
    Quiet (begin_section u type title header : Run (Ctx F) Unit) := by
  unfold KFile.begin_section
  repeat' first
    | ((with_reducible refine Quiet.quiet_assign ⟨_, parse_int_eq _ _ _⟩ ?_); exact fun _ _ => rfl)
    | ((with_reducible refine Quiet.quiet_assign ⟨_, parse_double_eq _ _ _⟩ ?_); exact fun _ _ => rfl)
    | ((with_reducible refine Quiet.quiet_update ?_); exact fun _ => rfl)
    | with_reducible refine Quiet.quiet_bind ?_ (fun _ => ?_)
    | with_reducible exact Quiet.quiet_set_state _
    | with_reducible refine Quiet.quiet_try_catch ?_
    | with_reducible refine Quiet.quiet_when_enabled ?_
    | with_reducible exact Quiet.quiet_pure _
    | with_reducible exact Quiet.quiet_read
    | with_reducible exact Quiet.quiet_eval ⟨_, parse_int_eq _ _ _⟩
    | with_reducible exact Quiet.quiet_eval ⟨_, parse_double_eq _ _ _⟩
    | ((with_reducible refine Quiet.quiet_assign ⟨_, parse_string_field_eq _ _ _⟩ ?_); exact fun _ _ => rfl)
    | with_reducible exact Quiet.quiet_select_state _ _
    | ((with_reducible refine Quiet.quiet_update_if ?_); exact fun _ => rfl)
    | with_reducible apply Quiet.quiet_ite
    | split

theorem begin_curve_quiet (u : Str) :
    Quiet (begin_curve u : Run (Ctx F) Unit) := by
  unfold KFile.begin_curve
  repeat' first
    | unfold KFile.push_current_curve
    | ((with_reducible refine Quiet.quiet_assign ⟨_, parse_int_eq _ _ _⟩ ?_); exact fun _ _ => rfl)
    | ((with_reducible refine Quiet.quiet_assign ⟨_, parse_double_eq _ _ _⟩ ?_); exact fun _ _ => rfl)
    | ((with_reducible refine Quiet.quiet_update ?_); exact fun _ => rfl)
    | with_reducible refine Quiet.quiet_bind ?_ (fun _ => ?_)
    | with_reducible exact Quiet.quiet_set_state _
    | with_reducible refine Quiet.quiet_try_catch ?_
    | with_reducible refine Quiet.quiet_when_enabled ?_
    | with_reducible exact Quiet.quiet_pure _
    | with_reducible exact Quiet.quiet_read
    | with_reducible exact Quiet.quiet_eval ⟨_, parse_int_eq _ _ _⟩
    | with_reducible exact Quiet.quiet_eval ⟨_, parse_double_eq _ _ _⟩
    | ((with_reducible refine Quiet.quiet_assign ⟨_, parse_string_field_eq _ _ _⟩ ?_); exact fun _ _ => rfl)
    | with_reducible exact Quiet.quiet_select_state _ _
    | ((with_reducible refine Quiet.quiet_update_if ?_); exact fun _ => rfl)
    | with_reducible apply Quiet.quiet_ite
    | split

theorem begin_boundary_spc_quiet (u : Str) :
    Quiet (begin_boundary_spc u : Run (Ctx F) Unit) := by
  unfold KFile.begin_boundary_spc
  repeat' first
    | ((with_reducible refine Quiet.quiet_assign ⟨_, parse_int_eq _ _ _⟩ ?_); exact fun _ _ => rfl)
    | ((with_reducible refine Quiet.quiet_assign ⟨_, parse_double_eq _ _ _⟩ ?_); exact fun _ _ => rfl)
    | ((with_reducible refine Quiet.quiet_update ?_); exact fun _ => rfl)
    | with_reducible refine Quiet.quiet_bind ?_ (fun _ => ?_)
    | with_reducible exact Quiet.quiet_set_state _
    | with_reducible refine Quiet.quiet_try_catch ?_
    | with_reducible refine Quiet.quiet_when_enabled ?_
    | with_reducible exact Quiet.quiet_pure _
    | with_reducible exact Quiet.quiet_read
    | with_reducible exact Quiet.quiet_eval ⟨_, parse_int_eq _ _ _⟩
    | with_reducible exact Quiet.quiet_eval ⟨_, parse_double_eq _ _ _⟩
    | ((with_reducible refine Quiet.quiet_assign ⟨_, parse_string_field_eq _ _ _⟩ ?_); exact fun _ _ => rfl)
    | with_reducible exact Quiet.quiet_select_state _ _
    | ((with_reducible refine Quiet.quiet_update_if ?_); exact fun _ => rfl)
    | with_reducible apply Quiet.quiet_ite
    | split

theorem begin_boundary_motion_quiet (u : Str) :
    Quiet (begin_boundary_motion u : Run (Ctx F) Unit) := by
  unfold KFile.begin_boundary_motion
  repeat' first
    | ((with_reducible refine Quiet.quiet_assign ⟨_, parse_int_eq _ _ _⟩ ?_); exact fun _ _ => rfl)
    | ((with_reducible refine Quiet.quiet_assign ⟨_, parse_double_eq _ _ _⟩ ?_); exact fun _ _ => rfl)
    | ((with_reducible refine Quiet.quiet_update ?_); exact fun _ => rfl)
    | with_reducible refine Quiet.quiet_bind ?_ (fun _ => ?_)
    | with_reducible exact Quiet.quiet_set_state _
    | with_reducible refine Quiet.quiet_try_catch ?_
    | with_reducible refine Quiet.quiet_when_enabled ?_
    | with_reducible exact Quiet.quiet_pure _
    | with_reducible exact Quiet.quiet_read
    | with_reducible exact Quiet.quiet_eval ⟨_, parse_int_eq _ _ _⟩
    | with_reducible exact Quiet.quiet_eval ⟨_, parse_double_eq _ _ _⟩
    | ((with_reducible refine Quiet.quiet_assign ⟨_, parse_string_field_eq _ _ _⟩ ?_); exact fun _ _ => rfl)
    | with_reducible exact Quiet.quiet_select_state _ _
    | ((with_reducible refine Quiet.quiet_update_if ?_); exact fun _ => rfl)
    | with_reducible apply Quiet.quiet_ite
    | split

theorem begin_load_node_quiet (u : Str) :
    Quiet (begin_load_node u : Run (Ctx F) Unit) := by
  unfold KFile.begin_load_node
  repeat' first
    | ((with_reducible refine Quiet.quiet_assign ⟨_, parse_int_eq _ _ _⟩ ?_); exact fun _ _ => rfl)
    | ((with_reducible refine Quiet.quiet_assign ⟨_, parse_double_eq _ _ _⟩ ?_); exact fun _ _ => rfl)
    | ((with_reducible refine Quiet.quiet_update ?_); exact fun _ => rfl)
    | with_reducible refine Quiet.quiet_bind ?_ (fun _ => ?_)
    | with_reducible exact Quiet.quiet_set_state _
    | with_reducible refine Quiet.quiet_try_catch ?_
    | with_reducible refine Quiet.quiet_when_enabled ?_
    | with_reducible exact Quiet.quiet_pure _
    | with_reducible exact Quiet.quiet_read
    | with_reducible exact Quiet.quiet_eval ⟨_, parse_int_eq _ _ _⟩
    | with_reducible exact Quiet.quiet_eval ⟨_, parse_double_eq _ _ _⟩
    | ((with_reducible refine Quiet.quiet_assign ⟨_, parse_string_field_eq _ _ _⟩ ?_); exact fun _ _ => rfl)
    | with_reducible exact Quiet.quiet_select_state _ _
    | ((with_reducible refine Quiet.quiet_update_if ?_); exact fun _ => rfl)
    | with_reducible apply Quiet.quiet_ite
    | split

theorem begin_load_body_quiet (u : Str) :
    Quiet (begin_load_body u : Run (Ctx F) Unit) := by
  unfold KFile.begin_load_body
  repeat' first
    | ((with_reducible refine Quiet.quiet_assign ⟨_, parse_int_eq _ _ _⟩ ?_); exact fun _ _ => rfl)
    | ((with_reducible refine Quiet.quiet_assign ⟨_, parse_double_eq _ _ _⟩ ?_); exact fun _ _ => rfl)
    | ((with_reducible refine Quiet.quiet_update ?_); exact fun _ => rfl)
    | with_reducible refine Quiet.quiet_bind ?_ (fun _ => ?_)
    | with_reducible exact Quiet.quiet_set_state _
    | with_reducible refine Quiet.quiet_try_catch ?_
    | with_reducible refine Quiet.quiet_when_enabled ?_
    | with_reducible exact Quiet.quiet_pure _
    | with_reducible exact Quiet.quiet_read
    | with_reducible exact Quiet.quiet_eval ⟨_, parse_int_eq _ _ _⟩
    | with_reducible exact Quiet.quiet_eval ⟨_, parse_double_eq _ _ _⟩
    | ((with_reducible refine Quiet.quiet_assign ⟨_, parse_string_field_eq _ _ _⟩ ?_); exact fun _ _ => rfl)
    | with_reducible exact Quiet.quiet_select_state _ _
    | ((with_reducible refine Quiet.quiet_update_if ?_); exact fun _ => rfl)
    | with_reducible apply Quiet.quiet_ite
    | split

theorem begin_database_binary_quiet (t : DatabaseType) :
    Quiet (begin_database_binary t : Run (Ctx F) Unit) := by
  unfold KFile.begin_database_binary
  repeat' first
    | ((with_reducible refine Quiet.quiet_assign ⟨_, parse_int_eq _ _ _⟩ ?_); exact fun _ _ => rfl)
    | ((with_reducible refine Quiet.quiet_assign ⟨_, parse_double_eq _ _ _⟩ ?_); exact fun _ _ => rfl)
    | ((with_reducible refine Quiet.quiet_update ?_); exact fun _ => rfl)
    | with_reducible refine Quiet.quiet_bind ?_ (fun _ => ?_)
    | with_reducible exact Quiet.quiet_set_state _
    | with_reducible refine Quiet.quiet_try_catch ?_
    | with_reducible refine Quiet.quiet_when_enabled ?_
    | with_reducible exact Quiet.quiet_pure _
    | with_reducible exact Quiet.quiet_read
    | with_reducible exact Quiet.quiet_eval ⟨_, parse_int_eq _ _ _⟩
    | with_reducible exact Quiet.quiet_eval ⟨_, parse_double_eq _ _ _⟩
    | ((with_reducible refine Quiet.quiet_assign ⟨_, parse_string_field_eq _ _ _⟩ ?_); exact fun _ _ => rfl)
    | with_reducible exact Quiet.quiet_select_state _ _
    | ((with_reducible refine Quiet.quiet_update_if ?_); exact fun _ => rfl)
    | with_reducible apply Quiet.quiet_ite
    | split

theorem begin_database_ascii_quiet (t : DatabaseType) :
    Quiet (begin_database_ascii t : Run (Ctx F) Unit) := by
  unfold KFile.begin_database_ascii
  repeat' first
    | ((with_reducible refine Quiet.quiet_assign ⟨_, parse_int_eq _ _ _⟩ ?_); exact fun _ _ => rfl)
    | ((with_reducible refine Quiet.quiet_assign ⟨_, parse_double_eq _ _ _⟩ ?_); exact fun _ _ => rfl)
    | ((with_reducible refine Quiet.quiet_update ?_); exact fun _ => rfl)
    | with_reducible refine Quiet.quiet_bind ?_ (fun _ => ?_)
    | with_reducible exact Quiet.quiet_set_state _
    | with_reducible refine Quiet.quiet_try_catch ?_
    | with_reducible refine Quiet.quiet_when_enabled ?_
    | with_reducible exact Quiet.quiet_pure _
    | with_reducible exact Quiet.quiet_read
    | with_reducible exact Quiet.quiet_eval ⟨_, parse_int_eq _ _ _⟩
    | with_reducible exact Quiet.quiet_eval ⟨_, parse_double_eq _ _ _⟩
    | ((with_reducible refine Quiet.quiet_assign ⟨_, parse_string_field_eq _ _ _⟩ ?_); exact fun _ _ => rfl)
    | with_reducible exact Quiet.quiet_select_state _ _
    | ((with_reducible refine Quiet.quiet_update_if ?_); exact fun _ => rfl)
    | with_reducible apply Quiet.quiet_ite
    | split

theorem begin_database_history_node_quiet :
    Quiet (begin_database_history_node : Run (Ctx F) Unit) := by
  unfold KFile.begin_database_history_node
  repeat' first
    | ((with_reducible refine Quiet.quiet_assign ⟨_, parse_int_eq _ _ _⟩ ?_); exact fun _ _ => rfl)
    | ((with_reducible refine Quiet.quiet_assign ⟨_, parse_double_eq _ _ _⟩ ?_); exact fun _ _ => rfl)
    | ((with_reducible refine Quiet.quiet_update ?_); exact fun _ => rfl)
    | with_reducible refine Quiet.quiet_bind ?_ (fun _ => ?_)
    | with_reducible exact Quiet.quiet_set_state _
    | with_reducible refine Quiet.quiet_try_catch ?_
    | with_reducible refine Quiet.quiet_when_enabled ?_
    | with_reducible exact Quiet.quiet_pure _
    | with_reducible exact Quiet.quiet_read
    | with_reducible exact Quiet.quiet_eval ⟨_, parse_int_eq _ _ _⟩
    | with_reducible exact Quiet.quiet_eval ⟨_, parse_double_eq _ _ _⟩
    | ((with_reducible refine Quiet.quiet_assign ⟨_, parse_string_field_eq _ _ _⟩ ?_); exact fun _ _ => rfl)
    | with_reducible exact Quiet.quiet_select_state _ _
    | ((with_reducible refine Quiet.quiet_update_if ?_); exact fun _ => rfl)
    | with_reducible apply Quiet.quiet_ite
    | split

theorem begin_database_history_element_quiet (t : Int) :
    Quiet (begin_database_history_element t : Run (Ctx F) Unit) := by
  unfold KFile.begin_database_history_element
  repeat' first
    | ((with_reducible refine Quiet.quiet_assign ⟨_, parse_int_eq _ _ _⟩ ?_); exact fun _ _ => rfl)
    | ((with_reducible refine Quiet.quiet_assign ⟨_, parse_double_eq _ _ _⟩ ?_); exact fun _ _ => rfl)
    | ((with_reducible refine Quiet.quiet_update ?_); exact fun _ => rfl)
    | with_reducible refine Quiet.quiet_bind ?_ (fun _ => ?_)
    | with_reducible exact Quiet.quiet_set_state _
    | with_reducible refine Quiet.quiet_try_catch ?_
    | with_reducible refine Quiet.quiet_when_enabled ?_
    | with_reducible exact Quiet.quiet_pure _
    | with_reducible exact Quiet.quiet_read
    | with_reducible exact Quiet.quiet_eval ⟨_, parse_int_eq _ _ _⟩
    | with_reducible exact Quiet.quiet_eval ⟨_, parse_double_eq _ _ _⟩
    | ((with_reducible refine Quiet.quiet_assign ⟨_, parse_string_field_eq _ _ _⟩ ?_); exact fun _ _ => rfl)
    | with_reducible exact Quiet.quiet_select_state _ _
    | ((with_reducible refine Quiet.quiet_update_if ?_); exact fun _ => rfl)
    | with_reducible apply Quiet.quiet_ite
    | split

theorem begin_initial_velocity_generation_quiet :
    Quiet (begin_initial_velocity_generation : Run (Ctx F) Unit) := by
  unfold KFile.begin_initial_velocity_generation
  repeat' first
    | ((with_reducible refine Quiet.quiet_assign ⟨_, parse_int_eq _ _ _⟩ ?_); exact fun _ _ => rfl)
    | ((with_reducible refine Quiet.quiet_assign ⟨_, parse_double_eq _ _ _⟩ ?_); exact fun _ _ => rfl)
    | ((with_reducible refine Quiet.quiet_update ?_); exact fun _ => rfl)
    | with_reducible refine Quiet.quiet_bind ?_ (fun _ => ?_)
    | with_reducible exact Quiet.quiet_set_state _
    | with_reducible refine Quiet.quiet_try_catch ?_
    | with_reducible refine Quiet.quiet_when_enabled ?_
    | with_reducible exact Quiet.quiet_pure _
    | with_reducible exact Quiet.quiet_read
    | with_reducible exact Quiet.quiet_eval ⟨_, parse_int_eq _ _ _⟩
    | with_reducible exact Quiet.quiet_eval ⟨_, parse_double_eq _ _ _⟩
    | ((with_reducible refine Quiet.quiet_assign ⟨_, parse_string_field_eq _ _ _⟩ ?_); exact fun _ _ => rfl)
    | with_reducible exact Quiet.quiet_select_state _ _
    | ((with_reducible refine Quiet.quiet_update_if ?_); exact fun _ => rfl)
    | with_reducible apply Quiet.quiet_ite
    | split

theorem begin_initial_velocity_quiet (u : Str) :
    Quiet (begin_initial_velocity u : Run (Ctx F) Unit) := by
  unfold KFile.begin_initial_velocity
  repeat' first
    | ((with_reducible refine Quiet.quiet_assign ⟨_, parse_int_eq _ _ _⟩ ?_); exact fun _ _ => rfl)
    | ((with_reducible refine Quiet.quiet_assign ⟨_, parse_double_eq _ _ _⟩ ?_); exact fun _ _ => rfl)
    | ((with_reducible refine Quiet.quiet_update ?_); exact fun _ => rfl)
    | with_reducible refine Quiet.quiet_bind ?_ (fun _ => ?_)
    | with_reducible exact Quiet.quiet_set_state _
    | with_reducible refine Quiet.quiet_try_catch ?_
    | with_reducible refine Quiet.quiet_when_enabled ?_
    | with_reducible exact Quiet.quiet_pure _
    | with_reducible exact Quiet.quiet_read
    | with_reducible exact Quiet.quiet_eval ⟨_, parse_int_eq _ _ _⟩
    | with_reducible exact Quiet.quiet_eval ⟨_, parse_double_eq _ _ _⟩
    | ((with_reducible refine Quiet.quiet_assign ⟨_, parse_string_field_eq _ _ _⟩ ?_); exact fun _ _ => rfl)
    | with_reducible exact Quiet.quiet_select_state _ _
    | ((with_reducible refine Quiet.quiet_update_if ?_); exact fun _ => rfl)
    | with_reducible apply Quiet.quiet_ite
    | split

theorem begin_constrained_nodal_rigid_body_quiet (u : Str) :
    Quiet (begin_constrained_nodal_rigid_body u : Run (Ctx F) Unit) := by
  unfold KFile.begin_constrained_nodal_rigid_body
  repeat' first
    | ((with_reducible refine Quiet.quiet_assign ⟨_, parse_int_eq _ _ _⟩ ?_); exact fun _ _ => rfl)
    | ((with_reducible refine Quiet.quiet_assign ⟨_, parse_double_eq _ _ _⟩ ?_); exact fun _ _ => rfl)
    | ((with_reducible refine Quiet.quiet_update ?_); exact fun _ => rfl)
    | with_reducible refine Quiet.quiet_bind ?_ (fun _ => ?_)
    | with_reducible exact Quiet.quiet_set_state _
    | with_reducible refine Quiet.quiet_try_catch ?_
    | with_reducible refine Quiet.quiet_when_enabled ?_
    | with_reducible exact Quiet.quiet_pure _
    | with_reducible exact Quiet.quiet_read
    | with_reducible exact Quiet.quiet_eval ⟨_, parse_int_eq _ _ _⟩
    | with_reducible exact Quiet.quiet_eval ⟨_, parse_double_eq _ _ _⟩
    | ((with_reducible refine Quiet.quiet_assign ⟨_, parse_string_field_eq _ _ _⟩ ?_); exact fun _ _ => rfl)
    | with_reducible exact Quiet.quiet_select_state _ _
    | ((with_reducible refine Quiet.quiet_update_if ?_); exact fun _ => rfl)
    | with_reducible apply Quiet.quiet_ite
    | split

theorem begin_constrained_extra_nodes_quiet (u : Str) :
    Quiet (begin_constrained_extra_nodes u : Run (Ctx F) Unit) := by
  unfold KFile.begin_constrained_extra_nodes
  repeat' first
    | ((with_reducible refine Quiet.quiet_assign ⟨_, parse_int_eq _ _ _⟩ ?_); exact fun _ _ => rfl)
    | ((with_reducible refine Quiet.quiet_assign ⟨_, parse_double_eq _ _ _⟩ ?_); exact fun _ _ => rfl)
    | ((with_reducible refine Quiet.quiet_update ?_); exact fun _ => rfl)
    | with_reducible refine Quiet.quiet_bind ?_ (fun _ => ?_)
    | with_reducible exact Quiet.quiet_set_state _
    | with_reducible refine Quiet.quiet_try_catch ?_
    | with_reducible refine Quiet.quiet_when_enabled ?_
    | with_reducible exact Quiet.quiet_pure _
    | with_reducible exact Quiet.quiet_read
    | with_reducible exact Quiet.quiet_eval ⟨_, parse_int_eq _ _ _⟩
    | with_reducible exact Quiet.quiet_eval ⟨_, parse_double_eq _ _ _⟩
    | ((with_reducible refine Quiet.quiet_assign ⟨_, parse_string_field_eq _ _ _⟩ ?_); exact fun _ _ => rfl)
    | with_reducible exact Quiet.quiet_select_state _ _
    | ((with_reducible refine Quiet.quiet_update_if ?_); exact fun _ => rfl)
    | with_reducible apply Quiet.quiet_ite
    | split

theorem begin_constrained_joint_quiet (u : Str) :
    Quiet (begin_constrained_joint u : Run (Ctx F) Unit) := by
  unfold KFile.begin_constrained_joint
  repeat' first
    | ((with_reducible refine Quiet.quiet_assign ⟨_, parse_int_eq _ _ _⟩ ?_); exact fun _ _ => rfl)
    | ((with_reducible refine Quiet.quiet_assign ⟨_, parse_double_eq _ _ _⟩ ?_); exact fun _ _ => rfl)
    | ((with_reducible refine Quiet.quiet_update ?_); exact fun _ => rfl)
    | with_reducible refine Quiet.quiet_bind ?_ (fun _ => ?_)
    | with_reducible exact Quiet.quiet_set_state _
    | with_reducible refine Quiet.quiet_try_catch ?_
    | with_reducible refine Quiet.quiet_when_enabled ?_
    | with_reducible exact Quiet.quiet_pure _
    | with_reducible exact Quiet.quiet_read
    | with_reducible exact Quiet.quiet_eval ⟨_, parse_int_eq _ _ _⟩
    | with_reducible exact Quiet.quiet_eval ⟨_, parse_double_eq _ _ _⟩
    | ((with_reducible refine Quiet.quiet_assign ⟨_, parse_string_field_eq _ _ _⟩ ?_); exact fun _ _ => rfl)
    | with_reducible exact Quiet.quiet_select_state _ _
    | ((with_reducible refine Quiet.quiet_update_if ?_); exact fun _ => rfl)
    | with_reducible apply Quiet.quiet_ite
    | split

theorem begin_constrained_spotweld_quiet :
    Quiet (begin_constrained_spotweld : Run (Ctx F) Unit) := by
  unfold KFile.begin_constrained_spotweld
  repeat' first
    | ((with_reducible refine Quiet.quiet_assign ⟨_, parse_int_eq _ _ _⟩ ?_); exact fun _ _ => rfl)
    | ((with_reducible refine Quiet.quiet_assign ⟨_, parse_double_eq _ _ _⟩ ?_); exact fun _ _ => rfl)
    | ((with_reducible refine Quiet.quiet_update ?_); exact fun _ => rfl)
    | with_reducible refine Quiet.quiet_bind ?_ (fun _ => ?_)
    | with_reducible exact Quiet.quiet_set_state _
    | with_reducible refine Quiet.quiet_try_catch ?_
    | with_reducible refine Quiet.quiet_when_enabled ?_
    | with_reducible exact Quiet.quiet_pure _
    | with_reducible exact Quiet.quiet_read
    | with_reducible exact Quiet.quiet_eval ⟨_, parse_int_eq _ _ _⟩
    | with_reducible exact Quiet.quiet_eval ⟨_, parse_double_eq _ _ _⟩
    | ((with_reducible refine Quiet.quiet_assign ⟨_, parse_string_field_eq _ _ _⟩ ?_); exact fun _ _ => rfl)
    | with_reducible exact Quiet.quiet_select_state _ _
    | ((with_reducible refine Quiet.quiet_update_if ?_); exact fun _ => rfl)
    | with_reducible apply Quiet.quiet_ite
    | split

theorem other_keyword_quiet :
    Quiet (other_keyword : Run (Ctx F) Unit) := by
  unfold KFile.other_keyword
  repeat' first
    | ((with_reducible refine Quiet.quiet_assign ⟨_, parse_int_eq _ _ _⟩ ?_); exact fun _ _ => rfl)
    | ((with_reducible refine Quiet.quiet_assign ⟨_, parse_double_eq _ _ _⟩ ?_); exact fun _ _ => rfl)
    | ((with_reducible refine Quiet.quiet_update ?_); exact fun _ => rfl)
    | with_reducible refine Quiet.quiet_bind ?_ (fun _ => ?_)
    | with_reducible exact Quiet.quiet_set_state _
    | with_reducible refine Quiet.quiet_try_catch ?_
    | with_reducible refine Quiet.quiet_when_enabled ?_
    | with_reducible exact Quiet.quiet_pure _
    | with_reducible exact Quiet.quiet_read
    | with_reducible exact Quiet.quiet_eval ⟨_, parse_int_eq _ _ _⟩
    | with_reducible exact Quiet.quiet_eval ⟨_, parse_double_eq _ _ _⟩
    | ((with_reducible refine Quiet.quiet_assign ⟨_, parse_string_field_eq _ _ _⟩ ?_); exact fun _ _ => rfl)
    | with_reducible exact Quiet.quiet_select_state _ _
    | ((with_reducible refine Quiet.quiet_update_if ?_); exact fun _ => rfl)
    | with_reducible apply Quiet.quiet_ite
    | split

theorem case_IN_NODE_quiet (line : Str) :
    Quiet (case_IN_NODE line : Run (Ctx F) Unit) := by
  unfold KFile.case_IN_NODE
  repeat' first
    | ((with_reducible refine Quiet.quiet_assign (parse_node_line_ok _) ?_); exact fun _ _ => rfl)
    | ((with_reducible refine Quiet.quiet_assign ⟨_, parse_int_eq _ _ _⟩ ?_); exact fun _ _ => rfl)
    | ((with_reducible refine Quiet.quiet_assign ⟨_, parse_double_eq _ _ _⟩ ?_); exact fun _ _ => rfl)
    | ((with_reducible refine Quiet.quiet_update ?_); exact fun _ => rfl)
    | with_reducible refine Quiet.quiet_bind ?_ (fun _ => ?_)
    | with_reducible exact Quiet.quiet_set_state _
    | with_reducible refine Quiet.quiet_try_catch ?_
    | with_reducible refine Quiet.quiet_when_enabled ?_
    | with_reducible exact Quiet.quiet_pure _
    | with_reducible exact Quiet.quiet_read
    | with_reducible exact Quiet.quiet_eval ⟨_, parse_int_eq _ _ _⟩
    | with_reducible exact Quiet.quiet_eval ⟨_, parse_double_eq _ _ _⟩
    | ((with_reducible refine Quiet.quiet_assign ⟨_, parse_string_field_eq _ _ _⟩ ?_); exact fun _ _ => rfl)
    | with_reducible exact Quiet.quiet_select_state _ _
    | ((with_reducible refine Quiet.quiet_update_if ?_); exact fun _ => rfl)
    | with_reducible apply Quiet.quiet_ite
    | split

theorem case_IN_PART_NAME_quiet (line : Str) :
    Quiet (case_IN_PART_NAME line : Run (Ctx F) Unit) := by
  unfold KFile.case_IN_PART_NAME
  repeat' first
    | ((with_reducible refine Quiet.quiet_assign ⟨_, parse_int_eq _ _ _⟩ ?_); exact fun _ _ => rfl)
    | ((with_reducible refine Quiet.quiet_assign ⟨_, parse_double_eq _ _ _⟩ ?_); exact fun _ _ => rfl)
    | ((with_reducible refine Quiet.quiet_update ?_); exact fun _ => rfl)
    | with_reducible refine Quiet.quiet_bind ?_ (fun _ => ?_)
    | with_reducible exact Quiet.quiet_set_state _
    | with_reducible refine Quiet.quiet_try_catch ?_
    | with_reducible refine Quiet.quiet_when_enabled ?_
    | with_reducible exact Quiet.quiet_pure _
    | with_reducible exact Quiet.quiet_read
    | with_reducible exact Quiet.quiet_eval ⟨_, parse_int_eq _ _ _⟩
    | with_reducible exact Quiet.quiet_eval ⟨_, parse_double_eq _ _ _⟩
    | ((with_reducible refine Quiet.quiet_assign ⟨_, parse_string_field_eq _ _ _⟩ ?_); exact fun _ _ => rfl)
    | with_reducible exact Quiet.quiet_select_state _ _
    | ((with_reducible refine Quiet.quiet_update_if ?_); exact fun _ => rfl)
    | with_reducible apply Quiet.quiet_ite
    | split

theorem case_IN_PART_DATA_quiet (line : Str) :
    Quiet (case_IN_PART_DATA line : Run (Ctx F) Unit) := by
  unfold KFile.case_IN_PART_DATA
  repeat' first
    | ((with_reducible refine Quiet.quiet_assign ⟨_, parse_part_lines_eq _ _⟩ ?_); exact fun _ _ => rfl)
    | ((with_reducible refine Quiet.quiet_assign ⟨_, parse_int_eq _ _ _⟩ ?_); exact fun _ _ => rfl)
    | ((with_reducible refine Quiet.quiet_assign ⟨_, parse_double_eq _ _ _⟩ ?_); exact fun _ _ => rfl)
    | ((with_reducible refine Quiet.quiet_update ?_); exact fun _ => rfl)
    | with_reducible refine Quiet.quiet_bind ?_ (fun _ => ?_)
    | with_reducible exact Quiet.quiet_set_state _
    | with_reducible refine Quiet.quiet_try_catch ?_
    | with_reducible refine Quiet.quiet_when_enabled ?_
    | with_reducible exact Quiet.quiet_pure _
    | with_reducible exact Quiet.quiet_read
    | with_reducible exact Quiet.quiet_eval ⟨_, parse_int_eq _ _ _⟩
    | with_reducible exact Quiet.quiet_eval ⟨_, parse_double_eq _ _ _⟩
    | ((with_reducible refine Quiet.quiet_assign ⟨_, parse_string_field_eq _ _ _⟩ ?_); exact fun _ _ => rfl)
    | with_reducible exact Quiet.quiet_select_state _ _
    | ((with_reducible refine Quiet.quiet_update_if ?_); exact fun _ => rfl)
    | with_reducible apply Quiet.quiet_ite
    | split

theorem case_IN_ELEMENT_quiet (line : Str) (type : ElementType) :
    Quiet (case_IN_ELEMENT line type : Run (Ctx F) Unit) := by
  unfold KFile.case_IN_ELEMENT
  repeat' first
    | ((with_reducible refine Quiet.quiet_assign ⟨_, parse_element_line_eq _ _⟩ ?_); exact fun _ _ => rfl)
    | ((with_reducible refine Quiet.quiet_assign ⟨_, parse_int_eq _ _ _⟩ ?_); exact fun _ _ => rfl)
    | ((with_reducible refine Quiet.quiet_assign ⟨_, parse_double_eq _ _ _⟩ ?_); exact fun _ _ => rfl)
    | ((with_reducible refine Quiet.quiet_update ?_); exact fun _ => rfl)
    | with_reducible refine Quiet.quiet_bind ?_ (fun _ => ?_)
    | with_reducible exact Quiet.quiet_set_state _
    | with_reducible refine Quiet.quiet_try_catch ?_
    | with_reducible refine Quiet.quiet_when_enabled ?_
    | with_reducible exact Quiet.quiet_pure _
    | with_reducible exact Quiet.quiet_read
    | with_reducible exact Quiet.quiet_eval ⟨_, parse_int_eq _ _ _⟩
    | with_reducible exact Quiet.quiet_eval ⟨_, parse_double_eq _ _ _⟩
    | ((with_reducible refine Quiet.quiet_assign ⟨_, parse_string_field_eq _ _ _⟩ ?_); exact fun _ _ => rfl)
    | with_reducible exact Quiet.quiet_select_state _ _
    | ((with_reducible refine Quiet.quiet_update_if ?_); exact fun _ => rfl)
    | with_reducible apply Quiet.quiet_ite
    | split

theorem case_IN_SET_TITLE_quiet :
    Quiet (case_IN_SET_TITLE : Run (Ctx F) Unit) := by
  unfold KFile.case_IN_SET_TITLE
  repeat' first
    | ((with_reducible refine Quiet.quiet_assign ⟨_, parse_int_eq _ _ _⟩ ?_); exact fun _ _ => rfl)
    | ((with_reducible refine Quiet.quiet_assign ⟨_, parse_double_eq _ _ _⟩ ?_); exact fun _ _ => rfl)
    | ((with_reducible refine Quiet.quiet_update ?_); exact fun _ => rfl)
    | with_reducible refine Quiet.quiet_bind ?_ (fun _ => ?_)
    | with_reducible exact Quiet.quiet_set_state _
    | with_reducible refine Quiet.quiet_try_catch ?_
    | with_reducible refine Quiet.quiet_when_enabled ?_
    | with_reducible exact Quiet.quiet_pure _
    | with_reducible exact Quiet.quiet_read
    | with_reducible exact Quiet.quiet_eval ⟨_, parse_int_eq _ _ _⟩
    | with_reducible exact Quiet.quiet_eval ⟨_, parse_double_eq _ _ _⟩
    | ((with_reducible refine Quiet.quiet_assign ⟨_, parse_string_field_eq _ _ _⟩ ?_); exact fun _ _ => rfl)
    | with_reducible exact Quiet.quiet_select_state _ _
    | ((with_reducible refine Quiet.quiet_update_if ?_); exact fun _ => rfl)
    | with_reducible apply Quiet.quiet_ite
    | split

theorem case_IN_SET_HEADER_quiet (line : Str) (type : SetType) (data : ParseState) :
    Quiet (case_IN_SET_HEADER line type data : Run (Ctx F) Unit) := by
  unfold KFile.case_IN_SET_HEADER
  repeat' first
    | ((with_reducible refine Quiet.quiet_assign (parse_set_header_ok _ _) ?_); exact fun _ _ => rfl)
    | ((with_reducible refine Quiet.quiet_assign ⟨_, parse_int_eq _ _ _⟩ ?_); exact fun _ _ => rfl)
    | ((with_reducible refine Quiet.quiet_assign ⟨_, parse_double_eq _ _ _⟩ ?_); exact fun _ _ => rfl)
    | ((with_reducible refine Quiet.quiet_update ?_); exact fun _ => rfl)
    | with_reducible refine Quiet.quiet_bind ?_ (fun _ => ?_)
    | with_reducible exact Quiet.quiet_set_state _
    | with_reducible refine Quiet.quiet_try_catch ?_
    | with_reducible refine Quiet.quiet_when_enabled ?_
    | with_reducible exact Quiet.quiet_pure _
    | with_reducible exact Quiet.quiet_read
    | with_reducible exact Quiet.quiet_eval ⟨_, parse_int_eq _ _ _⟩
    | with_reducible exact Quiet.quiet_eval ⟨_, parse_double_eq _ _ _⟩
    | ((with_reducible refine Quiet.quiet_assign ⟨_, parse_string_field_eq _ _ _⟩ ?_); exact fun _ _ => rfl)
    | with_reducible exact Quiet.quiet_select_state _ _
    | ((with_reducible refine Quiet.quiet_update_if ?_); exact fun _ => rfl)
    | with_reducible apply Quiet.quiet_ite
    | split

theorem case_IN_SET_DATA_quiet (line : Str) :
    Quiet (case_IN_SET_DATA line : Run (Ctx F) Unit) := by
  unfold KFile.case_IN_SET_DATA
  repeat' first
    | ((with_reducible refine Quiet.quiet_zoom (parse_set_data_line_total _) ?_); exact fun _ _ => rfl)
    | ((with_reducible refine Quiet.quiet_assign ⟨_, parse_int_eq _ _ _⟩ ?_); exact fun _ _ => rfl)
    | ((with_reducible refine Quiet.quiet_assign ⟨_, parse_double_eq _ _ _⟩ ?_); exact fun _ _ => rfl)
    | ((with_reducible refine Quiet.quiet_update ?_); exact fun _ => rfl)
    | with_reducible refine Quiet.quiet_bind ?_ (fun _ => ?_)
    | with_reducible exact Quiet.quiet_set_state _
    | with_reducible refine Quiet.quiet_try_catch ?_
    | with_reducible refine Quiet.quiet_when_enabled ?_
    | with_reducible exact Quiet.quiet_pure _
    | with_reducible exact Quiet.quiet_read
    | with_reducible exact Quiet.quiet_eval ⟨_, parse_int_eq _ _ _⟩
    | with_reducible exact Quiet.quiet_eval ⟨_, parse_double_eq _ _ _⟩
    | ((with_reducible refine Quiet.quiet_assign ⟨_, parse_string_field_eq _ _ _⟩ ?_); exact fun _ _ => rfl)
    | with_reducible exact Quiet.quiet_select_state _ _
    | ((with_reducible refine Quiet.quiet_update_if ?_); exact fun _ => rfl)
    | with_reducible apply Quiet.quiet_ite
    | split

theorem case_IN_SET_SEGMENT_DATA_quiet (line : Str) :
    Quiet (case_IN_SET_SEGMENT_DATA line : Run (Ctx F) Unit) := by
  unfold KFile.case_IN_SET_SEGMENT_DATA
  repeat' first
    | ((with_reducible refine Quiet.quiet_zoom (parse_segment_data_line_total _) ?_); exact fun _ _ => rfl)
    | ((with_reducible refine Quiet.quiet_assign ⟨_, parse_int_eq _ _ _⟩ ?_); exact fun _ _ => rfl)
    | ((with_reducible refine Quiet.quiet_assign ⟨_, parse_double_eq _ _ _⟩ ?_); exact fun _ _ => rfl)
    | ((with_reducible refine Quiet.quiet_update ?_); exact fun _ => rfl)
    | with_reducible refine Quiet.quiet_bind ?_ (fun _ => ?_)
    | with_reducible exact Quiet.quiet_set_state _
    | with_reducible refine Quiet.quiet_try_catch ?_
    | with_reducible refine Quiet.quiet_when_enabled ?_
    | with_reducible exact Quiet.quiet_pure _
    | with_reducible exact Quiet.quiet_read
    | with_reducible exact Quiet.quiet_eval ⟨_, parse_int_eq _ _ _⟩
    | with_reducible exact Quiet.quiet_eval ⟨_, parse_double_eq _ _ _⟩
    | ((with_reducible refine Quiet.quiet_assign ⟨_, parse_string_field_eq _ _ _⟩ ?_); exact fun _ _ => rfl)
    | with_reducible exact Quiet.quiet_select_state _ _
    | ((with_reducible refine Quiet.quiet_update_if ?_); exact fun _ => rfl)
    | with_reducible apply Quiet.quiet_ite
    | split

theorem case_IN_SECTION_SHELL_HEADER_quiet (line : Str) :
    Quiet (case_IN_SECTION_SHELL_HEADER line : Run (Ctx F) Unit) := by
  unfold KFile.case_IN_SECTION_SHELL_HEADER
  repeat' first
    | ((with_reducible refine Quiet.quiet_assign ⟨_, parse_int_eq _ _ _⟩ ?_); exact fun _ _ => rfl)
    | ((with_reducible refine Quiet.quiet_assign ⟨_, parse_double_eq _ _ _⟩ ?_); exact fun _ _ => rfl)
    | ((with_reducible refine Quiet.quiet_update ?_); exact fun _ => rfl)
    | with_reducible refine Quiet.quiet_bind ?_ (fun _ => ?_)
    | with_reducible exact Quiet.quiet_set_state _
    | with_reducible refine Quiet.quiet_try_catch ?_
    | with_reducible refine Quiet.quiet_when_enabled ?_
    | with_reducible exact Quiet.quiet_pure _
    | with_reducible exact Quiet.quiet_read
    | with_reducible exact Quiet.quiet_eval ⟨_, parse_int_eq _ _ _⟩
    | with_reducible exact Quiet.quiet_eval ⟨_, parse_double_eq _ _ _⟩
    | ((with_reducible refine Quiet.quiet_assign ⟨_, parse_string_field_eq _ _ _⟩ ?_); exact fun _ _ => rfl)
    | with_reducible exact Quiet.quiet_select_state _ _
    | ((with_reducible refine Quiet.quiet_update_if ?_); exact fun _ => rfl)
    | with_reducible apply Quiet.quiet_ite
    | split

theorem case_IN_SECTION_SHELL_DATA_quiet (line : Str) :
    Quiet (case_IN_SECTION_SHELL_DATA line : Run (Ctx F) Unit) := by
  unfold KFile.case_IN_SECTION_SHELL_DATA
  repeat' first
    | unfold KFile.push_current_section
    | ((with_reducible refine Quiet.quiet_assign ⟨_, parse_int_eq _ _ _⟩ ?_); exact fun _ _ => rfl)
    | ((with_reducible refine Quiet.quiet_assign ⟨_, parse_double_eq _ _ _⟩ ?_); exact fun _ _ => rfl)
    | ((with_reducible refine Quiet.quiet_update ?_); exact fun _ => rfl)
    | with_reducible refine Quiet.quiet_bind ?_ (fun _ => ?_)
    | with_reducible exact Quiet.quiet_set_state _
    | with_reducible refine Quiet.quiet_try_catch ?_
    | with_reducible refine Quiet.quiet_when_enabled ?_
    | with_reducible exact Quiet.quiet_pure _
    | with_reducible exact Quiet.quiet_read
    | with_reducible exact Quiet.quiet_eval ⟨_, parse_int_eq _ _ _⟩
    | with_reducible exact Quiet.quiet_eval ⟨_, parse_double_eq _ _ _⟩
    | ((with_reducible refine Quiet.quiet_assign ⟨_, parse_string_field_eq _ _ _⟩ ?_); exact fun _ _ => rfl)
    | with_reducible exact Quiet.quiet_select_state _ _
    | ((with_reducible refine Quiet.quiet_update_if ?_); exact fun _ => rfl)
    | with_reducible apply Quiet.quiet_ite
    | split

theorem case_IN_SECTION_SOLID_quiet (line : Str) :
    Quiet (case_IN_SECTION_SOLID line : Run (Ctx F) Unit) := by
  unfold KFile.case_IN_SECTION_SOLID
  repeat' first
    | unfold KFile.push_current_section
    | ((with_reducible refine Quiet.quiet_assign ⟨_, parse_int_eq _ _ _⟩ ?_); exact fun _ _ => rfl)
    | ((with_reducible refine Quiet.quiet_assign ⟨_, parse_double_eq _ _ _⟩ ?_); exact fun _ _ => rfl)
    | ((with_reducible refine Quiet.quiet_update ?_); exact fun _ => rfl)
    | with_reducible refine Quiet.quiet_bind ?_ (fun _ => ?_)
    | with_reducible exact Quiet.quiet_set_state _
    | with_reducible refine Quiet.quiet_try_catch ?_
    | with_reducible refine Quiet.quiet_when_enabled ?_
    | with_reducible exact Quiet.quiet_pure _
    | with_reducible exact Quiet.quiet_read
    | with_reducible exact Quiet.quiet_eval ⟨_, parse_int_eq _ _ _⟩
    | with_reducible exact Quiet.quiet_eval ⟨_, parse_double_eq _ _ _⟩
    | ((with_reducible refine Quiet.quiet_assign ⟨_, parse_string_field_eq _ _ _⟩ ?_); exact fun _ _ => rfl)
    | with_reducible exact Quiet.quiet_select_state _ _
    | ((with_reducible refine Quiet.quiet_update_if ?_); exact fun _ => rfl)
    | with_reducible apply Quiet.quiet_ite
    | split

theorem case_IN_SECTION_BEAM_HEADER_quiet (line : Str) :
    Quiet (case_IN_SECTION_BEAM_HEADER line : Run (Ctx F) Unit) := by
  unfold KFile.case_IN_SECTION_BEAM_HEADER
  repeat' first
    | ((with_reducible refine Quiet.quiet_assign ⟨_, parse_int_eq _ _ _⟩ ?_); exact fun _ _ => rfl)
    | ((with_reducible refine Quiet.quiet_assign ⟨_, parse_double_eq _ _ _⟩ ?_); exact fun _ _ => rfl)
    | ((with_reducible refine Quiet.quiet_update ?_); exact fun _ => rfl)
    | with_reducible refine Quiet.quiet_bind ?_ (fun _ => ?_)
    | with_reducible exact Quiet.quiet_set_state _
    | with_reducible refine Quiet.quiet_try_catch ?_
    | with_reducible refine Quiet.quiet_when_enabled ?_
    | with_reducible exact Quiet.quiet_pure _
    | with_reducible exact Quiet.quiet_read
    | with_reducible exact Quiet.quiet_eval ⟨_, parse_int_eq _ _ _⟩
    | with_reducible exact Quiet.quiet_eval ⟨_, parse_double_eq _ _ _⟩
    | ((with_reducible refine Quiet.quiet_assign ⟨_, parse_string_field_eq _ _ _⟩ ?_); exact fun _ _ => rfl)
    | with_reducible exact Quiet.quiet_select_state _ _
    | ((with_reducible refine Quiet.quiet_update_if ?_); exact fun _ => rfl)
    | with_reducible apply Quiet.quiet_ite
    | split

theorem case_IN_SECTION_BEAM_DATA_quiet (line : Str) :
    Quiet (case_IN_SECTION_BEAM_DATA line : Run (Ctx F) Unit) := by
  unfold KFile.case_IN_SECTION_BEAM_DATA
  repeat' first
    | unfold KFile.push_current_section
    | ((with_reducible refine Quiet.quiet_assign ⟨_, parse_int_eq _ _ _⟩ ?_); exact fun _ _ => rfl)
    | ((with_reducible refine Quiet.quiet_assign ⟨_, parse_double_eq _ _ _⟩ ?_); exact fun _ _ => rfl)
    | ((with_reducible refine Quiet.quiet_update ?_); exact fun _ => rfl)
    | with_reducible refine Quiet.quiet_bind ?_ (fun _ => ?_)
    | with_reducible exact Quiet.quiet_set_state _
    | with_reducible refine Quiet.quiet_try_catch ?_
    | with_reducible refine Quiet.quiet_when_enabled ?_
    | with_reducible exact Quiet.quiet_pure _
    | with_reducible exact Quiet.quiet_read
    | with_reducible exact Quiet.quiet_eval ⟨_, parse_int_eq _ _ _⟩
    | with_reducible exact Quiet.quiet_eval ⟨_, parse_double_eq _ _ _⟩
    | ((with_reducible refine Quiet.quiet_assign ⟨_, parse_string_field_eq _ _ _⟩ ?_); exact fun _ _ => rfl)
    | with_reducible exact Quiet.quiet_select_state _ _
    | ((with_reducible refine Quiet.quiet_update_if ?_); exact fun _ => rfl)
    | with_reducible apply Quiet.quiet_ite
    | split

theorem case_IN_CONTACT_CARD1_quiet (line : Str) :
    Quiet (case_IN_CONTACT_CARD1 line : Run (Ctx F) Unit) := by
  unfold KFile.case_IN_CONTACT_CARD1
  repeat' first
    | ((with_reducible refine Quiet.quiet_assign ⟨_, parse_int_eq _ _ _⟩ ?_); exact fun _ _ => rfl)
    | ((with_reducible refine Quiet.quiet_assign ⟨_, parse_double_eq _ _ _⟩ ?_); exact fun _ _ => rfl)
    | ((with_reducible refine Quiet.quiet_update ?_); exact fun _ => rfl)
    | with_reducible refine Quiet.quiet_bind ?_ (fun _ => ?_)
    | with_reducible exact Quiet.quiet_set_state _
    | with_reducible refine Quiet.quiet_try_catch ?_
    | with_reducible refine Quiet.quiet_when_enabled ?_
    | with_reducible exact Quiet.quiet_pure _
    | with_reducible exact Quiet.quiet_read
    | with_reducible exact Quiet.quiet_eval ⟨_, parse_int_eq _ _ _⟩
    | with_reducible exact Quiet.quiet_eval ⟨_, parse_double_eq _ _ _⟩
    | ((with_reducible refine Quiet.quiet_assign ⟨_, parse_string_field_eq _ _ _⟩ ?_); exact fun _ _ => rfl)
    | with_reducible exact Quiet.quiet_select_state _ _
    | ((with_reducible refine Quiet.quiet_update_if ?_); exact fun _ => rfl)
    | with_reducible apply Quiet.quiet_ite
    | split

theorem case_IN_CONTACT_CARD2_quiet (line : Str) :
    Quiet (case_IN_CONTACT_CARD2 line : Run (Ctx F) Unit) := by
  unfold KFile.case_IN_CONTACT_CARD2
  repeat' first
    | unfold KFile.push_current_contact
    | ((with_reducible refine Quiet.quiet_assign ⟨_, parse_int_eq _ _ _⟩ ?_); exact fun _ _ => rfl)
    | ((with_reducible refine Quiet.quiet_assign ⟨_, parse_double_eq _ _ _⟩ ?_); exact fun _ _ => rfl)
    | ((with_reducible refine Quiet.quiet_update ?_); exact fun _ => rfl)
    | with_reducible refine Quiet.quiet_bind ?_ (fun _ => ?_)
    | with_reducible exact Quiet.quiet_set_state _
    | with_reducible refine Quiet.quiet_try_catch ?_
    | with_reducible refine Quiet.quiet_when_enabled ?_
    | with_reducible exact Quiet.quiet_pure _
    | with_reducible exact Quiet.quiet_read
    | with_reducible exact Quiet.quiet_eval ⟨_, parse_int_eq _ _ _⟩
    | with_reducible exact Quiet.quiet_eval ⟨_, parse_double_eq _ _ _⟩
    | ((with_reducible refine Quiet.quiet_assign ⟨_, parse_string_field_eq _ _ _⟩ ?_); exact fun _ _ => rfl)
    | with_reducible exact Quiet.quiet_select_state _ _
    | ((with_reducible refine Quiet.quiet_update_if ?_); exact fun _ => rfl)
    | with_reducible apply Quiet.quiet_ite
    | split

theorem case_IN_CONTACT_CARD3_quiet (line : Str) :
    Quiet (case_IN_CONTACT_CARD3 line : Run (Ctx F) Unit) := by
  unfold KFile.case_IN_CONTACT_CARD3
  repeat' first
    | unfold KFile.push_current_contact
    | ((with_reducible refine Quiet.quiet_assign ⟨_, parse_int_eq _ _ _⟩ ?_); exact fun _ _ => rfl)
    | ((with_reducible refine Quiet.quiet_assign ⟨_, parse_double_eq _ _ _⟩ ?_); exact fun _ _ => rfl)
    | ((with_reducible refine Quiet.quiet_update ?_); exact fun _ => rfl)
    | with_reducible refine Quiet.quiet_bind ?_ (fun _ => ?_)
    | with_reducible exact Quiet.quiet_set_state _
    | with_reducible refine Quiet.quiet_try_catch ?_
    | with_reducible refine Quiet.quiet_when_enabled ?_
    | with_reducible exact Quiet.quiet_pure _
    | with_reducible exact Quiet.quiet_read
    | with_reducible exact Quiet.quiet_eval ⟨_, parse_int_eq _ _ _⟩
    | with_reducible exact Quiet.quiet_eval ⟨_, parse_double_eq _ _ _⟩
    | ((with_reducible refine Quiet.quiet_assign ⟨_, parse_string_field_eq _ _ _⟩ ?_); exact fun _ _ => rfl)
    | with_reducible exact Quiet.quiet_select_state _ _
    | ((with_reducible refine Quiet.quiet_update_if ?_); exact fun _ => rfl)
    | with_reducible apply Quiet.quiet_ite
    | split

theorem case_IN_MATERIAL_TITLE_quiet (line : Str) :
    Quiet (case_IN_MATERIAL_TITLE line : Run (Ctx F) Unit) := by
  unfold KFile.case_IN_MATERIAL_TITLE
  repeat' first
    | ((with_reducible refine Quiet.quiet_assign ⟨_, parse_int_eq _ _ _⟩ ?_); exact fun _ _ => rfl)
    | ((with_reducible refine Quiet.quiet_assign ⟨_, parse_double_eq _ _ _⟩ ?_); exact fun _ _ => rfl)
    | ((with_reducible refine Quiet.quiet_update ?_); exact fun _ => rfl)
    | with_reducible refine Quiet.quiet_bind ?_ (fun _ => ?_)
    | with_reducible exact Quiet.quiet_set_state _
    | with_reducible refine Quiet.quiet_try_catch ?_
    | with_reducible refine Quiet.quiet_when_enabled ?_
    | with_reducible exact Quiet.quiet_pure _
    | with_reducible exact Quiet.quiet_read
    | with_reducible exact Quiet.quiet_eval ⟨_, parse_int_eq _ _ _⟩
    | with_reducible exact Quiet.quiet_eval ⟨_, parse_double_eq _ _ _⟩
    | ((with_reducible refine Quiet.quiet_assign ⟨_, parse_string_field_eq _ _ _⟩ ?_); exact fun _ _ => rfl)
    | with_reducible exact Quiet.quiet_select_state _ _
    | ((with_reducible refine Quiet.quiet_update_if ?_); exact fun _ => rfl)
    | with_reducible apply Quiet.quiet_ite
    | split

theorem case_IN_MATERIAL_DATA_quiet (line : Str) :
    Quiet (case_IN_MATERIAL_DATA line : Run (Ctx F) Unit) := by
  unfold KFile.case_IN_MATERIAL_DATA
  repeat' first
    | with_reducible exact Quiet.quiet_eval (material_card_values_ok _ _ _)
    | ((with_reducible refine Quiet.quiet_assign ⟨_, parse_int_eq _ _ _⟩ ?_); exact fun _ _ => rfl)
    | ((with_reducible refine Quiet.quiet_assign ⟨_, parse_double_eq _ _ _⟩ ?_); exact fun _ _ => rfl)
    | ((with_reducible refine Quiet.quiet_update ?_); exact fun _ => rfl)
    | with_reducible refine Quiet.quiet_bind ?_ (fun _ => ?_)
    | with_reducible exact Quiet.quiet_set_state _
    | with_reducible refine Quiet.quiet_try_catch ?_
    | with_reducible refine Quiet.quiet_when_enabled ?_
    | with_reducible exact Quiet.quiet_pure _
    | with_reducible exact Quiet.quiet_read
    | with_reducible exact Quiet.quiet_eval ⟨_, parse_int_eq _ _ _⟩
    | with_reducible exact Quiet.quiet_eval ⟨_, parse_double_eq _ _ _⟩
    | ((with_reducible refine Quiet.quiet_assign ⟨_, parse_string_field_eq _ _ _⟩ ?_); exact fun _ _ => rfl)
    | with_reducible exact Quiet.quiet_select_state _ _
    | ((with_reducible refine Quiet.quiet_update_if ?_); exact fun _ => rfl)
    | with_reducible apply Quiet.quiet_ite
    | split

theorem case_IN_INCLUDE_quiet (line : Str) :
    Quiet (case_IN_INCLUDE line : Run (Ctx F) Unit) := by
  unfold KFile.case_IN_INCLUDE
  repeat' first
    | ((with_reducible refine Quiet.quiet_assign ⟨_, parse_int_eq _ _ _⟩ ?_); exact fun _ _ => rfl)
    | ((with_reducible refine Quiet.quiet_assign ⟨_, parse_double_eq _ _ _⟩ ?_); exact fun _ _ => rfl)
    | ((with_reducible refine Quiet.quiet_update ?_); exact fun _ => rfl)
    | with_reducible refine Quiet.quiet_bind ?_ (fun _ => ?_)
    | with_reducible exact Quiet.quiet_set_state _
    | with_reducible refine Quiet.quiet_try_catch ?_
    | with_reducible refine Quiet.quiet_when_enabled ?_
    | with_reducible exact Quiet.quiet_pure _
    | with_reducible exact Quiet.quiet_read
    | with_reducible exact Quiet.quiet_eval ⟨_, parse_int_eq _ _ _⟩
    | with_reducible exact Quiet.quiet_eval ⟨_, parse_double_eq _ _ _⟩
    | ((with_reducible refine Quiet.quiet_assign ⟨_, parse_string_field_eq _ _ _⟩ ?_); exact fun _ _ => rfl)
    | with_reducible exact Quiet.quiet_select_state _ _
    | ((with_reducible refine Quiet.quiet_update_if ?_); exact fun _ => rfl)
    | with_reducible apply Quiet.quiet_ite
    | split

theorem case_IN_CURVE_TITLE_quiet (line : Str) :
    Quiet (case_IN_CURVE_TITLE line : Run (Ctx F) Unit) := by
  unfold KFile.case_IN_CURVE_TITLE
  repeat' first
    | ((with_reducible refine Quiet.quiet_assign ⟨_, parse_int_eq _ _ _⟩ ?_); exact fun _ _ => rfl)
    | ((with_reducible refine Quiet.quiet_assign ⟨_, parse_double_eq _ _ _⟩ ?_); exact fun _ _ => rfl)
    | ((with_reducible refine Quiet.quiet_update ?_); exact fun _ => rfl)
    | with_reducible refine Quiet.quiet_bind ?_ (fun _ => ?_)
    | with_reducible exact Quiet.quiet_set_state _
    | with_reducible refine Quiet.quiet_try_catch ?_
    | with_reducible refine Quiet.quiet_when_enabled ?_
    | with_reducible exact Quiet.quiet_pure _
    | with_reducible exact Quiet.quiet_read
    | with_reducible exact Quiet.quiet_eval ⟨_, parse_int_eq _ _ _⟩
    | with_reducible exact Quiet.quiet_eval ⟨_, parse_double_eq _ _ _⟩
    | ((with_reducible refine Quiet.quiet_assign ⟨_, parse_string_field_eq _ _ _⟩ ?_); exact fun _ _ => rfl)
    | with_reducible exact Quiet.quiet_select_state _ _
    | ((with_reducible refine Quiet.quiet_update_if ?_); exact fun _ => rfl)
    | with_reducible apply Quiet.quiet_ite
    | split

theorem case_IN_CURVE_HEADER_quiet (line : Str) :
    Quiet (case_IN_CURVE_HEADER line : Run (Ctx F) Unit) := by
  unfold KFile.case_IN_CURVE_HEADER
  repeat' first
    | ((with_reducible refine Quiet.quiet_assign ⟨_, parse_int_eq _ _ _⟩ ?_); exact fun _ _ => rfl)
    | ((with_reducible refine Quiet.quiet_assign ⟨_, parse_double_eq _ _ _⟩ ?_); exact fun _ _ => rfl)
    | ((with_reducible refine Quiet.quiet_update ?_); exact fun _ => rfl)
    | with_reducible refine Quiet.quiet_bind ?_ (fun _ => ?_)
    | with_reducible exact Quiet.quiet_set_state _
    | with_reducible refine Quiet.quiet_try_catch ?_
    | with_reducible refine Quiet.quiet_when_enabled ?_
    | with_reducible exact Quiet.quiet_pure _
    | with_reducible exact Quiet.quiet_read
    | with_reducible exact Quiet.quiet_eval ⟨_, parse_int_eq _ _ _⟩
    | with_reducible exact Quiet.quiet_eval ⟨_, parse_double_eq _ _ _⟩
    | ((with_reducible refine Quiet.quiet_assign ⟨_, parse_string_field_eq _ _ _⟩ ?_); exact fun _ _ => rfl)
    | with_reducible exact Quiet.quiet_select_state _ _
    | ((with_reducible refine Quiet.quiet_update_if ?_); exact fun _ => rfl)
    | with_reducible apply Quiet.quiet_ite
    | split

theorem case_IN_CURVE_DATA_quiet (line : Str) :
    Quiet (case_IN_CURVE_DATA line : Run (Ctx F) Unit) := by
  unfold KFile.case_IN_CURVE_DATA
  repeat' first
    | ((with_reducible refine Quiet.quiet_assign ⟨_, parse_int_eq _ _ _⟩ ?_); exact fun _ _ => rfl)
    | ((with_reducible refine Quiet.quiet_assign ⟨_, parse_double_eq _ _ _⟩ ?_); exact fun _ _ => rfl)
    | ((with_reducible refine Quiet.quiet_update ?_); exact fun _ => rfl)
    | with_reducible refine Quiet.quiet_bind ?_ (fun _ => ?_)
    | with_reducible exact Quiet.quiet_set_state _
    | with_reducible refine Quiet.quiet_try_catch ?_
    | with_reducible refine Quiet.quiet_when_enabled ?_
    | with_reducible exact Quiet.quiet_pure _
    | with_reducible exact Quiet.quiet_read
    | with_reducible exact Quiet.quiet_eval ⟨_, parse_int_eq _ _ _⟩
    | with_reducible exact Quiet.quiet_eval ⟨_, parse_double_eq _ _ _⟩
    | ((with_reducible refine Quiet.quiet_assign ⟨_, parse_string_field_eq _ _ _⟩ ?_); exact fun _ _ => rfl)
    | with_reducible exact Quiet.quiet_select_state _ _
    | ((with_reducible refine Quiet.quiet_update_if ?_); exact fun _ => rfl)
    | with_reducible apply Quiet.quiet_ite
    | split

theorem case_IN_BOUNDARY_SPC_quiet (line : Str) :
    Quiet (case_IN_BOUNDARY_SPC line : Run (Ctx F) Unit) := by
  unfold KFile.case_IN_BOUNDARY_SPC
  repeat' first
    | ((with_reducible refine Quiet.quiet_assign ⟨_, parse_int_eq _ _ _⟩ ?_); exact fun _ _ => rfl)
    | ((with_reducible refine Quiet.quiet_assign ⟨_, parse_double_eq _ _ _⟩ ?_); exact fun _ _ => rfl)
    | ((with_reducible refine Quiet.quiet_update ?_); exact fun _ => rfl)
    | with_reducible refine Quiet.quiet_bind ?_ (fun _ => ?_)
    | with_reducible exact Quiet.quiet_set_state _
    | with_reducible refine Quiet.quiet_try_catch ?_
    | with_reducible refine Quiet.quiet_when_enabled ?_
    | with_reducible exact Quiet.quiet_pure _
    | with_reducible exact Quiet.quiet_read
    | with_reducible exact Quiet.quiet_eval ⟨_, parse_int_eq _ _ _⟩
    | with_reducible exact Quiet.quiet_eval ⟨_, parse_double_eq _ _ _⟩
    | ((with_reducible refine Quiet.quiet_assign ⟨_, parse_string_field_eq _ _ _⟩ ?_); exact fun _ _ => rfl)
    | with_reducible exact Quiet.quiet_select_state _ _
    | ((with_reducible refine Quiet.quiet_update_if ?_); exact fun _ => rfl)
    | with_reducible apply Quiet.quiet_ite
    | split

theorem case_IN_BOUNDARY_MOTION_quiet (line : Str) :
    Quiet (case_IN_BOUNDARY_MOTION line : Run (Ctx F) Unit) := by
  unfold KFile.case_IN_BOUNDARY_MOTION
  repeat' first
    | ((with_reducible refine Quiet.quiet_assign ⟨_, parse_int_eq _ _ _⟩ ?_); exact fun _ _ => rfl)
    | ((with_reducible refine Quiet.quiet_assign ⟨_, parse_double_eq _ _ _⟩ ?_); exact fun _ _ => rfl)
    | ((with_reducible refine Quiet.quiet_update ?_); exact fun _ => rfl)
    | with_reducible refine Quiet.quiet_bind ?_ (fun _ => ?_)
    | with_reducible exact Quiet.quiet_set_state _
    | with_reducible refine Quiet.quiet_try_catch ?_
    | with_reducible refine Quiet.quiet_when_enabled ?_
    | with_reducible exact Quiet.quiet_pure _
    | with_reducible exact Quiet.quiet_read
    | with_reducible exact Quiet.quiet_eval ⟨_, parse_int_eq _ _ _⟩
    | with_reducible exact Quiet.quiet_eval ⟨_, parse_double_eq _ _ _⟩
    | ((with_reducible refine Quiet.quiet_assign ⟨_, parse_string_field_eq _ _ _⟩ ?_); exact fun _ _ => rfl)
    | with_reducible exact Quiet.quiet_select_state _ _
    | ((with_reducible refine Quiet.quiet_update_if ?_); exact fun _ => rfl)
    | with_reducible apply Quiet.quiet_ite
    | split

theorem case_IN_LOAD_NODE_quiet (line : Str) :
    Quiet (case_IN_LOAD_NODE line : Run (Ctx F) Unit) := by
  unfold KFile.case_IN_LOAD_NODE
  repeat' first
    | ((with_reducible refine Quiet.quiet_assign ⟨_, parse_int_eq _ _ _⟩ ?_); exact fun _ _ => rfl)
    | ((with_reducible refine Quiet.quiet_assign ⟨_, parse_double_eq _ _ _⟩ ?_); exact fun _ _ => rfl)
    | ((with_reducible refine Quiet.quiet_update ?_); exact fun _ => rfl)
    | with_reducible refine Quiet.quiet_bind ?_ (fun _ => ?_)
    | with_reducible exact Quiet.quiet_set_state _
    | with_reducible refine Quiet.quiet_try_catch ?_
    | with_reducible refine Quiet.quiet_when_enabled ?_
    | with_reducible exact Quiet.quiet_pure _
    | with_reducible exact Quiet.quiet_read
    | with_reducible exact Quiet.quiet_eval ⟨_, parse_int_eq _ _ _⟩
    | with_reducible exact Quiet.quiet_eval ⟨_, parse_double_eq _ _ _⟩
    | ((with_reducible refine Quiet.quiet_assign ⟨_, parse_string_field_eq _ _ _⟩ ?_); exact fun _ _ => rfl)
    | with_reducible exact Quiet.quiet_select_state _ _
    | ((with_reducible refine Quiet.quiet_update_if ?_); exact fun _ => rfl)
    | with_reducible apply Quiet.quiet_ite
    | split

theorem case_IN_LOAD_SEGMENT_quiet (line : Str) :
    Quiet (case_IN_LOAD_SEGMENT line : Run (Ctx F) Unit) := by
  unfold KFile.case_IN_LOAD_SEGMENT
  repeat' first
    | ((with_reducible refine Quiet.quiet_assign (decode_load_segment_ok _) ?_); exact fun _ _ => rfl)
    | ((with_reducible refine Quiet.quiet_assign ⟨_, parse_int_eq _ _ _⟩ ?_); exact fun _ _ => rfl)
    | ((with_reducible refine Quiet.quiet_assign ⟨_, parse_double_eq _ _ _⟩ ?_); exact fun _ _ => rfl)
    | ((with_reducible refine Quiet.quiet_update ?_); exact fun _ => rfl)
    | with_reducible refine Quiet.quiet_bind ?_ (fun _ => ?_)
    | with_reducible exact Quiet.quiet_set_state _
    | with_reducible refine Quiet.quiet_try_catch ?_
    | with_reducible refine Quiet.quiet_when_enabled ?_
    | with_reducible exact Quiet.quiet_pure _
    | with_reducible exact Quiet.quiet_read
    | with_reducible exact Quiet.quiet_eval ⟨_, parse_int_eq _ _ _⟩
    | with_reducible exact Quiet.quiet_eval ⟨_, parse_double_eq _ _ _⟩
    | ((with_reducible refine Quiet.quiet_assign ⟨_, parse_string_field_eq _ _ _⟩ ?_); exact fun _ _ => rfl)
    | with_reducible exact Quiet.quiet_select_state _ _
    | ((with_reducible refine Quiet.quiet_update_if ?_); exact fun _ => rfl)
    | with_reducible apply Quiet.quiet_ite
    | split

theorem case_IN_LOAD_BODY_quiet (line : Str) :
    Quiet (case_IN_LOAD_BODY line : Run (Ctx F) Unit) := by
  unfold KFile.case_IN_LOAD_BODY
  repeat' first
    | ((with_reducible refine Quiet.quiet_assign ⟨_, parse_int_eq _ _ _⟩ ?_); exact fun _ _ => rfl)
    | ((with_reducible refine Quiet.quiet_assign ⟨_, parse_double_eq _ _ _⟩ ?_); exact fun _ _ => rfl)
    | ((with_reducible refine Quiet.quiet_update ?_); exact fun _ => rfl)
    | with_reducible refine Quiet.quiet_bind ?_ (fun _ => ?_)
    | with_reducible exact Quiet.quiet_set_state _
    | with_reducible refine Quiet.quiet_try_catch ?_
    | with_reducible refine Quiet.quiet_when_enabled ?_
    | with_reducible exact Quiet.quiet_pure _
    | with_reducible exact Quiet.quiet_read
    | with_reducible exact Quiet.quiet_eval ⟨_, parse_int_eq _ _ _⟩
    | with_reducible exact Quiet.quiet_eval ⟨_, parse_double_eq _ _ _⟩
    | ((with_reducible refine Quiet.quiet_assign ⟨_, parse_string_field_eq _ _ _⟩ ?_); exact fun _ _ => rfl)
    | with_reducible exact Quiet.quiet_select_state _ _
    | ((with_reducible refine Quiet.quiet_update_if ?_); exact fun _ => rfl)
    | with_reducible apply Quiet.quiet_ite
    | split

theorem case_IN_CONTROL_TERMINATION_quiet (line : Str) :
    Quiet (case_IN_CONTROL_TERMINATION line : Run (Ctx F) Unit) := by
  unfold KFile.case_IN_CONTROL_TERMINATION
  repeat' first
    | ((with_reducible refine Quiet.quiet_assign (decode_control_termination_ok _) ?_); exact fun _ _ => rfl)
    | ((with_reducible refine Quiet.quiet_assign ⟨_, parse_int_eq _ _ _⟩ ?_); exact fun _ _ => rfl)
    | ((with_reducible refine Quiet.quiet_assign ⟨_, parse_double_eq _ _ _⟩ ?_); exact fun _ _ => rfl)
    | ((with_reducible refine Quiet.quiet_update ?_); exact fun _ => rfl)
    | with_reducible refine Quiet.quiet_bind ?_ (fun _ => ?_)
    | with_reducible exact Quiet.quiet_set_state _
    | with_reducible refine Quiet.quiet_try_catch ?_
    | with_reducible refine Quiet.quiet_when_enabled ?_
    | with_reducible exact Quiet.quiet_pure _
    | with_reducible exact Quiet.quiet_read
    | with_reducible exact Quiet.quiet_eval ⟨_, parse_int_eq _ _ _⟩
    | with_reducible exact Quiet.quiet_eval ⟨_, parse_double_eq _ _ _⟩
    | ((with_reducible refine Quiet.quiet_assign ⟨_, parse_string_field_eq _ _ _⟩ ?_); exact fun _ _ => rfl)
    | with_reducible exact Quiet.quiet_select_state _ _
    | ((with_reducible refine Quiet.quiet_update_if ?_); exact fun _ => rfl)
    | with_reducible apply Quiet.quiet_ite
    | split

theorem case_IN_CONTROL_TIMESTEP_quiet (line : Str) :
    Quiet (case_IN_CONTROL_TIMESTEP line : Run (Ctx F) Unit) := by
  unfold KFile.case_IN_CONTROL_TIMESTEP
  repeat' first
    | ((with_reducible refine Quiet.quiet_assign (decode_control_timestep_ok _) ?_); exact fun _ _ => rfl)
    | ((with_reducible refine Quiet.quiet_assign ⟨_, parse_int_eq _ _ _⟩ ?_); exact fun _ _ => rfl)
    | ((with_reducible refine Quiet.quiet_assign ⟨_, parse_double_eq _ _ _⟩ ?_); exact fun _ _ => rfl)
    | ((with_reducible refine Quiet.quiet_update ?_); exact fun _ => rfl)
    | with_reducible refine Quiet.quiet_bind ?_ (fun _ => ?_)
    | with_reducible exact Quiet.quiet_set_state _
    | with_reducible refine Quiet.quiet_try_catch ?_
    | with_reducible refine Quiet.quiet_when_enabled ?_
    | with_reducible exact Quiet.quiet_pure _
    | with_reducible exact Quiet.quiet_read
    | with_reducible exact Quiet.quiet_eval ⟨_, parse_int_eq _ _ _⟩
    | with_reducible exact Quiet.quiet_eval ⟨_, parse_double_eq _ _ _⟩
    | ((with_reducible refine Quiet.quiet_assign ⟨_, parse_string_field_eq _ _ _⟩ ?_); exact fun _ _ => rfl)
    | with_reducible exact Quiet.quiet_select_state _ _
    | ((with_reducible refine Quiet.quiet_update_if ?_); exact fun _ => rfl)
    | with_reducible apply Quiet.quiet_ite
    | split

theorem case_IN_CONTROL_ENERGY_quiet (line : Str) :
    Quiet (case_IN_CONTROL_ENERGY line : Run (Ctx F) Unit) := by
  unfold KFile.case_IN_CONTROL_ENERGY
  repeat' first
    | ((with_reducible refine Quiet.quiet_assign (decode_control_energy_ok _) ?_); exact fun _ _ => rfl)
    | ((with_reducible refine Quiet.quiet_assign ⟨_, parse_int_eq _ _ _⟩ ?_); exact fun _ _ => rfl)
    | ((with_reducible refine Quiet.quiet_assign ⟨_, parse_double_eq _ _ _⟩ ?_); exact fun _ _ => rfl)
    | ((with_reducible refine Quiet.quiet_update ?_); exact fun _ => rfl)
    | with_reducible refine Quiet.quiet_bind ?_ (fun _ => ?_)
    | with_reducible exact Quiet.quiet_set_state _
    | with_reducible refine Quiet.quiet_try_catch ?_
    | with_reducible refine Quiet.quiet_when_enabled ?_
    | with_reducible exact Quiet.quiet_pure _
    | with_reducible exact Quiet.quiet_read
    | with_reducible exact Quiet.quiet_eval ⟨_, parse_int_eq _ _ _⟩
    | with_reducible exact Quiet.quiet_eval ⟨_, parse_double_eq _ _ _⟩
    | ((with_reducible refine Quiet.quiet_assign ⟨_, parse_string_field_eq _ _ _⟩ ?_); exact fun _ _ => rfl)
    | with_reducible exact Quiet.quiet_select_state _ _
    | ((with_reducible refine Quiet.quiet_update_if ?_); exact fun _ => rfl)
    | with_reducible apply Quiet.quiet_ite
    | split

theorem case_IN_CONTROL_OUTPUT_quiet (line : Str) :
    Quiet (case_IN_CONTROL_OUTPUT line : Run (Ctx F) Unit) := by
  unfold KFile.case_IN_CONTROL_OUTPUT
  repeat' first
    | ((with_reducible refine Quiet.quiet_assign (decode_control_output_ok _) ?_); exact fun _ _ => rfl)
    | ((with_reducible refine Quiet.quiet_assign ⟨_, parse_int_eq _ _ _⟩ ?_); exact fun _ _ => rfl)
    | ((with_reducible refine Quiet.quiet_assign ⟨_, parse_double_eq _ _ _⟩ ?_); exact fun _ _ => rfl)
    | ((with_reducible refine Quiet.quiet_update ?_); exact fun _ => rfl)
    | with_reducible refine Quiet.quiet_bind ?_ (fun _ => ?_)
    | with_reducible exact Quiet.quiet_set_state _
    | with_reducible refine Quiet.quiet_try_catch ?_
    | with_reducible refine Quiet.quiet_when_enabled ?_
    | with_reducible exact Quiet.quiet_pure _
    | with_reducible exact Quiet.quiet_read
    | with_reducible exact Quiet.quiet_eval ⟨_, parse_int_eq _ _ _⟩
    | with_reducible exact Quiet.quiet_eval ⟨_, parse_double_eq _ _ _⟩
    | ((with_reducible refine Quiet.quiet_assign ⟨_, parse_string_field_eq _ _ _⟩ ?_); exact fun _ _ => rfl)
    | with_reducible exact Quiet.quiet_select_state _ _
    | ((with_reducible refine Quiet.quiet_update_if ?_); exact fun _ => rfl)
    | with_reducible apply Quiet.quiet_ite
    | split

theorem case_IN_CONTROL_SHELL_quiet (line : Str) :
    Quiet (case_IN_CONTROL_SHELL line : Run (Ctx F) Unit) := by
  unfold KFile.case_IN_CONTROL_SHELL
  repeat' first
    | ((with_reducible refine Quiet.quiet_assign (decode_control_shell_ok _) ?_); exact fun _ _ => rfl)
    | ((with_reducible refine Quiet.quiet_assign ⟨_, parse_int_eq _ _ _⟩ ?_); exact fun _ _ => rfl)
    | ((with_reducible refine Quiet.quiet_assign ⟨_, parse_double_eq _ _ _⟩ ?_); exact fun _ _ => rfl)
    | ((with_reducible refine Quiet.quiet_update ?_); exact fun _ => rfl)
    | with_reducible refine Quiet.quiet_bind ?_ (fun _ => ?_)
    | with_reducible exact Quiet.quiet_set_state _
    | with_reducible refine Quiet.quiet_try_catch ?_
    | with_reducible refine Quiet.quiet_when_enabled ?_
    | with_reducible exact Quiet.quiet_pure _
    | with_reducible exact Quiet.quiet_read
    | with_reducible exact Quiet.quiet_eval ⟨_, parse_int_eq _ _ _⟩
    | with_reducible exact Quiet.quiet_eval ⟨_, parse_double_eq _ _ _⟩
    | ((with_reducible refine Quiet.quiet_assign ⟨_, parse_string_field_eq _ _ _⟩ ?_); exact fun _ _ => rfl)
    | with_reducible exact Quiet.quiet_select_state _ _
    | ((with_reducible refine Quiet.quiet_update_if ?_); exact fun _ => rfl)
    | with_reducible apply Quiet.quiet_ite
    | split

theorem case_IN_CONTROL_CONTACT_quiet (line : Str) :
    Quiet (case_IN_CONTROL_CONTACT line : Run (Ctx F) Unit) := by
  unfold KFile.case_IN_CONTROL_CONTACT
  repeat' first
    | ((with_reducible refine Quiet.quiet_assign (decode_control_contact_ok _) ?_); exact fun _ _ => rfl)
    | ((with_reducible refine Quiet.quiet_assign ⟨_, parse_int_eq _ _ _⟩ ?_); exact fun _ _ => rfl)
    | ((with_reducible refine Quiet.quiet_assign ⟨_, parse_double_eq _ _ _⟩ ?_); exact fun _ _ => rfl)
    | ((with_reducible refine Quiet.quiet_update ?_); exact fun _ => rfl)
    | with_reducible refine Quiet.quiet_bind ?_ (fun _ => ?_)
    | with_reducible exact Quiet.quiet_set_state _
    | with_reducible refine Quiet.quiet_try_catch ?_
    | with_reducible refine Quiet.quiet_when_enabled ?_
    | with_reducible exact Quiet.quiet_pure _
    | with_reducible exact Quiet.quiet_read
    | with_reducible exact Quiet.quiet_eval ⟨_, parse_int_eq _ _ _⟩
    | with_reducible exact Quiet.quiet_eval ⟨_, parse_double_eq _ _ _⟩
    | ((with_reducible refine Quiet.quiet_assign ⟨_, parse_string_field_eq _ _ _⟩ ?_); exact fun _ _ => rfl)
    | with_reducible exact Quiet.quiet_select_state _ _
    | ((with_reducible refine Quiet.quiet_update_if ?_); exact fun _ => rfl)
    | with_reducible apply Quiet.quiet_ite
    | split

theorem case_IN_CONTROL_HOURGLASS_quiet (line : Str) :
    Quiet (case_IN_CONTROL_HOURGLASS line : Run (Ctx F) Unit) := by
  unfold KFile.case_IN_CONTROL_HOURGLASS
  repeat' first
    | ((with_reducible refine Quiet.quiet_assign (decode_control_hourglass_ok _) ?_); exact fun _ _ => rfl)
    | ((with_reducible refine Quiet.quiet_assign ⟨_, parse_int_eq _ _ _⟩ ?_); exact fun _ _ => rfl)
    | ((with_reducible refine Quiet.quiet_assign ⟨_, parse_double_eq _ _ _⟩ ?_); exact fun _ _ => rfl)
    | ((with_reducible refine Quiet.quiet_update ?_); exact fun _ => rfl)
    | with_reducible refine Quiet.quiet_bind ?_ (fun _ => ?_)
    | with_reducible exact Quiet.quiet_set_state _
    | with_reducible refine Quiet.quiet_try_catch ?_
    | with_reducible refine Quiet.quiet_when_enabled ?_
    | with_reducible exact Quiet.quiet_pure _
    | with_reducible exact Quiet.quiet_read
    | with_reducible exact Quiet.quiet_eval ⟨_, parse_int_eq _ _ _⟩
    | with_reducible exact Quiet.quiet_eval ⟨_, parse_double_eq _ _ _⟩
    | ((with_reducible refine Quiet.quiet_assign ⟨_, parse_string_field_eq _ _ _⟩ ?_); exact fun _ _ => rfl)
    | with_reducible exact Quiet.quiet_select_state _ _
    | ((with_reducible refine Quiet.quiet_update_if ?_); exact fun _ => rfl)
    | with_reducible apply Quiet.quiet_ite
    | split

theorem case_IN_CONTROL_BULK_VISCOSITY_quiet (line : Str) :
    Quiet (case_IN_CONTROL_BULK_VISCOSITY line : Run (Ctx F) Unit) := by
  unfold KFile.case_IN_CONTROL_BULK_VISCOSITY
  repeat' first
    | ((with_reducible refine Quiet.quiet_assign (decode_control_bulk_viscosity_ok _) ?_); exact fun _ _ => rfl)
    | ((with_reducible refine Quiet.quiet_assign ⟨_, parse_int_eq _ _ _⟩ ?_); exact fun _ _ => rfl)
    | ((with_reducible refine Quiet.quiet_assign ⟨_, parse_double_eq _ _ _⟩ ?_); exact fun _ _ => rfl)
    | ((with_reducible refine Quiet.quiet_update ?_); exact fun _ => rfl)
    | with_reducible refine Quiet.quiet_bind ?_ (fun _ => ?_)
    | with_reducible exact Quiet.quiet_set_state _
    | with_reducible refine Quiet.quiet_try_catch ?_
    | with_reducible refine Quiet.quiet_when_enabled ?_
    | with_reducible exact Quiet.quiet_pure _
    | with_reducible exact Quiet.quiet_read
    | with_reducible exact Quiet.quiet_eval ⟨_, parse_int_eq _ _ _⟩
    | with_reducible exact Quiet.quiet_eval ⟨_, parse_double_eq _ _ _⟩
    | ((with_reducible refine Quiet.quiet_assign ⟨_, parse_string_field_eq _ _ _⟩ ?_); exact fun _ _ => rfl)
    | with_reducible exact Quiet.quiet_select_state _ _
    | ((with_reducible refine Quiet.quiet_update_if ?_); exact fun _ => rfl)
    | with_reducible apply Quiet.quiet_ite
    | split

theorem case_IN_DATABASE_BINARY_quiet (line : Str) :
    Quiet (case_IN_DATABASE_BINARY line : Run (Ctx F) Unit) := by
  unfold KFile.case_IN_DATABASE_BINARY
  repeat' first
    | ((with_reducible refine Quiet.quiet_assign ⟨_, parse_int_eq _ _ _⟩ ?_); exact fun _ _ => rfl)
    | ((with_reducible refine Quiet.quiet_assign ⟨_, parse_double_eq _ _ _⟩ ?_); exact fun _ _ => rfl)
    | ((with_reducible refine Quiet.quiet_update ?_); exact fun _ => rfl)
    | with_reducible refine Quiet.quiet_bind ?_ (fun _ => ?_)
    | with_reducible exact Quiet.quiet_set_state _
    | with_reducible refine Quiet.quiet_try_catch ?_
    | with_reducible refine Quiet.quiet_when_enabled ?_
    | with_reducible exact Quiet.quiet_pure _
    | with_reducible exact Quiet.quiet_read
    | with_reducible exact Quiet.quiet_eval ⟨_, parse_int_eq _ _ _⟩
    | with_reducible exact Quiet.quiet_eval ⟨_, parse_double_eq _ _ _⟩
    | ((with_reducible refine Quiet.quiet_assign ⟨_, parse_string_field_eq _ _ _⟩ ?_); exact fun _ _ => rfl)
    | with_reducible exact Quiet.quiet_select_state _ _
    | ((with_reducible refine Quiet.quiet_update_if ?_); exact fun _ => rfl)
    | with_reducible apply Quiet.quiet_ite
    | split

theorem case_IN_DATABASE_ASCII_quiet (line : Str) :
    Quiet (case_IN_DATABASE_ASCII line : Run (Ctx F) Unit) := by
  unfold KFile.case_IN_DATABASE_ASCII
  repeat' first
    | ((with_reducible refine Quiet.quiet_assign ⟨_, parse_int_eq _ _ _⟩ ?_); exact fun _ _ => rfl)
    | ((with_reducible refine Quiet.quiet_assign ⟨_, parse_double_eq _ _ _⟩ ?_); exact fun _ _ => rfl)
    | ((with_reducible refine Quiet.quiet_update ?_); exact fun _ => rfl)
    | with_reducible refine Quiet.quiet_bind ?_ (fun _ => ?_)
    | with_reducible exact Quiet.quiet_set_state _
    | with_reducible refine Quiet.quiet_try_catch ?_
    | with_reducible refine Quiet.quiet_when_enabled ?_
    | with_reducible exact Quiet.quiet_pure _
    | with_reducible exact Quiet.quiet_read
    | with_reducible exact Quiet.quiet_eval ⟨_, parse_int_eq _ _ _⟩
    | with_reducible exact Quiet.quiet_eval ⟨_, parse_double_eq _ _ _⟩
    | ((with_reducible refine Quiet.quiet_assign ⟨_, parse_string_field_eq _ _ _⟩ ?_); exact fun _ _ => rfl)
    | with_reducible exact Quiet.quiet_select_state _ _
    | ((with_reducible refine Quiet.quiet_update_if ?_); exact fun _ => rfl)
    | with_reducible apply Quiet.quiet_ite
    | split

theorem case_IN_DATABASE_HISTORY_NODE_quiet (line : Str) :
    Quiet (case_IN_DATABASE_HISTORY_NODE line : Run (Ctx F) Unit) := by
  unfold KFile.case_IN_DATABASE_HISTORY_NODE
  repeat' first
    | ((with_reducible refine Quiet.quiet_id_list_loop (F := F) _ ?_ _); exact fun _ _ => rfl)
    | ((with_reducible refine Quiet.quiet_assign ⟨_, parse_int_eq _ _ _⟩ ?_); exact fun _ _ => rfl)
    | ((with_reducible refine Quiet.quiet_assign ⟨_, parse_double_eq _ _ _⟩ ?_); exact fun _ _ => rfl)
    | ((with_reducible refine Quiet.quiet_update ?_); exact fun _ => rfl)
    | with_reducible refine Quiet.quiet_bind ?_ (fun _ => ?_)
    | with_reducible exact Quiet.quiet_set_state _
    | with_reducible refine Quiet.quiet_try_catch ?_
    | with_reducible refine Quiet.quiet_when_enabled ?_
    | with_reducible exact Quiet.quiet_pure _
    | with_reducible exact Quiet.quiet_read
    | with_reducible exact Quiet.quiet_eval ⟨_, parse_int_eq _ _ _⟩
    | with_reducible exact Quiet.quiet_eval ⟨_, parse_double_eq _ _ _⟩
    | ((with_reducible refine Quiet.quiet_assign ⟨_, parse_string_field_eq _ _ _⟩ ?_); exact fun _ _ => rfl)
    | with_reducible exact Quiet.quiet_select_state _ _
    | ((with_reducible refine Quiet.quiet_update_if ?_); exact fun _ => rfl)
    | with_reducible apply Quiet.quiet_ite
    | split

theorem case_IN_DATABASE_HISTORY_ELEMENT_quiet (line : Str) :
    Quiet (case_IN_DATABASE_HISTORY_ELEMENT line : Run (Ctx F) Unit) := by
  unfold KFile.case_IN_DATABASE_HISTORY_ELEMENT
  repeat' first
    | ((with_reducible refine Quiet.quiet_id_list_loop (F := F) _ ?_ _); exact fun _ _ => rfl)
    | ((with_reducible refine Quiet.quiet_assign ⟨_, parse_int_eq _ _ _⟩ ?_); exact fun _ _ => rfl)
    | ((with_reducible refine Quiet.quiet_assign ⟨_, parse_double_eq _ _ _⟩ ?_); exact fun _ _ => rfl)
    | ((with_reducible refine Quiet.quiet_update ?_); exact fun _ => rfl)
    | with_reducible refine Quiet.quiet_bind ?_ (fun _ => ?_)
    | with_reducible exact Quiet.quiet_set_state _
    | with_reducible refine Quiet.quiet_try_catch ?_
    | with_reducible refine Quiet.quiet_when_enabled ?_
    | with_reducible exact Quiet.quiet_pure _
    | with_reducible exact Quiet.quiet_read
    | with_reducible exact Quiet.quiet_eval ⟨_, parse_int_eq _ _ _⟩
    | with_reducible exact Quiet.quiet_eval ⟨_, parse_double_eq _ _ _⟩
    | ((with_reducible refine Quiet.quiet_assign ⟨_, parse_string_field_eq _ _ _⟩ ?_); exact fun _ _ => rfl)
    | with_reducible exact Quiet.quiet_select_state _ _
    | ((with_reducible refine Quiet.quiet_update_if ?_); exact fun _ => rfl)
    | with_reducible apply Quiet.quiet_ite
    | split

theorem case_IN_DATABASE_CROSS_SECTION_quiet (line : Str) :
    Quiet (case_IN_DATABASE_CROSS_SECTION line : Run (Ctx F) Unit) := by
  unfold KFile.case_IN_DATABASE_CROSS_SECTION
  repeat' first
    | ((with_reducible refine Quiet.quiet_assign (decode_database_cross_section_ok _) ?_); exact fun _ _ => rfl)
    | ((with_reducible refine Quiet.quiet_assign ⟨_, parse_int_eq _ _ _⟩ ?_); exact fun _ _ => rfl)
    | ((with_reducible refine Quiet.quiet_assign ⟨_, parse_double_eq _ _ _⟩ ?_); exact fun _ _ => rfl)
    | ((with_reducible refine Quiet.quiet_update ?_); exact fun _ => rfl)
    | with_reducible refine Quiet.quiet_bind ?_ (fun _ => ?_)
    | with_reducible exact Quiet.quiet_set_state _
    | with_reducible refine Quiet.quiet_try_catch ?_
    | with_reducible refine Quiet.quiet_when_enabled ?_
    | with_reducible exact Quiet.quiet_pure _
    | with_reducible exact Quiet.quiet_read
    | with_reducible exact Quiet.quiet_eval ⟨_, parse_int_eq _ _ _⟩
    | with_reducible exact Quiet.quiet_eval ⟨_, parse_double_eq _ _ _⟩
    | ((with_reducible refine Quiet.quiet_assign ⟨_, parse_string_field_eq _ _ _⟩ ?_); exact fun _ _ => rfl)
    | with_reducible exact Quiet.quiet_select_state _ _
    | ((with_reducible refine Quiet.quiet_update_if ?_); exact fun _ => rfl)
    | with_reducible apply Quiet.quiet_ite
    | split

theorem case_IN_INITIAL_VELOCITY_quiet (line : Str) :
    Quiet (case_IN_INITIAL_VELOCITY line : Run (Ctx F) Unit) := by
  unfold KFile.case_IN_INITIAL_VELOCITY
  repeat' first
    | unfold KFile.push_current_initial_velocity
    | ((with_reducible refine Quiet.quiet_assign ⟨_, parse_int_eq _ _ _⟩ ?_); exact fun _ _ => rfl)
    | ((with_reducible refine Quiet.quiet_assign ⟨_, parse_double_eq _ _ _⟩ ?_); exact fun _ _ => rfl)
    | ((with_reducible refine Quiet.quiet_update ?_); exact fun _ => rfl)
    | with_reducible refine Quiet.quiet_bind ?_ (fun _ => ?_)
    | with_reducible exact Quiet.quiet_set_state _
    | with_reducible refine Quiet.quiet_try_catch ?_
    | with_reducible refine Quiet.quiet_when_enabled ?_
    | with_reducible exact Quiet.quiet_pure _
    | with_reducible exact Quiet.quiet_read
    | with_reducible exact Quiet.quiet_eval ⟨_, parse_int_eq _ _ _⟩
    | with_reducible exact Quiet.quiet_eval ⟨_, parse_double_eq _ _ _⟩
    | ((with_reducible refine Quiet.quiet_assign ⟨_, parse_string_field_eq _ _ _⟩ ?_); exact fun _ _ => rfl)
    | with_reducible exact Quiet.quiet_select_state _ _
    | ((with_reducible refine Quiet.quiet_update_if ?_); exact fun _ => rfl)
    | with_reducible apply Quiet.quiet_ite
    | split

theorem case_IN_INITIAL_VELOCITY_GENERATION_quiet (line : Str) :
    Quiet (case_IN_INITIAL_VELOCITY_GENERATION line : Run (Ctx F) Unit) := by
  unfold KFile.case_IN_INITIAL_VELOCITY_GENERATION
  repeat' first
    | unfold KFile.push_current_initial_velocity
    | ((with_reducible refine Quiet.quiet_assign ⟨_, parse_int_eq _ _ _⟩ ?_); exact fun _ _ => rfl)
    | ((with_reducible refine Quiet.quiet_assign ⟨_, parse_double_eq _ _ _⟩ ?_); exact fun _ _ => rfl)
    | ((with_reducible refine Quiet.quiet_update ?_); exact fun _ => rfl)
    | with_reducible refine Quiet.quiet_bind ?_ (fun _ => ?_)
    | with_reducible exact Quiet.quiet_set_state _
    | with_reducible refine Quiet.quiet_try_catch ?_
    | with_reducible refine Quiet.quiet_when_enabled ?_
    | with_reducible exact Quiet.quiet_pure _
    | with_reducible exact Quiet.quiet_read
    | with_reducible exact Quiet.quiet_eval ⟨_, parse_int_eq _ _ _⟩
    | with_reducible exact Quiet.quiet_eval ⟨_, parse_double_eq _ _ _⟩
    | ((with_reducible refine Quiet.quiet_assign ⟨_, parse_string_field_eq _ _ _⟩ ?_); exact fun _ _ => rfl)
    | with_reducible exact Quiet.quiet_select_state _ _
    | ((with_reducible refine Quiet.quiet_update_if ?_); exact fun _ => rfl)
    | with_reducible apply Quiet.quiet_ite
    | split

theorem case_IN_CONSTRAINED_NODAL_RIGID_BODY_quiet (line : Str) :
    Quiet (case_IN_CONSTRAINED_NODAL_RIGID_BODY line : Run (Ctx F) Unit) := by
  unfold KFile.case_IN_CONSTRAINED_NODAL_RIGID_BODY
  repeat' first
    | unfold KFile.push_current_nodal_rigid_body
    | ((with_reducible refine Quiet.quiet_assign ⟨_, parse_int_eq _ _ _⟩ ?_); exact fun _ _ => rfl)
    | ((with_reducible refine Quiet.quiet_assign ⟨_, parse_double_eq _ _ _⟩ ?_); exact fun _ _ => rfl)
    | ((with_reducible refine Quiet.quiet_update ?_); exact fun _ => rfl)
    | with_reducible refine Quiet.quiet_bind ?_ (fun _ => ?_)
    | with_reducible exact Quiet.quiet_set_state _
    | with_reducible refine Quiet.quiet_try_catch ?_
    | with_reducible refine Quiet.quiet_when_enabled ?_
    | with_reducible exact Quiet.quiet_pure _
    | with_reducible exact Quiet.quiet_read
    | with_reducible exact Quiet.quiet_eval ⟨_, parse_int_eq _ _ _⟩
    | with_reducible exact Quiet.quiet_eval ⟨_, parse_double_eq _ _ _⟩
    | ((with_reducible refine Quiet.quiet_assign ⟨_, parse_string_field_eq _ _ _⟩ ?_); exact fun _ _ => rfl)
    | with_reducible exact Quiet.quiet_select_state _ _
    | ((with_reducible refine Quiet.quiet_update_if ?_); exact fun _ => rfl)
    | with_reducible apply Quiet.quiet_ite
    | split

theorem case_IN_CONSTRAINED_NODAL_RIGID_BODY_INERTIA_quiet (line : Str) :
    Quiet (case_IN_CONSTRAINED_NODAL_RIGID_BODY_INERTIA line : Run (Ctx F) Unit) := by
  unfold KFile.case_IN_CONSTRAINED_NODAL_RIGID_BODY_INERTIA
  repeat' first
    | unfold KFile.push_current_nodal_rigid_body
    | ((with_reducible refine Quiet.quiet_assign ⟨_, parse_int_eq _ _ _⟩ ?_); exact fun _ _ => rfl)
    | ((with_reducible refine Quiet.quiet_assign ⟨_, parse_double_eq _ _ _⟩ ?_); exact fun _ _ => rfl)
    | ((with_reducible refine Quiet.quiet_update ?_); exact fun _ => rfl)
    | with_reducible refine Quiet.quiet_bind ?_ (fun _ => ?_)
    | with_reducible exact Quiet.quiet_set_state _
    | with_reducible refine Quiet.quiet_try_catch ?_
    | with_reducible refine Quiet.quiet_when_enabled ?_
    | with_reducible exact Quiet.quiet_pure _
    | with_reducible exact Quiet.quiet_read
    | with_reducible exact Quiet.quiet_eval ⟨_, parse_int_eq _ _ _⟩
    | with_reducible exact Quiet.quiet_eval ⟨_, parse_double_eq _ _ _⟩
    | ((with_reducible refine Quiet.quiet_assign ⟨_, parse_string_field_eq _ _ _⟩ ?_); exact fun _ _ => rfl)
    | with_reducible exact Quiet.quiet_select_state _ _
    | ((with_reducible refine Quiet.quiet_update_if ?_); exact fun _ => rfl)
    | with_reducible apply Quiet.quiet_ite
    | split

theorem case_IN_CONSTRAINED_EXTRA_NODES_quiet (line : Str) :
    Quiet (case_IN_CONSTRAINED_EXTRA_NODES line : Run (Ctx F) Unit) := by
  unfold KFile.case_IN_CONSTRAINED_EXTRA_NODES
  repeat' first
    | ((with_reducible refine Quiet.quiet_id_list_loop (F := F) _ ?_ _); exact fun _ _ => rfl)
    | ((with_reducible refine Quiet.quiet_assign ⟨_, parse_int_eq _ _ _⟩ ?_); exact fun _ _ => rfl)
    | ((with_reducible refine Quiet.quiet_assign ⟨_, parse_double_eq _ _ _⟩ ?_); exact fun _ _ => rfl)
    | ((with_reducible refine Quiet.quiet_update ?_); exact fun _ => rfl)
    | with_reducible refine Quiet.quiet_bind ?_ (fun _ => ?_)
    | with_reducible exact Quiet.quiet_set_state _
    | with_reducible refine Quiet.quiet_try_catch ?_
    | with_reducible refine Quiet.quiet_when_enabled ?_
    | with_reducible exact Quiet.quiet_pure _
    | with_reducible exact Quiet.quiet_read
    | with_reducible exact Quiet.quiet_eval ⟨_, parse_int_eq _ _ _⟩
    | with_reducible exact Quiet.quiet_eval ⟨_, parse_double_eq _ _ _⟩
    | ((with_reducible refine Quiet.quiet_assign ⟨_, parse_string_field_eq _ _ _⟩ ?_); exact fun _ _ => rfl)
    | with_reducible exact Quiet.quiet_select_state _ _
    | ((with_reducible refine Quiet.quiet_update_if ?_); exact fun _ => rfl)
    | with_reducible apply Quiet.quiet_ite
    | split

theorem case_IN_CONSTRAINED_JOINT_quiet (line : Str) :
    Quiet (case_IN_CONSTRAINED_JOINT line : Run (Ctx F) Unit) := by
  unfold KFile.case_IN_CONSTRAINED_JOINT
  repeat' first
    | ((with_reducible refine Quiet.quiet_assign ⟨_, parse_int_eq _ _ _⟩ ?_); exact fun _ _ => rfl)
    | ((with_reducible refine Quiet.quiet_assign ⟨_, parse_double_eq _ _ _⟩ ?_); exact fun _ _ => rfl)
    | ((with_reducible refine Quiet.quiet_update ?_); exact fun _ => rfl)
    | with_reducible refine Quiet.quiet_bind ?_ (fun _ => ?_)
    | with_reducible exact Quiet.quiet_set_state _
    | with_reducible refine Quiet.quiet_try_catch ?_
    | with_reducible refine Quiet.quiet_when_enabled ?_
    | with_reducible exact Quiet.quiet_pure _
    | with_reducible exact Quiet.quiet_read
    | with_reducible exact Quiet.quiet_eval ⟨_, parse_int_eq _ _ _⟩
    | with_reducible exact Quiet.quiet_eval ⟨_, parse_double_eq _ _ _⟩
    | ((with_reducible refine Quiet.quiet_assign ⟨_, parse_string_field_eq _ _ _⟩ ?_); exact fun _ _ => rfl)
    | with_reducible exact Quiet.quiet_select_state _ _
    | ((with_reducible refine Quiet.quiet_update_if ?_); exact fun _ => rfl)
    | with_reducible apply Quiet.quiet_ite
    | split

theorem case_IN_CONSTRAINED_SPOTWELD_quiet (line : Str) :
    Quiet (case_IN_CONSTRAINED_SPOTWELD line : Run (Ctx F) Unit) := by
  unfold KFile.case_IN_CONSTRAINED_SPOTWELD
  repeat' first
    | ((with_reducible refine Quiet.quiet_assign ⟨_, parse_int_eq _ _ _⟩ ?_); exact fun _ _ => rfl)
    | ((with_reducible refine Quiet.quiet_assign ⟨_, parse_double_eq _ _ _⟩ ?_); exact fun _ _ => rfl)
    | ((with_reducible refine Quiet.quiet_update ?_); exact fun _ => rfl)
    | with_reducible refine Quiet.quiet_bind ?_ (fun _ => ?_)
    | with_reducible exact Quiet.quiet_set_state _
    | with_reducible refine Quiet.quiet_try_catch ?_
    | with_reducible refine Quiet.quiet_when_enabled ?_
    | with_reducible exact Quiet.quiet_pure _
    | with_reducible exact Quiet.quiet_read
    | with_reducible exact Quiet.quiet_eval ⟨_, parse_int_eq _ _ _⟩
    | with_reducible exact Quiet.quiet_eval ⟨_, parse_double_eq _ _ _⟩
    | ((with_reducible refine Quiet.quiet_assign ⟨_, parse_string_field_eq _ _ _⟩ ?_); exact fun _ _ => rfl)
    | with_reducible exact Quiet.quiet_select_state _ _
    | ((with_reducible refine Quiet.quiet_update_if ?_); exact fun _ => rfl)
    | with_reducible apply Quiet.quiet_ite
    | split

end QuietBranches

/-! ## Facts about `find` and the keyword tests -/

theorem find_eq_some_zero_iff (s pat : Str) : find s pat = some 0 ↔ pat <+: s := by
  unfold find
  by_cases h : pat.isPrefixOf s = true
  · simp only [h, if_true, true_iff]
    exact List.isPrefixOf_iff_prefix.mp h
  · simp only [h, if_false, Bool.false_eq_true]
    constructor
    · intro h0
      cases s with
      | nil => simp at h0
      | cons a t =>
        simp only at h0
        cases hf : find t pat with
        | none => rw [hf] at h0; simp at h0
        | some k => rw [hf] at h0; simp at h0
    · intro hp
      exact absurd (List.isPrefixOf_iff_prefix.mpr hp) h

theorem found_at_0_iff (s : Str) (pat : String) : found_at_0 s pat = true ↔ pat.toList <+: s := by
  unfold found_at_0
  rw [decide_eq_true_iff]
  exact find_eq_some_zero_iff s pat.toList

theorem found_at_0_length (s : Str) (pat : String) (h : found_at_0 s pat = true) :
    pat.toList.length ≤ s.length :=
  ((found_at_0_iff s pat).mp h).length_le

/-- Two keyword heads neither of which starts with the other cannot both start a line. -/
theorem found_at_0_exclusive (s : Str) (p q : String) (hp : found_at_0 s p = true)
    (hpq : (p.toList.isPrefixOf q.toList || q.toList.isPrefixOf p.toList) = false) :
    found_at_0 s q = false := by
  cases hq : found_at_0 s q with
  | false => rfl
  | true =>
    exfalso
    have h1 := (found_at_0_iff s p).mp hp
    have h2 := (found_at_0_iff s q).mp hq
    rcases List.prefix_or_prefix_of_prefix h1 h2 with h | h
    · have := List.isPrefixOf_iff_prefix.mpr h
      rw [this] at hpq
      simp at hpq
    · have := List.isPrefixOf_iff_prefix.mpr h
      rw [this] at hpq
      simp at hpq

theorem find_char_from_lt (s : Str) (ch : Char) (pos i : Nat)
    (h : find_char_from s ch pos = some i) : i < s.length := by
  unfold find_char_from at h
  cases hj : (s.drop pos).indexOf? ch with
  | none => rw [hj] at h; simp at h
  | some j =>
    rw [hj] at h
    simp only [Option.map_some', Option.some.injEq] at h
    have hlt : j < (s.drop pos).length := by
      unfold List.indexOf? at hj
      obtain ⟨hh, _⟩ := List.findIdx?_eq_some_iff_getElem.mp hj
      exact hh
    rw [List.length_drop] at hlt
    omega

theorem is_keyword_iff (l : Str) : is_keyword l = true ↔ l.head? = some '*' := by
  cases l with
  | nil => simp [is_keyword]
  | cons a t => simp [is_keyword]

theorem is_keyword_not_blank (l : Str) (h : is_keyword l = true) :
    is_empty_or_whitespace l = false := by
  cases l with
  | nil => simp [is_keyword] at h
  | cons a t =>
    simp only [is_keyword, decide_eq_true_eq] at h
    subst h
    simp [is_empty_or_whitespace, isspace]

theorem process_line_keyword {F : Type} [DoubleModel F] (l : Str) (h : is_keyword l = true) :
    (process_line l : Run (Ctx F) Unit) = process_keyword (to_upper l) := by
  unfold process_line
  rw [is_keyword_not_blank l h, h]
  rfl

/-! ## `process_line` never throws and never warns -/

section QuietLine

variable {F : Type} [DoubleModel F]

theorem contact_options_ok (fuel : Nat) :
    ∀ (pos : Option Nat) (st : Str × Bool × Bool),
      (∀ i, pos = some i → i < st.1.length) →
      ∃ r, contact_options fuel pos st = .ok r := by
  induction fuel with
  | zero => exact fun _ st _ => ⟨st, rfl⟩
  | succ fuel ih =>
    intro pos st h
    cases pos with
    | none => exact ⟨st, rfl⟩
    | some p =>
      obtain ⟨tn, a, b⟩ := st
      have hp : p < tn.length := h p rfl
      unfold contact_options
      have e1 : substr_from tn (p + 1) = .ok (tn.drop (p + 1)) := by
        unfold substr_from
        rw [if_neg (by omega)]
      have e2 : substr tn 0 p = .ok ((tn.drop 0).take p) := by
        unfold substr
        rw [if_neg (by omega)]
      simp only [e1, e2, bind, Except.bind]
      split_ifs
      · exact ⟨_, rfl⟩
      · exact ⟨_, rfl⟩
      · exact ⟨_, rfl⟩
      · exact ih _ _ (fun i hi => find_char_from_lt tn '_' (p + 1) i hi)

theorem begin_contact_quiet (u : Str) (h : found_at_0 u "*CONTACT_" = true) :
    Quiet (begin_contact u : Run (Ctx F) Unit) := by
  have hlen : 9 ≤ u.length := found_at_0_length u "*CONTACT_" h
  have e1 : substr_from u 9 = .ok (u.drop 9) := by
    unfold substr_from
    rw [if_neg (by omega)]
  unfold begin_contact
  rw [e1]
  refine Quiet.quiet_when_enabled ?_
  refine Quiet.quiet_bind (Quiet.quiet_update (fun _ => rfl)) (fun _ => ?_)
  refine Quiet.quiet_bind (Quiet.quiet_eval ⟨_, rfl⟩) (fun tn => ?_)
  refine Quiet.quiet_bind (Quiet.quiet_eval (contact_options_ok _ _ _
    (fun i hi => find_char_from_lt tn '_' 0 i hi))) (fun r => ?_)
  obtain ⟨tn2, has_id, has_title⟩ := r
  refine Quiet.quiet_bind (Quiet.quiet_update (fun _ => rfl)) (fun _ => ?_)
  refine Quiet.quiet_bind (Quiet.quiet_update (fun _ => rfl)) (fun _ => ?_)
  repeat' first
    | exact Quiet.quiet_set_state _
    | apply Quiet.quiet_ite

theorem begin_material_quiet (u : Str) (h : found_at_0 u "*MAT_" = true) :
    Quiet (begin_material u : Run (Ctx F) Unit) := by
  have hlen : 5 ≤ u.length := found_at_0_length u "*MAT_" h
  have e1 : substr_from u 5 = .ok (u.drop 5) := by
    unfold substr_from
    rw [if_neg (by omega)]
  have e2 : ∀ (s : Str) (n : Nat), substr s 0 n = .ok ((s.drop 0).take n) := by
    intro s n
    unfold substr
    rw [if_neg (by omega)]
  unfold begin_material
  rw [e1]
  refine Quiet.quiet_when_enabled ?_
  refine Quiet.quiet_bind ?_ (fun _ => ?_)
  · unfold push_current_material
    exact Quiet.quiet_update_if (fun _ => rfl)
  refine Quiet.quiet_bind (Quiet.quiet_update (fun _ => rfl)) (fun _ => ?_)
  refine Quiet.quiet_bind (Quiet.quiet_eval ⟨_, rfl⟩) (fun ts => ?_)
  dsimp only
  split
  · refine Quiet.quiet_bind (Quiet.quiet_eval ⟨_, e2 _ _⟩) (fun ts2 => ?_)
    refine Quiet.quiet_bind (Quiet.quiet_update (fun _ => rfl)) (fun _ => ?_)
    refine Quiet.quiet_bind (Quiet.quiet_update (fun _ => rfl)) (fun _ => ?_)
    exact Quiet.quiet_set_state _
  · refine Quiet.quiet_bind (Quiet.quiet_pure _) (fun ts2 => ?_)
    refine Quiet.quiet_bind (Quiet.quiet_update (fun _ => rfl)) (fun _ => ?_)
    refine Quiet.quiet_bind (Quiet.quiet_update (fun _ => rfl)) (fun _ => ?_)
    exact Quiet.quiet_set_state _

end QuietLine

/-! ## The state a keyword branch ends in

Every keyword branch that returns leaves a state of its own family or a neutral
one. -/

section EndsBranches

variable {F : Type} [DoubleModel F]

set_option linter.unusedTactic false
set_option linter.unreachableTactic false
set_option linter.unusedVariables false
set_option linter.unusedSectionVars false

theorem Ends.ends_set_state_ite {S : ParseState → Prop} {p : Prop} [Decidable p] {a b : ParseState}
    (ha : S a) (hb : S b) : Ends S (KFile.set_state (if p then a else b) : Run (Ctx F) Unit) := by
  intro c x _
  show S (if p then a else b)
  split
  · exact ha
  · exact hb

theorem begin_set_ends (u : Str) (type : SetType) (header : ParseState) (hh : header.within .set) :
    Ends (ParseState.within .set) (begin_set u type header : Run (Ctx F) Unit) := by
  unfold KFile.begin_set
  repeat' first
    | ((with_reducible refine Ends.ends_set_state _ ?_); decide)
    | with_reducible refine Ends.ends_bind (fun _ => ?_)
    | ((with_reducible refine Ends.ends_when_enabled ?_ ?_); decide)
    | ((with_reducible refine Ends.ends_select_state _ _ ?_ ?_); decide; decide)
    | ((with_reducible refine Ends.ends_set_state_ite ?_ ?_); decide; decide)
    | with_reducible exact Ends.ends_set_state _ hh
    | with_reducible apply Ends.ends_ite
    | split

theorem begin_section_ends (u : Str) (type : SectionType) (title header : ParseState) (ht : title.within .other) (hh : header.within .other) :
    Ends (ParseState.within .other) (begin_section u type title header : Run (Ctx F) Unit) := by
  unfold KFile.begin_section
  repeat' first
    | ((with_reducible refine Ends.ends_set_state _ ?_); decide)
    | with_reducible refine Ends.ends_bind (fun _ => ?_)
    | ((with_reducible refine Ends.ends_when_enabled ?_ ?_); decide)
    | ((with_reducible refine Ends.ends_select_state _ _ ?_ ?_); decide; decide)
    | ((with_reducible refine Ends.ends_set_state_ite ?_ ?_); decide; decide)
    | with_reducible exact Ends.ends_set_state _ hh
    | with_reducible exact Ends.ends_set_state _ ht
    | with_reducible apply Ends.ends_ite
    | split

theorem begin_contact_ends (u : Str) :
    Ends (ParseState.within .contact) (begin_contact u : Run (Ctx F) Unit) := by
  unfold KFile.begin_contact
  repeat' first
    | ((with_reducible refine Ends.ends_set_state _ ?_); decide)
    | with_reducible refine Ends.ends_bind (fun _ => ?_)
    | ((with_reducible refine Ends.ends_when_enabled ?_ ?_); decide)
    | ((with_reducible refine Ends.ends_select_state _ _ ?_ ?_); decide; decide)
    | ((with_reducible refine Ends.ends_set_state_ite ?_ ?_); decide; decide)
    | with_reducible apply Ends.ends_ite
    | split

theorem begin_material_ends (u : Str) :
    Ends (ParseState.within .material) (begin_material u : Run (Ctx F) Unit) := by
  unfold KFile.begin_material
  repeat' first
    | ((with_reducible refine Ends.ends_set_state _ ?_); decide)
    | with_reducible refine Ends.ends_bind (fun _ => ?_)
    | ((with_reducible refine Ends.ends_when_enabled ?_ ?_); decide)
    | ((with_reducible refine Ends.ends_select_state _ _ ?_ ?_); decide; decide)
    | ((with_reducible refine Ends.ends_set_state_ite ?_ ?_); decide; decide)
    | with_reducible apply Ends.ends_ite
    | split

theorem begin_curve_ends (u : Str) :
    Ends (ParseState.within .curve) (begin_curve u : Run (Ctx F) Unit) := by
  unfold KFile.begin_curve
  repeat' first
    | ((with_reducible refine Ends.ends_set_state _ ?_); decide)
    | with_reducible refine Ends.ends_bind (fun _ => ?_)
    | ((with_reducible refine Ends.ends_when_enabled ?_ ?_); decide)
    | ((with_reducible refine Ends.ends_select_state _ _ ?_ ?_); decide; decide)
    | ((with_reducible refine Ends.ends_set_state_ite ?_ ?_); decide; decide)
    | with_reducible apply Ends.ends_ite
    | split

theorem begin_boundary_spc_ends (u : Str) :
    Ends (ParseState.within .other) (begin_boundary_spc u : Run (Ctx F) Unit) := by
  unfold KFile.begin_boundary_spc
  repeat' first
    | ((with_reducible refine Ends.ends_set_state _ ?_); decide)
    | with_reducible refine Ends.ends_bind (fun _ => ?_)
    | ((with_reducible refine Ends.ends_when_enabled ?_ ?_); decide)
    | ((with_reducible refine Ends.ends_select_state _ _ ?_ ?_); decide; decide)
    | ((with_reducible refine Ends.ends_set_state_ite ?_ ?_); decide; decide)
    | with_reducible apply Ends.ends_ite
    | split

theorem begin_boundary_motion_ends (u : Str) :
    Ends (ParseState.within .other) (begin_boundary_motion u : Run (Ctx F) Unit) := by
  unfold KFile.begin_boundary_motion
  repeat' first
    | ((with_reducible refine Ends.ends_set_state _ ?_); decide)
    | with_reducible refine Ends.ends_bind (fun _ => ?_)
    | ((with_reducible refine Ends.ends_when_enabled ?_ ?_); decide)
    | ((with_reducible refine Ends.ends_select_state _ _ ?_ ?_); decide; decide)
    | ((with_reducible refine Ends.ends_set_state_ite ?_ ?_); decide; decide)
    | with_reducible apply Ends.ends_ite
    | split

theorem begin_load_node_ends (u : Str) :
    Ends (ParseState.within .other) (begin_load_node u : Run (Ctx F) Unit) := by
  unfold KFile.begin_load_node
  repeat' first
    | ((with_reducible refine Ends.ends_set_state _ ?_); decide)
    | with_reducible refine Ends.ends_bind (fun _ => ?_)
    | ((with_reducible refine Ends.ends_when_enabled ?_ ?_); decide)
    | ((with_reducible refine Ends.ends_select_state _ _ ?_ ?_); decide; decide)
    | ((with_reducible refine Ends.ends_set_state_ite ?_ ?_); decide; decide)
    | with_reducible apply Ends.ends_ite
    | split

theorem begin_load_body_ends (u : Str) :
    Ends (ParseState.within .other) (begin_load_body u : Run (Ctx F) Unit) := by
  unfold KFile.begin_load_body
  repeat' first
    | ((with_reducible refine Ends.ends_set_state _ ?_); decide)
    | with_reducible refine Ends.ends_bind (fun _ => ?_)
    | ((with_reducible refine Ends.ends_when_enabled ?_ ?_); decide)
    | ((with_reducible refine Ends.ends_select_state _ _ ?_ ?_); decide; decide)
    | ((with_reducible refine Ends.ends_set_state_ite ?_ ?_); decide; decide)
    | with_reducible apply Ends.ends_ite
    | split

theorem begin_database_binary_ends (t : DatabaseType) :
    Ends (ParseState.within .other) (begin_database_binary t : Run (Ctx F) Unit) := by
  unfold KFile.begin_database_binary
  repeat' first
    | ((with_reducible refine Ends.ends_set_state _ ?_); decide)
    | with_reducible refine Ends.ends_bind (fun _ => ?_)
    | ((with_reducible refine Ends.ends_when_enabled ?_ ?_); decide)
    | ((with_reducible refine Ends.ends_select_state _ _ ?_ ?_); decide; decide)
    | ((with_reducible refine Ends.ends_set_state_ite ?_ ?_); decide; decide)
    | with_reducible apply Ends.ends_ite
    | split

theorem begin_database_ascii_ends (t : DatabaseType) :
    Ends (ParseState.within .other) (begin_database_ascii t : Run (Ctx F) Unit) := by
  unfold KFile.begin_database_ascii
  repeat' first
    | ((with_reducible refine Ends.ends_set_state _ ?_); decide)
    | with_reducible refine Ends.ends_bind (fun _ => ?_)
    | ((with_reducible refine Ends.ends_when_enabled ?_ ?_); decide)
    | ((with_reducible refine Ends.ends_select_state _ _ ?_ ?_); decide; decide)
    | ((with_reducible refine Ends.ends_set_state_ite ?_ ?_); decide; decide)
    | with_reducible apply Ends.ends_ite
    | split

theorem begin_database_history_node_ends :
    Ends (ParseState.within .other) (begin_database_history_node : Run (Ctx F) Unit) := by
  unfold KFile.begin_database_history_node
  repeat' first
    | ((with_reducible refine Ends.ends_set_state _ ?_); decide)
    | with_reducible refine Ends.ends_bind (fun _ => ?_)
    | ((with_reducible refine Ends.ends_when_enabled ?_ ?_); decide)
    | ((with_reducible refine Ends.ends_select_state _ _ ?_ ?_); decide; decide)
    | ((with_reducible refine Ends.ends_set_state_ite ?_ ?_); decide; decide)
    | with_reducible apply Ends.ends_ite
    | split

theorem begin_database_history_element_ends (t : Int) :
    Ends (ParseState.within .other) (begin_database_history_element t : Run (Ctx F) Unit) := by
  unfold KFile.begin_database_history_element
  repeat' first
    | ((with_reducible refine Ends.ends_set_state _ ?_); decide)
    | with_reducible refine Ends.ends_bind (fun _ => ?_)
    | ((with_reducible refine Ends.ends_when_enabled ?_ ?_); decide)
    | ((with_reducible refine Ends.ends_select_state _ _ ?_ ?_); decide; decide)
    | ((with_reducible refine Ends.ends_set_state_ite ?_ ?_); decide; decide)
    | with_reducible apply Ends.ends_ite
    | split

theorem begin_initial_velocity_generation_ends :
    Ends (ParseState.within .other) (begin_initial_velocity_generation : Run (Ctx F) Unit) := by
  unfold KFile.begin_initial_velocity_generation
  repeat' first
    | ((with_reducible refine Ends.ends_set_state _ ?_); decide)
    | with_reducible refine Ends.ends_bind (fun _ => ?_)
    | ((with_reducible refine Ends.ends_when_enabled ?_ ?_); decide)
    | ((with_reducible refine Ends.ends_select_state _ _ ?_ ?_); decide; decide)
    | ((with_reducible refine Ends.ends_set_state_ite ?_ ?_); decide; decide)
    | with_reducible apply Ends.ends_ite
    | split

theorem begin_initial_velocity_ends (u : Str) :
    Ends (ParseState.within .other) (begin_initial_velocity u : Run (Ctx F) Unit) := by
  unfold KFile.begin_initial_velocity
  repeat' first
    | ((with_reducible refine Ends.ends_set_state _ ?_); decide)
    | with_reducible refine Ends.ends_bind (fun _ => ?_)
    | ((with_reducible refine Ends.ends_when_enabled ?_ ?_); decide)
    | ((with_reducible refine Ends.ends_select_state _ _ ?_ ?_); decide; decide)
    | ((with_reducible refine Ends.ends_set_state_ite ?_ ?_); decide; decide)
    | with_reducible apply Ends.ends_ite
    | split

theorem begin_constrained_nodal_rigid_body_ends (u : Str) :
    Ends (ParseState.within .other) (begin_constrained_nodal_rigid_body u : Run (Ctx F) Unit) := by
  unfold KFile.begin_constrained_nodal_rigid_body
  repeat' first
    | ((with_reducible refine Ends.ends_set_state _ ?_); decide)
    | with_reducible refine Ends.ends_bind (fun _ => ?_)
    | ((with_reducible refine Ends.ends_when_enabled ?_ ?_); decide)
    | ((with_reducible refine Ends.ends_select_state _ _ ?_ ?_); decide; decide)
    | ((with_reducible refine Ends.ends_set_state_ite ?_ ?_); decide; decide)
    | with_reducible apply Ends.ends_ite
    | split

theorem begin_constrained_extra_nodes_ends (u : Str) :
    Ends (ParseState.within .other) (begin_constrained_extra_nodes u : Run (Ctx F) Unit) := by
  unfold KFile.begin_constrained_extra_nodes
  repeat' first
    | ((with_reducible refine Ends.ends_set_state _ ?_); decide)
    | with_reducible refine Ends.ends_bind (fun _ => ?_)
    | ((with_reducible refine Ends.ends_when_enabled ?_ ?_); decide)
    | ((with_reducible refine Ends.ends_select_state _ _ ?_ ?_); decide; decide)
    | ((with_reducible refine Ends.ends_set_state_ite ?_ ?_); decide; decide)
    | with_reducible apply Ends.ends_ite
    | split

theorem begin_constrained_joint_ends (u : Str) :
    Ends (ParseState.within .other) (begin_constrained_joint u : Run (Ctx F) Unit) := by
  unfold KFile.begin_constrained_joint
  repeat' first
    | ((with_reducible refine Ends.ends_set_state _ ?_); decide)
    | with_reducible refine Ends.ends_bind (fun _ => ?_)
    | ((with_reducible refine Ends.ends_when_enabled ?_ ?_); decide)
    | ((with_reducible refine Ends.ends_select_state _ _ ?_ ?_); decide; decide)
    | ((with_reducible refine Ends.ends_set_state_ite ?_ ?_); decide; decide)
    | with_reducible apply Ends.ends_ite
    | split

theorem begin_constrained_spotweld_ends :
    Ends (ParseState.within .other) (begin_constrained_spotweld : Run (Ctx F) Unit) := by
  unfold KFile.begin_constrained_spotweld
  repeat' first
    | ((with_reducible refine Ends.ends_set_state _ ?_); decide)
    | with_reducible refine Ends.ends_bind (fun _ => ?_)
    | ((with_reducible refine Ends.ends_when_enabled ?_ ?_); decide)
    | ((with_reducible refine Ends.ends_select_state _ _ ?_ ?_); decide; decide)
    | ((with_reducible refine Ends.ends_set_state_ite ?_ ?_); decide; decide)
    | with_reducible apply Ends.ends_ite
    | split

theorem other_keyword_ends :
    Ends (ParseState.within .other) (other_keyword : Run (Ctx F) Unit) := by
  unfold KFile.other_keyword
  repeat' first
    | ((with_reducible refine Ends.ends_set_state _ ?_); decide)
    | with_reducible refine Ends.ends_bind (fun _ => ?_)
    | ((with_reducible refine Ends.ends_when_enabled ?_ ?_); decide)
    | ((with_reducible refine Ends.ends_select_state _ _ ?_ ?_); decide; decide)
    | ((with_reducible refine Ends.ends_set_state_ite ?_ ?_); decide; decide)
    | with_reducible apply Ends.ends_ite
    | split

end EndsBranches

/-! ## The keyword chain as a whole -/

section KeywordMaster

variable {F : Type} [DoubleModel F]

set_option linter.unusedTactic false
set_option linter.unreachableTactic false
set_option linter.unusedVariables false

/-- No keyword line makes `process_line` throw or warn. -/
theorem process_keyword_quiet (u : Str) : Quiet (process_keyword u : Run (Ctx F) Unit) := by
  unfold process_keyword
  repeat' first
    | with_reducible refine Quiet.quiet_ite_cases (fun _ => ?_) (fun _ => ?_)
    | with_reducible exact Quiet.quiet_select_state _ _
    | with_reducible exact begin_set_quiet _ _ _
    | with_reducible exact begin_section_quiet _ _ _ _
    | with_reducible exact begin_contact_quiet _ (by assumption)
    | with_reducible exact begin_material_quiet _ (by assumption)
    | with_reducible exact begin_curve_quiet _
    | with_reducible exact begin_boundary_spc_quiet _
    | with_reducible exact begin_boundary_motion_quiet _
    | with_reducible exact begin_load_node_quiet _
    | with_reducible exact begin_load_body_quiet _
    | with_reducible exact begin_database_binary_quiet _
    | with_reducible exact begin_database_ascii_quiet _
    | with_reducible exact begin_database_history_node_quiet
    | with_reducible exact begin_database_history_element_quiet _
    | with_reducible exact begin_initial_velocity_generation_quiet
    | with_reducible exact begin_initial_velocity_quiet _
    | with_reducible exact begin_constrained_nodal_rigid_body_quiet _
    | with_reducible exact begin_constrained_extra_nodes_quiet _
    | with_reducible exact begin_constrained_joint_quiet _
    | with_reducible exact begin_constrained_spotweld_quiet
    | with_reducible exact other_keyword_quiet
    | with_reducible refine Quiet.quiet_when_enabled ?_
    | with_reducible refine Quiet.quiet_bind ?_ (fun _ => ?_)
    | ((with_reducible refine Quiet.quiet_update ?_); exact fun _ => rfl)
    | with_reducible exact Quiet.quiet_set_state _

theorem KeywordBranch.ite {u : Str} {p : Prop} [Decidable p] {a b : Run (Ctx F) Unit}
    (ha : p → KeywordBranch u a) (hb : ¬p → KeywordBranch u b) :
    KeywordBranch u (if p then a else b) := by
  split
  · exact ha (by assumption)
  · exact hb (by assumption)

theorem KeywordBranch.plain {u : Str} {m : Run (Ctx F) Unit}
    (hf : Frame entity_view (ParseState.within .other) m)
    (he : Ends (ParseState.within .other) m) : KeywordBranch u m :=
  Or.inr (Or.inr (Or.inr (Or.inr (Or.inr ⟨hf, he⟩))))

theorem KeywordBranch.set (u : Str) (ty : SetType) (h : set_keyword_type u = some ty) :
    KeywordBranch u (begin_set u ty (header_state_of ty) : Run (Ctx F) Unit) :=
  Or.inl ⟨ty, h, rfl⟩

theorem KeywordBranch.contact (u : Str) (h : found_at_0 u "*CONTACT_" = true) :
    KeywordBranch u (begin_contact u : Run (Ctx F) Unit) :=
  Or.inr (Or.inl ⟨h, rfl⟩)

theorem KeywordBranch.material (u : Str) (h : found_at_0 u "*MAT_" = true) :
    KeywordBranch u (begin_material u : Run (Ctx F) Unit) :=
  Or.inr (Or.inr (Or.inl ⟨h, rfl⟩))

theorem KeywordBranch.curve (u : Str) (h : found_at_0 u "*DEFINE_CURVE" = true) :
    KeywordBranch u (begin_curve u : Run (Ctx F) Unit) :=
  Or.inr (Or.inr (Or.inr (Or.inl ⟨h, rfl⟩)))

theorem KeywordBranch.other (u : Str) : KeywordBranch u (other_keyword : Run (Ctx F) Unit) :=
  Or.inr (Or.inr (Or.inr (Or.inr (Or.inl rfl))))

theorem KeywordBranch.section_keyword (u : Str) (type : SectionType) (title header : ParseState)
    (ht : ParseState.within .other title) (hh : ParseState.within .other header) :
    KeywordBranch u (begin_section u type title header : Run (Ctx F) Unit) :=
  KeywordBranch.plain (begin_section_frame u type title header ht hh)
    (begin_section_ends u type title header ht hh)

theorem KeywordBranch.select (u : Str) (flag : KFileParser F → Bool) (st : ParseState)
    (h : ParseState.within .other st) : KeywordBranch u (select_state flag st) :=
  KeywordBranch.plain (Frame.frame_select_state _ _ (fun _ _ => rfl) (by decide) h)
    (Ends.ends_select_state _ _ (by decide) h)

theorem KeywordBranch.enabled_state (u : Str) (flag : KFileParser F → Bool) (st : ParseState)
    (h : ParseState.within .other st) :
    KeywordBranch u (when_enabled flag (set_state st)) :=
  KeywordBranch.plain
    (Frame.frame_when_enabled (fun _ => rfl) (by decide) (Frame.frame_set_state _ (fun _ => rfl) h))
    (Ends.ends_when_enabled (by decide) (Ends.ends_set_state _ h))

theorem KeywordBranch.part (u : Str) :
    KeywordBranch u
      (do
        select_state (·.parse_parts_) .IN_PART_NAME
        Run.update (fun c => { c with part_name := [] }) : Run (Ctx F) Unit) := by
  refine KeywordBranch.plain
    (Frame.frame_bind (Frame.frame_select_state _ _ (fun _ _ => rfl) (by decide) (by decide))
      (fun _ => Frame.frame_update (fun _ => ⟨rfl, Or.inl rfl⟩))) ?_
  intro c a _
  show ParseState.within .other (if c.self.parse_parts_ then .IN_PART_NAME else .IDLE)
  split <;> decide

theorem KeywordBranch.control_termination (u : Str) :
    KeywordBranch u
      (when_enabled (·.parse_controls_) (do
        Run.update (fun c => { c with
          self.current_control_termination_ := ControlTermination.init })
        set_state .IN_CONTROL_TERMINATION) : Run (Ctx F) Unit) :=
  KeywordBranch.plain
    (Frame.frame_when_enabled (fun _ => rfl) (by decide)
      (Frame.frame_bind (Frame.frame_update (fun _ => ⟨rfl, Or.inl rfl⟩))
        (fun _ => Frame.frame_set_state _ (fun _ => rfl) (by decide))))
    (Ends.ends_when_enabled (by decide) (Ends.ends_bind (fun _ => Ends.ends_set_state _ (by decide))))

theorem KeywordBranch.control_timestep (u : Str) :
    KeywordBranch u
      (when_enabled (·.parse_controls_) (do
        Run.update (fun c => { c with self.current_control_timestep_ := ControlTimestep.init })
        set_state .IN_CONTROL_TIMESTEP) : Run (Ctx F) Unit) :=
  KeywordBranch.plain
    (Frame.frame_when_enabled (fun _ => rfl) (by decide)
      (Frame.frame_bind (Frame.frame_update (fun _ => ⟨rfl, Or.inl rfl⟩))
        (fun _ => Frame.frame_set_state _ (fun _ => rfl) (by decide))))
    (Ends.ends_when_enabled (by decide) (Ends.ends_bind (fun _ => Ends.ends_set_state _ (by decide))))

/-- Every keyword line is handled by one of the branches listed in `KeywordBranch`. -/
theorem process_keyword_branch (u : Str) :
    KeywordBranch u (process_keyword u : Run (Ctx F) Unit) := by
  unfold process_keyword
  repeat' first
    | with_reducible refine KeywordBranch.ite (fun _ => ?_) (fun _ => ?_)
    | ((with_reducible refine KeywordBranch.select _ _ _ ?_); decide)
    | (refine KeywordBranch.set _ SetType.NODE_LIST ?_; simp only [set_keyword_type, *, if_true, if_false, Bool.false_eq_true]; done)
    | (refine KeywordBranch.set _ SetType.PART_LIST ?_; simp only [set_keyword_type, *, if_true, if_false, Bool.false_eq_true]; done)
    | (refine KeywordBranch.set _ SetType.SEGMENT ?_; simp only [set_keyword_type, *, if_true, if_false, Bool.false_eq_true]; done)
    | (refine KeywordBranch.set _ SetType.SHELL ?_; simp only [set_keyword_type, *, if_true, if_false, Bool.false_eq_true]; done)
    | (refine KeywordBranch.set _ SetType.SOLID ?_; simp only [set_keyword_type, *, if_true, if_false, Bool.false_eq_true]; done)
    | ((with_reducible refine KeywordBranch.section_keyword _ _ _ _ ?_ ?_); decide; decide)
    | ((with_reducible refine KeywordBranch.contact _ ?_); assumption)
    | ((with_reducible refine KeywordBranch.material _ ?_); assumption)
    | ((with_reducible refine KeywordBranch.curve _ ?_); assumption)
    | with_reducible exact KeywordBranch.other _
    | ((with_reducible refine KeywordBranch.enabled_state _ _ _ ?_); decide)
    | with_reducible exact KeywordBranch.part _
    | with_reducible exact KeywordBranch.control_termination _
    | with_reducible exact KeywordBranch.control_timestep _
    | with_reducible exact KeywordBranch.plain (begin_boundary_spc_frame _) (begin_boundary_spc_ends _)
    | with_reducible exact KeywordBranch.plain (begin_boundary_motion_frame _) (begin_boundary_motion_ends _)
    | with_reducible exact KeywordBranch.plain (begin_load_node_frame _) (begin_load_node_ends _)
    | with_reducible exact KeywordBranch.plain (begin_load_body_frame _) (begin_load_body_ends _)
    | with_reducible exact KeywordBranch.plain (begin_database_binary_frame _) (begin_database_binary_ends _)
    | with_reducible exact KeywordBranch.plain (begin_database_ascii_frame _) (begin_database_ascii_ends _)
    | with_reducible exact KeywordBranch.plain begin_database_history_node_frame begin_database_history_node_ends
    | with_reducible exact KeywordBranch.plain (begin_database_history_element_frame _) (begin_database_history_element_ends _)
    | with_reducible exact KeywordBranch.plain begin_initial_velocity_generation_frame begin_initial_velocity_generation_ends
    | with_reducible exact KeywordBranch.plain (begin_initial_velocity_frame _) (begin_initial_velocity_ends _)
    | with_reducible exact KeywordBranch.plain (begin_constrained_nodal_rigid_body_frame _) (begin_constrained_nodal_rigid_body_ends _)
    | with_reducible exact KeywordBranch.plain (begin_constrained_extra_nodes_frame _) (begin_constrained_extra_nodes_ends _)
    | with_reducible exact KeywordBranch.plain (begin_constrained_joint_frame _) (begin_constrained_joint_ends _)
    | with_reducible exact KeywordBranch.plain begin_constrained_spotweld_frame begin_constrained_spotweld_ends

end KeywordMaster

/-! ## Reading a frame at a given state -/

section FrameHelpers

variable {F : Type}

theorem frame_full {m : Run (Ctx F) Unit}
    (h : Frame entity_view (ParseState.within .other) m) (c : Ctx F) {st : ParseState}
    (hs : c.state = st) :
    (st.family ≠ .set → set_view (m c).2 = set_view c)
    ∧ (st.family ≠ .material → material_view (m c).2 = material_view c)
    ∧ (st.family ≠ .contact → contact_view (m c).2 = contact_view c)
    ∧ (st.family ≠ .curve → curve_view (m c).2 = curve_view c)
    ∧ ((m c).2.state.family = st.family ∨ (m c).2.state.family = .other) := by
  obtain ⟨hv, hst⟩ := h c
  unfold entity_view at hv
  simp only [Prod.mk.injEq] at hv
  refine ⟨fun _ => hv.1, fun _ => hv.2.1, fun _ => hv.2.2.1, fun _ => hv.2.2.2, ?_⟩
  rcases hst with e | e
  · exact Or.inl (by rw [e, hs])
  · rcases e with e | e
    · exact Or.inr e
    · exact Or.inr e

theorem frame_not_set {m : Run (Ctx F) Unit}
    (h : Frame (fun c : Ctx F => (material_view c, contact_view c, curve_view c))
      (ParseState.within .set) m) (c : Ctx F) {st : ParseState}
    (hs : c.state = st) (hf : st.family = .set) :
    (st.family ≠ .set → set_view (m c).2 = set_view c)
    ∧ (st.family ≠ .material → material_view (m c).2 = material_view c)
    ∧ (st.family ≠ .contact → contact_view (m c).2 = contact_view c)
    ∧ (st.family ≠ .curve → curve_view (m c).2 = curve_view c)
    ∧ ((m c).2.state.family = st.family ∨ (m c).2.state.family = .other) := by
  obtain ⟨hv, hst⟩ := h c
  simp only [Prod.mk.injEq] at hv
  refine ⟨fun hn => absurd hf hn, fun _ => hv.1, fun _ => hv.2.1, fun _ => hv.2.2, ?_⟩
  rcases hst with e | e
  · exact Or.inl (by rw [e, hs])
  · rcases e with e | e
    · exact Or.inl (by rw [e, hf])
    · exact Or.inr e

theorem frame_not_material {m : Run (Ctx F) Unit}
    (h : Frame (fun c : Ctx F => (set_view c, contact_view c, curve_view c))
      (ParseState.within .material) m) (c : Ctx F) {st : ParseState}
    (hs : c.state = st) (hf : st.family = .material) :
    (st.family ≠ .set → set_view (m c).2 = set_view c)
    ∧ (st.family ≠ .material → material_view (m c).2 = material_view c)
    ∧ (st.family ≠ .contact → contact_view (m c).2 = contact_view c)
    ∧ (st.family ≠ .curve → curve_view (m c).2 = curve_view c)
    ∧ ((m c).2.state.family = st.family ∨ (m c).2.state.family = .other) := by
  obtain ⟨hv, hst⟩ := h c
  simp only [Prod.mk.injEq] at hv
  refine ⟨fun _ => hv.1, fun hn => absurd hf hn, fun _ => hv.2.1, fun _ => hv.2.2, ?_⟩
  rcases hst with e | e
  · exact Or.inl (by rw [e, hs])
  · rcases e with e | e
    · exact Or.inl (by rw [e, hf])
    · exact Or.inr e

theorem frame_not_contact {m : Run (Ctx F) Unit}
    (h : Frame (fun c : Ctx F => (set_view c, material_view c, curve_view c))
      (ParseState.within .contact) m) (c : Ctx F) {st : ParseState}
    (hs : c.state = st) (hf : st.family = .contact) :
    (st.family ≠ .set → set_view (m c).2 = set_view c)
    ∧ (st.family ≠ .material → material_view (m c).2 = material_view c)
    ∧ (st.family ≠ .contact → contact_view (m c).2 = contact_view c)
    ∧ (st.family ≠ .curve → curve_view (m c).2 = curve_view c)
    ∧ ((m c).2.state.family = st.family ∨ (m c).2.state.family = .other) := by
  obtain ⟨hv, hst⟩ := h c
  simp only [Prod.mk.injEq] at hv
  refine ⟨fun _ => hv.1, fun _ => hv.2.1, fun hn => absurd hf hn, fun _ => hv.2.2, ?_⟩
  rcases hst with e | e
  · exact Or.inl (by rw [e, hs])
  · rcases e with e | e
    · exact Or.inl (by rw [e, hf])
    · exact Or.inr e

theorem frame_not_curve {m : Run (Ctx F) Unit}
    (h : Frame (fun c : Ctx F => (set_view c, material_view c, contact_view c))
      (ParseState.within .curve) m) (c : Ctx F) {st : ParseState}
    (hs : c.state = st) (hf : st.family = .curve) :
    (st.family ≠ .set → set_view (m c).2 = set_view c)
    ∧ (st.family ≠ .material → material_view (m c).2 = material_view c)
    ∧ (st.family ≠ .contact → contact_view (m c).2 = contact_view c)
    ∧ (st.family ≠ .curve → curve_view (m c).2 = curve_view c)
    ∧ ((m c).2.state.family = st.family ∨ (m c).2.state.family = .other) := by
  obtain ⟨hv, hst⟩ := h c
  simp only [Prod.mk.injEq] at hv
  refine ⟨fun _ => hv.1, fun _ => hv.2.1, fun _ => hv.2.2, fun hn => absurd hf hn, ?_⟩
  rcases hst with e | e
  · exact Or.inl (by rw [e, hs])
  · rcases e with e | e
    · exact Or.inl (by rw [e, hf])
    · exact Or.inr e

end FrameHelpers

/-! ## The data switch as a whole -/

section DataMaster

variable {F : Type} [DoubleModel F]

set_option linter.unusedTactic false
set_option linter.unreachableTactic false
set_option linter.unusedVariables false

/-- No data line makes `process_line` throw or warn. -/
theorem process_data_quiet (d : Str) : Quiet (process_data d : Run (Ctx F) Unit) := by
  intro c
  unfold process_data
  split
  · exact case_IN_NODE_quiet _ c
  · exact case_IN_PART_NAME_quiet _ c
  · exact case_IN_PART_DATA_quiet _ c
  · exact case_IN_ELEMENT_quiet _ _ c
  · exact case_IN_ELEMENT_quiet _ _ c
  · exact case_IN_ELEMENT_quiet _ _ c
  · exact case_IN_SET_TITLE_quiet c
  · exact case_IN_SET_HEADER_quiet _ _ _ c
  · exact case_IN_SET_DATA_quiet _ c
  · exact case_IN_SET_HEADER_quiet _ _ _ c
  · exact case_IN_SET_DATA_quiet _ c
  · exact case_IN_SET_HEADER_quiet _ _ _ c
  · exact case_IN_SET_SEGMENT_DATA_quiet _ c
  · exact case_IN_SET_HEADER_quiet _ _ _ c
  · exact case_IN_SET_DATA_quiet _ c
  · exact case_IN_SET_HEADER_quiet _ _ _ c
  · exact case_IN_SET_DATA_quiet _ c
  · exact Quiet.quiet_set_state _ c
  · exact Quiet.quiet_set_state _ c
  · exact Quiet.quiet_set_state _ c
  · exact case_IN_SECTION_SHELL_HEADER_quiet _ c
  · exact case_IN_SECTION_SHELL_DATA_quiet _ c
  · exact case_IN_SECTION_SOLID_quiet _ c
  · exact case_IN_SECTION_BEAM_HEADER_quiet _ c
  · exact case_IN_SECTION_BEAM_DATA_quiet _ c
  · exact Quiet.quiet_set_state _ c
  · exact Quiet.quiet_set_state _ c
  · exact case_IN_CONTACT_CARD1_quiet _ c
  · exact case_IN_CONTACT_CARD2_quiet _ c
  · exact case_IN_CONTACT_CARD3_quiet _ c
  · exact case_IN_MATERIAL_TITLE_quiet _ c
  · exact case_IN_MATERIAL_DATA_quiet _ c
  · exact case_IN_INCLUDE_quiet _ c
  · exact case_IN_CURVE_TITLE_quiet _ c
  · exact case_IN_CURVE_HEADER_quiet _ c
  · exact case_IN_CURVE_DATA_quiet _ c
  · exact case_IN_BOUNDARY_SPC_quiet _ c
  · exact case_IN_BOUNDARY_MOTION_quiet _ c
  · exact case_IN_LOAD_NODE_quiet _ c
  · exact case_IN_LOAD_SEGMENT_quiet _ c
  · exact case_IN_LOAD_BODY_quiet _ c
  · exact case_IN_CONTROL_TERMINATION_quiet _ c
  · exact case_IN_CONTROL_TIMESTEP_quiet _ c
  · exact case_IN_CONTROL_ENERGY_quiet _ c
  · exact case_IN_CONTROL_OUTPUT_quiet _ c
  · exact case_IN_CONTROL_SHELL_quiet _ c
  · exact case_IN_CONTROL_CONTACT_quiet _ c
  · exact case_IN_CONTROL_HOURGLASS_quiet _ c
  · exact case_IN_CONTROL_BULK_VISCOSITY_quiet _ c
  · exact case_IN_DATABASE_BINARY_quiet _ c
  · exact case_IN_DATABASE_ASCII_quiet _ c
  · exact case_IN_DATABASE_HISTORY_NODE_quiet _ c
  · exact case_IN_DATABASE_HISTORY_ELEMENT_quiet _ c
  · exact case_IN_DATABASE_CROSS_SECTION_quiet _ c
  · exact case_IN_INITIAL_VELOCITY_quiet _ c
  · exact case_IN_INITIAL_VELOCITY_GENERATION_quiet _ c
  · exact Quiet.quiet_set_state _ c
  · exact case_IN_CONSTRAINED_NODAL_RIGID_BODY_quiet _ c
  · exact case_IN_CONSTRAINED_NODAL_RIGID_BODY_INERTIA_quiet _ c
  · exact case_IN_CONSTRAINED_EXTRA_NODES_quiet _ c
  · exact case_IN_CONSTRAINED_JOINT_quiet _ c
  · exact case_IN_CONSTRAINED_SPOTWELD_quiet _ c
  · exact ⟨⟨(), rfl⟩, rfl⟩

/-- What a data line leaves alone: the view of every family other than the one the
current state belongs to; and the state it leaves is the same, or one of that
family, or a neutral one. -/
theorem process_data_frame (d : Str) (c : Ctx F) :
    (c.state.family ≠ .set → set_view (process_data d c).2 = set_view c)
    ∧ (c.state.family ≠ .material → material_view (process_data d c).2 = material_view c)
    ∧ (c.state.family ≠ .contact → contact_view (process_data d c).2 = contact_view c)
    ∧ (c.state.family ≠ .curve → curve_view (process_data d c).2 = curve_view c)
    ∧ ((process_data d c).2.state.family = c.state.family
        ∨ (process_data d c).2.state.family = .other) := by
  cases hs : c.state
  case IN_NODE =>
    have e : process_data d c = case_IN_NODE d c := by unfold process_data; rw [hs]
    rw [e]
    exact frame_full (case_IN_NODE_frame _) c hs
  case IN_PART_NAME =>
    have e : process_data d c = case_IN_PART_NAME d c := by unfold process_data; rw [hs]
    rw [e]
    exact frame_full (case_IN_PART_NAME_frame _) c hs
  case IN_PART_DATA =>
    have e : process_data d c = case_IN_PART_DATA d c := by unfold process_data; rw [hs]
    rw [e]
    exact frame_full (case_IN_PART_DATA_frame _) c hs
  case IN_ELEMENT_SHELL =>
    have e : process_data d c = case_IN_ELEMENT d .SHELL c := by unfold process_data; rw [hs]
    rw [e]
    exact frame_full (case_IN_ELEMENT_frame _ _) c hs
  case IN_ELEMENT_SOLID =>
    have e : process_data d c = case_IN_ELEMENT d .SOLID c := by unfold process_data; rw [hs]
    rw [e]
    exact frame_full (case_IN_ELEMENT_frame _ _) c hs
  case IN_ELEMENT_BEAM =>
    have e : process_data d c = case_IN_ELEMENT d .BEAM c := by unfold process_data; rw [hs]
    rw [e]
    exact frame_full (case_IN_ELEMENT_frame _ _) c hs
  case IN_SET_TITLE =>
    have e : process_data d c = case_IN_SET_TITLE c := by unfold process_data; rw [hs]
    rw [e]
    exact frame_not_set (case_IN_SET_TITLE_frame ) c hs rfl
  case IN_SET_NODE_HEADER =>
    have e : process_data d c = case_IN_SET_HEADER d .NODE_LIST .IN_SET_NODE_DATA c := by unfold process_data; rw [hs]
    rw [e]
    exact frame_not_set (case_IN_SET_HEADER_frame _ _ _ (by decide)) c hs rfl
  case IN_SET_NODE_DATA =>
    have e : process_data d c = case_IN_SET_DATA d c := by unfold process_data; rw [hs]
    rw [e]
    exact frame_not_set (case_IN_SET_DATA_frame _) c hs rfl
  case IN_SET_PART_HEADER =>
    have e : process_data d c = case_IN_SET_HEADER d .PART_LIST .IN_SET_PART_DATA c := by unfold process_data; rw [hs]
    rw [e]
    exact frame_not_set (case_IN_SET_HEADER_frame _ _ _ (by decide)) c hs rfl
  case IN_SET_PART_DATA =>
    have e : process_data d c = case_IN_SET_DATA d c := by unfold process_data; rw [hs]
    rw [e]
    exact frame_not_set (case_IN_SET_DATA_frame _) c hs rfl
  case IN_SET_SEGMENT_HEADER =>
    have e : process_data d c = case_IN_SET_HEADER d .SEGMENT .IN_SET_SEGMENT_DATA c := by unfold process_data; rw [hs]
    rw [e]
    exact frame_not_set (case_IN_SET_HEADER_frame _ _ _ (by decide)) c hs rfl
  case IN_SET_SEGMENT_DATA =>
    have e : process_data d c = case_IN_SET_SEGMENT_DATA d c := by unfold process_data; rw [hs]
    rw [e]
    exact frame_not_set (case_IN_SET_SEGMENT_DATA_frame _) c hs rfl
  case IN_SET_SHELL_HEADER =>
    have e : process_data d c = case_IN_SET_HEADER d .SHELL .IN_SET_SHELL_DATA c := by unfold process_data; rw [hs]
    rw [e]
    exact frame_not_set (case_IN_SET_HEADER_frame _ _ _ (by decide)) c hs rfl
  case IN_SET_SHELL_DATA =>
    have e : process_data d c = case_IN_SET_DATA d c := by unfold process_data; rw [hs]
    rw [e]
    exact frame_not_set (case_IN_SET_DATA_frame _) c hs rfl
  case IN_SET_SOLID_HEADER =>
    have e : process_data d c = case_IN_SET_HEADER d .SOLID .IN_SET_SOLID_DATA c := by unfold process_data; rw [hs]
    rw [e]
    exact frame_not_set (case_IN_SET_HEADER_frame _ _ _ (by decide)) c hs rfl
  case IN_SET_SOLID_DATA =>
    have e : process_data d c = case_IN_SET_DATA d c := by unfold process_data; rw [hs]
    rw [e]
    exact frame_not_set (case_IN_SET_DATA_frame _) c hs rfl
  case IN_SECTION_SHELL_TITLE =>
    have e : process_data d c = set_state .IN_SECTION_SHELL_HEADER c := by unfold process_data; rw [hs]
    rw [e]
    exact ⟨fun _ => rfl, fun _ => rfl, fun _ => rfl, fun _ => rfl, Or.inl rfl⟩
  case IN_SECTION_SOLID_TITLE =>
    have e : process_data d c = set_state .IN_SECTION_SOLID c := by unfold process_data; rw [hs]
    rw [e]
    exact ⟨fun _ => rfl, fun _ => rfl, fun _ => rfl, fun _ => rfl, Or.inl rfl⟩
  case IN_SECTION_BEAM_TITLE =>
    have e : process_data d c = set_state .IN_SECTION_BEAM_HEADER c := by unfold process_data; rw [hs]
    rw [e]
    exact ⟨fun _ => rfl, fun _ => rfl, fun _ => rfl, fun _ => rfl, Or.inl rfl⟩
  case IN_SECTION_SHELL_HEADER =>
    have e : process_data d c = case_IN_SECTION_SHELL_HEADER d c := by unfold process_data; rw [hs]
    rw [e]
    exact frame_full (case_IN_SECTION_SHELL_HEADER_frame _) c hs
  case IN_SECTION_SHELL_DATA =>
    have e : process_data d c = case_IN_SECTION_SHELL_DATA d c := by unfold process_data; rw [hs]
    rw [e]
    exact frame_full (case_IN_SECTION_SHELL_DATA_frame _) c hs
  case IN_SECTION_SOLID =>
    have e : process_data d c = case_IN_SECTION_SOLID d c := by unfold process_data; rw [hs]
    rw [e]
    exact frame_full (case_IN_SECTION_SOLID_frame _) c hs
  case IN_SECTION_BEAM_HEADER =>
    have e : process_data d c = case_IN_SECTION_BEAM_HEADER d c := by unfold process_data; rw [hs]
    rw [e]
    exact frame_full (case_IN_SECTION_BEAM_HEADER_frame _) c hs
  case IN_SECTION_BEAM_DATA =>
    have e : process_data d c = case_IN_SECTION_BEAM_DATA d c := by unfold process_data; rw [hs]
    rw [e]
    exact frame_full (case_IN_SECTION_BEAM_DATA_frame _) c hs
  case IN_CONTACT_ID =>
    have e : process_data d c = set_state .IN_CONTACT_CARD1 c := by unfold process_data; rw [hs]
    rw [e]
    exact ⟨fun _ => rfl, fun _ => rfl, fun _ => rfl, fun _ => rfl, Or.inl rfl⟩
  case IN_CONTACT_TITLE =>
    have e : process_data d c = set_state .IN_CONTACT_CARD1 c := by unfold process_data; rw [hs]
    rw [e]
    exact ⟨fun _ => rfl, fun _ => rfl, fun _ => rfl, fun _ => rfl, Or.inl rfl⟩
  case IN_CONTACT_CARD1 =>
    have e : process_data d c = case_IN_CONTACT_CARD1 d c := by unfold process_data; rw [hs]
    rw [e]
    exact frame_not_contact (case_IN_CONTACT_CARD1_frame _) c hs rfl
  case IN_CONTACT_CARD2 =>
    have e : process_data d c = case_IN_CONTACT_CARD2 d c := by unfold process_data; rw [hs]
    rw [e]
    exact frame_not_contact (case_IN_CONTACT_CARD2_frame _) c hs rfl
  case IN_CONTACT_CARD3 =>
    have e : process_data d c = case_IN_CONTACT_CARD3 d c := by unfold process_data; rw [hs]
    rw [e]
    exact frame_not_contact (case_IN_CONTACT_CARD3_frame _) c hs rfl
  case IN_MATERIAL_TITLE =>
    have e : process_data d c = case_IN_MATERIAL_TITLE d c := by unfold process_data; rw [hs]
    rw [e]
    exact frame_not_material (case_IN_MATERIAL_TITLE_frame _) c hs rfl
  case IN_MATERIAL_DATA =>
    have e : process_data d c = case_IN_MATERIAL_DATA d c := by unfold process_data; rw [hs]
    rw [e]
    exact frame_not_material (case_IN_MATERIAL_DATA_frame _) c hs rfl
  case IN_INCLUDE =>
    have e : process_data d c = case_IN_INCLUDE d c := by unfold process_data; rw [hs]
    rw [e]
    exact frame_full (case_IN_INCLUDE_frame _) c hs
  case IN_CURVE_TITLE =>
    have e : process_data d c = case_IN_CURVE_TITLE d c := by unfold process_data; rw [hs]
    rw [e]
    exact frame_not_curve (case_IN_CURVE_TITLE_frame _) c hs rfl
  case IN_CURVE_HEADER =>
    have e : process_data d c = case_IN_CURVE_HEADER d c := by unfold process_data; rw [hs]
    rw [e]
    exact frame_not_curve (case_IN_CURVE_HEADER_frame _) c hs rfl
  case IN_CURVE_DATA =>
    have e : process_data d c = case_IN_CURVE_DATA d c := by unfold process_data; rw [hs]
    rw [e]
    exact frame_not_curve (case_IN_CURVE_DATA_frame _) c hs rfl
  case IN_BOUNDARY_SPC =>
    have e : process_data d c = case_IN_BOUNDARY_SPC d c := by unfold process_data; rw [hs]
    rw [e]
    exact frame_full (case_IN_BOUNDARY_SPC_frame _) c hs
  case IN_BOUNDARY_MOTION =>
    have e : process_data d c = case_IN_BOUNDARY_MOTION d c := by unfold process_data; rw [hs]
    rw [e]
    exact frame_full (case_IN_BOUNDARY_MOTION_frame _) c hs
  case IN_LOAD_NODE =>
    have e : process_data d c = case_IN_LOAD_NODE d c := by unfold process_data; rw [hs]
    rw [e]
    exact frame_full (case_IN_LOAD_NODE_frame _) c hs
  case IN_LOAD_SEGMENT =>
    have e : process_data d c = case_IN_LOAD_SEGMENT d c := by unfold process_data; rw [hs]
    rw [e]
    exact frame_full (case_IN_LOAD_SEGMENT_frame _) c hs
  case IN_LOAD_BODY =>
    have e : process_data d c = case_IN_LOAD_BODY d c := by unfold process_data; rw [hs]
    rw [e]
    exact frame_full (case_IN_LOAD_BODY_frame _) c hs
  case IN_CONTROL_TERMINATION =>
    have e : process_data d c = case_IN_CONTROL_TERMINATION d c := by unfold process_data; rw [hs]
    rw [e]
    exact frame_full (case_IN_CONTROL_TERMINATION_frame _) c hs
  case IN_CONTROL_TIMESTEP =>
    have e : process_data d c = case_IN_CONTROL_TIMESTEP d c := by unfold process_data; rw [hs]
    rw [e]
    exact frame_full (case_IN_CONTROL_TIMESTEP_frame _) c hs
  case IN_CONTROL_ENERGY =>
    have e : process_data d c = case_IN_CONTROL_ENERGY d c := by unfold process_data; rw [hs]
    rw [e]
    exact frame_full (case_IN_CONTROL_ENERGY_frame _) c hs
  case IN_CONTROL_OUTPUT =>
    have e : process_data d c = case_IN_CONTROL_OUTPUT d c := by unfold process_data; rw [hs]
    rw [e]
    exact frame_full (case_IN_CONTROL_OUTPUT_frame _) c hs
  case IN_CONTROL_SHELL =>
    have e : process_data d c = case_IN_CONTROL_SHELL d c := by unfold process_data; rw [hs]
    rw [e]
    exact frame_full (case_IN_CONTROL_SHELL_frame _) c hs
  case IN_CONTROL_CONTACT =>
    have e : process_data d c = case_IN_CONTROL_CONTACT d c := by unfold process_data; rw [hs]
    rw [e]
    exact frame_full (case_IN_CONTROL_CONTACT_frame _) c hs
  case IN_CONTROL_HOURGLASS =>
    have e : process_data d c = case_IN_CONTROL_HOURGLASS d c := by unfold process_data; rw [hs]
    rw [e]
    exact frame_full (case_IN_CONTROL_HOURGLASS_frame _) c hs
  case IN_CONTROL_BULK_VISCOSITY =>
    have e : process_data d c = case_IN_CONTROL_BULK_VISCOSITY d c := by unfold process_data; rw [hs]
    rw [e]
    exact frame_full (case_IN_CONTROL_BULK_VISCOSITY_frame _) c hs
  case IN_DATABASE_BINARY =>
    have e : process_data d c = case_IN_DATABASE_BINARY d c := by unfold process_data; rw [hs]
    rw [e]
    exact frame_full (case_IN_DATABASE_BINARY_frame _) c hs
  case IN_DATABASE_ASCII =>
    have e : process_data d c = case_IN_DATABASE_ASCII d c := by unfold process_data; rw [hs]
    rw [e]
    exact frame_full (case_IN_DATABASE_ASCII_frame _) c hs
  case IN_DATABASE_HISTORY_NODE =>
    have e : process_data d c = case_IN_DATABASE_HISTORY_NODE d c := by unfold process_data; rw [hs]
    rw [e]
    exact frame_full (case_IN_DATABASE_HISTORY_NODE_frame _) c hs
  case IN_DATABASE_HISTORY_ELEMENT =>
    have e : process_data d c = case_IN_DATABASE_HISTORY_ELEMENT d c := by unfold process_data; rw [hs]
    rw [e]
    exact frame_full (case_IN_DATABASE_HISTORY_ELEMENT_frame _) c hs
  case IN_DATABASE_CROSS_SECTION =>
    have e : process_data d c = case_IN_DATABASE_CROSS_SECTION d c := by unfold process_data; rw [hs]
    rw [e]
    exact frame_full (case_IN_DATABASE_CROSS_SECTION_frame _) c hs
  case IN_INITIAL_VELOCITY =>
    have e : process_data d c = case_IN_INITIAL_VELOCITY d c := by unfold process_data; rw [hs]
    rw [e]
    exact frame_full (case_IN_INITIAL_VELOCITY_frame _) c hs
  case IN_INITIAL_VELOCITY_GENERATION =>
    have e : process_data d c = case_IN_INITIAL_VELOCITY_GENERATION d c := by unfold process_data; rw [hs]
    rw [e]
    exact frame_full (case_IN_INITIAL_VELOCITY_GENERATION_frame _) c hs
  case IN_INITIAL_STRESS =>
    have e : process_data d c = set_state .IDLE c := by unfold process_data; rw [hs]
    rw [e]
    exact ⟨fun _ => rfl, fun _ => rfl, fun _ => rfl, fun _ => rfl, Or.inl rfl⟩
  case IN_CONSTRAINED_NODAL_RIGID_BODY =>
    have e : process_data d c = case_IN_CONSTRAINED_NODAL_RIGID_BODY d c := by unfold process_data; rw [hs]
    rw [e]
    exact frame_full (case_IN_CONSTRAINED_NODAL_RIGID_BODY_frame _) c hs
  case IN_CONSTRAINED_NODAL_RIGID_BODY_INERTIA =>
    have e : process_data d c = case_IN_CONSTRAINED_NODAL_RIGID_BODY_INERTIA d c := by unfold process_data; rw [hs]
    rw [e]
    exact frame_full (case_IN_CONSTRAINED_NODAL_RIGID_BODY_INERTIA_frame _) c hs
  case IN_CONSTRAINED_EXTRA_NODES =>
    have e : process_data d c = case_IN_CONSTRAINED_EXTRA_NODES d c := by unfold process_data; rw [hs]
    rw [e]
    exact frame_full (case_IN_CONSTRAINED_EXTRA_NODES_frame _) c hs
  case IN_CONSTRAINED_JOINT =>
    have e : process_data d c = case_IN_CONSTRAINED_JOINT d c := by unfold process_data; rw [hs]
    rw [e]
    exact frame_full (case_IN_CONSTRAINED_JOINT_frame _) c hs
  case IN_CONSTRAINED_SPOTWELD =>
    have e : process_data d c = case_IN_CONSTRAINED_SPOTWELD d c := by unfold process_data; rw [hs]
    rw [e]
    exact frame_full (case_IN_CONSTRAINED_SPOTWELD_frame _) c hs
  case IDLE =>
    have e : process_data d c = (.ok (), c) := by unfold process_data; rw [hs]
    rw [e]
    exact ⟨fun _ => rfl, fun _ => rfl, fun _ => rfl, fun _ => rfl, Or.inr (by rw [hs]; rfl)⟩

end DataMaster

/-! ## Lines and the read loop never throw -/

section LineLevel

variable {F : Type} [DoubleModel F]

/-- No line makes `process_line` throw or warn. -/
theorem process_line_quiet (l : Str) : Quiet (process_line l : Run (Ctx F) Unit) := by
  unfold process_line
  repeat' first
    | exact Quiet.quiet_pure _
    | exact process_keyword_quiet _
    | exact process_data_quiet _
    | apply Quiet.quiet_ite

theorem process_line_ok (l : Str) (c : Ctx F) :
    process_line l c = (.ok (), (process_line l c).2) := by
  obtain ⟨⟨a, ha⟩, _⟩ := process_line_quiet l c
  rcases h : process_line l c with ⟨r, c1⟩
  rw [h] at ha
  simp only at ha
  rw [ha]

theorem ctx_after_nil (c : Ctx F) : ctx_after [] c = c := rfl

theorem read_loop_total (lines : List Str) :
    ∀ (n : Nat) (c : Ctx F), read_loop lines n c = (.ok (n + lines.length), ctx_after lines c) := by
  induction lines with
  | nil => intro n c; rfl
  | cons l rest ih =>
    intro n c
    unfold ctx_after
    rw [read_loop_cons l rest n c _ (process_line_ok l c),
      read_loop_cons l rest 0 c _ (process_line_ok l c), ih, ih]
    simp only [List.length_cons, ctx_after]
    congr 2
    omega

theorem ctx_after_cons (l : Str) (rest : List Str) (c : Ctx F) :
    ctx_after (l :: rest) c = ctx_after rest (process_line l c).2 := by
  unfold ctx_after
  rw [read_loop_cons l rest 0 c _ (process_line_ok l c), read_loop_total, read_loop_total]

theorem ctx_after_append (pre rest : List Str) :
    ∀ c : Ctx F, ctx_after (pre ++ rest) c = ctx_after rest (ctx_after pre c) := by
  induction pre with
  | nil => intro c; rfl
  | cons l pre ih =>
    intro c
    rw [List.cons_append, ctx_after_cons, ctx_after_cons, ih]

/-- The result `parse_string` returns, for every text and every parser: it always
returns, and what it returns is what `finish_parse` leaves after the read loop. -/
theorem parse_string_eq (content : Str) (p : KFileParser F) :
    (parse_string content p).1
      = .ok (finish_parse (getlines content).length
          (ctx_after (getlines content) (start_ctx p))).2.result := by
  unfold parse_string
  show (parse_body content (start_ctx p)).1 = _
  rw [parse_body_eq, read_loop_total]
  simp only [Nat.zero_add]

theorem parse_string_self (content : Str) (p : KFileParser F) :
    (parse_string content p).2
      = (finish_parse (getlines content).length
          (ctx_after (getlines content) (start_ctx p))).2.self := by
  unfold parse_string
  show (parse_body content (start_ctx p)).2.self = _
  rw [parse_body_eq, read_loop_total]
  simp only [Nat.zero_add]

theorem process_line_warnings (l : Str) (c : Ctx F) :
    (process_line l c).2.result.warnings = c.result.warnings :=
  (process_line_quiet l c).2

theorem ctx_after_warnings (lines : List Str) :
    ∀ c : Ctx F, (ctx_after lines c).result.warnings = c.result.warnings := by
  induction lines with
  | nil => intro c; rfl
  | cons l rest ih =>
    intro c
    rw [ctx_after_cons, ih, process_line_warnings]

end LineLevel

/-! ## Which branch a keyword head selects

A line that starts with one of these heads cannot start with any head tested
earlier in the chain, so the branch of its own head runs. -/

section Dispatch

variable {F : Type} [DoubleModel F]

theorem process_keyword_set_node_list (u : Str) (h : found_at_0 u "*SET_NODE_LIST" = true) :
    (process_keyword u : Run (Ctx F) Unit) = begin_set u .NODE_LIST .IN_SET_NODE_HEADER := by
  have e0 := found_at_0_exclusive u "*SET_NODE_LIST" "*NODE" h (by decide)
  have e1 := found_at_0_exclusive u "*SET_NODE_LIST" "*PART" h (by decide)
  have e2 := found_at_0_exclusive u "*SET_NODE_LIST" "*ELEMENT_SHELL" h (by decide)
  have e3 := found_at_0_exclusive u "*SET_NODE_LIST" "*ELEMENT_SOLID" h (by decide)
  have e4 := found_at_0_exclusive u "*SET_NODE_LIST" "*ELEMENT_BEAM" h (by decide)
  unfold process_keyword
  simp only [e0, e1, e2, e3, e4, h, Bool.false_and, Bool.false_eq_true, if_false, if_true]

theorem process_keyword_set_part_list (u : Str) (h : found_at_0 u "*SET_PART_LIST" = true) :
    (process_keyword u : Run (Ctx F) Unit) = begin_set u .PART_LIST .IN_SET_PART_HEADER := by
  have e0 := found_at_0_exclusive u "*SET_PART_LIST" "*NODE" h (by decide)
  have e1 := found_at_0_exclusive u "*SET_PART_LIST" "*PART" h (by decide)
  have e2 := found_at_0_exclusive u "*SET_PART_LIST" "*ELEMENT_SHELL" h (by decide)
  have e3 := found_at_0_exclusive u "*SET_PART_LIST" "*ELEMENT_SOLID" h (by decide)
  have e4 := found_at_0_exclusive u "*SET_PART_LIST" "*ELEMENT_BEAM" h (by decide)
  have e5 := found_at_0_exclusive u "*SET_PART_LIST" "*SET_NODE_LIST" h (by decide)
  unfold process_keyword
  simp only [e0, e1, e2, e3, e4, e5, h, Bool.false_and, Bool.false_eq_true, if_false, if_true]

theorem process_keyword_set_segment (u : Str) (h : found_at_0 u "*SET_SEGMENT" = true) :
    (process_keyword u : Run (Ctx F) Unit) = begin_set u .SEGMENT .IN_SET_SEGMENT_HEADER := by
  have e0 := found_at_0_exclusive u "*SET_SEGMENT" "*NODE" h (by decide)
  have e1 := found_at_0_exclusive u "*SET_SEGMENT" "*PART" h (by decide)
  have e2 := found_at_0_exclusive u "*SET_SEGMENT" "*ELEMENT_SHELL" h (by decide)
  have e3 := found_at_0_exclusive u "*SET_SEGMENT" "*ELEMENT_SOLID" h (by decide)
  have e4 := found_at_0_exclusive u "*SET_SEGMENT" "*ELEMENT_BEAM" h (by decide)
  have e5 := found_at_0_exclusive u "*SET_SEGMENT" "*SET_NODE_LIST" h (by decide)
  have e6 := found_at_0_exclusive u "*SET_SEGMENT" "*SET_PART_LIST" h (by decide)
  unfold process_keyword
  simp only [e0, e1, e2, e3, e4, e5, e6, h, Bool.false_and, Bool.false_eq_true, if_false, if_true]

theorem process_keyword_set_shell (u : Str) (h : found_at_0 u "*SET_SHELL" = true) :
    (process_keyword u : Run (Ctx F) Unit) = begin_set u .SHELL .IN_SET_SHELL_HEADER := by
  have e0 := found_at_0_exclusive u "*SET_SHELL" "*NODE" h (by decide)
  have e1 := found_at_0_exclusive u "*SET_SHELL" "*PART" h (by decide)
  have e2 := found_at_0_exclusive u "*SET_SHELL" "*ELEMENT_SHELL" h (by decide)
  have e3 := found_at_0_exclusive u "*SET_SHELL" "*ELEMENT_SOLID" h (by decide)
  have e4 := found_at_0_exclusive u "*SET_SHELL" "*ELEMENT_BEAM" h (by decide)
  have e5 := found_at_0_exclusive u "*SET_SHELL" "*SET_NODE_LIST" h (by decide)
  have e6 := found_at_0_exclusive u "*SET_SHELL" "*SET_PART_LIST" h (by decide)
  have e7 := found_at_0_exclusive u "*SET_SHELL" "*SET_SEGMENT" h (by decide)
  unfold process_keyword
  simp only [e0, e1, e2, e3, e4, e5, e6, e7, h, Bool.false_and, Bool.false_eq_true, if_false, if_true]

theorem process_keyword_set_solid (u : Str) (h : found_at_0 u "*SET_SOLID" = true) :
    (process_keyword u : Run (Ctx F) Unit) = begin_set u .SOLID .IN_SET_SOLID_HEADER := by
  have e0 := found_at_0_exclusive u "*SET_SOLID" "*NODE" h (by decide)
  have e1 := found_at_0_exclusive u "*SET_SOLID" "*PART" h (by decide)
  have e2 := found_at_0_exclusive u "*SET_SOLID" "*ELEMENT_SHELL" h (by decide)
  have e3 := found_at_0_exclusive u "*SET_SOLID" "*ELEMENT_SOLID" h (by decide)
  have e4 := found_at_0_exclusive u "*SET_SOLID" "*ELEMENT_BEAM" h (by decide)
  have e5 := found_at_0_exclusive u "*SET_SOLID" "*SET_NODE_LIST" h (by decide)
  have e6 := found_at_0_exclusive u "*SET_SOLID" "*SET_PART_LIST" h (by decide)
  have e7 := found_at_0_exclusive u "*SET_SOLID" "*SET_SEGMENT" h (by decide)
  have e8 := found_at_0_exclusive u "*SET_SOLID" "*SET_SHELL" h (by decide)
  unfold process_keyword
  simp only [e0, e1, e2, e3, e4, e5, e6, e7, e8, h, Bool.false_and, Bool.false_eq_true, if_false, if_true]

theorem process_keyword_section_shell (u : Str) (h : found_at_0 u "*SECTION_SHELL" = true) :
    (process_keyword u : Run (Ctx F) Unit) = begin_section u .SHELL .IN_SECTION_SHELL_TITLE .IN_SECTION_SHELL_HEADER := by
  have e0 := found_at_0_exclusive u "*SECTION_SHELL" "*NODE" h (by decide)
  have e1 := found_at_0_exclusive u "*SECTION_SHELL" "*PART" h (by decide)
  have e2 := found_at_0_exclusive u "*SECTION_SHELL" "*ELEMENT_SHELL" h (by decide)
  have e3 := found_at_0_exclusive u "*SECTION_SHELL" "*ELEMENT_SOLID" h (by decide)
  have e4 := found_at_0_exclusive u "*SECTION_SHELL" "*ELEMENT_BEAM" h (by decide)
  have e5 := found_at_0_exclusive u "*SECTION_SHELL" "*SET_NODE_LIST" h (by decide)
  have e6 := found_at_0_exclusive u "*SECTION_SHELL" "*SET_PART_LIST" h (by decide)
  have e7 := found_at_0_exclusive u "*SECTION_SHELL" "*SET_SEGMENT" h (by decide)
  have e8 := found_at_0_exclusive u "*SECTION_SHELL" "*SET_SHELL" h (by decide)
  have e9 := found_at_0_exclusive u "*SECTION_SHELL" "*SET_SOLID" h (by decide)
  unfold process_keyword
  simp only [e0, e1, e2, e3, e4, e5, e6, e7, e8, e9, h, Bool.false_and, Bool.false_eq_true, if_false, if_true]

theorem process_keyword_section_solid (u : Str) (h : found_at_0 u "*SECTION_SOLID" = true) :
    (process_keyword u : Run (Ctx F) Unit) = begin_section u .SOLID .IN_SECTION_SOLID_TITLE .IN_SECTION_SOLID := by
  have e0 := found_at_0_exclusive u "*SECTION_SOLID" "*NODE" h (by decide)
  have e1 := found_at_0_exclusive u "*SECTION_SOLID" "*PART" h (by decide)
  have e2 := found_at_0_exclusive u "*SECTION_SOLID" "*ELEMENT_SHELL" h (by decide)
  have e3 := found_at_0_exclusive u "*SECTION_SOLID" "*ELEMENT_SOLID" h (by decide)
  have e4 := found_at_0_exclusive u "*SECTION_SOLID" "*ELEMENT_BEAM" h (by decide)
  have e5 := found_at_0_exclusive u "*SECTION_SOLID" "*SET_NODE_LIST" h (by decide)
  have e6 := found_at_0_exclusive u "*SECTION_SOLID" "*SET_PART_LIST" h (by decide)
  have e7 := found_at_0_exclusive u "*SECTION_SOLID" "*SET_SEGMENT" h (by decide)
  have e8 := found_at_0_exclusive u "*SECTION_SOLID" "*SET_SHELL" h (by decide)
  have e9 := found_at_0_exclusive u "*SECTION_SOLID" "*SET_SOLID" h (by decide)
  have e10 := found_at_0_exclusive u "*SECTION_SOLID" "*SECTION_SHELL" h (by decide)
  unfold process_keyword
  simp only [e0, e1, e2, e3, e4, e5, e6, e7, e8, e9, e10, h, Bool.false_and, Bool.false_eq_true, if_false, if_true]

theorem process_keyword_section_beam (u : Str) (h : found_at_0 u "*SECTION_BEAM" = true) :
    (process_keyword u : Run (Ctx F) Unit) = begin_section u .BEAM .IN_SECTION_BEAM_TITLE .IN_SECTION_BEAM_HEADER := by
  have e0 := found_at_0_exclusive u "*SECTION_BEAM" "*NODE" h (by decide)
  have e1 := found_at_0_exclusive u "*SECTION_BEAM" "*PART" h (by decide)
  have e2 := found_at_0_exclusive u "*SECTION_BEAM" "*ELEMENT_SHELL" h (by decide)
  have e3 := found_at_0_exclusive u "*SECTION_BEAM" "*ELEMENT_SOLID" h (by decide)
  have e4 := found_at_0_exclusive u "*SECTION_BEAM" "*ELEMENT_BEAM" h (by decide)
  have e5 := found_at_0_exclusive u "*SECTION_BEAM" "*SET_NODE_LIST" h (by decide)
  have e6 := found_at_0_exclusive u "*SECTION_BEAM" "*SET_PART_LIST" h (by decide)
  have e7 := found_at_0_exclusive u "*SECTION_BEAM" "*SET_SEGMENT" h (by decide)
  have e8 := found_at_0_exclusive u "*SECTION_BEAM" "*SET_SHELL" h (by decide)
  have e9 := found_at_0_exclusive u "*SECTION_BEAM" "*SET_SOLID" h (by decide)
  have e10 := found_at_0_exclusive u "*SECTION_BEAM" "*SECTION_SHELL" h (by decide)
  have e11 := found_at_0_exclusive u "*SECTION_BEAM" "*SECTION_SOLID" h (by decide)
  unfold process_keyword
  simp only [e0, e1, e2, e3, e4, e5, e6, e7, e8, e9, e10, e11, h, Bool.false_and, Bool.false_eq_true, if_false, if_true]

theorem process_keyword_contact (u : Str) (h : found_at_0 u "*CONTACT_" = true) :
    (process_keyword u : Run (Ctx F) Unit) = begin_contact u := by
  have e0 := found_at_0_exclusive u "*CONTACT_" "*NODE" h (by decide)
  have e1 := found_at_0_exclusive u "*CONTACT_" "*PART" h (by decide)
  have e2 := found_at_0_exclusive u "*CONTACT_" "*ELEMENT_SHELL" h (by decide)
  have e3 := found_at_0_exclusive u "*CONTACT_" "*ELEMENT_SOLID" h (by decide)
  have e4 := found_at_0_exclusive u "*CONTACT_" "*ELEMENT_BEAM" h (by decide)
  have e5 := found_at_0_exclusive u "*CONTACT_" "*SET_NODE_LIST" h (by decide)
  have e6 := found_at_0_exclusive u "*CONTACT_" "*SET_PART_LIST" h (by decide)
  have e7 := found_at_0_exclusive u "*CONTACT_" "*SET_SEGMENT" h (by decide)
  have e8 := found_at_0_exclusive u "*CONTACT_" "*SET_SHELL" h (by decide)
  have e9 := found_at_0_exclusive u "*CONTACT_" "*SET_SOLID" h (by decide)
  have e10 := found_at_0_exclusive u "*CONTACT_" "*SECTION_SHELL" h (by decide)
  have e11 := found_at_0_exclusive u "*CONTACT_" "*SECTION_SOLID" h (by decide)
  have e12 := found_at_0_exclusive u "*CONTACT_" "*SECTION_BEAM" h (by decide)
  unfold process_keyword
  simp only [e0, e1, e2, e3, e4, e5, e6, e7, e8, e9, e10, e11, e12, h, Bool.false_and, Bool.false_eq_true, if_false, if_true]

theorem process_keyword_material (u : Str) (h : found_at_0 u "*MAT_" = true) :
    (process_keyword u : Run (Ctx F) Unit) = begin_material u := by
  have e0 := found_at_0_exclusive u "*MAT_" "*NODE" h (by decide)
  have e1 := found_at_0_exclusive u "*MAT_" "*PART" h (by decide)
  have e2 := found_at_0_exclusive u "*MAT_" "*ELEMENT_SHELL" h (by decide)
  have e3 := found_at_0_exclusive u "*MAT_" "*ELEMENT_SOLID" h (by decide)
  have e4 := found_at_0_exclusive u "*MAT_" "*ELEMENT_BEAM" h (by decide)
  have e5 := found_at_0_exclusive u "*MAT_" "*SET_NODE_LIST" h (by decide)
  have e6 := found_at_0_exclusive u "*MAT_" "*SET_PART_LIST" h (by decide)
  have e7 := found_at_0_exclusive u "*MAT_" "*SET_SEGMENT" h (by decide)
  have e8 := found_at_0_exclusive u "*MAT_" "*SET_SHELL" h (by decide)
  have e9 := found_at_0_exclusive u "*MAT_" "*SET_SOLID" h (by decide)
  have e10 := found_at_0_exclusive u "*MAT_" "*SECTION_SHELL" h (by decide)
  have e11 := found_at_0_exclusive u "*MAT_" "*SECTION_SOLID" h (by decide)
  have e12 := found_at_0_exclusive u "*MAT_" "*SECTION_BEAM" h (by decide)
  have e13 := found_at_0_exclusive u "*MAT_" "*CONTACT_" h (by decide)
  unfold process_keyword
  simp only [e0, e1, e2, e3, e4, e5, e6, e7, e8, e9, e10, e11, e12, e13, h, Bool.false_and, Bool.false_eq_true, if_false, if_true]

theorem process_keyword_curve (u : Str) (h : found_at_0 u "*DEFINE_CURVE" = true) :
    (process_keyword u : Run (Ctx F) Unit) = begin_curve u := by
  have e0 := found_at_0_exclusive u "*DEFINE_CURVE" "*NODE" h (by decide)
  have e1 := found_at_0_exclusive u "*DEFINE_CURVE" "*PART" h (by decide)
  have e2 := found_at_0_exclusive u "*DEFINE_CURVE" "*ELEMENT_SHELL" h (by decide)
  have e3 := found_at_0_exclusive u "*DEFINE_CURVE" "*ELEMENT_SOLID" h (by decide)
  have e4 := found_at_0_exclusive u "*DEFINE_CURVE" "*ELEMENT_BEAM" h (by decide)
  have e5 := found_at_0_exclusive u "*DEFINE_CURVE" "*SET_NODE_LIST" h (by decide)
  have e6 := found_at_0_exclusive u "*DEFINE_CURVE" "*SET_PART_LIST" h (by decide)
  have e7 := found_at_0_exclusive u "*DEFINE_CURVE" "*SET_SEGMENT" h (by decide)
  have e8 := found_at_0_exclusive u "*DEFINE_CURVE" "*SET_SHELL" h (by decide)
  have e9 := found_at_0_exclusive u "*DEFINE_CURVE" "*SET_SOLID" h (by decide)
  have e10 := found_at_0_exclusive u "*DEFINE_CURVE" "*SECTION_SHELL" h (by decide)
  have e11 := found_at_0_exclusive u "*DEFINE_CURVE" "*SECTION_SOLID" h (by decide)
  have e12 := found_at_0_exclusive u "*DEFINE_CURVE" "*SECTION_BEAM" h (by decide)
  have e13 := found_at_0_exclusive u "*DEFINE_CURVE" "*CONTACT_" h (by decide)
  have e14 := found_at_0_exclusive u "*DEFINE_CURVE" "*MAT_" h (by decide)
  have e15 := found_at_0_exclusive u "*DEFINE_CURVE" "*INCLUDE" h (by decide)
  unfold process_keyword
  simp only [e0, e1, e2, e3, e4, e5, e6, e7, e8, e9, e10, e11, e12, e13, e14, e15, h, Bool.false_and, Bool.false_eq_true, if_false, if_true]

end Dispatch

/-! ## Whole parses of small inputs -/

set_option maxRecDepth 100000 in
/-- C14. The path that commits a material when the expected number of cards has been
read has no `mid > 0` guard: `*MAT_ELASTIC` followed by one card whose `mid`
column is blank (or holds `-3`) yields a result whose only material has `mid = 0`
(resp. `mid = -3`), while the same block cut short by the keyword, the
end-of-input and the catch paths would have been dropped by their guards. -/
theorem material_committed_without_positive_mid :
    (parsed "*MAT_ELASTIC\n          7850.0\n").map (fun r => r.materials.map (·.mid))
      = some [0]
    ∧ (parsed "*MAT_ELASTIC\n        -3    7850.0\n").map (fun r => r.materials.map (·.mid))
      = some [-3]
    ∧ (parsed "*MAT_RIGID\n        -3    7850.0\n").map (fun r => r.materials.map (·.mid))
      = some [] := by
  decide

set_option maxRecDepth 100000 in
/-- C19. The option loop of the `*CONTACT_` branch stops at the first atom it knows,
so in `*CONTACT_AUTOMATIC_SURFACE_TO_SURFACE_MPP_ID` the `ID` option after `MPP`
is never seen: the ID card (`7 heading`) is decoded as card 1 (`ssid = 7`,
`msid = 0`), card 1 as card 2 and card 2 as card 3, whereas with `_ID` alone the
ID card is skipped and `ssid = 1`, `msid = 2`. -/
theorem contact_id_after_mpp_not_detected :
    (parsed ("*CONTACT_AUTOMATIC_SURFACE_TO_SURFACE_MPP_ID\n         7 heading\n"
        ++ "         1         2\n       0.2       0.1\n       1.0\n")).map
      (fun r => r.contacts.map (fun k => (k.ssid, k.msid, k.cards_parsed)))
      = some [(7, 0, 3)]
    ∧ (parsed ("*CONTACT_AUTOMATIC_SURFACE_TO_SURFACE_ID\n         7 heading\n"
        ++ "         1         2\n       0.2       0.1\n       1.0\n")).map
      (fun r => r.contacts.map (fun k => (k.ssid, k.msid, k.cards_parsed)))
      = some [(1, 2, 3)] := by
  decide

set_option maxRecDepth 100000 in
/-- C23. The keyword line `*MAT_ELASTIC` selects the Elastic variant with one expected
card; the same line followed by one space selects `OTHER` with ten expected cards,
because the `*MAT_` branch compares the text after the head with `==`. -/
theorem mat_keyword_trailing_space :
    ((after_line "*MAT_ELASTIC".toList (start_ctx fresh_instance)).self.current_material_.type,
      (after_line "*MAT_ELASTIC".toList (start_ctx fresh_instance)).self.material_expected_cards_)
      = (MaterialType.ELASTIC, 1)
    ∧ ((after_line "*MAT_ELASTIC ".toList (start_ctx fresh_instance)).self.current_material_.type,
      (after_line "*MAT_ELASTIC ".toList (start_ctx fresh_instance)).self.material_expected_cards_)
      = (MaterialType.OTHER, 10) := by
  decide

set_option maxRecDepth 100000 in
/-- C24. With LF terminators `*MAT_ELASTIC` and one card give one material of type
`ELASTIC` named `ELASTIC`; with every LF replaced by CRLF the same text gives one
material of type `OTHER` whose name ends in a carriage return. -/
theorem crlf_changes_material :
    (parsed "*MAT_ELASTIC\n         1    7850.0\n").map
      (fun r => r.materials.map (fun m => (m.type, m.type_name)))
      = some [(MaterialType.ELASTIC, "ELASTIC".toList)]
    ∧ (parsed "*MAT_ELASTIC\r\n         1    7850.0\r\n").map
      (fun r => r.materials.map (fun m => (m.type, m.type_name)))
      = some [(MaterialType.OTHER, "ELASTIC\r".toList)] := by
  decide

set_option maxRecDepth 100000 in
/-- C20. A `*CONTACT_AUTOMATIC_SINGLE_SURFACE` block that has received two cards holds
them in the in-flight contact (`ssid = 1`, `msid = 2`, `cards_parsed = 2`), but neither
the keyword `*NODE` nor the end of the input appends it: `result.contacts` stays
empty, and likewise after one card. Only the third card appends the contact. -/
theorem partial_contact_block_dropped :
    ((ctx_after ["*CONTACT_AUTOMATIC_SINGLE_SURFACE".toList, "         1         2".toList,
          "       0.2       0.1".toList] (start_ctx fresh_instance)).self.current_contact_.ssid,
      (ctx_after ["*CONTACT_AUTOMATIC_SINGLE_SURFACE".toList, "         1         2".toList,
          "       0.2       0.1".toList] (start_ctx fresh_instance)).self.current_contact_.msid,
      (ctx_after ["*CONTACT_AUTOMATIC_SINGLE_SURFACE".toList, "         1         2".toList,
          "       0.2       0.1".toList]
        (start_ctx fresh_instance)).self.current_contact_.cards_parsed) = (1, 2, 2)
    ∧ (parsed ("*CONTACT_AUTOMATIC_SINGLE_SURFACE\n         1         2\n"
        ++ "       0.2       0.1\n*NODE\n")).map (fun r => r.contacts.length) = some 0
    ∧ (parsed ("*CONTACT_AUTOMATIC_SINGLE_SURFACE\n         1         2\n"
        ++ "       0.2       0.1\n")).map (fun r => r.contacts.length) = some 0
    ∧ (parsed "*CONTACT_AUTOMATIC_SINGLE_SURFACE\n         1         2\n*NODE\n").map
        (fun r => r.contacts.length) = some 0
    ∧ (parsed "*CONTACT_AUTOMATIC_SINGLE_SURFACE\n         1         2\n").map
        (fun r => r.contacts.length) = some 0
    ∧ (parsed ("*CONTACT_AUTOMATIC_SINGLE_SURFACE\n         1         2\n"
        ++ "       0.2       0.1\n       1.0       1.0\n")).map
        (fun r => r.contacts.map (fun k => (k.ssid, k.msid, k.cards_parsed)))
        = some [(1, 2, 3)] := by
  decide

set_option maxRecDepth 100000 in
/-- C26. In the node line `     abc     1.0` the id column holds text that is not a
number: the node is appended with `nid = 0` and the next line is decoded as usual
(`nid = 2`), but `result.warnings` stays empty: the warning that the catch block of
the node handler would push is never pushed, because the column decoder has already
swallowed the exception. -/
theorem undecodable_column_warning_never_pushed :
    (parsed "*NODE\n     abc     1.0\n       2     2.0\n").map
      (fun r => (r.nodes.map (·.nid), r.warnings)) = some ([0, 2], []) := by
  decide

/-! ## Unrecognised keywords, warnings, and the indexer -/

section Unrecognised

variable {F : Type} [DoubleModel F]

theorem other_keyword_eq (c : Ctx F) : other_keyword c = (.ok (), commit_in_flight c) := by
  unfold other_keyword commit_in_flight
  simp only [Run.bind_apply, Run.update, set_state]
  by_cases h1 : c.self.current_set_.sid > 0 ∧ c.self.current_set_.count > 0 <;>
  by_cases h2 : c.self.current_material_.mid > 0 <;>
  by_cases h3 : c.self.current_curve_.lcid > 0 <;>
  simp [h1, h2, h3]

theorem process_keyword_unrecognised (u : Str) (h : recognised_head u = false) :
    (process_keyword u : Run (Ctx F) Unit) = other_keyword := by
  unfold recognised_head at h
  simp only [Bool.or_eq_false_iff] at h
  unfold process_keyword
  simp only [h, Bool.false_eq_true, if_false]

theorem process_data_idle (d : Str) (c : Ctx F) (hs : c.state = .IDLE) :
    process_data d c = (.ok (), c) := by
  unfold process_data
  rw [hs]

theorem ctx_after_idle (ds : List Str) (hds : ∀ d ∈ ds, is_keyword d = false) :
    ∀ c : Ctx F, c.state = .IDLE → ctx_after ds c = c := by
  induction ds with
  | nil => intro c _; rfl
  | cons d ds ih =>
    intro c hs
    have hd : (process_line d c).2 = c := by
      unfold process_line
      have hk := hds d (List.mem_cons_self _ _)
      by_cases hb : is_empty_or_whitespace d = true
      · rw [if_pos hb]; rfl
      · rw [if_neg hb, hk]
        by_cases hc : is_comment d = true
        · simp only [Bool.false_eq_true, if_false, hc, if_true]; rfl
        · simp only [Bool.false_eq_true, if_false, hc, process_data_idle d c hs]
    rw [ctx_after_cons, hd]
    exact ih (fun x hx => hds x (List.mem_cons_of_mem _ hx)) c hs

/-- C25. For every context (every parser state), a keyword line whose upper-cased
text matches none of the recognised heads returns without throwing and leaves
exactly the context the specification describes: the in-flight set (if `sid > 0`
and non-empty), material (if `mid > 0`) and curve (if `lcid > 0`) appended to the
result and reset, the state idle, and nothing else changed, so no warning is
added; and every following run of lines that are not keyword lines leaves that
context, hence the result, unchanged. -/
theorem unrecognised_keyword_commits_and_idles (l : Str) (c : Ctx F)
    (hk : is_keyword l = true) (hu : recognised_head (to_upper l) = false) :
    process_line l c = (.ok (), commit_in_flight c)
    ∧ (commit_in_flight c).state = .IDLE
    ∧ (commit_in_flight c).result.warnings = c.result.warnings
    ∧ ∀ ds : List Str, (∀ d ∈ ds, is_keyword d = false) →
        ctx_after (l :: ds) c = commit_in_flight c := by
  have h1 : process_line l c = (.ok (), commit_in_flight c) := by
    rw [process_line_keyword l hk, process_keyword_unrecognised _ hu, other_keyword_eq]
  refine ⟨h1, rfl, rfl, ?_⟩
  intro ds hds
  rw [ctx_after_cons, h1]
  exact ctx_after_idle ds hds _ rfl

end Unrecognised

/-- C25, witness: the line `*FOO` on a fresh parser. -/
theorem unrecognised_keyword_commits_and_idles_witness :
    is_keyword "*FOO".toList = true ∧ recognised_head (to_upper "*FOO".toList) = false
    ∧ process_line "*FOO".toList (start_ctx fresh_instance)
        = (.ok (), commit_in_flight (start_ctx fresh_instance)) :=
  ⟨by decide, by decide,
    (unrecognised_keyword_commits_and_idles "*FOO".toList (start_ctx fresh_instance)
      (by decide) (by decide)).1⟩

section Warnings

variable {F : Type} [DoubleModel F]

theorem finish_parse_warnings (n : Nat) (c : Ctx F) :
    (finish_parse n c).2.result.warnings = c.result.warnings := by
  unfold finish_parse
  simp only [Run.bind_apply, Run.update]
  by_cases h1 : c.self.current_set_.sid > 0 ∧ c.self.current_set_.count > 0 <;>
  by_cases h2 : c.self.current_material_.mid > 0 <;>
  by_cases h3 : c.self.current_curve_.lcid > 0 <;>
  by_cases h4 : c.self.build_index_ = true <;>
  simp [h1, h2, h3, h4, ParseResult.build_indices]

/-- No warning is ever delivered. For every input text and every parser,
`parse_string` returns and the result it returns has no warning at all: the column
decoders catch the exception themselves, so a column whose text `std::stoi` (resp.
`std::stod`) rejects simply decodes to `0` (resp. `0.0`), no handler ever reaches its
warning branch, and every line is processed. -/
theorem undecodable_column_is_zero_without_warning (text : Str) (p : KFileParser F) :
    (∃ r, (parse_string text p).1 = .ok r ∧ r.warnings = [])
    ∧ (∀ (line : Str) (start len : Nat) (e : Exn),
        stoi (column_text line start len) = .error e → parse_int line start len = .ok 0)
    ∧ (∀ (line : Str) (start len : Nat) (e : Exn),
        (DoubleModel.stod (column_text line start len) : Except Exn F) = .error e →
        (parse_double line start len : Except Exn F) = .ok dzero)
    ∧ ∀ (l : Str) (c : Ctx F), ∃ c1, process_line l c = (.ok (), c1) := by
  refine ⟨⟨_, parse_string_eq text p, ?_⟩, ?_, ?_, fun l c => ⟨_, process_line_ok l c⟩⟩
  · rw [finish_parse_warnings, ctx_after_warnings]
    rfl
  · intro line start len e he
    rw [parse_int_eq]
    unfold int_of_field
    rw [he]
    split <;> rfl
  · intro line start len e he
    rw [parse_double_eq]
    unfold double_of_field
    rw [he]
    split <;> rfl

end Warnings

/-! ### The indexer -/

theorem index_fold_spec (keys : List Int) :
    ∀ (n : Nat) (m : IndexMap) (k : Int) (i : Nat),
      (keys.enumFrom n).foldl (fun (m : IndexMap) (ik : Nat × Int) => Function.update m ik.2 (some ik.1)) m k = some i
        ↔ ((n ≤ i ∧ keys[i - n]? = some k ∧ ∀ j : Nat, i < j → keys[j - n]? ≠ some k)
            ∨ (m k = some i ∧ k ∉ keys)) := by
  induction keys with
  | nil =>
    intro n m k i
    simp
  | cons a rest ih =>
    intro n m k i
    rw [List.enumFrom_cons, List.foldl_cons, ih]
    constructor
    · rintro (⟨hn, hi, hlast⟩ | ⟨hm, hk⟩)
      · left
        have h1 : i - n = (i - (n + 1)) + 1 := by omega
        refine ⟨by omega, ?_, ?_⟩
        · rw [h1, List.getElem?_cons_succ]; exact hi
        · intro j hj
          have h2 : j - n = (j - (n + 1)) + 1 := by omega
          rw [h2, List.getElem?_cons_succ]
          exact hlast j hj
      · by_cases hak : k = a
        · subst hak
          simp only [Function.update_same, Option.some.injEq] at hm
          subst hm
          left
          refine ⟨le_refl _, by simp, ?_⟩
          intro j hj
          have h2 : j - n = (j - (n + 1)) + 1 := by omega
          rw [h2, List.getElem?_cons_succ]
          intro hc
          exact hk (List.getElem?_mem hc)
        · rw [Function.update_noteq hak] at hm
          right
          exact ⟨hm, by simp [hak, hk]⟩
    · rintro (⟨hn, hi, hlast⟩ | ⟨hm, hk⟩)
      · by_cases hin : i = n
        · subst hin
          simp only [Nat.sub_self, List.getElem?_cons_zero, Option.some.injEq] at hi
          subst hi
          right
          refine ⟨by simp, ?_⟩
          intro hmem
          obtain ⟨j, hj⟩ := List.getElem?_of_mem hmem
          have := hlast (j + i + 1) (by omega)
          have h2 : j + i + 1 - i = j + 1 := by omega
          rw [h2, List.getElem?_cons_succ] at this
          exact this hj
        · left
          have h1 : i - n = (i - (n + 1)) + 1 := by omega
          rw [h1, List.getElem?_cons_succ] at hi
          refine ⟨by omega, hi, ?_⟩
          intro j hj
          have := hlast j hj
          have h2 : j - n = (j - (n + 1)) + 1 := by omega
          rw [h2, List.getElem?_cons_succ] at this
          exact this
      · right
        simp only [List.mem_cons, not_or] at hk
        rw [Function.update_noteq hk.1]
        exact ⟨hm, hk.2⟩

theorem index_of_keys_last_wins (keys : List Int) : last_wins (index_of_keys keys) keys := by
  intro k i
  unfold index_of_keys List.enum
  rw [index_fold_spec keys 0 IndexMap.empty k i]
  constructor
  · rintro (⟨_, h1, h2⟩ | ⟨h, _⟩)
    · exact ⟨h1, h2⟩
    · cases h
  · rintro ⟨h1, h2⟩
    exact Or.inl ⟨Nat.zero_le _, h1, h2⟩

theorem last_occurrence_exists (keys : List Int) (k : Int) (h : k ∈ keys) :
    ∃ i : Nat, keys[i]? = some k ∧ ∀ j : Nat, i < j → keys[j]? ≠ some k := by
  induction keys with
  | nil => cases h
  | cons a rest ih =>
    by_cases hr : k ∈ rest
    · obtain ⟨i, hi, hl⟩ := ih hr
      refine ⟨i + 1, by simpa using hi, ?_⟩
      intro j hj
      obtain ⟨j, rfl⟩ : ∃ j0, j = j0 + 1 := ⟨j - 1, by omega⟩
      rw [List.getElem?_cons_succ]
      exact hl j (by omega)
    · have hka : k = a := by
        rcases List.mem_cons.mp h with h | h
        · exact h
        · exact absurd h hr
      subst hka
      refine ⟨0, by simp, ?_⟩
      intro j hj
      obtain ⟨j, rfl⟩ : ∃ j0, j = j0 + 1 := ⟨j - 1, by omega⟩
      rw [List.getElem?_cons_succ]
      intro hc
      exact hr (List.getElem?_mem hc)

theorem index_of_keys_keys_exact (keys : List Int) : keys_exact (index_of_keys keys) keys := by
  intro k
  constructor
  · intro h
    obtain ⟨i, hi⟩ := Option.isSome_iff_exists.mp h
    exact List.getElem?_mem ((index_of_keys_last_wins keys k i).mp hi).1
  · intro h
    obtain ⟨i, hi⟩ := last_occurrence_exists keys k h
    rw [(index_of_keys_last_wins keys k i).mpr hi]
    rfl

/-- C27. For every `ParseResult` `r`, after `build_indices` each of the eight maps
(node by `nid`, part by `pid`, element by `eid`, set by `sid`, section by `secid`,
contact by `ssid`, material by `mid`, curve by `lcid`) has as its key set exactly
the keys occurring in the corresponding collection, and maps each key to the
greatest position whose entity has that key: on duplicate keys the last occurrence
wins. -/
theorem build_indices_last_occurrence_wins {F : Type} (r : ParseResult F) :
    (keys_exact r.build_indices.node_index (r.nodes.map (·.nid))
      ∧ last_wins r.build_indices.node_index (r.nodes.map (·.nid)))
    ∧ (keys_exact r.build_indices.part_index (r.parts.map (·.pid))
      ∧ last_wins r.build_indices.part_index (r.parts.map (·.pid)))
    ∧ (keys_exact r.build_indices.element_index (r.elements.map (·.eid))
      ∧ last_wins r.build_indices.element_index (r.elements.map (·.eid)))
    ∧ (keys_exact r.build_indices.set_index (r.sets.map (·.sid))
      ∧ last_wins r.build_indices.set_index (r.sets.map (·.sid)))
    ∧ (keys_exact r.build_indices.section_index (r.sections.map (·.secid))
      ∧ last_wins r.build_indices.section_index (r.sections.map (·.secid)))
    ∧ (keys_exact r.build_indices.contact_index (r.contacts.map (·.ssid))
      ∧ last_wins r.build_indices.contact_index (r.contacts.map (·.ssid)))
    ∧ (keys_exact r.build_indices.material_index (r.materials.map (·.mid))
      ∧ last_wins r.build_indices.material_index (r.materials.map (·.mid)))
    ∧ (keys_exact r.build_indices.curve_index (r.curves.map (·.lcid))
      ∧ last_wins r.build_indices.curve_index (r.curves.map (·.lcid))) :=
  ⟨⟨index_of_keys_keys_exact _, index_of_keys_last_wins _⟩,
    ⟨index_of_keys_keys_exact _, index_of_keys_last_wins _⟩,
    ⟨index_of_keys_keys_exact _, index_of_keys_last_wins _⟩,
    ⟨index_of_keys_keys_exact _, index_of_keys_last_wins _⟩,
    ⟨index_of_keys_keys_exact _, index_of_keys_last_wins _⟩,
    ⟨index_of_keys_keys_exact _, index_of_keys_last_wins _⟩,
    ⟨index_of_keys_keys_exact _, index_of_keys_last_wins _⟩,
    ⟨index_of_keys_keys_exact _, index_of_keys_last_wins _⟩⟩

/-- C28. The function `build_indices` is idempotent and touches only the eight maps:
for every `ParseResult` `r`, whatever its maps hold, building twice gives the same
result as building once, and putting the old maps back into the built result gives
`r` again, so no entity collection (nor any other member) has changed. -/
theorem build_indices_idempotent {F : Type} (r : ParseResult F) :
    r.build_indices.build_indices = r.build_indices
    ∧ { r.build_indices with
        node_index := r.node_index, part_index := r.part_index,
        element_index := r.element_index, set_index := r.set_index,
        section_index := r.section_index, contact_index := r.contact_index,
        material_index := r.material_index, curve_index := r.curve_index } = r :=
  ⟨rfl, rfl⟩

/-! ## Sets: what each line does to them -/

section Sets

variable {F : Type} [DoubleModel F]

set_option linter.unusedSectionVars false

theorem begin_set_eq (u : Str) (ty : SetType) (hdr : ParseState) (c : Ctx F) :
    begin_set u ty hdr c = (.ok (),
      if c.self.parse_sets_ = true then
        { c with
          result.sets := c.result.sets ++ c.self.current_set_.if_committable
          self.current_set_ := { (Set.init : Set F) with type := ty }
          state := if found u "_TITLE" = true then .IN_SET_TITLE else hdr }
      else { c with state := .IDLE }) := by
  unfold begin_set when_enabled push_current_set Set.if_committable Set.committable
  by_cases hp : c.self.parse_sets_ = true
  · simp only [hp, if_true, Run.bind_apply, Run.update, set_state]
    by_cases hc : c.self.current_set_.sid > 0 ∧ c.self.current_set_.count > 0 <;>
    by_cases ht : found u "_TITLE" = true <;>
    simp [hc, ht, hp, set_state, Run.update]
  · simp only [hp, if_false, Bool.false_eq_true, set_state, Run.update]

theorem parse_set_header_eq (line : Str) (ty : SetType) :
    (parse_set_header line ty : Except Exn (Set F)) = .ok (decoded_set_header line ty) := by
  obtain ⟨s, hs⟩ := parse_set_header_ok (F := F) line ty
  unfold decoded_set_header
  rw [hs]

theorem decoded_set_header_ids (line : Str) (ty : SetType) :
    (decoded_set_header line ty : Set F).ids = []
    ∧ (decoded_set_header line ty : Set F).segments = []
    ∧ (decoded_set_header line ty : Set F).type = ty := by
  unfold decoded_set_header parse_set_header
  simp only [parse_int_eq, parse_double_eq, parse_string_field_eq]
  by_cases h : line.length > 50 <;> simp [h, Set.init, bind, Except.bind]

theorem case_IN_SET_TITLE_eq (c : Ctx F) :
    case_IN_SET_TITLE c
      = (.ok (), { c with state := header_state_of c.self.current_set_.type }) := by
  unfold case_IN_SET_TITLE
  simp only [Run.bind_apply, Run.read]
  cases h : c.self.current_set_.type <;> rfl

theorem case_IN_SET_HEADER_eq (line : Str) (ty : SetType) (data : ParseState) (c : Ctx F) :
    case_IN_SET_HEADER line ty data c
      = (.ok (), { c with self.current_set_ := decoded_set_header line ty, state := data }) := by
  unfold case_IN_SET_HEADER Run.try_catch
  simp only [Run.bind_apply, parse_set_header_eq, Run.assign, set_state, Run.update]

theorem case_IN_SET_DATA_eq (line : Str) (c : Ctx F) :
    case_IN_SET_DATA line c
      = (.ok (), { c with
          self.current_set_ := (parse_set_data_line line c.self.current_set_).2 }) := by
  unfold case_IN_SET_DATA Run.try_catch Run.zoom
  simp only [parse_set_data_line_eq]

theorem parse_segment_data_line_eq (line : Str) (s : Set F) :
    parse_segment_data_line line s
      = (.ok (), s.add_segment (int_of_field (column_text line 0 10))
          (int_of_field (column_text line 10 10)) (int_of_field (column_text line 20 10))
          (int_of_field (column_text line 30 10))) := by
  unfold parse_segment_data_line
  simp only [Run.bind_apply, Run.eval, parse_int_eq, Run.update]

theorem case_IN_SET_SEGMENT_DATA_eq (line : Str) (c : Ctx F) :
    case_IN_SET_SEGMENT_DATA line c
      = (.ok (), { c with
          self.current_set_ := (parse_segment_data_line line c.self.current_set_).2 }) := by
  unfold case_IN_SET_SEGMENT_DATA Run.try_catch Run.zoom
  simp only [parse_segment_data_line_eq]

/-! ### The ids of every set are positive -/

theorem add_set_card_ids_positive (ty : SetType) (s : Set F) (card : Str)
    (h : s.ids_positive) : (add_set_card ty s card).ids_positive := by
  unfold add_set_card
  split
  · rw [parse_segment_data_line_eq]
    unfold Set.add_segment
    split
    · exact h
    · exact h
  · rw [parse_set_data_line_eq]
    intro id hid
    simp only [List.mem_append, List.mem_filter, decide_eq_true_eq] at hid
    rcases hid with hid | ⟨_, hid⟩
    · exact h id hid
    · exact hid

theorem init_ids_positive : (Set.init : Set F).ids_positive := by
  intro id hid
  simp [Set.init] at hid

theorem decoded_set_header_ids_positive (line : Str) (ty : SetType) :
    (decoded_set_header line ty : Set F).ids_positive := by
  intro id hid
  rw [(decoded_set_header_ids line ty).1] at hid
  cases hid


theorem set_state_cases (st : ParseState) (h : st.family = .set) :
    st = .IN_SET_TITLE ∨ ∃ ty, st = header_state_of ty ∨ st = data_state_of ty := by
  cases st <;> first
    | (exact Or.inl rfl)
    | (exact Or.inr ⟨.NODE_LIST, Or.inl rfl⟩)
    | (exact Or.inr ⟨.NODE_LIST, Or.inr rfl⟩)
    | (exact Or.inr ⟨.PART_LIST, Or.inl rfl⟩)
    | (exact Or.inr ⟨.PART_LIST, Or.inr rfl⟩)
    | (exact Or.inr ⟨.SEGMENT, Or.inl rfl⟩)
    | (exact Or.inr ⟨.SEGMENT, Or.inr rfl⟩)
    | (exact Or.inr ⟨.SHELL, Or.inl rfl⟩)
    | (exact Or.inr ⟨.SHELL, Or.inr rfl⟩)
    | (exact Or.inr ⟨.SOLID, Or.inl rfl⟩)
    | (exact Or.inr ⟨.SOLID, Or.inr rfl⟩)
    | (exact absurd h (by decide))

theorem process_data_set_title (d : Str) (c : Ctx F) (hs : c.state = .IN_SET_TITLE) :
    process_data d c
      = (.ok (), { c with state := header_state_of c.self.current_set_.type }) := by
  unfold process_data
  rw [hs]
  exact case_IN_SET_TITLE_eq c

theorem process_data_set_header (d : Str) (c : Ctx F) (ty : SetType)
    (hs : c.state = header_state_of ty) :
    process_data d c
      = (.ok (), { c with
          self.current_set_ := decoded_set_header d ty, state := data_state_of ty }) := by
  unfold process_data
  rw [hs]
  cases ty <;> exact case_IN_SET_HEADER_eq d _ _ c

theorem process_data_set_data (d : Str) (c : Ctx F) (ty : SetType)
    (hs : c.state = data_state_of ty) :
    process_data d c
      = (.ok (), { c with self.current_set_ := add_set_card ty c.self.current_set_ d }) := by
  cases ty
  · have e : process_data d c = case_IN_SET_DATA d c := by unfold process_data; rw [hs]; rfl
    rw [e, case_IN_SET_DATA_eq]; rfl
  · have e : process_data d c = case_IN_SET_DATA d c := by unfold process_data; rw [hs]; rfl
    rw [e, case_IN_SET_DATA_eq]; rfl
  · have e : process_data d c = case_IN_SET_SEGMENT_DATA d c := by
      unfold process_data; rw [hs]; rfl
    rw [e, case_IN_SET_SEGMENT_DATA_eq]; rfl
  · have e : process_data d c = case_IN_SET_DATA d c := by unfold process_data; rw [hs]; rfl
    rw [e, case_IN_SET_DATA_eq]; rfl
  · have e : process_data d c = case_IN_SET_DATA d c := by unfold process_data; rw [hs]; rfl
    rw [e, case_IN_SET_DATA_eq]; rfl

theorem sets_ids_positive_of_view {c c1 : Ctx F} (h : set_view c1 = set_view c)
    (hi : sets_ids_positive c) : sets_ids_positive c1 := by
  unfold set_view at h
  simp only [Prod.mk.injEq] at h
  unfold sets_ids_positive
  rw [h.2.1, h.2.2]
  exact hi

theorem if_committable_mem (s x : Set F) (h : x ∈ s.if_committable) : x = s := by
  unfold Set.if_committable at h
  split at h
  · simpa using h
  · cases h

theorem process_keyword_sets_ids_positive (u : Str) (c : Ctx F) (hi : sets_ids_positive c) :
    sets_ids_positive (process_keyword u c).2 := by
  rcases process_keyword_branch (F := F) u with ⟨ty, _, e⟩ | ⟨_, e⟩ | ⟨_, e⟩ | ⟨_, e⟩ | e | ⟨hf, _⟩
  · rw [e, begin_set_eq]
    by_cases hp : c.self.parse_sets_ = true
    · simp only [hp, if_true]
      refine ⟨fun id hid => by simp [Set.init] at hid, ?_⟩
      intro s hs
      rcases List.mem_append.mp hs with h | h
      · exact hi.2 s h
      · rw [if_committable_mem _ _ h]
        exact hi.1
    · simp only [hp, if_false]
      exact hi
  · rw [e]
    exact sets_ids_positive_of_view (congrArg Prod.fst (begin_contact_frame u c).1) hi
  · rw [e]
    exact sets_ids_positive_of_view (congrArg Prod.fst (begin_material_frame u c).1) hi
  · rw [e]
    exact sets_ids_positive_of_view (congrArg Prod.fst (begin_curve_frame u c).1) hi
  · rw [e, other_keyword_eq]
    unfold commit_in_flight
    by_cases h1 : c.self.current_set_.sid > 0 ∧ c.self.current_set_.count > 0
    · simp only [h1, decide_True, if_true]
      refine ⟨init_ids_positive, ?_⟩
      intro s hs
      rcases List.mem_append.mp hs with h | h
      · exact hi.2 s h
      · rw [List.mem_singleton.mp h]
        exact hi.1
    · simp only [h1, decide_False, Bool.false_eq_true, if_false]
      exact hi
  · exact sets_ids_positive_of_view (congrArg Prod.fst (hf c).1) hi

theorem process_data_sets_ids_positive (d : Str) (c : Ctx F) (hi : sets_ids_positive c) :
    sets_ids_positive (process_data d c).2 := by
  by_cases hf : c.state.family = .set
  · rcases set_state_cases c.state hf with hs | ⟨ty, hs | hs⟩
    · rw [process_data_set_title d c hs]
      exact hi
    · rw [process_data_set_header d c ty hs]
      exact ⟨decoded_set_header_ids_positive d ty, hi.2⟩
    · rw [process_data_set_data d c ty hs]
      exact ⟨add_set_card_ids_positive ty _ d hi.1, hi.2⟩
  · exact sets_ids_positive_of_view ((process_data_frame d c).1 hf) hi

theorem process_line_sets_ids_positive (l : Str) (c : Ctx F) (hi : sets_ids_positive c) :
    sets_ids_positive (process_line l c).2 := by
  unfold process_line
  split
  · exact hi
  · split
    · exact process_keyword_sets_ids_positive _ c hi
    · split
      · exact hi
      · exact process_data_sets_ids_positive l c hi

theorem ctx_after_sets_ids_positive (lines : List Str) :
    ∀ c : Ctx F, sets_ids_positive c → sets_ids_positive (ctx_after lines c) := by
  induction lines with
  | nil => exact fun c h => h
  | cons l rest ih =>
    intro c h
    rw [ctx_after_cons]
    exact ih _ (process_line_sets_ids_positive l c h)

theorem finish_parse_sets (n : Nat) (c : Ctx F) :
    (finish_parse n c).2.result.sets = c.result.sets ++ c.self.current_set_.if_committable
    ∧ (finish_parse n c).2.self.current_set_
        = if c.self.current_set_.committable then Set.init else c.self.current_set_ := by
  unfold finish_parse Set.if_committable Set.committable
  simp only [Run.bind_apply, Run.update]
  by_cases h1 : c.self.current_set_.sid > 0 ∧ c.self.current_set_.count > 0 <;>
  by_cases h2 : c.self.current_material_.mid > 0 <;>
  by_cases h3 : c.self.current_curve_.lcid > 0 <;>
  by_cases h4 : c.self.build_index_ = true <;>
  simp [h1, h2, h3, h4, ParseResult.build_indices]

theorem well_formed_of_ids_positive (s : Set F) (h : s.ids_positive) : s.well_formed := by
  unfold Set.well_formed Set.count
  refine ⟨fun ht => by rw [if_pos ht], fun ht => ⟨by rw [if_neg ht], h⟩⟩

/-- C12. For every input text and every parser whose in-flight set holds only
positive ids (a freshly constructed parser, or one that has parsed before),
`parse_string` returns, and in the result it returns every Set whose type is not
Segment has `count()` equal to the length of its ids list with every stored id
strictly positive, and every Set of type Segment has `count()` equal to the number
of its segments; the in-flight set of the parser afterwards again holds only
positive ids. -/
theorem sets_count_and_positive_ids (text : Str) (p : KFileParser F)
    (hp : p.current_set_.ids_positive) :
    (∃ r, (parse_string text p).1 = .ok r ∧ ∀ s ∈ r.sets, s.well_formed)
    ∧ (parse_string text p).2.current_set_.ids_positive := by
  have h0 : sets_ids_positive (start_ctx p) := ⟨hp, fun s hs => by cases hs⟩
  have h1 := ctx_after_sets_ids_positive (getlines text) _ h0
  have hfin := finish_parse_sets (getlines text).length (ctx_after (getlines text) (start_ctx p))
  refine ⟨⟨_, parse_string_eq text p, ?_⟩, ?_⟩
  · intro s hs
    rw [hfin.1] at hs
    apply well_formed_of_ids_positive
    rcases List.mem_append.mp hs with h | h
    · exact h1.2 s h
    · rw [if_committable_mem _ _ h]
      exact h1.1
  · rw [parse_string_self, hfin.2]
    split
    · exact init_ids_positive
    · exact h1.1

end Sets

set_option maxRecDepth 100000 in
/-- C12, witness: a node-list set and a segment set parsed by a fresh parser. -/
theorem sets_count_and_positive_ids_witness :
    fresh_instance.current_set_.ids_positive
    ∧ (∃ r, (parse_string ("*SET_NODE_LIST\n         5\n         1         2        -3\n"
          ++ "*SET_SEGMENT\n         6\n         1         2         3         4\n").toList
        fresh_instance).1 = .ok r ∧ ∀ s ∈ r.sets, s.well_formed)
    ∧ (parsed ("*SET_NODE_LIST\n         5\n         1         2        -3\n"
          ++ "*SET_SEGMENT\n         6\n         1         2         3         4\n")).map
        (fun r => r.sets.map (fun s => (s.sid, s.ids, s.segments)))
      = some [(5, [1, 2], []), (6, [], [[1, 2, 3, 4]])] :=
  ⟨init_ids_positive,
    (sets_count_and_positive_ids _ fresh_instance init_ids_positive).1, by decide⟩

/-! ## Sets: the parser against the block-by-block description -/

section SetBlocks

variable {F : Type} [DoubleModel F]

set_option linter.unusedSectionVars false

theorem set_in_flight_nil (c : Ctx F) : set_in_flight c [] = c.self.current_set_ := by
  unfold set_in_flight
  cases c.state <;> rfl

theorem set_in_flight_other (c : Ctx F) (datas : List Str) (h : c.state.family ≠ .set) :
    set_in_flight c datas = c.self.current_set_ := by
  unfold set_in_flight
  cases hs : c.state <;> first
    | rfl
    | (rw [hs] at h; exact absurd rfl h)

theorem set_in_flight_title (c : Ctx F) (datas : List Str) (hs : c.state = .IN_SET_TITLE) :
    set_in_flight c datas
      = match datas.drop 1 with
        | [] => c.self.current_set_
        | h :: cards =>
          cards.foldl (add_set_card c.self.current_set_.type)
            (decoded_set_header h c.self.current_set_.type) := by
  unfold set_in_flight
  rw [hs] <;> rfl

theorem set_in_flight_header (c : Ctx F) (datas : List Str) (ty : SetType)
    (hs : c.state = header_state_of ty) :
    set_in_flight c datas
      = match datas with
        | [] => c.self.current_set_
        | h :: cards => cards.foldl (add_set_card ty) (decoded_set_header h ty) := by
  unfold set_in_flight
  rw [hs]
  cases ty <;> rfl

theorem set_in_flight_data (c : Ctx F) (datas : List Str) (ty : SetType)
    (hs : c.state = data_state_of ty) :
    set_in_flight c datas = datas.foldl (add_set_card ty) c.self.current_set_ := by
  unfold set_in_flight
  rw [hs]
  cases ty <;> rfl

theorem block_data_keyword (l : Str) (rest : List Str) (h : is_keyword l = true) :
    block_data (l :: rest) = [] := by
  unfold block_data
  rw [List.takeWhile_cons]
  simp [h]

theorem block_data_data (l : Str) (rest : List Str) (h : data_line l) :
    block_data (l :: rest) = l :: block_data rest := by
  unfold block_data
  rw [List.takeWhile_cons]
  simp [h.2.1, h]

theorem block_data_skip (l : Str) (rest : List Str) (hk : is_keyword l = false)
    (hd : ¬ data_line l) : block_data (l :: rest) = block_data rest := by
  unfold block_data
  rw [List.takeWhile_cons]
  simp [hk, hd]

theorem spec_sets_not_keyword (l : Str) (rest : List Str) (hk : is_keyword l = false) :
    (spec_sets (l :: rest) : List (Set F)) = spec_sets rest := by
  rw [spec_sets]
  simp [hk]

theorem process_keyword_of_set_type (u : Str) (ty : SetType)
    (h : set_keyword_type u = some ty) :
    (process_keyword u : Run (Ctx F) Unit) = begin_set u ty (header_state_of ty) := by
  unfold set_keyword_type at h
  split at h
  · cases h; exact process_keyword_set_node_list u (by assumption)
  · split at h
    · cases h; exact process_keyword_set_part_list u (by assumption)
    · split at h
      · cases h; exact process_keyword_set_segment u (by assumption)
      · split at h
        · cases h; exact process_keyword_set_shell u (by assumption)
        · split at h
          · cases h; exact process_keyword_set_solid u (by assumption)
          · cases h

theorem within_not_set {f : StateFamily} {st : ParseState} (hf : f ≠ .set)
    (h : st.within f) : st.family ≠ .set := by
  rcases h with h | h
  · rw [h]; exact hf
  · rw [h]; decide

theorem init_not_committable : (Set.init : Set F).if_committable = [] := by
  unfold Set.if_committable Set.committable
  simp [Set.init]

/-- A keyword line that is not a set keyword leaves the sequence "committed sets, then
the in-flight set if it is committable" as it was, ends outside the set states,
and keeps the enable flag. -/
theorem process_keyword_not_set (u : Str) (c : Ctx F) (h : set_keyword_type u = none) :
    (process_keyword u c).2.result.sets ++ (process_keyword u c).2.self.current_set_.if_committable
        = c.result.sets ++ c.self.current_set_.if_committable
    ∧ (process_keyword u c).2.state.family ≠ .set
    ∧ (process_keyword u c).2.self.parse_sets_ = c.self.parse_sets_ := by
  have view : ∀ c1 : Ctx F, set_view c1 = set_view c →
      c1.result.sets ++ c1.self.current_set_.if_committable
          = c.result.sets ++ c.self.current_set_.if_committable
        ∧ c1.self.parse_sets_ = c.self.parse_sets_ := by
    intro c1 hv
    unfold set_view at hv
    simp only [Prod.mk.injEq] at hv
    rw [hv.1, hv.2.1, hv.2.2]
    exact ⟨rfl, rfl⟩
  obtain ⟨a, ha⟩ := (process_keyword_quiet (F := F) u c).1
  rcases process_keyword_branch (F := F) u with ⟨ty, hty, _⟩ | ⟨_, e⟩ | ⟨_, e⟩ | ⟨_, e⟩ | e | ⟨hf, he⟩
  · rw [h] at hty; cases hty
  · rw [e] at ha ⊢
    have hv := view _ (congrArg Prod.fst (begin_contact_frame u c).1)
    exact ⟨hv.1, within_not_set (by decide) (begin_contact_ends u c a ha), hv.2⟩
  · rw [e] at ha ⊢
    have hv := view _ (congrArg Prod.fst (begin_material_frame u c).1)
    exact ⟨hv.1, within_not_set (by decide) (begin_material_ends u c a ha), hv.2⟩
  · rw [e] at ha ⊢
    have hv := view _ (congrArg Prod.fst (begin_curve_frame u c).1)
    exact ⟨hv.1, within_not_set (by decide) (begin_curve_ends u c a ha), hv.2⟩
  · rw [e, other_keyword_eq]
    refine ⟨?_, (by show ParseState.family .IDLE ≠ .set; decide), rfl⟩
    unfold commit_in_flight Set.if_committable Set.committable
    by_cases h1 : c.self.current_set_.sid > 0 ∧ c.self.current_set_.count > 0
    · simp [h1, Set.init]
    · simp [h1]
  · have hv := view _ (congrArg Prod.fst (hf c).1)
    exact ⟨hv.1, within_not_set (by decide) (he c a ha), hv.2⟩

theorem set_of_block_committable (u : Str) (ty : SetType) (datas : List Str) (c1 : Ctx F)
    (hcur : c1.self.current_set_ = { (Set.init : Set F) with type := ty })
    (hst : c1.state = if found u "_TITLE" = true then .IN_SET_TITLE else header_state_of ty) :
    (set_in_flight c1 datas).if_committable
      = match (set_of_block u ty datas : Option (Set F)) with
        | some s => s.if_committable
        | none => [] := by
  have hinit : ({ (Set.init : Set F) with type := ty } : Set F).if_committable = [] := by
    unfold Set.if_committable Set.committable
    simp [Set.init]
  unfold set_of_block
  by_cases ht : found u "_TITLE" = true
  · rw [if_pos ht] at hst
    rw [set_in_flight_title c1 datas hst, hcur]
    simp only [ht, if_true]
    cases datas.drop 1 with
    | nil => exact hinit
    | cons h cards => rfl
  · rw [if_neg ht] at hst
    rw [set_in_flight_header c1 datas ty hst, hcur]
    simp only [ht, if_false, Bool.false_eq_true]
    cases datas with
    | nil => exact hinit
    | cons h cards => rfl

/-- The simulation: after any lines, the committed sets followed by the in-flight set
(if committable) are what was committed before, then the set the context was
building (fed with the data lines up to the next keyword), then the sets of the
blocks that start in these lines. -/
theorem sets_after_lines (lines : List Str) :
    ∀ c : Ctx F, c.self.parse_sets_ = true →
      (ctx_after lines c).result.sets ++ (ctx_after lines c).self.current_set_.if_committable
        = c.result.sets ++ (set_in_flight c (block_data lines)).if_committable
            ++ spec_sets lines := by
  induction lines with
  | nil =>
    intro c _
    rw [ctx_after_nil]
    show _ = _ ++ (set_in_flight c []).if_committable ++ []
    rw [set_in_flight_nil, List.append_nil]
  | cons l rest ih =>
    intro c hp
    rw [ctx_after_cons]
    by_cases hk : is_keyword l = true
    · -- a keyword line
      rw [process_line_keyword l hk, block_data_keyword l rest hk, set_in_flight_nil]
      cases hty : set_keyword_type (to_upper l) with
      | none =>
        obtain ⟨h1, h2, h3⟩ := process_keyword_not_set (to_upper l) c hty
        rw [ih _ (h3.trans hp), set_in_flight_other _ _ h2, h1, spec_sets]
        simp only [hk, if_true, hty, List.nil_append]
      | some ty =>
        rw [process_keyword_of_set_type _ ty hty, begin_set_eq]
        simp only [hp, if_true]
        refine (ih _ (by rfl)).trans ?_
        rw [set_of_block_committable (to_upper l) ty _ _ rfl rfl, spec_sets]
        simp only [hk, if_true, hty, List.append_assoc] <;> rfl
    · -- not a keyword line
      simp only [Bool.not_eq_true] at hk
      rw [spec_sets_not_keyword l rest hk]
      by_cases hd : data_line l
      · rw [process_line_data l hd, block_data_data l rest hd]
        by_cases hf : c.state.family = .set
        · rcases set_state_cases c.state hf with hs | ⟨ty, hs | hs⟩
          · rw [process_data_set_title l c hs]
            refine (ih _ (by exact hp)).trans ?_
            rw [set_in_flight_title c _ hs, set_in_flight_header _ _ _ rfl]
            rfl
          · rw [process_data_set_header l c ty hs]
            refine (ih _ (by exact hp)).trans ?_
            rw [set_in_flight_header c _ ty hs, set_in_flight_data _ _ ty rfl]
          · rw [process_data_set_data l c ty hs]
            refine (ih _ (by exact hp)).trans ?_
            rw [set_in_flight_data c _ ty hs, set_in_flight_data _ _ ty (by exact hs)]
            rfl
        · have hfr := process_data_frame l c
          have hv := hfr.1 hf
          unfold set_view at hv
          simp only [Prod.mk.injEq] at hv
          have hf1 : (process_data l c).2.state.family ≠ .set := by
            rcases hfr.2.2.2.2 with e | e
            · rw [e]; exact hf
            · rw [e]; decide
          rw [ih _ (hv.1.trans hp), set_in_flight_other _ _ hf1, set_in_flight_other _ _ hf,
            hv.2.1, hv.2.2]
      · have hc : (process_line l c).2 = c := by
          unfold process_line
          by_cases hb : is_empty_or_whitespace l = true
          · rw [if_pos hb]; rfl
          · rw [if_neg hb, hk]
            have hcm : is_comment l = true := by
              by_contra hn
              exact hd ⟨by simpa using hb, hk, by simpa using hn⟩
            simp only [Bool.false_eq_true, if_false, hcm, if_true]
            rfl
        rw [hc, block_data_skip l rest hk hd]
        exact ih c hp

/-- C13. For every input text and every parser with set parsing enabled whose
in-flight set is not committable (a freshly constructed parser, or one that has
parsed before), `parse_string` returns, and the sets of the result are exactly the
sets of the set blocks of the text, block by block in source order: every set
keyword line (`*SET_NODE_LIST`, `*SET_PART_LIST`, `*SET_SEGMENT`, `*SET_SHELL`,
`*SET_SOLID`) whose block has a header card with `sid > 0` and data cards
contributing at least one item yields its set exactly once, carrying the items of
all data cards up to the next keyword line, whatever that keyword is and also when
the input ends; no other set appears. The in-flight set is again not committable
afterwards. -/
theorem set_blocks_committed_once_in_order (text : Str) (p : KFileParser F)
    (hp : p.parse_sets_ = true) (hc : ¬ p.current_set_.committable) :
    (∃ r, (parse_string text p).1 = .ok r ∧ r.sets = spec_sets (getlines text))
    ∧ ¬ (parse_string text p).2.current_set_.committable := by
  have hsim := sets_after_lines (getlines text) (start_ctx p) hp
  have hfin := finish_parse_sets (getlines text).length (ctx_after (getlines text) (start_ctx p))
  have h0 : (set_in_flight (start_ctx p) (block_data (getlines text))).if_committable = [] := by
    rw [set_in_flight_other _ _ (by show ParseState.family .IDLE ≠ .set; decide)]
    unfold Set.if_committable
    exact if_neg hc
  refine ⟨⟨_, parse_string_eq text p, ?_⟩, ?_⟩
  · rw [hfin.1, hsim, h0]
    rfl
  · rw [parse_string_self, hfin.2]
    split
    · unfold Set.committable
      simp [Set.init]
    · assumption

end SetBlocks

set_option maxRecDepth 100000 in
/-- C13, witness: one node-list block (`sid = 5`, ids on two data cards) terminated
by `*NODE`, by another set keyword, by an unrecognised keyword and by the end of the
input; in each case the result holds the set once, with all its ids. -/
theorem set_blocks_committed_once_in_order_witness :
    (∃ r, (parse_string
        "*SET_NODE_LIST\n         5\n         1         2\n         3         4\n*NODE\n".toList
        fresh_instance).1 = .ok r
      ∧ r.sets = spec_sets (getlines
        "*SET_NODE_LIST\n         5\n         1         2\n         3         4\n*NODE\n".toList))
    ∧ (parsed "*SET_NODE_LIST\n         5\n         1         2\n         3         4\n*NODE\n").map
        (fun r => r.sets.map (fun s => (s.sid, s.ids))) = some [(5, [1, 2, 3, 4])]
    ∧ (parsed ("*SET_NODE_LIST\n         5\n         1         2\n         3         4\n"
        ++ "*SET_PART_LIST\n         6\n         9\n")).map
        (fun r => r.sets.map (fun s => (s.sid, s.ids))) = some [(5, [1, 2, 3, 4]), (6, [9])]
    ∧ (parsed "*SET_NODE_LIST\n         5\n         1         2\n         3         4\n*FOO\n").map
        (fun r => r.sets.map (fun s => (s.sid, s.ids))) = some [(5, [1, 2, 3, 4])]
    ∧ (parsed "*SET_NODE_LIST\n         5\n         1         2\n         3         4\n").map
        (fun r => r.sets.map (fun s => (s.sid, s.ids))) = some [(5, [1, 2, 3, 4])] :=
  ⟨(set_blocks_committed_once_in_order _ fresh_instance (by decide) (by decide)).1,
    by decide, by decide, by decide, by decide⟩

/-! ## Whole parses of small inputs: histories, extra nodes, cross sections, includes,
boundary conditions -/

set_option maxRecDepth 100000 in
/-- C32. The ids of a `*DATABASE_HISTORY_NODE` block are gathered in the in-flight
entity (`[1, 2]` after the data line), but neither the next keyword nor the end of
the input appends it: `result.database_history_nodes` stays empty, and so does
`result.database_history_elements` for a `*DATABASE_HISTORY_SHELL` block. -/
theorem history_lists_never_committed :
    (ctx_after ["*DATABASE_HISTORY_NODE".toList, "         1         2".toList]
        (start_ctx fresh_instance)).self.current_database_history_node_.node_ids = [1, 2]
    ∧ (parsed "*DATABASE_HISTORY_NODE\n         1         2\n*NODE\n").map
        (fun r => r.database_history_nodes.length) = some 0
    ∧ (parsed "*DATABASE_HISTORY_NODE\n         1         2\n").map
        (fun r => r.database_history_nodes.length) = some 0
    ∧ (parsed "*DATABASE_HISTORY_SHELL\n         1         2\n*NODE\n").map
        (fun r => r.database_history_elements.length) = some 0
    ∧ (parsed "*DATABASE_HISTORY_SHELL\n         1         2\n").map
        (fun r => r.database_history_elements.length) = some 0 := by
  decide

set_option maxRecDepth 100000 in
/-- C33. In a `*CONSTRAINED_EXTRA_NODES_NODE` block the first card sets `pid = 3` and
the second card adds the node ids `[11, 12]` to the in-flight entity, but neither the
next keyword nor the end of the input appends it, so `result.constrained_extra_nodes`
stays empty; the `_SET` variant of the same keyword appends its entity. -/
theorem extra_nodes_node_variant_never_committed :
    ((ctx_after ["*CONSTRAINED_EXTRA_NODES_NODE".toList, "         3".toList,
          "        11        12".toList] (start_ctx fresh_instance)
        ).self.current_constrained_extra_nodes_.pid,
      (ctx_after ["*CONSTRAINED_EXTRA_NODES_NODE".toList, "         3".toList,
          "        11        12".toList] (start_ctx fresh_instance)
        ).self.current_constrained_extra_nodes_.node_ids) = (3, [11, 12])
    ∧ (parsed "*CONSTRAINED_EXTRA_NODES_NODE\n         3\n        11        12\n*NODE\n").map
        (fun r => r.constrained_extra_nodes.length) = some 0
    ∧ (parsed "*CONSTRAINED_EXTRA_NODES_NODE\n         3\n        11        12\n").map
        (fun r => r.constrained_extra_nodes.length) = some 0
    ∧ (parsed "*CONSTRAINED_EXTRA_NODES_SET\n         3         9\n*NODE\n").map
        (fun r => r.constrained_extra_nodes.map (fun e => (e.pid, e.nsid, e.is_set)))
        = some [(3, 9, true)] := by
  decide

set_option maxRecDepth 100000 in
/-- C34. No branch of the keyword chain enters `IN_DATABASE_CROSS_SECTION`: the line
`*DATABASE_CROSS_SECTION_SET` is handled as an unrecognised keyword, the state after
it is idle, and the data card that follows adds nothing to
`result.database_cross_sections`. -/
theorem cross_section_keyword_not_recognised :
    (after_line "*DATABASE_CROSS_SECTION_SET".toList (start_ctx fresh_instance)).state
      = ParseState.IDLE
    ∧ (parsed ("*DATABASE_CROSS_SECTION_SET\n"
        ++ "         1         2         3         4         5\n")).map
        (fun r => r.database_cross_sections.length) = some 0 := by
  decide

set_option maxRecDepth 100000 in
/-- C35. The include emitted for `*INCLUDE_PATH` has `is_path_only = false` and the
include emitted for `*INCLUDE_PATH_RELATIVE` has `is_relative = false`: the flags
computed from the keyword are never stored. The path is the trimmed data line in all
three cases. -/
theorem include_flags_never_set :
    (parsed "*INCLUDE_PATH\n  /some/dir  \n").map (fun r => r.includes)
      = some [{ filepath := "/some/dir".toList, is_path_only := false, is_relative := false }]
    ∧ (parsed "*INCLUDE_PATH_RELATIVE\nsub/dir\n").map (fun r => r.includes)
      = some [{ filepath := "sub/dir".toList, is_path_only := false, is_relative := false }]
    ∧ (parsed "*INCLUDE\nfile.k\n").map (fun r => r.includes)
      = some [{ filepath := "file.k".toList, is_path_only := false, is_relative := false }] := by
  decide

set_option maxRecDepth 100000 in
/-- C36. In a `*BOUNDARY_SPC_SET` block with two data lines the first line is decoded
with the set layout into an entity of variant `SPC_SET`; the in-flight entity is then
reset to the default, so the second line yields an entity of variant `OTHER` decoded
with the node layout (`nid`, `dof`, `vad`) whose `cid` and `dofx..dofz` stay zero. -/
theorem boundary_spc_set_second_line :
    (parsed ("*BOUNDARY_SPC_SET\n"
        ++ "         1         0         1         1         1         0         0         0\n"
        ++ "         2         0         1         1         1         0         0         0\n")
      ).map (fun r => r.boundary_spcs)
      = some [{ BoundarySPC.init with
                  type := .SPC_SET, nid := 1, cid := 0, dofx := 1, dofy := 1, dofz := 1 },
              { BoundarySPC.init with type := .OTHER, nid := 2, dof := 0, vad := 1 }] := by
  decide

set_option maxRecDepth 100000 in
/-- C37, counterexample. For the unrecognised head `FOO` the material has type
`OTHER`, and its first card is projected into `mid`, `ro`, `e` and `pr` all the
same. -/
theorem material_other_projection_counterexample :
    (parsed "*MAT_FOO\n         1    7850.0   2.1e11       0.3\n").map
      (fun r => r.materials.map (fun m => (m.type, m.mid, m.ro, m.e, m.pr)))
      = some [(MaterialType.OTHER, 1, SymDouble.text "7850.0".toList,
          SymDouble.text "2.1e11".toList, SymDouble.text "0.3".toList)] := by
  decide

/-! ## Materials: what each line does to them -/

section Materials

variable {F : Type} [DoubleModel F]

set_option linter.unusedSectionVars false
set_option linter.unusedVariables false

theorem material_card_values_eq (line : Str) :
    (material_card_values line [0, 1, 2, 3, 4, 5, 6, 7] [] : Except Exn (List F))
      = .ok (decoded_card line) := by
  simp only [material_card_values, parse_double_eq, bind, Except.bind, decoded_card,
    List.map, List.nil_append, List.cons_append]

theorem decoded_card_length (line : Str) : (decoded_card line : List F).length = 8 := rfl

theorem case_IN_MATERIAL_TITLE_eq (line : Str) (c : Ctx F) :
    case_IN_MATERIAL_TITLE line c
      = (.ok (), { c with self.current_material_.title := trim line,
                          state := .IN_MATERIAL_DATA }) := rfl

theorem case_IN_MATERIAL_DATA_eq (line : Str) (c : Ctx F) :
    case_IN_MATERIAL_DATA line c
      = (.ok (),
          if (store_material_card (decoded_card line) c.self.current_material_).cards_parsed
              ≥ c.self.material_expected_cards_ then
            { c with
              result.materials := c.result.materials
                ++ [store_material_card (decoded_card line) c.self.current_material_]
              self.current_material_ := Material.init
              state := .IDLE }
          else
            { c with self.current_material_ :=
                store_material_card (decoded_card line) c.self.current_material_ }) := by
  unfold case_IN_MATERIAL_DATA Run.try_catch
  by_cases h : (store_material_card (decoded_card line) c.self.current_material_).cards_parsed
      ≥ c.self.material_expected_cards_
  · simp only [Run.bind_apply, material_card_values_eq, Run.eval, Run.update, Run.read, h,
      if_true, set_state]
  · simp only [Run.bind_apply, material_card_values_eq, Run.eval, Run.update, Run.read, h,
      if_false, Run.pure_apply]

theorem begin_material_eq (u : Str) (h : found_at_0 u "*MAT_" = true) (c : Ctx F) :
    begin_material u c = (.ok (),
      if c.self.parse_materials_ = true then
        { c with
          result.materials := c.result.materials
            ++ (if c.self.current_material_.mid > 0 then [c.self.current_material_] else [])
          self.current_material_ :=
            Material.blank (material_type_of (material_head u)).1 (material_head u) []
          self.material_expected_cards_ := (material_type_of (material_head u)).2
          state := if material_has_title u = true then .IN_MATERIAL_TITLE
            else .IN_MATERIAL_DATA }
      else { c with state := .IDLE }) := by
  have hlen : 5 ≤ u.length := found_at_0_length u "*MAT_" h
  have e1 : substr_from u 5 = .ok (u.drop 5) := by
    unfold substr_from
    rw [if_neg (by omega)]
  have e2 : ∀ (s : Str) (n : Nat), substr s 0 n = .ok (s.take n) := by
    intro s n
    unfold substr
    rw [if_neg (by omega)]
    rfl
  unfold begin_material when_enabled push_current_material material_head material_has_title
    Material.blank
  by_cases hp : c.self.parse_materials_ = true
  · by_cases hm : c.self.current_material_.mid > 0 <;>
    by_cases ht : found (u.drop 5) "_TITLE" = true <;>
    simp [hp, hm, ht, e1, e2, Run.bind_apply, Run.update, Run.eval, set_state, Run.pure_apply] <;>
    rfl
  · simp only [hp, if_false, Bool.false_eq_true, set_state, Run.update]

/-! ### Storing a card -/

theorem store_material_card_meta (cv : List F) (m : Material F) :
    (store_material_card cv m).type = m.type
    ∧ (store_material_card cv m).type_name = m.type_name
    ∧ (store_material_card cv m).title = m.title
    ∧ (store_material_card cv m).cards = m.cards ++ [cv]
    ∧ (store_material_card cv m).cards_parsed = m.cards_parsed + 1 := by
  unfold store_material_card
  dsimp only
  split_ifs <;> exact ⟨rfl, rfl, rfl, rfl, rfl⟩

theorem store_material_card_title (cv : List F) (m : Material F) (t : Str) :
    store_material_card cv { m with title := t }
      = { store_material_card cv m with title := t } := by
  unfold store_material_card
  dsimp only
  split_ifs <;> rfl

theorem material_of_cards_snoc (ty : MaterialType) (tn ti : Str) (cards : List (List F))
    (cv : List F) :
    material_of_cards ty tn ti (cards ++ [cv])
      = store_material_card cv (material_of_cards ty tn ti cards) := by
  unfold material_of_cards
  rw [List.foldl_append]
  rfl

theorem material_of_cards_meta (ty : MaterialType) (tn ti : Str) (cards : List (List F)) :
    (material_of_cards ty tn ti cards).type = ty
    ∧ (material_of_cards ty tn ti cards).type_name = tn
    ∧ (material_of_cards ty tn ti cards).title = ti
    ∧ (material_of_cards ty tn ti cards).cards = cards
    ∧ (material_of_cards ty tn ti cards).cards_parsed = cards.length := by
  induction cards using List.reverseRecOn with
  | nil => exact ⟨rfl, rfl, rfl, rfl, rfl⟩
  | append_singleton l a ih =>
    obtain ⟨h1, h2, h3, h4, h5⟩ := ih
    obtain ⟨g1, g2, g3, g4, g5⟩ :=
      store_material_card_meta a (material_of_cards ty tn ti l)
    rw [material_of_cards_snoc]
    refine ⟨g1.trans h1, g2.trans h2, g3.trans h3, g4.trans (by rw [h4]), g5.trans ?_⟩
    rw [h5, List.length_append]
    simp

theorem material_of_cards_title (ty : MaterialType) (tn ti t : Str) (cards : List (List F)) :
    material_of_cards ty tn t cards = { material_of_cards ty tn ti cards with title := t } := by
  induction cards using List.reverseRecOn with
  | nil => rfl
  | append_singleton l a ih =>
    rw [material_of_cards_snoc, material_of_cards_snoc, ih, store_material_card_title]

/-! ### The in-flight material is a replay of its cards -/

theorem replayed_blank (ty : MaterialType) (tn ti : Str) :
    (Material.blank ty tn ti : Material F).replayed :=
  ⟨rfl, fun _ h => by cases h⟩

theorem replayed_init : (Material.init : Material F).replayed :=
  ⟨rfl, fun _ h => by cases h⟩

theorem replayed_store (m : Material F) (h : m.replayed) (cv : List F) (hcv : cv.length = 8) :
    (store_material_card cv m).replayed := by
  obtain ⟨g1, g2, g3, g4, _⟩ := store_material_card_meta cv m
  constructor
  · rw [g1, g2, g3, g4, material_of_cards_snoc, ← h.1]
  · intro row hrow
    rw [g4] at hrow
    rcases List.mem_append.mp hrow with hr | hr
    · exact h.2 row hr
    · rw [List.mem_singleton.mp hr]
      exact hcv

theorem replayed_title (m : Material F) (h : m.replayed) (t : Str) :
    ({ m with title := t } : Material F).replayed := by
  constructor
  · show _ = material_of_cards m.type m.type_name t m.cards
    rw [material_of_cards_title m.type m.type_name m.title t, ← h.1]
  · exact h.2

theorem well_formed_of_replayed (m : Material F) (h : m.replayed) : m.well_formed := by
  refine ⟨?_, h.2⟩
  have := (material_of_cards_meta m.type m.type_name m.title m.cards).2.2.2.2
  rw [← h.1] at this
  exact this

/-! ### The typed slots of a replayed material -/

theorem store_slots_orthotropic (cv : List F) (m : Material F)
    (ht : m.type = .ORTHOTROPIC_ELASTIC) (hk : 2 ≤ m.cards_parsed) :
    (store_material_card cv m).slots = m.slots := by
  have h1 : ¬ (m.cards_parsed + 1 = 1) := by omega
  have h2 : ¬ (m.cards_parsed + 1 = 2) := by omega
  unfold store_material_card
  dsimp only
  rw [if_neg h1, if_neg h2]
  simp only [ht]
  split_ifs <;> first | rfl | (exfalso; simp_all)

theorem store_slots_other (cv : List F) (m : Material F)
    (ht : m.type = .OTHER) (hk : 1 ≤ m.cards_parsed) :
    (store_material_card cv m).slots = m.slots := by
  have h1 : ¬ (m.cards_parsed + 1 = 1) := by omega
  unfold store_material_card
  dsimp only
  rw [if_neg h1]
  simp only [ht]
  split_ifs <;> first | rfl | (exfalso; simp_all)

theorem foldl_store_slots (ty : MaterialType) (k : Int)
    (hk : ∀ (cv : List F) (m : Material F), m.type = ty → k ≤ m.cards_parsed →
      (store_material_card cv m).slots = m.slots) :
    ∀ (cards : List (List F)) (m : Material F), m.type = ty → k ≤ m.cards_parsed →
      (cards.foldl (fun m cv => store_material_card cv m) m).slots = m.slots := by
  intro cards
  induction cards with
  | nil => exact fun _ _ _ => rfl
  | cons cv rest ih =>
    intro m ht hm
    obtain ⟨g1, _, _, _, g5⟩ := store_material_card_meta cv m
    rw [List.foldl_cons, ih _ (g1.trans ht) (by rw [g5]; omega)]
    exact hk cv m ht hm

theorem orthotropic_slots_of_replayed (m : Material F) (h : m.replayed)
    (ht : m.type = .ORTHOTROPIC_ELASTIC) (hl : 2 ≤ m.cards.length) : m.orthotropic_slots := by
  obtain ⟨c0, c1, rest, hc⟩ : ∃ c0 c1 rest, m.cards = c0 :: c1 :: rest := by
    rcases hm : m.cards with _ | ⟨c0, _ | ⟨c1, rest⟩⟩
    · rw [hm] at hl; simp at hl
    · rw [hm] at hl; simp at hl
    · exact ⟨c0, c1, rest, rfl⟩
  have hs : m.slots
      = (store_material_card c1 (store_material_card c0
          (Material.blank .ORTHOTROPIC_ELASTIC m.type_name m.title))).slots := by
    have e := h.1
    rw [hc, ht] at e
    rw [e]
    unfold material_of_cards
    rw [List.foldl_cons, List.foldl_cons]
    refine foldl_store_slots .ORTHOTROPIC_ELASTIC 2 store_slots_orthotropic rest _ ?_ ?_
    · rw [(store_material_card_meta _ _).1, (store_material_card_meta _ _).1]
      rfl
    · rw [(store_material_card_meta _ _).2.2.2.2, (store_material_card_meta _ _).2.2.2.2]
      show (2 : Int) ≤ 0 + 1 + 1
      decide
  have hv : (store_material_card c1 (store_material_card c0
        (Material.blank .ORTHOTROPIC_ELASTIC m.type_name m.title : Material F))).slots
      = (DoubleModel.to_int32 (c0.getD 0 dzero), c0.getD 1 dzero, c0.getD 2 dzero,
          c0.getD 5 dzero, c0.getD 3 dzero, c0.getD 4 dzero, c0.getD 6 dzero, c0.getD 7 dzero,
          c1.getD 0 dzero, c1.getD 1 dzero, c1.getD 2 dzero, dzero, dzero, dzero, dzero, dzero,
          dzero, dzero, dzero, dzero, dzero, dzero, dzero,
          DoubleModel.to_int32 (c1.getD 3 dzero), 0) := by
    simp [store_material_card, Material.blank, Material.init, Material.slots]
  rw [hv] at hs
  simp only [Material.slots, Prod.mk.injEq] at hs
  obtain ⟨h1, h2, h3, h4, h5, h6, h7, h8, h9, h10, h11, _, _, _, _, _, _, _, _, _, _, _, _,
    h24, _⟩ := hs
  exact ⟨c0, c1, rest, hc, h1, h2, h3, h5, h6, h4, h7, h8, h9, h10, h11, h24⟩

theorem other_slots_of_replayed (m : Material F) (h : m.replayed) (ht : m.type = .OTHER) :
    m.other_slots := by
  rcases hm : m.cards with _ | ⟨c0, rest⟩
  · have e := h.1
    rw [hm, ht] at e
    have hs : m.slots = (Material.blank .OTHER m.type_name m.title : Material F).slots := by
      rw [e]; rfl
    simp only [Material.slots, Prod.mk.injEq, Material.blank, Material.init] at hs
    obtain ⟨h1, h2, h3, h4, h5, h6, h7, h8, h9, h10, h11, h12, h13, h14, h15, h16, h17, h18,
      h19, h20, h21, h22, h23, h24, h25⟩ := hs
    refine ⟨fun c0 rest hc => ?_, h5, h6, h7, h8, h9, h10, h11, h12, h13, h14, h15, h16, h17,
      h18, h19, h20, h21, h22, h23, h24, h25⟩
    rw [hm] at hc
    cases hc
  · have hs : m.slots
        = (store_material_card c0 (Material.blank .OTHER m.type_name m.title)).slots := by
      have e := h.1
      rw [hm, ht] at e
      rw [e]
      unfold material_of_cards
      rw [List.foldl_cons]
      refine foldl_store_slots .OTHER 1 store_slots_other rest _ ?_ ?_
      · rw [(store_material_card_meta _ _).1]
        rfl
      · rw [(store_material_card_meta _ _).2.2.2.2]
        show (1 : Int) ≤ 0 + 1
        decide
    have hv : (store_material_card c0
          (Material.blank .OTHER m.type_name m.title : Material F)).slots
        = (DoubleModel.to_int32 (c0.getD 0 dzero), c0.getD 1 dzero, c0.getD 2 dzero,
            c0.getD 3 dzero, dzero, dzero, dzero, dzero, dzero, dzero, dzero, dzero, dzero,
            dzero, dzero, dzero, dzero, dzero, dzero, dzero, dzero, dzero, dzero, 0, 0) := by
      simp [store_material_card, Material.blank, Material.init, Material.slots]
    rw [hv] at hs
    simp only [Material.slots, Prod.mk.injEq] at hs
    obtain ⟨h1, h2, h3, h4, h5, h6, h7, h8, h9, h10, h11, h12, h13, h14, h15, h16, h17, h18,
      h19, h20, h21, h22, h23, h24, h25⟩ := hs
    refine ⟨fun d0 rest1 hc => ?_, h5, h6, h7, h8, h9, h10, h11, h12, h13, h14, h15, h16, h17,
      h18, h19, h20, h21, h22, h23, h24, h25⟩
    rw [hm] at hc
    obtain ⟨rfl, _⟩ := List.cons.inj hc
    exact ⟨h1, h2, h3, h4⟩

/-! ### Invariants of the in-flight and the committed materials -/

theorem material_state_cases (st : ParseState) (h : st.family = .material) :
    st = .IN_MATERIAL_TITLE ∨ st = .IN_MATERIAL_DATA := by
  cases st <;> first
    | exact Or.inl rfl
    | exact Or.inr rfl
    | exact absurd h (by decide)

theorem process_data_material_title (d : Str) (c : Ctx F) (hs : c.state = .IN_MATERIAL_TITLE) :
    process_data d c = case_IN_MATERIAL_TITLE d c := by
  unfold process_data
  rw [hs]

theorem process_data_material_data (d : Str) (c : Ctx F) (hs : c.state = .IN_MATERIAL_DATA) :
    process_data d c = case_IN_MATERIAL_DATA d c := by
  unfold process_data
  rw [hs]

theorem header_state_within_set (ty : SetType) : (header_state_of ty).within .set := by
  cases ty <;> decide

theorem replayed_invariant : MaterialInvariant (fun m : Material F => m.replayed) :=
  ⟨fun ty tn => replayed_blank ty tn [], fun m cv h hcv => replayed_store m h cv hcv,
    fun m t h => replayed_title m h t⟩

theorem well_formed_invariant : MaterialInvariant (fun m : Material F => m.well_formed) := by
  refine ⟨fun ty tn => ⟨rfl, fun _ h => by cases h⟩, fun m cv h hcv => ?_, fun m t h => h⟩
  obtain ⟨_, _, _, g4, g5⟩ := store_material_card_meta cv m
  refine ⟨?_, fun row hrow => ?_⟩
  · rw [g4, g5, h.1, List.length_append]
    simp
  · rw [g4] at hrow
    rcases List.mem_append.mp hrow with hr | hr
    · exact h.2 row hr
    · rw [List.mem_singleton.mp hr]
      exact hcv

section Invariant

variable {P : Material F → Prop} (hP : MaterialInvariant P)
include hP

theorem MaterialInvariant.of_view {c c1 : Ctx F} (h : material_view c1 = material_view c)
    (hi : P c.self.current_material_ ∧ ∀ m ∈ c.result.materials, P m) :
    P c1.self.current_material_ ∧ ∀ m ∈ c1.result.materials, P m := by
  unfold material_view at h
  simp only [Prod.mk.injEq] at h
  rw [h.2.1, h.2.2.2]
  exact hi

theorem MaterialInvariant.init : P Material.init := hP.blank .OTHER []

theorem MaterialInvariant.keyword (u : Str) (c : Ctx F)
    (hi : P c.self.current_material_ ∧ ∀ m ∈ c.result.materials, P m) :
    P (process_keyword u c).2.self.current_material_
      ∧ ∀ m ∈ (process_keyword u c).2.result.materials, P m := by
  rcases process_keyword_branch (F := F) u with ⟨ty, _, e⟩ | ⟨_, e⟩ | ⟨hm, e⟩ | ⟨_, e⟩ | e | ⟨hf, _⟩
  · rw [e]
    exact hP.of_view (congrArg Prod.fst
      (begin_set_frame u ty _ (header_state_within_set ty) c).1) hi
  · rw [e]
    exact hP.of_view (congrArg (fun v => v.2.1) (begin_contact_frame u c).1) hi
  · rw [e, begin_material_eq u hm]
    by_cases hp : c.self.parse_materials_ = true
    · simp only [hp, if_true]
      refine ⟨hP.blank _ _, ?_⟩
      intro m hm
      rcases List.mem_append.mp hm with h | h
      · exact hi.2 m h
      · split at h
        · rw [List.mem_singleton.mp h]
          exact hi.1
        · cases h
    · simp only [hp, if_false]
      exact hi
  · rw [e]
    exact hP.of_view (congrArg (fun v => v.2.1) (begin_curve_frame u c).1) hi
  · rw [e, other_keyword_eq]
    unfold commit_in_flight
    by_cases h2 : c.self.current_material_.mid > 0
    · simp only [h2, decide_True, if_true]
      refine ⟨hP.init, ?_⟩
      intro m hm
      rcases List.mem_append.mp hm with h | h
      · exact hi.2 m h
      · rw [List.mem_singleton.mp h]
        exact hi.1
    · simp only [h2, decide_False, Bool.false_eq_true, if_false]
      exact hi
  · exact hP.of_view (congrArg (fun v => v.2.1) (hf c).1) hi

theorem MaterialInvariant.data (d : Str) (c : Ctx F)
    (hi : P c.self.current_material_ ∧ ∀ m ∈ c.result.materials, P m) :
    P (process_data d c).2.self.current_material_
      ∧ ∀ m ∈ (process_data d c).2.result.materials, P m := by
  by_cases hf : c.state.family = .material
  · rcases material_state_cases c.state hf with hs | hs
    · rw [process_data_material_title d c hs, case_IN_MATERIAL_TITLE_eq]
      exact ⟨hP.title _ _ hi.1, hi.2⟩
    · rw [process_data_material_data d c hs, case_IN_MATERIAL_DATA_eq]
      have hst := hP.store _ (decoded_card d) hi.1 (decoded_card_length d)
      dsimp only
      split
      · refine ⟨hP.init, ?_⟩
        intro m hm
        rcases List.mem_append.mp hm with h | h
        · exact hi.2 m h
        · rw [List.mem_singleton.mp h]
          exact hst
      · exact ⟨hst, hi.2⟩
  · exact hP.of_view ((process_data_frame d c).2.1 hf) hi

theorem MaterialInvariant.line (l : Str) (c : Ctx F)
    (hi : P c.self.current_material_ ∧ ∀ m ∈ c.result.materials, P m) :
    P (process_line l c).2.self.current_material_
      ∧ ∀ m ∈ (process_line l c).2.result.materials, P m := by
  unfold process_line
  split
  · exact hi
  · split
    · exact hP.keyword _ c hi
    · split
      · exact hi
      · exact hP.data l c hi

theorem MaterialInvariant.lines (lines : List Str) :
    ∀ c : Ctx F, (P c.self.current_material_ ∧ ∀ m ∈ c.result.materials, P m) →
      P (ctx_after lines c).self.current_material_
        ∧ ∀ m ∈ (ctx_after lines c).result.materials, P m := by
  induction lines with
  | nil => exact fun c h => h
  | cons l rest ih =>
    intro c h
    rw [ctx_after_cons]
    exact ih _ (hP.line l c h)

end Invariant

theorem finish_parse_materials (n : Nat) (c : Ctx F) :
    (finish_parse n c).2.result.materials
      = c.result.materials
        ++ (if c.self.current_material_.mid > 0 then [c.self.current_material_] else [])
    ∧ (finish_parse n c).2.self.current_material_
        = if c.self.current_material_.mid > 0 then Material.init
          else c.self.current_material_ := by
  unfold finish_parse
  simp only [Run.bind_apply, Run.update]
  by_cases h1 : c.self.current_set_.sid > 0 ∧ c.self.current_set_.count > 0 <;>
  by_cases h2 : c.self.current_material_.mid > 0 <;>
  by_cases h3 : c.self.current_curve_.lcid > 0 <;>
  by_cases h4 : c.self.build_index_ = true <;>
  simp [h1, h2, h3, h4, ParseResult.build_indices]

theorem MaterialInvariant.parse {P : Material F → Prop} (hP : MaterialInvariant P)
    (text : Str) (p : KFileParser F) (hp : P p.current_material_) :
    (∃ r, (parse_string text p).1 = .ok r ∧ ∀ m ∈ r.materials, P m)
    ∧ P (parse_string text p).2.current_material_ := by
  have h1 := hP.lines (getlines text) (start_ctx p) ⟨hp, fun m hm => by cases hm⟩
  have hfin := finish_parse_materials (getlines text).length
    (ctx_after (getlines text) (start_ctx p))
  refine ⟨⟨_, parse_string_eq text p, ?_⟩, ?_⟩
  · intro m hm
    rw [hfin.1] at hm
    rcases List.mem_append.mp hm with h | h
    · exact h1.2 m h
    · split at h
      · rw [List.mem_singleton.mp h]
        exact h1.1
      · cases h
  · rw [parse_string_self, hfin.2]
    split
    · exact hP.init
    · exact h1.1

end Materials

/-! ## Materials: the claims -/

section MaterialClaims

variable {F : Type} [DoubleModel F]

set_option linter.unusedSectionVars false
set_option linter.unusedVariables false

/-- C16. For every input text and every parser whose in-flight material satisfies
(P5) (a freshly constructed parser, or one that has parsed before), `parse_string`
returns, every Material `m` of the result satisfies `m.cards_parsed = length of
m.cards` with every row of `m.cards` holding exactly 8 values, and so does the
in-flight material after every processed line and after the call. -/
theorem materials_cards_parsed_and_rows (text : Str) (p : KFileParser F)
    (hp : p.current_material_.well_formed) :
    (∃ r, (parse_string text p).1 = .ok r ∧ ∀ m ∈ r.materials, m.well_formed)
    ∧ (∀ n : Nat,
        (ctx_after ((getlines text).take n) (start_ctx p)).self.current_material_.well_formed)
    ∧ (parse_string text p).2.current_material_.well_formed := by
  obtain ⟨h1, h2⟩ := well_formed_invariant.parse text p hp
  exact ⟨h1, fun n => (well_formed_invariant.lines ((getlines text).take n) (start_ctx p)
    ⟨hp, fun m hm => by cases hm⟩).1, h2⟩

/-- C18. For every input text and every parser whose in-flight material is a replay
of its cards (a freshly constructed parser, or one that has parsed before), every
committed Material of type `ORTHOTROPIC_ELASTIC` with at least two cards has the
typed slots of the table: `mid`, `ro`, `e`, `eb`, `ec`, `pr`, `prca`, `prcb` are
entries 0 to 7 of `cards[0]` (with `pr` entry 5 and `mid` the integer part of entry
0) and `gab`, `gbc`, `gca`, `aopt` are entries 0 to 3 of `cards[1]`; and a data line
read in the material state stores its eight decoded columns, unchanged, as the next
row of `cards` of the material that is then in flight or committed. -/
theorem orthotropic_slots_from_cards (text : Str) (p : KFileParser F)
    (hp : p.current_material_.replayed) :
    (∃ r, (parse_string text p).1 = .ok r
      ∧ ∀ m ∈ r.materials, m.type = .ORTHOTROPIC_ELASTIC → 2 ≤ m.cards.length →
          m.orthotropic_slots)
    ∧ ∀ (c : Ctx F) (d : Str), c.state = .IN_MATERIAL_DATA →
        (store_material_card (decoded_card d) c.self.current_material_).cards
          = c.self.current_material_.cards ++ [decoded_card d]
        ∧ ((process_data d c).2.self.current_material_
              = store_material_card (decoded_card d) c.self.current_material_
            ∨ (process_data d c).2.result.materials
              = c.result.materials
                ++ [store_material_card (decoded_card d) c.self.current_material_]) := by
  obtain ⟨⟨r, hr, h1⟩, _⟩ := replayed_invariant.parse text p hp
  refine ⟨⟨r, hr, fun m hm ht hl => orthotropic_slots_of_replayed m (h1 m hm) ht hl⟩, ?_⟩
  intro c d hs
  refine ⟨(store_material_card_meta _ _).2.2.2.1, ?_⟩
  rw [process_data_material_data d c hs, case_IN_MATERIAL_DATA_eq]
  dsimp only
  split
  · exact Or.inr rfl
  · exact Or.inl rfl

/-- C37, amended. For every input text and every parser whose in-flight material is a
replay of its cards, every committed Material of type `OTHER` has `mid`, `ro`, `e`
and `pr` projected from entries 0 to 3 of its first card (when it has one), and
every other typed slot at its zero default. -/
theorem other_material_projects_first_card (text : Str) (p : KFileParser F)
    (hp : p.current_material_.replayed) :
    ∃ r, (parse_string text p).1 = .ok r
      ∧ ∀ m ∈ r.materials, m.type = .OTHER → m.other_slots := by
  obtain ⟨⟨r, hr, h1⟩, _⟩ := replayed_invariant.parse text p hp
  exact ⟨r, hr, fun m hm ht => other_slots_of_replayed m (h1 m hm) ht⟩

end MaterialClaims

set_option maxRecDepth 100000 in
/-- C16, witness: an elastic and a rigid material parsed by a fresh parser. -/
theorem materials_cards_parsed_and_rows_witness :
    fresh_instance.current_material_.well_formed
    ∧ (∃ r, (parse_string ("*MAT_ELASTIC\n         1    7850.0   2.1e11       0.3\n"
          ++ "*MAT_RIGID\n         2    7850.0\n").toList fresh_instance).1 = .ok r
        ∧ ∀ m ∈ r.materials, m.well_formed)
    ∧ (parsed ("*MAT_ELASTIC\n         1    7850.0   2.1e11       0.3\n"
          ++ "*MAT_RIGID\n         2    7850.0\n")).map
        (fun r => r.materials.map (fun m => (m.mid, m.cards_parsed, m.cards.length)))
      = some [(1, 1, 1), (2, 1, 1)] :=
  ⟨⟨rfl, fun _ h => by cases h⟩,
    (materials_cards_parsed_and_rows _ fresh_instance ⟨rfl, fun _ h => by cases h⟩).1,
    by decide⟩

set_option maxRecDepth 100000 in
/-- C18, witness: an orthotropic material with two cards parsed by a fresh parser. -/
theorem orthotropic_slots_from_cards_witness :
    fresh_instance.current_material_.replayed
    ∧ (∃ r, (parse_string ("*MAT_ORTHOTROPIC_ELASTIC\n"
          ++ "         7    1600.0    1.4e11    9.0e09    9.0e09      0.02      0.02       0.3\n"
          ++ "    5.0e09    3.0e09    5.0e09         2\n").toList fresh_instance).1 = .ok r
        ∧ ∀ m ∈ r.materials, m.type = .ORTHOTROPIC_ELASTIC → 2 ≤ m.cards.length →
            m.orthotropic_slots)
    ∧ (parsed ("*MAT_ORTHOTROPIC_ELASTIC\n"
          ++ "         7    1600.0    1.4e11    9.0e09    9.0e09      0.02      0.02       0.3\n"
          ++ "    5.0e09    3.0e09    5.0e09         2\n")).map
        (fun r => r.materials.map (fun m => (m.mid, m.pr, m.gab, m.aopt, m.cards.length)))
      = some [(7, SymDouble.text "0.02".toList, SymDouble.text "5.0e09".toList, 2, 2)] :=
  ⟨replayed_init, (orthotropic_slots_from_cards _ fresh_instance replayed_init).1, by decide⟩

set_option maxRecDepth 100000 in
/-- C37, witness: a material with an unrecognised head parsed by a fresh parser. -/
theorem other_material_projects_first_card_witness :
    fresh_instance.current_material_.replayed
    ∧ (∃ r, (parse_string "*MAT_FOO\n         1    7850.0   2.1e11       0.3\n".toList
          fresh_instance).1 = .ok r
        ∧ ∀ m ∈ r.materials, m.type = .OTHER → m.other_slots) :=
  ⟨replayed_init, other_material_projects_first_card _ fresh_instance replayed_init⟩

/-! ## Material blocks -/

section MaterialBlocks

variable {F : Type} [DoubleModel F]

set_option linter.unusedSectionVars false
set_option linter.unusedVariables false

theorem find_cons (a : Char) (t pat : Str) :
    find (a :: t) pat
      = if pat.isPrefixOf (a :: t) then some 0 else (find t pat).map (· + 1) := by
  rw [find]

theorem title_not_prefix_across (a : Char) (t : Str)
    (h0 : "_TITLE".toList.isPrefixOf (a :: t) = false) :
    "_TITLE".toList.isPrefixOf (a :: (t ++ "_TITLE".toList)) = false := by
  by_contra hc
  simp only [Bool.not_eq_false] at hc
  by_cases hl : 5 ≤ t.length
  · have hpre := List.isPrefixOf_iff_prefix.mp hc
    have hlen : "_TITLE".toList.length ≤ (a :: t).length := by
      show 6 ≤ t.length + 1
      omega
    have : "_TITLE".toList <+: a :: t :=
      List.prefix_of_prefix_length_le hpre (List.prefix_append (a :: t) _) hlen
    rw [List.isPrefixOf_iff_prefix.mpr this] at h0
    cases h0
  · have e : "_TITLE".toList = ['_', 'T', 'I', 'T', 'L', 'E'] := rfl
    rw [e] at hc
    rcases t with _ | ⟨b, _ | ⟨c, _ | ⟨d, _ | ⟨e, _ | ⟨f, t⟩⟩⟩⟩⟩
    · simp [List.isPrefixOf] at hc
    · simp [List.isPrefixOf] at hc
    · simp [List.isPrefixOf] at hc
    · simp [List.isPrefixOf] at hc
    · simp [List.isPrefixOf] at hc
    · exact hl (by show 5 ≤ t.length + 5; omega)

theorem find_title_appended (h : Str) (hh : found h "_TITLE" = false) :
    find (h ++ "_TITLE".toList) "_TITLE".toList = some h.length := by
  induction h with
  | nil => rfl
  | cons a t ih =>
    unfold found at hh
    rw [find_cons] at hh
    by_cases hp : "_TITLE".toList.isPrefixOf (a :: t) = true
    · rw [if_pos hp] at hh
      simp at hh
    · rw [if_neg hp] at hh
      simp only [Bool.not_eq_true] at hp
      have ht : found t "_TITLE" = false := by
        unfold found
        cases hf : find t "_TITLE".toList with
        | none => rfl
        | some k => rw [hf] at hh; simp at hh
      show find (a :: (t ++ "_TITLE".toList)) "_TITLE".toList = _
      rw [find_cons, if_neg (by rw [title_not_prefix_across a t hp]; simp), ih ht]
      rfl

theorem material_type_of_eq_spec (head : Str) :
    material_type_of head
      = (spec_material_type head, spec_expected_cards (spec_material_type head)) := by
  show material_type_of head
    = (fun t => (t, spec_expected_cards t)) (spec_material_type head)
  unfold spec_material_type
  simp only [apply_ite (fun t => (t, spec_expected_cards t))]
  rfl

theorem found_title_appended (h : Str) : found (h ++ "_TITLE".toList) "_TITLE" = true := by
  induction h with
  | nil => rfl
  | cons a t ih =>
    unfold found at ih ⊢
    show (find (a :: (t ++ "_TITLE".toList)) "_TITLE".toList).isSome = true
    rw [find_cons]
    split
    · rfl
    · cases hf : find (t ++ "_TITLE".toList) "_TITLE".toList with
      | none => rw [hf] at ih; cases ih
      | some k => rfl

theorem material_head_plain (head : Str) (hh : found head "_TITLE" = false) :
    material_head ("*MAT_".toList ++ head) = head
    ∧ material_has_title ("*MAT_".toList ++ head) = false := by
  have e : ("*MAT_".toList ++ head).drop 5 = head := List.drop_left' rfl
  unfold material_head material_has_title
  rw [e, hh]
  exact ⟨rfl, rfl⟩

theorem material_head_titled (head : Str) (hh : found head "_TITLE" = false) :
    material_head ("*MAT_".toList ++ head ++ "_TITLE".toList) = head
    ∧ material_has_title ("*MAT_".toList ++ head ++ "_TITLE".toList) = true := by
  have e : ("*MAT_".toList ++ head ++ "_TITLE".toList).drop 5 = head ++ "_TITLE".toList := by
    rw [List.append_assoc]
    exact List.drop_left' rfl
  unfold material_head material_has_title
  rw [e, found_title_appended, find_title_appended head hh]
  simp

theorem found_at_0_append (pat : String) (rest : Str) :
    found_at_0 (pat.toList ++ rest) pat = true :=
  (found_at_0_iff _ _).mpr (List.prefix_append _ _)

theorem begin_material_type (u : Str) (h : found_at_0 u "*MAT_" = true) (c : Ctx F)
    (hp : c.self.parse_materials_ = true) :
    (process_keyword u c).2.self.current_material_.type
        = spec_material_type (material_head u)
    ∧ (process_keyword u c).2.self.material_expected_cards_
        = spec_expected_cards (spec_material_type (material_head u))
    ∧ (process_keyword u c).2.state
        = if material_has_title u = true then .IN_MATERIAL_TITLE else .IN_MATERIAL_DATA := by
  rw [process_keyword_material u h, begin_material_eq u h, material_type_of_eq_spec,
    if_pos hp]
  exact ⟨rfl, rfl, rfl⟩

/-- C17. For every head that does not contain `_TITLE`, the keyword lines
`*MAT_<head>` and `*MAT_<head>_TITLE` (upper-cased, with material parsing enabled)
give the in-flight material the type of the closed table `spec_material_type`
(`ELASTIC` or `001` give Elastic, ..., every other head gives Other) and set the
expected card count to the count the specification gives for that type, so a numeric
code and its spelled name give the same type and the same count; the plain keyword
moves to the data state and the `_TITLE` keyword to the title state. -/
theorem material_type_closed_table (head : Str) (hh : found head "_TITLE" = false)
    (c : Ctx F) (hp : c.self.parse_materials_ = true) :
    ((process_keyword ("*MAT_".toList ++ head) c).2.self.current_material_.type
        = spec_material_type head
      ∧ (process_keyword ("*MAT_".toList ++ head) c).2.self.material_expected_cards_
        = spec_expected_cards (spec_material_type head)
      ∧ (process_keyword ("*MAT_".toList ++ head) c).2.state = .IN_MATERIAL_DATA)
    ∧ ((process_keyword ("*MAT_".toList ++ head ++ "_TITLE".toList) c
          ).2.self.current_material_.type = spec_material_type head
      ∧ (process_keyword ("*MAT_".toList ++ head ++ "_TITLE".toList) c
          ).2.self.material_expected_cards_ = spec_expected_cards (spec_material_type head)
      ∧ (process_keyword ("*MAT_".toList ++ head ++ "_TITLE".toList) c).2.state
          = .IN_MATERIAL_TITLE) := by
  obtain ⟨a1, a2⟩ := material_head_plain head hh
  obtain ⟨b1, b2⟩ := material_head_titled head hh
  have h1 := begin_material_type ("*MAT_".toList ++ head) (found_at_0_append "*MAT_" head) c hp
  have h2 := begin_material_type ("*MAT_".toList ++ head ++ "_TITLE".toList)
    (by rw [List.append_assoc]; exact found_at_0_append "*MAT_" _) c hp
  rw [a1, a2] at h1
  rw [b1, b2] at h2
  exact ⟨h1, h2⟩

end MaterialBlocks

set_option maxRecDepth 100000 in
/-- C17, witness: the heads `024` and `PIECEWISE_LINEAR_PLASTICITY`. -/
theorem material_type_closed_table_witness :
    found "024".toList "_TITLE" = false
    ∧ (start_ctx fresh_instance).self.parse_materials_ = true
    ∧ (process_keyword ("*MAT_".toList ++ "024".toList)
          (start_ctx fresh_instance)).2.self.current_material_.type
        = spec_material_type "024".toList
    ∧ spec_material_type "024".toList = MaterialType.PIECEWISE_LINEAR_PLASTICITY
    ∧ spec_material_type "PIECEWISE_LINEAR_PLASTICITY".toList
        = MaterialType.PIECEWISE_LINEAR_PLASTICITY :=
  ⟨by decide, rfl,
    (material_type_closed_table "024".toList (by decide) (start_ctx fresh_instance) rfl).1.1,
    by decide, by decide⟩

/-! ## Material blocks: the cards of a block -/

section MaterialBlockClaim

variable {F : Type} [DoubleModel F]

set_option linter.unusedSectionVars false
set_option linter.unusedVariables false

end MaterialBlockClaim

section Contacts

variable {F : Type} [DoubleModel F]

set_option linter.unusedSectionVars false
set_option linter.unusedVariables false

theorem case_IN_CONTACT_CARD1_closed (line : Str) (c : Ctx F) :
    case_IN_CONTACT_CARD1 line c
      = (.ok (), { c with
          self.current_contact_ := contact_card1 line c.self.current_contact_
          state := .IN_CONTACT_CARD2 }) := by
  unfold case_IN_CONTACT_CARD1 Run.try_catch contact_card1
  simp only [Run.bind_apply, parse_int_eq, parse_double_eq, Run.assign, set_state, Run.update]

theorem case_IN_CONTACT_CARD2_closed (line : Str) (c : Ctx F) :
    case_IN_CONTACT_CARD2 line c
      = (.ok (), { c with
          self.current_contact_ := contact_card2 line c.self.current_contact_
          state := .IN_CONTACT_CARD3 }) := by
  unfold case_IN_CONTACT_CARD2 Run.try_catch contact_card2
  simp only [Run.bind_apply, parse_int_eq, parse_double_eq, Run.assign, set_state, Run.update]

theorem case_IN_CONTACT_CARD3_closed (line : Str) (c : Ctx F) :
    case_IN_CONTACT_CARD3 line c
      = (.ok (), { c with
          result.contacts := c.result.contacts ++ [contact_card3 line c.self.current_contact_]
          self.current_contact_ := Contact.init
          state := .IDLE }) := by
  unfold case_IN_CONTACT_CARD3 Run.try_catch push_current_contact contact_card3
  simp only [Run.bind_apply, parse_int_eq, parse_double_eq, Run.assign, set_state, Run.update]

theorem case_IN_CONTACT_CARD1_eq (line : Str) (c : Ctx F) :
    (case_IN_CONTACT_CARD1 line c).2.result = c.result
    ∧ (case_IN_CONTACT_CARD1 line c).2.state = .IN_CONTACT_CARD2
    ∧ (case_IN_CONTACT_CARD1 line c).2.self.current_contact_.cards_parsed = 1 := by
  rw [case_IN_CONTACT_CARD1_closed]
  exact ⟨rfl, rfl, rfl⟩

theorem case_IN_CONTACT_CARD2_eq (line : Str) (c : Ctx F) :
    (case_IN_CONTACT_CARD2 line c).2.result = c.result
    ∧ (case_IN_CONTACT_CARD2 line c).2.state = .IN_CONTACT_CARD3
    ∧ (case_IN_CONTACT_CARD2 line c).2.self.current_contact_.cards_parsed = 2 := by
  rw [case_IN_CONTACT_CARD2_closed]
  exact ⟨rfl, rfl, rfl⟩

theorem case_IN_CONTACT_CARD3_eq (line : Str) (c : Ctx F) :
    (∃ k : Contact F, k.cards_parsed = 3
      ∧ (case_IN_CONTACT_CARD3 line c).2.result.contacts = c.result.contacts ++ [k])
    ∧ (case_IN_CONTACT_CARD3 line c).2.state = .IDLE := by
  rw [case_IN_CONTACT_CARD3_closed]
  exact ⟨⟨_, rfl, rfl⟩, rfl⟩

theorem contact_state_cases (st : ParseState) (h : st.family = .contact) :
    st = .IN_CONTACT_ID ∨ st = .IN_CONTACT_TITLE ∨ st = .IN_CONTACT_CARD1
      ∨ st = .IN_CONTACT_CARD2 ∨ st = .IN_CONTACT_CARD3 := by
  cases st <;> first
    | exact Or.inl rfl
    | exact Or.inr (Or.inl rfl)
    | exact Or.inr (Or.inr (Or.inl rfl))
    | exact Or.inr (Or.inr (Or.inr (Or.inl rfl)))
    | exact Or.inr (Or.inr (Or.inr (Or.inr rfl)))
    | exact absurd h (by decide)

theorem process_data_contact_id (d : Str) (c : Ctx F) (hs : c.state = .IN_CONTACT_ID) :
    process_data d c = (.ok (), { c with state := .IN_CONTACT_CARD1 }) := by
  unfold process_data
  rw [hs]
  rfl

theorem process_data_contact_title (d : Str) (c : Ctx F) (hs : c.state = .IN_CONTACT_TITLE) :
    process_data d c = (.ok (), { c with state := .IN_CONTACT_CARD1 }) := by
  unfold process_data
  rw [hs]
  rfl

theorem process_data_contact_card1 (d : Str) (c : Ctx F) (hs : c.state = .IN_CONTACT_CARD1) :
    process_data d c = case_IN_CONTACT_CARD1 d c := by
  unfold process_data
  rw [hs]

theorem process_data_contact_card2 (d : Str) (c : Ctx F) (hs : c.state = .IN_CONTACT_CARD2) :
    process_data d c = case_IN_CONTACT_CARD2 d c := by
  unfold process_data
  rw [hs]

theorem process_data_contact_card3 (d : Str) (c : Ctx F) (hs : c.state = .IN_CONTACT_CARD3) :
    process_data d c = case_IN_CONTACT_CARD3 d c := by
  unfold process_data
  rw [hs]

theorem process_keyword_contact_view (u : Str) (c : Ctx F) :
    contact_view (process_keyword u c).2 = contact_view c := by
  rcases process_keyword_branch (F := F) u with ⟨ty, _, e⟩ | ⟨_, e⟩ | ⟨_, e⟩ | ⟨_, e⟩ | e | ⟨hf, _⟩
  · rw [e]
    exact congrArg (fun v => v.2.1)
      (begin_set_frame u ty _ (header_state_within_set ty) c).1
  · rw [e]
    exact congrArg (fun v => v.2.2.1) (begin_contact_frame u c).1
  · rw [e]
    exact congrArg (fun v => v.2.1) (begin_material_frame u c).1
  · rw [e]
    exact congrArg (fun v => v.2.2) (begin_curve_frame u c).1
  · rw [e]
    exact (other_keyword_frame c).1
  · exact congrArg (fun v => v.2.2.1) (hf c).1

theorem process_keyword_contacts (u : Str) (c : Ctx F) :
    (process_keyword u c).2.result.contacts = c.result.contacts :=
  congrArg Prod.snd (process_keyword_contact_view u c)

theorem finish_parse_contacts (n : Nat) (c : Ctx F) :
    (finish_parse n c).2.result.contacts = c.result.contacts := by
  unfold finish_parse
  simp only [Run.bind_apply, Run.update]
  by_cases h1 : c.self.current_set_.sid > 0 ∧ c.self.current_set_.count > 0 <;>
  by_cases h2 : c.self.current_material_.mid > 0 <;>
  by_cases h3 : c.self.current_curve_.lcid > 0 <;>
  by_cases h4 : c.self.build_index_ = true <;>
  simp [h1, h2, h3, h4, ParseResult.build_indices]

theorem process_data_contacts_complete (d : Str) (c : Ctx F)
    (hi : ∀ k ∈ c.result.contacts, k.cards_parsed = 3) :
    ∀ k ∈ (process_data d c).2.result.contacts, k.cards_parsed = 3 := by
  by_cases hf : c.state.family = .contact
  · rcases contact_state_cases c.state hf with hs | hs | hs | hs | hs
    · rw [process_data_contact_id d c hs]
      exact hi
    · rw [process_data_contact_title d c hs]
      exact hi
    · rw [process_data_contact_card1 d c hs, (case_IN_CONTACT_CARD1_eq d c).1]
      exact hi
    · rw [process_data_contact_card2 d c hs, (case_IN_CONTACT_CARD2_eq d c).1]
      exact hi
    · rw [process_data_contact_card3 d c hs]
      obtain ⟨⟨k, hk, e⟩, _⟩ := case_IN_CONTACT_CARD3_eq d c
      rw [e]
      intro x hx
      rcases List.mem_append.mp hx with h | h
      · exact hi x h
      · rw [List.mem_singleton.mp h]
        exact hk
  · have e := (process_data_frame d c).2.2.1 hf
    have e2 : (process_data d c).2.result.contacts = c.result.contacts := congrArg Prod.snd e
    rw [e2]
    exact hi

theorem process_line_contacts_complete (l : Str) (c : Ctx F)
    (hi : ∀ k ∈ c.result.contacts, k.cards_parsed = 3) :
    ∀ k ∈ (process_line l c).2.result.contacts, k.cards_parsed = 3 := by
  unfold process_line
  split
  · exact hi
  · split
    · rw [process_keyword_contacts]
      exact hi
    · split
      · exact hi
      · exact process_data_contacts_complete l c hi

theorem ctx_after_contacts_complete (lines : List Str) :
    ∀ c : Ctx F, (∀ k ∈ c.result.contacts, k.cards_parsed = 3) →
      ∀ k ∈ (ctx_after lines c).result.contacts, k.cards_parsed = 3 := by
  induction lines with
  | nil => exact fun c h => h
  | cons l rest ih =>
    intro c h
    rw [ctx_after_cons]
    exact ih _ (process_line_contacts_complete l c h)

/-- C39. For every input text and every parser, `parse_string` returns and every
Contact of the result has `cards_parsed = 3`: a contact is appended only by the
handler of the third card, because the column decoders never raise and the catch
branches that would commit a partial contact are never taken. -/
theorem contacts_have_three_cards (text : Str) (p : KFileParser F) :
    ∃ r, (parse_string text p).1 = .ok r ∧ ∀ k ∈ r.contacts, k.cards_parsed = 3 := by
  refine ⟨_, parse_string_eq text p, ?_⟩
  rw [finish_parse_contacts]
  exact ctx_after_contacts_complete (getlines text) (start_ctx p) (fun k hk => by cases hk)

/-- A contact block that has received one or two cards when another
keyword begins or the input ends is not committed: from every context in which the
first card of a contact is awaited, after one or two data lines `result.contacts`
is what it was, the in-flight contact holds the cards read so far (`cards_parsed` is
1 or 2), and neither a following keyword line nor the end of the input appends
it. -/
theorem partial_contact_block_not_committed (c : Ctx F) (hs : c.state = .IN_CONTACT_CARD1)
    (ds : List Str) (hd : ∀ d ∈ ds, data_line d) (h1 : 1 ≤ ds.length) (h2 : ds.length ≤ 2) :
    (ctx_after ds c).result.contacts = c.result.contacts
    ∧ (ctx_after ds c).self.current_contact_.cards_parsed = ds.length
    ∧ (∀ k : Str, is_keyword k = true →
        (ctx_after (ds ++ [k]) c).result.contacts = c.result.contacts)
    ∧ ∀ n : Nat, (finish_parse n (ctx_after ds c)).2.result.contacts = c.result.contacts := by
  have hmain : (ctx_after ds c).result.contacts = c.result.contacts
      ∧ (ctx_after ds c).self.current_contact_.cards_parsed = ds.length := by
    rcases ds with _ | ⟨d1, _ | ⟨d2, _ | ⟨d3, rest⟩⟩⟩
    · simp at h1
    · have e1 := case_IN_CONTACT_CARD1_eq d1 c
      rw [ctx_after_cons, ctx_after_nil, process_line_data d1 (hd d1 (by simp)),
        process_data_contact_card1 d1 c hs]
      exact ⟨congrArg (·.contacts) e1.1, e1.2.2⟩
    · have e1 := case_IN_CONTACT_CARD1_eq d1 c
      have e2 := case_IN_CONTACT_CARD2_eq d2 (case_IN_CONTACT_CARD1 d1 c).2
      rw [ctx_after_cons, ctx_after_cons, ctx_after_nil,
        process_line_data d1 (hd d1 (by simp)), process_data_contact_card1 d1 c hs,
        process_line_data d2 (hd d2 (by simp)), process_data_contact_card2 d2 _ e1.2.1]
      exact ⟨(congrArg (·.contacts) e2.1).trans (congrArg (·.contacts) e1.1), e2.2.2⟩
    · simp at h2
  refine ⟨hmain.1, hmain.2, ?_, ?_⟩
  · intro k hk
    rw [ctx_after_append, ctx_after_cons, ctx_after_nil, process_line_keyword k hk,
      process_keyword_contacts]
    exact hmain.1
  · intro n
    rw [finish_parse_contacts]
    exact hmain.1

end Contacts

set_option maxRecDepth 100000 in
/-- An instance: two cards of a contact block read by a fresh parser, followed by
`*NODE`. -/
theorem partial_contact_block_not_committed_witness :
    (after_line "*CONTACT_AUTOMATIC_SINGLE_SURFACE".toList (start_ctx fresh_instance)).state
      = ParseState.IN_CONTACT_CARD1
    ∧ (ctx_after (["         1         2".toList, "       0.2       0.1".toList]
          ++ ["*NODE".toList])
        (after_line "*CONTACT_AUTOMATIC_SINGLE_SURFACE".toList
          (start_ctx fresh_instance))).result.contacts
      = (after_line "*CONTACT_AUTOMATIC_SINGLE_SURFACE".toList
          (start_ctx fresh_instance)).result.contacts :=
  ⟨by decide,
    (partial_contact_block_not_committed
      (after_line "*CONTACT_AUTOMATIC_SINGLE_SURFACE".toList (start_ctx fresh_instance))
      (by decide) ["         1         2".toList, "       0.2       0.1".toList]
      (by decide) (by decide) (by decide)).2.2.1 "*NODE".toList (by decide)⟩

/-! ## Curves: what each line does to them -/

section Curves

variable {F : Type} [DoubleModel F]

set_option linter.unusedSectionVars false
set_option linter.unusedVariables false
set_option linter.unnecessarySeqFocus false

theorem begin_curve_eq (u : Str) (c : Ctx F) :
    begin_curve u c = (.ok (),
      if c.self.parse_curves_ = true then
        { c with
          result.curves := c.result.curves ++ c.self.current_curve_.if_keyed
          self.current_curve_ := Curve.init
          state := if found u "_TITLE" = true then .IN_CURVE_TITLE else .IN_CURVE_HEADER }
      else { c with state := .IDLE }) := by
  unfold begin_curve when_enabled push_current_curve Curve.if_keyed
  by_cases hp : c.self.parse_curves_ = true
  · by_cases hc : c.self.current_curve_.lcid > 0 <;>
    by_cases ht : found u "_TITLE" = true <;>
    simp [hc, ht, hp, set_state, Run.update, Run.bind_apply]
  · simp only [hp, if_false, Bool.false_eq_true, set_state, Run.update]

theorem case_IN_CURVE_TITLE_eq (line : Str) (c : Ctx F) :
    case_IN_CURVE_TITLE line c
      = (.ok (), { c with self.current_curve_.title := trim line,
                          state := .IN_CURVE_HEADER }) := rfl

theorem case_IN_CURVE_HEADER_eq (line : Str) (c : Ctx F) :
    case_IN_CURVE_HEADER line c
      = (.ok (), { c with
          self.current_curve_ := curve_header line c.self.current_curve_
          state := .IN_CURVE_DATA }) := by
  unfold case_IN_CURVE_HEADER Run.try_catch curve_header
  simp only [Run.bind_apply, parse_int_eq, parse_double_eq, Run.assign, set_state, Run.update]

theorem case_IN_CURVE_DATA_eq (line : Str) (c : Ctx F) :
    case_IN_CURVE_DATA line c
      = (.ok (), { c with
          self.current_curve_ := add_curve_card c.self.current_curve_ line }) := by
  unfold case_IN_CURVE_DATA Run.try_catch add_curve_card curve_point
  simp only [Run.bind_apply, parse_double_eq, Run.eval, Run.update]

theorem curve_state_cases (st : ParseState) (h : st.family = .curve) :
    st = .IN_CURVE_TITLE ∨ st = .IN_CURVE_HEADER ∨ st = .IN_CURVE_DATA := by
  cases st <;> first
    | exact Or.inl rfl
    | exact Or.inr (Or.inl rfl)
    | exact Or.inr (Or.inr rfl)
    | exact absurd h (by decide)

theorem process_data_curve_title (d : Str) (c : Ctx F) (hs : c.state = .IN_CURVE_TITLE) :
    process_data d c
      = (.ok (), { c with self.current_curve_.title := trim d, state := .IN_CURVE_HEADER }) := by
  unfold process_data
  rw [hs]
  rfl

theorem process_data_curve_header (d : Str) (c : Ctx F) (hs : c.state = .IN_CURVE_HEADER) :
    process_data d c
      = (.ok (), { c with
          self.current_curve_ := curve_header d c.self.current_curve_
          state := .IN_CURVE_DATA }) := by
  have e : process_data d c = case_IN_CURVE_HEADER d c := by unfold process_data; rw [hs]
  rw [e, case_IN_CURVE_HEADER_eq]

theorem process_data_curve_data (d : Str) (c : Ctx F) (hs : c.state = .IN_CURVE_DATA) :
    process_data d c
      = (.ok (), { c with self.current_curve_ := add_curve_card c.self.current_curve_ d }) := by
  have e : process_data d c = case_IN_CURVE_DATA d c := by unfold process_data; rw [hs]
  rw [e, case_IN_CURVE_DATA_eq]

theorem finish_parse_curves (n : Nat) (c : Ctx F) :
    (finish_parse n c).2.result.curves = c.result.curves ++ c.self.current_curve_.if_keyed
    ∧ (finish_parse n c).2.self.current_curve_
        = if c.self.current_curve_.lcid > 0 then Curve.init else c.self.current_curve_ := by
  unfold finish_parse Curve.if_keyed
  simp only [Run.bind_apply, Run.update]
  by_cases h1 : c.self.current_set_.sid > 0 ∧ c.self.current_set_.count > 0 <;>
  by_cases h2 : c.self.current_material_.mid > 0 <;>
  by_cases h3 : c.self.current_curve_.lcid > 0 <;>
  by_cases h4 : c.self.build_index_ = true <;>
  simp [h1, h2, h3, h4, ParseResult.build_indices]

theorem init_curve_not_keyed : (Curve.init : Curve F).if_keyed = [] := by
  unfold Curve.if_keyed
  simp [Curve.init]

theorem curve_if_keyed_mem (k x : Curve F) (h : x ∈ k.if_keyed) : x = k ∧ k.lcid > 0 := by
  unfold Curve.if_keyed at h
  split at h
  · exact ⟨by simpa using h, by assumption⟩
  · cases h

/-! ### The curve states -/

theorem curve_in_flight_nil (c : Ctx F) : curve_in_flight c [] = c.self.current_curve_ := by
  unfold curve_in_flight
  cases c.state <;> rfl

theorem curve_in_flight_other (c : Ctx F) (datas : List Str) (h : c.state.family ≠ .curve) :
    curve_in_flight c datas = c.self.current_curve_ := by
  unfold curve_in_flight
  cases hs : c.state <;> first
    | rfl
    | (rw [hs] at h; exact absurd rfl h)

theorem curve_in_flight_title (c : Ctx F) (t : Str) (datas : List Str)
    (hs : c.state = .IN_CURVE_TITLE) :
    curve_in_flight c (t :: datas)
      = match datas with
        | [] => { c.self.current_curve_ with title := trim t }
        | h :: cards =>
          cards.foldl add_curve_card
            (curve_header h { c.self.current_curve_ with title := trim t }) := by
  unfold curve_in_flight
  rw [hs] <;> rfl

theorem curve_in_flight_header (c : Ctx F) (datas : List Str)
    (hs : c.state = .IN_CURVE_HEADER) :
    curve_in_flight c datas
      = match datas with
        | [] => c.self.current_curve_
        | h :: cards => cards.foldl add_curve_card (curve_header h c.self.current_curve_) := by
  unfold curve_in_flight
  rw [hs] <;> rfl

theorem curve_in_flight_data (c : Ctx F) (datas : List Str) (hs : c.state = .IN_CURVE_DATA) :
    curve_in_flight c datas = datas.foldl add_curve_card c.self.current_curve_ := by
  unfold curve_in_flight
  rw [hs] <;> rfl

theorem within_not_curve {f : StateFamily} {st : ParseState} (hf : f ≠ .curve)
    (h : st.within f) : st.family ≠ .curve := by
  rcases h with h | h
  · rw [h]; exact hf
  · rw [h]; decide

theorem spec_curves_not_keyword (l : Str) (rest : List Str) (hk : is_keyword l = false) :
    (spec_curves (l :: rest) : List (Curve F)) = spec_curves rest := by
  rw [spec_curves]
  simp [hk]

theorem spec_curves_other_keyword (l : Str) (rest : List Str)
    (hk : found_at_0 (to_upper l) "*DEFINE_CURVE" = false) :
    (spec_curves (l :: rest) : List (Curve F)) = spec_curves rest := by
  rw [spec_curves]
  simp [hk]

end Curves

/-! ## Curves: the parser against the block-by-block description -/

section CurveBlocks

variable {F : Type} [DoubleModel F]

set_option linter.unusedSectionVars false
set_option linter.unusedVariables false
set_option linter.unnecessarySeqFocus false
set_option linter.unreachableTactic false
set_option linter.unusedTactic false

theorem foldl_add_curve_card (cards : List Str) :
    ∀ k : Curve F,
      cards.foldl add_curve_card k = { k with points := k.points ++ cards.map curve_point } := by
  induction cards with
  | nil => intro k; simp
  | cons d rest ih =>
    intro k
    rw [List.foldl_cons, ih]
    unfold add_curve_card Curve.add_point
    simp

/-- A keyword line that is not a curve keyword leaves the sequence "committed curves,
then the in-flight curve if its `lcid` is positive" as it was, ends outside the curve
states, and keeps the enable flag. -/
theorem process_keyword_not_curve (u : Str) (c : Ctx F)
    (h : found_at_0 u "*DEFINE_CURVE" = false) :
    (process_keyword u c).2.result.curves ++ (process_keyword u c).2.self.current_curve_.if_keyed
        = c.result.curves ++ c.self.current_curve_.if_keyed
    ∧ (process_keyword u c).2.state.family ≠ .curve
    ∧ (process_keyword u c).2.self.parse_curves_ = c.self.parse_curves_ := by
  have view : ∀ c1 : Ctx F, curve_view c1 = curve_view c →
      c1.result.curves ++ c1.self.current_curve_.if_keyed
          = c.result.curves ++ c.self.current_curve_.if_keyed
        ∧ c1.self.parse_curves_ = c.self.parse_curves_ := by
    intro c1 hv
    unfold curve_view at hv
    simp only [Prod.mk.injEq] at hv
    rw [hv.1, hv.2.1, hv.2.2]
    exact ⟨rfl, rfl⟩
  obtain ⟨a, ha⟩ := (process_keyword_quiet (F := F) u c).1
  rcases process_keyword_branch (F := F) u with
    ⟨ty, _, e⟩ | ⟨_, e⟩ | ⟨_, e⟩ | ⟨hc, _⟩ | e | ⟨hf, he⟩
  · rw [e] at ha ⊢
    have hv := view _ (congrArg (fun v => v.2.2)
      (begin_set_frame u ty _ (header_state_within_set ty) c).1)
    exact ⟨hv.1, within_not_curve (by decide)
      (begin_set_ends u ty _ (header_state_within_set ty) c a ha), hv.2⟩
  · rw [e] at ha ⊢
    have hv := view _ (congrArg (fun v => v.2.2.2) (begin_contact_frame u c).1)
    exact ⟨hv.1, within_not_curve (by decide) (begin_contact_ends u c a ha), hv.2⟩
  · rw [e] at ha ⊢
    have hv := view _ (congrArg (fun v => v.2.2) (begin_material_frame u c).1)
    exact ⟨hv.1, within_not_curve (by decide) (begin_material_ends u c a ha), hv.2⟩
  · rw [h] at hc
    cases hc
  · rw [e, other_keyword_eq]
    refine ⟨?_, (by show ParseState.family .IDLE ≠ .curve; decide), rfl⟩
    unfold commit_in_flight Curve.if_keyed
    by_cases h1 : c.self.current_curve_.lcid > 0
    · simp [h1, Curve.init]
    · simp [h1]
  · have hv := view _ (congrArg (fun v => v.2.2.2) (hf c).1)
    exact ⟨hv.1, within_not_curve (by decide) (he c a ha), hv.2⟩

theorem curve_of_block_keyed (u : Str) (datas : List Str) (c1 : Ctx F)
    (hcur : c1.self.current_curve_ = Curve.init)
    (hst : c1.state = if found u "_TITLE" = true then .IN_CURVE_TITLE else .IN_CURVE_HEADER) :
    (curve_in_flight c1 datas).if_keyed
      = match (curve_of_block u datas : Option (Curve F)) with
        | some k => k.if_keyed
        | none => [] := by
  unfold curve_of_block
  by_cases ht : found u "_TITLE" = true
  · rw [if_pos ht] at hst
    simp only [ht, if_true]
    rcases datas with _ | ⟨t, _ | ⟨h, cards⟩⟩
    · rw [curve_in_flight_nil, hcur]
      exact init_curve_not_keyed
    · rw [curve_in_flight_title c1 t [] hst, hcur]
      unfold Curve.if_keyed
      simp [Curve.init]
    · rw [curve_in_flight_title c1 t (h :: cards) hst, hcur]
      dsimp only [List.drop]
      rw [foldl_add_curve_card]
      unfold curve_header
      simp [Curve.init]
  · rw [if_neg ht] at hst
    simp only [ht, if_false, Bool.false_eq_true]
    rcases datas with _ | ⟨h, cards⟩
    · rw [curve_in_flight_nil, hcur]
      exact init_curve_not_keyed
    · rw [curve_in_flight_header c1 (h :: cards) hst, hcur]
      dsimp only
      rw [foldl_add_curve_card]
      unfold curve_header
      simp [Curve.init]

/-- The simulation: after any lines, the committed curves followed by the in-flight
curve (if its `lcid` is positive) are what was committed before, then the curve the
context was building (fed with the data lines up to the next keyword), then the
curves of the blocks that start in these lines. -/
theorem curves_after_lines (lines : List Str) :
    ∀ c : Ctx F, c.self.parse_curves_ = true →
      (ctx_after lines c).result.curves ++ (ctx_after lines c).self.current_curve_.if_keyed
        = c.result.curves ++ (curve_in_flight c (block_data lines)).if_keyed
            ++ spec_curves lines := by
  induction lines with
  | nil =>
    intro c _
    rw [ctx_after_nil]
    show _ = _ ++ (curve_in_flight c []).if_keyed ++ []
    rw [curve_in_flight_nil, List.append_nil]
  | cons l rest ih =>
    intro c hp
    rw [ctx_after_cons]
    by_cases hk : is_keyword l = true
    · -- a keyword line
      rw [process_line_keyword l hk, block_data_keyword l rest hk, curve_in_flight_nil]
      by_cases hcv : found_at_0 (to_upper l) "*DEFINE_CURVE" = true
      · rw [process_keyword_curve _ hcv, begin_curve_eq]
        simp only [hp, if_true]
        refine (ih _ (by rfl)).trans ?_
        rw [curve_of_block_keyed (to_upper l) _ _ rfl rfl, spec_curves]
        simp only [hk, hcv, and_self, if_true, List.append_assoc] <;> rfl
      · simp only [Bool.not_eq_true] at hcv
        obtain ⟨h1, h2, h3⟩ := process_keyword_not_curve (to_upper l) c hcv
        rw [ih _ (h3.trans hp), curve_in_flight_other _ _ h2, h1,
          spec_curves_other_keyword l rest hcv]
    · -- not a keyword line
      simp only [Bool.not_eq_true] at hk
      rw [spec_curves_not_keyword l rest hk]
      by_cases hd : data_line l
      · rw [process_line_data l hd, block_data_data l rest hd]
        by_cases hf : c.state.family = .curve
        · rcases curve_state_cases c.state hf with hs | hs | hs
          · rw [process_data_curve_title l c hs]
            refine (ih _ (by exact hp)).trans ?_
            rw [curve_in_flight_title c l _ hs, curve_in_flight_header _ _ rfl] <;>
              (cases block_data rest <;> rfl)
          · rw [process_data_curve_header l c hs]
            refine (ih _ (by exact hp)).trans ?_
            rw [curve_in_flight_header c _ hs, curve_in_flight_data _ _ rfl] <;> rfl
          · rw [process_data_curve_data l c hs]
            refine (ih _ (by exact hp)).trans ?_
            rw [curve_in_flight_data c _ hs, curve_in_flight_data _ _ (by exact hs)] <;> rfl
        · have hfr := process_data_frame l c
          have hv := hfr.2.2.2.1 hf
          unfold curve_view at hv
          simp only [Prod.mk.injEq] at hv
          have hf1 : (process_data l c).2.state.family ≠ .curve := by
            rcases hfr.2.2.2.2 with e | e
            · rw [e]; exact hf
            · rw [e]; decide
          rw [ih _ (hv.1.trans hp), curve_in_flight_other _ _ hf1,
            curve_in_flight_other _ _ hf, hv.2.1, hv.2.2]
      · have hc : (process_line l c).2 = c := by
          unfold process_line
          by_cases hb : is_empty_or_whitespace l = true
          · rw [if_pos hb]; rfl
          · rw [if_neg hb, hk]
            have hcm : is_comment l = true := by
              by_contra hn
              exact hd ⟨by simpa using hb, hk, by simpa using hn⟩
            simp only [Bool.false_eq_true, if_false, hcm, if_true]
            rfl
        rw [hc, block_data_skip l rest hk hd]
        exact ih c hp

/-- C21. For every input text and every parser with curve parsing enabled whose
in-flight curve has no positive `lcid` (a freshly constructed parser, or one that has
parsed before), `parse_string` returns, and the curves of the result are exactly the
curves of the `*DEFINE_CURVE` blocks of the text, block by block in source order:
every `*DEFINE_CURVE` keyword line (with `_TITLE`, after one title line) whose block
has a header card with `lcid > 0` yields exactly one Curve, whose header scalars are
the 10-wide columns `[lcid, sidr, sfa, sfo, offa, offo, dattyp]` of the header card
and whose points are, in source order, one entry per data line up to the next keyword
line or the end of the input: the 20-wide column at 0 and the 20-wide column at 20. -/
theorem curve_blocks_yield_header_and_points (text : Str) (p : KFileParser F)
    (hp : p.parse_curves_ = true) (hc : ¬ p.current_curve_.lcid > 0) :
    (∃ r, (parse_string text p).1 = .ok r ∧ r.curves = spec_curves (getlines text))
    ∧ ¬ (parse_string text p).2.current_curve_.lcid > 0 := by
  have hsim := curves_after_lines (getlines text) (start_ctx p) hp
  have hfin := finish_parse_curves (getlines text).length
    (ctx_after (getlines text) (start_ctx p))
  have h0 : (curve_in_flight (start_ctx p) (block_data (getlines text))).if_keyed = [] := by
    rw [curve_in_flight_other _ _ (by show ParseState.family .IDLE ≠ .curve; decide)]
    unfold Curve.if_keyed
    exact if_neg hc
  refine ⟨⟨_, parse_string_eq text p, ?_⟩, ?_⟩
  · rw [hfin.1, hsim, h0]
    rfl
  · rw [parse_string_self, hfin.2]
    split
    · simp [Curve.init]
    · assumption

end CurveBlocks

set_option maxRecDepth 100000 in
/-- C21, witness: a titled curve block with two points followed by `*NODE`, read by a
fresh parser. -/
theorem curve_blocks_yield_header_and_points_witness :
    (∃ r, (parse_string ("*DEFINE_CURVE_TITLE\nramp\n         3         0       1.0       1.0\n"
          ++ "                 0.0                 0.0\n                 1.0                 5.0\n"
          ++ "*NODE\n").toList fresh_instance).1 = .ok r
      ∧ r.curves = spec_curves (getlines
          ("*DEFINE_CURVE_TITLE\nramp\n         3         0       1.0       1.0\n"
          ++ "                 0.0                 0.0\n                 1.0                 5.0\n"
          ++ "*NODE\n").toList))
    ∧ (parsed ("*DEFINE_CURVE_TITLE\nramp\n         3         0       1.0       1.0\n"
          ++ "                 0.0                 0.0\n                 1.0                 5.0\n"
          ++ "*NODE\n")).map (fun r => r.curves.map (fun k => (k.lcid, k.title, k.points)))
      = some [(3, "ramp".toList,
          [(SymDouble.text "0.0".toList, SymDouble.text "0.0".toList),
           (SymDouble.text "1.0".toList, SymDouble.text "5.0".toList)])] :=
  ⟨(curve_blocks_yield_header_and_points _ fresh_instance (by decide) (by decide)).1, by decide⟩

/-! ## Every committed set and curve has a positive key -/

section CommittedKeys

variable {F : Type} [DoubleModel F]

set_option linter.unusedSectionVars false
set_option linter.unusedVariables false

theorem set_if_committable_mem (s x : Set F) (h : x ∈ s.if_committable) : x.committable := by
  unfold Set.if_committable at h
  split at h
  · rw [List.mem_singleton.mp h]
    assumption
  · cases h

theorem process_keyword_sets_committable (u : Str) (c : Ctx F)
    (hi : ∀ s ∈ c.result.sets, s.committable) :
    ∀ s ∈ (process_keyword u c).2.result.sets, s.committable := by
  have view : ∀ c1 : Ctx F, set_view c1 = set_view c →
      ∀ s ∈ c1.result.sets, s.committable := by
    intro c1 hv
    unfold set_view at hv
    simp only [Prod.mk.injEq] at hv
    rw [hv.2.2]
    exact hi
  rcases process_keyword_branch (F := F) u with
    ⟨ty, _, e⟩ | ⟨_, e⟩ | ⟨_, e⟩ | ⟨_, e⟩ | e | ⟨hf, _⟩
  · rw [e, begin_set_eq]
    by_cases hp : c.self.parse_sets_ = true
    · simp only [hp, if_true]
      intro s hs
      rcases List.mem_append.mp hs with h | h
      · exact hi s h
      · exact set_if_committable_mem _ _ h
    · simp only [hp, if_false]
      exact hi
  · rw [e]
    exact view _ (congrArg Prod.fst (begin_contact_frame u c).1)
  · rw [e]
    exact view _ (congrArg Prod.fst (begin_material_frame u c).1)
  · rw [e]
    exact view _ (congrArg Prod.fst (begin_curve_frame u c).1)
  · rw [e, other_keyword_eq]
    unfold commit_in_flight
    by_cases h1 : c.self.current_set_.sid > 0 ∧ c.self.current_set_.count > 0
    · simp only [h1, decide_True, if_true]
      intro s hs
      rcases List.mem_append.mp hs with h | h
      · exact hi s h
      · rw [List.mem_singleton.mp h]
        exact h1
    · simp only [h1, decide_False, Bool.false_eq_true, if_false]
      exact hi
  · exact view _ (congrArg Prod.fst (hf c).1)

theorem process_data_sets_committable (d : Str) (c : Ctx F)
    (hi : ∀ s ∈ c.result.sets, s.committable) :
    ∀ s ∈ (process_data d c).2.result.sets, s.committable := by
  by_cases hf : c.state.family = .set
  · rcases set_state_cases c.state hf with hs | ⟨ty, hs | hs⟩
    · rw [process_data_set_title d c hs]
      exact hi
    · rw [process_data_set_header d c ty hs]
      exact hi
    · rw [process_data_set_data d c ty hs]
      exact hi
  · have hv := (process_data_frame d c).1 hf
    unfold set_view at hv
    simp only [Prod.mk.injEq] at hv
    rw [hv.2.2]
    exact hi

theorem process_keyword_curves_keyed (u : Str) (c : Ctx F)
    (hi : ∀ k ∈ c.result.curves, k.lcid > 0) :
    ∀ k ∈ (process_keyword u c).2.result.curves, k.lcid > 0 := by
  have view : ∀ c1 : Ctx F, curve_view c1 = curve_view c →
      ∀ k ∈ c1.result.curves, k.lcid > 0 := by
    intro c1 hv
    unfold curve_view at hv
    simp only [Prod.mk.injEq] at hv
    rw [hv.2.2]
    exact hi
  rcases process_keyword_branch (F := F) u with
    ⟨ty, _, e⟩ | ⟨_, e⟩ | ⟨_, e⟩ | ⟨_, e⟩ | e | ⟨hf, _⟩
  · rw [e]
    exact view _ (congrArg (fun v => v.2.2)
      (begin_set_frame u ty _ (header_state_within_set ty) c).1)
  · rw [e]
    exact view _ (congrArg (fun v => v.2.2.2) (begin_contact_frame u c).1)
  · rw [e]
    exact view _ (congrArg (fun v => v.2.2) (begin_material_frame u c).1)
  · rw [e, begin_curve_eq]
    by_cases hp : c.self.parse_curves_ = true
    · simp only [hp, if_true]
      intro k hk
      rcases List.mem_append.mp hk with h | h
      · exact hi k h
      · obtain ⟨rfl, hpos⟩ := curve_if_keyed_mem _ _ h
        exact hpos
    · simp only [hp, if_false]
      exact hi
  · rw [e, other_keyword_eq]
    unfold commit_in_flight
    by_cases h3 : c.self.current_curve_.lcid > 0
    · simp only [h3, decide_True, if_true]
      intro k hk
      rcases List.mem_append.mp hk with h | h
      · exact hi k h
      · rw [List.mem_singleton.mp h]
        exact h3
    · simp only [h3, decide_False, Bool.false_eq_true, if_false]
      exact hi
  · exact view _ (congrArg (fun v => v.2.2.2) (hf c).1)

theorem process_data_curves_keyed (d : Str) (c : Ctx F)
    (hi : ∀ k ∈ c.result.curves, k.lcid > 0) :
    ∀ k ∈ (process_data d c).2.result.curves, k.lcid > 0 := by
  by_cases hf : c.state.family = .curve
  · rcases curve_state_cases c.state hf with hs | hs | hs
    · rw [process_data_curve_title d c hs]
      exact hi
    · rw [process_data_curve_header d c hs]
      exact hi
    · rw [process_data_curve_data d c hs]
      exact hi
  · have hv := (process_data_frame d c).2.2.2.1 hf
    unfold curve_view at hv
    simp only [Prod.mk.injEq] at hv
    rw [hv.2.2]
    exact hi

theorem ctx_after_committed_keys (lines : List Str) :
    ∀ c : Ctx F,
      ((∀ s ∈ c.result.sets, s.committable) ∧ ∀ k ∈ c.result.curves, k.lcid > 0) →
      (∀ s ∈ (ctx_after lines c).result.sets, s.committable)
        ∧ ∀ k ∈ (ctx_after lines c).result.curves, k.lcid > 0 := by
  induction lines with
  | nil => exact fun c h => h
  | cons l rest ih =>
    intro c h
    rw [ctx_after_cons]
    refine ih _ ?_
    unfold process_line
    split
    · exact h
    · split
      · exact ⟨process_keyword_sets_committable _ c h.1, process_keyword_curves_keyed _ c h.2⟩
      · split
        · exact h
        · exact ⟨process_data_sets_committable l c h.1, process_data_curves_keyed l c h.2⟩

/-- C40. For every input text and every parser, `parse_string` returns and every Set
of the result has `sid > 0` and `count() > 0` (a set whose header has a positive
`sid` but which received no items is not appended), and every Curve of the result
has `lcid > 0`. -/
theorem committed_sets_and_curves_have_keys (text : Str) (p : KFileParser F) :
    ∃ r, (parse_string text p).1 = .ok r
      ∧ (∀ s ∈ r.sets, s.sid > 0 ∧ s.count > 0)
      ∧ ∀ k ∈ r.curves, k.lcid > 0 := by
  have h1 := ctx_after_committed_keys (getlines text) (start_ctx p)
    ⟨fun s hs => (by cases hs), fun k hk => (by cases hk)⟩
  have hs := finish_parse_sets (getlines text).length (ctx_after (getlines text) (start_ctx p))
  have hc := finish_parse_curves (getlines text).length
    (ctx_after (getlines text) (start_ctx p))
  refine ⟨_, parse_string_eq text p, ?_, ?_⟩
  · intro s hmem
    rw [hs.1] at hmem
    rcases List.mem_append.mp hmem with h | h
    · exact h1.1 s h
    · exact set_if_committable_mem _ _ h
  · intro k hmem
    rw [hc.1] at hmem
    rcases List.mem_append.mp hmem with h | h
    · exact h1.2 k h
    · obtain ⟨rfl, hpos⟩ := curve_if_keyed_mem _ _ h
      exact hpos

end CommittedKeys

/-! ## The title line of a set block -/

section SetTitle

variable {F : Type} [DoubleModel F]

set_option linter.unusedSectionVars false
set_option linter.unusedVariables false

theorem set_title_then_line (l1 l2 T : Str) (ty : SetType)
    (hk1 : is_keyword l1 = true) (hk2 : is_keyword l2 = true)
    (h1 : set_keyword_type (to_upper l1) = some ty)
    (h2 : set_keyword_type (to_upper l2) = some ty)
    (ht1 : found (to_upper l1) "_TITLE" = true) (ht2 : found (to_upper l2) "_TITLE" = false)
    (hT : data_line T) (c : Ctx F) :
    ctx_after [l1, T] c = ctx_after [l2] c := by
  rw [ctx_after_cons, ctx_after_cons, ctx_after_nil, ctx_after_cons, ctx_after_nil,
    process_line_keyword l1 hk1, process_line_keyword l2 hk2,
    process_keyword_of_set_type _ ty h1, process_keyword_of_set_type _ ty h2,
    begin_set_eq, begin_set_eq, process_line_data T hT]
  by_cases hp : c.self.parse_sets_ = true
  · rw [if_pos hp, if_pos hp, if_pos ht1, if_neg (by rw [ht2]; decide),
      process_data_set_title T _ rfl]
  · rw [if_neg hp, if_neg hp, process_data_idle T _ rfl]

/-- C38. For every set keyword line with the `_TITLE` option, every title line `T`
that is a data line (non-blank, not starting with `*` or `$`) and every block body,
the input "keyword with `_TITLE`, `T`, body" leaves the parser in the same state as
the input "the same set keyword without `_TITLE`, body", after any common preceding
lines: the title line is consumed and discarded and the next data line is read as
the header. `parse_string` therefore returns the same result - the same sets and
every other collection - except that `total_lines` is one larger. -/
theorem set_title_line_discarded (p : KFileParser F) (t1 t2 : Str) (pre body : List Str)
    (l1 l2 T : Str) (ty : SetType)
    (hk1 : is_keyword l1 = true) (hk2 : is_keyword l2 = true)
    (h1 : set_keyword_type (to_upper l1) = some ty)
    (h2 : set_keyword_type (to_upper l2) = some ty)
    (ht1 : found (to_upper l1) "_TITLE" = true) (ht2 : found (to_upper l2) "_TITLE" = false)
    (hT : data_line T)
    (g1 : getlines t1 = pre ++ l1 :: T :: body) (g2 : getlines t2 = pre ++ l2 :: body) :
    (∀ c : Ctx F, ctx_after (getlines t1) c = ctx_after (getlines t2) c)
    ∧ parse_string t1 p
        = (Except.map ParseResult.one_more_line (parse_string t2 p).1,
            (parse_string t2 p).2) := by
  have key : ∀ c : Ctx F, ctx_after (getlines t1) c = ctx_after (getlines t2) c := by
    intro c
    rw [g1, g2, ctx_after_append, ctx_after_append]
    show ctx_after ([l1, T] ++ body) _ = ctx_after ([l2] ++ body) _
    rw [ctx_after_append, ctx_after_append,
      set_title_then_line l1 l2 T ty hk1 hk2 h1 h2 ht1 ht2 hT]
  have hlen : (getlines t1).length = (getlines t2).length + 1 := by
    rw [g1, g2]
    simp only [List.length_append, List.length_cons]
    omega
  refine ⟨key, ?_⟩
  have e1 : parse_string t1 p = ((parse_string t1 p).1, (parse_string t1 p).2) := rfl
  rw [e1, parse_string_eq, parse_string_self, parse_string_eq, parse_string_self, key, hlen,
    finish_parse_succ]
  rfl

end SetTitle

set_option maxRecDepth 100000 in
/-- C38, witness: a node-list block with and without the title line. -/
theorem set_title_line_discarded_witness :
    parse_string "*SET_NODE_LIST_TITLE\nmy nodes\n         5\n         1         2\n".toList
        fresh_instance
      = (Except.map ParseResult.one_more_line
          (parse_string "*SET_NODE_LIST\n         5\n         1         2\n".toList
            fresh_instance).1,
        (parse_string "*SET_NODE_LIST\n         5\n         1         2\n".toList
          fresh_instance).2) :=
  (set_title_line_discarded fresh_instance
    "*SET_NODE_LIST_TITLE\nmy nodes\n         5\n         1         2\n".toList
    "*SET_NODE_LIST\n         5\n         1         2\n".toList []
    ["         5".toList, "         1         2".toList]
    "*SET_NODE_LIST_TITLE".toList "*SET_NODE_LIST".toList "my nodes".toList .NODE_LIST
    (by decide) (by decide) (by decide) (by decide) (by decide) (by decide) (by decide)
    (by decide) (by decide)).2

/-! ## Sections: what each line does to them -/

section Sections

variable {F : Type} [DoubleModel F]

set_option linter.unusedSectionVars false
set_option linter.unusedVariables false
set_option linter.unusedTactic false
set_option linter.unreachableTactic false

/-- No keyword line changes the committed sections. -/
theorem process_keyword_sections_frame (u : Str) :
    Frame (fun c : Ctx F => c.result.sections) (fun _ => True)
      (process_keyword u : Run (Ctx F) Unit) := by
  unfold process_keyword begin_set begin_section begin_contact begin_material begin_curve
    begin_boundary_spc begin_boundary_motion begin_load_node begin_load_body
    begin_database_binary begin_database_ascii begin_database_history_node
    begin_database_history_element begin_initial_velocity_generation begin_initial_velocity
    begin_constrained_nodal_rigid_body begin_constrained_extra_nodes begin_constrained_joint
    begin_constrained_spotweld other_keyword push_current_set push_current_material
    push_current_curve
  repeat' first
    | ((with_reducible refine Frame.frame_assign ?_); exact fun _ _ => ⟨rfl, Or.inl rfl⟩)
    | ((with_reducible refine Frame.frame_update ?_); exact fun _ => ⟨rfl, Or.inl rfl⟩)
    | with_reducible refine Frame.frame_bind ?_ (fun _ => ?_)
    | ((with_reducible refine Frame.frame_set_state _ ?_ ?_); exact fun _ => rfl; trivial)
    | ((with_reducible refine Frame.frame_when_enabled ?_ ?_ ?_); exact fun _ => rfl; trivial)
    | with_reducible exact Frame.frame_pure _
    | with_reducible exact Frame.frame_read
    | with_reducible exact Frame.frame_eval _
    | ((with_reducible refine Frame.frame_select_state _ _ ?_ ?_ ?_); exact fun _ _ => rfl; trivial; trivial)
    | ((with_reducible refine Frame.frame_set_state_ite ?_ ?_ ?_); exact fun _ _ => rfl; trivial; trivial)
    | ((with_reducible refine Frame.frame_update_if ?_); exact fun _ => ⟨rfl, Or.inl rfl⟩)
    | with_reducible apply Frame.frame_ite
    | split

theorem process_keyword_sections (u : Str) (c : Ctx F) :
    (process_keyword u c).2.result.sections = c.result.sections :=
  (process_keyword_sections_frame u c).1

theorem finish_parse_sections (n : Nat) (c : Ctx F) :
    (finish_parse n c).2.result.sections = c.result.sections := by
  unfold finish_parse
  simp only [Run.bind_apply, Run.update]
  by_cases h1 : c.self.current_set_.sid > 0 ∧ c.self.current_set_.count > 0 <;>
  by_cases h2 : c.self.current_material_.mid > 0 <;>
  by_cases h3 : c.self.current_curve_.lcid > 0 <;>
  by_cases h4 : c.self.build_index_ = true <;>
  simp [h1, h2, h3, h4, ParseResult.build_indices]

theorem begin_section_eq (u : Str) (ty : SectionType) (title header : ParseState) (c : Ctx F) :
    begin_section u ty title header c = (.ok (),
      if c.self.parse_sections_ = true then
        { c with
          self.current_section_ := { (Section.init : Section F) with type := ty }
          state := if found u "_TITLE" = true then title else header }
      else { c with state := .IDLE }) := by
  unfold begin_section when_enabled
  by_cases hp : c.self.parse_sections_ = true
  · by_cases ht : found u "_TITLE" = true <;>
    simp [ht, hp, set_state, Run.update, Run.bind_apply]
  · simp only [hp, if_false, Bool.false_eq_true, set_state, Run.update]

theorem process_keyword_of_section_type (u : Str) (ty : SectionType)
    (h : section_keyword_type u = some ty) :
    (process_keyword u : Run (Ctx F) Unit)
      = begin_section u ty (section_title_state ty) (section_first_state ty) := by
  unfold section_keyword_type at h
  split at h
  · cases h; exact process_keyword_section_shell u (by assumption)
  · split at h
    · cases h; exact process_keyword_section_solid u (by assumption)
    · split at h
      · cases h; exact process_keyword_section_beam u (by assumption)
      · cases h

theorem case_IN_SECTION_SHELL_HEADER_eq (line : Str) (c : Ctx F) :
    case_IN_SECTION_SHELL_HEADER line c
      = (.ok (), { c with
          self.current_section_ := section_shell_header line c.self.current_section_
          state := .IN_SECTION_SHELL_DATA }) := by
  unfold case_IN_SECTION_SHELL_HEADER Run.try_catch section_shell_header
  simp only [Run.bind_apply, parse_int_eq, parse_double_eq, Run.assign, set_state, Run.update]

theorem case_IN_SECTION_SHELL_DATA_eq (line : Str) (c : Ctx F) :
    case_IN_SECTION_SHELL_DATA line c
      = (.ok (), { c with
          result.sections := c.result.sections
            ++ [section_shell_data line c.self.current_section_]
          self.current_section_ := Section.init
          state := .IDLE }) := by
  unfold case_IN_SECTION_SHELL_DATA Run.try_catch push_current_section section_shell_data
  simp only [Run.bind_apply, parse_int_eq, parse_double_eq, Run.assign, set_state, Run.update]

theorem case_IN_SECTION_SOLID_eq (line : Str) (c : Ctx F) :
    case_IN_SECTION_SOLID line c
      = (.ok (), { c with
          result.sections := c.result.sections
            ++ [section_solid_card line c.self.current_section_]
          self.current_section_ := Section.init
          state := .IDLE }) := by
  unfold case_IN_SECTION_SOLID Run.try_catch push_current_section section_solid_card
  simp only [Run.bind_apply, parse_int_eq, parse_double_eq, Run.assign, set_state, Run.update]

theorem case_IN_SECTION_BEAM_HEADER_eq (line : Str) (c : Ctx F) :
    case_IN_SECTION_BEAM_HEADER line c
      = (.ok (), { c with
          self.current_section_ := section_beam_header line c.self.current_section_
          state := .IN_SECTION_BEAM_DATA }) := by
  unfold case_IN_SECTION_BEAM_HEADER Run.try_catch section_beam_header
  simp only [Run.bind_apply, parse_int_eq, parse_double_eq, Run.assign, set_state, Run.update]

theorem case_IN_SECTION_BEAM_DATA_eq (line : Str) (c : Ctx F) :
    case_IN_SECTION_BEAM_DATA line c
      = (.ok (), { c with
          result.sections := c.result.sections
            ++ [section_beam_data line c.self.current_section_]
          self.current_section_ := Section.init
          state := .IDLE }) := by
  unfold case_IN_SECTION_BEAM_DATA Run.try_catch push_current_section section_beam_data
  simp only [Run.bind_apply, parse_int_eq, parse_double_eq, Run.assign, set_state, Run.update]

/-- The first card of a section block: a solid section is committed, a shell or beam
section waits for its data card. -/
theorem section_first_card (ty : SectionType) (d : Str) (c : Ctx F)
    (hs : c.state = section_first_state ty) :
    process_data d c = (.ok (),
      match ty with
      | .SHELL => { c with
          self.current_section_ := section_shell_header d c.self.current_section_
          state := .IN_SECTION_SHELL_DATA }
      | .SOLID => { c with
          result.sections := c.result.sections ++ [section_solid_card d c.self.current_section_]
          self.current_section_ := Section.init
          state := .IDLE }
      | .BEAM => { c with
          self.current_section_ := section_beam_header d c.self.current_section_
          state := .IN_SECTION_BEAM_DATA }) := by
  cases ty
  · have e : process_data d c = case_IN_SECTION_SHELL_HEADER d c := by
      unfold process_data; rw [hs]; rfl
    rw [e, case_IN_SECTION_SHELL_HEADER_eq]
  · have e : process_data d c = case_IN_SECTION_SOLID d c := by
      unfold process_data; rw [hs]; rfl
    rw [e, case_IN_SECTION_SOLID_eq]
  · have e : process_data d c = case_IN_SECTION_BEAM_HEADER d c := by
      unfold process_data; rw [hs]; rfl
    rw [e, case_IN_SECTION_BEAM_HEADER_eq]

theorem section_shell_second_card (d : Str) (c : Ctx F)
    (hs : c.state = .IN_SECTION_SHELL_DATA) :
    process_data d c = (.ok (), { c with
      result.sections := c.result.sections ++ [section_shell_data d c.self.current_section_]
      self.current_section_ := Section.init
      state := .IDLE }) := by
  have e : process_data d c = case_IN_SECTION_SHELL_DATA d c := by
    unfold process_data; rw [hs]
  rw [e, case_IN_SECTION_SHELL_DATA_eq]

theorem section_beam_second_card (d : Str) (c : Ctx F)
    (hs : c.state = .IN_SECTION_BEAM_DATA) :
    process_data d c = (.ok (), { c with
      result.sections := c.result.sections ++ [section_beam_data d c.self.current_section_]
      self.current_section_ := Section.init
      state := .IDLE }) := by
  have e : process_data d c = case_IN_SECTION_BEAM_DATA d c := by
    unfold process_data; rw [hs]
  rw [e, case_IN_SECTION_BEAM_DATA_eq]

theorem section_title_line (ty : SectionType) (d : Str) (c : Ctx F)
    (hs : c.state = section_title_state ty) :
    process_data d c = (.ok (), { c with state := section_first_state ty }) := by
  unfold process_data
  rw [hs]
  cases ty <;> rfl

/-- The context in which the first card of a section block is read. -/
theorem section_block_start_eq (l : Str) (hk : is_keyword l = true) (ty : SectionType)
    (hty : section_keyword_type (to_upper l) = some ty) (c : Ctx F)
    (hp : c.self.parse_sections_ = true) (title : List Str)
    (ht : title.length = if found (to_upper l) "_TITLE" = true then 1 else 0)
    (hd : ∀ d ∈ title, data_line d) :
    ctx_after (l :: title) c
      = { c with
          self.current_section_ := { (Section.init : Section F) with type := ty }
          state := section_first_state ty } := by
  rw [ctx_after_cons, process_line_keyword l hk, process_keyword_of_section_type _ ty hty,
    begin_section_eq, if_pos hp]
  by_cases hT : found (to_upper l) "_TITLE" = true
  · rw [if_pos hT] at ht
    obtain ⟨T, rfl⟩ := List.length_eq_one.mp ht
    rw [ctx_after_cons, ctx_after_nil, process_line_data T (hd T (List.mem_singleton_self T)),
      section_title_line ty T _ (by dsimp only; rw [if_pos hT])]
  · rw [if_neg hT] at ht
    rw [List.length_eq_zero.mp ht, if_neg hT]
    rfl

end Sections

/-! ## Section blocks -/

section SectionClaim

variable {F : Type} [DoubleModel F]

set_option linter.unusedSectionVars false
set_option linter.unusedVariables false

theorem section_cards_complete (ty : SectionType) (cards : List Str) (c : Ctx F)
    (hs : c.state = section_first_state ty)
    (hcur : c.self.current_section_ = { (Section.init : Section F) with type := ty })
    (hd : ∀ d ∈ cards, data_line d) (hn : cards.length = spec_section_cards ty) :
    ctx_after cards c
      = { c with
          result.sections := c.result.sections ++ [section_of_cards ty cards]
          self.current_section_ := Section.init
          state := .IDLE } := by
  cases ty
  · obtain ⟨h, d, rfl⟩ : ∃ h d, cards = [h, d] := List.length_eq_two.mp hn
    rw [ctx_after_cons, ctx_after_cons, ctx_after_nil, process_line_data h (hd h (by simp)),
      section_first_card .SHELL h c hs, process_line_data d (hd d (by simp)),
      section_shell_second_card d _ rfl]
    dsimp only
    rw [hcur]
    rfl
  · obtain ⟨h, rfl⟩ : ∃ h, cards = [h] := List.length_eq_one.mp hn
    rw [ctx_after_cons, ctx_after_nil, process_line_data h (hd h (by simp)),
      section_first_card .SOLID h c hs]
    dsimp only
    rw [hcur]
    rfl
  · obtain ⟨h, d, rfl⟩ : ∃ h d, cards = [h, d] := List.length_eq_two.mp hn
    rw [ctx_after_cons, ctx_after_cons, ctx_after_nil, process_line_data h (hd h (by simp)),
      section_first_card .BEAM h c hs, process_line_data d (hd d (by simp)),
      section_beam_second_card d _ rfl]
    dsimp only
    rw [hcur]
    rfl

theorem section_cards_partial (ty : SectionType) (cards : List Str) (c : Ctx F)
    (hs : c.state = section_first_state ty)
    (hd : ∀ d ∈ cards, data_line d) (hn : cards.length < spec_section_cards ty) :
    (ctx_after cards c).result.sections = c.result.sections := by
  rcases cards with _ | ⟨h, _ | ⟨d, rest⟩⟩
  · rfl
  · cases ty
    · rw [ctx_after_cons, ctx_after_nil, process_line_data h (hd h (by simp)),
        section_first_card .SHELL h c hs]
    · simp [spec_section_cards] at hn
    · rw [ctx_after_cons, ctx_after_nil, process_line_data h (hd h (by simp)),
        section_first_card .BEAM h c hs]
  · exfalso
    cases ty <;> simp [spec_section_cards] at hn <;> omega

/-- C22. For every section keyword line (`*SECTION_SHELL`, `*SECTION_SOLID`,
`*SECTION_BEAM`, section parsing enabled) followed - after one title line when the
keyword carries `_TITLE` - by data lines: when the block has its full number of
cards (two for shell and beam, one for solid) exactly one Section is appended right
after the last of them (for a solid section it carries `secid`, `elform`, `aet` of the
card), the handler is idle and further data lines change nothing; when fewer cards
precede the next keyword line or the end of the input, no Section is appended. -/
theorem section_block_commits_after_its_cards (l : Str) (hk : is_keyword l = true)
    (ty : SectionType) (hty : section_keyword_type (to_upper l) = some ty) (c : Ctx F)
    (hp : c.self.parse_sections_ = true) (title cards more : List Str)
    (ht : title.length = if found (to_upper l) "_TITLE" = true then 1 else 0)
    (hd : ∀ d ∈ title ++ cards ++ more, data_line d) :
    (cards.length = spec_section_cards ty →
      (ctx_after (l :: title ++ cards) c).result.sections
          = c.result.sections ++ [section_of_cards ty cards]
        ∧ (ctx_after (l :: title ++ cards) c).state = .IDLE
        ∧ ctx_after (l :: title ++ cards ++ more) c = ctx_after (l :: title ++ cards) c)
    ∧ (cards.length < spec_section_cards ty →
      (ctx_after (l :: title ++ cards) c).result.sections = c.result.sections
        ∧ (∀ k : Str, is_keyword k = true →
            (ctx_after (l :: title ++ cards ++ [k]) c).result.sections = c.result.sections)
        ∧ ∀ n : Nat,
            (finish_parse n (ctx_after (l :: title ++ cards) c)).2.result.sections
              = c.result.sections) := by
  have hdt : ∀ d ∈ title, data_line d := fun d h =>
    hd d (List.mem_append_left _ (List.mem_append_left _ h))
  have hdc : ∀ d ∈ cards, data_line d := fun d h =>
    hd d (List.mem_append_left _ (List.mem_append_right _ h))
  have hdm : ∀ d ∈ more, data_line d := fun d h => hd d (List.mem_append_right _ h)
  have hstart := section_block_start_eq l hk ty hty c hp title ht hdt
  constructor
  · intro hn
    have hfull : ctx_after (l :: title ++ cards) c
        = { c with
            result.sections := c.result.sections ++ [section_of_cards ty cards]
            self.current_section_ := Section.init
            state := .IDLE } := by
      rw [ctx_after_append, hstart, section_cards_complete ty cards _ rfl rfl hdc hn]
    refine ⟨by rw [hfull], by rw [hfull], ?_⟩
    rw [ctx_after_append, hfull]
    exact ctx_after_idle more (fun x hx => (hdm x hx).2.1) _ rfl
  · intro hn
    have hpart : (ctx_after (l :: title ++ cards) c).result.sections = c.result.sections := by
      rw [ctx_after_append, hstart, section_cards_partial ty cards _ rfl hdc hn]
    refine ⟨hpart, ?_, ?_⟩
    · intro k hkk
      rw [ctx_after_append, ctx_after_cons, ctx_after_nil, process_line_keyword k hkk,
        process_keyword_sections]
      exact hpart
    · intro n
      rw [finish_parse_sections]
      exact hpart

end SectionClaim

set_option maxRecDepth 100000 in
/-- C22, witness: a titled shell section with its two cards and one further data
line, read by a fresh parser. -/
theorem section_block_commits_after_its_cards_witness :
    (ctx_after ("*SECTION_SHELL_TITLE".toList :: ["skin".toList]
        ++ ["         3         2".toList, "       1.5       1.5       1.5       1.5".toList])
        (start_ctx fresh_instance)).result.sections
      = (start_ctx fresh_instance).result.sections
        ++ [section_of_cards .SHELL
          ["         3         2".toList, "       1.5       1.5       1.5       1.5".toList]]
    ∧ (section_of_cards .SHELL
          ["         3         2".toList, "       1.5       1.5       1.5       1.5".toList]
          : Section SymDouble).secid = 3 :=
  ⟨((section_block_commits_after_its_cards "*SECTION_SHELL_TITLE".toList (by decide) .SHELL
      (by decide) (start_ctx fresh_instance) rfl ["skin".toList]
      ["         3         2".toList, "       1.5       1.5       1.5       1.5".toList]
      ["         9".toList] (by decide) (by decide)).1 (by decide)).1,
    by decide⟩

/-! ## Rules for blocks that commute with an overlay -/

section LocalRules

variable {F α β : Type} {K : Ctx F → Ctx F → Ctx F}

theorem Local.local_pure (a : α) : Local K (pure a : Run (Ctx F) α) :=
  fun _ _ => rfl

theorem Local.local_eval (x : Except Exn α) : Local K (Run.eval x : Run (Ctx F) α) :=
  fun _ _ => rfl

theorem Local.local_update {f : Ctx F → Ctx F} (h : ∀ c src, f (K c src) = K (f c) src) :
    Local K (Run.update f) := by
  intro c src
  show ((Except.ok () : Except Exn Unit), f (K c src)) = (.ok (), K (f c) src)
  rw [h]

theorem Local.local_assign {x : Except Exn α} {store : α → Ctx F → Ctx F}
    (h : ∀ v c src, store v (K c src) = K (store v c) src) :
    Local K (Run.assign x store) := by
  intro c src
  unfold Run.assign
  cases x with
  | ok v => simp only [h]
  | error e => rfl

theorem Local.local_bind {m : Run (Ctx F) α} {f : α → Run (Ctx F) β}
    (hm : Local K m) (hf : ∀ a, Local K (f a)) : Local K (m >>= f) := by
  intro c src
  show Run.seq_bind m f (K c src) = ((Run.seq_bind m f c).1, K (Run.seq_bind m f c).2 src)
  unfold Run.seq_bind
  rw [hm c src]
  rcases m c with ⟨r, c1⟩
  cases r with
  | ok a => exact hf a c1 src
  | error e => rfl

theorem Local.local_try_catch {body : Run (Ctx F) α} {handler : Exn → Run (Ctx F) α}
    (hb : Local K body) (hh : ∀ e, Local K (handler e)) :
    Local K (Run.try_catch body handler) := by
  intro c src
  unfold Run.try_catch
  rw [hb c src]
  rcases body c with ⟨r, c1⟩
  cases r with
  | ok a => rfl
  | error e => exact hh e c1 src

theorem Local.local_ite {p : Prop} [Decidable p] {a b : Run (Ctx F) α}
    (ha : Local K a) (hb : Local K b) : Local K (if p then a else b) := by
  split
  · exact ha
  · exact hb

theorem Local.local_read_bind {f : Ctx F → Run (Ctx F) β}
    (h1 : ∀ c src, f (K c src) = f c) (h2 : ∀ c0, Local K (f c0)) :
    Local K (Run.read >>= f) := by
  intro c src
  show f (K c src) (K c src) = ((f c c).1, K (f c c).2 src)
  rw [h1]
  exact h2 c c src

theorem Local.local_set_state (st : ParseState)
    (h : ∀ c src : Ctx F, ({ K c src with state := st } : Ctx F) = K { c with state := st } src) :
    Local K (set_state st : Run (Ctx F) Unit) :=
  Local.local_update h

theorem Local.local_warn (msg : String) (e : Exn)
    (h : ∀ (w : Str) (c src : Ctx F),
      ({ K c src with result.warnings := (K c src).result.warnings ++ [w] } : Ctx F)
        = K { c with result.warnings := c.result.warnings ++ [w] } src) :
    Local K (warn msg e : Run (Ctx F) Unit) :=
  Local.local_update (h _)

theorem Local.local_when_enabled {flag : KFileParser F → Bool} {body : Run (Ctx F) Unit}
    (hf : ∀ c src : Ctx F, flag (K c src).self = flag c.self)
    (hs : ∀ c src : Ctx F,
      ({ K c src with state := .IDLE } : Ctx F) = K { c with state := .IDLE } src)
    (hb : Local K body) : Local K (when_enabled flag body) := by
  intro c src
  unfold KFile.when_enabled
  simp only [hf]
  split
  · exact hb c src
  · exact Local.local_set_state _ hs c src

theorem Local.local_select_state (flag : KFileParser F → Bool) (st : ParseState)
    (h : ∀ c src : Ctx F,
      ({ K c src with state := if flag (K c src).self then st else .IDLE } : Ctx F)
        = K { c with state := if flag c.self then st else .IDLE } src) :
    Local K (select_state flag st) :=
  Local.local_update h

theorem Local.local_update_if {p : Ctx F → Prop} [DecidablePred p] {g : Ctx F → Ctx F}
    (hp : ∀ c src, p (K c src) = p c) (hg : ∀ c src, g (K c src) = K (g c) src) :
    Local K (Run.update (fun c => if p c then g c else c)) := by
  apply Local.local_update
  intro c src
  by_cases h : p c
  · have h2 : p (K c src) := by rw [hp]; exact h
    rw [if_pos h, if_pos h2, hg]
  · have h2 : ¬ p (K c src) := by rw [hp]; exact h
    rw [if_neg h, if_neg h2]

theorem Local.local_zoom {τ : Type} {get : Ctx F → τ} {put : τ → Ctx F → Ctx F} {m : Run τ α}
    (hg : ∀ c src, get (K c src) = get c) (hp : ∀ t c src, put t (K c src) = K (put t c) src) :
    Local K (Run.zoom get put m) := by
  intro c src
  unfold Run.zoom
  rw [hg]
  rcases m (get c) with ⟨r, t⟩
  simp only [hp]

theorem Local.local_id_list_loop [DoubleModel F] (line : Str) {add : Int → Ctx F → Ctx F}
    (h : ∀ id c src, add id (K c src) = K (add id c) src) (idx : List Nat) :
    Local K (id_list_loop line add idx) := by
  induction idx with
  | nil => exact Local.local_pure _
  | cons i rest ih =>
    unfold KFile.id_list_loop
    repeat' first
      | exact ih
      | exact Local.local_pure _
      | exact Local.local_eval _
      | exact Local.local_update (h _)
      | apply Local.local_bind
      | apply Local.local_ite
      | intro _

end LocalRules

/-! ## Rules for blocks that overwrite a member before they read it, and for blocks
that do not read the parse state -/

section AbsorbRules

variable {F α β : Type} {K L : Ctx F → Ctx F → Ctx F}

theorem Absorbs.absorb_bind {r : Ctx F → Ctx F} {f : Unit → Run (Ctx F) β}
    (h1 : ∀ c src, r (K c src) = L (r c) src) (h2 : ∀ a, Local L (f a)) :
    Absorbs K L (Run.update r >>= f) := by
  intro c src
  show f () (r (K c src)) = ((f () (r c)).1, L (f () (r c)).2 src)
  rw [h1]
  exact h2 () (r c) src

theorem Absorbs.when_enabled_on {flag : KFileParser F → Bool} {body : Run (Ctx F) Unit}
    (hf : ∀ c src : Ctx F, flag (K c src).self = flag c.self) (hb : Absorbs K L body)
    (c src : Ctx F) (h : flag c.self = true) :
    when_enabled flag body (K c src)
      = ((when_enabled flag body c).1, L (when_enabled flag body c).2 src) := by
  unfold KFile.when_enabled
  simp only [hf, h, if_true]
  exact hb c src

theorem when_enabled_off {flag : KFileParser F → Bool} {body : Run (Ctx F) Unit}
    (c : Ctx F) (h : flag c.self = false) :
    when_enabled flag body c = (.ok (), { c with state := .IDLE }) := by
  unfold KFile.when_enabled
  simp only [h, Bool.false_eq_true, if_false]
  rfl

theorem StateFree.free_pure (a : α) : StateFree (pure a : Run (Ctx F) α) :=
  fun _ _ => rfl

theorem StateFree.free_eval (x : Except Exn α) : StateFree (Run.eval x : Run (Ctx F) α) :=
  fun _ _ => rfl

theorem StateFree.free_update {f : Ctx F → Ctx F}
    (h : ∀ (c : Ctx F) (s : ParseState), f { c with state := s } = { f c with state := s }) :
    StateFree (Run.update f) := by
  intro c s
  show ((Except.ok () : Except Exn Unit), f { c with state := s })
    = (.ok (), { f c with state := s })
  rw [h]

theorem StateFree.free_update_if {p : Ctx F → Prop} [DecidablePred p] {g : Ctx F → Ctx F}
    (hp : ∀ (c : Ctx F) (s : ParseState), p { c with state := s } = p c)
    (hg : ∀ (c : Ctx F) (s : ParseState), g { c with state := s } = { g c with state := s }) :
    StateFree (Run.update (fun c => if p c then g c else c)) := by
  apply StateFree.free_update
  intro c s
  by_cases h : p c
  · have h2 : p { c with state := s } := by rw [hp]; exact h
    rw [if_pos h, if_pos h2, hg]
  · have h2 : ¬ p { c with state := s } := by rw [hp]; exact h
    rw [if_neg h, if_neg h2]

theorem StateFree.free_bind {m : Run (Ctx F) α} {f : α → Run (Ctx F) β}
    (hm : StateFree m) (hf : ∀ a, StateFree (f a)) : StateFree (m >>= f) := by
  intro c s
  show Run.seq_bind m f { c with state := s }
    = ((Run.seq_bind m f c).1, { (Run.seq_bind m f c).2 with state := s })
  unfold Run.seq_bind
  rw [hm c s]
  rcases m c with ⟨r, c1⟩
  cases r with
  | ok a => exact hf a c1 s
  | error e => rfl

theorem StateFree.free_ite {p : Prop} [Decidable p] {a b : Run (Ctx F) α}
    (ha : StateFree a) (hb : StateFree b) : StateFree (if p then a else b) := by
  split
  · exact ha
  · exact hb

theorem StateBlind.blind_set_state (st : ParseState) :
    StateBlind (set_state st : Run (Ctx F) Unit) :=
  fun _ _ _ => rfl

theorem StateBlind.blind_select_state (flag : KFileParser F → Bool) (st : ParseState) :
    StateBlind (select_state flag st) :=
  fun _ _ _ => rfl

theorem StateBlind.blind_bind {m : Run (Ctx F) α} {f : α → Run (Ctx F) β}
    (hm : StateFree m) (hf : ∀ a, StateBlind (f a)) : StateBlind (m >>= f) := by
  intro c s ⟨b, hb⟩
  change (Run.seq_bind m f c).1 = Except.ok b at hb
  show Run.seq_bind m f { c with state := s } = Run.seq_bind m f c
  unfold Run.seq_bind at hb ⊢
  rw [hm c s]
  cases hmc : m c with
  | mk r c1 =>
    rw [hmc] at hb
    cases r with
    | ok a => exact hf a c1 s ⟨b, hb⟩
    | error e => cases hb

theorem StateBlind.blind_then {m : Run (Ctx F) α} {f : α → Run (Ctx F) β}
    (hm : StateBlind m) : StateBlind (m >>= f) := by
  intro c s ⟨b, hb⟩
  change (Run.seq_bind m f c).1 = Except.ok b at hb
  show Run.seq_bind m f { c with state := s } = Run.seq_bind m f c
  unfold Run.seq_bind at hb ⊢
  have h1 : ∃ a, (m c).1 = Except.ok a := by
    cases hmc : m c with
    | mk r c1 =>
      rw [hmc] at hb
      cases r with
      | ok a => exact ⟨a, rfl⟩
      | error e => cases hb
  rw [hm c s h1]

theorem StateBlind.blind_ite {p : Prop} [Decidable p] {a b : Run (Ctx F) α}
    (ha : StateBlind a) (hb : StateBlind b) : StateBlind (if p then a else b) := by
  split
  · exact ha
  · exact hb

theorem StateBlind.blind_when_enabled {flag : KFileParser F → Bool} {body : Run (Ctx F) Unit}
    (hb : StateBlind body) : StateBlind (when_enabled flag body) := by
  intro c s h
  unfold KFile.when_enabled at h ⊢
  show (if flag c.self = true then body { c with state := s }
      else set_state .IDLE { c with state := s })
    = if flag c.self = true then body c else set_state .IDLE c
  split
  · rename_i hf
    rw [if_pos hf] at h
    exact hb c s h
  · rfl

end AbsorbRules

/-! ## Every branch of `process_line` commutes with the overlay of its own family

A keyword branch or a data case reads and writes the enable flag and the
collections of one family and one in-flight member (the final keyword branch: those
of sets, materials and curves). Run on an overlay that takes these from `c`, it does
what it does on `c`. -/

section LocalBranches

variable {F : Type} [DoubleModel F]

set_option linter.unusedTactic false
set_option linter.unreachableTactic false
set_option linter.unusedVariables false
set_option linter.unusedSectionVars false

theorem begin_set_local (u : Str) (type : SetType) (header : ParseState) (P : ParseResult F) (A : FamilySel)
    (B : MemberSel) :
    Local (graft P { A with sets := true }
        { B with current_set := true })
      (begin_set u type header : Run (Ctx F) Unit) := by
  unfold KFile.begin_set
  repeat' first
    | ((with_reducible refine Local.local_assign ?_); exact fun _ _ _ => rfl)
    | ((with_reducible refine Local.local_assign ?_); intro v c src; simp only [graft, graft_self, graft_result, cond_true, List.append_assoc]; done)
    | ((with_reducible refine Local.local_update ?_); exact fun _ _ => rfl)
    | ((with_reducible refine Local.local_update ?_); intro c src; simp only [graft, graft_self, graft_result, cond_true, List.append_assoc]; done)
    | ((with_reducible refine Local.local_read_bind ?_ (fun _ => ?_)); exact fun _ _ => rfl)
    | with_reducible refine Local.local_bind ?_ (fun _ => ?_)
    | ((with_reducible refine Local.local_set_state _ ?_); exact fun _ _ => rfl)
    | with_reducible refine Local.local_try_catch ?_ (fun _ => ?_)
    | ((with_reducible refine Local.local_warn _ _ ?_); exact fun _ _ _ => rfl)
    | ((with_reducible refine Local.local_when_enabled ?_ ?_ ?_); exact fun _ _ => rfl; exact fun _ _ => rfl)
    | with_reducible exact Local.local_pure _
    | with_reducible exact Local.local_eval _
    | ((with_reducible refine Local.local_zoom ?_ ?_); exact fun _ _ => rfl; exact fun _ _ _ => rfl)
    | ((with_reducible refine Local.local_id_list_loop (F := F) _ ?_ _); exact fun _ _ _ => rfl)
    | ((with_reducible refine Local.local_select_state _ _ ?_); exact fun _ _ => rfl)
    | ((with_reducible refine Local.local_update_if ?_ ?_); exact fun _ _ => rfl; exact fun _ _ => rfl)
    | ((with_reducible refine Local.local_update_if ?_ ?_); exact fun _ _ => rfl; intro c src; simp only [graft, graft_self, graft_result, cond_true, List.append_assoc]; done)
    | with_reducible apply Local.local_ite
    | unfold KFile.push_current_set
    | split

theorem begin_section_local (u : Str) (type : SectionType) (title header : ParseState) (P : ParseResult F) (A : FamilySel)
    (B : MemberSel) :
    Local (graft P { A with sections := true }
        { B with current_section := true })
      (begin_section u type title header : Run (Ctx F) Unit) := by
  unfold KFile.begin_section
  repeat' first
    | ((with_reducible refine Local.local_assign ?_); exact fun _ _ _ => rfl)
    | ((with_reducible refine Local.local_assign ?_); intro v c src; simp only [graft, graft_self, graft_result, cond_true, List.append_assoc]; done)
    | ((with_reducible refine Local.local_update ?_); exact fun _ _ => rfl)
    | ((with_reducible refine Local.local_update ?_); intro c src; simp only [graft, graft_self, graft_result, cond_true, List.append_assoc]; done)
    | ((with_reducible refine Local.local_read_bind ?_ (fun _ => ?_)); exact fun _ _ => rfl)
    | with_reducible refine Local.local_bind ?_ (fun _ => ?_)
    | ((with_reducible refine Local.local_set_state _ ?_); exact fun _ _ => rfl)
    | with_reducible refine Local.local_try_catch ?_ (fun _ => ?_)
    | ((with_reducible refine Local.local_warn _ _ ?_); exact fun _ _ _ => rfl)
    | ((with_reducible refine Local.local_when_enabled ?_ ?_ ?_); exact fun _ _ => rfl; exact fun _ _ => rfl)
    | with_reducible exact Local.local_pure _
    | with_reducible exact Local.local_eval _
    | ((with_reducible refine Local.local_zoom ?_ ?_); exact fun _ _ => rfl; exact fun _ _ _ => rfl)
    | ((with_reducible refine Local.local_id_list_loop (F := F) _ ?_ _); exact fun _ _ _ => rfl)
    | ((with_reducible refine Local.local_select_state _ _ ?_); exact fun _ _ => rfl)
    | ((with_reducible refine Local.local_update_if ?_ ?_); exact fun _ _ => rfl; exact fun _ _ => rfl)
    | ((with_reducible refine Local.local_update_if ?_ ?_); exact fun _ _ => rfl; intro c src; simp only [graft, graft_self, graft_result, cond_true, List.append_assoc]; done)
    | with_reducible apply Local.local_ite
    | split

theorem begin_contact_local (u : Str) (P : ParseResult F) (A : FamilySel)
    (B : MemberSel) :
    Local (graft P { A with contacts := true }
        { B with current_contact := true })
      (begin_contact u : Run (Ctx F) Unit) := by
  unfold KFile.begin_contact
  repeat' first
    | ((with_reducible refine Local.local_assign ?_); exact fun _ _ _ => rfl)
    | ((with_reducible refine Local.local_assign ?_); intro v c src; simp only [graft, graft_self, graft_result, cond_true, List.append_assoc]; done)
    | ((with_reducible refine Local.local_update ?_); exact fun _ _ => rfl)
    | ((with_reducible refine Local.local_update ?_); intro c src; simp only [graft, graft_self, graft_result, cond_true, List.append_assoc]; done)
    | ((with_reducible refine Local.local_read_bind ?_ (fun _ => ?_)); exact fun _ _ => rfl)
    | with_reducible refine Local.local_bind ?_ (fun _ => ?_)
    | ((with_reducible refine Local.local_set_state _ ?_); exact fun _ _ => rfl)
    | with_reducible refine Local.local_try_catch ?_ (fun _ => ?_)
    | ((with_reducible refine Local.local_warn _ _ ?_); exact fun _ _ _ => rfl)
    | ((with_reducible refine Local.local_when_enabled ?_ ?_ ?_); exact fun _ _ => rfl; exact fun _ _ => rfl)
    | with_reducible exact Local.local_pure _
    | with_reducible exact Local.local_eval _
    | ((with_reducible refine Local.local_zoom ?_ ?_); exact fun _ _ => rfl; exact fun _ _ _ => rfl)
    | ((with_reducible refine Local.local_id_list_loop (F := F) _ ?_ _); exact fun _ _ _ => rfl)
    | ((with_reducible refine Local.local_select_state _ _ ?_); exact fun _ _ => rfl)
    | ((with_reducible refine Local.local_update_if ?_ ?_); exact fun _ _ => rfl; exact fun _ _ => rfl)
    | ((with_reducible refine Local.local_update_if ?_ ?_); exact fun _ _ => rfl; intro c src; simp only [graft, graft_self, graft_result, cond_true, List.append_assoc]; done)
    | with_reducible apply Local.local_ite
    | split

theorem begin_material_local (u : Str) (P : ParseResult F) (A : FamilySel)
    (B : MemberSel) :
    Local (graft P { A with materials := true }
        { B with current_material := true })
      (begin_material u : Run (Ctx F) Unit) := by
  unfold KFile.begin_material
  repeat' first
    | ((with_reducible refine Local.local_assign ?_); exact fun _ _ _ => rfl)
    | ((with_reducible refine Local.local_assign ?_); intro v c src; simp only [graft, graft_self, graft_result, cond_true, List.append_assoc]; done)
    | ((with_reducible refine Local.local_update ?_); exact fun _ _ => rfl)
    | ((with_reducible refine Local.local_update ?_); intro c src; simp only [graft, graft_self, graft_result, cond_true, List.append_assoc]; done)
    | ((with_reducible refine Local.local_read_bind ?_ (fun _ => ?_)); exact fun _ _ => rfl)
    | with_reducible refine Local.local_bind ?_ (fun _ => ?_)
    | ((with_reducible refine Local.local_set_state _ ?_); exact fun _ _ => rfl)
    | with_reducible refine Local.local_try_catch ?_ (fun _ => ?_)
    | ((with_reducible refine Local.local_warn _ _ ?_); exact fun _ _ _ => rfl)
    | ((with_reducible refine Local.local_when_enabled ?_ ?_ ?_); exact fun _ _ => rfl; exact fun _ _ => rfl)
    | with_reducible exact Local.local_pure _
    | with_reducible exact Local.local_eval _
    | ((with_reducible refine Local.local_zoom ?_ ?_); exact fun _ _ => rfl; exact fun _ _ _ => rfl)
    | ((with_reducible refine Local.local_id_list_loop (F := F) _ ?_ _); exact fun _ _ _ => rfl)
    | ((with_reducible refine Local.local_select_state _ _ ?_); exact fun _ _ => rfl)
    | ((with_reducible refine Local.local_update_if ?_ ?_); exact fun _ _ => rfl; exact fun _ _ => rfl)
    | ((with_reducible refine Local.local_update_if ?_ ?_); exact fun _ _ => rfl; intro c src; simp only [graft, graft_self, graft_result, cond_true, List.append_assoc]; done)
    | with_reducible apply Local.local_ite
    | unfold KFile.push_current_material
    | split

theorem begin_curve_local (u : Str) (P : ParseResult F) (A : FamilySel)
    (B : MemberSel) :
    Local (graft P { A with curves := true }
        { B with current_curve := true })
      (begin_curve u : Run (Ctx F) Unit) := by
  unfold KFile.begin_curve
  repeat' first
    | ((with_reducible refine Local.local_assign ?_); exact fun _ _ _ => rfl)
    | ((with_reducible refine Local.local_assign ?_); intro v c src; simp only [graft, graft_self, graft_result, cond_true, List.append_assoc]; done)
    | ((with_reducible refine Local.local_update ?_); exact fun _ _ => rfl)
    | ((with_reducible refine Local.local_update ?_); intro c src; simp only [graft, graft_self, graft_result, cond_true, List.append_assoc]; done)
    | ((with_reducible refine Local.local_read_bind ?_ (fun _ => ?_)); exact fun _ _ => rfl)
    | with_reducible refine Local.local_bind ?_ (fun _ => ?_)
    | ((with_reducible refine Local.local_set_state _ ?_); exact fun _ _ => rfl)
    | with_reducible refine Local.local_try_catch ?_ (fun _ => ?_)
    | ((with_reducible refine Local.local_warn _ _ ?_); exact fun _ _ _ => rfl)
    | ((with_reducible refine Local.local_when_enabled ?_ ?_ ?_); exact fun _ _ => rfl; exact fun _ _ => rfl)
    | with_reducible exact Local.local_pure _
    | with_reducible exact Local.local_eval _
    | ((with_reducible refine Local.local_zoom ?_ ?_); exact fun _ _ => rfl; exact fun _ _ _ => rfl)
    | ((with_reducible refine Local.local_id_list_loop (F := F) _ ?_ _); exact fun _ _ _ => rfl)
    | ((with_reducible refine Local.local_select_state _ _ ?_); exact fun _ _ => rfl)
    | ((with_reducible refine Local.local_update_if ?_ ?_); exact fun _ _ => rfl; exact fun _ _ => rfl)
    | ((with_reducible refine Local.local_update_if ?_ ?_); exact fun _ _ => rfl; intro c src; simp only [graft, graft_self, graft_result, cond_true, List.append_assoc]; done)
    | with_reducible apply Local.local_ite
    | unfold KFile.push_current_curve
    | split

theorem begin_boundary_spc_local (u : Str) (P : ParseResult F) (A : FamilySel)
    (B : MemberSel) :
    Local (graft P { A with boundaries := true }
        { B with current_boundary_spc := true })
      (begin_boundary_spc u : Run (Ctx F) Unit) := by
  unfold KFile.begin_boundary_spc
  repeat' first
    | ((with_reducible refine Local.local_assign ?_); exact fun _ _ _ => rfl)
    | ((with_reducible refine Local.local_assign ?_); intro v c src; simp only [graft, graft_self, graft_result, cond_true, List.append_assoc]; done)
    | ((with_reducible refine Local.local_update ?_); exact fun _ _ => rfl)
    | ((with_reducible refine Local.local_update ?_); intro c src; simp only [graft, graft_self, graft_result, cond_true, List.append_assoc]; done)
    | ((with_reducible refine Local.local_read_bind ?_ (fun _ => ?_)); exact fun _ _ => rfl)
    | with_reducible refine Local.local_bind ?_ (fun _ => ?_)
    | ((with_reducible refine Local.local_set_state _ ?_); exact fun _ _ => rfl)
    | with_reducible refine Local.local_try_catch ?_ (fun _ => ?_)
    | ((with_reducible refine Local.local_warn _ _ ?_); exact fun _ _ _ => rfl)
    | ((with_reducible refine Local.local_when_enabled ?_ ?_ ?_); exact fun _ _ => rfl; exact fun _ _ => rfl)
    | with_reducible exact Local.local_pure _
    | with_reducible exact Local.local_eval _
    | ((with_reducible refine Local.local_zoom ?_ ?_); exact fun _ _ => rfl; exact fun _ _ _ => rfl)
    | ((with_reducible refine Local.local_id_list_loop (F := F) _ ?_ _); exact fun _ _ _ => rfl)
    | ((with_reducible refine Local.local_select_state _ _ ?_); exact fun _ _ => rfl)
    | ((with_reducible refine Local.local_update_if ?_ ?_); exact fun _ _ => rfl; exact fun _ _ => rfl)
    | ((with_reducible refine Local.local_update_if ?_ ?_); exact fun _ _ => rfl; intro c src; simp only [graft, graft_self, graft_result, cond_true, List.append_assoc]; done)
    | with_reducible apply Local.local_ite
    | split

theorem begin_boundary_motion_local (u : Str) (P : ParseResult F) (A : FamilySel)
    (B : MemberSel) :
    Local (graft P { A with boundaries := true }
        { B with current_boundary_motion := true })
      (begin_boundary_motion u : Run (Ctx F) Unit) := by
  unfold KFile.begin_boundary_motion
  repeat' first
    | ((with_reducible refine Local.local_assign ?_); exact fun _ _ _ => rfl)
    | ((with_reducible refine Local.local_assign ?_); intro v c src; simp only [graft, graft_self, graft_result, cond_true, List.append_assoc]; done)
    | ((with_reducible refine Local.local_update ?_); exact fun _ _ => rfl)
    | ((with_reducible refine Local.local_update ?_); intro c src; simp only [graft, graft_self, graft_result, cond_true, List.append_assoc]; done)
    | ((with_reducible refine Local.local_read_bind ?_ (fun _ => ?_)); exact fun _ _ => rfl)
    | with_reducible refine Local.local_bind ?_ (fun _ => ?_)
    | ((with_reducible refine Local.local_set_state _ ?_); exact fun _ _ => rfl)
    | with_reducible refine Local.local_try_catch ?_ (fun _ => ?_)
    | ((with_reducible refine Local.local_warn _ _ ?_); exact fun _ _ _ => rfl)
    | ((with_reducible refine Local.local_when_enabled ?_ ?_ ?_); exact fun _ _ => rfl; exact fun _ _ => rfl)
    | with_reducible exact Local.local_pure _
    | with_reducible exact Local.local_eval _
    | ((with_reducible refine Local.local_zoom ?_ ?_); exact fun _ _ => rfl; exact fun _ _ _ => rfl)
    | ((with_reducible refine Local.local_id_list_loop (F := F) _ ?_ _); exact fun _ _ _ => rfl)
    | ((with_reducible refine Local.local_select_state _ _ ?_); exact fun _ _ => rfl)
    | ((with_reducible refine Local.local_update_if ?_ ?_); exact fun _ _ => rfl; exact fun _ _ => rfl)
    | ((with_reducible refine Local.local_update_if ?_ ?_); exact fun _ _ => rfl; intro c src; simp only [graft, graft_self, graft_result, cond_true, List.append_assoc]; done)
    | with_reducible apply Local.local_ite
    | split

theorem begin_load_node_local (u : Str) (P : ParseResult F) (A : FamilySel)
    (B : MemberSel) :
    Local (graft P { A with loads := true }
        { B with current_load_node := true })
      (begin_load_node u : Run (Ctx F) Unit) := by
  unfold KFile.begin_load_node
  repeat' first
    | ((with_reducible refine Local.local_assign ?_); exact fun _ _ _ => rfl)
    | ((with_reducible refine Local.local_assign ?_); intro v c src; simp only [graft, graft_self, graft_result, cond_true, List.append_assoc]; done)
    | ((with_reducible refine Local.local_update ?_); exact fun _ _ => rfl)
    | ((with_reducible refine Local.local_update ?_); intro c src; simp only [graft, graft_self, graft_result, cond_true, List.append_assoc]; done)
    | ((with_reducible refine Local.local_read_bind ?_ (fun _ => ?_)); exact fun _ _ => rfl)
    | with_reducible refine Local.local_bind ?_ (fun _ => ?_)
    | ((with_reducible refine Local.local_set_state _ ?_); exact fun _ _ => rfl)
    | with_reducible refine Local.local_try_catch ?_ (fun _ => ?_)
    | ((with_reducible refine Local.local_warn _ _ ?_); exact fun _ _ _ => rfl)
    | ((with_reducible refine Local.local_when_enabled ?_ ?_ ?_); exact fun _ _ => rfl; exact fun _ _ => rfl)
    | with_reducible exact Local.local_pure _
    | with_reducible exact Local.local_eval _
    | ((with_reducible refine Local.local_zoom ?_ ?_); exact fun _ _ => rfl; exact fun _ _ _ => rfl)
    | ((with_reducible refine Local.local_id_list_loop (F := F) _ ?_ _); exact fun _ _ _ => rfl)
    | ((with_reducible refine Local.local_select_state _ _ ?_); exact fun _ _ => rfl)
    | ((with_reducible refine Local.local_update_if ?_ ?_); exact fun _ _ => rfl; exact fun _ _ => rfl)
    | ((with_reducible refine Local.local_update_if ?_ ?_); exact fun _ _ => rfl; intro c src; simp only [graft, graft_self, graft_result, cond_true, List.append_assoc]; done)
    | with_reducible apply Local.local_ite
    | split

theorem begin_load_body_local (u : Str) (P : ParseResult F) (A : FamilySel)
    (B : MemberSel) :
    Local (graft P { A with loads := true }
        { B with current_load_body := true })
      (begin_load_body u : Run (Ctx F) Unit) := by
  unfold KFile.begin_load_body
  repeat' first
    | ((with_reducible refine Local.local_assign ?_); exact fun _ _ _ => rfl)
    | ((with_reducible refine Local.local_assign ?_); intro v c src; simp only [graft, graft_self, graft_result, cond_true, List.append_assoc]; done)
    | ((with_reducible refine Local.local_update ?_); exact fun _ _ => rfl)
    | ((with_reducible refine Local.local_update ?_); intro c src; simp only [graft, graft_self, graft_result, cond_true, List.append_assoc]; done)
    | ((with_reducible refine Local.local_read_bind ?_ (fun _ => ?_)); exact fun _ _ => rfl)
    | with_reducible refine Local.local_bind ?_ (fun _ => ?_)
    | ((with_reducible refine Local.local_set_state _ ?_); exact fun _ _ => rfl)
    | with_reducible refine Local.local_try_catch ?_ (fun _ => ?_)
    | ((with_reducible refine Local.local_warn _ _ ?_); exact fun _ _ _ => rfl)
    | ((with_reducible refine Local.local_when_enabled ?_ ?_ ?_); exact fun _ _ => rfl; exact fun _ _ => rfl)
    | with_reducible exact Local.local_pure _
    | with_reducible exact Local.local_eval _
    | ((with_reducible refine Local.local_zoom ?_ ?_); exact fun _ _ => rfl; exact fun _ _ _ => rfl)
    | ((with_reducible refine Local.local_id_list_loop (F := F) _ ?_ _); exact fun _ _ _ => rfl)
    | ((with_reducible refine Local.local_select_state _ _ ?_); exact fun _ _ => rfl)
    | ((with_reducible refine Local.local_update_if ?_ ?_); exact fun _ _ => rfl; exact fun _ _ => rfl)
    | ((with_reducible refine Local.local_update_if ?_ ?_); exact fun _ _ => rfl; intro c src; simp only [graft, graft_self, graft_result, cond_true, List.append_assoc]; done)
    | with_reducible apply Local.local_ite
    | split

theorem begin_database_binary_local (t : DatabaseType) (P : ParseResult F) (A : FamilySel)
    (B : MemberSel) :
    Local (graft P { A with databases := true }
        { B with current_database_binary := true })
      (begin_database_binary t : Run (Ctx F) Unit) := by
  unfold KFile.begin_database_binary
  repeat' first
    | ((with_reducible refine Local.local_assign ?_); exact fun _ _ _ => rfl)
    | ((with_reducible refine Local.local_assign ?_); intro v c src; simp only [graft, graft_self, graft_result, cond_true, List.append_assoc]; done)
    | ((with_reducible refine Local.local_update ?_); exact fun _ _ => rfl)
    | ((with_reducible refine Local.local_update ?_); intro c src; simp only [graft, graft_self, graft_result, cond_true, List.append_assoc]; done)
    | ((with_reducible refine Local.local_read_bind ?_ (fun _ => ?_)); exact fun _ _ => rfl)
    | with_reducible refine Local.local_bind ?_ (fun _ => ?_)
    | ((with_reducible refine Local.local_set_state _ ?_); exact fun _ _ => rfl)
    | with_reducible refine Local.local_try_catch ?_ (fun _ => ?_)
    | ((with_reducible refine Local.local_warn _ _ ?_); exact fun _ _ _ => rfl)
    | ((with_reducible refine Local.local_when_enabled ?_ ?_ ?_); exact fun _ _ => rfl; exact fun _ _ => rfl)
    | with_reducible exact Local.local_pure _
    | with_reducible exact Local.local_eval _
    | ((with_reducible refine Local.local_zoom ?_ ?_); exact fun _ _ => rfl; exact fun _ _ _ => rfl)
    | ((with_reducible refine Local.local_id_list_loop (F := F) _ ?_ _); exact fun _ _ _ => rfl)
    | ((with_reducible refine Local.local_select_state _ _ ?_); exact fun _ _ => rfl)
    | ((with_reducible refine Local.local_update_if ?_ ?_); exact fun _ _ => rfl; exact fun _ _ => rfl)
    | ((with_reducible refine Local.local_update_if ?_ ?_); exact fun _ _ => rfl; intro c src; simp only [graft, graft_self, graft_result, cond_true, List.append_assoc]; done)
    | with_reducible apply Local.local_ite
    | split

theorem begin_database_ascii_local (t : DatabaseType) (P : ParseResult F) (A : FamilySel)
    (B : MemberSel) :
    Local (graft P { A with databases := true }
        { B with current_database_ascii := true })
      (begin_database_ascii t : Run (Ctx F) Unit) := by
  unfold KFile.begin_database_ascii
  repeat' first
    | ((with_reducible refine Local.local_assign ?_); exact fun _ _ _ => rfl)
    | ((with_reducible refine Local.local_assign ?_); intro v c src; simp only [graft, graft_self, graft_result, cond_true, List.append_assoc]; done)
    | ((with_reducible refine Local.local_update ?_); exact fun _ _ => rfl)
    | ((with_reducible refine Local.local_update ?_); intro c src; simp only [graft, graft_self, graft_result, cond_true, List.append_assoc]; done)
    | ((with_reducible refine Local.local_read_bind ?_ (fun _ => ?_)); exact fun _ _ => rfl)
    | with_reducible refine Local.local_bind ?_ (fun _ => ?_)
    | ((with_reducible refine Local.local_set_state _ ?_); exact fun _ _ => rfl)
    | with_reducible refine Local.local_try_catch ?_ (fun _ => ?_)
    | ((with_reducible refine Local.local_warn _ _ ?_); exact fun _ _ _ => rfl)
    | ((with_reducible refine Local.local_when_enabled ?_ ?_ ?_); exact fun _ _ => rfl; exact fun _ _ => rfl)
    | with_reducible exact Local.local_pure _
    | with_reducible exact Local.local_eval _
    | ((with_reducible refine Local.local_zoom ?_ ?_); exact fun _ _ => rfl; exact fun _ _ _ => rfl)
    | ((with_reducible refine Local.local_id_list_loop (F := F) _ ?_ _); exact fun _ _ _ => rfl)
    | ((with_reducible refine Local.local_select_state _ _ ?_); exact fun _ _ => rfl)
    | ((with_reducible refine Local.local_update_if ?_ ?_); exact fun _ _ => rfl; exact fun _ _ => rfl)
    | ((with_reducible refine Local.local_update_if ?_ ?_); exact fun _ _ => rfl; intro c src; simp only [graft, graft_self, graft_result, cond_true, List.append_assoc]; done)
    | with_reducible apply Local.local_ite
    | split

theorem begin_database_history_node_local (P : ParseResult F) (A : FamilySel)
    (B : MemberSel) :
    Local (graft P { A with databases := true }
        { B with current_database_history_node := true })
      (begin_database_history_node : Run (Ctx F) Unit) := by
  unfold KFile.begin_database_history_node
  repeat' first
    | ((with_reducible refine Local.local_assign ?_); exact fun _ _ _ => rfl)
    | ((with_reducible refine Local.local_assign ?_); intro v c src; simp only [graft, graft_self, graft_result, cond_true, List.append_assoc]; done)
    | ((with_reducible refine Local.local_update ?_); exact fun _ _ => rfl)
    | ((with_reducible refine Local.local_update ?_); intro c src; simp only [graft, graft_self, graft_result, cond_true, List.append_assoc]; done)
    | ((with_reducible refine Local.local_read_bind ?_ (fun _ => ?_)); exact fun _ _ => rfl)
    | with_reducible refine Local.local_bind ?_ (fun _ => ?_)
    | ((with_reducible refine Local.local_set_state _ ?_); exact fun _ _ => rfl)
    | with_reducible refine Local.local_try_catch ?_ (fun _ => ?_)
    | ((with_reducible refine Local.local_warn _ _ ?_); exact fun _ _ _ => rfl)
    | ((with_reducible refine Local.local_when_enabled ?_ ?_ ?_); exact fun _ _ => rfl; exact fun _ _ => rfl)
    | with_reducible exact Local.local_pure _
    | with_reducible exact Local.local_eval _
    | ((with_reducible refine Local.local_zoom ?_ ?_); exact fun _ _ => rfl; exact fun _ _ _ => rfl)
    | ((with_reducible refine Local.local_id_list_loop (F := F) _ ?_ _); exact fun _ _ _ => rfl)
    | ((with_reducible refine Local.local_select_state _ _ ?_); exact fun _ _ => rfl)
    | ((with_reducible refine Local.local_update_if ?_ ?_); exact fun _ _ => rfl; exact fun _ _ => rfl)
    | ((with_reducible refine Local.local_update_if ?_ ?_); exact fun _ _ => rfl; intro c src; simp only [graft, graft_self, graft_result, cond_true, List.append_assoc]; done)
    | with_reducible apply Local.local_ite
    | split

theorem begin_database_history_element_local (t : Int) (P : ParseResult F) (A : FamilySel)
    (B : MemberSel) :
    Local (graft P { A with databases := true }
        { B with current_database_history_element := true })
      (begin_database_history_element t : Run (Ctx F) Unit) := by
  unfold KFile.begin_database_history_element
  repeat' first
    | ((with_reducible refine Local.local_assign ?_); exact fun _ _ _ => rfl)
    | ((with_reducible refine Local.local_assign ?_); intro v c src; simp only [graft, graft_self, graft_result, cond_true, List.append_assoc]; done)
    | ((with_reducible refine Local.local_update ?_); exact fun _ _ => rfl)
    | ((with_reducible refine Local.local_update ?_); intro c src; simp only [graft, graft_self, graft_result, cond_true, List.append_assoc]; done)
    | ((with_reducible refine Local.local_read_bind ?_ (fun _ => ?_)); exact fun _ _ => rfl)
    | with_reducible refine Local.local_bind ?_ (fun _ => ?_)
    | ((with_reducible refine Local.local_set_state _ ?_); exact fun _ _ => rfl)
    | with_reducible refine Local.local_try_catch ?_ (fun _ => ?_)
    | ((with_reducible refine Local.local_warn _ _ ?_); exact fun _ _ _ => rfl)
    | ((with_reducible refine Local.local_when_enabled ?_ ?_ ?_); exact fun _ _ => rfl; exact fun _ _ => rfl)
    | with_reducible exact Local.local_pure _
    | with_reducible exact Local.local_eval _
    | ((with_reducible refine Local.local_zoom ?_ ?_); exact fun _ _ => rfl; exact fun _ _ _ => rfl)
    | ((with_reducible refine Local.local_id_list_loop (F := F) _ ?_ _); exact fun _ _ _ => rfl)
    | ((with_reducible refine Local.local_select_state _ _ ?_); exact fun _ _ => rfl)
    | ((with_reducible refine Local.local_update_if ?_ ?_); exact fun _ _ => rfl; exact fun _ _ => rfl)
    | ((with_reducible refine Local.local_update_if ?_ ?_); exact fun _ _ => rfl; intro c src; simp only [graft, graft_self, graft_result, cond_true, List.append_assoc]; done)
    | with_reducible apply Local.local_ite
    | split

theorem begin_initial_velocity_generation_local (P : ParseResult F) (A : FamilySel)
    (B : MemberSel) :
    Local (graft P { A with initials := true }
        { B with current_initial_velocity := true })
      (begin_initial_velocity_generation : Run (Ctx F) Unit) := by
  unfold KFile.begin_initial_velocity_generation
  repeat' first
    | ((with_reducible refine Local.local_assign ?_); exact fun _ _ _ => rfl)
    | ((with_reducible refine Local.local_assign ?_); intro v c src; simp only [graft, graft_self, graft_result, cond_true, List.append_assoc]; done)
    | ((with_reducible refine Local.local_update ?_); exact fun _ _ => rfl)
    | ((with_reducible refine Local.local_update ?_); intro c src; simp only [graft, graft_self, graft_result, cond_true, List.append_assoc]; done)
    | ((with_reducible refine Local.local_read_bind ?_ (fun _ => ?_)); exact fun _ _ => rfl)
    | with_reducible refine Local.local_bind ?_ (fun _ => ?_)
    | ((with_reducible refine Local.local_set_state _ ?_); exact fun _ _ => rfl)
    | with_reducible refine Local.local_try_catch ?_ (fun _ => ?_)
    | ((with_reducible refine Local.local_warn _ _ ?_); exact fun _ _ _ => rfl)
    | ((with_reducible refine Local.local_when_enabled ?_ ?_ ?_); exact fun _ _ => rfl; exact fun _ _ => rfl)
    | with_reducible exact Local.local_pure _
    | with_reducible exact Local.local_eval _
    | ((with_reducible refine Local.local_zoom ?_ ?_); exact fun _ _ => rfl; exact fun _ _ _ => rfl)
    | ((with_reducible refine Local.local_id_list_loop (F := F) _ ?_ _); exact fun _ _ _ => rfl)
    | ((with_reducible refine Local.local_select_state _ _ ?_); exact fun _ _ => rfl)
    | ((with_reducible refine Local.local_update_if ?_ ?_); exact fun _ _ => rfl; exact fun _ _ => rfl)
    | ((with_reducible refine Local.local_update_if ?_ ?_); exact fun _ _ => rfl; intro c src; simp only [graft, graft_self, graft_result, cond_true, List.append_assoc]; done)
    | with_reducible apply Local.local_ite
    | split

theorem begin_initial_velocity_local (u : Str) (P : ParseResult F) (A : FamilySel)
    (B : MemberSel) :
    Local (graft P { A with initials := true }
        { B with current_initial_velocity := true })
      (begin_initial_velocity u : Run (Ctx F) Unit) := by
  unfold KFile.begin_initial_velocity
  repeat' first
    | ((with_reducible refine Local.local_assign ?_); exact fun _ _ _ => rfl)
    | ((with_reducible refine Local.local_assign ?_); intro v c src; simp only [graft, graft_self, graft_result, cond_true, List.append_assoc]; done)
    | ((with_reducible refine Local.local_update ?_); exact fun _ _ => rfl)
    | ((with_reducible refine Local.local_update ?_); intro c src; simp only [graft, graft_self, graft_result, cond_true, List.append_assoc]; done)
    | ((with_reducible refine Local.local_read_bind ?_ (fun _ => ?_)); exact fun _ _ => rfl)
    | with_reducible refine Local.local_bind ?_ (fun _ => ?_)
    | ((with_reducible refine Local.local_set_state _ ?_); exact fun _ _ => rfl)
    | with_reducible refine Local.local_try_catch ?_ (fun _ => ?_)
    | ((with_reducible refine Local.local_warn _ _ ?_); exact fun _ _ _ => rfl)
    | ((with_reducible refine Local.local_when_enabled ?_ ?_ ?_); exact fun _ _ => rfl; exact fun _ _ => rfl)
    | with_reducible exact Local.local_pure _
    | with_reducible exact Local.local_eval _
    | ((with_reducible refine Local.local_zoom ?_ ?_); exact fun _ _ => rfl; exact fun _ _ _ => rfl)
    | ((with_reducible refine Local.local_id_list_loop (F := F) _ ?_ _); exact fun _ _ _ => rfl)
    | ((with_reducible refine Local.local_select_state _ _ ?_); exact fun _ _ => rfl)
    | ((with_reducible refine Local.local_update_if ?_ ?_); exact fun _ _ => rfl; exact fun _ _ => rfl)
    | ((with_reducible refine Local.local_update_if ?_ ?_); exact fun _ _ => rfl; intro c src; simp only [graft, graft_self, graft_result, cond_true, List.append_assoc]; done)
    | with_reducible apply Local.local_ite
    | split

theorem begin_constrained_nodal_rigid_body_local (u : Str) (P : ParseResult F) (A : FamilySel)
    (B : MemberSel) :
    Local (graft P { A with constraineds := true }
        { B with current_constrained_nodal_rigid_body := true })
      (begin_constrained_nodal_rigid_body u : Run (Ctx F) Unit) := by
  unfold KFile.begin_constrained_nodal_rigid_body
  repeat' first
    | ((with_reducible refine Local.local_assign ?_); exact fun _ _ _ => rfl)
    | ((with_reducible refine Local.local_assign ?_); intro v c src; simp only [graft, graft_self, graft_result, cond_true, List.append_assoc]; done)
    | ((with_reducible refine Local.local_update ?_); exact fun _ _ => rfl)
    | ((with_reducible refine Local.local_update ?_); intro c src; simp only [graft, graft_self, graft_result, cond_true, List.append_assoc]; done)
    | ((with_reducible refine Local.local_read_bind ?_ (fun _ => ?_)); exact fun _ _ => rfl)
    | with_reducible refine Local.local_bind ?_ (fun _ => ?_)
    | ((with_reducible refine Local.local_set_state _ ?_); exact fun _ _ => rfl)
    | with_reducible refine Local.local_try_catch ?_ (fun _ => ?_)
    | ((with_reducible refine Local.local_warn _ _ ?_); exact fun _ _ _ => rfl)
    | ((with_reducible refine Local.local_when_enabled ?_ ?_ ?_); exact fun _ _ => rfl; exact fun _ _ => rfl)
    | with_reducible exact Local.local_pure _
    | with_reducible exact Local.local_eval _
    | ((with_reducible refine Local.local_zoom ?_ ?_); exact fun _ _ => rfl; exact fun _ _ _ => rfl)
    | ((with_reducible refine Local.local_id_list_loop (F := F) _ ?_ _); exact fun _ _ _ => rfl)
    | ((with_reducible refine Local.local_select_state _ _ ?_); exact fun _ _ => rfl)
    | ((with_reducible refine Local.local_update_if ?_ ?_); exact fun _ _ => rfl; exact fun _ _ => rfl)
    | ((with_reducible refine Local.local_update_if ?_ ?_); exact fun _ _ => rfl; intro c src; simp only [graft, graft_self, graft_result, cond_true, List.append_assoc]; done)
    | with_reducible apply Local.local_ite
    | split

theorem begin_constrained_extra_nodes_local (u : Str) (P : ParseResult F) (A : FamilySel)
    (B : MemberSel) :
    Local (graft P { A with constraineds := true }
        { B with current_constrained_extra_nodes := true })
      (begin_constrained_extra_nodes u : Run (Ctx F) Unit) := by
  unfold KFile.begin_constrained_extra_nodes
  repeat' first
    | ((with_reducible refine Local.local_assign ?_); exact fun _ _ _ => rfl)
    | ((with_reducible refine Local.local_assign ?_); intro v c src; simp only [graft, graft_self, graft_result, cond_true, List.append_assoc]; done)
    | ((with_reducible refine Local.local_update ?_); exact fun _ _ => rfl)
    | ((with_reducible refine Local.local_update ?_); intro c src; simp only [graft, graft_self, graft_result, cond_true, List.append_assoc]; done)
    | ((with_reducible refine Local.local_read_bind ?_ (fun _ => ?_)); exact fun _ _ => rfl)
    | with_reducible refine Local.local_bind ?_ (fun _ => ?_)
    | ((with_reducible refine Local.local_set_state _ ?_); exact fun _ _ => rfl)
    | with_reducible refine Local.local_try_catch ?_ (fun _ => ?_)
    | ((with_reducible refine Local.local_warn _ _ ?_); exact fun _ _ _ => rfl)
    | ((with_reducible refine Local.local_when_enabled ?_ ?_ ?_); exact fun _ _ => rfl; exact fun _ _ => rfl)
    | with_reducible exact Local.local_pure _
    | with_reducible exact Local.local_eval _
    | ((with_reducible refine Local.local_zoom ?_ ?_); exact fun _ _ => rfl; exact fun _ _ _ => rfl)
    | ((with_reducible refine Local.local_id_list_loop (F := F) _ ?_ _); exact fun _ _ _ => rfl)
    | ((with_reducible refine Local.local_select_state _ _ ?_); exact fun _ _ => rfl)
    | ((with_reducible refine Local.local_update_if ?_ ?_); exact fun _ _ => rfl; exact fun _ _ => rfl)
    | ((with_reducible refine Local.local_update_if ?_ ?_); exact fun _ _ => rfl; intro c src; simp only [graft, graft_self, graft_result, cond_true, List.append_assoc]; done)
    | with_reducible apply Local.local_ite
    | split

theorem begin_constrained_joint_local (u : Str) (P : ParseResult F) (A : FamilySel)
    (B : MemberSel) :
    Local (graft P { A with constraineds := true }
        { B with current_constrained_joint := true })
      (begin_constrained_joint u : Run (Ctx F) Unit) := by
  unfold KFile.begin_constrained_joint
  repeat' first
    | ((with_reducible refine Local.local_assign ?_); exact fun _ _ _ => rfl)
    | ((with_reducible refine Local.local_assign ?_); intro v c src; simp only [graft, graft_self, graft_result, cond_true, List.append_assoc]; done)
    | ((with_reducible refine Local.local_update ?_); exact fun _ _ => rfl)
    | ((with_reducible refine Local.local_update ?_); intro c src; simp only [graft, graft_self, graft_result, cond_true, List.append_assoc]; done)
    | ((with_reducible refine Local.local_read_bind ?_ (fun _ => ?_)); exact fun _ _ => rfl)
    | with_reducible refine Local.local_bind ?_ (fun _ => ?_)
    | ((with_reducible refine Local.local_set_state _ ?_); exact fun _ _ => rfl)
    | with_reducible refine Local.local_try_catch ?_ (fun _ => ?_)
    | ((with_reducible refine Local.local_warn _ _ ?_); exact fun _ _ _ => rfl)
    | ((with_reducible refine Local.local_when_enabled ?_ ?_ ?_); exact fun _ _ => rfl; exact fun _ _ => rfl)
    | with_reducible exact Local.local_pure _
    | with_reducible exact Local.local_eval _
    | ((with_reducible refine Local.local_zoom ?_ ?_); exact fun _ _ => rfl; exact fun _ _ _ => rfl)
    | ((with_reducible refine Local.local_id_list_loop (F := F) _ ?_ _); exact fun _ _ _ => rfl)
    | ((with_reducible refine Local.local_select_state _ _ ?_); exact fun _ _ => rfl)
    | ((with_reducible refine Local.local_update_if ?_ ?_); exact fun _ _ => rfl; exact fun _ _ => rfl)
    | ((with_reducible refine Local.local_update_if ?_ ?_); exact fun _ _ => rfl; intro c src; simp only [graft, graft_self, graft_result, cond_true, List.append_assoc]; done)
    | with_reducible apply Local.local_ite
    | split

theorem begin_constrained_spotweld_local (P : ParseResult F) (A : FamilySel)
    (B : MemberSel) :
    Local (graft P { A with constraineds := true }
        { B with current_constrained_spotweld := true })
      (begin_constrained_spotweld : Run (Ctx F) Unit) := by
  unfold KFile.begin_constrained_spotweld
  repeat' first
    | ((with_reducible refine Local.local_assign ?_); exact fun _ _ _ => rfl)
    | ((with_reducible refine Local.local_assign ?_); intro v c src; simp only [graft, graft_self, graft_result, cond_true, List.append_assoc]; done)
    | ((with_reducible refine Local.local_update ?_); exact fun _ _ => rfl)
    | ((with_reducible refine Local.local_update ?_); intro c src; simp only [graft, graft_self, graft_result, cond_true, List.append_assoc]; done)
    | ((with_reducible refine Local.local_read_bind ?_ (fun _ => ?_)); exact fun _ _ => rfl)
    | with_reducible refine Local.local_bind ?_ (fun _ => ?_)
    | ((with_reducible refine Local.local_set_state _ ?_); exact fun _ _ => rfl)
    | with_reducible refine Local.local_try_catch ?_ (fun _ => ?_)
    | ((with_reducible refine Local.local_warn _ _ ?_); exact fun _ _ _ => rfl)
    | ((with_reducible refine Local.local_when_enabled ?_ ?_ ?_); exact fun _ _ => rfl; exact fun _ _ => rfl)
    | with_reducible exact Local.local_pure _
    | with_reducible exact Local.local_eval _
    | ((with_reducible refine Local.local_zoom ?_ ?_); exact fun _ _ => rfl; exact fun _ _ _ => rfl)
    | ((with_reducible refine Local.local_id_list_loop (F := F) _ ?_ _); exact fun _ _ _ => rfl)
    | ((with_reducible refine Local.local_select_state _ _ ?_); exact fun _ _ => rfl)
    | ((with_reducible refine Local.local_update_if ?_ ?_); exact fun _ _ => rfl; exact fun _ _ => rfl)
    | ((with_reducible refine Local.local_update_if ?_ ?_); exact fun _ _ => rfl; intro c src; simp only [graft, graft_self, graft_result, cond_true, List.append_assoc]; done)
    | with_reducible apply Local.local_ite
    | split

theorem other_keyword_local (P : ParseResult F) (A : FamilySel)
    (B : MemberSel) :
    Local (graft P { A with sets := true, materials := true, curves := true }
        { B with current_set := true, current_material := true, current_curve := true })
      (other_keyword : Run (Ctx F) Unit) := by
  unfold KFile.other_keyword
  repeat' first
    | ((with_reducible refine Local.local_assign ?_); exact fun _ _ _ => rfl)
    | ((with_reducible refine Local.local_assign ?_); intro v c src; simp only [graft, graft_self, graft_result, cond_true, List.append_assoc]; done)
    | ((with_reducible refine Local.local_update ?_); exact fun _ _ => rfl)
    | ((with_reducible refine Local.local_update ?_); intro c src; simp only [graft, graft_self, graft_result, cond_true, List.append_assoc]; done)
    | ((with_reducible refine Local.local_read_bind ?_ (fun _ => ?_)); exact fun _ _ => rfl)
    | with_reducible refine Local.local_bind ?_ (fun _ => ?_)
    | ((with_reducible refine Local.local_set_state _ ?_); exact fun _ _ => rfl)
    | with_reducible refine Local.local_try_catch ?_ (fun _ => ?_)
    | ((with_reducible refine Local.local_warn _ _ ?_); exact fun _ _ _ => rfl)
    | ((with_reducible refine Local.local_when_enabled ?_ ?_ ?_); exact fun _ _ => rfl; exact fun _ _ => rfl)
    | with_reducible exact Local.local_pure _
    | with_reducible exact Local.local_eval _
    | ((with_reducible refine Local.local_zoom ?_ ?_); exact fun _ _ => rfl; exact fun _ _ _ => rfl)
    | ((with_reducible refine Local.local_id_list_loop (F := F) _ ?_ _); exact fun _ _ _ => rfl)
    | ((with_reducible refine Local.local_select_state _ _ ?_); exact fun _ _ => rfl)
    | ((with_reducible refine Local.local_update_if ?_ ?_); exact fun _ _ => rfl; exact fun _ _ => rfl)
    | ((with_reducible refine Local.local_update_if ?_ ?_); exact fun _ _ => rfl; intro c src; simp only [graft, graft_self, graft_result, cond_true, List.append_assoc]; done)
    | with_reducible apply Local.local_ite
    | split

theorem case_IN_NODE_local (line : Str) (P : ParseResult F) (A : FamilySel)
    (B : MemberSel) :
    Local (graft P { A with nodes := true }
        B)
      (case_IN_NODE line : Run (Ctx F) Unit) := by
  unfold KFile.case_IN_NODE
  repeat' first
    | ((with_reducible refine Local.local_assign ?_); exact fun _ _ _ => rfl)
    | ((with_reducible refine Local.local_assign ?_); intro v c src; simp only [graft, graft_self, graft_result, cond_true, List.append_assoc]; done)
    | ((with_reducible refine Local.local_update ?_); exact fun _ _ => rfl)
    | ((with_reducible refine Local.local_update ?_); intro c src; simp only [graft, graft_self, graft_result, cond_true, List.append_assoc]; done)
    | ((with_reducible refine Local.local_read_bind ?_ (fun _ => ?_)); exact fun _ _ => rfl)
    | with_reducible refine Local.local_bind ?_ (fun _ => ?_)
    | ((with_reducible refine Local.local_set_state _ ?_); exact fun _ _ => rfl)
    | with_reducible refine Local.local_try_catch ?_ (fun _ => ?_)
    | ((with_reducible refine Local.local_warn _ _ ?_); exact fun _ _ _ => rfl)
    | ((with_reducible refine Local.local_when_enabled ?_ ?_ ?_); exact fun _ _ => rfl; exact fun _ _ => rfl)
    | with_reducible exact Local.local_pure _
    | with_reducible exact Local.local_eval _
    | ((with_reducible refine Local.local_zoom ?_ ?_); exact fun _ _ => rfl; exact fun _ _ _ => rfl)
    | ((with_reducible refine Local.local_id_list_loop (F := F) _ ?_ _); exact fun _ _ _ => rfl)
    | ((with_reducible refine Local.local_select_state _ _ ?_); exact fun _ _ => rfl)
    | ((with_reducible refine Local.local_update_if ?_ ?_); exact fun _ _ => rfl; exact fun _ _ => rfl)
    | ((with_reducible refine Local.local_update_if ?_ ?_); exact fun _ _ => rfl; intro c src; simp only [graft, graft_self, graft_result, cond_true, List.append_assoc]; done)
    | with_reducible apply Local.local_ite
    | split

theorem case_IN_PART_NAME_local (line : Str) (P : ParseResult F) (A : FamilySel)
    (B : MemberSel) :
    Local (graft P { A with parts := true }
        { B with part_name := true })
      (case_IN_PART_NAME line : Run (Ctx F) Unit) := by
  unfold KFile.case_IN_PART_NAME
  repeat' first
    | ((with_reducible refine Local.local_assign ?_); exact fun _ _ _ => rfl)
    | ((with_reducible refine Local.local_assign ?_); intro v c src; simp only [graft, graft_self, graft_result, cond_true, List.append_assoc]; done)
    | ((with_reducible refine Local.local_update ?_); exact fun _ _ => rfl)
    | ((with_reducible refine Local.local_update ?_); intro c src; simp only [graft, graft_self, graft_result, cond_true, List.append_assoc]; done)
    | ((with_reducible refine Local.local_read_bind ?_ (fun _ => ?_)); exact fun _ _ => rfl)
    | with_reducible refine Local.local_bind ?_ (fun _ => ?_)
    | ((with_reducible refine Local.local_set_state _ ?_); exact fun _ _ => rfl)
    | with_reducible refine Local.local_try_catch ?_ (fun _ => ?_)
    | ((with_reducible refine Local.local_warn _ _ ?_); exact fun _ _ _ => rfl)
    | ((with_reducible refine Local.local_when_enabled ?_ ?_ ?_); exact fun _ _ => rfl; exact fun _ _ => rfl)
    | with_reducible exact Local.local_pure _
    | with_reducible exact Local.local_eval _
    | ((with_reducible refine Local.local_zoom ?_ ?_); exact fun _ _ => rfl; exact fun _ _ _ => rfl)
    | ((with_reducible refine Local.local_id_list_loop (F := F) _ ?_ _); exact fun _ _ _ => rfl)
    | ((with_reducible refine Local.local_select_state _ _ ?_); exact fun _ _ => rfl)
    | ((with_reducible refine Local.local_update_if ?_ ?_); exact fun _ _ => rfl; exact fun _ _ => rfl)
    | ((with_reducible refine Local.local_update_if ?_ ?_); exact fun _ _ => rfl; intro c src; simp only [graft, graft_self, graft_result, cond_true, List.append_assoc]; done)
    | with_reducible apply Local.local_ite
    | split

theorem case_IN_PART_DATA_local (line : Str) (P : ParseResult F) (A : FamilySel)
    (B : MemberSel) :
    Local (graft P { A with parts := true }
        { B with part_name := true })
      (case_IN_PART_DATA line : Run (Ctx F) Unit) := by
  unfold KFile.case_IN_PART_DATA
  repeat' first
    | ((with_reducible refine Local.local_assign ?_); exact fun _ _ _ => rfl)
    | ((with_reducible refine Local.local_assign ?_); intro v c src; simp only [graft, graft_self, graft_result, cond_true, List.append_assoc]; done)
    | ((with_reducible refine Local.local_update ?_); exact fun _ _ => rfl)
    | ((with_reducible refine Local.local_update ?_); intro c src; simp only [graft, graft_self, graft_result, cond_true, List.append_assoc]; done)
    | ((with_reducible refine Local.local_read_bind ?_ (fun _ => ?_)); exact fun _ _ => rfl)
    | with_reducible refine Local.local_bind ?_ (fun _ => ?_)
    | ((with_reducible refine Local.local_set_state _ ?_); exact fun _ _ => rfl)
    | with_reducible refine Local.local_try_catch ?_ (fun _ => ?_)
    | ((with_reducible refine Local.local_warn _ _ ?_); exact fun _ _ _ => rfl)
    | ((with_reducible refine Local.local_when_enabled ?_ ?_ ?_); exact fun _ _ => rfl; exact fun _ _ => rfl)
    | with_reducible exact Local.local_pure _
    | with_reducible exact Local.local_eval _
    | ((with_reducible refine Local.local_zoom ?_ ?_); exact fun _ _ => rfl; exact fun _ _ _ => rfl)
    | ((with_reducible refine Local.local_id_list_loop (F := F) _ ?_ _); exact fun _ _ _ => rfl)
    | ((with_reducible refine Local.local_select_state _ _ ?_); exact fun _ _ => rfl)
    | ((with_reducible refine Local.local_update_if ?_ ?_); exact fun _ _ => rfl; exact fun _ _ => rfl)
    | ((with_reducible refine Local.local_update_if ?_ ?_); exact fun _ _ => rfl; intro c src; simp only [graft, graft_self, graft_result, cond_true, List.append_assoc]; done)
    | with_reducible apply Local.local_ite
    | split

theorem case_IN_ELEMENT_local (line : Str) (type : ElementType) (P : ParseResult F) (A : FamilySel)
    (B : MemberSel) :
    Local (graft P { A with elements := true }
        B)
      (case_IN_ELEMENT line type : Run (Ctx F) Unit) := by
  unfold KFile.case_IN_ELEMENT
  repeat' first
    | ((with_reducible refine Local.local_assign ?_); exact fun _ _ _ => rfl)
    | ((with_reducible refine Local.local_assign ?_); intro v c src; simp only [graft, graft_self, graft_result, cond_true, List.append_assoc]; done)
    | ((with_reducible refine Local.local_update ?_); exact fun _ _ => rfl)
    | ((with_reducible refine Local.local_update ?_); intro c src; simp only [graft, graft_self, graft_result, cond_true, List.append_assoc]; done)
    | ((with_reducible refine Local.local_read_bind ?_ (fun _ => ?_)); exact fun _ _ => rfl)
    | with_reducible refine Local.local_bind ?_ (fun _ => ?_)
    | ((with_reducible refine Local.local_set_state _ ?_); exact fun _ _ => rfl)
    | with_reducible refine Local.local_try_catch ?_ (fun _ => ?_)
    | ((with_reducible refine Local.local_warn _ _ ?_); exact fun _ _ _ => rfl)
    | ((with_reducible refine Local.local_when_enabled ?_ ?_ ?_); exact fun _ _ => rfl; exact fun _ _ => rfl)
    | with_reducible exact Local.local_pure _
    | with_reducible exact Local.local_eval _
    | ((with_reducible refine Local.local_zoom ?_ ?_); exact fun _ _ => rfl; exact fun _ _ _ => rfl)
    | ((with_reducible refine Local.local_id_list_loop (F := F) _ ?_ _); exact fun _ _ _ => rfl)
    | ((with_reducible refine Local.local_select_state _ _ ?_); exact fun _ _ => rfl)
    | ((with_reducible refine Local.local_update_if ?_ ?_); exact fun _ _ => rfl; exact fun _ _ => rfl)
    | ((with_reducible refine Local.local_update_if ?_ ?_); exact fun _ _ => rfl; intro c src; simp only [graft, graft_self, graft_result, cond_true, List.append_assoc]; done)
    | with_reducible apply Local.local_ite
    | split

theorem case_IN_SET_TITLE_local (P : ParseResult F) (A : FamilySel)
    (B : MemberSel) :
    Local (graft P { A with sets := true }
        { B with current_set := true })
      (case_IN_SET_TITLE : Run (Ctx F) Unit) := by
  unfold KFile.case_IN_SET_TITLE
  repeat' first
    | ((with_reducible refine Local.local_assign ?_); exact fun _ _ _ => rfl)
    | ((with_reducible refine Local.local_assign ?_); intro v c src; simp only [graft, graft_self, graft_result, cond_true, List.append_assoc]; done)
    | ((with_reducible refine Local.local_update ?_); exact fun _ _ => rfl)
    | ((with_reducible refine Local.local_update ?_); intro c src; simp only [graft, graft_self, graft_result, cond_true, List.append_assoc]; done)
    | ((with_reducible refine Local.local_read_bind ?_ (fun _ => ?_)); exact fun _ _ => rfl)
    | with_reducible refine Local.local_bind ?_ (fun _ => ?_)
    | ((with_reducible refine Local.local_set_state _ ?_); exact fun _ _ => rfl)
    | with_reducible refine Local.local_try_catch ?_ (fun _ => ?_)
    | ((with_reducible refine Local.local_warn _ _ ?_); exact fun _ _ _ => rfl)
    | ((with_reducible refine Local.local_when_enabled ?_ ?_ ?_); exact fun _ _ => rfl; exact fun _ _ => rfl)
    | with_reducible exact Local.local_pure _
    | with_reducible exact Local.local_eval _
    | ((with_reducible refine Local.local_zoom ?_ ?_); exact fun _ _ => rfl; exact fun _ _ _ => rfl)
    | ((with_reducible refine Local.local_id_list_loop (F := F) _ ?_ _); exact fun _ _ _ => rfl)
    | ((with_reducible refine Local.local_select_state _ _ ?_); exact fun _ _ => rfl)
    | ((with_reducible refine Local.local_update_if ?_ ?_); exact fun _ _ => rfl; exact fun _ _ => rfl)
    | ((with_reducible refine Local.local_update_if ?_ ?_); exact fun _ _ => rfl; intro c src; simp only [graft, graft_self, graft_result, cond_true, List.append_assoc]; done)
    | with_reducible apply Local.local_ite
    | split

theorem case_IN_SET_HEADER_local (line : Str) (type : SetType) (data : ParseState) (P : ParseResult F) (A : FamilySel)
    (B : MemberSel) :
    Local (graft P { A with sets := true }
        { B with current_set := true })
      (case_IN_SET_HEADER line type data : Run (Ctx F) Unit) := by
  unfold KFile.case_IN_SET_HEADER
  repeat' first
    | ((with_reducible refine Local.local_assign ?_); exact fun _ _ _ => rfl)
    | ((with_reducible refine Local.local_assign ?_); intro v c src; simp only [graft, graft_self, graft_result, cond_true, List.append_assoc]; done)
    | ((with_reducible refine Local.local_update ?_); exact fun _ _ => rfl)
    | ((with_reducible refine Local.local_update ?_); intro c src; simp only [graft, graft_self, graft_result, cond_true, List.append_assoc]; done)
    | ((with_reducible refine Local.local_read_bind ?_ (fun _ => ?_)); exact fun _ _ => rfl)
    | with_reducible refine Local.local_bind ?_ (fun _ => ?_)
    | ((with_reducible refine Local.local_set_state _ ?_); exact fun _ _ => rfl)
    | with_reducible refine Local.local_try_catch ?_ (fun _ => ?_)
    | ((with_reducible refine Local.local_warn _ _ ?_); exact fun _ _ _ => rfl)
    | ((with_reducible refine Local.local_when_enabled ?_ ?_ ?_); exact fun _ _ => rfl; exact fun _ _ => rfl)
    | with_reducible exact Local.local_pure _
    | with_reducible exact Local.local_eval _
    | ((with_reducible refine Local.local_zoom ?_ ?_); exact fun _ _ => rfl; exact fun _ _ _ => rfl)
    | ((with_reducible refine Local.local_id_list_loop (F := F) _ ?_ _); exact fun _ _ _ => rfl)
    | ((with_reducible refine Local.local_select_state _ _ ?_); exact fun _ _ => rfl)
    | ((with_reducible refine Local.local_update_if ?_ ?_); exact fun _ _ => rfl; exact fun _ _ => rfl)
    | ((with_reducible refine Local.local_update_if ?_ ?_); exact fun _ _ => rfl; intro c src; simp only [graft, graft_self, graft_result, cond_true, List.append_assoc]; done)
    | with_reducible apply Local.local_ite
    | split

theorem case_IN_SET_DATA_local (line : Str) (P : ParseResult F) (A : FamilySel)
    (B : MemberSel) :
    Local (graft P { A with sets := true }
        { B with current_set := true })
      (case_IN_SET_DATA line : Run (Ctx F) Unit) := by
  unfold KFile.case_IN_SET_DATA
  repeat' first
    | ((with_reducible refine Local.local_assign ?_); exact fun _ _ _ => rfl)
    | ((with_reducible refine Local.local_assign ?_); intro v c src; simp only [graft, graft_self, graft_result, cond_true, List.append_assoc]; done)
    | ((with_reducible refine Local.local_update ?_); exact fun _ _ => rfl)
    | ((with_reducible refine Local.local_update ?_); intro c src; simp only [graft, graft_self, graft_result, cond_true, List.append_assoc]; done)
    | ((with_reducible refine Local.local_read_bind ?_ (fun _ => ?_)); exact fun _ _ => rfl)
    | with_reducible refine Local.local_bind ?_ (fun _ => ?_)
    | ((with_reducible refine Local.local_set_state _ ?_); exact fun _ _ => rfl)
    | with_reducible refine Local.local_try_catch ?_ (fun _ => ?_)
    | ((with_reducible refine Local.local_warn _ _ ?_); exact fun _ _ _ => rfl)
    | ((with_reducible refine Local.local_when_enabled ?_ ?_ ?_); exact fun _ _ => rfl; exact fun _ _ => rfl)
    | with_reducible exact Local.local_pure _
    | with_reducible exact Local.local_eval _
    | ((with_reducible refine Local.local_zoom ?_ ?_); exact fun _ _ => rfl; exact fun _ _ _ => rfl)
    | ((with_reducible refine Local.local_id_list_loop (F := F) _ ?_ _); exact fun _ _ _ => rfl)
    | ((with_reducible refine Local.local_select_state _ _ ?_); exact fun _ _ => rfl)
    | ((with_reducible refine Local.local_update_if ?_ ?_); exact fun _ _ => rfl; exact fun _ _ => rfl)
    | ((with_reducible refine Local.local_update_if ?_ ?_); exact fun _ _ => rfl; intro c src; simp only [graft, graft_self, graft_result, cond_true, List.append_assoc]; done)
    | with_reducible apply Local.local_ite
    | split

theorem case_IN_SET_SEGMENT_DATA_local (line : Str) (P : ParseResult F) (A : FamilySel)
    (B : MemberSel) :
    Local (graft P { A with sets := true }
        { B with current_set := true })
      (case_IN_SET_SEGMENT_DATA line : Run (Ctx F) Unit) := by
  unfold KFile.case_IN_SET_SEGMENT_DATA
  repeat' first
    | ((with_reducible refine Local.local_assign ?_); exact fun _ _ _ => rfl)
    | ((with_reducible refine Local.local_assign ?_); intro v c src; simp only [graft, graft_self, graft_result, cond_true, List.append_assoc]; done)
    | ((with_reducible refine Local.local_update ?_); exact fun _ _ => rfl)
    | ((with_reducible refine Local.local_update ?_); intro c src; simp only [graft, graft_self, graft_result, cond_true, List.append_assoc]; done)
    | ((with_reducible refine Local.local_read_bind ?_ (fun _ => ?_)); exact fun _ _ => rfl)
    | with_reducible refine Local.local_bind ?_ (fun _ => ?_)
    | ((with_reducible refine Local.local_set_state _ ?_); exact fun _ _ => rfl)
    | with_reducible refine Local.local_try_catch ?_ (fun _ => ?_)
    | ((with_reducible refine Local.local_warn _ _ ?_); exact fun _ _ _ => rfl)
    | ((with_reducible refine Local.local_when_enabled ?_ ?_ ?_); exact fun _ _ => rfl; exact fun _ _ => rfl)
    | with_reducible exact Local.local_pure _
    | with_reducible exact Local.local_eval _
    | ((with_reducible refine Local.local_zoom ?_ ?_); exact fun _ _ => rfl; exact fun _ _ _ => rfl)
    | ((with_reducible refine Local.local_id_list_loop (F := F) _ ?_ _); exact fun _ _ _ => rfl)
    | ((with_reducible refine Local.local_select_state _ _ ?_); exact fun _ _ => rfl)
    | ((with_reducible refine Local.local_update_if ?_ ?_); exact fun _ _ => rfl; exact fun _ _ => rfl)
    | ((with_reducible refine Local.local_update_if ?_ ?_); exact fun _ _ => rfl; intro c src; simp only [graft, graft_self, graft_result, cond_true, List.append_assoc]; done)
    | with_reducible apply Local.local_ite
    | split

theorem case_IN_SECTION_SHELL_HEADER_local (line : Str) (P : ParseResult F) (A : FamilySel)
    (B : MemberSel) :
    Local (graft P { A with sections := true }
        { B with current_section := true })
      (case_IN_SECTION_SHELL_HEADER line : Run (Ctx F) Unit) := by
  unfold KFile.case_IN_SECTION_SHELL_HEADER
  repeat' first
    | ((with_reducible refine Local.local_assign ?_); exact fun _ _ _ => rfl)
    | ((with_reducible refine Local.local_assign ?_); intro v c src; simp only [graft, graft_self, graft_result, cond_true, List.append_assoc]; done)
    | ((with_reducible refine Local.local_update ?_); exact fun _ _ => rfl)
    | ((with_reducible refine Local.local_update ?_); intro c src; simp only [graft, graft_self, graft_result, cond_true, List.append_assoc]; done)
    | ((with_reducible refine Local.local_read_bind ?_ (fun _ => ?_)); exact fun _ _ => rfl)
    | with_reducible refine Local.local_bind ?_ (fun _ => ?_)
    | ((with_reducible refine Local.local_set_state _ ?_); exact fun _ _ => rfl)
    | with_reducible refine Local.local_try_catch ?_ (fun _ => ?_)
    | ((with_reducible refine Local.local_warn _ _ ?_); exact fun _ _ _ => rfl)
    | ((with_reducible refine Local.local_when_enabled ?_ ?_ ?_); exact fun _ _ => rfl; exact fun _ _ => rfl)
    | with_reducible exact Local.local_pure _
    | with_reducible exact Local.local_eval _
    | ((with_reducible refine Local.local_zoom ?_ ?_); exact fun _ _ => rfl; exact fun _ _ _ => rfl)
    | ((with_reducible refine Local.local_id_list_loop (F := F) _ ?_ _); exact fun _ _ _ => rfl)
    | ((with_reducible refine Local.local_select_state _ _ ?_); exact fun _ _ => rfl)
    | ((with_reducible refine Local.local_update_if ?_ ?_); exact fun _ _ => rfl; exact fun _ _ => rfl)
    | ((with_reducible refine Local.local_update_if ?_ ?_); exact fun _ _ => rfl; intro c src; simp only [graft, graft_self, graft_result, cond_true, List.append_assoc]; done)
    | with_reducible apply Local.local_ite
    | split

theorem case_IN_SECTION_SHELL_DATA_local (line : Str) (P : ParseResult F) (A : FamilySel)
    (B : MemberSel) :
    Local (graft P { A with sections := true }
        { B with current_section := true })
      (case_IN_SECTION_SHELL_DATA line : Run (Ctx F) Unit) := by
  unfold KFile.case_IN_SECTION_SHELL_DATA
  repeat' first
    | ((with_reducible refine Local.local_assign ?_); exact fun _ _ _ => rfl)
    | ((with_reducible refine Local.local_assign ?_); intro v c src; simp only [graft, graft_self, graft_result, cond_true, List.append_assoc]; done)
    | ((with_reducible refine Local.local_update ?_); exact fun _ _ => rfl)
    | ((with_reducible refine Local.local_update ?_); intro c src; simp only [graft, graft_self, graft_result, cond_true, List.append_assoc]; done)
    | ((with_reducible refine Local.local_read_bind ?_ (fun _ => ?_)); exact fun _ _ => rfl)
    | with_reducible refine Local.local_bind ?_ (fun _ => ?_)
    | ((with_reducible refine Local.local_set_state _ ?_); exact fun _ _ => rfl)
    | with_reducible refine Local.local_try_catch ?_ (fun _ => ?_)
    | ((with_reducible refine Local.local_warn _ _ ?_); exact fun _ _ _ => rfl)
    | ((with_reducible refine Local.local_when_enabled ?_ ?_ ?_); exact fun _ _ => rfl; exact fun _ _ => rfl)
    | with_reducible exact Local.local_pure _
    | with_reducible exact Local.local_eval _
    | ((with_reducible refine Local.local_zoom ?_ ?_); exact fun _ _ => rfl; exact fun _ _ _ => rfl)
    | ((with_reducible refine Local.local_id_list_loop (F := F) _ ?_ _); exact fun _ _ _ => rfl)
    | ((with_reducible refine Local.local_select_state _ _ ?_); exact fun _ _ => rfl)
    | ((with_reducible refine Local.local_update_if ?_ ?_); exact fun _ _ => rfl; exact fun _ _ => rfl)
    | ((with_reducible refine Local.local_update_if ?_ ?_); exact fun _ _ => rfl; intro c src; simp only [graft, graft_self, graft_result, cond_true, List.append_assoc]; done)
    | with_reducible apply Local.local_ite
    | unfold KFile.push_current_section
    | split

theorem case_IN_SECTION_SOLID_local (line : Str) (P : ParseResult F) (A : FamilySel)
    (B : MemberSel) :
    Local (graft P { A with sections := true }
        { B with current_section := true })
      (case_IN_SECTION_SOLID line : Run (Ctx F) Unit) := by
  unfold KFile.case_IN_SECTION_SOLID
  repeat' first
    | ((with_reducible refine Local.local_assign ?_); exact fun _ _ _ => rfl)
    | ((with_reducible refine Local.local_assign ?_); intro v c src; simp only [graft, graft_self, graft_result, cond_true, List.append_assoc]; done)
    | ((with_reducible refine Local.local_update ?_); exact fun _ _ => rfl)
    | ((with_reducible refine Local.local_update ?_); intro c src; simp only [graft, graft_self, graft_result, cond_true, List.append_assoc]; done)
    | ((with_reducible refine Local.local_read_bind ?_ (fun _ => ?_)); exact fun _ _ => rfl)
    | with_reducible refine Local.local_bind ?_ (fun _ => ?_)
    | ((with_reducible refine Local.local_set_state _ ?_); exact fun _ _ => rfl)
    | with_reducible refine Local.local_try_catch ?_ (fun _ => ?_)
    | ((with_reducible refine Local.local_warn _ _ ?_); exact fun _ _ _ => rfl)
    | ((with_reducible refine Local.local_when_enabled ?_ ?_ ?_); exact fun _ _ => rfl; exact fun _ _ => rfl)
    | with_reducible exact Local.local_pure _
    | with_reducible exact Local.local_eval _
    | ((with_reducible refine Local.local_zoom ?_ ?_); exact fun _ _ => rfl; exact fun _ _ _ => rfl)
    | ((with_reducible refine Local.local_id_list_loop (F := F) _ ?_ _); exact fun _ _ _ => rfl)
    | ((with_reducible refine Local.local_select_state _ _ ?_); exact fun _ _ => rfl)
    | ((with_reducible refine Local.local_update_if ?_ ?_); exact fun _ _ => rfl; exact fun _ _ => rfl)
    | ((with_reducible refine Local.local_update_if ?_ ?_); exact fun _ _ => rfl; intro c src; simp only [graft, graft_self, graft_result, cond_true, List.append_assoc]; done)
    | with_reducible apply Local.local_ite
    | unfold KFile.push_current_section
    | split

theorem case_IN_SECTION_BEAM_HEADER_local (line : Str) (P : ParseResult F) (A : FamilySel)
    (B : MemberSel) :
    Local (graft P { A with sections := true }
        { B with current_section := true })
      (case_IN_SECTION_BEAM_HEADER line : Run (Ctx F) Unit) := by
  unfold KFile.case_IN_SECTION_BEAM_HEADER
  repeat' first
    | ((with_reducible refine Local.local_assign ?_); exact fun _ _ _ => rfl)
    | ((with_reducible refine Local.local_assign ?_); intro v c src; simp only [graft, graft_self, graft_result, cond_true, List.append_assoc]; done)
    | ((with_reducible refine Local.local_update ?_); exact fun _ _ => rfl)
    | ((with_reducible refine Local.local_update ?_); intro c src; simp only [graft, graft_self, graft_result, cond_true, List.append_assoc]; done)
    | ((with_reducible refine Local.local_read_bind ?_ (fun _ => ?_)); exact fun _ _ => rfl)
    | with_reducible refine Local.local_bind ?_ (fun _ => ?_)
    | ((with_reducible refine Local.local_set_state _ ?_); exact fun _ _ => rfl)
    | with_reducible refine Local.local_try_catch ?_ (fun _ => ?_)
    | ((with_reducible refine Local.local_warn _ _ ?_); exact fun _ _ _ => rfl)
    | ((with_reducible refine Local.local_when_enabled ?_ ?_ ?_); exact fun _ _ => rfl; exact fun _ _ => rfl)
    | with_reducible exact Local.local_pure _
    | with_reducible exact Local.local_eval _
    | ((with_reducible refine Local.local_zoom ?_ ?_); exact fun _ _ => rfl; exact fun _ _ _ => rfl)
    | ((with_reducible refine Local.local_id_list_loop (F := F) _ ?_ _); exact fun _ _ _ => rfl)
    | ((with_reducible refine Local.local_select_state _ _ ?_); exact fun _ _ => rfl)
    | ((with_reducible refine Local.local_update_if ?_ ?_); exact fun _ _ => rfl; exact fun _ _ => rfl)
    | ((with_reducible refine Local.local_update_if ?_ ?_); exact fun _ _ => rfl; intro c src; simp only [graft, graft_self, graft_result, cond_true, List.append_assoc]; done)
    | with_reducible apply Local.local_ite
    | split

theorem case_IN_SECTION_BEAM_DATA_local (line : Str) (P : ParseResult F) (A : FamilySel)
    (B : MemberSel) :
    Local (graft P { A with sections := true }
        { B with current_section := true })
      (case_IN_SECTION_BEAM_DATA line : Run (Ctx F) Unit) := by
  unfold KFile.case_IN_SECTION_BEAM_DATA
  repeat' first
    | ((with_reducible refine Local.local_assign ?_); exact fun _ _ _ => rfl)
    | ((with_reducible refine Local.local_assign ?_); intro v c src; simp only [graft, graft_self, graft_result, cond_true, List.append_assoc]; done)
    | ((with_reducible refine Local.local_update ?_); exact fun _ _ => rfl)
    | ((with_reducible refine Local.local_update ?_); intro c src; simp only [graft, graft_self, graft_result, cond_true, List.append_assoc]; done)
    | ((with_reducible refine Local.local_read_bind ?_ (fun _ => ?_)); exact fun _ _ => rfl)
    | with_reducible refine Local.local_bind ?_ (fun _ => ?_)
    | ((with_reducible refine Local.local_set_state _ ?_); exact fun _ _ => rfl)
    | with_reducible refine Local.local_try_catch ?_ (fun _ => ?_)
    | ((with_reducible refine Local.local_warn _ _ ?_); exact fun _ _ _ => rfl)
    | ((with_reducible refine Local.local_when_enabled ?_ ?_ ?_); exact fun _ _ => rfl; exact fun _ _ => rfl)
    | with_reducible exact Local.local_pure _
    | with_reducible exact Local.local_eval _
    | ((with_reducible refine Local.local_zoom ?_ ?_); exact fun _ _ => rfl; exact fun _ _ _ => rfl)
    | ((with_reducible refine Local.local_id_list_loop (F := F) _ ?_ _); exact fun _ _ _ => rfl)
    | ((with_reducible refine Local.local_select_state _ _ ?_); exact fun _ _ => rfl)
    | ((with_reducible refine Local.local_update_if ?_ ?_); exact fun _ _ => rfl; exact fun _ _ => rfl)
    | ((with_reducible refine Local.local_update_if ?_ ?_); exact fun _ _ => rfl; intro c src; simp only [graft, graft_self, graft_result, cond_true, List.append_assoc]; done)
    | with_reducible apply Local.local_ite
    | unfold KFile.push_current_section
    | split

theorem case_IN_CONTACT_CARD1_local (line : Str) (P : ParseResult F) (A : FamilySel)
    (B : MemberSel) :
    Local (graft P { A with contacts := true }
        { B with current_contact := true })
      (case_IN_CONTACT_CARD1 line : Run (Ctx F) Unit) := by
  unfold KFile.case_IN_CONTACT_CARD1
  repeat' first
    | ((with_reducible refine Local.local_assign ?_); exact fun _ _ _ => rfl)
    | ((with_reducible refine Local.local_assign ?_); intro v c src; simp only [graft, graft_self, graft_result, cond_true, List.append_assoc]; done)
    | ((with_reducible refine Local.local_update ?_); exact fun _ _ => rfl)
    | ((with_reducible refine Local.local_update ?_); intro c src; simp only [graft, graft_self, graft_result, cond_true, List.append_assoc]; done)
    | ((with_reducible refine Local.local_read_bind ?_ (fun _ => ?_)); exact fun _ _ => rfl)
    | with_reducible refine Local.local_bind ?_ (fun _ => ?_)
    | ((with_reducible refine Local.local_set_state _ ?_); exact fun _ _ => rfl)
    | with_reducible refine Local.local_try_catch ?_ (fun _ => ?_)
    | ((with_reducible refine Local.local_warn _ _ ?_); exact fun _ _ _ => rfl)
    | ((with_reducible refine Local.local_when_enabled ?_ ?_ ?_); exact fun _ _ => rfl; exact fun _ _ => rfl)
    | with_reducible exact Local.local_pure _
    | with_reducible exact Local.local_eval _
    | ((with_reducible refine Local.local_zoom ?_ ?_); exact fun _ _ => rfl; exact fun _ _ _ => rfl)
    | ((with_reducible refine Local.local_id_list_loop (F := F) _ ?_ _); exact fun _ _ _ => rfl)
    | ((with_reducible refine Local.local_select_state _ _ ?_); exact fun _ _ => rfl)
    | ((with_reducible refine Local.local_update_if ?_ ?_); exact fun _ _ => rfl; exact fun _ _ => rfl)
    | ((with_reducible refine Local.local_update_if ?_ ?_); exact fun _ _ => rfl; intro c src; simp only [graft, graft_self, graft_result, cond_true, List.append_assoc]; done)
    | with_reducible apply Local.local_ite
    | split

theorem case_IN_CONTACT_CARD2_local (line : Str) (P : ParseResult F) (A : FamilySel)
    (B : MemberSel) :
    Local (graft P { A with contacts := true }
        { B with current_contact := true })
      (case_IN_CONTACT_CARD2 line : Run (Ctx F) Unit) := by
  unfold KFile.case_IN_CONTACT_CARD2
  repeat' first
    | ((with_reducible refine Local.local_assign ?_); exact fun _ _ _ => rfl)
    | ((with_reducible refine Local.local_assign ?_); intro v c src; simp only [graft, graft_self, graft_result, cond_true, List.append_assoc]; done)
    | ((with_reducible refine Local.local_update ?_); exact fun _ _ => rfl)
    | ((with_reducible refine Local.local_update ?_); intro c src; simp only [graft, graft_self, graft_result, cond_true, List.append_assoc]; done)
    | ((with_reducible refine Local.local_read_bind ?_ (fun _ => ?_)); exact fun _ _ => rfl)
    | with_reducible refine Local.local_bind ?_ (fun _ => ?_)
    | ((with_reducible refine Local.local_set_state _ ?_); exact fun _ _ => rfl)
    | with_reducible refine Local.local_try_catch ?_ (fun _ => ?_)
    | ((with_reducible refine Local.local_warn _ _ ?_); exact fun _ _ _ => rfl)
    | ((with_reducible refine Local.local_when_enabled ?_ ?_ ?_); exact fun _ _ => rfl; exact fun _ _ => rfl)
    | with_reducible exact Local.local_pure _
    | with_reducible exact Local.local_eval _
    | ((with_reducible refine Local.local_zoom ?_ ?_); exact fun _ _ => rfl; exact fun _ _ _ => rfl)
    | ((with_reducible refine Local.local_id_list_loop (F := F) _ ?_ _); exact fun _ _ _ => rfl)
    | ((with_reducible refine Local.local_select_state _ _ ?_); exact fun _ _ => rfl)
    | ((with_reducible refine Local.local_update_if ?_ ?_); exact fun _ _ => rfl; exact fun _ _ => rfl)
    | ((with_reducible refine Local.local_update_if ?_ ?_); exact fun _ _ => rfl; intro c src; simp only [graft, graft_self, graft_result, cond_true, List.append_assoc]; done)
    | with_reducible apply Local.local_ite
    | unfold KFile.push_current_contact
    | split

theorem case_IN_CONTACT_CARD3_local (line : Str) (P : ParseResult F) (A : FamilySel)
    (B : MemberSel) :
    Local (graft P { A with contacts := true }
        { B with current_contact := true })
      (case_IN_CONTACT_CARD3 line : Run (Ctx F) Unit) := by
  unfold KFile.case_IN_CONTACT_CARD3
  repeat' first
    | ((with_reducible refine Local.local_assign ?_); exact fun _ _ _ => rfl)
    | ((with_reducible refine Local.local_assign ?_); intro v c src; simp only [graft, graft_self, graft_result, cond_true, List.append_assoc]; done)
    | ((with_reducible refine Local.local_update ?_); exact fun _ _ => rfl)
    | ((with_reducible refine Local.local_update ?_); intro c src; simp only [graft, graft_self, graft_result, cond_true, List.append_assoc]; done)
    | ((with_reducible refine Local.local_read_bind ?_ (fun _ => ?_)); exact fun _ _ => rfl)
    | with_reducible refine Local.local_bind ?_ (fun _ => ?_)
    | ((with_reducible refine Local.local_set_state _ ?_); exact fun _ _ => rfl)
    | with_reducible refine Local.local_try_catch ?_ (fun _ => ?_)
    | ((with_reducible refine Local.local_warn _ _ ?_); exact fun _ _ _ => rfl)
    | ((with_reducible refine Local.local_when_enabled ?_ ?_ ?_); exact fun _ _ => rfl; exact fun _ _ => rfl)
    | with_reducible exact Local.local_pure _
    | with_reducible exact Local.local_eval _
    | ((with_reducible refine Local.local_zoom ?_ ?_); exact fun _ _ => rfl; exact fun _ _ _ => rfl)
    | ((with_reducible refine Local.local_id_list_loop (F := F) _ ?_ _); exact fun _ _ _ => rfl)
    | ((with_reducible refine Local.local_select_state _ _ ?_); exact fun _ _ => rfl)
    | ((with_reducible refine Local.local_update_if ?_ ?_); exact fun _ _ => rfl; exact fun _ _ => rfl)
    | ((with_reducible refine Local.local_update_if ?_ ?_); exact fun _ _ => rfl; intro c src; simp only [graft, graft_self, graft_result, cond_true, List.append_assoc]; done)
    | with_reducible apply Local.local_ite
    | unfold KFile.push_current_contact
    | split

theorem case_IN_MATERIAL_TITLE_local (line : Str) (P : ParseResult F) (A : FamilySel)
    (B : MemberSel) :
    Local (graft P { A with materials := true }
        { B with current_material := true })
      (case_IN_MATERIAL_TITLE line : Run (Ctx F) Unit) := by
  unfold KFile.case_IN_MATERIAL_TITLE
  repeat' first
    | ((with_reducible refine Local.local_assign ?_); exact fun _ _ _ => rfl)
    | ((with_reducible refine Local.local_assign ?_); intro v c src; simp only [graft, graft_self, graft_result, cond_true, List.append_assoc]; done)
    | ((with_reducible refine Local.local_update ?_); exact fun _ _ => rfl)
    | ((with_reducible refine Local.local_update ?_); intro c src; simp only [graft, graft_self, graft_result, cond_true, List.append_assoc]; done)
    | ((with_reducible refine Local.local_read_bind ?_ (fun _ => ?_)); exact fun _ _ => rfl)
    | with_reducible refine Local.local_bind ?_ (fun _ => ?_)
    | ((with_reducible refine Local.local_set_state _ ?_); exact fun _ _ => rfl)
    | with_reducible refine Local.local_try_catch ?_ (fun _ => ?_)
    | ((with_reducible refine Local.local_warn _ _ ?_); exact fun _ _ _ => rfl)
    | ((with_reducible refine Local.local_when_enabled ?_ ?_ ?_); exact fun _ _ => rfl; exact fun _ _ => rfl)
    | with_reducible exact Local.local_pure _
    | with_reducible exact Local.local_eval _
    | ((with_reducible refine Local.local_zoom ?_ ?_); exact fun _ _ => rfl; exact fun _ _ _ => rfl)
    | ((with_reducible refine Local.local_id_list_loop (F := F) _ ?_ _); exact fun _ _ _ => rfl)
    | ((with_reducible refine Local.local_select_state _ _ ?_); exact fun _ _ => rfl)
    | ((with_reducible refine Local.local_update_if ?_ ?_); exact fun _ _ => rfl; exact fun _ _ => rfl)
    | ((with_reducible refine Local.local_update_if ?_ ?_); exact fun _ _ => rfl; intro c src; simp only [graft, graft_self, graft_result, cond_true, List.append_assoc]; done)
    | with_reducible apply Local.local_ite
    | split

theorem case_IN_MATERIAL_DATA_local (line : Str) (P : ParseResult F) (A : FamilySel)
    (B : MemberSel) :
    Local (graft P { A with materials := true }
        { B with current_material := true })
      (case_IN_MATERIAL_DATA line : Run (Ctx F) Unit) := by
  unfold KFile.case_IN_MATERIAL_DATA
  repeat' first
    | ((with_reducible refine Local.local_assign ?_); exact fun _ _ _ => rfl)
    | ((with_reducible refine Local.local_assign ?_); intro v c src; simp only [graft, graft_self, graft_result, cond_true, List.append_assoc]; done)
    | ((with_reducible refine Local.local_update ?_); exact fun _ _ => rfl)
    | ((with_reducible refine Local.local_update ?_); intro c src; simp only [graft, graft_self, graft_result, cond_true, List.append_assoc]; done)
    | ((with_reducible refine Local.local_read_bind ?_ (fun _ => ?_)); exact fun _ _ => rfl)
    | with_reducible refine Local.local_bind ?_ (fun _ => ?_)
    | ((with_reducible refine Local.local_set_state _ ?_); exact fun _ _ => rfl)
    | with_reducible refine Local.local_try_catch ?_ (fun _ => ?_)
    | ((with_reducible refine Local.local_warn _ _ ?_); exact fun _ _ _ => rfl)
    | ((with_reducible refine Local.local_when_enabled ?_ ?_ ?_); exact fun _ _ => rfl; exact fun _ _ => rfl)
    | with_reducible exact Local.local_pure _
    | with_reducible exact Local.local_eval _
    | ((with_reducible refine Local.local_zoom ?_ ?_); exact fun _ _ => rfl; exact fun _ _ _ => rfl)
    | ((with_reducible refine Local.local_id_list_loop (F := F) _ ?_ _); exact fun _ _ _ => rfl)
    | ((with_reducible refine Local.local_select_state _ _ ?_); exact fun _ _ => rfl)
    | ((with_reducible refine Local.local_update_if ?_ ?_); exact fun _ _ => rfl; exact fun _ _ => rfl)
    | ((with_reducible refine Local.local_update_if ?_ ?_); exact fun _ _ => rfl; intro c src; simp only [graft, graft_self, graft_result, cond_true, List.append_assoc]; done)
    | with_reducible apply Local.local_ite
    | split

theorem case_IN_INCLUDE_local (line : Str) (P : ParseResult F) (A : FamilySel)
    (B : MemberSel) :
    Local (graft P { A with includes := true }
        B)
      (case_IN_INCLUDE line : Run (Ctx F) Unit) := by
  unfold KFile.case_IN_INCLUDE
  repeat' first
    | ((with_reducible refine Local.local_assign ?_); exact fun _ _ _ => rfl)
    | ((with_reducible refine Local.local_assign ?_); intro v c src; simp only [graft, graft_self, graft_result, cond_true, List.append_assoc]; done)
    | ((with_reducible refine Local.local_update ?_); exact fun _ _ => rfl)
    | ((with_reducible refine Local.local_update ?_); intro c src; simp only [graft, graft_self, graft_result, cond_true, List.append_assoc]; done)
    | ((with_reducible refine Local.local_read_bind ?_ (fun _ => ?_)); exact fun _ _ => rfl)
    | with_reducible refine Local.local_bind ?_ (fun _ => ?_)
    | ((with_reducible refine Local.local_set_state _ ?_); exact fun _ _ => rfl)
    | with_reducible refine Local.local_try_catch ?_ (fun _ => ?_)
    | ((with_reducible refine Local.local_warn _ _ ?_); exact fun _ _ _ => rfl)
    | ((with_reducible refine Local.local_when_enabled ?_ ?_ ?_); exact fun _ _ => rfl; exact fun _ _ => rfl)
    | with_reducible exact Local.local_pure _
    | with_reducible exact Local.local_eval _
    | ((with_reducible refine Local.local_zoom ?_ ?_); exact fun _ _ => rfl; exact fun _ _ _ => rfl)
    | ((with_reducible refine Local.local_id_list_loop (F := F) _ ?_ _); exact fun _ _ _ => rfl)
    | ((with_reducible refine Local.local_select_state _ _ ?_); exact fun _ _ => rfl)
    | ((with_reducible refine Local.local_update_if ?_ ?_); exact fun _ _ => rfl; exact fun _ _ => rfl)
    | ((with_reducible refine Local.local_update_if ?_ ?_); exact fun _ _ => rfl; intro c src; simp only [graft, graft_self, graft_result, cond_true, List.append_assoc]; done)
    | with_reducible apply Local.local_ite
    | split

theorem case_IN_CURVE_TITLE_local (line : Str) (P : ParseResult F) (A : FamilySel)
    (B : MemberSel) :
    Local (graft P { A with curves := true }
        { B with current_curve := true })
      (case_IN_CURVE_TITLE line : Run (Ctx F) Unit) := by
  unfold KFile.case_IN_CURVE_TITLE
  repeat' first
    | ((with_reducible refine Local.local_assign ?_); exact fun _ _ _ => rfl)
    | ((with_reducible refine Local.local_assign ?_); intro v c src; simp only [graft, graft_self, graft_result, cond_true, List.append_assoc]; done)
    | ((with_reducible refine Local.local_update ?_); exact fun _ _ => rfl)
    | ((with_reducible refine Local.local_update ?_); intro c src; simp only [graft, graft_self, graft_result, cond_true, List.append_assoc]; done)
    | ((with_reducible refine Local.local_read_bind ?_ (fun _ => ?_)); exact fun _ _ => rfl)
    | with_reducible refine Local.local_bind ?_ (fun _ => ?_)
    | ((with_reducible refine Local.local_set_state _ ?_); exact fun _ _ => rfl)
    | with_reducible refine Local.local_try_catch ?_ (fun _ => ?_)
    | ((with_reducible refine Local.local_warn _ _ ?_); exact fun _ _ _ => rfl)
    | ((with_reducible refine Local.local_when_enabled ?_ ?_ ?_); exact fun _ _ => rfl; exact fun _ _ => rfl)
    | with_reducible exact Local.local_pure _
    | with_reducible exact Local.local_eval _
    | ((with_reducible refine Local.local_zoom ?_ ?_); exact fun _ _ => rfl; exact fun _ _ _ => rfl)
    | ((with_reducible refine Local.local_id_list_loop (F := F) _ ?_ _); exact fun _ _ _ => rfl)
    | ((with_reducible refine Local.local_select_state _ _ ?_); exact fun _ _ => rfl)
    | ((with_reducible refine Local.local_update_if ?_ ?_); exact fun _ _ => rfl; exact fun _ _ => rfl)
    | ((with_reducible refine Local.local_update_if ?_ ?_); exact fun _ _ => rfl; intro c src; simp only [graft, graft_self, graft_result, cond_true, List.append_assoc]; done)
    | with_reducible apply Local.local_ite
    | split

theorem case_IN_CURVE_HEADER_local (line : Str) (P : ParseResult F) (A : FamilySel)
    (B : MemberSel) :
    Local (graft P { A with curves := true }
        { B with current_curve := true })
      (case_IN_CURVE_HEADER line : Run (Ctx F) Unit) := by
  unfold KFile.case_IN_CURVE_HEADER
  repeat' first
    | ((with_reducible refine Local.local_assign ?_); exact fun _ _ _ => rfl)
    | ((with_reducible refine Local.local_assign ?_); intro v c src; simp only [graft, graft_self, graft_result, cond_true, List.append_assoc]; done)
    | ((with_reducible refine Local.local_update ?_); exact fun _ _ => rfl)
    | ((with_reducible refine Local.local_update ?_); intro c src; simp only [graft, graft_self, graft_result, cond_true, List.append_assoc]; done)
    | ((with_reducible refine Local.local_read_bind ?_ (fun _ => ?_)); exact fun _ _ => rfl)
    | with_reducible refine Local.local_bind ?_ (fun _ => ?_)
    | ((with_reducible refine Local.local_set_state _ ?_); exact fun _ _ => rfl)
    | with_reducible refine Local.local_try_catch ?_ (fun _ => ?_)
    | ((with_reducible refine Local.local_warn _ _ ?_); exact fun _ _ _ => rfl)
    | ((with_reducible refine Local.local_when_enabled ?_ ?_ ?_); exact fun _ _ => rfl; exact fun _ _ => rfl)
    | with_reducible exact Local.local_pure _
    | with_reducible exact Local.local_eval _
    | ((with_reducible refine Local.local_zoom ?_ ?_); exact fun _ _ => rfl; exact fun _ _ _ => rfl)
    | ((with_reducible refine Local.local_id_list_loop (F := F) _ ?_ _); exact fun _ _ _ => rfl)
    | ((with_reducible refine Local.local_select_state _ _ ?_); exact fun _ _ => rfl)
    | ((with_reducible refine Local.local_update_if ?_ ?_); exact fun _ _ => rfl; exact fun _ _ => rfl)
    | ((with_reducible refine Local.local_update_if ?_ ?_); exact fun _ _ => rfl; intro c src; simp only [graft, graft_self, graft_result, cond_true, List.append_assoc]; done)
    | with_reducible apply Local.local_ite
    | split

theorem case_IN_CURVE_DATA_local (line : Str) (P : ParseResult F) (A : FamilySel)
    (B : MemberSel) :
    Local (graft P { A with curves := true }
        { B with current_curve := true })
      (case_IN_CURVE_DATA line : Run (Ctx F) Unit) := by
  unfold KFile.case_IN_CURVE_DATA
  repeat' first
    | ((with_reducible refine Local.local_assign ?_); exact fun _ _ _ => rfl)
    | ((with_reducible refine Local.local_assign ?_); intro v c src; simp only [graft, graft_self, graft_result, cond_true, List.append_assoc]; done)
    | ((with_reducible refine Local.local_update ?_); exact fun _ _ => rfl)
    | ((with_reducible refine Local.local_update ?_); intro c src; simp only [graft, graft_self, graft_result, cond_true, List.append_assoc]; done)
    | ((with_reducible refine Local.local_read_bind ?_ (fun _ => ?_)); exact fun _ _ => rfl)
    | with_reducible refine Local.local_bind ?_ (fun _ => ?_)
    | ((with_reducible refine Local.local_set_state _ ?_); exact fun _ _ => rfl)
    | with_reducible refine Local.local_try_catch ?_ (fun _ => ?_)
    | ((with_reducible refine Local.local_warn _ _ ?_); exact fun _ _ _ => rfl)
    | ((with_reducible refine Local.local_when_enabled ?_ ?_ ?_); exact fun _ _ => rfl; exact fun _ _ => rfl)
    | with_reducible exact Local.local_pure _
    | with_reducible exact Local.local_eval _
    | ((with_reducible refine Local.local_zoom ?_ ?_); exact fun _ _ => rfl; exact fun _ _ _ => rfl)
    | ((with_reducible refine Local.local_id_list_loop (F := F) _ ?_ _); exact fun _ _ _ => rfl)
    | ((with_reducible refine Local.local_select_state _ _ ?_); exact fun _ _ => rfl)
    | ((with_reducible refine Local.local_update_if ?_ ?_); exact fun _ _ => rfl; exact fun _ _ => rfl)
    | ((with_reducible refine Local.local_update_if ?_ ?_); exact fun _ _ => rfl; intro c src; simp only [graft, graft_self, graft_result, cond_true, List.append_assoc]; done)
    | with_reducible apply Local.local_ite
    | split

theorem case_IN_BOUNDARY_SPC_local (line : Str) (P : ParseResult F) (A : FamilySel)
    (B : MemberSel) :
    Local (graft P { A with boundaries := true }
        { B with current_boundary_spc := true })
      (case_IN_BOUNDARY_SPC line : Run (Ctx F) Unit) := by
  unfold KFile.case_IN_BOUNDARY_SPC
  repeat' first
    | ((with_reducible refine Local.local_assign ?_); exact fun _ _ _ => rfl)
    | ((with_reducible refine Local.local_assign ?_); intro v c src; simp only [graft, graft_self, graft_result, cond_true, List.append_assoc]; done)
    | ((with_reducible refine Local.local_update ?_); exact fun _ _ => rfl)
    | ((with_reducible refine Local.local_update ?_); intro c src; simp only [graft, graft_self, graft_result, cond_true, List.append_assoc]; done)
    | ((with_reducible refine Local.local_read_bind ?_ (fun _ => ?_)); exact fun _ _ => rfl)
    | with_reducible refine Local.local_bind ?_ (fun _ => ?_)
    | ((with_reducible refine Local.local_set_state _ ?_); exact fun _ _ => rfl)
    | with_reducible refine Local.local_try_catch ?_ (fun _ => ?_)
    | ((with_reducible refine Local.local_warn _ _ ?_); exact fun _ _ _ => rfl)
    | ((with_reducible refine Local.local_when_enabled ?_ ?_ ?_); exact fun _ _ => rfl; exact fun _ _ => rfl)
    | with_reducible exact Local.local_pure _
    | with_reducible exact Local.local_eval _
    | ((with_reducible refine Local.local_zoom ?_ ?_); exact fun _ _ => rfl; exact fun _ _ _ => rfl)
    | ((with_reducible refine Local.local_id_list_loop (F := F) _ ?_ _); exact fun _ _ _ => rfl)
    | ((with_reducible refine Local.local_select_state _ _ ?_); exact fun _ _ => rfl)
    | ((with_reducible refine Local.local_update_if ?_ ?_); exact fun _ _ => rfl; exact fun _ _ => rfl)
    | ((with_reducible refine Local.local_update_if ?_ ?_); exact fun _ _ => rfl; intro c src; simp only [graft, graft_self, graft_result, cond_true, List.append_assoc]; done)
    | with_reducible apply Local.local_ite
    | split

theorem case_IN_BOUNDARY_MOTION_local (line : Str) (P : ParseResult F) (A : FamilySel)
    (B : MemberSel) :
    Local (graft P { A with boundaries := true }
        { B with current_boundary_motion := true })
      (case_IN_BOUNDARY_MOTION line : Run (Ctx F) Unit) := by
  unfold KFile.case_IN_BOUNDARY_MOTION
  repeat' first
    | ((with_reducible refine Local.local_assign ?_); exact fun _ _ _ => rfl)
    | ((with_reducible refine Local.local_assign ?_); intro v c src; simp only [graft, graft_self, graft_result, cond_true, List.append_assoc]; done)
    | ((with_reducible refine Local.local_update ?_); exact fun _ _ => rfl)
    | ((with_reducible refine Local.local_update ?_); intro c src; simp only [graft, graft_self, graft_result, cond_true, List.append_assoc]; done)
    | ((with_reducible refine Local.local_read_bind ?_ (fun _ => ?_)); exact fun _ _ => rfl)
    | with_reducible refine Local.local_bind ?_ (fun _ => ?_)
    | ((with_reducible refine Local.local_set_state _ ?_); exact fun _ _ => rfl)
    | with_reducible refine Local.local_try_catch ?_ (fun _ => ?_)
    | ((with_reducible refine Local.local_warn _ _ ?_); exact fun _ _ _ => rfl)
    | ((with_reducible refine Local.local_when_enabled ?_ ?_ ?_); exact fun _ _ => rfl; exact fun _ _ => rfl)
    | with_reducible exact Local.local_pure _
    | with_reducible exact Local.local_eval _
    | ((with_reducible refine Local.local_zoom ?_ ?_); exact fun _ _ => rfl; exact fun _ _ _ => rfl)
    | ((with_reducible refine Local.local_id_list_loop (F := F) _ ?_ _); exact fun _ _ _ => rfl)
    | ((with_reducible refine Local.local_select_state _ _ ?_); exact fun _ _ => rfl)
    | ((with_reducible refine Local.local_update_if ?_ ?_); exact fun _ _ => rfl; exact fun _ _ => rfl)
    | ((with_reducible refine Local.local_update_if ?_ ?_); exact fun _ _ => rfl; intro c src; simp only [graft, graft_self, graft_result, cond_true, List.append_assoc]; done)
    | with_reducible apply Local.local_ite
    | split

theorem case_IN_LOAD_NODE_local (line : Str) (P : ParseResult F) (A : FamilySel)
    (B : MemberSel) :
    Local (graft P { A with loads := true }
        { B with current_load_node := true })
      (case_IN_LOAD_NODE line : Run (Ctx F) Unit) := by
  unfold KFile.case_IN_LOAD_NODE
  repeat' first
    | ((with_reducible refine Local.local_assign ?_); exact fun _ _ _ => rfl)
    | ((with_reducible refine Local.local_assign ?_); intro v c src; simp only [graft, graft_self, graft_result, cond_true, List.append_assoc]; done)
    | ((with_reducible refine Local.local_update ?_); exact fun _ _ => rfl)
    | ((with_reducible refine Local.local_update ?_); intro c src; simp only [graft, graft_self, graft_result, cond_true, List.append_assoc]; done)
    | ((with_reducible refine Local.local_read_bind ?_ (fun _ => ?_)); exact fun _ _ => rfl)
    | with_reducible refine Local.local_bind ?_ (fun _ => ?_)
    | ((with_reducible refine Local.local_set_state _ ?_); exact fun _ _ => rfl)
    | with_reducible refine Local.local_try_catch ?_ (fun _ => ?_)
    | ((with_reducible refine Local.local_warn _ _ ?_); exact fun _ _ _ => rfl)
    | ((with_reducible refine Local.local_when_enabled ?_ ?_ ?_); exact fun _ _ => rfl; exact fun _ _ => rfl)
    | with_reducible exact Local.local_pure _
    | with_reducible exact Local.local_eval _
    | ((with_reducible refine Local.local_zoom ?_ ?_); exact fun _ _ => rfl; exact fun _ _ _ => rfl)
    | ((with_reducible refine Local.local_id_list_loop (F := F) _ ?_ _); exact fun _ _ _ => rfl)
    | ((with_reducible refine Local.local_select_state _ _ ?_); exact fun _ _ => rfl)
    | ((with_reducible refine Local.local_update_if ?_ ?_); exact fun _ _ => rfl; exact fun _ _ => rfl)
    | ((with_reducible refine Local.local_update_if ?_ ?_); exact fun _ _ => rfl; intro c src; simp only [graft, graft_self, graft_result, cond_true, List.append_assoc]; done)
    | with_reducible apply Local.local_ite
    | split

theorem case_IN_LOAD_SEGMENT_local (line : Str) (P : ParseResult F) (A : FamilySel)
    (B : MemberSel) :
    Local (graft P { A with loads := true }
        B)
      (case_IN_LOAD_SEGMENT line : Run (Ctx F) Unit) := by
  unfold KFile.case_IN_LOAD_SEGMENT
  repeat' first
    | ((with_reducible refine Local.local_assign ?_); exact fun _ _ _ => rfl)
    | ((with_reducible refine Local.local_assign ?_); intro v c src; simp only [graft, graft_self, graft_result, cond_true, List.append_assoc]; done)
    | ((with_reducible refine Local.local_update ?_); exact fun _ _ => rfl)
    | ((with_reducible refine Local.local_update ?_); intro c src; simp only [graft, graft_self, graft_result, cond_true, List.append_assoc]; done)
    | ((with_reducible refine Local.local_read_bind ?_ (fun _ => ?_)); exact fun _ _ => rfl)
    | with_reducible refine Local.local_bind ?_ (fun _ => ?_)
    | ((with_reducible refine Local.local_set_state _ ?_); exact fun _ _ => rfl)
    | with_reducible refine Local.local_try_catch ?_ (fun _ => ?_)
    | ((with_reducible refine Local.local_warn _ _ ?_); exact fun _ _ _ => rfl)
    | ((with_reducible refine Local.local_when_enabled ?_ ?_ ?_); exact fun _ _ => rfl; exact fun _ _ => rfl)
    | with_reducible exact Local.local_pure _
    | with_reducible exact Local.local_eval _
    | ((with_reducible refine Local.local_zoom ?_ ?_); exact fun _ _ => rfl; exact fun _ _ _ => rfl)
    | ((with_reducible refine Local.local_id_list_loop (F := F) _ ?_ _); exact fun _ _ _ => rfl)
    | ((with_reducible refine Local.local_select_state _ _ ?_); exact fun _ _ => rfl)
    | ((with_reducible refine Local.local_update_if ?_ ?_); exact fun _ _ => rfl; exact fun _ _ => rfl)
    | ((with_reducible refine Local.local_update_if ?_ ?_); exact fun _ _ => rfl; intro c src; simp only [graft, graft_self, graft_result, cond_true, List.append_assoc]; done)
    | with_reducible apply Local.local_ite
    | split

theorem case_IN_LOAD_BODY_local (line : Str) (P : ParseResult F) (A : FamilySel)
    (B : MemberSel) :
    Local (graft P { A with loads := true }
        { B with current_load_body := true })
      (case_IN_LOAD_BODY line : Run (Ctx F) Unit) := by
  unfold KFile.case_IN_LOAD_BODY
  repeat' first
    | ((with_reducible refine Local.local_assign ?_); exact fun _ _ _ => rfl)
    | ((with_reducible refine Local.local_assign ?_); intro v c src; simp only [graft, graft_self, graft_result, cond_true, List.append_assoc]; done)
    | ((with_reducible refine Local.local_update ?_); exact fun _ _ => rfl)
    | ((with_reducible refine Local.local_update ?_); intro c src; simp only [graft, graft_self, graft_result, cond_true, List.append_assoc]; done)
    | ((with_reducible refine Local.local_read_bind ?_ (fun _ => ?_)); exact fun _ _ => rfl)
    | with_reducible refine Local.local_bind ?_ (fun _ => ?_)
    | ((with_reducible refine Local.local_set_state _ ?_); exact fun _ _ => rfl)
    | with_reducible refine Local.local_try_catch ?_ (fun _ => ?_)
    | ((with_reducible refine Local.local_warn _ _ ?_); exact fun _ _ _ => rfl)
    | ((with_reducible refine Local.local_when_enabled ?_ ?_ ?_); exact fun _ _ => rfl; exact fun _ _ => rfl)
    | with_reducible exact Local.local_pure _
    | with_reducible exact Local.local_eval _
    | ((with_reducible refine Local.local_zoom ?_ ?_); exact fun _ _ => rfl; exact fun _ _ _ => rfl)
    | ((with_reducible refine Local.local_id_list_loop (F := F) _ ?_ _); exact fun _ _ _ => rfl)
    | ((with_reducible refine Local.local_select_state _ _ ?_); exact fun _ _ => rfl)
    | ((with_reducible refine Local.local_update_if ?_ ?_); exact fun _ _ => rfl; exact fun _ _ => rfl)
    | ((with_reducible refine Local.local_update_if ?_ ?_); exact fun _ _ => rfl; intro c src; simp only [graft, graft_self, graft_result, cond_true, List.append_assoc]; done)
    | with_reducible apply Local.local_ite
    | split

theorem case_IN_CONTROL_TERMINATION_local (line : Str) (P : ParseResult F) (A : FamilySel)
    (B : MemberSel) :
    Local (graft P { A with controls := true }
        B)
      (case_IN_CONTROL_TERMINATION line : Run (Ctx F) Unit) := by
  unfold KFile.case_IN_CONTROL_TERMINATION
  repeat' first
    | ((with_reducible refine Local.local_assign ?_); exact fun _ _ _ => rfl)
    | ((with_reducible refine Local.local_assign ?_); intro v c src; simp only [graft, graft_self, graft_result, cond_true, List.append_assoc]; done)
    | ((with_reducible refine Local.local_update ?_); exact fun _ _ => rfl)
    | ((with_reducible refine Local.local_update ?_); intro c src; simp only [graft, graft_self, graft_result, cond_true, List.append_assoc]; done)
    | ((with_reducible refine Local.local_read_bind ?_ (fun _ => ?_)); exact fun _ _ => rfl)
    | with_reducible refine Local.local_bind ?_ (fun _ => ?_)
    | ((with_reducible refine Local.local_set_state _ ?_); exact fun _ _ => rfl)
    | with_reducible refine Local.local_try_catch ?_ (fun _ => ?_)
    | ((with_reducible refine Local.local_warn _ _ ?_); exact fun _ _ _ => rfl)
    | ((with_reducible refine Local.local_when_enabled ?_ ?_ ?_); exact fun _ _ => rfl; exact fun _ _ => rfl)
    | with_reducible exact Local.local_pure _
    | with_reducible exact Local.local_eval _
    | ((with_reducible refine Local.local_zoom ?_ ?_); exact fun _ _ => rfl; exact fun _ _ _ => rfl)
    | ((with_reducible refine Local.local_id_list_loop (F := F) _ ?_ _); exact fun _ _ _ => rfl)
    | ((with_reducible refine Local.local_select_state _ _ ?_); exact fun _ _ => rfl)
    | ((with_reducible refine Local.local_update_if ?_ ?_); exact fun _ _ => rfl; exact fun _ _ => rfl)
    | ((with_reducible refine Local.local_update_if ?_ ?_); exact fun _ _ => rfl; intro c src; simp only [graft, graft_self, graft_result, cond_true, List.append_assoc]; done)
    | with_reducible apply Local.local_ite
    | split

theorem case_IN_CONTROL_TIMESTEP_local (line : Str) (P : ParseResult F) (A : FamilySel)
    (B : MemberSel) :
    Local (graft P { A with controls := true }
        B)
      (case_IN_CONTROL_TIMESTEP line : Run (Ctx F) Unit) := by
  unfold KFile.case_IN_CONTROL_TIMESTEP
  repeat' first
    | ((with_reducible refine Local.local_assign ?_); exact fun _ _ _ => rfl)
    | ((with_reducible refine Local.local_assign ?_); intro v c src; simp only [graft, graft_self, graft_result, cond_true, List.append_assoc]; done)
    | ((with_reducible refine Local.local_update ?_); exact fun _ _ => rfl)
    | ((with_reducible refine Local.local_update ?_); intro c src; simp only [graft, graft_self, graft_result, cond_true, List.append_assoc]; done)
    | ((with_reducible refine Local.local_read_bind ?_ (fun _ => ?_)); exact fun _ _ => rfl)
    | with_reducible refine Local.local_bind ?_ (fun _ => ?_)
    | ((with_reducible refine Local.local_set_state _ ?_); exact fun _ _ => rfl)
    | with_reducible refine Local.local_try_catch ?_ (fun _ => ?_)
    | ((with_reducible refine Local.local_warn _ _ ?_); exact fun _ _ _ => rfl)
    | ((with_reducible refine Local.local_when_enabled ?_ ?_ ?_); exact fun _ _ => rfl; exact fun _ _ => rfl)
    | with_reducible exact Local.local_pure _
    | with_reducible exact Local.local_eval _
    | ((with_reducible refine Local.local_zoom ?_ ?_); exact fun _ _ => rfl; exact fun _ _ _ => rfl)
    | ((with_reducible refine Local.local_id_list_loop (F := F) _ ?_ _); exact fun _ _ _ => rfl)
    | ((with_reducible refine Local.local_select_state _ _ ?_); exact fun _ _ => rfl)
    | ((with_reducible refine Local.local_update_if ?_ ?_); exact fun _ _ => rfl; exact fun _ _ => rfl)
    | ((with_reducible refine Local.local_update_if ?_ ?_); exact fun _ _ => rfl; intro c src; simp only [graft, graft_self, graft_result, cond_true, List.append_assoc]; done)
    | with_reducible apply Local.local_ite
    | split

theorem case_IN_CONTROL_ENERGY_local (line : Str) (P : ParseResult F) (A : FamilySel)
    (B : MemberSel) :
    Local (graft P { A with controls := true }
        B)
      (case_IN_CONTROL_ENERGY line : Run (Ctx F) Unit) := by
  unfold KFile.case_IN_CONTROL_ENERGY
  repeat' first
    | ((with_reducible refine Local.local_assign ?_); exact fun _ _ _ => rfl)
    | ((with_reducible refine Local.local_assign ?_); intro v c src; simp only [graft, graft_self, graft_result, cond_true, List.append_assoc]; done)
    | ((with_reducible refine Local.local_update ?_); exact fun _ _ => rfl)
    | ((with_reducible refine Local.local_update ?_); intro c src; simp only [graft, graft_self, graft_result, cond_true, List.append_assoc]; done)
    | ((with_reducible refine Local.local_read_bind ?_ (fun _ => ?_)); exact fun _ _ => rfl)
    | with_reducible refine Local.local_bind ?_ (fun _ => ?_)
    | ((with_reducible refine Local.local_set_state _ ?_); exact fun _ _ => rfl)
    | with_reducible refine Local.local_try_catch ?_ (fun _ => ?_)
    | ((with_reducible refine Local.local_warn _ _ ?_); exact fun _ _ _ => rfl)
    | ((with_reducible refine Local.local_when_enabled ?_ ?_ ?_); exact fun _ _ => rfl; exact fun _ _ => rfl)
    | with_reducible exact Local.local_pure _
    | with_reducible exact Local.local_eval _
    | ((with_reducible refine Local.local_zoom ?_ ?_); exact fun _ _ => rfl; exact fun _ _ _ => rfl)
    | ((with_reducible refine Local.local_id_list_loop (F := F) _ ?_ _); exact fun _ _ _ => rfl)
    | ((with_reducible refine Local.local_select_state _ _ ?_); exact fun _ _ => rfl)
    | ((with_reducible refine Local.local_update_if ?_ ?_); exact fun _ _ => rfl; exact fun _ _ => rfl)
    | ((with_reducible refine Local.local_update_if ?_ ?_); exact fun _ _ => rfl; intro c src; simp only [graft, graft_self, graft_result, cond_true, List.append_assoc]; done)
    | with_reducible apply Local.local_ite
    | split

theorem case_IN_CONTROL_OUTPUT_local (line : Str) (P : ParseResult F) (A : FamilySel)
    (B : MemberSel) :
    Local (graft P { A with controls := true }
        B)
      (case_IN_CONTROL_OUTPUT line : Run (Ctx F) Unit) := by
  unfold KFile.case_IN_CONTROL_OUTPUT
  repeat' first
    | ((with_reducible refine Local.local_assign ?_); exact fun _ _ _ => rfl)
    | ((with_reducible refine Local.local_assign ?_); intro v c src; simp only [graft, graft_self, graft_result, cond_true, List.append_assoc]; done)
    | ((with_reducible refine Local.local_update ?_); exact fun _ _ => rfl)
    | ((with_reducible refine Local.local_update ?_); intro c src; simp only [graft, graft_self, graft_result, cond_true, List.append_assoc]; done)
    | ((with_reducible refine Local.local_read_bind ?_ (fun _ => ?_)); exact fun _ _ => rfl)
    | with_reducible refine Local.local_bind ?_ (fun _ => ?_)
    | ((with_reducible refine Local.local_set_state _ ?_); exact fun _ _ => rfl)
    | with_reducible refine Local.local_try_catch ?_ (fun _ => ?_)
    | ((with_reducible refine Local.local_warn _ _ ?_); exact fun _ _ _ => rfl)
    | ((with_reducible refine Local.local_when_enabled ?_ ?_ ?_); exact fun _ _ => rfl; exact fun _ _ => rfl)
    | with_reducible exact Local.local_pure _
    | with_reducible exact Local.local_eval _
    | ((with_reducible refine Local.local_zoom ?_ ?_); exact fun _ _ => rfl; exact fun _ _ _ => rfl)
    | ((with_reducible refine Local.local_id_list_loop (F := F) _ ?_ _); exact fun _ _ _ => rfl)
    | ((with_reducible refine Local.local_select_state _ _ ?_); exact fun _ _ => rfl)
    | ((with_reducible refine Local.local_update_if ?_ ?_); exact fun _ _ => rfl; exact fun _ _ => rfl)
    | ((with_reducible refine Local.local_update_if ?_ ?_); exact fun _ _ => rfl; intro c src; simp only [graft, graft_self, graft_result, cond_true, List.append_assoc]; done)
    | with_reducible apply Local.local_ite
    | split

theorem case_IN_CONTROL_SHELL_local (line : Str) (P : ParseResult F) (A : FamilySel)
    (B : MemberSel) :
    Local (graft P { A with controls := true }
        B)
      (case_IN_CONTROL_SHELL line : Run (Ctx F) Unit) := by
  unfold KFile.case_IN_CONTROL_SHELL
  repeat' first
    | ((with_reducible refine Local.local_assign ?_); exact fun _ _ _ => rfl)
    | ((with_reducible refine Local.local_assign ?_); intro v c src; simp only [graft, graft_self, graft_result, cond_true, List.append_assoc]; done)
    | ((with_reducible refine Local.local_update ?_); exact fun _ _ => rfl)
    | ((with_reducible refine Local.local_update ?_); intro c src; simp only [graft, graft_self, graft_result, cond_true, List.append_assoc]; done)
    | ((with_reducible refine Local.local_read_bind ?_ (fun _ => ?_)); exact fun _ _ => rfl)
    | with_reducible refine Local.local_bind ?_ (fun _ => ?_)
    | ((with_reducible refine Local.local_set_state _ ?_); exact fun _ _ => rfl)
    | with_reducible refine Local.local_try_catch ?_ (fun _ => ?_)
    | ((with_reducible refine Local.local_warn _ _ ?_); exact fun _ _ _ => rfl)
    | ((with_reducible refine Local.local_when_enabled ?_ ?_ ?_); exact fun _ _ => rfl; exact fun _ _ => rfl)
    | with_reducible exact Local.local_pure _
    | with_reducible exact Local.local_eval _
    | ((with_reducible refine Local.local_zoom ?_ ?_); exact fun _ _ => rfl; exact fun _ _ _ => rfl)
    | ((with_reducible refine Local.local_id_list_loop (F := F) _ ?_ _); exact fun _ _ _ => rfl)
    | ((with_reducible refine Local.local_select_state _ _ ?_); exact fun _ _ => rfl)
    | ((with_reducible refine Local.local_update_if ?_ ?_); exact fun _ _ => rfl; exact fun _ _ => rfl)
    | ((with_reducible refine Local.local_update_if ?_ ?_); exact fun _ _ => rfl; intro c src; simp only [graft, graft_self, graft_result, cond_true, List.append_assoc]; done)
    | with_reducible apply Local.local_ite
    | split

theorem case_IN_CONTROL_CONTACT_local (line : Str) (P : ParseResult F) (A : FamilySel)
    (B : MemberSel) :
    Local (graft P { A with controls := true }
        B)
      (case_IN_CONTROL_CONTACT line : Run (Ctx F) Unit) := by
  unfold KFile.case_IN_CONTROL_CONTACT
  repeat' first
    | ((with_reducible refine Local.local_assign ?_); exact fun _ _ _ => rfl)
    | ((with_reducible refine Local.local_assign ?_); intro v c src; simp only [graft, graft_self, graft_result, cond_true, List.append_assoc]; done)
    | ((with_reducible refine Local.local_update ?_); exact fun _ _ => rfl)
    | ((with_reducible refine Local.local_update ?_); intro c src; simp only [graft, graft_self, graft_result, cond_true, List.append_assoc]; done)
    | ((with_reducible refine Local.local_read_bind ?_ (fun _ => ?_)); exact fun _ _ => rfl)
    | with_reducible refine Local.local_bind ?_ (fun _ => ?_)
    | ((with_reducible refine Local.local_set_state _ ?_); exact fun _ _ => rfl)
    | with_reducible refine Local.local_try_catch ?_ (fun _ => ?_)
    | ((with_reducible refine Local.local_warn _ _ ?_); exact fun _ _ _ => rfl)
    | ((with_reducible refine Local.local_when_enabled ?_ ?_ ?_); exact fun _ _ => rfl; exact fun _ _ => rfl)
    | with_reducible exact Local.local_pure _
    | with_reducible exact Local.local_eval _
    | ((with_reducible refine Local.local_zoom ?_ ?_); exact fun _ _ => rfl; exact fun _ _ _ => rfl)
    | ((with_reducible refine Local.local_id_list_loop (F := F) _ ?_ _); exact fun _ _ _ => rfl)
    | ((with_reducible refine Local.local_select_state _ _ ?_); exact fun _ _ => rfl)
    | ((with_reducible refine Local.local_update_if ?_ ?_); exact fun _ _ => rfl; exact fun _ _ => rfl)
    | ((with_reducible refine Local.local_update_if ?_ ?_); exact fun _ _ => rfl; intro c src; simp only [graft, graft_self, graft_result, cond_true, List.append_assoc]; done)
    | with_reducible apply Local.local_ite
    | split

theorem case_IN_CONTROL_HOURGLASS_local (line : Str) (P : ParseResult F) (A : FamilySel)
    (B : MemberSel) :
    Local (graft P { A with controls := true }
        B)
      (case_IN_CONTROL_HOURGLASS line : Run (Ctx F) Unit) := by
  unfold KFile.case_IN_CONTROL_HOURGLASS
  repeat' first
    | ((with_reducible refine Local.local_assign ?_); exact fun _ _ _ => rfl)
    | ((with_reducible refine Local.local_assign ?_); intro v c src; simp only [graft, graft_self, graft_result, cond_true, List.append_assoc]; done)
    | ((with_reducible refine Local.local_update ?_); exact fun _ _ => rfl)
    | ((with_reducible refine Local.local_update ?_); intro c src; simp only [graft, graft_self, graft_result, cond_true, List.append_assoc]; done)
    | ((with_reducible refine Local.local_read_bind ?_ (fun _ => ?_)); exact fun _ _ => rfl)
    | with_reducible refine Local.local_bind ?_ (fun _ => ?_)
    | ((with_reducible refine Local.local_set_state _ ?_); exact fun _ _ => rfl)
    | with_reducible refine Local.local_try_catch ?_ (fun _ => ?_)
    | ((with_reducible refine Local.local_warn _ _ ?_); exact fun _ _ _ => rfl)
    | ((with_reducible refine Local.local_when_enabled ?_ ?_ ?_); exact fun _ _ => rfl; exact fun _ _ => rfl)
    | with_reducible exact Local.local_pure _
    | with_reducible exact Local.local_eval _
    | ((with_reducible refine Local.local_zoom ?_ ?_); exact fun _ _ => rfl; exact fun _ _ _ => rfl)
    | ((with_reducible refine Local.local_id_list_loop (F := F) _ ?_ _); exact fun _ _ _ => rfl)
    | ((with_reducible refine Local.local_select_state _ _ ?_); exact fun _ _ => rfl)
    | ((with_reducible refine Local.local_update_if ?_ ?_); exact fun _ _ => rfl; exact fun _ _ => rfl)
    | ((with_reducible refine Local.local_update_if ?_ ?_); exact fun _ _ => rfl; intro c src; simp only [graft, graft_self, graft_result, cond_true, List.append_assoc]; done)
    | with_reducible apply Local.local_ite
    | split

theorem case_IN_CONTROL_BULK_VISCOSITY_local (line : Str) (P : ParseResult F) (A : FamilySel)
    (B : MemberSel) :
    Local (graft P { A with controls := true }
        B)
      (case_IN_CONTROL_BULK_VISCOSITY line : Run (Ctx F) Unit) := by
  unfold KFile.case_IN_CONTROL_BULK_VISCOSITY
  repeat' first
    | ((with_reducible refine Local.local_assign ?_); exact fun _ _ _ => rfl)
    | ((with_reducible refine Local.local_assign ?_); intro v c src; simp only [graft, graft_self, graft_result, cond_true, List.append_assoc]; done)
    | ((with_reducible refine Local.local_update ?_); exact fun _ _ => rfl)
    | ((with_reducible refine Local.local_update ?_); intro c src; simp only [graft, graft_self, graft_result, cond_true, List.append_assoc]; done)
    | ((with_reducible refine Local.local_read_bind ?_ (fun _ => ?_)); exact fun _ _ => rfl)
    | with_reducible refine Local.local_bind ?_ (fun _ => ?_)
    | ((with_reducible refine Local.local_set_state _ ?_); exact fun _ _ => rfl)
    | with_reducible refine Local.local_try_catch ?_ (fun _ => ?_)
    | ((with_reducible refine Local.local_warn _ _ ?_); exact fun _ _ _ => rfl)
    | ((with_reducible refine Local.local_when_enabled ?_ ?_ ?_); exact fun _ _ => rfl; exact fun _ _ => rfl)
    | with_reducible exact Local.local_pure _
    | with_reducible exact Local.local_eval _
    | ((with_reducible refine Local.local_zoom ?_ ?_); exact fun _ _ => rfl; exact fun _ _ _ => rfl)
    | ((with_reducible refine Local.local_id_list_loop (F := F) _ ?_ _); exact fun _ _ _ => rfl)
    | ((with_reducible refine Local.local_select_state _ _ ?_); exact fun _ _ => rfl)
    | ((with_reducible refine Local.local_update_if ?_ ?_); exact fun _ _ => rfl; exact fun _ _ => rfl)
    | ((with_reducible refine Local.local_update_if ?_ ?_); exact fun _ _ => rfl; intro c src; simp only [graft, graft_self, graft_result, cond_true, List.append_assoc]; done)
    | with_reducible apply Local.local_ite
    | split

theorem case_IN_DATABASE_BINARY_local (line : Str) (P : ParseResult F) (A : FamilySel)
    (B : MemberSel) :
    Local (graft P { A with databases := true }
        { B with current_database_binary := true })
      (case_IN_DATABASE_BINARY line : Run (Ctx F) Unit) := by
  unfold KFile.case_IN_DATABASE_BINARY
  repeat' first
    | ((with_reducible refine Local.local_assign ?_); exact fun _ _ _ => rfl)
    | ((with_reducible refine Local.local_assign ?_); intro v c src; simp only [graft, graft_self, graft_result, cond_true, List.append_assoc]; done)
    | ((with_reducible refine Local.local_update ?_); exact fun _ _ => rfl)
    | ((with_reducible refine Local.local_update ?_); intro c src; simp only [graft, graft_self, graft_result, cond_true, List.append_assoc]; done)
    | ((with_reducible refine Local.local_read_bind ?_ (fun _ => ?_)); exact fun _ _ => rfl)
    | with_reducible refine Local.local_bind ?_ (fun _ => ?_)
    | ((with_reducible refine Local.local_set_state _ ?_); exact fun _ _ => rfl)
    | with_reducible refine Local.local_try_catch ?_ (fun _ => ?_)
    | ((with_reducible refine Local.local_warn _ _ ?_); exact fun _ _ _ => rfl)
    | ((with_reducible refine Local.local_when_enabled ?_ ?_ ?_); exact fun _ _ => rfl; exact fun _ _ => rfl)
    | with_reducible exact Local.local_pure _
    | with_reducible exact Local.local_eval _
    | ((with_reducible refine Local.local_zoom ?_ ?_); exact fun _ _ => rfl; exact fun _ _ _ => rfl)
    | ((with_reducible refine Local.local_id_list_loop (F := F) _ ?_ _); exact fun _ _ _ => rfl)
    | ((with_reducible refine Local.local_select_state _ _ ?_); exact fun _ _ => rfl)
    | ((with_reducible refine Local.local_update_if ?_ ?_); exact fun _ _ => rfl; exact fun _ _ => rfl)
    | ((with_reducible refine Local.local_update_if ?_ ?_); exact fun _ _ => rfl; intro c src; simp only [graft, graft_self, graft_result, cond_true, List.append_assoc]; done)
    | with_reducible apply Local.local_ite
    | split

theorem case_IN_DATABASE_ASCII_local (line : Str) (P : ParseResult F) (A : FamilySel)
    (B : MemberSel) :
    Local (graft P { A with databases := true }
        { B with current_database_ascii := true })
      (case_IN_DATABASE_ASCII line : Run (Ctx F) Unit) := by
  unfold KFile.case_IN_DATABASE_ASCII
  repeat' first
    | ((with_reducible refine Local.local_assign ?_); exact fun _ _ _ => rfl)
    | ((with_reducible refine Local.local_assign ?_); intro v c src; simp only [graft, graft_self, graft_result, cond_true, List.append_assoc]; done)
    | ((with_reducible refine Local.local_update ?_); exact fun _ _ => rfl)
    | ((with_reducible refine Local.local_update ?_); intro c src; simp only [graft, graft_self, graft_result, cond_true, List.append_assoc]; done)
    | ((with_reducible refine Local.local_read_bind ?_ (fun _ => ?_)); exact fun _ _ => rfl)
    | with_reducible refine Local.local_bind ?_ (fun _ => ?_)
    | ((with_reducible refine Local.local_set_state _ ?_); exact fun _ _ => rfl)
    | with_reducible refine Local.local_try_catch ?_ (fun _ => ?_)
    | ((with_reducible refine Local.local_warn _ _ ?_); exact fun _ _ _ => rfl)
    | ((with_reducible refine Local.local_when_enabled ?_ ?_ ?_); exact fun _ _ => rfl; exact fun _ _ => rfl)
    | with_reducible exact Local.local_pure _
    | with_reducible exact Local.local_eval _
    | ((with_reducible refine Local.local_zoom ?_ ?_); exact fun _ _ => rfl; exact fun _ _ _ => rfl)
    | ((with_reducible refine Local.local_id_list_loop (F := F) _ ?_ _); exact fun _ _ _ => rfl)
    | ((with_reducible refine Local.local_select_state _ _ ?_); exact fun _ _ => rfl)
    | ((with_reducible refine Local.local_update_if ?_ ?_); exact fun _ _ => rfl; exact fun _ _ => rfl)
    | ((with_reducible refine Local.local_update_if ?_ ?_); exact fun _ _ => rfl; intro c src; simp only [graft, graft_self, graft_result, cond_true, List.append_assoc]; done)
    | with_reducible apply Local.local_ite
    | split

theorem case_IN_DATABASE_HISTORY_NODE_local (line : Str) (P : ParseResult F) (A : FamilySel)
    (B : MemberSel) :
    Local (graft P { A with databases := true }
        { B with current_database_history_node := true })
      (case_IN_DATABASE_HISTORY_NODE line : Run (Ctx F) Unit) := by
  unfold KFile.case_IN_DATABASE_HISTORY_NODE
  repeat' first
    | ((with_reducible refine Local.local_assign ?_); exact fun _ _ _ => rfl)
    | ((with_reducible refine Local.local_assign ?_); intro v c src; simp only [graft, graft_self, graft_result, cond_true, List.append_assoc]; done)
    | ((with_reducible refine Local.local_update ?_); exact fun _ _ => rfl)
    | ((with_reducible refine Local.local_update ?_); intro c src; simp only [graft, graft_self, graft_result, cond_true, List.append_assoc]; done)
    | ((with_reducible refine Local.local_read_bind ?_ (fun _ => ?_)); exact fun _ _ => rfl)
    | with_reducible refine Local.local_bind ?_ (fun _ => ?_)
    | ((with_reducible refine Local.local_set_state _ ?_); exact fun _ _ => rfl)
    | with_reducible refine Local.local_try_catch ?_ (fun _ => ?_)
    | ((with_reducible refine Local.local_warn _ _ ?_); exact fun _ _ _ => rfl)
    | ((with_reducible refine Local.local_when_enabled ?_ ?_ ?_); exact fun _ _ => rfl; exact fun _ _ => rfl)
    | with_reducible exact Local.local_pure _
    | with_reducible exact Local.local_eval _
    | ((with_reducible refine Local.local_zoom ?_ ?_); exact fun _ _ => rfl; exact fun _ _ _ => rfl)
    | ((with_reducible refine Local.local_id_list_loop (F := F) _ ?_ _); exact fun _ _ _ => rfl)
    | ((with_reducible refine Local.local_select_state _ _ ?_); exact fun _ _ => rfl)
    | ((with_reducible refine Local.local_update_if ?_ ?_); exact fun _ _ => rfl; exact fun _ _ => rfl)
    | ((with_reducible refine Local.local_update_if ?_ ?_); exact fun _ _ => rfl; intro c src; simp only [graft, graft_self, graft_result, cond_true, List.append_assoc]; done)
    | with_reducible apply Local.local_ite
    | split

theorem case_IN_DATABASE_HISTORY_ELEMENT_local (line : Str) (P : ParseResult F) (A : FamilySel)
    (B : MemberSel) :
    Local (graft P { A with databases := true }
        { B with current_database_history_element := true })
      (case_IN_DATABASE_HISTORY_ELEMENT line : Run (Ctx F) Unit) := by
  unfold KFile.case_IN_DATABASE_HISTORY_ELEMENT
  repeat' first
    | ((with_reducible refine Local.local_assign ?_); exact fun _ _ _ => rfl)
    | ((with_reducible refine Local.local_assign ?_); intro v c src; simp only [graft, graft_self, graft_result, cond_true, List.append_assoc]; done)
    | ((with_reducible refine Local.local_update ?_); exact fun _ _ => rfl)
    | ((with_reducible refine Local.local_update ?_); intro c src; simp only [graft, graft_self, graft_result, cond_true, List.append_assoc]; done)
    | ((with_reducible refine Local.local_read_bind ?_ (fun _ => ?_)); exact fun _ _ => rfl)
    | with_reducible refine Local.local_bind ?_ (fun _ => ?_)
    | ((with_reducible refine Local.local_set_state _ ?_); exact fun _ _ => rfl)
    | with_reducible refine Local.local_try_catch ?_ (fun _ => ?_)
    | ((with_reducible refine Local.local_warn _ _ ?_); exact fun _ _ _ => rfl)
    | ((with_reducible refine Local.local_when_enabled ?_ ?_ ?_); exact fun _ _ => rfl; exact fun _ _ => rfl)
    | with_reducible exact Local.local_pure _
    | with_reducible exact Local.local_eval _
    | ((with_reducible refine Local.local_zoom ?_ ?_); exact fun _ _ => rfl; exact fun _ _ _ => rfl)
    | ((with_reducible refine Local.local_id_list_loop (F := F) _ ?_ _); exact fun _ _ _ => rfl)
    | ((with_reducible refine Local.local_select_state _ _ ?_); exact fun _ _ => rfl)
    | ((with_reducible refine Local.local_update_if ?_ ?_); exact fun _ _ => rfl; exact fun _ _ => rfl)
    | ((with_reducible refine Local.local_update_if ?_ ?_); exact fun _ _ => rfl; intro c src; simp only [graft, graft_self, graft_result, cond_true, List.append_assoc]; done)
    | with_reducible apply Local.local_ite
    | split

theorem case_IN_DATABASE_CROSS_SECTION_local (line : Str) (P : ParseResult F) (A : FamilySel)
    (B : MemberSel) :
    Local (graft P { A with databases := true }
        B)
      (case_IN_DATABASE_CROSS_SECTION line : Run (Ctx F) Unit) := by
  unfold KFile.case_IN_DATABASE_CROSS_SECTION
  repeat' first
    | ((with_reducible refine Local.local_assign ?_); exact fun _ _ _ => rfl)
    | ((with_reducible refine Local.local_assign ?_); intro v c src; simp only [graft, graft_self, graft_result, cond_true, List.append_assoc]; done)
    | ((with_reducible refine Local.local_update ?_); exact fun _ _ => rfl)
    | ((with_reducible refine Local.local_update ?_); intro c src; simp only [graft, graft_self, graft_result, cond_true, List.append_assoc]; done)
    | ((with_reducible refine Local.local_read_bind ?_ (fun _ => ?_)); exact fun _ _ => rfl)
    | with_reducible refine Local.local_bind ?_ (fun _ => ?_)
    | ((with_reducible refine Local.local_set_state _ ?_); exact fun _ _ => rfl)
    | with_reducible refine Local.local_try_catch ?_ (fun _ => ?_)
    | ((with_reducible refine Local.local_warn _ _ ?_); exact fun _ _ _ => rfl)
    | ((with_reducible refine Local.local_when_enabled ?_ ?_ ?_); exact fun _ _ => rfl; exact fun _ _ => rfl)
    | with_reducible exact Local.local_pure _
    | with_reducible exact Local.local_eval _
    | ((with_reducible refine Local.local_zoom ?_ ?_); exact fun _ _ => rfl; exact fun _ _ _ => rfl)
    | ((with_reducible refine Local.local_id_list_loop (F := F) _ ?_ _); exact fun _ _ _ => rfl)
    | ((with_reducible refine Local.local_select_state _ _ ?_); exact fun _ _ => rfl)
    | ((with_reducible refine Local.local_update_if ?_ ?_); exact fun _ _ => rfl; exact fun _ _ => rfl)
    | ((with_reducible refine Local.local_update_if ?_ ?_); exact fun _ _ => rfl; intro c src; simp only [graft, graft_self, graft_result, cond_true, List.append_assoc]; done)
    | with_reducible apply Local.local_ite
    | split

theorem case_IN_INITIAL_VELOCITY_local (line : Str) (P : ParseResult F) (A : FamilySel)
    (B : MemberSel) :
    Local (graft P { A with initials := true }
        { B with current_initial_velocity := true })
      (case_IN_INITIAL_VELOCITY line : Run (Ctx F) Unit) := by
  unfold KFile.case_IN_INITIAL_VELOCITY
  repeat' first
    | ((with_reducible refine Local.local_assign ?_); exact fun _ _ _ => rfl)
    | ((with_reducible refine Local.local_assign ?_); intro v c src; simp only [graft, graft_self, graft_result, cond_true, List.append_assoc]; done)
    | ((with_reducible refine Local.local_update ?_); exact fun _ _ => rfl)
    | ((with_reducible refine Local.local_update ?_); intro c src; simp only [graft, graft_self, graft_result, cond_true, List.append_assoc]; done)
    | ((with_reducible refine Local.local_read_bind ?_ (fun _ => ?_)); exact fun _ _ => rfl)
    | with_reducible refine Local.local_bind ?_ (fun _ => ?_)
    | ((with_reducible refine Local.local_set_state _ ?_); exact fun _ _ => rfl)
    | with_reducible refine Local.local_try_catch ?_ (fun _ => ?_)
    | ((with_reducible refine Local.local_warn _ _ ?_); exact fun _ _ _ => rfl)
    | ((with_reducible refine Local.local_when_enabled ?_ ?_ ?_); exact fun _ _ => rfl; exact fun _ _ => rfl)
    | with_reducible exact Local.local_pure _
    | with_reducible exact Local.local_eval _
    | ((with_reducible refine Local.local_zoom ?_ ?_); exact fun _ _ => rfl; exact fun _ _ _ => rfl)
    | ((with_reducible refine Local.local_id_list_loop (F := F) _ ?_ _); exact fun _ _ _ => rfl)
    | ((with_reducible refine Local.local_select_state _ _ ?_); exact fun _ _ => rfl)
    | ((with_reducible refine Local.local_update_if ?_ ?_); exact fun _ _ => rfl; exact fun _ _ => rfl)
    | ((with_reducible refine Local.local_update_if ?_ ?_); exact fun _ _ => rfl; intro c src; simp only [graft, graft_self, graft_result, cond_true, List.append_assoc]; done)
    | with_reducible apply Local.local_ite
    | unfold KFile.push_current_initial_velocity
    | split

theorem case_IN_INITIAL_VELOCITY_GENERATION_local (line : Str) (P : ParseResult F) (A : FamilySel)
    (B : MemberSel) :
    Local (graft P { A with initials := true }
        { B with current_initial_velocity := true })
      (case_IN_INITIAL_VELOCITY_GENERATION line : Run (Ctx F) Unit) := by
  unfold KFile.case_IN_INITIAL_VELOCITY_GENERATION
  repeat' first
    | ((with_reducible refine Local.local_assign ?_); exact fun _ _ _ => rfl)
    | ((with_reducible refine Local.local_assign ?_); intro v c src; simp only [graft, graft_self, graft_result, cond_true, List.append_assoc]; done)
    | ((with_reducible refine Local.local_update ?_); exact fun _ _ => rfl)
    | ((with_reducible refine Local.local_update ?_); intro c src; simp only [graft, graft_self, graft_result, cond_true, List.append_assoc]; done)
    | ((with_reducible refine Local.local_read_bind ?_ (fun _ => ?_)); exact fun _ _ => rfl)
    | with_reducible refine Local.local_bind ?_ (fun _ => ?_)
    | ((with_reducible refine Local.local_set_state _ ?_); exact fun _ _ => rfl)
    | with_reducible refine Local.local_try_catch ?_ (fun _ => ?_)
    | ((with_reducible refine Local.local_warn _ _ ?_); exact fun _ _ _ => rfl)
    | ((with_reducible refine Local.local_when_enabled ?_ ?_ ?_); exact fun _ _ => rfl; exact fun _ _ => rfl)
    | with_reducible exact Local.local_pure _
    | with_reducible exact Local.local_eval _
    | ((with_reducible refine Local.local_zoom ?_ ?_); exact fun _ _ => rfl; exact fun _ _ _ => rfl)
    | ((with_reducible refine Local.local_id_list_loop (F := F) _ ?_ _); exact fun _ _ _ => rfl)
    | ((with_reducible refine Local.local_select_state _ _ ?_); exact fun _ _ => rfl)
    | ((with_reducible refine Local.local_update_if ?_ ?_); exact fun _ _ => rfl; exact fun _ _ => rfl)
    | ((with_reducible refine Local.local_update_if ?_ ?_); exact fun _ _ => rfl; intro c src; simp only [graft, graft_self, graft_result, cond_true, List.append_assoc]; done)
    | with_reducible apply Local.local_ite
    | unfold KFile.push_current_initial_velocity
    | split

theorem case_IN_CONSTRAINED_NODAL_RIGID_BODY_local (line : Str) (P : ParseResult F) (A : FamilySel)
    (B : MemberSel) :
    Local (graft P { A with constraineds := true }
        { B with current_constrained_nodal_rigid_body := true })
      (case_IN_CONSTRAINED_NODAL_RIGID_BODY line : Run (Ctx F) Unit) := by
  unfold KFile.case_IN_CONSTRAINED_NODAL_RIGID_BODY
  repeat' first
    | ((with_reducible refine Local.local_assign ?_); exact fun _ _ _ => rfl)
    | ((with_reducible refine Local.local_assign ?_); intro v c src; simp only [graft, graft_self, graft_result, cond_true, List.append_assoc]; done)
    | ((with_reducible refine Local.local_update ?_); exact fun _ _ => rfl)
    | ((with_reducible refine Local.local_update ?_); intro c src; simp only [graft, graft_self, graft_result, cond_true, List.append_assoc]; done)
    | ((with_reducible refine Local.local_read_bind ?_ (fun _ => ?_)); exact fun _ _ => rfl)
    | with_reducible refine Local.local_bind ?_ (fun _ => ?_)
    | ((with_reducible refine Local.local_set_state _ ?_); exact fun _ _ => rfl)
    | with_reducible refine Local.local_try_catch ?_ (fun _ => ?_)
    | ((with_reducible refine Local.local_warn _ _ ?_); exact fun _ _ _ => rfl)
    | ((with_reducible refine Local.local_when_enabled ?_ ?_ ?_); exact fun _ _ => rfl; exact fun _ _ => rfl)
    | with_reducible exact Local.local_pure _
    | with_reducible exact Local.local_eval _
    | ((with_reducible refine Local.local_zoom ?_ ?_); exact fun _ _ => rfl; exact fun _ _ _ => rfl)
    | ((with_reducible refine Local.local_id_list_loop (F := F) _ ?_ _); exact fun _ _ _ => rfl)
    | ((with_reducible refine Local.local_select_state _ _ ?_); exact fun _ _ => rfl)
    | ((with_reducible refine Local.local_update_if ?_ ?_); exact fun _ _ => rfl; exact fun _ _ => rfl)
    | ((with_reducible refine Local.local_update_if ?_ ?_); exact fun _ _ => rfl; intro c src; simp only [graft, graft_self, graft_result, cond_true, List.append_assoc]; done)
    | with_reducible apply Local.local_ite
    | unfold KFile.push_current_nodal_rigid_body
    | split

theorem case_IN_CONSTRAINED_NODAL_RIGID_BODY_INERTIA_local (line : Str) (P : ParseResult F) (A : FamilySel)
    (B : MemberSel) :
    Local (graft P { A with constraineds := true }
        { B with current_constrained_nodal_rigid_body := true })
      (case_IN_CONSTRAINED_NODAL_RIGID_BODY_INERTIA line : Run (Ctx F) Unit) := by
  unfold KFile.case_IN_CONSTRAINED_NODAL_RIGID_BODY_INERTIA
  repeat' first
    | ((with_reducible refine Local.local_assign ?_); exact fun _ _ _ => rfl)
    | ((with_reducible refine Local.local_assign ?_); intro v c src; simp only [graft, graft_self, graft_result, cond_true, List.append_assoc]; done)
    | ((with_reducible refine Local.local_update ?_); exact fun _ _ => rfl)
    | ((with_reducible refine Local.local_update ?_); intro c src; simp only [graft, graft_self, graft_result, cond_true, List.append_assoc]; done)
    | ((with_reducible refine Local.local_read_bind ?_ (fun _ => ?_)); exact fun _ _ => rfl)
    | with_reducible refine Local.local_bind ?_ (fun _ => ?_)
    | ((with_reducible refine Local.local_set_state _ ?_); exact fun _ _ => rfl)
    | with_reducible refine Local.local_try_catch ?_ (fun _ => ?_)
    | ((with_reducible refine Local.local_warn _ _ ?_); exact fun _ _ _ => rfl)
    | ((with_reducible refine Local.local_when_enabled ?_ ?_ ?_); exact fun _ _ => rfl; exact fun _ _ => rfl)
    | with_reducible exact Local.local_pure _
    | with_reducible exact Local.local_eval _
    | ((with_reducible refine Local.local_zoom ?_ ?_); exact fun _ _ => rfl; exact fun _ _ _ => rfl)
    | ((with_reducible refine Local.local_id_list_loop (F := F) _ ?_ _); exact fun _ _ _ => rfl)
    | ((with_reducible refine Local.local_select_state _ _ ?_); exact fun _ _ => rfl)
    | ((with_reducible refine Local.local_update_if ?_ ?_); exact fun _ _ => rfl; exact fun _ _ => rfl)
    | ((with_reducible refine Local.local_update_if ?_ ?_); exact fun _ _ => rfl; intro c src; simp only [graft, graft_self, graft_result, cond_true, List.append_assoc]; done)
    | with_reducible apply Local.local_ite
    | unfold KFile.push_current_nodal_rigid_body
    | split

theorem case_IN_CONSTRAINED_EXTRA_NODES_local (line : Str) (P : ParseResult F) (A : FamilySel)
    (B : MemberSel) :
    Local (graft P { A with constraineds := true }
        { B with current_constrained_extra_nodes := true })
      (case_IN_CONSTRAINED_EXTRA_NODES line : Run (Ctx F) Unit) := by
  unfold KFile.case_IN_CONSTRAINED_EXTRA_NODES
  repeat' first
    | ((with_reducible refine Local.local_assign ?_); exact fun _ _ _ => rfl)
    | ((with_reducible refine Local.local_assign ?_); intro v c src; simp only [graft, graft_self, graft_result, cond_true, List.append_assoc]; done)
    | ((with_reducible refine Local.local_update ?_); exact fun _ _ => rfl)
    | ((with_reducible refine Local.local_update ?_); intro c src; simp only [graft, graft_self, graft_result, cond_true, List.append_assoc]; done)
    | ((with_reducible refine Local.local_read_bind ?_ (fun _ => ?_)); exact fun _ _ => rfl)
    | with_reducible refine Local.local_bind ?_ (fun _ => ?_)
    | ((with_reducible refine Local.local_set_state _ ?_); exact fun _ _ => rfl)
    | with_reducible refine Local.local_try_catch ?_ (fun _ => ?_)
    | ((with_reducible refine Local.local_warn _ _ ?_); exact fun _ _ _ => rfl)
    | ((with_reducible refine Local.local_when_enabled ?_ ?_ ?_); exact fun _ _ => rfl; exact fun _ _ => rfl)
    | with_reducible exact Local.local_pure _
    | with_reducible exact Local.local_eval _
    | ((with_reducible refine Local.local_zoom ?_ ?_); exact fun _ _ => rfl; exact fun _ _ _ => rfl)
    | ((with_reducible refine Local.local_id_list_loop (F := F) _ ?_ _); exact fun _ _ _ => rfl)
    | ((with_reducible refine Local.local_select_state _ _ ?_); exact fun _ _ => rfl)
    | ((with_reducible refine Local.local_update_if ?_ ?_); exact fun _ _ => rfl; exact fun _ _ => rfl)
    | ((with_reducible refine Local.local_update_if ?_ ?_); exact fun _ _ => rfl; intro c src; simp only [graft, graft_self, graft_result, cond_true, List.append_assoc]; done)
    | with_reducible apply Local.local_ite
    | split

theorem case_IN_CONSTRAINED_JOINT_local (line : Str) (P : ParseResult F) (A : FamilySel)
    (B : MemberSel) :
    Local (graft P { A with constraineds := true }
        { B with current_constrained_joint := true })
      (case_IN_CONSTRAINED_JOINT line : Run (Ctx F) Unit) := by
  unfold KFile.case_IN_CONSTRAINED_JOINT
  repeat' first
    | ((with_reducible refine Local.local_assign ?_); exact fun _ _ _ => rfl)
    | ((with_reducible refine Local.local_assign ?_); intro v c src; simp only [graft, graft_self, graft_result, cond_true, List.append_assoc]; done)
    | ((with_reducible refine Local.local_update ?_); exact fun _ _ => rfl)
    | ((with_reducible refine Local.local_update ?_); intro c src; simp only [graft, graft_self, graft_result, cond_true, List.append_assoc]; done)
    | ((with_reducible refine Local.local_read_bind ?_ (fun _ => ?_)); exact fun _ _ => rfl)
    | with_reducible refine Local.local_bind ?_ (fun _ => ?_)
    | ((with_reducible refine Local.local_set_state _ ?_); exact fun _ _ => rfl)
    | with_reducible refine Local.local_try_catch ?_ (fun _ => ?_)
    | ((with_reducible refine Local.local_warn _ _ ?_); exact fun _ _ _ => rfl)
    | ((with_reducible refine Local.local_when_enabled ?_ ?_ ?_); exact fun _ _ => rfl; exact fun _ _ => rfl)
    | with_reducible exact Local.local_pure _
    | with_reducible exact Local.local_eval _
    | ((with_reducible refine Local.local_zoom ?_ ?_); exact fun _ _ => rfl; exact fun _ _ _ => rfl)
    | ((with_reducible refine Local.local_id_list_loop (F := F) _ ?_ _); exact fun _ _ _ => rfl)
    | ((with_reducible refine Local.local_select_state _ _ ?_); exact fun _ _ => rfl)
    | ((with_reducible refine Local.local_update_if ?_ ?_); exact fun _ _ => rfl; exact fun _ _ => rfl)
    | ((with_reducible refine Local.local_update_if ?_ ?_); exact fun _ _ => rfl; intro c src; simp only [graft, graft_self, graft_result, cond_true, List.append_assoc]; done)
    | with_reducible apply Local.local_ite
    | split

theorem case_IN_CONSTRAINED_SPOTWELD_local (line : Str) (P : ParseResult F) (A : FamilySel)
    (B : MemberSel) :
    Local (graft P { A with constraineds := true }
        { B with current_constrained_spotweld := true })
      (case_IN_CONSTRAINED_SPOTWELD line : Run (Ctx F) Unit) := by
  unfold KFile.case_IN_CONSTRAINED_SPOTWELD
  repeat' first
    | ((with_reducible refine Local.local_assign ?_); exact fun _ _ _ => rfl)
    | ((with_reducible refine Local.local_assign ?_); intro v c src; simp only [graft, graft_self, graft_result, cond_true, List.append_assoc]; done)
    | ((with_reducible refine Local.local_update ?_); exact fun _ _ => rfl)
    | ((with_reducible refine Local.local_update ?_); intro c src; simp only [graft, graft_self, graft_result, cond_true, List.append_assoc]; done)
    | ((with_reducible refine Local.local_read_bind ?_ (fun _ => ?_)); exact fun _ _ => rfl)
    | with_reducible refine Local.local_bind ?_ (fun _ => ?_)
    | ((with_reducible refine Local.local_set_state _ ?_); exact fun _ _ => rfl)
    | with_reducible refine Local.local_try_catch ?_ (fun _ => ?_)
    | ((with_reducible refine Local.local_warn _ _ ?_); exact fun _ _ _ => rfl)
    | ((with_reducible refine Local.local_when_enabled ?_ ?_ ?_); exact fun _ _ => rfl; exact fun _ _ => rfl)
    | with_reducible exact Local.local_pure _
    | with_reducible exact Local.local_eval _
    | ((with_reducible refine Local.local_zoom ?_ ?_); exact fun _ _ => rfl; exact fun _ _ _ => rfl)
    | ((with_reducible refine Local.local_id_list_loop (F := F) _ ?_ _); exact fun _ _ _ => rfl)
    | ((with_reducible refine Local.local_select_state _ _ ?_); exact fun _ _ => rfl)
    | ((with_reducible refine Local.local_update_if ?_ ?_); exact fun _ _ => rfl; exact fun _ _ => rfl)
    | ((with_reducible refine Local.local_update_if ?_ ?_); exact fun _ _ => rfl; intro c src; simp only [graft, graft_self, graft_result, cond_true, List.append_assoc]; done)
    | with_reducible apply Local.local_ite
    | split

end LocalBranches

/-! ## Where each branch lands

A keyword branch that returns leaves the state idle or in a state of its own family
that reads its own member; a data case leaves the state where it was or moves it in
the same way. A keyword branch that starts by resetting its member turns an overlay
that does not select the member into one that does. -/

section Landing

variable {F : Type} [DoubleModel F]

set_option linter.unusedTactic false
set_option linter.unreachableTactic false
set_option linter.unusedVariables false
set_option linter.unusedSectionVars false

theorem begin_set_lands (u : Str) (type : SetType) (header : ParseState) (hh : header.akin (some .sets) (some .current_set)) :
    Ends (ParseState.akin (some .sets) (some .current_set))
      (begin_set u type header : Run (Ctx F) Unit) := by
  unfold KFile.begin_set
  repeat' first
    | ((with_reducible refine Ends.ends_set_state _ ?_); decide)
    | with_reducible refine Ends.ends_bind (fun _ => ?_)
    | ((with_reducible refine Ends.ends_when_enabled ?_ ?_); decide)
    | ((with_reducible refine Ends.ends_select_state _ _ ?_ ?_); decide; decide)
    | ((with_reducible refine Ends.ends_set_state_ite ?_ ?_); decide; decide)
    | with_reducible exact Ends.ends_set_state _ hh
    | with_reducible apply Ends.ends_ite
    | split

theorem begin_section_lands (u : Str) (type : SectionType) (title header : ParseState) (hh : header.akin (some .sections) (some .current_section)) (ht : title.akin (some .sections) (some .current_section)) :
    Ends (ParseState.akin (some .sections) (some .current_section))
      (begin_section u type title header : Run (Ctx F) Unit) := by
  unfold KFile.begin_section
  repeat' first
    | ((with_reducible refine Ends.ends_set_state _ ?_); decide)
    | with_reducible refine Ends.ends_bind (fun _ => ?_)
    | ((with_reducible refine Ends.ends_when_enabled ?_ ?_); decide)
    | ((with_reducible refine Ends.ends_select_state _ _ ?_ ?_); decide; decide)
    | ((with_reducible refine Ends.ends_set_state_ite ?_ ?_); decide; decide)
    | with_reducible exact Ends.ends_set_state _ hh
    | with_reducible exact Ends.ends_set_state _ ht
    | with_reducible apply Ends.ends_ite
    | split

theorem begin_contact_lands (u : Str) :
    Ends (ParseState.akin (some .contacts) (some .current_contact))
      (begin_contact u : Run (Ctx F) Unit) := by
  unfold KFile.begin_contact
  repeat' first
    | ((with_reducible refine Ends.ends_set_state _ ?_); decide)
    | with_reducible refine Ends.ends_bind (fun _ => ?_)
    | ((with_reducible refine Ends.ends_when_enabled ?_ ?_); decide)
    | ((with_reducible refine Ends.ends_select_state _ _ ?_ ?_); decide; decide)
    | ((with_reducible refine Ends.ends_set_state_ite ?_ ?_); decide; decide)
    | with_reducible apply Ends.ends_ite
    | split

theorem begin_material_lands (u : Str) :
    Ends (ParseState.akin (some .materials) (some .current_material))
      (begin_material u : Run (Ctx F) Unit) := by
  unfold KFile.begin_material
  repeat' first
    | ((with_reducible refine Ends.ends_set_state _ ?_); decide)
    | with_reducible refine Ends.ends_bind (fun _ => ?_)
    | ((with_reducible refine Ends.ends_when_enabled ?_ ?_); decide)
    | ((with_reducible refine Ends.ends_select_state _ _ ?_ ?_); decide; decide)
    | ((with_reducible refine Ends.ends_set_state_ite ?_ ?_); decide; decide)
    | with_reducible apply Ends.ends_ite
    | split

theorem begin_curve_lands (u : Str) :
    Ends (ParseState.akin (some .curves) (some .current_curve))
      (begin_curve u : Run (Ctx F) Unit) := by
  unfold KFile.begin_curve
  repeat' first
    | ((with_reducible refine Ends.ends_set_state _ ?_); decide)
    | with_reducible refine Ends.ends_bind (fun _ => ?_)
    | ((with_reducible refine Ends.ends_when_enabled ?_ ?_); decide)
    | ((with_reducible refine Ends.ends_select_state _ _ ?_ ?_); decide; decide)
    | ((with_reducible refine Ends.ends_set_state_ite ?_ ?_); decide; decide)
    | with_reducible apply Ends.ends_ite
    | split

theorem begin_boundary_spc_lands (u : Str) :
    Ends (ParseState.akin (some .boundaries) (some .current_boundary_spc))
      (begin_boundary_spc u : Run (Ctx F) Unit) := by
  unfold KFile.begin_boundary_spc
  repeat' first
    | ((with_reducible refine Ends.ends_set_state _ ?_); decide)
    | with_reducible refine Ends.ends_bind (fun _ => ?_)
    | ((with_reducible refine Ends.ends_when_enabled ?_ ?_); decide)
    | ((with_reducible refine Ends.ends_select_state _ _ ?_ ?_); decide; decide)
    | ((with_reducible refine Ends.ends_set_state_ite ?_ ?_); decide; decide)
    | with_reducible apply Ends.ends_ite
    | split

theorem begin_boundary_motion_lands (u : Str) :
    Ends (ParseState.akin (some .boundaries) (some .current_boundary_motion))
      (begin_boundary_motion u : Run (Ctx F) Unit) := by
  unfold KFile.begin_boundary_motion
  repeat' first
    | ((with_reducible refine Ends.ends_set_state _ ?_); decide)
    | with_reducible refine Ends.ends_bind (fun _ => ?_)
    | ((with_reducible refine Ends.ends_when_enabled ?_ ?_); decide)
    | ((with_reducible refine Ends.ends_select_state _ _ ?_ ?_); decide; decide)
    | ((with_reducible refine Ends.ends_set_state_ite ?_ ?_); decide; decide)
    | with_reducible apply Ends.ends_ite
    | split

theorem begin_load_node_lands (u : Str) :
    Ends (ParseState.akin (some .loads) (some .current_load_node))
      (begin_load_node u : Run (Ctx F) Unit) := by
  unfold KFile.begin_load_node
  repeat' first
    | ((with_reducible refine Ends.ends_set_state _ ?_); decide)
    | with_reducible refine Ends.ends_bind (fun _ => ?_)
    | ((with_reducible refine Ends.ends_when_enabled ?_ ?_); decide)
    | ((with_reducible refine Ends.ends_select_state _ _ ?_ ?_); decide; decide)
    | ((with_reducible refine Ends.ends_set_state_ite ?_ ?_); decide; decide)
    | with_reducible apply Ends.ends_ite
    | split

theorem begin_load_body_lands (u : Str) :
    Ends (ParseState.akin (some .loads) (some .current_load_body))
      (begin_load_body u : Run (Ctx F) Unit) := by
  unfold KFile.begin_load_body
  repeat' first
    | ((with_reducible refine Ends.ends_set_state _ ?_); decide)
    | with_reducible refine Ends.ends_bind (fun _ => ?_)
    | ((with_reducible refine Ends.ends_when_enabled ?_ ?_); decide)
    | ((with_reducible refine Ends.ends_select_state _ _ ?_ ?_); decide; decide)
    | ((with_reducible refine Ends.ends_set_state_ite ?_ ?_); decide; decide)
    | with_reducible apply Ends.ends_ite
    | split

theorem begin_database_binary_lands (t : DatabaseType) :
    Ends (ParseState.akin (some .databases) (some .current_database_binary))
      (begin_database_binary t : Run (Ctx F) Unit) := by
  unfold KFile.begin_database_binary
  repeat' first
    | ((with_reducible refine Ends.ends_set_state _ ?_); decide)
    | with_reducible refine Ends.ends_bind (fun _ => ?_)
    | ((with_reducible refine Ends.ends_when_enabled ?_ ?_); decide)
    | ((with_reducible refine Ends.ends_select_state _ _ ?_ ?_); decide; decide)
    | ((with_reducible refine Ends.ends_set_state_ite ?_ ?_); decide; decide)
    | with_reducible apply Ends.ends_ite
    | split

theorem begin_database_ascii_lands (t : DatabaseType) :
    Ends (ParseState.akin (some .databases) (some .current_database_ascii))
      (begin_database_ascii t : Run (Ctx F) Unit) := by
  unfold KFile.begin_database_ascii
  repeat' first
    | ((with_reducible refine Ends.ends_set_state _ ?_); decide)
    | with_reducible refine Ends.ends_bind (fun _ => ?_)
    | ((with_reducible refine Ends.ends_when_enabled ?_ ?_); decide)
    | ((with_reducible refine Ends.ends_select_state _ _ ?_ ?_); decide; decide)
    | ((with_reducible refine Ends.ends_set_state_ite ?_ ?_); decide; decide)
    | with_reducible apply Ends.ends_ite
    | split

theorem begin_database_history_node_lands :
    Ends (ParseState.akin (some .databases) (some .current_database_history_node))
      (begin_database_history_node : Run (Ctx F) Unit) := by
  unfold KFile.begin_database_history_node
  repeat' first
    | ((with_reducible refine Ends.ends_set_state _ ?_); decide)
    | with_reducible refine Ends.ends_bind (fun _ => ?_)
    | ((with_reducible refine Ends.ends_when_enabled ?_ ?_); decide)
    | ((with_reducible refine Ends.ends_select_state _ _ ?_ ?_); decide; decide)
    | ((with_reducible refine Ends.ends_set_state_ite ?_ ?_); decide; decide)
    | with_reducible apply Ends.ends_ite
    | split

theorem begin_database_history_element_lands (t : Int) :
    Ends (ParseState.akin (some .databases) (some .current_database_history_element))
      (begin_database_history_element t : Run (Ctx F) Unit) := by
  unfold KFile.begin_database_history_element
  repeat' first
    | ((with_reducible refine Ends.ends_set_state _ ?_); decide)
    | with_reducible refine Ends.ends_bind (fun _ => ?_)
    | ((with_reducible refine Ends.ends_when_enabled ?_ ?_); decide)
    | ((with_reducible refine Ends.ends_select_state _ _ ?_ ?_); decide; decide)
    | ((with_reducible refine Ends.ends_set_state_ite ?_ ?_); decide; decide)
    | with_reducible apply Ends.ends_ite
    | split

theorem begin_initial_velocity_generation_lands :
    Ends (ParseState.akin (some .initials) (some .current_initial_velocity))
      (begin_initial_velocity_generation : Run (Ctx F) Unit) := by
  unfold KFile.begin_initial_velocity_generation
  repeat' first
    | ((with_reducible refine Ends.ends_set_state _ ?_); decide)
    | with_reducible refine Ends.ends_bind (fun _ => ?_)
    | ((with_reducible refine Ends.ends_when_enabled ?_ ?_); decide)
    | ((with_reducible refine Ends.ends_select_state _ _ ?_ ?_); decide; decide)
    | ((with_reducible refine Ends.ends_set_state_ite ?_ ?_); decide; decide)
    | with_reducible apply Ends.ends_ite
    | split

theorem begin_initial_velocity_lands (u : Str) :
    Ends (ParseState.akin (some .initials) (some .current_initial_velocity))
      (begin_initial_velocity u : Run (Ctx F) Unit) := by
  unfold KFile.begin_initial_velocity
  repeat' first
    | ((with_reducible refine Ends.ends_set_state _ ?_); decide)
    | with_reducible refine Ends.ends_bind (fun _ => ?_)
    | ((with_reducible refine Ends.ends_when_enabled ?_ ?_); decide)
    | ((with_reducible refine Ends.ends_select_state _ _ ?_ ?_); decide; decide)
    | ((with_reducible refine Ends.ends_set_state_ite ?_ ?_); decide; decide)
    | with_reducible apply Ends.ends_ite
    | split

theorem begin_constrained_nodal_rigid_body_lands (u : Str) :
    Ends (ParseState.akin (some .constraineds) (some .current_constrained_nodal_rigid_body))
      (begin_constrained_nodal_rigid_body u : Run (Ctx F) Unit) := by
  unfold KFile.begin_constrained_nodal_rigid_body
  repeat' first
    | ((with_reducible refine Ends.ends_set_state _ ?_); decide)
    | with_reducible refine Ends.ends_bind (fun _ => ?_)
    | ((with_reducible refine Ends.ends_when_enabled ?_ ?_); decide)
    | ((with_reducible refine Ends.ends_select_state _ _ ?_ ?_); decide; decide)
    | ((with_reducible refine Ends.ends_set_state_ite ?_ ?_); decide; decide)
    | with_reducible apply Ends.ends_ite
    | split

theorem begin_constrained_extra_nodes_lands (u : Str) :
    Ends (ParseState.akin (some .constraineds) (some .current_constrained_extra_nodes))
      (begin_constrained_extra_nodes u : Run (Ctx F) Unit) := by
  unfold KFile.begin_constrained_extra_nodes
  repeat' first
    | ((with_reducible refine Ends.ends_set_state _ ?_); decide)
    | with_reducible refine Ends.ends_bind (fun _ => ?_)
    | ((with_reducible refine Ends.ends_when_enabled ?_ ?_); decide)
    | ((with_reducible refine Ends.ends_select_state _ _ ?_ ?_); decide; decide)
    | ((with_reducible refine Ends.ends_set_state_ite ?_ ?_); decide; decide)
    | with_reducible apply Ends.ends_ite
    | split

theorem begin_constrained_joint_lands (u : Str) :
    Ends (ParseState.akin (some .constraineds) (some .current_constrained_joint))
      (begin_constrained_joint u : Run (Ctx F) Unit) := by
  unfold KFile.begin_constrained_joint
  repeat' first
    | ((with_reducible refine Ends.ends_set_state _ ?_); decide)
    | with_reducible refine Ends.ends_bind (fun _ => ?_)
    | ((with_reducible refine Ends.ends_when_enabled ?_ ?_); decide)
    | ((with_reducible refine Ends.ends_select_state _ _ ?_ ?_); decide; decide)
    | ((with_reducible refine Ends.ends_set_state_ite ?_ ?_); decide; decide)
    | with_reducible apply Ends.ends_ite
    | split

theorem begin_constrained_spotweld_lands :
    Ends (ParseState.akin (some .constraineds) (some .current_constrained_spotweld))
      (begin_constrained_spotweld : Run (Ctx F) Unit) := by
  unfold KFile.begin_constrained_spotweld
  repeat' first
    | ((with_reducible refine Ends.ends_set_state _ ?_); decide)
    | with_reducible refine Ends.ends_bind (fun _ => ?_)
    | ((with_reducible refine Ends.ends_when_enabled ?_ ?_); decide)
    | ((with_reducible refine Ends.ends_select_state _ _ ?_ ?_); decide; decide)
    | ((with_reducible refine Ends.ends_set_state_ite ?_ ?_); decide; decide)
    | with_reducible apply Ends.ends_ite
    | split

theorem case_IN_NODE_moves (line : Str) :
    Frame (fun _ : Ctx F => ()) (ParseState.akin (some .nodes) none)
      (case_IN_NODE line : Run (Ctx F) Unit) := by
  unfold KFile.case_IN_NODE
  repeat' first
    | ((with_reducible refine Frame.frame_assign ?_); exact fun _ _ => ⟨rfl, Or.inl rfl⟩)
    | ((with_reducible refine Frame.frame_update ?_); exact fun _ => ⟨rfl, Or.inl rfl⟩)
    | with_reducible refine Frame.frame_bind ?_ (fun _ => ?_)
    | ((with_reducible refine Frame.frame_set_state _ ?_ ?_); exact fun _ => rfl; decide)
    | with_reducible refine Frame.frame_try_catch ?_ (fun _ => ?_)
    | ((with_reducible refine Frame.frame_warn _ _ ?_); exact fun _ _ => rfl)
    | ((with_reducible refine Frame.frame_when_enabled ?_ ?_ ?_); exact fun _ => rfl; decide)
    | with_reducible exact Frame.frame_pure _
    | with_reducible exact Frame.frame_read
    | with_reducible exact Frame.frame_eval _
    | ((with_reducible refine Frame.frame_zoom ?_); exact fun _ _ => ⟨rfl, Or.inl rfl⟩)
    | ((with_reducible refine Frame.frame_id_list_loop (F := F) _ ?_ _); exact fun _ _ => ⟨rfl, Or.inl rfl⟩)
    | ((with_reducible refine Frame.frame_select_state _ _ ?_ ?_ ?_); exact fun _ _ => rfl; decide; decide)
    | ((with_reducible refine Frame.frame_set_state_ite ?_ ?_ ?_); exact fun _ _ => rfl; decide; decide)
    | ((with_reducible refine Frame.frame_update_if ?_); exact fun _ => ⟨rfl, Or.inl rfl⟩)
    | with_reducible apply Frame.frame_ite
    | unfold KFile.warn
    | split

theorem case_IN_PART_NAME_moves (line : Str) :
    Frame (fun _ : Ctx F => ()) (ParseState.akin (some .parts) (some .part_name))
      (case_IN_PART_NAME line : Run (Ctx F) Unit) := by
  unfold KFile.case_IN_PART_NAME
  repeat' first
    | ((with_reducible refine Frame.frame_assign ?_); exact fun _ _ => ⟨rfl, Or.inl rfl⟩)
    | ((with_reducible refine Frame.frame_update ?_); exact fun _ => ⟨rfl, Or.inl rfl⟩)
    | with_reducible refine Frame.frame_bind ?_ (fun _ => ?_)
    | ((with_reducible refine Frame.frame_set_state _ ?_ ?_); exact fun _ => rfl; decide)
    | with_reducible refine Frame.frame_try_catch ?_ (fun _ => ?_)
    | ((with_reducible refine Frame.frame_warn _ _ ?_); exact fun _ _ => rfl)
    | ((with_reducible refine Frame.frame_when_enabled ?_ ?_ ?_); exact fun _ => rfl; decide)
    | with_reducible exact Frame.frame_pure _
    | with_reducible exact Frame.frame_read
    | with_reducible exact Frame.frame_eval _
    | ((with_reducible refine Frame.frame_zoom ?_); exact fun _ _ => ⟨rfl, Or.inl rfl⟩)
    | ((with_reducible refine Frame.frame_id_list_loop (F := F) _ ?_ _); exact fun _ _ => ⟨rfl, Or.inl rfl⟩)
    | ((with_reducible refine Frame.frame_select_state _ _ ?_ ?_ ?_); exact fun _ _ => rfl; decide; decide)
    | ((with_reducible refine Frame.frame_set_state_ite ?_ ?_ ?_); exact fun _ _ => rfl; decide; decide)
    | ((with_reducible refine Frame.frame_update_if ?_); exact fun _ => ⟨rfl, Or.inl rfl⟩)
    | with_reducible apply Frame.frame_ite
    | unfold KFile.warn
    | split

theorem case_IN_PART_DATA_moves (line : Str) :
    Frame (fun _ : Ctx F => ()) (ParseState.akin (some .parts) (some .part_name))
      (case_IN_PART_DATA line : Run (Ctx F) Unit) := by
  unfold KFile.case_IN_PART_DATA
  repeat' first
    | ((with_reducible refine Frame.frame_assign ?_); exact fun _ _ => ⟨rfl, Or.inl rfl⟩)
    | ((with_reducible refine Frame.frame_update ?_); exact fun _ => ⟨rfl, Or.inl rfl⟩)
    | with_reducible refine Frame.frame_bind ?_ (fun _ => ?_)
    | ((with_reducible refine Frame.frame_set_state _ ?_ ?_); exact fun _ => rfl; decide)
    | with_reducible refine Frame.frame_try_catch ?_ (fun _ => ?_)
    | ((with_reducible refine Frame.frame_warn _ _ ?_); exact fun _ _ => rfl)
    | ((with_reducible refine Frame.frame_when_enabled ?_ ?_ ?_); exact fun _ => rfl; decide)
    | with_reducible exact Frame.frame_pure _
    | with_reducible exact Frame.frame_read
    | with_reducible exact Frame.frame_eval _
    | ((with_reducible refine Frame.frame_zoom ?_); exact fun _ _ => ⟨rfl, Or.inl rfl⟩)
    | ((with_reducible refine Frame.frame_id_list_loop (F := F) _ ?_ _); exact fun _ _ => ⟨rfl, Or.inl rfl⟩)
    | ((with_reducible refine Frame.frame_select_state _ _ ?_ ?_ ?_); exact fun _ _ => rfl; decide; decide)
    | ((with_reducible refine Frame.frame_set_state_ite ?_ ?_ ?_); exact fun _ _ => rfl; decide; decide)
    | ((with_reducible refine Frame.frame_update_if ?_); exact fun _ => ⟨rfl, Or.inl rfl⟩)
    | with_reducible apply Frame.frame_ite
    | unfold KFile.warn
    | split

theorem case_IN_ELEMENT_moves (line : Str) (type : ElementType) :
    Frame (fun _ : Ctx F => ()) (ParseState.akin (some .elements) none)
      (case_IN_ELEMENT line type : Run (Ctx F) Unit) := by
  unfold KFile.case_IN_ELEMENT
  repeat' first
    | ((with_reducible refine Frame.frame_assign ?_); exact fun _ _ => ⟨rfl, Or.inl rfl⟩)
    | ((with_reducible refine Frame.frame_update ?_); exact fun _ => ⟨rfl, Or.inl rfl⟩)
    | with_reducible refine Frame.frame_bind ?_ (fun _ => ?_)
    | ((with_reducible refine Frame.frame_set_state _ ?_ ?_); exact fun _ => rfl; decide)
    | with_reducible refine Frame.frame_try_catch ?_ (fun _ => ?_)
    | ((with_reducible refine Frame.frame_warn _ _ ?_); exact fun _ _ => rfl)
    | ((with_reducible refine Frame.frame_when_enabled ?_ ?_ ?_); exact fun _ => rfl; decide)
    | with_reducible exact Frame.frame_pure _
    | with_reducible exact Frame.frame_read
    | with_reducible exact Frame.frame_eval _
    | ((with_reducible refine Frame.frame_zoom ?_); exact fun _ _ => ⟨rfl, Or.inl rfl⟩)
    | ((with_reducible refine Frame.frame_id_list_loop (F := F) _ ?_ _); exact fun _ _ => ⟨rfl, Or.inl rfl⟩)
    | ((with_reducible refine Frame.frame_select_state _ _ ?_ ?_ ?_); exact fun _ _ => rfl; decide; decide)
    | ((with_reducible refine Frame.frame_set_state_ite ?_ ?_ ?_); exact fun _ _ => rfl; decide; decide)
    | ((with_reducible refine Frame.frame_update_if ?_); exact fun _ => ⟨rfl, Or.inl rfl⟩)
    | with_reducible apply Frame.frame_ite
    | unfold KFile.warn
    | split

theorem case_IN_SET_TITLE_moves :
    Frame (fun _ : Ctx F => ()) (ParseState.akin (some .sets) (some .current_set))
      (case_IN_SET_TITLE : Run (Ctx F) Unit) := by
  unfold KFile.case_IN_SET_TITLE
  repeat' first
    | ((with_reducible refine Frame.frame_assign ?_); exact fun _ _ => ⟨rfl, Or.inl rfl⟩)
    | ((with_reducible refine Frame.frame_update ?_); exact fun _ => ⟨rfl, Or.inl rfl⟩)
    | with_reducible refine Frame.frame_bind ?_ (fun _ => ?_)
    | ((with_reducible refine Frame.frame_set_state _ ?_ ?_); exact fun _ => rfl; decide)
    | with_reducible refine Frame.frame_try_catch ?_ (fun _ => ?_)
    | ((with_reducible refine Frame.frame_warn _ _ ?_); exact fun _ _ => rfl)
    | ((with_reducible refine Frame.frame_when_enabled ?_ ?_ ?_); exact fun _ => rfl; decide)
    | with_reducible exact Frame.frame_pure _
    | with_reducible exact Frame.frame_read
    | with_reducible exact Frame.frame_eval _
    | ((with_reducible refine Frame.frame_zoom ?_); exact fun _ _ => ⟨rfl, Or.inl rfl⟩)
    | ((with_reducible refine Frame.frame_id_list_loop (F := F) _ ?_ _); exact fun _ _ => ⟨rfl, Or.inl rfl⟩)
    | ((with_reducible refine Frame.frame_select_state _ _ ?_ ?_ ?_); exact fun _ _ => rfl; decide; decide)
    | ((with_reducible refine Frame.frame_set_state_ite ?_ ?_ ?_); exact fun _ _ => rfl; decide; decide)
    | ((with_reducible refine Frame.frame_update_if ?_); exact fun _ => ⟨rfl, Or.inl rfl⟩)
    | with_reducible apply Frame.frame_ite
    | unfold KFile.warn
    | split

theorem case_IN_SET_HEADER_moves (line : Str) (type : SetType) (data : ParseState) (hd : data.akin (some .sets) (some .current_set)) :
    Frame (fun _ : Ctx F => ()) (ParseState.akin (some .sets) (some .current_set))
      (case_IN_SET_HEADER line type data : Run (Ctx F) Unit) := by
  unfold KFile.case_IN_SET_HEADER
  repeat' first
    | ((with_reducible refine Frame.frame_assign ?_); exact fun _ _ => ⟨rfl, Or.inl rfl⟩)
    | ((with_reducible refine Frame.frame_update ?_); exact fun _ => ⟨rfl, Or.inl rfl⟩)
    | with_reducible refine Frame.frame_bind ?_ (fun _ => ?_)
    | ((with_reducible refine Frame.frame_set_state _ ?_ ?_); exact fun _ => rfl; decide)
    | with_reducible refine Frame.frame_try_catch ?_ (fun _ => ?_)
    | ((with_reducible refine Frame.frame_warn _ _ ?_); exact fun _ _ => rfl)
    | ((with_reducible refine Frame.frame_when_enabled ?_ ?_ ?_); exact fun _ => rfl; decide)
    | with_reducible exact Frame.frame_pure _
    | with_reducible exact Frame.frame_read
    | with_reducible exact Frame.frame_eval _
    | ((with_reducible refine Frame.frame_zoom ?_); exact fun _ _ => ⟨rfl, Or.inl rfl⟩)
    | ((with_reducible refine Frame.frame_id_list_loop (F := F) _ ?_ _); exact fun _ _ => ⟨rfl, Or.inl rfl⟩)
    | ((with_reducible refine Frame.frame_select_state _ _ ?_ ?_ ?_); exact fun _ _ => rfl; decide; decide)
    | ((with_reducible refine Frame.frame_set_state_ite ?_ ?_ ?_); exact fun _ _ => rfl; decide; decide)
    | ((with_reducible refine Frame.frame_update_if ?_); exact fun _ => ⟨rfl, Or.inl rfl⟩)
    | with_reducible apply Frame.frame_ite
    | unfold KFile.warn
    | ((with_reducible refine Frame.frame_set_state _ ?_ ?_); exact fun _ => rfl; exact hd)
    | split

theorem case_IN_SET_DATA_moves (line : Str) :
    Frame (fun _ : Ctx F => ()) (ParseState.akin (some .sets) (some .current_set))
      (case_IN_SET_DATA line : Run (Ctx F) Unit) := by
  unfold KFile.case_IN_SET_DATA
  repeat' first
    | ((with_reducible refine Frame.frame_assign ?_); exact fun _ _ => ⟨rfl, Or.inl rfl⟩)
    | ((with_reducible refine Frame.frame_update ?_); exact fun _ => ⟨rfl, Or.inl rfl⟩)
    | with_reducible refine Frame.frame_bind ?_ (fun _ => ?_)
    | ((with_reducible refine Frame.frame_set_state _ ?_ ?_); exact fun _ => rfl; decide)
    | with_reducible refine Frame.frame_try_catch ?_ (fun _ => ?_)
    | ((with_reducible refine Frame.frame_warn _ _ ?_); exact fun _ _ => rfl)
    | ((with_reducible refine Frame.frame_when_enabled ?_ ?_ ?_); exact fun _ => rfl; decide)
    | with_reducible exact Frame.frame_pure _
    | with_reducible exact Frame.frame_read
    | with_reducible exact Frame.frame_eval _
    | ((with_reducible refine Frame.frame_zoom ?_); exact fun _ _ => ⟨rfl, Or.inl rfl⟩)
    | ((with_reducible refine Frame.frame_id_list_loop (F := F) _ ?_ _); exact fun _ _ => ⟨rfl, Or.inl rfl⟩)
    | ((with_reducible refine Frame.frame_select_state _ _ ?_ ?_ ?_); exact fun _ _ => rfl; decide; decide)
    | ((with_reducible refine Frame.frame_set_state_ite ?_ ?_ ?_); exact fun _ _ => rfl; decide; decide)
    | ((with_reducible refine Frame.frame_update_if ?_); exact fun _ => ⟨rfl, Or.inl rfl⟩)
    | with_reducible apply Frame.frame_ite
    | unfold KFile.warn
    | split

theorem case_IN_SET_SEGMENT_DATA_moves (line : Str) :
    Frame (fun _ : Ctx F => ()) (ParseState.akin (some .sets) (some .current_set))
      (case_IN_SET_SEGMENT_DATA line : Run (Ctx F) Unit) := by
  unfold KFile.case_IN_SET_SEGMENT_DATA
  repeat' first
    | ((with_reducible refine Frame.frame_assign ?_); exact fun _ _ => ⟨rfl, Or.inl rfl⟩)
    | ((with_reducible refine Frame.frame_update ?_); exact fun _ => ⟨rfl, Or.inl rfl⟩)
    | with_reducible refine Frame.frame_bind ?_ (fun _ => ?_)
    | ((with_reducible refine Frame.frame_set_state _ ?_ ?_); exact fun _ => rfl; decide)
    | with_reducible refine Frame.frame_try_catch ?_ (fun _ => ?_)
    | ((with_reducible refine Frame.frame_warn _ _ ?_); exact fun _ _ => rfl)
    | ((with_reducible refine Frame.frame_when_enabled ?_ ?_ ?_); exact fun _ => rfl; decide)
    | with_reducible exact Frame.frame_pure _
    | with_reducible exact Frame.frame_read
    | with_reducible exact Frame.frame_eval _
    | ((with_reducible refine Frame.frame_zoom ?_); exact fun _ _ => ⟨rfl, Or.inl rfl⟩)
    | ((with_reducible refine Frame.frame_id_list_loop (F := F) _ ?_ _); exact fun _ _ => ⟨rfl, Or.inl rfl⟩)
    | ((with_reducible refine Frame.frame_select_state _ _ ?_ ?_ ?_); exact fun _ _ => rfl; decide; decide)
    | ((with_reducible refine Frame.frame_set_state_ite ?_ ?_ ?_); exact fun _ _ => rfl; decide; decide)
    | ((with_reducible refine Frame.frame_update_if ?_); exact fun _ => ⟨rfl, Or.inl rfl⟩)
    | with_reducible apply Frame.frame_ite
    | unfold KFile.warn
    | split

theorem case_IN_SECTION_SHELL_HEADER_moves (line : Str) :
    Frame (fun _ : Ctx F => ()) (ParseState.akin (some .sections) (some .current_section))
      (case_IN_SECTION_SHELL_HEADER line : Run (Ctx F) Unit) := by
  unfold KFile.case_IN_SECTION_SHELL_HEADER
  repeat' first
    | ((with_reducible refine Frame.frame_assign ?_); exact fun _ _ => ⟨rfl, Or.inl rfl⟩)
    | ((with_reducible refine Frame.frame_update ?_); exact fun _ => ⟨rfl, Or.inl rfl⟩)
    | with_reducible refine Frame.frame_bind ?_ (fun _ => ?_)
    | ((with_reducible refine Frame.frame_set_state _ ?_ ?_); exact fun _ => rfl; decide)
    | with_reducible refine Frame.frame_try_catch ?_ (fun _ => ?_)
    | ((with_reducible refine Frame.frame_warn _ _ ?_); exact fun _ _ => rfl)
    | ((with_reducible refine Frame.frame_when_enabled ?_ ?_ ?_); exact fun _ => rfl; decide)
    | with_reducible exact Frame.frame_pure _
    | with_reducible exact Frame.frame_read
    | with_reducible exact Frame.frame_eval _
    | ((with_reducible refine Frame.frame_zoom ?_); exact fun _ _ => ⟨rfl, Or.inl rfl⟩)
    | ((with_reducible refine Frame.frame_id_list_loop (F := F) _ ?_ _); exact fun _ _ => ⟨rfl, Or.inl rfl⟩)
    | ((with_reducible refine Frame.frame_select_state _ _ ?_ ?_ ?_); exact fun _ _ => rfl; decide; decide)
    | ((with_reducible refine Frame.frame_set_state_ite ?_ ?_ ?_); exact fun _ _ => rfl; decide; decide)
    | ((with_reducible refine Frame.frame_update_if ?_); exact fun _ => ⟨rfl, Or.inl rfl⟩)
    | with_reducible apply Frame.frame_ite
    | unfold KFile.warn
    | split

theorem case_IN_SECTION_SHELL_DATA_moves (line : Str) :
    Frame (fun _ : Ctx F => ()) (ParseState.akin (some .sections) (some .current_section))
      (case_IN_SECTION_SHELL_DATA line : Run (Ctx F) Unit) := by
  unfold KFile.case_IN_SECTION_SHELL_DATA
  repeat' first
    | ((with_reducible refine Frame.frame_assign ?_); exact fun _ _ => ⟨rfl, Or.inl rfl⟩)
    | ((with_reducible refine Frame.frame_update ?_); exact fun _ => ⟨rfl, Or.inl rfl⟩)
    | with_reducible refine Frame.frame_bind ?_ (fun _ => ?_)
    | ((with_reducible refine Frame.frame_set_state _ ?_ ?_); exact fun _ => rfl; decide)
    | with_reducible refine Frame.frame_try_catch ?_ (fun _ => ?_)
    | ((with_reducible refine Frame.frame_warn _ _ ?_); exact fun _ _ => rfl)
    | ((with_reducible refine Frame.frame_when_enabled ?_ ?_ ?_); exact fun _ => rfl; decide)
    | with_reducible exact Frame.frame_pure _
    | with_reducible exact Frame.frame_read
    | with_reducible exact Frame.frame_eval _
    | ((with_reducible refine Frame.frame_zoom ?_); exact fun _ _ => ⟨rfl, Or.inl rfl⟩)
    | ((with_reducible refine Frame.frame_id_list_loop (F := F) _ ?_ _); exact fun _ _ => ⟨rfl, Or.inl rfl⟩)
    | ((with_reducible refine Frame.frame_select_state _ _ ?_ ?_ ?_); exact fun _ _ => rfl; decide; decide)
    | ((with_reducible refine Frame.frame_set_state_ite ?_ ?_ ?_); exact fun _ _ => rfl; decide; decide)
    | ((with_reducible refine Frame.frame_update_if ?_); exact fun _ => ⟨rfl, Or.inl rfl⟩)
    | with_reducible apply Frame.frame_ite
    | unfold KFile.warn
    | unfold KFile.push_current_section
    | split

theorem case_IN_SECTION_SOLID_moves (line : Str) :
    Frame (fun _ : Ctx F => ()) (ParseState.akin (some .sections) (some .current_section))
      (case_IN_SECTION_SOLID line : Run (Ctx F) Unit) := by
  unfold KFile.case_IN_SECTION_SOLID
  repeat' first
    | ((with_reducible refine Frame.frame_assign ?_); exact fun _ _ => ⟨rfl, Or.inl rfl⟩)
    | ((with_reducible refine Frame.frame_update ?_); exact fun _ => ⟨rfl, Or.inl rfl⟩)
    | with_reducible refine Frame.frame_bind ?_ (fun _ => ?_)
    | ((with_reducible refine Frame.frame_set_state _ ?_ ?_); exact fun _ => rfl; decide)
    | with_reducible refine Frame.frame_try_catch ?_ (fun _ => ?_)
    | ((with_reducible refine Frame.frame_warn _ _ ?_); exact fun _ _ => rfl)
    | ((with_reducible refine Frame.frame_when_enabled ?_ ?_ ?_); exact fun _ => rfl; decide)
    | with_reducible exact Frame.frame_pure _
    | with_reducible exact Frame.frame_read
    | with_reducible exact Frame.frame_eval _
    | ((with_reducible refine Frame.frame_zoom ?_); exact fun _ _ => ⟨rfl, Or.inl rfl⟩)
    | ((with_reducible refine Frame.frame_id_list_loop (F := F) _ ?_ _); exact fun _ _ => ⟨rfl, Or.inl rfl⟩)
    | ((with_reducible refine Frame.frame_select_state _ _ ?_ ?_ ?_); exact fun _ _ => rfl; decide; decide)
    | ((with_reducible refine Frame.frame_set_state_ite ?_ ?_ ?_); exact fun _ _ => rfl; decide; decide)
    | ((with_reducible refine Frame.frame_update_if ?_); exact fun _ => ⟨rfl, Or.inl rfl⟩)
    | with_reducible apply Frame.frame_ite
    | unfold KFile.warn
    | unfold KFile.push_current_section
    | split

theorem case_IN_SECTION_BEAM_HEADER_moves (line : Str) :
    Frame (fun _ : Ctx F => ()) (ParseState.akin (some .sections) (some .current_section))
      (case_IN_SECTION_BEAM_HEADER line : Run (Ctx F) Unit) := by
  unfold KFile.case_IN_SECTION_BEAM_HEADER
  repeat' first
    | ((with_reducible refine Frame.frame_assign ?_); exact fun _ _ => ⟨rfl, Or.inl rfl⟩)
    | ((with_reducible refine Frame.frame_update ?_); exact fun _ => ⟨rfl, Or.inl rfl⟩)
    | with_reducible refine Frame.frame_bind ?_ (fun _ => ?_)
    | ((with_reducible refine Frame.frame_set_state _ ?_ ?_); exact fun _ => rfl; decide)
    | with_reducible refine Frame.frame_try_catch ?_ (fun _ => ?_)
    | ((with_reducible refine Frame.frame_warn _ _ ?_); exact fun _ _ => rfl)
    | ((with_reducible refine Frame.frame_when_enabled ?_ ?_ ?_); exact fun _ => rfl; decide)
    | with_reducible exact Frame.frame_pure _
    | with_reducible exact Frame.frame_read
    | with_reducible exact Frame.frame_eval _
    | ((with_reducible refine Frame.frame_zoom ?_); exact fun _ _ => ⟨rfl, Or.inl rfl⟩)
    | ((with_reducible refine Frame.frame_id_list_loop (F := F) _ ?_ _); exact fun _ _ => ⟨rfl, Or.inl rfl⟩)
    | ((with_reducible refine Frame.frame_select_state _ _ ?_ ?_ ?_); exact fun _ _ => rfl; decide; decide)
    | ((with_reducible refine Frame.frame_set_state_ite ?_ ?_ ?_); exact fun _ _ => rfl; decide; decide)
    | ((with_reducible refine Frame.frame_update_if ?_); exact fun _ => ⟨rfl, Or.inl rfl⟩)
    | with_reducible apply Frame.frame_ite
    | unfold KFile.warn
    | split

theorem case_IN_SECTION_BEAM_DATA_moves (line : Str) :
    Frame (fun _ : Ctx F => ()) (ParseState.akin (some .sections) (some .current_section))
      (case_IN_SECTION_BEAM_DATA line : Run (Ctx F) Unit) := by
  unfold KFile.case_IN_SECTION_BEAM_DATA
  repeat' first
    | ((with_reducible refine Frame.frame_assign ?_); exact fun _ _ => ⟨rfl, Or.inl rfl⟩)
    | ((with_reducible refine Frame.frame_update ?_); exact fun _ => ⟨rfl, Or.inl rfl⟩)
    | with_reducible refine Frame.frame_bind ?_ (fun _ => ?_)
    | ((with_reducible refine Frame.frame_set_state _ ?_ ?_); exact fun _ => rfl; decide)
    | with_reducible refine Frame.frame_try_catch ?_ (fun _ => ?_)
    | ((with_reducible refine Frame.frame_warn _ _ ?_); exact fun _ _ => rfl)
    | ((with_reducible refine Frame.frame_when_enabled ?_ ?_ ?_); exact fun _ => rfl; decide)
    | with_reducible exact Frame.frame_pure _
    | with_reducible exact Frame.frame_read
    | with_reducible exact Frame.frame_eval _
    | ((with_reducible refine Frame.frame_zoom ?_); exact fun _ _ => ⟨rfl, Or.inl rfl⟩)
    | ((with_reducible refine Frame.frame_id_list_loop (F := F) _ ?_ _); exact fun _ _ => ⟨rfl, Or.inl rfl⟩)
    | ((with_reducible refine Frame.frame_select_state _ _ ?_ ?_ ?_); exact fun _ _ => rfl; decide; decide)
    | ((with_reducible refine Frame.frame_set_state_ite ?_ ?_ ?_); exact fun _ _ => rfl; decide; decide)
    | ((with_reducible refine Frame.frame_update_if ?_); exact fun _ => ⟨rfl, Or.inl rfl⟩)
    | with_reducible apply Frame.frame_ite
    | unfold KFile.warn
    | unfold KFile.push_current_section
    | split

theorem case_IN_CONTACT_CARD1_moves (line : Str) :
    Frame (fun _ : Ctx F => ()) (ParseState.akin (some .contacts) (some .current_contact))
      (case_IN_CONTACT_CARD1 line : Run (Ctx F) Unit) := by
  unfold KFile.case_IN_CONTACT_CARD1
  repeat' first
    | ((with_reducible refine Frame.frame_assign ?_); exact fun _ _ => ⟨rfl, Or.inl rfl⟩)
    | ((with_reducible refine Frame.frame_update ?_); exact fun _ => ⟨rfl, Or.inl rfl⟩)
    | with_reducible refine Frame.frame_bind ?_ (fun _ => ?_)
    | ((with_reducible refine Frame.frame_set_state _ ?_ ?_); exact fun _ => rfl; decide)
    | with_reducible refine Frame.frame_try_catch ?_ (fun _ => ?_)
    | ((with_reducible refine Frame.frame_warn _ _ ?_); exact fun _ _ => rfl)
    | ((with_reducible refine Frame.frame_when_enabled ?_ ?_ ?_); exact fun _ => rfl; decide)
    | with_reducible exact Frame.frame_pure _
    | with_reducible exact Frame.frame_read
    | with_reducible exact Frame.frame_eval _
    | ((with_reducible refine Frame.frame_zoom ?_); exact fun _ _ => ⟨rfl, Or.inl rfl⟩)
    | ((with_reducible refine Frame.frame_id_list_loop (F := F) _ ?_ _); exact fun _ _ => ⟨rfl, Or.inl rfl⟩)
    | ((with_reducible refine Frame.frame_select_state _ _ ?_ ?_ ?_); exact fun _ _ => rfl; decide; decide)
    | ((with_reducible refine Frame.frame_set_state_ite ?_ ?_ ?_); exact fun _ _ => rfl; decide; decide)
    | ((with_reducible refine Frame.frame_update_if ?_); exact fun _ => ⟨rfl, Or.inl rfl⟩)
    | with_reducible apply Frame.frame_ite
    | unfold KFile.warn
    | split

theorem case_IN_CONTACT_CARD2_moves (line : Str) :
    Frame (fun _ : Ctx F => ()) (ParseState.akin (some .contacts) (some .current_contact))
      (case_IN_CONTACT_CARD2 line : Run (Ctx F) Unit) := by
  unfold KFile.case_IN_CONTACT_CARD2
  repeat' first
    | ((with_reducible refine Frame.frame_assign ?_); exact fun _ _ => ⟨rfl, Or.inl rfl⟩)
    | ((with_reducible refine Frame.frame_update ?_); exact fun _ => ⟨rfl, Or.inl rfl⟩)
    | with_reducible refine Frame.frame_bind ?_ (fun _ => ?_)
    | ((with_reducible refine Frame.frame_set_state _ ?_ ?_); exact fun _ => rfl; decide)
    | with_reducible refine Frame.frame_try_catch ?_ (fun _ => ?_)
    | ((with_reducible refine Frame.frame_warn _ _ ?_); exact fun _ _ => rfl)
    | ((with_reducible refine Frame.frame_when_enabled ?_ ?_ ?_); exact fun _ => rfl; decide)
    | with_reducible exact Frame.frame_pure _
    | with_reducible exact Frame.frame_read
    | with_reducible exact Frame.frame_eval _
    | ((with_reducible refine Frame.frame_zoom ?_); exact fun _ _ => ⟨rfl, Or.inl rfl⟩)
    | ((with_reducible refine Frame.frame_id_list_loop (F := F) _ ?_ _); exact fun _ _ => ⟨rfl, Or.inl rfl⟩)
    | ((with_reducible refine Frame.frame_select_state _ _ ?_ ?_ ?_); exact fun _ _ => rfl; decide; decide)
    | ((with_reducible refine Frame.frame_set_state_ite ?_ ?_ ?_); exact fun _ _ => rfl; decide; decide)
    | ((with_reducible refine Frame.frame_update_if ?_); exact fun _ => ⟨rfl, Or.inl rfl⟩)
    | with_reducible apply Frame.frame_ite
    | unfold KFile.warn
    | unfold KFile.push_current_contact
    | split

theorem case_IN_CONTACT_CARD3_moves (line : Str) :
    Frame (fun _ : Ctx F => ()) (ParseState.akin (some .contacts) (some .current_contact))
      (case_IN_CONTACT_CARD3 line : Run (Ctx F) Unit) := by
  unfold KFile.case_IN_CONTACT_CARD3
  repeat' first
    | ((with_reducible refine Frame.frame_assign ?_); exact fun _ _ => ⟨rfl, Or.inl rfl⟩)
    | ((with_reducible refine Frame.frame_update ?_); exact fun _ => ⟨rfl, Or.inl rfl⟩)
    | with_reducible refine Frame.frame_bind ?_ (fun _ => ?_)
    | ((with_reducible refine Frame.frame_set_state _ ?_ ?_); exact fun _ => rfl; decide)
    | with_reducible refine Frame.frame_try_catch ?_ (fun _ => ?_)
    | ((with_reducible refine Frame.frame_warn _ _ ?_); exact fun _ _ => rfl)
    | ((with_reducible refine Frame.frame_when_enabled ?_ ?_ ?_); exact fun _ => rfl; decide)
    | with_reducible exact Frame.frame_pure _
    | with_reducible exact Frame.frame_read
    | with_reducible exact Frame.frame_eval _
    | ((with_reducible refine Frame.frame_zoom ?_); exact fun _ _ => ⟨rfl, Or.inl rfl⟩)
    | ((with_reducible refine Frame.frame_id_list_loop (F := F) _ ?_ _); exact fun _ _ => ⟨rfl, Or.inl rfl⟩)
    | ((with_reducible refine Frame.frame_select_state _ _ ?_ ?_ ?_); exact fun _ _ => rfl; decide; decide)
    | ((with_reducible refine Frame.frame_set_state_ite ?_ ?_ ?_); exact fun _ _ => rfl; decide; decide)
    | ((with_reducible refine Frame.frame_update_if ?_); exact fun _ => ⟨rfl, Or.inl rfl⟩)
    | with_reducible apply Frame.frame_ite
    | unfold KFile.warn
    | unfold KFile.push_current_contact
    | split

theorem case_IN_MATERIAL_TITLE_moves (line : Str) :
    Frame (fun _ : Ctx F => ()) (ParseState.akin (some .materials) (some .current_material))
      (case_IN_MATERIAL_TITLE line : Run (Ctx F) Unit) := by
  unfold KFile.case_IN_MATERIAL_TITLE
  repeat' first
    | ((with_reducible refine Frame.frame_assign ?_); exact fun _ _ => ⟨rfl, Or.inl rfl⟩)
    | ((with_reducible refine Frame.frame_update ?_); exact fun _ => ⟨rfl, Or.inl rfl⟩)
    | with_reducible refine Frame.frame_bind ?_ (fun _ => ?_)
    | ((with_reducible refine Frame.frame_set_state _ ?_ ?_); exact fun _ => rfl; decide)
    | with_reducible refine Frame.frame_try_catch ?_ (fun _ => ?_)
    | ((with_reducible refine Frame.frame_warn _ _ ?_); exact fun _ _ => rfl)
    | ((with_reducible refine Frame.frame_when_enabled ?_ ?_ ?_); exact fun _ => rfl; decide)
    | with_reducible exact Frame.frame_pure _
    | with_reducible exact Frame.frame_read
    | with_reducible exact Frame.frame_eval _
    | ((with_reducible refine Frame.frame_zoom ?_); exact fun _ _ => ⟨rfl, Or.inl rfl⟩)
    | ((with_reducible refine Frame.frame_id_list_loop (F := F) _ ?_ _); exact fun _ _ => ⟨rfl, Or.inl rfl⟩)
    | ((with_reducible refine Frame.frame_select_state _ _ ?_ ?_ ?_); exact fun _ _ => rfl; decide; decide)
    | ((with_reducible refine Frame.frame_set_state_ite ?_ ?_ ?_); exact fun _ _ => rfl; decide; decide)
    | ((with_reducible refine Frame.frame_update_if ?_); exact fun _ => ⟨rfl, Or.inl rfl⟩)
    | with_reducible apply Frame.frame_ite
    | unfold KFile.warn
    | split

theorem case_IN_MATERIAL_DATA_moves (line : Str) :
    Frame (fun _ : Ctx F => ()) (ParseState.akin (some .materials) (some .current_material))
      (case_IN_MATERIAL_DATA line : Run (Ctx F) Unit) := by
  unfold KFile.case_IN_MATERIAL_DATA
  repeat' first
    | ((with_reducible refine Frame.frame_assign ?_); exact fun _ _ => ⟨rfl, Or.inl rfl⟩)
    | ((with_reducible refine Frame.frame_update ?_); exact fun _ => ⟨rfl, Or.inl rfl⟩)
    | with_reducible refine Frame.frame_bind ?_ (fun _ => ?_)
    | ((with_reducible refine Frame.frame_set_state _ ?_ ?_); exact fun _ => rfl; decide)
    | with_reducible refine Frame.frame_try_catch ?_ (fun _ => ?_)
    | ((with_reducible refine Frame.frame_warn _ _ ?_); exact fun _ _ => rfl)
    | ((with_reducible refine Frame.frame_when_enabled ?_ ?_ ?_); exact fun _ => rfl; decide)
    | with_reducible exact Frame.frame_pure _
    | with_reducible exact Frame.frame_read
    | with_reducible exact Frame.frame_eval _
    | ((with_reducible refine Frame.frame_zoom ?_); exact fun _ _ => ⟨rfl, Or.inl rfl⟩)
    | ((with_reducible refine Frame.frame_id_list_loop (F := F) _ ?_ _); exact fun _ _ => ⟨rfl, Or.inl rfl⟩)
    | ((with_reducible refine Frame.frame_select_state _ _ ?_ ?_ ?_); exact fun _ _ => rfl; decide; decide)
    | ((with_reducible refine Frame.frame_set_state_ite ?_ ?_ ?_); exact fun _ _ => rfl; decide; decide)
    | ((with_reducible refine Frame.frame_update_if ?_); exact fun _ => ⟨rfl, Or.inl rfl⟩)
    | with_reducible apply Frame.frame_ite
    | unfold KFile.warn
    | split

theorem case_IN_INCLUDE_moves (line : Str) :
    Frame (fun _ : Ctx F => ()) (ParseState.akin (some .includes) none)
      (case_IN_INCLUDE line : Run (Ctx F) Unit) := by
  unfold KFile.case_IN_INCLUDE
  repeat' first
    | ((with_reducible refine Frame.frame_assign ?_); exact fun _ _ => ⟨rfl, Or.inl rfl⟩)
    | ((with_reducible refine Frame.frame_update ?_); exact fun _ => ⟨rfl, Or.inl rfl⟩)
    | with_reducible refine Frame.frame_bind ?_ (fun _ => ?_)
    | ((with_reducible refine Frame.frame_set_state _ ?_ ?_); exact fun _ => rfl; decide)
    | with_reducible refine Frame.frame_try_catch ?_ (fun _ => ?_)
    | ((with_reducible refine Frame.frame_warn _ _ ?_); exact fun _ _ => rfl)
    | ((with_reducible refine Frame.frame_when_enabled ?_ ?_ ?_); exact fun _ => rfl; decide)
    | with_reducible exact Frame.frame_pure _
    | with_reducible exact Frame.frame_read
    | with_reducible exact Frame.frame_eval _
    | ((with_reducible refine Frame.frame_zoom ?_); exact fun _ _ => ⟨rfl, Or.inl rfl⟩)
    | ((with_reducible refine Frame.frame_id_list_loop (F := F) _ ?_ _); exact fun _ _ => ⟨rfl, Or.inl rfl⟩)
    | ((with_reducible refine Frame.frame_select_state _ _ ?_ ?_ ?_); exact fun _ _ => rfl; decide; decide)
    | ((with_reducible refine Frame.frame_set_state_ite ?_ ?_ ?_); exact fun _ _ => rfl; decide; decide)
    | ((with_reducible refine Frame.frame_update_if ?_); exact fun _ => ⟨rfl, Or.inl rfl⟩)
    | with_reducible apply Frame.frame_ite
    | unfold KFile.warn
    | split

theorem case_IN_CURVE_TITLE_moves (line : Str) :
    Frame (fun _ : Ctx F => ()) (ParseState.akin (some .curves) (some .current_curve))
      (case_IN_CURVE_TITLE line : Run (Ctx F) Unit) := by
  unfold KFile.case_IN_CURVE_TITLE
  repeat' first
    | ((with_reducible refine Frame.frame_assign ?_); exact fun _ _ => ⟨rfl, Or.inl rfl⟩)
    | ((with_reducible refine Frame.frame_update ?_); exact fun _ => ⟨rfl, Or.inl rfl⟩)
    | with_reducible refine Frame.frame_bind ?_ (fun _ => ?_)
    | ((with_reducible refine Frame.frame_set_state _ ?_ ?_); exact fun _ => rfl; decide)
    | with_reducible refine Frame.frame_try_catch ?_ (fun _ => ?_)
    | ((with_reducible refine Frame.frame_warn _ _ ?_); exact fun _ _ => rfl)
    | ((with_reducible refine Frame.frame_when_enabled ?_ ?_ ?_); exact fun _ => rfl; decide)
    | with_reducible exact Frame.frame_pure _
    | with_reducible exact Frame.frame_read
    | with_reducible exact Frame.frame_eval _
    | ((with_reducible refine Frame.frame_zoom ?_); exact fun _ _ => ⟨rfl, Or.inl rfl⟩)
    | ((with_reducible refine Frame.frame_id_list_loop (F := F) _ ?_ _); exact fun _ _ => ⟨rfl, Or.inl rfl⟩)
    | ((with_reducible refine Frame.frame_select_state _ _ ?_ ?_ ?_); exact fun _ _ => rfl; decide; decide)
    | ((with_reducible refine Frame.frame_set_state_ite ?_ ?_ ?_); exact fun _ _ => rfl; decide; decide)
    | ((with_reducible refine Frame.frame_update_if ?_); exact fun _ => ⟨rfl, Or.inl rfl⟩)
    | with_reducible apply Frame.frame_ite
    | unfold KFile.warn
    | split

theorem case_IN_CURVE_HEADER_moves (line : Str) :
    Frame (fun _ : Ctx F => ()) (ParseState.akin (some .curves) (some .current_curve))
      (case_IN_CURVE_HEADER line : Run (Ctx F) Unit) := by
  unfold KFile.case_IN_CURVE_HEADER
  repeat' first
    | ((with_reducible refine Frame.frame_assign ?_); exact fun _ _ => ⟨rfl, Or.inl rfl⟩)
    | ((with_reducible refine Frame.frame_update ?_); exact fun _ => ⟨rfl, Or.inl rfl⟩)
    | with_reducible refine Frame.frame_bind ?_ (fun _ => ?_)
    | ((with_reducible refine Frame.frame_set_state _ ?_ ?_); exact fun _ => rfl; decide)
    | with_reducible refine Frame.frame_try_catch ?_ (fun _ => ?_)
    | ((with_reducible refine Frame.frame_warn _ _ ?_); exact fun _ _ => rfl)
    | ((with_reducible refine Frame.frame_when_enabled ?_ ?_ ?_); exact fun _ => rfl; decide)
    | with_reducible exact Frame.frame_pure _
    | with_reducible exact Frame.frame_read
    | with_reducible exact Frame.frame_eval _
    | ((with_reducible refine Frame.frame_zoom ?_); exact fun _ _ => ⟨rfl, Or.inl rfl⟩)
    | ((with_reducible refine Frame.frame_id_list_loop (F := F) _ ?_ _); exact fun _ _ => ⟨rfl, Or.inl rfl⟩)
    | ((with_reducible refine Frame.frame_select_state _ _ ?_ ?_ ?_); exact fun _ _ => rfl; decide; decide)
    | ((with_reducible refine Frame.frame_set_state_ite ?_ ?_ ?_); exact fun _ _ => rfl; decide; decide)
    | ((with_reducible refine Frame.frame_update_if ?_); exact fun _ => ⟨rfl, Or.inl rfl⟩)
    | with_reducible apply Frame.frame_ite
    | unfold KFile.warn
    | split

theorem case_IN_CURVE_DATA_moves (line : Str) :
    Frame (fun _ : Ctx F => ()) (ParseState.akin (some .curves) (some .current_curve))
      (case_IN_CURVE_DATA line : Run (Ctx F) Unit) := by
  unfold KFile.case_IN_CURVE_DATA
  repeat' first
    | ((with_reducible refine Frame.frame_assign ?_); exact fun _ _ => ⟨rfl, Or.inl rfl⟩)
    | ((with_reducible refine Frame.frame_update ?_); exact fun _ => ⟨rfl, Or.inl rfl⟩)
    | with_reducible refine Frame.frame_bind ?_ (fun _ => ?_)
    | ((with_reducible refine Frame.frame_set_state _ ?_ ?_); exact fun _ => rfl; decide)
    | with_reducible refine Frame.frame_try_catch ?_ (fun _ => ?_)
    | ((with_reducible refine Frame.frame_warn _ _ ?_); exact fun _ _ => rfl)
    | ((with_reducible refine Frame.frame_when_enabled ?_ ?_ ?_); exact fun _ => rfl; decide)
    | with_reducible exact Frame.frame_pure _
    | with_reducible exact Frame.frame_read
    | with_reducible exact Frame.frame_eval _
    | ((with_reducible refine Frame.frame_zoom ?_); exact fun _ _ => ⟨rfl, Or.inl rfl⟩)
    | ((with_reducible refine Frame.frame_id_list_loop (F := F) _ ?_ _); exact fun _ _ => ⟨rfl, Or.inl rfl⟩)
    | ((with_reducible refine Frame.frame_select_state _ _ ?_ ?_ ?_); exact fun _ _ => rfl; decide; decide)
    | ((with_reducible refine Frame.frame_set_state_ite ?_ ?_ ?_); exact fun _ _ => rfl; decide; decide)
    | ((with_reducible refine Frame.frame_update_if ?_); exact fun _ => ⟨rfl, Or.inl rfl⟩)
    | with_reducible apply Frame.frame_ite
    | unfold KFile.warn
    | split

theorem case_IN_BOUNDARY_SPC_moves (line : Str) :
    Frame (fun _ : Ctx F => ()) (ParseState.akin (some .boundaries) (some .current_boundary_spc))
      (case_IN_BOUNDARY_SPC line : Run (Ctx F) Unit) := by
  unfold KFile.case_IN_BOUNDARY_SPC
  repeat' first
    | ((with_reducible refine Frame.frame_assign ?_); exact fun _ _ => ⟨rfl, Or.inl rfl⟩)
    | ((with_reducible refine Frame.frame_update ?_); exact fun _ => ⟨rfl, Or.inl rfl⟩)
    | with_reducible refine Frame.frame_bind ?_ (fun _ => ?_)
    | ((with_reducible refine Frame.frame_set_state _ ?_ ?_); exact fun _ => rfl; decide)
    | with_reducible refine Frame.frame_try_catch ?_ (fun _ => ?_)
    | ((with_reducible refine Frame.frame_warn _ _ ?_); exact fun _ _ => rfl)
    | ((with_reducible refine Frame.frame_when_enabled ?_ ?_ ?_); exact fun _ => rfl; decide)
    | with_reducible exact Frame.frame_pure _
    | with_reducible exact Frame.frame_read
    | with_reducible exact Frame.frame_eval _
    | ((with_reducible refine Frame.frame_zoom ?_); exact fun _ _ => ⟨rfl, Or.inl rfl⟩)
    | ((with_reducible refine Frame.frame_id_list_loop (F := F) _ ?_ _); exact fun _ _ => ⟨rfl, Or.inl rfl⟩)
    | ((with_reducible refine Frame.frame_select_state _ _ ?_ ?_ ?_); exact fun _ _ => rfl; decide; decide)
    | ((with_reducible refine Frame.frame_set_state_ite ?_ ?_ ?_); exact fun _ _ => rfl; decide; decide)
    | ((with_reducible refine Frame.frame_update_if ?_); exact fun _ => ⟨rfl, Or.inl rfl⟩)
    | with_reducible apply Frame.frame_ite
    | unfold KFile.warn
    | split

theorem case_IN_BOUNDARY_MOTION_moves (line : Str) :
    Frame (fun _ : Ctx F => ()) (ParseState.akin (some .boundaries) (some .current_boundary_motion))
      (case_IN_BOUNDARY_MOTION line : Run (Ctx F) Unit) := by
  unfold KFile.case_IN_BOUNDARY_MOTION
  repeat' first
    | ((with_reducible refine Frame.frame_assign ?_); exact fun _ _ => ⟨rfl, Or.inl rfl⟩)
    | ((with_reducible refine Frame.frame_update ?_); exact fun _ => ⟨rfl, Or.inl rfl⟩)
    | with_reducible refine Frame.frame_bind ?_ (fun _ => ?_)
    | ((with_reducible refine Frame.frame_set_state _ ?_ ?_); exact fun _ => rfl; decide)
    | with_reducible refine Frame.frame_try_catch ?_ (fun _ => ?_)
    | ((with_reducible refine Frame.frame_warn _ _ ?_); exact fun _ _ => rfl)
    | ((with_reducible refine Frame.frame_when_enabled ?_ ?_ ?_); exact fun _ => rfl; decide)
    | with_reducible exact Frame.frame_pure _
    | with_reducible exact Frame.frame_read
    | with_reducible exact Frame.frame_eval _
    | ((with_reducible refine Frame.frame_zoom ?_); exact fun _ _ => ⟨rfl, Or.inl rfl⟩)
    | ((with_reducible refine Frame.frame_id_list_loop (F := F) _ ?_ _); exact fun _ _ => ⟨rfl, Or.inl rfl⟩)
    | ((with_reducible refine Frame.frame_select_state _ _ ?_ ?_ ?_); exact fun _ _ => rfl; decide; decide)
    | ((with_reducible refine Frame.frame_set_state_ite ?_ ?_ ?_); exact fun _ _ => rfl; decide; decide)
    | ((with_reducible refine Frame.frame_update_if ?_); exact fun _ => ⟨rfl, Or.inl rfl⟩)
    | with_reducible apply Frame.frame_ite
    | unfold KFile.warn
    | split

theorem case_IN_LOAD_NODE_moves (line : Str) :
    Frame (fun _ : Ctx F => ()) (ParseState.akin (some .loads) (some .current_load_node))
      (case_IN_LOAD_NODE line : Run (Ctx F) Unit) := by
  unfold KFile.case_IN_LOAD_NODE
  repeat' first
    | ((with_reducible refine Frame.frame_assign ?_); exact fun _ _ => ⟨rfl, Or.inl rfl⟩)
    | ((with_reducible refine Frame.frame_update ?_); exact fun _ => ⟨rfl, Or.inl rfl⟩)
    | with_reducible refine Frame.frame_bind ?_ (fun _ => ?_)
    | ((with_reducible refine Frame.frame_set_state _ ?_ ?_); exact fun _ => rfl; decide)
    | with_reducible refine Frame.frame_try_catch ?_ (fun _ => ?_)
    | ((with_reducible refine Frame.frame_warn _ _ ?_); exact fun _ _ => rfl)
    | ((with_reducible refine Frame.frame_when_enabled ?_ ?_ ?_); exact fun _ => rfl; decide)
    | with_reducible exact Frame.frame_pure _
    | with_reducible exact Frame.frame_read
    | with_reducible exact Frame.frame_eval _
    | ((with_reducible refine Frame.frame_zoom ?_); exact fun _ _ => ⟨rfl, Or.inl rfl⟩)
    | ((with_reducible refine Frame.frame_id_list_loop (F := F) _ ?_ _); exact fun _ _ => ⟨rfl, Or.inl rfl⟩)
    | ((with_reducible refine Frame.frame_select_state _ _ ?_ ?_ ?_); exact fun _ _ => rfl; decide; decide)
    | ((with_reducible refine Frame.frame_set_state_ite ?_ ?_ ?_); exact fun _ _ => rfl; decide; decide)
    | ((with_reducible refine Frame.frame_update_if ?_); exact fun _ => ⟨rfl, Or.inl rfl⟩)
    | with_reducible apply Frame.frame_ite
    | unfold KFile.warn
    | split

theorem case_IN_LOAD_SEGMENT_moves (line : Str) :
    Frame (fun _ : Ctx F => ()) (ParseState.akin (some .loads) none)
      (case_IN_LOAD_SEGMENT line : Run (Ctx F) Unit) := by
  unfold KFile.case_IN_LOAD_SEGMENT
  repeat' first
    | ((with_reducible refine Frame.frame_assign ?_); exact fun _ _ => ⟨rfl, Or.inl rfl⟩)
    | ((with_reducible refine Frame.frame_update ?_); exact fun _ => ⟨rfl, Or.inl rfl⟩)
    | with_reducible refine Frame.frame_bind ?_ (fun _ => ?_)
    | ((with_reducible refine Frame.frame_set_state _ ?_ ?_); exact fun _ => rfl; decide)
    | with_reducible refine Frame.frame_try_catch ?_ (fun _ => ?_)
    | ((with_reducible refine Frame.frame_warn _ _ ?_); exact fun _ _ => rfl)
    | ((with_reducible refine Frame.frame_when_enabled ?_ ?_ ?_); exact fun _ => rfl; decide)
    | with_reducible exact Frame.frame_pure _
    | with_reducible exact Frame.frame_read
    | with_reducible exact Frame.frame_eval _
    | ((with_reducible refine Frame.frame_zoom ?_); exact fun _ _ => ⟨rfl, Or.inl rfl⟩)
    | ((with_reducible refine Frame.frame_id_list_loop (F := F) _ ?_ _); exact fun _ _ => ⟨rfl, Or.inl rfl⟩)
    | ((with_reducible refine Frame.frame_select_state _ _ ?_ ?_ ?_); exact fun _ _ => rfl; decide; decide)
    | ((with_reducible refine Frame.frame_set_state_ite ?_ ?_ ?_); exact fun _ _ => rfl; decide; decide)
    | ((with_reducible refine Frame.frame_update_if ?_); exact fun _ => ⟨rfl, Or.inl rfl⟩)
    | with_reducible apply Frame.frame_ite
    | unfold KFile.warn
    | split

theorem case_IN_LOAD_BODY_moves (line : Str) :
    Frame (fun _ : Ctx F => ()) (ParseState.akin (some .loads) (some .current_load_body))
      (case_IN_LOAD_BODY line : Run (Ctx F) Unit) := by
  unfold KFile.case_IN_LOAD_BODY
  repeat' first
    | ((with_reducible refine Frame.frame_assign ?_); exact fun _ _ => ⟨rfl, Or.inl rfl⟩)
    | ((with_reducible refine Frame.frame_update ?_); exact fun _ => ⟨rfl, Or.inl rfl⟩)
    | with_reducible refine Frame.frame_bind ?_ (fun _ => ?_)
    | ((with_reducible refine Frame.frame_set_state _ ?_ ?_); exact fun _ => rfl; decide)
    | with_reducible refine Frame.frame_try_catch ?_ (fun _ => ?_)
    | ((with_reducible refine Frame.frame_warn _ _ ?_); exact fun _ _ => rfl)
    | ((with_reducible refine Frame.frame_when_enabled ?_ ?_ ?_); exact fun _ => rfl; decide)
    | with_reducible exact Frame.frame_pure _
    | with_reducible exact Frame.frame_read
    | with_reducible exact Frame.frame_eval _
    | ((with_reducible refine Frame.frame_zoom ?_); exact fun _ _ => ⟨rfl, Or.inl rfl⟩)
    | ((with_reducible refine Frame.frame_id_list_loop (F := F) _ ?_ _); exact fun _ _ => ⟨rfl, Or.inl rfl⟩)
    | ((with_reducible refine Frame.frame_select_state _ _ ?_ ?_ ?_); exact fun _ _ => rfl; decide; decide)
    | ((with_reducible refine Frame.frame_set_state_ite ?_ ?_ ?_); exact fun _ _ => rfl; decide; decide)
    | ((with_reducible refine Frame.frame_update_if ?_); exact fun _ => ⟨rfl, Or.inl rfl⟩)
    | with_reducible apply Frame.frame_ite
    | unfold KFile.warn
    | split

theorem case_IN_CONTROL_TERMINATION_moves (line : Str) :
    Frame (fun _ : Ctx F => ()) (ParseState.akin (some .controls) (some .current_control_termination))
      (case_IN_CONTROL_TERMINATION line : Run (Ctx F) Unit) := by
  unfold KFile.case_IN_CONTROL_TERMINATION
  repeat' first
    | ((with_reducible refine Frame.frame_assign ?_); exact fun _ _ => ⟨rfl, Or.inl rfl⟩)
    | ((with_reducible refine Frame.frame_update ?_); exact fun _ => ⟨rfl, Or.inl rfl⟩)
    | with_reducible refine Frame.frame_bind ?_ (fun _ => ?_)
    | ((with_reducible refine Frame.frame_set_state _ ?_ ?_); exact fun _ => rfl; decide)
    | with_reducible refine Frame.frame_try_catch ?_ (fun _ => ?_)
    | ((with_reducible refine Frame.frame_warn _ _ ?_); exact fun _ _ => rfl)
    | ((with_reducible refine Frame.frame_when_enabled ?_ ?_ ?_); exact fun _ => rfl; decide)
    | with_reducible exact Frame.frame_pure _
    | with_reducible exact Frame.frame_read
    | with_reducible exact Frame.frame_eval _
    | ((with_reducible refine Frame.frame_zoom ?_); exact fun _ _ => ⟨rfl, Or.inl rfl⟩)
    | ((with_reducible refine Frame.frame_id_list_loop (F := F) _ ?_ _); exact fun _ _ => ⟨rfl, Or.inl rfl⟩)
    | ((with_reducible refine Frame.frame_select_state _ _ ?_ ?_ ?_); exact fun _ _ => rfl; decide; decide)
    | ((with_reducible refine Frame.frame_set_state_ite ?_ ?_ ?_); exact fun _ _ => rfl; decide; decide)
    | ((with_reducible refine Frame.frame_update_if ?_); exact fun _ => ⟨rfl, Or.inl rfl⟩)
    | with_reducible apply Frame.frame_ite
    | unfold KFile.warn
    | split

theorem case_IN_CONTROL_TIMESTEP_moves (line : Str) :
    Frame (fun _ : Ctx F => ()) (ParseState.akin (some .controls) (some .current_control_timestep))
      (case_IN_CONTROL_TIMESTEP line : Run (Ctx F) Unit) := by
  unfold KFile.case_IN_CONTROL_TIMESTEP
  repeat' first
    | ((with_reducible refine Frame.frame_assign ?_); exact fun _ _ => ⟨rfl, Or.inl rfl⟩)
    | ((with_reducible refine Frame.frame_update ?_); exact fun _ => ⟨rfl, Or.inl rfl⟩)
    | with_reducible refine Frame.frame_bind ?_ (fun _ => ?_)
    | ((with_reducible refine Frame.frame_set_state _ ?_ ?_); exact fun _ => rfl; decide)
    | with_reducible refine Frame.frame_try_catch ?_ (fun _ => ?_)
    | ((with_reducible refine Frame.frame_warn _ _ ?_); exact fun _ _ => rfl)
    | ((with_reducible refine Frame.frame_when_enabled ?_ ?_ ?_); exact fun _ => rfl; decide)
    | with_reducible exact Frame.frame_pure _
    | with_reducible exact Frame.frame_read
    | with_reducible exact Frame.frame_eval _
    | ((with_reducible refine Frame.frame_zoom ?_); exact fun _ _ => ⟨rfl, Or.inl rfl⟩)
    | ((with_reducible refine Frame.frame_id_list_loop (F := F) _ ?_ _); exact fun _ _ => ⟨rfl, Or.inl rfl⟩)
    | ((with_reducible refine Frame.frame_select_state _ _ ?_ ?_ ?_); exact fun _ _ => rfl; decide; decide)
    | ((with_reducible refine Frame.frame_set_state_ite ?_ ?_ ?_); exact fun _ _ => rfl; decide; decide)
    | ((with_reducible refine Frame.frame_update_if ?_); exact fun _ => ⟨rfl, Or.inl rfl⟩)
    | with_reducible apply Frame.frame_ite
    | unfold KFile.warn
    | split

theorem case_IN_CONTROL_ENERGY_moves (line : Str) :
    Frame (fun _ : Ctx F => ()) (ParseState.akin (some .controls) none)
      (case_IN_CONTROL_ENERGY line : Run (Ctx F) Unit) := by
  unfold KFile.case_IN_CONTROL_ENERGY
  repeat' first
    | ((with_reducible refine Frame.frame_assign ?_); exact fun _ _ => ⟨rfl, Or.inl rfl⟩)
    | ((with_reducible refine Frame.frame_update ?_); exact fun _ => ⟨rfl, Or.inl rfl⟩)
    | with_reducible refine Frame.frame_bind ?_ (fun _ => ?_)
    | ((with_reducible refine Frame.frame_set_state _ ?_ ?_); exact fun _ => rfl; decide)
    | with_reducible refine Frame.frame_try_catch ?_ (fun _ => ?_)
    | ((with_reducible refine Frame.frame_warn _ _ ?_); exact fun _ _ => rfl)
    | ((with_reducible refine Frame.frame_when_enabled ?_ ?_ ?_); exact fun _ => rfl; decide)
    | with_reducible exact Frame.frame_pure _
    | with_reducible exact Frame.frame_read
    | with_reducible exact Frame.frame_eval _
    | ((with_reducible refine Frame.frame_zoom ?_); exact fun _ _ => ⟨rfl, Or.inl rfl⟩)
    | ((with_reducible refine Frame.frame_id_list_loop (F := F) _ ?_ _); exact fun _ _ => ⟨rfl, Or.inl rfl⟩)
    | ((with_reducible refine Frame.frame_select_state _ _ ?_ ?_ ?_); exact fun _ _ => rfl; decide; decide)
    | ((with_reducible refine Frame.frame_set_state_ite ?_ ?_ ?_); exact fun _ _ => rfl; decide; decide)
    | ((with_reducible refine Frame.frame_update_if ?_); exact fun _ => ⟨rfl, Or.inl rfl⟩)
    | with_reducible apply Frame.frame_ite
    | unfold KFile.warn
    | split

theorem case_IN_CONTROL_OUTPUT_moves (line : Str) :
    Frame (fun _ : Ctx F => ()) (ParseState.akin (some .controls) none)
      (case_IN_CONTROL_OUTPUT line : Run (Ctx F) Unit) := by
  unfold KFile.case_IN_CONTROL_OUTPUT
  repeat' first
    | ((with_reducible refine Frame.frame_assign ?_); exact fun _ _ => ⟨rfl, Or.inl rfl⟩)
    | ((with_reducible refine Frame.frame_update ?_); exact fun _ => ⟨rfl, Or.inl rfl⟩)
    | with_reducible refine Frame.frame_bind ?_ (fun _ => ?_)
    | ((with_reducible refine Frame.frame_set_state _ ?_ ?_); exact fun _ => rfl; decide)
    | with_reducible refine Frame.frame_try_catch ?_ (fun _ => ?_)
    | ((with_reducible refine Frame.frame_warn _ _ ?_); exact fun _ _ => rfl)
    | ((with_reducible refine Frame.frame_when_enabled ?_ ?_ ?_); exact fun _ => rfl; decide)
    | with_reducible exact Frame.frame_pure _
    | with_reducible exact Frame.frame_read
    | with_reducible exact Frame.frame_eval _
    | ((with_reducible refine Frame.frame_zoom ?_); exact fun _ _ => ⟨rfl, Or.inl rfl⟩)
    | ((with_reducible refine Frame.frame_id_list_loop (F := F) _ ?_ _); exact fun _ _ => ⟨rfl, Or.inl rfl⟩)
    | ((with_reducible refine Frame.frame_select_state _ _ ?_ ?_ ?_); exact fun _ _ => rfl; decide; decide)
    | ((with_reducible refine Frame.frame_set_state_ite ?_ ?_ ?_); exact fun _ _ => rfl; decide; decide)
    | ((with_reducible refine Frame.frame_update_if ?_); exact fun _ => ⟨rfl, Or.inl rfl⟩)
    | with_reducible apply Frame.frame_ite
    | unfold KFile.warn
    | split

theorem case_IN_CONTROL_SHELL_moves (line : Str) :
    Frame (fun _ : Ctx F => ()) (ParseState.akin (some .controls) none)
      (case_IN_CONTROL_SHELL line : Run (Ctx F) Unit) := by
  unfold KFile.case_IN_CONTROL_SHELL
  repeat' first
    | ((with_reducible refine Frame.frame_assign ?_); exact fun _ _ => ⟨rfl, Or.inl rfl⟩)
    | ((with_reducible refine Frame.frame_update ?_); exact fun _ => ⟨rfl, Or.inl rfl⟩)
    | with_reducible refine Frame.frame_bind ?_ (fun _ => ?_)
    | ((with_reducible refine Frame.frame_set_state _ ?_ ?_); exact fun _ => rfl; decide)
    | with_reducible refine Frame.frame_try_catch ?_ (fun _ => ?_)
    | ((with_reducible refine Frame.frame_warn _ _ ?_); exact fun _ _ => rfl)
    | ((with_reducible refine Frame.frame_when_enabled ?_ ?_ ?_); exact fun _ => rfl; decide)
    | with_reducible exact Frame.frame_pure _
    | with_reducible exact Frame.frame_read
    | with_reducible exact Frame.frame_eval _
    | ((with_reducible refine Frame.frame_zoom ?_); exact fun _ _ => ⟨rfl, Or.inl rfl⟩)
    | ((with_reducible refine Frame.frame_id_list_loop (F := F) _ ?_ _); exact fun _ _ => ⟨rfl, Or.inl rfl⟩)
    | ((with_reducible refine Frame.frame_select_state _ _ ?_ ?_ ?_); exact fun _ _ => rfl; decide; decide)
    | ((with_reducible refine Frame.frame_set_state_ite ?_ ?_ ?_); exact fun _ _ => rfl; decide; decide)
    | ((with_reducible refine Frame.frame_update_if ?_); exact fun _ => ⟨rfl, Or.inl rfl⟩)
    | with_reducible apply Frame.frame_ite
    | unfold KFile.warn
    | split

theorem case_IN_CONTROL_CONTACT_moves (line : Str) :
    Frame (fun _ : Ctx F => ()) (ParseState.akin (some .controls) none)
      (case_IN_CONTROL_CONTACT line : Run (Ctx F) Unit) := by
  unfold KFile.case_IN_CONTROL_CONTACT
  repeat' first
    | ((with_reducible refine Frame.frame_assign ?_); exact fun _ _ => ⟨rfl, Or.inl rfl⟩)
    | ((with_reducible refine Frame.frame_update ?_); exact fun _ => ⟨rfl, Or.inl rfl⟩)
    | with_reducible refine Frame.frame_bind ?_ (fun _ => ?_)
    | ((with_reducible refine Frame.frame_set_state _ ?_ ?_); exact fun _ => rfl; decide)
    | with_reducible refine Frame.frame_try_catch ?_ (fun _ => ?_)
    | ((with_reducible refine Frame.frame_warn _ _ ?_); exact fun _ _ => rfl)
    | ((with_reducible refine Frame.frame_when_enabled ?_ ?_ ?_); exact fun _ => rfl; decide)
    | with_reducible exact Frame.frame_pure _
    | with_reducible exact Frame.frame_read
    | with_reducible exact Frame.frame_eval _
    | ((with_reducible refine Frame.frame_zoom ?_); exact fun _ _ => ⟨rfl, Or.inl rfl⟩)
    | ((with_reducible refine Frame.frame_id_list_loop (F := F) _ ?_ _); exact fun _ _ => ⟨rfl, Or.inl rfl⟩)
    | ((with_reducible refine Frame.frame_select_state _ _ ?_ ?_ ?_); exact fun _ _ => rfl; decide; decide)
    | ((with_reducible refine Frame.frame_set_state_ite ?_ ?_ ?_); exact fun _ _ => rfl; decide; decide)
    | ((with_reducible refine Frame.frame_update_if ?_); exact fun _ => ⟨rfl, Or.inl rfl⟩)
    | with_reducible apply Frame.frame_ite
    | unfold KFile.warn
    | split

theorem case_IN_CONTROL_HOURGLASS_moves (line : Str) :
    Frame (fun _ : Ctx F => ()) (ParseState.akin (some .controls) none)
      (case_IN_CONTROL_HOURGLASS line : Run (Ctx F) Unit) := by
  unfold KFile.case_IN_CONTROL_HOURGLASS
  repeat' first
    | ((with_reducible refine Frame.frame_assign ?_); exact fun _ _ => ⟨rfl, Or.inl rfl⟩)
    | ((with_reducible refine Frame.frame_update ?_); exact fun _ => ⟨rfl, Or.inl rfl⟩)
    | with_reducible refine Frame.frame_bind ?_ (fun _ => ?_)
    | ((with_reducible refine Frame.frame_set_state _ ?_ ?_); exact fun _ => rfl; decide)
    | with_reducible refine Frame.frame_try_catch ?_ (fun _ => ?_)
    | ((with_reducible refine Frame.frame_warn _ _ ?_); exact fun _ _ => rfl)
    | ((with_reducible refine Frame.frame_when_enabled ?_ ?_ ?_); exact fun _ => rfl; decide)
    | with_reducible exact Frame.frame_pure _
    | with_reducible exact Frame.frame_read
    | with_reducible exact Frame.frame_eval _
    | ((with_reducible refine Frame.frame_zoom ?_); exact fun _ _ => ⟨rfl, Or.inl rfl⟩)
    | ((with_reducible refine Frame.frame_id_list_loop (F := F) _ ?_ _); exact fun _ _ => ⟨rfl, Or.inl rfl⟩)
    | ((with_reducible refine Frame.frame_select_state _ _ ?_ ?_ ?_); exact fun _ _ => rfl; decide; decide)
    | ((with_reducible refine Frame.frame_set_state_ite ?_ ?_ ?_); exact fun _ _ => rfl; decide; decide)
    | ((with_reducible refine Frame.frame_update_if ?_); exact fun _ => ⟨rfl, Or.inl rfl⟩)
    | with_reducible apply Frame.frame_ite
    | unfold KFile.warn
    | split

theorem case_IN_CONTROL_BULK_VISCOSITY_moves (line : Str) :
    Frame (fun _ : Ctx F => ()) (ParseState.akin (some .controls) none)
      (case_IN_CONTROL_BULK_VISCOSITY line : Run (Ctx F) Unit) := by
  unfold KFile.case_IN_CONTROL_BULK_VISCOSITY
  repeat' first
    | ((with_reducible refine Frame.frame_assign ?_); exact fun _ _ => ⟨rfl, Or.inl rfl⟩)
    | ((with_reducible refine Frame.frame_update ?_); exact fun _ => ⟨rfl, Or.inl rfl⟩)
    | with_reducible refine Frame.frame_bind ?_ (fun _ => ?_)
    | ((with_reducible refine Frame.frame_set_state _ ?_ ?_); exact fun _ => rfl; decide)
    | with_reducible refine Frame.frame_try_catch ?_ (fun _ => ?_)
    | ((with_reducible refine Frame.frame_warn _ _ ?_); exact fun _ _ => rfl)
    | ((with_reducible refine Frame.frame_when_enabled ?_ ?_ ?_); exact fun _ => rfl; decide)
    | with_reducible exact Frame.frame_pure _
    | with_reducible exact Frame.frame_read
    | with_reducible exact Frame.frame_eval _
    | ((with_reducible refine Frame.frame_zoom ?_); exact fun _ _ => ⟨rfl, Or.inl rfl⟩)
    | ((with_reducible refine Frame.frame_id_list_loop (F := F) _ ?_ _); exact fun _ _ => ⟨rfl, Or.inl rfl⟩)
    | ((with_reducible refine Frame.frame_select_state _ _ ?_ ?_ ?_); exact fun _ _ => rfl; decide; decide)
    | ((with_reducible refine Frame.frame_set_state_ite ?_ ?_ ?_); exact fun _ _ => rfl; decide; decide)
    | ((with_reducible refine Frame.frame_update_if ?_); exact fun _ => ⟨rfl, Or.inl rfl⟩)
    | with_reducible apply Frame.frame_ite
    | unfold KFile.warn
    | split

theorem case_IN_DATABASE_BINARY_moves (line : Str) :
    Frame (fun _ : Ctx F => ()) (ParseState.akin (some .databases) (some .current_database_binary))
      (case_IN_DATABASE_BINARY line : Run (Ctx F) Unit) := by
  unfold KFile.case_IN_DATABASE_BINARY
  repeat' first
    | ((with_reducible refine Frame.frame_assign ?_); exact fun _ _ => ⟨rfl, Or.inl rfl⟩)
    | ((with_reducible refine Frame.frame_update ?_); exact fun _ => ⟨rfl, Or.inl rfl⟩)
    | with_reducible refine Frame.frame_bind ?_ (fun _ => ?_)
    | ((with_reducible refine Frame.frame_set_state _ ?_ ?_); exact fun _ => rfl; decide)
    | with_reducible refine Frame.frame_try_catch ?_ (fun _ => ?_)
    | ((with_reducible refine Frame.frame_warn _ _ ?_); exact fun _ _ => rfl)
    | ((with_reducible refine Frame.frame_when_enabled ?_ ?_ ?_); exact fun _ => rfl; decide)
    | with_reducible exact Frame.frame_pure _
    | with_reducible exact Frame.frame_read
    | with_reducible exact Frame.frame_eval _
    | ((with_reducible refine Frame.frame_zoom ?_); exact fun _ _ => ⟨rfl, Or.inl rfl⟩)
    | ((with_reducible refine Frame.frame_id_list_loop (F := F) _ ?_ _); exact fun _ _ => ⟨rfl, Or.inl rfl⟩)
    | ((with_reducible refine Frame.frame_select_state _ _ ?_ ?_ ?_); exact fun _ _ => rfl; decide; decide)
    | ((with_reducible refine Frame.frame_set_state_ite ?_ ?_ ?_); exact fun _ _ => rfl; decide; decide)
    | ((with_reducible refine Frame.frame_update_if ?_); exact fun _ => ⟨rfl, Or.inl rfl⟩)
    | with_reducible apply Frame.frame_ite
    | unfold KFile.warn
    | split

theorem case_IN_DATABASE_ASCII_moves (line : Str) :
    Frame (fun _ : Ctx F => ()) (ParseState.akin (some .databases) (some .current_database_ascii))
      (case_IN_DATABASE_ASCII line : Run (Ctx F) Unit) := by
  unfold KFile.case_IN_DATABASE_ASCII
  repeat' first
    | ((with_reducible refine Frame.frame_assign ?_); exact fun _ _ => ⟨rfl, Or.inl rfl⟩)
    | ((with_reducible refine Frame.frame_update ?_); exact fun _ => ⟨rfl, Or.inl rfl⟩)
    | with_reducible refine Frame.frame_bind ?_ (fun _ => ?_)
    | ((with_reducible refine Frame.frame_set_state _ ?_ ?_); exact fun _ => rfl; decide)
    | with_reducible refine Frame.frame_try_catch ?_ (fun _ => ?_)
    | ((with_reducible refine Frame.frame_warn _ _ ?_); exact fun _ _ => rfl)
    | ((with_reducible refine Frame.frame_when_enabled ?_ ?_ ?_); exact fun _ => rfl; decide)
    | with_reducible exact Frame.frame_pure _
    | with_reducible exact Frame.frame_read
    | with_reducible exact Frame.frame_eval _
    | ((with_reducible refine Frame.frame_zoom ?_); exact fun _ _ => ⟨rfl, Or.inl rfl⟩)
    | ((with_reducible refine Frame.frame_id_list_loop (F := F) _ ?_ _); exact fun _ _ => ⟨rfl, Or.inl rfl⟩)
    | ((with_reducible refine Frame.frame_select_state _ _ ?_ ?_ ?_); exact fun _ _ => rfl; decide; decide)
    | ((with_reducible refine Frame.frame_set_state_ite ?_ ?_ ?_); exact fun _ _ => rfl; decide; decide)
    | ((with_reducible refine Frame.frame_update_if ?_); exact fun _ => ⟨rfl, Or.inl rfl⟩)
    | with_reducible apply Frame.frame_ite
    | unfold KFile.warn
    | split

theorem case_IN_DATABASE_HISTORY_NODE_moves (line : Str) :
    Frame (fun _ : Ctx F => ()) (ParseState.akin (some .databases) (some .current_database_history_node))
      (case_IN_DATABASE_HISTORY_NODE line : Run (Ctx F) Unit) := by
  unfold KFile.case_IN_DATABASE_HISTORY_NODE
  repeat' first
    | ((with_reducible refine Frame.frame_assign ?_); exact fun _ _ => ⟨rfl, Or.inl rfl⟩)
    | ((with_reducible refine Frame.frame_update ?_); exact fun _ => ⟨rfl, Or.inl rfl⟩)
    | with_reducible refine Frame.frame_bind ?_ (fun _ => ?_)
    | ((with_reducible refine Frame.frame_set_state _ ?_ ?_); exact fun _ => rfl; decide)
    | with_reducible refine Frame.frame_try_catch ?_ (fun _ => ?_)
    | ((with_reducible refine Frame.frame_warn _ _ ?_); exact fun _ _ => rfl)
    | ((with_reducible refine Frame.frame_when_enabled ?_ ?_ ?_); exact fun _ => rfl; decide)
    | with_reducible exact Frame.frame_pure _
    | with_reducible exact Frame.frame_read
    | with_reducible exact Frame.frame_eval _
    | ((with_reducible refine Frame.frame_zoom ?_); exact fun _ _ => ⟨rfl, Or.inl rfl⟩)
    | ((with_reducible refine Frame.frame_id_list_loop (F := F) _ ?_ _); exact fun _ _ => ⟨rfl, Or.inl rfl⟩)
    | ((with_reducible refine Frame.frame_select_state _ _ ?_ ?_ ?_); exact fun _ _ => rfl; decide; decide)
    | ((with_reducible refine Frame.frame_set_state_ite ?_ ?_ ?_); exact fun _ _ => rfl; decide; decide)
    | ((with_reducible refine Frame.frame_update_if ?_); exact fun _ => ⟨rfl, Or.inl rfl⟩)
    | with_reducible apply Frame.frame_ite
    | unfold KFile.warn
    | split

theorem case_IN_DATABASE_HISTORY_ELEMENT_moves (line : Str) :
    Frame (fun _ : Ctx F => ()) (ParseState.akin (some .databases) (some .current_database_history_element))
      (case_IN_DATABASE_HISTORY_ELEMENT line : Run (Ctx F) Unit) := by
  unfold KFile.case_IN_DATABASE_HISTORY_ELEMENT
  repeat' first
    | ((with_reducible refine Frame.frame_assign ?_); exact fun _ _ => ⟨rfl, Or.inl rfl⟩)
    | ((with_reducible refine Frame.frame_update ?_); exact fun _ => ⟨rfl, Or.inl rfl⟩)
    | with_reducible refine Frame.frame_bind ?_ (fun _ => ?_)
    | ((with_reducible refine Frame.frame_set_state _ ?_ ?_); exact fun _ => rfl; decide)
    | with_reducible refine Frame.frame_try_catch ?_ (fun _ => ?_)
    | ((with_reducible refine Frame.frame_warn _ _ ?_); exact fun _ _ => rfl)
    | ((with_reducible refine Frame.frame_when_enabled ?_ ?_ ?_); exact fun _ => rfl; decide)
    | with_reducible exact Frame.frame_pure _
    | with_reducible exact Frame.frame_read
    | with_reducible exact Frame.frame_eval _
    | ((with_reducible refine Frame.frame_zoom ?_); exact fun _ _ => ⟨rfl, Or.inl rfl⟩)
    | ((with_reducible refine Frame.frame_id_list_loop (F := F) _ ?_ _); exact fun _ _ => ⟨rfl, Or.inl rfl⟩)
    | ((with_reducible refine Frame.frame_select_state _ _ ?_ ?_ ?_); exact fun _ _ => rfl; decide; decide)
    | ((with_reducible refine Frame.frame_set_state_ite ?_ ?_ ?_); exact fun _ _ => rfl; decide; decide)
    | ((with_reducible refine Frame.frame_update_if ?_); exact fun _ => ⟨rfl, Or.inl rfl⟩)
    | with_reducible apply Frame.frame_ite
    | unfold KFile.warn
    | split

theorem case_IN_DATABASE_CROSS_SECTION_moves (line : Str) :
    Frame (fun _ : Ctx F => ()) (ParseState.akin (some .databases) none)
      (case_IN_DATABASE_CROSS_SECTION line : Run (Ctx F) Unit) := by
  unfold KFile.case_IN_DATABASE_CROSS_SECTION
  repeat' first
    | ((with_reducible refine Frame.frame_assign ?_); exact fun _ _ => ⟨rfl, Or.inl rfl⟩)
    | ((with_reducible refine Frame.frame_update ?_); exact fun _ => ⟨rfl, Or.inl rfl⟩)
    | with_reducible refine Frame.frame_bind ?_ (fun _ => ?_)
    | ((with_reducible refine Frame.frame_set_state _ ?_ ?_); exact fun _ => rfl; decide)
    | with_reducible refine Frame.frame_try_catch ?_ (fun _ => ?_)
    | ((with_reducible refine Frame.frame_warn _ _ ?_); exact fun _ _ => rfl)
    | ((with_reducible refine Frame.frame_when_enabled ?_ ?_ ?_); exact fun _ => rfl; decide)
    | with_reducible exact Frame.frame_pure _
    | with_reducible exact Frame.frame_read
    | with_reducible exact Frame.frame_eval _
    | ((with_reducible refine Frame.frame_zoom ?_); exact fun _ _ => ⟨rfl, Or.inl rfl⟩)
    | ((with_reducible refine Frame.frame_id_list_loop (F := F) _ ?_ _); exact fun _ _ => ⟨rfl, Or.inl rfl⟩)
    | ((with_reducible refine Frame.frame_select_state _ _ ?_ ?_ ?_); exact fun _ _ => rfl; decide; decide)
    | ((with_reducible refine Frame.frame_set_state_ite ?_ ?_ ?_); exact fun _ _ => rfl; decide; decide)
    | ((with_reducible refine Frame.frame_update_if ?_); exact fun _ => ⟨rfl, Or.inl rfl⟩)
    | with_reducible apply Frame.frame_ite
    | unfold KFile.warn
    | split

theorem case_IN_INITIAL_VELOCITY_moves (line : Str) :
    Frame (fun _ : Ctx F => ()) (ParseState.akin (some .initials) (some .current_initial_velocity))
      (case_IN_INITIAL_VELOCITY line : Run (Ctx F) Unit) := by
  unfold KFile.case_IN_INITIAL_VELOCITY
  repeat' first
    | ((with_reducible refine Frame.frame_assign ?_); exact fun _ _ => ⟨rfl, Or.inl rfl⟩)
    | ((with_reducible refine Frame.frame_update ?_); exact fun _ => ⟨rfl, Or.inl rfl⟩)
    | with_reducible refine Frame.frame_bind ?_ (fun _ => ?_)
    | ((with_reducible refine Frame.frame_set_state _ ?_ ?_); exact fun _ => rfl; decide)
    | with_reducible refine Frame.frame_try_catch ?_ (fun _ => ?_)
    | ((with_reducible refine Frame.frame_warn _ _ ?_); exact fun _ _ => rfl)
    | ((with_reducible refine Frame.frame_when_enabled ?_ ?_ ?_); exact fun _ => rfl; decide)
    | with_reducible exact Frame.frame_pure _
    | with_reducible exact Frame.frame_read
    | with_reducible exact Frame.frame_eval _
    | ((with_reducible refine Frame.frame_zoom ?_); exact fun _ _ => ⟨rfl, Or.inl rfl⟩)
    | ((with_reducible refine Frame.frame_id_list_loop (F := F) _ ?_ _); exact fun _ _ => ⟨rfl, Or.inl rfl⟩)
    | ((with_reducible refine Frame.frame_select_state _ _ ?_ ?_ ?_); exact fun _ _ => rfl; decide; decide)
    | ((with_reducible refine Frame.frame_set_state_ite ?_ ?_ ?_); exact fun _ _ => rfl; decide; decide)
    | ((with_reducible refine Frame.frame_update_if ?_); exact fun _ => ⟨rfl, Or.inl rfl⟩)
    | with_reducible apply Frame.frame_ite
    | unfold KFile.warn
    | unfold KFile.push_current_initial_velocity
    | split

theorem case_IN_INITIAL_VELOCITY_GENERATION_moves (line : Str) :
    Frame (fun _ : Ctx F => ()) (ParseState.akin (some .initials) (some .current_initial_velocity))
      (case_IN_INITIAL_VELOCITY_GENERATION line : Run (Ctx F) Unit) := by
  unfold KFile.case_IN_INITIAL_VELOCITY_GENERATION
  repeat' first
    | ((with_reducible refine Frame.frame_assign ?_); exact fun _ _ => ⟨rfl, Or.inl rfl⟩)
    | ((with_reducible refine Frame.frame_update ?_); exact fun _ => ⟨rfl, Or.inl rfl⟩)
    | with_reducible refine Frame.frame_bind ?_ (fun _ => ?_)
    | ((with_reducible refine Frame.frame_set_state _ ?_ ?_); exact fun _ => rfl; decide)
    | with_reducible refine Frame.frame_try_catch ?_ (fun _ => ?_)
    | ((with_reducible refine Frame.frame_warn _ _ ?_); exact fun _ _ => rfl)
    | ((with_reducible refine Frame.frame_when_enabled ?_ ?_ ?_); exact fun _ => rfl; decide)
    | with_reducible exact Frame.frame_pure _
    | with_reducible exact Frame.frame_read
    | with_reducible exact Frame.frame_eval _
    | ((with_reducible refine Frame.frame_zoom ?_); exact fun _ _ => ⟨rfl, Or.inl rfl⟩)
    | ((with_reducible refine Frame.frame_id_list_loop (F := F) _ ?_ _); exact fun _ _ => ⟨rfl, Or.inl rfl⟩)
    | ((with_reducible refine Frame.frame_select_state _ _ ?_ ?_ ?_); exact fun _ _ => rfl; decide; decide)
    | ((with_reducible refine Frame.frame_set_state_ite ?_ ?_ ?_); exact fun _ _ => rfl; decide; decide)
    | ((with_reducible refine Frame.frame_update_if ?_); exact fun _ => ⟨rfl, Or.inl rfl⟩)
    | with_reducible apply Frame.frame_ite
    | unfold KFile.warn
    | unfold KFile.push_current_initial_velocity
    | split

theorem case_IN_CONSTRAINED_NODAL_RIGID_BODY_moves (line : Str) :
    Frame (fun _ : Ctx F => ()) (ParseState.akin (some .constraineds) (some .current_constrained_nodal_rigid_body))
      (case_IN_CONSTRAINED_NODAL_RIGID_BODY line : Run (Ctx F) Unit) := by
  unfold KFile.case_IN_CONSTRAINED_NODAL_RIGID_BODY
  repeat' first
    | ((with_reducible refine Frame.frame_assign ?_); exact fun _ _ => ⟨rfl, Or.inl rfl⟩)
    | ((with_reducible refine Frame.frame_update ?_); exact fun _ => ⟨rfl, Or.inl rfl⟩)
    | with_reducible refine Frame.frame_bind ?_ (fun _ => ?_)
    | ((with_reducible refine Frame.frame_set_state _ ?_ ?_); exact fun _ => rfl; decide)
    | with_reducible refine Frame.frame_try_catch ?_ (fun _ => ?_)
    | ((with_reducible refine Frame.frame_warn _ _ ?_); exact fun _ _ => rfl)
    | ((with_reducible refine Frame.frame_when_enabled ?_ ?_ ?_); exact fun _ => rfl; decide)
    | with_reducible exact Frame.frame_pure _
    | with_reducible exact Frame.frame_read
    | with_reducible exact Frame.frame_eval _
    | ((with_reducible refine Frame.frame_zoom ?_); exact fun _ _ => ⟨rfl, Or.inl rfl⟩)
    | ((with_reducible refine Frame.frame_id_list_loop (F := F) _ ?_ _); exact fun _ _ => ⟨rfl, Or.inl rfl⟩)
    | ((with_reducible refine Frame.frame_select_state _ _ ?_ ?_ ?_); exact fun _ _ => rfl; decide; decide)
    | ((with_reducible refine Frame.frame_set_state_ite ?_ ?_ ?_); exact fun _ _ => rfl; decide; decide)
    | ((with_reducible refine Frame.frame_update_if ?_); exact fun _ => ⟨rfl, Or.inl rfl⟩)
    | with_reducible apply Frame.frame_ite
    | unfold KFile.warn
    | unfold KFile.push_current_nodal_rigid_body
    | split

theorem case_IN_CONSTRAINED_NODAL_RIGID_BODY_INERTIA_moves (line : Str) :
    Frame (fun _ : Ctx F => ()) (ParseState.akin (some .constraineds) (some .current_constrained_nodal_rigid_body))
      (case_IN_CONSTRAINED_NODAL_RIGID_BODY_INERTIA line : Run (Ctx F) Unit) := by
  unfold KFile.case_IN_CONSTRAINED_NODAL_RIGID_BODY_INERTIA
  repeat' first
    | ((with_reducible refine Frame.frame_assign ?_); exact fun _ _ => ⟨rfl, Or.inl rfl⟩)
    | ((with_reducible refine Frame.frame_update ?_); exact fun _ => ⟨rfl, Or.inl rfl⟩)
    | with_reducible refine Frame.frame_bind ?_ (fun _ => ?_)
    | ((with_reducible refine Frame.frame_set_state _ ?_ ?_); exact fun _ => rfl; decide)
    | with_reducible refine Frame.frame_try_catch ?_ (fun _ => ?_)
    | ((with_reducible refine Frame.frame_warn _ _ ?_); exact fun _ _ => rfl)
    | ((with_reducible refine Frame.frame_when_enabled ?_ ?_ ?_); exact fun _ => rfl; decide)
    | with_reducible exact Frame.frame_pure _
    | with_reducible exact Frame.frame_read
    | with_reducible exact Frame.frame_eval _
    | ((with_reducible refine Frame.frame_zoom ?_); exact fun _ _ => ⟨rfl, Or.inl rfl⟩)
    | ((with_reducible refine Frame.frame_id_list_loop (F := F) _ ?_ _); exact fun _ _ => ⟨rfl, Or.inl rfl⟩)
    | ((with_reducible refine Frame.frame_select_state _ _ ?_ ?_ ?_); exact fun _ _ => rfl; decide; decide)
    | ((with_reducible refine Frame.frame_set_state_ite ?_ ?_ ?_); exact fun _ _ => rfl; decide; decide)
    | ((with_reducible refine Frame.frame_update_if ?_); exact fun _ => ⟨rfl, Or.inl rfl⟩)
    | with_reducible apply Frame.frame_ite
    | unfold KFile.warn
    | unfold KFile.push_current_nodal_rigid_body
    | split

theorem case_IN_CONSTRAINED_EXTRA_NODES_moves (line : Str) :
    Frame (fun _ : Ctx F => ()) (ParseState.akin (some .constraineds) (some .current_constrained_extra_nodes))
      (case_IN_CONSTRAINED_EXTRA_NODES line : Run (Ctx F) Unit) := by
  unfold KFile.case_IN_CONSTRAINED_EXTRA_NODES
  repeat' first
    | ((with_reducible refine Frame.frame_assign ?_); exact fun _ _ => ⟨rfl, Or.inl rfl⟩)
    | ((with_reducible refine Frame.frame_update ?_); exact fun _ => ⟨rfl, Or.inl rfl⟩)
    | with_reducible refine Frame.frame_bind ?_ (fun _ => ?_)
    | ((with_reducible refine Frame.frame_set_state _ ?_ ?_); exact fun _ => rfl; decide)
    | with_reducible refine Frame.frame_try_catch ?_ (fun _ => ?_)
    | ((with_reducible refine Frame.frame_warn _ _ ?_); exact fun _ _ => rfl)
    | ((with_reducible refine Frame.frame_when_enabled ?_ ?_ ?_); exact fun _ => rfl; decide)
    | with_reducible exact Frame.frame_pure _
    | with_reducible exact Frame.frame_read
    | with_reducible exact Frame.frame_eval _
    | ((with_reducible refine Frame.frame_zoom ?_); exact fun _ _ => ⟨rfl, Or.inl rfl⟩)
    | ((with_reducible refine Frame.frame_id_list_loop (F := F) _ ?_ _); exact fun _ _ => ⟨rfl, Or.inl rfl⟩)
    | ((with_reducible refine Frame.frame_select_state _ _ ?_ ?_ ?_); exact fun _ _ => rfl; decide; decide)
    | ((with_reducible refine Frame.frame_set_state_ite ?_ ?_ ?_); exact fun _ _ => rfl; decide; decide)
    | ((with_reducible refine Frame.frame_update_if ?_); exact fun _ => ⟨rfl, Or.inl rfl⟩)
    | with_reducible apply Frame.frame_ite
    | unfold KFile.warn
    | split

theorem case_IN_CONSTRAINED_JOINT_moves (line : Str) :
    Frame (fun _ : Ctx F => ()) (ParseState.akin (some .constraineds) (some .current_constrained_joint))
      (case_IN_CONSTRAINED_JOINT line : Run (Ctx F) Unit) := by
  unfold KFile.case_IN_CONSTRAINED_JOINT
  repeat' first
    | ((with_reducible refine Frame.frame_assign ?_); exact fun _ _ => ⟨rfl, Or.inl rfl⟩)
    | ((with_reducible refine Frame.frame_update ?_); exact fun _ => ⟨rfl, Or.inl rfl⟩)
    | with_reducible refine Frame.frame_bind ?_ (fun _ => ?_)
    | ((with_reducible refine Frame.frame_set_state _ ?_ ?_); exact fun _ => rfl; decide)
    | with_reducible refine Frame.frame_try_catch ?_ (fun _ => ?_)
    | ((with_reducible refine Frame.frame_warn _ _ ?_); exact fun _ _ => rfl)
    | ((with_reducible refine Frame.frame_when_enabled ?_ ?_ ?_); exact fun _ => rfl; decide)
    | with_reducible exact Frame.frame_pure _
    | with_reducible exact Frame.frame_read
    | with_reducible exact Frame.frame_eval _
    | ((with_reducible refine Frame.frame_zoom ?_); exact fun _ _ => ⟨rfl, Or.inl rfl⟩)
    | ((with_reducible refine Frame.frame_id_list_loop (F := F) _ ?_ _); exact fun _ _ => ⟨rfl, Or.inl rfl⟩)
    | ((with_reducible refine Frame.frame_select_state _ _ ?_ ?_ ?_); exact fun _ _ => rfl; decide; decide)
    | ((with_reducible refine Frame.frame_set_state_ite ?_ ?_ ?_); exact fun _ _ => rfl; decide; decide)
    | ((with_reducible refine Frame.frame_update_if ?_); exact fun _ => ⟨rfl, Or.inl rfl⟩)
    | with_reducible apply Frame.frame_ite
    | unfold KFile.warn
    | split

theorem case_IN_CONSTRAINED_SPOTWELD_moves (line : Str) :
    Frame (fun _ : Ctx F => ()) (ParseState.akin (some .constraineds) (some .current_constrained_spotweld))
      (case_IN_CONSTRAINED_SPOTWELD line : Run (Ctx F) Unit) := by
  unfold KFile.case_IN_CONSTRAINED_SPOTWELD
  repeat' first
    | ((with_reducible refine Frame.frame_assign ?_); exact fun _ _ => ⟨rfl, Or.inl rfl⟩)
    | ((with_reducible refine Frame.frame_update ?_); exact fun _ => ⟨rfl, Or.inl rfl⟩)
    | with_reducible refine Frame.frame_bind ?_ (fun _ => ?_)
    | ((with_reducible refine Frame.frame_set_state _ ?_ ?_); exact fun _ => rfl; decide)
    | with_reducible refine Frame.frame_try_catch ?_ (fun _ => ?_)
    | ((with_reducible refine Frame.frame_warn _ _ ?_); exact fun _ _ => rfl)
    | ((with_reducible refine Frame.frame_when_enabled ?_ ?_ ?_); exact fun _ => rfl; decide)
    | with_reducible exact Frame.frame_pure _
    | with_reducible exact Frame.frame_read
    | with_reducible exact Frame.frame_eval _
    | ((with_reducible refine Frame.frame_zoom ?_); exact fun _ _ => ⟨rfl, Or.inl rfl⟩)
    | ((with_reducible refine Frame.frame_id_list_loop (F := F) _ ?_ _); exact fun _ _ => ⟨rfl, Or.inl rfl⟩)
    | ((with_reducible refine Frame.frame_select_state _ _ ?_ ?_ ?_); exact fun _ _ => rfl; decide; decide)
    | ((with_reducible refine Frame.frame_set_state_ite ?_ ?_ ?_); exact fun _ _ => rfl; decide; decide)
    | ((with_reducible refine Frame.frame_update_if ?_); exact fun _ => ⟨rfl, Or.inl rfl⟩)
    | with_reducible apply Frame.frame_ite
    | unfold KFile.warn
    | split

theorem begin_section_absorbs (u : Str) (type : SectionType) (title header : ParseState) (P : ParseResult F) (A : FamilySel)
    (B : MemberSel) (c src : Ctx F) (h : c.self.parse_sections_ = true) :
    begin_section u type title header (graft P { A with sections := true } B c src)
      = ((begin_section u type title header c).1,
          graft P { A with sections := true }
            { B with current_section := true } (begin_section u type title header c).2 src) := by
  unfold KFile.begin_section
  refine Absorbs.when_enabled_on (K := graft P { A with sections := true } B)
    (L := graft P { A with sections := true } { B with current_section := true })
    ?_ ?_ c src h
  · exact fun _ _ => rfl
  refine Absorbs.absorb_bind (K := graft P { A with sections := true } B)
    (L := graft P { A with sections := true } { B with current_section := true })
    ?_ (fun _ => ?_)
  · exact fun _ _ => rfl
  repeat' first
    | ((with_reducible refine Local.local_assign ?_); exact fun _ _ _ => rfl)
    | ((with_reducible refine Local.local_assign ?_); intro v c src; simp only [graft, graft_self, graft_result, cond_true, List.append_assoc]; done)
    | ((with_reducible refine Local.local_update ?_); exact fun _ _ => rfl)
    | ((with_reducible refine Local.local_update ?_); intro c src; simp only [graft, graft_self, graft_result, cond_true, List.append_assoc]; done)
    | ((with_reducible refine Local.local_read_bind ?_ (fun _ => ?_)); exact fun _ _ => rfl)
    | with_reducible refine Local.local_bind ?_ (fun _ => ?_)
    | ((with_reducible refine Local.local_set_state _ ?_); exact fun _ _ => rfl)
    | with_reducible refine Local.local_try_catch ?_ (fun _ => ?_)
    | ((with_reducible refine Local.local_warn _ _ ?_); exact fun _ _ _ => rfl)
    | ((with_reducible refine Local.local_when_enabled ?_ ?_ ?_); exact fun _ _ => rfl; exact fun _ _ => rfl)
    | with_reducible exact Local.local_pure _
    | with_reducible exact Local.local_eval _
    | ((with_reducible refine Local.local_zoom ?_ ?_); exact fun _ _ => rfl; exact fun _ _ _ => rfl)
    | ((with_reducible refine Local.local_id_list_loop (F := F) _ ?_ _); exact fun _ _ _ => rfl)
    | ((with_reducible refine Local.local_select_state _ _ ?_); exact fun _ _ => rfl)
    | ((with_reducible refine Local.local_update_if ?_ ?_); exact fun _ _ => rfl; exact fun _ _ => rfl)
    | ((with_reducible refine Local.local_update_if ?_ ?_); exact fun _ _ => rfl; intro c src; simp only [graft, graft_self, graft_result, cond_true, List.append_assoc]; done)
    | with_reducible apply Local.local_ite
    | split

theorem begin_contact_absorbs (u : Str) (P : ParseResult F) (A : FamilySel)
    (B : MemberSel) (c src : Ctx F) (h : c.self.parse_contacts_ = true) :
    begin_contact u (graft P { A with contacts := true } B c src)
      = ((begin_contact u c).1,
          graft P { A with contacts := true }
            { B with current_contact := true } (begin_contact u c).2 src) := by
  unfold KFile.begin_contact
  refine Absorbs.when_enabled_on (K := graft P { A with contacts := true } B)
    (L := graft P { A with contacts := true } { B with current_contact := true })
    ?_ ?_ c src h
  · exact fun _ _ => rfl
  refine Absorbs.absorb_bind (K := graft P { A with contacts := true } B)
    (L := graft P { A with contacts := true } { B with current_contact := true })
    ?_ (fun _ => ?_)
  · exact fun _ _ => rfl
  repeat' first
    | ((with_reducible refine Local.local_assign ?_); exact fun _ _ _ => rfl)
    | ((with_reducible refine Local.local_assign ?_); intro v c src; simp only [graft, graft_self, graft_result, cond_true, List.append_assoc]; done)
    | ((with_reducible refine Local.local_update ?_); exact fun _ _ => rfl)
    | ((with_reducible refine Local.local_update ?_); intro c src; simp only [graft, graft_self, graft_result, cond_true, List.append_assoc]; done)
    | ((with_reducible refine Local.local_read_bind ?_ (fun _ => ?_)); exact fun _ _ => rfl)
    | with_reducible refine Local.local_bind ?_ (fun _ => ?_)
    | ((with_reducible refine Local.local_set_state _ ?_); exact fun _ _ => rfl)
    | with_reducible refine Local.local_try_catch ?_ (fun _ => ?_)
    | ((with_reducible refine Local.local_warn _ _ ?_); exact fun _ _ _ => rfl)
    | ((with_reducible refine Local.local_when_enabled ?_ ?_ ?_); exact fun _ _ => rfl; exact fun _ _ => rfl)
    | with_reducible exact Local.local_pure _
    | with_reducible exact Local.local_eval _
    | ((with_reducible refine Local.local_zoom ?_ ?_); exact fun _ _ => rfl; exact fun _ _ _ => rfl)
    | ((with_reducible refine Local.local_id_list_loop (F := F) _ ?_ _); exact fun _ _ _ => rfl)
    | ((with_reducible refine Local.local_select_state _ _ ?_); exact fun _ _ => rfl)
    | ((with_reducible refine Local.local_update_if ?_ ?_); exact fun _ _ => rfl; exact fun _ _ => rfl)
    | ((with_reducible refine Local.local_update_if ?_ ?_); exact fun _ _ => rfl; intro c src; simp only [graft, graft_self, graft_result, cond_true, List.append_assoc]; done)
    | with_reducible apply Local.local_ite
    | split

theorem begin_boundary_spc_absorbs (u : Str) (P : ParseResult F) (A : FamilySel)
    (B : MemberSel) (c src : Ctx F) (h : c.self.parse_boundaries_ = true) :
    begin_boundary_spc u (graft P { A with boundaries := true } B c src)
      = ((begin_boundary_spc u c).1,
          graft P { A with boundaries := true }
            { B with current_boundary_spc := true } (begin_boundary_spc u c).2 src) := by
  unfold KFile.begin_boundary_spc
  refine Absorbs.when_enabled_on (K := graft P { A with boundaries := true } B)
    (L := graft P { A with boundaries := true } { B with current_boundary_spc := true })
    ?_ ?_ c src h
  · exact fun _ _ => rfl
  refine Absorbs.absorb_bind (K := graft P { A with boundaries := true } B)
    (L := graft P { A with boundaries := true } { B with current_boundary_spc := true })
    ?_ (fun _ => ?_)
  · exact fun _ _ => rfl
  repeat' first
    | ((with_reducible refine Local.local_assign ?_); exact fun _ _ _ => rfl)
    | ((with_reducible refine Local.local_assign ?_); intro v c src; simp only [graft, graft_self, graft_result, cond_true, List.append_assoc]; done)
    | ((with_reducible refine Local.local_update ?_); exact fun _ _ => rfl)
    | ((with_reducible refine Local.local_update ?_); intro c src; simp only [graft, graft_self, graft_result, cond_true, List.append_assoc]; done)
    | ((with_reducible refine Local.local_read_bind ?_ (fun _ => ?_)); exact fun _ _ => rfl)
    | with_reducible refine Local.local_bind ?_ (fun _ => ?_)
    | ((with_reducible refine Local.local_set_state _ ?_); exact fun _ _ => rfl)
    | with_reducible refine Local.local_try_catch ?_ (fun _ => ?_)
    | ((with_reducible refine Local.local_warn _ _ ?_); exact fun _ _ _ => rfl)
    | ((with_reducible refine Local.local_when_enabled ?_ ?_ ?_); exact fun _ _ => rfl; exact fun _ _ => rfl)
    | with_reducible exact Local.local_pure _
    | with_reducible exact Local.local_eval _
    | ((with_reducible refine Local.local_zoom ?_ ?_); exact fun _ _ => rfl; exact fun _ _ _ => rfl)
    | ((with_reducible refine Local.local_id_list_loop (F := F) _ ?_ _); exact fun _ _ _ => rfl)
    | ((with_reducible refine Local.local_select_state _ _ ?_); exact fun _ _ => rfl)
    | ((with_reducible refine Local.local_update_if ?_ ?_); exact fun _ _ => rfl; exact fun _ _ => rfl)
    | ((with_reducible refine Local.local_update_if ?_ ?_); exact fun _ _ => rfl; intro c src; simp only [graft, graft_self, graft_result, cond_true, List.append_assoc]; done)
    | with_reducible apply Local.local_ite
    | split

theorem begin_boundary_motion_absorbs (u : Str) (P : ParseResult F) (A : FamilySel)
    (B : MemberSel) (c src : Ctx F) (h : c.self.parse_boundaries_ = true) :
    begin_boundary_motion u (graft P { A with boundaries := true } B c src)
      = ((begin_boundary_motion u c).1,
          graft P { A with boundaries := true }
            { B with current_boundary_motion := true } (begin_boundary_motion u c).2 src) := by
  unfold KFile.begin_boundary_motion
  refine Absorbs.when_enabled_on (K := graft P { A with boundaries := true } B)
    (L := graft P { A with boundaries := true } { B with current_boundary_motion := true })
    ?_ ?_ c src h
  · exact fun _ _ => rfl
  refine Absorbs.absorb_bind (K := graft P { A with boundaries := true } B)
    (L := graft P { A with boundaries := true } { B with current_boundary_motion := true })
    ?_ (fun _ => ?_)
  · exact fun _ _ => rfl
  repeat' first
    | ((with_reducible refine Local.local_assign ?_); exact fun _ _ _ => rfl)
    | ((with_reducible refine Local.local_assign ?_); intro v c src; simp only [graft, graft_self, graft_result, cond_true, List.append_assoc]; done)
    | ((with_reducible refine Local.local_update ?_); exact fun _ _ => rfl)
    | ((with_reducible refine Local.local_update ?_); intro c src; simp only [graft, graft_self, graft_result, cond_true, List.append_assoc]; done)
    | ((with_reducible refine Local.local_read_bind ?_ (fun _ => ?_)); exact fun _ _ => rfl)
    | with_reducible refine Local.local_bind ?_ (fun _ => ?_)
    | ((with_reducible refine Local.local_set_state _ ?_); exact fun _ _ => rfl)
    | with_reducible refine Local.local_try_catch ?_ (fun _ => ?_)
    | ((with_reducible refine Local.local_warn _ _ ?_); exact fun _ _ _ => rfl)
    | ((with_reducible refine Local.local_when_enabled ?_ ?_ ?_); exact fun _ _ => rfl; exact fun _ _ => rfl)
    | with_reducible exact Local.local_pure _
    | with_reducible exact Local.local_eval _
    | ((with_reducible refine Local.local_zoom ?_ ?_); exact fun _ _ => rfl; exact fun _ _ _ => rfl)
    | ((with_reducible refine Local.local_id_list_loop (F := F) _ ?_ _); exact fun _ _ _ => rfl)
    | ((with_reducible refine Local.local_select_state _ _ ?_); exact fun _ _ => rfl)
    | ((with_reducible refine Local.local_update_if ?_ ?_); exact fun _ _ => rfl; exact fun _ _ => rfl)
    | ((with_reducible refine Local.local_update_if ?_ ?_); exact fun _ _ => rfl; intro c src; simp only [graft, graft_self, graft_result, cond_true, List.append_assoc]; done)
    | with_reducible apply Local.local_ite
    | split

theorem begin_load_node_absorbs (u : Str) (P : ParseResult F) (A : FamilySel)
    (B : MemberSel) (c src : Ctx F) (h : c.self.parse_loads_ = true) :
    begin_load_node u (graft P { A with loads := true } B c src)
      = ((begin_load_node u c).1,
          graft P { A with loads := true }
            { B with current_load_node := true } (begin_load_node u c).2 src) := by
  unfold KFile.begin_load_node
  refine Absorbs.when_enabled_on (K := graft P { A with loads := true } B)
    (L := graft P { A with loads := true } { B with current_load_node := true })
    ?_ ?_ c src h
  · exact fun _ _ => rfl
  refine Absorbs.absorb_bind (K := graft P { A with loads := true } B)
    (L := graft P { A with loads := true } { B with current_load_node := true })
    ?_ (fun _ => ?_)
  · exact fun _ _ => rfl
  repeat' first
    | ((with_reducible refine Local.local_assign ?_); exact fun _ _ _ => rfl)
    | ((with_reducible refine Local.local_assign ?_); intro v c src; simp only [graft, graft_self, graft_result, cond_true, List.append_assoc]; done)
    | ((with_reducible refine Local.local_update ?_); exact fun _ _ => rfl)
    | ((with_reducible refine Local.local_update ?_); intro c src; simp only [graft, graft_self, graft_result, cond_true, List.append_assoc]; done)
    | ((with_reducible refine Local.local_read_bind ?_ (fun _ => ?_)); exact fun _ _ => rfl)
    | with_reducible refine Local.local_bind ?_ (fun _ => ?_)
    | ((with_reducible refine Local.local_set_state _ ?_); exact fun _ _ => rfl)
    | with_reducible refine Local.local_try_catch ?_ (fun _ => ?_)
    | ((with_reducible refine Local.local_warn _ _ ?_); exact fun _ _ _ => rfl)
    | ((with_reducible refine Local.local_when_enabled ?_ ?_ ?_); exact fun _ _ => rfl; exact fun _ _ => rfl)
    | with_reducible exact Local.local_pure _
    | with_reducible exact Local.local_eval _
    | ((with_reducible refine Local.local_zoom ?_ ?_); exact fun _ _ => rfl; exact fun _ _ _ => rfl)
    | ((with_reducible refine Local.local_id_list_loop (F := F) _ ?_ _); exact fun _ _ _ => rfl)
    | ((with_reducible refine Local.local_select_state _ _ ?_); exact fun _ _ => rfl)
    | ((with_reducible refine Local.local_update_if ?_ ?_); exact fun _ _ => rfl; exact fun _ _ => rfl)
    | ((with_reducible refine Local.local_update_if ?_ ?_); exact fun _ _ => rfl; intro c src; simp only [graft, graft_self, graft_result, cond_true, List.append_assoc]; done)
    | with_reducible apply Local.local_ite
    | split

theorem begin_load_body_absorbs (u : Str) (P : ParseResult F) (A : FamilySel)
    (B : MemberSel) (c src : Ctx F) (h : c.self.parse_loads_ = true) :
    begin_load_body u (graft P { A with loads := true } B c src)
      = ((begin_load_body u c).1,
          graft P { A with loads := true }
            { B with current_load_body := true } (begin_load_body u c).2 src) := by
  unfold KFile.begin_load_body
  refine Absorbs.when_enabled_on (K := graft P { A with loads := true } B)
    (L := graft P { A with loads := true } { B with current_load_body := true })
    ?_ ?_ c src h
  · exact fun _ _ => rfl
  refine Absorbs.absorb_bind (K := graft P { A with loads := true } B)
    (L := graft P { A with loads := true } { B with current_load_body := true })
    ?_ (fun _ => ?_)
  · exact fun _ _ => rfl
  repeat' first
    | ((with_reducible refine Local.local_assign ?_); exact fun _ _ _ => rfl)
    | ((with_reducible refine Local.local_assign ?_); intro v c src; simp only [graft, graft_self, graft_result, cond_true, List.append_assoc]; done)
    | ((with_reducible refine Local.local_update ?_); exact fun _ _ => rfl)
    | ((with_reducible refine Local.local_update ?_); intro c src; simp only [graft, graft_self, graft_result, cond_true, List.append_assoc]; done)
    | ((with_reducible refine Local.local_read_bind ?_ (fun _ => ?_)); exact fun _ _ => rfl)
    | with_reducible refine Local.local_bind ?_ (fun _ => ?_)
    | ((with_reducible refine Local.local_set_state _ ?_); exact fun _ _ => rfl)
    | with_reducible refine Local.local_try_catch ?_ (fun _ => ?_)
    | ((with_reducible refine Local.local_warn _ _ ?_); exact fun _ _ _ => rfl)
    | ((with_reducible refine Local.local_when_enabled ?_ ?_ ?_); exact fun _ _ => rfl; exact fun _ _ => rfl)
    | with_reducible exact Local.local_pure _
    | with_reducible exact Local.local_eval _
    | ((with_reducible refine Local.local_zoom ?_ ?_); exact fun _ _ => rfl; exact fun _ _ _ => rfl)
    | ((with_reducible refine Local.local_id_list_loop (F := F) _ ?_ _); exact fun _ _ _ => rfl)
    | ((with_reducible refine Local.local_select_state _ _ ?_); exact fun _ _ => rfl)
    | ((with_reducible refine Local.local_update_if ?_ ?_); exact fun _ _ => rfl; exact fun _ _ => rfl)
    | ((with_reducible refine Local.local_update_if ?_ ?_); exact fun _ _ => rfl; intro c src; simp only [graft, graft_self, graft_result, cond_true, List.append_assoc]; done)
    | with_reducible apply Local.local_ite
    | split

theorem begin_database_binary_absorbs (t : DatabaseType) (P : ParseResult F) (A : FamilySel)
    (B : MemberSel) (c src : Ctx F) (h : c.self.parse_databases_ = true) :
    begin_database_binary t (graft P { A with databases := true } B c src)
      = ((begin_database_binary t c).1,
          graft P { A with databases := true }
            { B with current_database_binary := true } (begin_database_binary t c).2 src) := by
  unfold KFile.begin_database_binary
  refine Absorbs.when_enabled_on (K := graft P { A with databases := true } B)
    (L := graft P { A with databases := true } { B with current_database_binary := true })
    ?_ ?_ c src h
  · exact fun _ _ => rfl
  refine Absorbs.absorb_bind (K := graft P { A with databases := true } B)
    (L := graft P { A with databases := true } { B with current_database_binary := true })
    ?_ (fun _ => ?_)
  · exact fun _ _ => rfl
  repeat' first
    | ((with_reducible refine Local.local_assign ?_); exact fun _ _ _ => rfl)
    | ((with_reducible refine Local.local_assign ?_); intro v c src; simp only [graft, graft_self, graft_result, cond_true, List.append_assoc]; done)
    | ((with_reducible refine Local.local_update ?_); exact fun _ _ => rfl)
    | ((with_reducible refine Local.local_update ?_); intro c src; simp only [graft, graft_self, graft_result, cond_true, List.append_assoc]; done)
    | ((with_reducible refine Local.local_read_bind ?_ (fun _ => ?_)); exact fun _ _ => rfl)
    | with_reducible refine Local.local_bind ?_ (fun _ => ?_)
    | ((with_reducible refine Local.local_set_state _ ?_); exact fun _ _ => rfl)
    | with_reducible refine Local.local_try_catch ?_ (fun _ => ?_)
    | ((with_reducible refine Local.local_warn _ _ ?_); exact fun _ _ _ => rfl)
    | ((with_reducible refine Local.local_when_enabled ?_ ?_ ?_); exact fun _ _ => rfl; exact fun _ _ => rfl)
    | with_reducible exact Local.local_pure _
    | with_reducible exact Local.local_eval _
    | ((with_reducible refine Local.local_zoom ?_ ?_); exact fun _ _ => rfl; exact fun _ _ _ => rfl)
    | ((with_reducible refine Local.local_id_list_loop (F := F) _ ?_ _); exact fun _ _ _ => rfl)
    | ((with_reducible refine Local.local_select_state _ _ ?_); exact fun _ _ => rfl)
    | ((with_reducible refine Local.local_update_if ?_ ?_); exact fun _ _ => rfl; exact fun _ _ => rfl)
    | ((with_reducible refine Local.local_update_if ?_ ?_); exact fun _ _ => rfl; intro c src; simp only [graft, graft_self, graft_result, cond_true, List.append_assoc]; done)
    | with_reducible apply Local.local_ite
    | split

theorem begin_database_ascii_absorbs (t : DatabaseType) (P : ParseResult F) (A : FamilySel)
    (B : MemberSel) (c src : Ctx F) (h : c.self.parse_databases_ = true) :
    begin_database_ascii t (graft P { A with databases := true } B c src)
      = ((begin_database_ascii t c).1,
          graft P { A with databases := true }
            { B with current_database_ascii := true } (begin_database_ascii t c).2 src) := by
  unfold KFile.begin_database_ascii
  refine Absorbs.when_enabled_on (K := graft P { A with databases := true } B)
    (L := graft P { A with databases := true } { B with current_database_ascii := true })
    ?_ ?_ c src h
  · exact fun _ _ => rfl
  refine Absorbs.absorb_bind (K := graft P { A with databases := true } B)
    (L := graft P { A with databases := true } { B with current_database_ascii := true })
    ?_ (fun _ => ?_)
  · exact fun _ _ => rfl
  repeat' first
    | ((with_reducible refine Local.local_assign ?_); exact fun _ _ _ => rfl)
    | ((with_reducible refine Local.local_assign ?_); intro v c src; simp only [graft, graft_self, graft_result, cond_true, List.append_assoc]; done)
    | ((with_reducible refine Local.local_update ?_); exact fun _ _ => rfl)
    | ((with_reducible refine Local.local_update ?_); intro c src; simp only [graft, graft_self, graft_result, cond_true, List.append_assoc]; done)
    | ((with_reducible refine Local.local_read_bind ?_ (fun _ => ?_)); exact fun _ _ => rfl)
    | with_reducible refine Local.local_bind ?_ (fun _ => ?_)
    | ((with_reducible refine Local.local_set_state _ ?_); exact fun _ _ => rfl)
    | with_reducible refine Local.local_try_catch ?_ (fun _ => ?_)
    | ((with_reducible refine Local.local_warn _ _ ?_); exact fun _ _ _ => rfl)
    | ((with_reducible refine Local.local_when_enabled ?_ ?_ ?_); exact fun _ _ => rfl; exact fun _ _ => rfl)
    | with_reducible exact Local.local_pure _
    | with_reducible exact Local.local_eval _
    | ((with_reducible refine Local.local_zoom ?_ ?_); exact fun _ _ => rfl; exact fun _ _ _ => rfl)
    | ((with_reducible refine Local.local_id_list_loop (F := F) _ ?_ _); exact fun _ _ _ => rfl)
    | ((with_reducible refine Local.local_select_state _ _ ?_); exact fun _ _ => rfl)
    | ((with_reducible refine Local.local_update_if ?_ ?_); exact fun _ _ => rfl; exact fun _ _ => rfl)
    | ((with_reducible refine Local.local_update_if ?_ ?_); exact fun _ _ => rfl; intro c src; simp only [graft, graft_self, graft_result, cond_true, List.append_assoc]; done)
    | with_reducible apply Local.local_ite
    | split

theorem begin_database_history_node_absorbs (P : ParseResult F) (A : FamilySel)
    (B : MemberSel) (c src : Ctx F) (h : c.self.parse_databases_ = true) :
    begin_database_history_node (graft P { A with databases := true } B c src)
      = ((begin_database_history_node c).1,
          graft P { A with databases := true }
            { B with current_database_history_node := true } (begin_database_history_node c).2 src) := by
  unfold KFile.begin_database_history_node
  refine Absorbs.when_enabled_on (K := graft P { A with databases := true } B)
    (L := graft P { A with databases := true } { B with current_database_history_node := true })
    ?_ ?_ c src h
  · exact fun _ _ => rfl
  refine Absorbs.absorb_bind (K := graft P { A with databases := true } B)
    (L := graft P { A with databases := true } { B with current_database_history_node := true })
    ?_ (fun _ => ?_)
  · exact fun _ _ => rfl
  repeat' first
    | ((with_reducible refine Local.local_assign ?_); exact fun _ _ _ => rfl)
    | ((with_reducible refine Local.local_assign ?_); intro v c src; simp only [graft, graft_self, graft_result, cond_true, List.append_assoc]; done)
    | ((with_reducible refine Local.local_update ?_); exact fun _ _ => rfl)
    | ((with_reducible refine Local.local_update ?_); intro c src; simp only [graft, graft_self, graft_result, cond_true, List.append_assoc]; done)
    | ((with_reducible refine Local.local_read_bind ?_ (fun _ => ?_)); exact fun _ _ => rfl)
    | with_reducible refine Local.local_bind ?_ (fun _ => ?_)
    | ((with_reducible refine Local.local_set_state _ ?_); exact fun _ _ => rfl)
    | with_reducible refine Local.local_try_catch ?_ (fun _ => ?_)
    | ((with_reducible refine Local.local_warn _ _ ?_); exact fun _ _ _ => rfl)
    | ((with_reducible refine Local.local_when_enabled ?_ ?_ ?_); exact fun _ _ => rfl; exact fun _ _ => rfl)
    | with_reducible exact Local.local_pure _
    | with_reducible exact Local.local_eval _
    | ((with_reducible refine Local.local_zoom ?_ ?_); exact fun _ _ => rfl; exact fun _ _ _ => rfl)
    | ((with_reducible refine Local.local_id_list_loop (F := F) _ ?_ _); exact fun _ _ _ => rfl)
    | ((with_reducible refine Local.local_select_state _ _ ?_); exact fun _ _ => rfl)
    | ((with_reducible refine Local.local_update_if ?_ ?_); exact fun _ _ => rfl; exact fun _ _ => rfl)
    | ((with_reducible refine Local.local_update_if ?_ ?_); exact fun _ _ => rfl; intro c src; simp only [graft, graft_self, graft_result, cond_true, List.append_assoc]; done)
    | with_reducible apply Local.local_ite
    | split

theorem begin_database_history_element_absorbs (t : Int) (P : ParseResult F) (A : FamilySel)
    (B : MemberSel) (c src : Ctx F) (h : c.self.parse_databases_ = true) :
    begin_database_history_element t (graft P { A with databases := true } B c src)
      = ((begin_database_history_element t c).1,
          graft P { A with databases := true }
            { B with current_database_history_element := true } (begin_database_history_element t c).2 src) := by
  unfold KFile.begin_database_history_element
  refine Absorbs.when_enabled_on (K := graft P { A with databases := true } B)
    (L := graft P { A with databases := true } { B with current_database_history_element := true })
    ?_ ?_ c src h
  · exact fun _ _ => rfl
  refine Absorbs.absorb_bind (K := graft P { A with databases := true } B)
    (L := graft P { A with databases := true } { B with current_database_history_element := true })
    ?_ (fun _ => ?_)
  · exact fun _ _ => rfl
  repeat' first
    | ((with_reducible refine Local.local_assign ?_); exact fun _ _ _ => rfl)
    | ((with_reducible refine Local.local_assign ?_); intro v c src; simp only [graft, graft_self, graft_result, cond_true, List.append_assoc]; done)
    | ((with_reducible refine Local.local_update ?_); exact fun _ _ => rfl)
    | ((with_reducible refine Local.local_update ?_); intro c src; simp only [graft, graft_self, graft_result, cond_true, List.append_assoc]; done)
    | ((with_reducible refine Local.local_read_bind ?_ (fun _ => ?_)); exact fun _ _ => rfl)
    | with_reducible refine Local.local_bind ?_ (fun _ => ?_)
    | ((with_reducible refine Local.local_set_state _ ?_); exact fun _ _ => rfl)
    | with_reducible refine Local.local_try_catch ?_ (fun _ => ?_)
    | ((with_reducible refine Local.local_warn _ _ ?_); exact fun _ _ _ => rfl)
    | ((with_reducible refine Local.local_when_enabled ?_ ?_ ?_); exact fun _ _ => rfl; exact fun _ _ => rfl)
    | with_reducible exact Local.local_pure _
    | with_reducible exact Local.local_eval _
    | ((with_reducible refine Local.local_zoom ?_ ?_); exact fun _ _ => rfl; exact fun _ _ _ => rfl)
    | ((with_reducible refine Local.local_id_list_loop (F := F) _ ?_ _); exact fun _ _ _ => rfl)
    | ((with_reducible refine Local.local_select_state _ _ ?_); exact fun _ _ => rfl)
    | ((with_reducible refine Local.local_update_if ?_ ?_); exact fun _ _ => rfl; exact fun _ _ => rfl)
    | ((with_reducible refine Local.local_update_if ?_ ?_); exact fun _ _ => rfl; intro c src; simp only [graft, graft_self, graft_result, cond_true, List.append_assoc]; done)
    | with_reducible apply Local.local_ite
    | split

theorem begin_initial_velocity_generation_absorbs (P : ParseResult F) (A : FamilySel)
    (B : MemberSel) (c src : Ctx F) (h : c.self.parse_initials_ = true) :
    begin_initial_velocity_generation (graft P { A with initials := true } B c src)
      = ((begin_initial_velocity_generation c).1,
          graft P { A with initials := true }
            { B with current_initial_velocity := true } (begin_initial_velocity_generation c).2 src) := by
  unfold KFile.begin_initial_velocity_generation
  refine Absorbs.when_enabled_on (K := graft P { A with initials := true } B)
    (L := graft P { A with initials := true } { B with current_initial_velocity := true })
    ?_ ?_ c src h
  · exact fun _ _ => rfl
  refine Absorbs.absorb_bind (K := graft P { A with initials := true } B)
    (L := graft P { A with initials := true } { B with current_initial_velocity := true })
    ?_ (fun _ => ?_)
  · exact fun _ _ => rfl
  repeat' first
    | ((with_reducible refine Local.local_assign ?_); exact fun _ _ _ => rfl)
    | ((with_reducible refine Local.local_assign ?_); intro v c src; simp only [graft, graft_self, graft_result, cond_true, List.append_assoc]; done)
    | ((with_reducible refine Local.local_update ?_); exact fun _ _ => rfl)
    | ((with_reducible refine Local.local_update ?_); intro c src; simp only [graft, graft_self, graft_result, cond_true, List.append_assoc]; done)
    | ((with_reducible refine Local.local_read_bind ?_ (fun _ => ?_)); exact fun _ _ => rfl)
    | with_reducible refine Local.local_bind ?_ (fun _ => ?_)
    | ((with_reducible refine Local.local_set_state _ ?_); exact fun _ _ => rfl)
    | with_reducible refine Local.local_try_catch ?_ (fun _ => ?_)
    | ((with_reducible refine Local.local_warn _ _ ?_); exact fun _ _ _ => rfl)
    | ((with_reducible refine Local.local_when_enabled ?_ ?_ ?_); exact fun _ _ => rfl; exact fun _ _ => rfl)
    | with_reducible exact Local.local_pure _
    | with_reducible exact Local.local_eval _
    | ((with_reducible refine Local.local_zoom ?_ ?_); exact fun _ _ => rfl; exact fun _ _ _ => rfl)
    | ((with_reducible refine Local.local_id_list_loop (F := F) _ ?_ _); exact fun _ _ _ => rfl)
    | ((with_reducible refine Local.local_select_state _ _ ?_); exact fun _ _ => rfl)
    | ((with_reducible refine Local.local_update_if ?_ ?_); exact fun _ _ => rfl; exact fun _ _ => rfl)
    | ((with_reducible refine Local.local_update_if ?_ ?_); exact fun _ _ => rfl; intro c src; simp only [graft, graft_self, graft_result, cond_true, List.append_assoc]; done)
    | with_reducible apply Local.local_ite
    | split

theorem begin_initial_velocity_absorbs (u : Str) (P : ParseResult F) (A : FamilySel)
    (B : MemberSel) (c src : Ctx F) (h : c.self.parse_initials_ = true) :
    begin_initial_velocity u (graft P { A with initials := true } B c src)
      = ((begin_initial_velocity u c).1,
          graft P { A with initials := true }
            { B with current_initial_velocity := true } (begin_initial_velocity u c).2 src) := by
  unfold KFile.begin_initial_velocity
  refine Absorbs.when_enabled_on (K := graft P { A with initials := true } B)
    (L := graft P { A with initials := true } { B with current_initial_velocity := true })
    ?_ ?_ c src h
  · exact fun _ _ => rfl
  refine Absorbs.absorb_bind (K := graft P { A with initials := true } B)
    (L := graft P { A with initials := true } { B with current_initial_velocity := true })
    ?_ (fun _ => ?_)
  · exact fun _ _ => rfl
  repeat' first
    | ((with_reducible refine Local.local_assign ?_); exact fun _ _ _ => rfl)
    | ((with_reducible refine Local.local_assign ?_); intro v c src; simp only [graft, graft_self, graft_result, cond_true, List.append_assoc]; done)
    | ((with_reducible refine Local.local_update ?_); exact fun _ _ => rfl)
    | ((with_reducible refine Local.local_update ?_); intro c src; simp only [graft, graft_self, graft_result, cond_true, List.append_assoc]; done)
    | ((with_reducible refine Local.local_read_bind ?_ (fun _ => ?_)); exact fun _ _ => rfl)
    | with_reducible refine Local.local_bind ?_ (fun _ => ?_)
    | ((with_reducible refine Local.local_set_state _ ?_); exact fun _ _ => rfl)
    | with_reducible refine Local.local_try_catch ?_ (fun _ => ?_)
    | ((with_reducible refine Local.local_warn _ _ ?_); exact fun _ _ _ => rfl)
    | ((with_reducible refine Local.local_when_enabled ?_ ?_ ?_); exact fun _ _ => rfl; exact fun _ _ => rfl)
    | with_reducible exact Local.local_pure _
    | with_reducible exact Local.local_eval _
    | ((with_reducible refine Local.local_zoom ?_ ?_); exact fun _ _ => rfl; exact fun _ _ _ => rfl)
    | ((with_reducible refine Local.local_id_list_loop (F := F) _ ?_ _); exact fun _ _ _ => rfl)
    | ((with_reducible refine Local.local_select_state _ _ ?_); exact fun _ _ => rfl)
    | ((with_reducible refine Local.local_update_if ?_ ?_); exact fun _ _ => rfl; exact fun _ _ => rfl)
    | ((with_reducible refine Local.local_update_if ?_ ?_); exact fun _ _ => rfl; intro c src; simp only [graft, graft_self, graft_result, cond_true, List.append_assoc]; done)
    | with_reducible apply Local.local_ite
    | split

theorem begin_constrained_nodal_rigid_body_absorbs (u : Str) (P : ParseResult F) (A : FamilySel)
    (B : MemberSel) (c src : Ctx F) (h : c.self.parse_constraineds_ = true) :
    begin_constrained_nodal_rigid_body u (graft P { A with constraineds := true } B c src)
      = ((begin_constrained_nodal_rigid_body u c).1,
          graft P { A with constraineds := true }
            { B with current_constrained_nodal_rigid_body := true } (begin_constrained_nodal_rigid_body u c).2 src) := by
  unfold KFile.begin_constrained_nodal_rigid_body
  refine Absorbs.when_enabled_on (K := graft P { A with constraineds := true } B)
    (L := graft P { A with constraineds := true } { B with current_constrained_nodal_rigid_body := true })
    ?_ ?_ c src h
  · exact fun _ _ => rfl
  refine Absorbs.absorb_bind (K := graft P { A with constraineds := true } B)
    (L := graft P { A with constraineds := true } { B with current_constrained_nodal_rigid_body := true })
    ?_ (fun _ => ?_)
  · exact fun _ _ => rfl
  repeat' first
    | ((with_reducible refine Local.local_assign ?_); exact fun _ _ _ => rfl)
    | ((with_reducible refine Local.local_assign ?_); intro v c src; simp only [graft, graft_self, graft_result, cond_true, List.append_assoc]; done)
    | ((with_reducible refine Local.local_update ?_); exact fun _ _ => rfl)
    | ((with_reducible refine Local.local_update ?_); intro c src; simp only [graft, graft_self, graft_result, cond_true, List.append_assoc]; done)
    | ((with_reducible refine Local.local_read_bind ?_ (fun _ => ?_)); exact fun _ _ => rfl)
    | with_reducible refine Local.local_bind ?_ (fun _ => ?_)
    | ((with_reducible refine Local.local_set_state _ ?_); exact fun _ _ => rfl)
    | with_reducible refine Local.local_try_catch ?_ (fun _ => ?_)
    | ((with_reducible refine Local.local_warn _ _ ?_); exact fun _ _ _ => rfl)
    | ((with_reducible refine Local.local_when_enabled ?_ ?_ ?_); exact fun _ _ => rfl; exact fun _ _ => rfl)
    | with_reducible exact Local.local_pure _
    | with_reducible exact Local.local_eval _
    | ((with_reducible refine Local.local_zoom ?_ ?_); exact fun _ _ => rfl; exact fun _ _ _ => rfl)
    | ((with_reducible refine Local.local_id_list_loop (F := F) _ ?_ _); exact fun _ _ _ => rfl)
    | ((with_reducible refine Local.local_select_state _ _ ?_); exact fun _ _ => rfl)
    | ((with_reducible refine Local.local_update_if ?_ ?_); exact fun _ _ => rfl; exact fun _ _ => rfl)
    | ((with_reducible refine Local.local_update_if ?_ ?_); exact fun _ _ => rfl; intro c src; simp only [graft, graft_self, graft_result, cond_true, List.append_assoc]; done)
    | with_reducible apply Local.local_ite
    | split

theorem begin_constrained_extra_nodes_absorbs (u : Str) (P : ParseResult F) (A : FamilySel)
    (B : MemberSel) (c src : Ctx F) (h : c.self.parse_constraineds_ = true) :
    begin_constrained_extra_nodes u (graft P { A with constraineds := true } B c src)
      = ((begin_constrained_extra_nodes u c).1,
          graft P { A with constraineds := true }
            { B with current_constrained_extra_nodes := true } (begin_constrained_extra_nodes u c).2 src) := by
  unfold KFile.begin_constrained_extra_nodes
  refine Absorbs.when_enabled_on (K := graft P { A with constraineds := true } B)
    (L := graft P { A with constraineds := true } { B with current_constrained_extra_nodes := true })
    ?_ ?_ c src h
  · exact fun _ _ => rfl
  refine Absorbs.absorb_bind (K := graft P { A with constraineds := true } B)
    (L := graft P { A with constraineds := true } { B with current_constrained_extra_nodes := true })
    ?_ (fun _ => ?_)
  · exact fun _ _ => rfl
  repeat' first
    | ((with_reducible refine Local.local_assign ?_); exact fun _ _ _ => rfl)
    | ((with_reducible refine Local.local_assign ?_); intro v c src; simp only [graft, graft_self, graft_result, cond_true, List.append_assoc]; done)
    | ((with_reducible refine Local.local_update ?_); exact fun _ _ => rfl)
    | ((with_reducible refine Local.local_update ?_); intro c src; simp only [graft, graft_self, graft_result, cond_true, List.append_assoc]; done)
    | ((with_reducible refine Local.local_read_bind ?_ (fun _ => ?_)); exact fun _ _ => rfl)
    | with_reducible refine Local.local_bind ?_ (fun _ => ?_)
    | ((with_reducible refine Local.local_set_state _ ?_); exact fun _ _ => rfl)
    | with_reducible refine Local.local_try_catch ?_ (fun _ => ?_)
    | ((with_reducible refine Local.local_warn _ _ ?_); exact fun _ _ _ => rfl)
    | ((with_reducible refine Local.local_when_enabled ?_ ?_ ?_); exact fun _ _ => rfl; exact fun _ _ => rfl)
    | with_reducible exact Local.local_pure _
    | with_reducible exact Local.local_eval _
    | ((with_reducible refine Local.local_zoom ?_ ?_); exact fun _ _ => rfl; exact fun _ _ _ => rfl)
    | ((with_reducible refine Local.local_id_list_loop (F := F) _ ?_ _); exact fun _ _ _ => rfl)
    | ((with_reducible refine Local.local_select_state _ _ ?_); exact fun _ _ => rfl)
    | ((with_reducible refine Local.local_update_if ?_ ?_); exact fun _ _ => rfl; exact fun _ _ => rfl)
    | ((with_reducible refine Local.local_update_if ?_ ?_); exact fun _ _ => rfl; intro c src; simp only [graft, graft_self, graft_result, cond_true, List.append_assoc]; done)
    | with_reducible apply Local.local_ite
    | split

theorem begin_constrained_joint_absorbs (u : Str) (P : ParseResult F) (A : FamilySel)
    (B : MemberSel) (c src : Ctx F) (h : c.self.parse_constraineds_ = true) :
    begin_constrained_joint u (graft P { A with constraineds := true } B c src)
      = ((begin_constrained_joint u c).1,
          graft P { A with constraineds := true }
            { B with current_constrained_joint := true } (begin_constrained_joint u c).2 src) := by
  unfold KFile.begin_constrained_joint
  refine Absorbs.when_enabled_on (K := graft P { A with constraineds := true } B)
    (L := graft P { A with constraineds := true } { B with current_constrained_joint := true })
    ?_ ?_ c src h
  · exact fun _ _ => rfl
  refine Absorbs.absorb_bind (K := graft P { A with constraineds := true } B)
    (L := graft P { A with constraineds := true } { B with current_constrained_joint := true })
    ?_ (fun _ => ?_)
  · exact fun _ _ => rfl
  repeat' first
    | ((with_reducible refine Local.local_assign ?_); exact fun _ _ _ => rfl)
    | ((with_reducible refine Local.local_assign ?_); intro v c src; simp only [graft, graft_self, graft_result, cond_true, List.append_assoc]; done)
    | ((with_reducible refine Local.local_update ?_); exact fun _ _ => rfl)
    | ((with_reducible refine Local.local_update ?_); intro c src; simp only [graft, graft_self, graft_result, cond_true, List.append_assoc]; done)
    | ((with_reducible refine Local.local_read_bind ?_ (fun _ => ?_)); exact fun _ _ => rfl)
    | with_reducible refine Local.local_bind ?_ (fun _ => ?_)
    | ((with_reducible refine Local.local_set_state _ ?_); exact fun _ _ => rfl)
    | with_reducible refine Local.local_try_catch ?_ (fun _ => ?_)
    | ((with_reducible refine Local.local_warn _ _ ?_); exact fun _ _ _ => rfl)
    | ((with_reducible refine Local.local_when_enabled ?_ ?_ ?_); exact fun _ _ => rfl; exact fun _ _ => rfl)
    | with_reducible exact Local.local_pure _
    | with_reducible exact Local.local_eval _
    | ((with_reducible refine Local.local_zoom ?_ ?_); exact fun _ _ => rfl; exact fun _ _ _ => rfl)
    | ((with_reducible refine Local.local_id_list_loop (F := F) _ ?_ _); exact fun _ _ _ => rfl)
    | ((with_reducible refine Local.local_select_state _ _ ?_); exact fun _ _ => rfl)
    | ((with_reducible refine Local.local_update_if ?_ ?_); exact fun _ _ => rfl; exact fun _ _ => rfl)
    | ((with_reducible refine Local.local_update_if ?_ ?_); exact fun _ _ => rfl; intro c src; simp only [graft, graft_self, graft_result, cond_true, List.append_assoc]; done)
    | with_reducible apply Local.local_ite
    | split

theorem begin_constrained_spotweld_absorbs (P : ParseResult F) (A : FamilySel)
    (B : MemberSel) (c src : Ctx F) (h : c.self.parse_constraineds_ = true) :
    begin_constrained_spotweld (graft P { A with constraineds := true } B c src)
      = ((begin_constrained_spotweld c).1,
          graft P { A with constraineds := true }
            { B with current_constrained_spotweld := true } (begin_constrained_spotweld c).2 src) := by
  unfold KFile.begin_constrained_spotweld
  refine Absorbs.when_enabled_on (K := graft P { A with constraineds := true } B)
    (L := graft P { A with constraineds := true } { B with current_constrained_spotweld := true })
    ?_ ?_ c src h
  · exact fun _ _ => rfl
  refine Absorbs.absorb_bind (K := graft P { A with constraineds := true } B)
    (L := graft P { A with constraineds := true } { B with current_constrained_spotweld := true })
    ?_ (fun _ => ?_)
  · exact fun _ _ => rfl
  repeat' first
    | ((with_reducible refine Local.local_assign ?_); exact fun _ _ _ => rfl)
    | ((with_reducible refine Local.local_assign ?_); intro v c src; simp only [graft, graft_self, graft_result, cond_true, List.append_assoc]; done)
    | ((with_reducible refine Local.local_update ?_); exact fun _ _ => rfl)
    | ((with_reducible refine Local.local_update ?_); intro c src; simp only [graft, graft_self, graft_result, cond_true, List.append_assoc]; done)
    | ((with_reducible refine Local.local_read_bind ?_ (fun _ => ?_)); exact fun _ _ => rfl)
    | with_reducible refine Local.local_bind ?_ (fun _ => ?_)
    | ((with_reducible refine Local.local_set_state _ ?_); exact fun _ _ => rfl)
    | with_reducible refine Local.local_try_catch ?_ (fun _ => ?_)
    | ((with_reducible refine Local.local_warn _ _ ?_); exact fun _ _ _ => rfl)
    | ((with_reducible refine Local.local_when_enabled ?_ ?_ ?_); exact fun _ _ => rfl; exact fun _ _ => rfl)
    | with_reducible exact Local.local_pure _
    | with_reducible exact Local.local_eval _
    | ((with_reducible refine Local.local_zoom ?_ ?_); exact fun _ _ => rfl; exact fun _ _ _ => rfl)
    | ((with_reducible refine Local.local_id_list_loop (F := F) _ ?_ _); exact fun _ _ _ => rfl)
    | ((with_reducible refine Local.local_select_state _ _ ?_); exact fun _ _ => rfl)
    | ((with_reducible refine Local.local_update_if ?_ ?_); exact fun _ _ => rfl; exact fun _ _ => rfl)
    | ((with_reducible refine Local.local_update_if ?_ ?_); exact fun _ _ => rfl; intro c src; simp only [graft, graft_self, graft_result, cond_true, List.append_assoc]; done)
    | with_reducible apply Local.local_ite
    | split

end Landing

/-! ## Choices of families and members -/

section Selectors

theorem FamilySel.family_add_of_has (A : FamilySel) (f : Family) (h : A.has f = true) :
    A.add f = A := by
  cases A
  cases f <;> simp only [FamilySel.has] at h <;> subst h <;> rfl

theorem MemberSel.member_add_of_has (B : MemberSel) (g : Member) (h : B.has g = true) :
    B.add g = B := by
  cases B
  cases g <;> simp only [MemberSel.has] at h <;> subst h <;> rfl

theorem FamilySel.add_all (f : Family) : FamilySel.all.add f = FamilySel.all := by
  cases f <;> rfl

theorem FamilySel.family_has_add (A : FamilySel) (f : Family) : (A.add f).has f = true := by
  cases f <;> rfl

theorem MemberSel.member_has_add (B : MemberSel) (g : Member) : (B.add g).has g = true := by
  cases g <;> rfl

theorem FamilySel.has_all (f : Family) : FamilySel.all.has f = true := by
  cases f <;> rfl

theorem FamilySel.covers_all (st : ParseState) : FamilySel.all.covers st :=
  fun f _ => FamilySel.has_all f

theorem MemberSel.has_add_of_has (B : MemberSel) (g k : Member) (h : B.has k = true) :
    (B.add g).has k = true := by
  cases B
  cases g <;> cases k <;> first | rfl | exact h

theorem MemberSel.covers_idle (B : MemberSel) : B.covers .IDLE := by
  intro g h
  cases h

end Selectors

/-! ## The data switch and the overlays -/

section DataOverlay

variable {F : Type} [DoubleModel F]

set_option linter.unusedTactic false
set_option linter.unreachableTactic false
set_option linter.unusedVariables false

/-- A data line commutes with every overlay that selects the family and the member of
the current state. -/
theorem process_data_local (d : Str) (P : ParseResult F) (A : FamilySel) (B : MemberSel)
    (c src : Ctx F) (hA : A.covers c.state) (hB : B.covers c.state) :
    process_data d (graft P A B c src)
      = ((process_data d c).1, graft P A B (process_data d c).2 src) := by
  cases hs : c.state
  case IN_NODE =>
    have e1 : process_data d c = case_IN_NODE d c := by unfold process_data; rw [hs]
    have e2 : process_data d (graft P A B c src) = case_IN_NODE d (graft P A B c src) := by
      unfold process_data; rw [show (graft P A B c src).state = c.state from rfl, hs]
    rw [e1, e2]
    have hA2 : A.add .nodes = A := FamilySel.family_add_of_has A _ (hA _ (by rw [hs]; rfl))
    have h : case_IN_NODE d (graft P (A.add .nodes) B c src)
        = ((case_IN_NODE d c).1, graft P (A.add .nodes) B (case_IN_NODE d c).2 src) :=
      case_IN_NODE_local d P A B c src
    rw [hA2] at h
    exact h
  case IN_PART_NAME =>
    have e1 : process_data d c = case_IN_PART_NAME d c := by unfold process_data; rw [hs]
    have e2 : process_data d (graft P A B c src) = case_IN_PART_NAME d (graft P A B c src) := by
      unfold process_data; rw [show (graft P A B c src).state = c.state from rfl, hs]
    rw [e1, e2]
    have hA2 : A.add .parts = A := FamilySel.family_add_of_has A _ (hA _ (by rw [hs]; rfl))
    have hB2 : B.add .part_name = B := MemberSel.member_add_of_has B _ (hB _ (by rw [hs]; rfl))
    have h : case_IN_PART_NAME d (graft P (A.add .parts) (B.add .part_name) c src)
        = ((case_IN_PART_NAME d c).1, graft P (A.add .parts) (B.add .part_name) (case_IN_PART_NAME d c).2 src) :=
      case_IN_PART_NAME_local d P A B c src
    rw [hA2, hB2] at h
    exact h
  case IN_PART_DATA =>
    have e1 : process_data d c = case_IN_PART_DATA d c := by unfold process_data; rw [hs]
    have e2 : process_data d (graft P A B c src) = case_IN_PART_DATA d (graft P A B c src) := by
      unfold process_data; rw [show (graft P A B c src).state = c.state from rfl, hs]
    rw [e1, e2]
    have hA2 : A.add .parts = A := FamilySel.family_add_of_has A _ (hA _ (by rw [hs]; rfl))
    have hB2 : B.add .part_name = B := MemberSel.member_add_of_has B _ (hB _ (by rw [hs]; rfl))
    have h : case_IN_PART_DATA d (graft P (A.add .parts) (B.add .part_name) c src)
        = ((case_IN_PART_DATA d c).1, graft P (A.add .parts) (B.add .part_name) (case_IN_PART_DATA d c).2 src) :=
      case_IN_PART_DATA_local d P A B c src
    rw [hA2, hB2] at h
    exact h
  case IN_ELEMENT_SHELL =>
    have e1 : process_data d c = case_IN_ELEMENT d .SHELL c := by unfold process_data; rw [hs]
    have e2 : process_data d (graft P A B c src) = case_IN_ELEMENT d .SHELL (graft P A B c src) := by
      unfold process_data; rw [show (graft P A B c src).state = c.state from rfl, hs]
    rw [e1, e2]
    have hA2 : A.add .elements = A := FamilySel.family_add_of_has A _ (hA _ (by rw [hs]; rfl))
    have h : case_IN_ELEMENT d .SHELL (graft P (A.add .elements) B c src)
        = ((case_IN_ELEMENT d .SHELL c).1, graft P (A.add .elements) B (case_IN_ELEMENT d .SHELL c).2 src) :=
      case_IN_ELEMENT_local d .SHELL P A B c src
    rw [hA2] at h
    exact h
  case IN_ELEMENT_SOLID =>
    have e1 : process_data d c = case_IN_ELEMENT d .SOLID c := by unfold process_data; rw [hs]
    have e2 : process_data d (graft P A B c src) = case_IN_ELEMENT d .SOLID (graft P A B c src) := by
      unfold process_data; rw [show (graft P A B c src).state = c.state from rfl, hs]
    rw [e1, e2]
    have hA2 : A.add .elements = A := FamilySel.family_add_of_has A _ (hA _ (by rw [hs]; rfl))
    have h : case_IN_ELEMENT d .SOLID (graft P (A.add .elements) B c src)
        = ((case_IN_ELEMENT d .SOLID c).1, graft P (A.add .elements) B (case_IN_ELEMENT d .SOLID c).2 src) :=
      case_IN_ELEMENT_local d .SOLID P A B c src
    rw [hA2] at h
    exact h
  case IN_ELEMENT_BEAM =>
    have e1 : process_data d c = case_IN_ELEMENT d .BEAM c := by unfold process_data; rw [hs]
    have e2 : process_data d (graft P A B c src) = case_IN_ELEMENT d .BEAM (graft P A B c src) := by
      unfold process_data; rw [show (graft P A B c src).state = c.state from rfl, hs]
    rw [e1, e2]
    have hA2 : A.add .elements = A := FamilySel.family_add_of_has A _ (hA _ (by rw [hs]; rfl))
    have h : case_IN_ELEMENT d .BEAM (graft P (A.add .elements) B c src)
        = ((case_IN_ELEMENT d .BEAM c).1, graft P (A.add .elements) B (case_IN_ELEMENT d .BEAM c).2 src) :=
      case_IN_ELEMENT_local d .BEAM P A B c src
    rw [hA2] at h
    exact h
  case IN_SET_TITLE =>
    have e1 : process_data d c = case_IN_SET_TITLE c := by unfold process_data; rw [hs]
    have e2 : process_data d (graft P A B c src) = case_IN_SET_TITLE (graft P A B c src) := by
      unfold process_data; rw [show (graft P A B c src).state = c.state from rfl, hs]
    rw [e1, e2]
    have hA2 : A.add .sets = A := FamilySel.family_add_of_has A _ (hA _ (by rw [hs]; rfl))
    have hB2 : B.add .current_set = B := MemberSel.member_add_of_has B _ (hB _ (by rw [hs]; rfl))
    have h : case_IN_SET_TITLE (graft P (A.add .sets) (B.add .current_set) c src)
        = ((case_IN_SET_TITLE c).1, graft P (A.add .sets) (B.add .current_set) (case_IN_SET_TITLE c).2 src) :=
      case_IN_SET_TITLE_local P A B c src
    rw [hA2, hB2] at h
    exact h
  case IN_SET_NODE_HEADER =>
    have e1 : process_data d c = case_IN_SET_HEADER d .NODE_LIST .IN_SET_NODE_DATA c := by unfold process_data; rw [hs]
    have e2 : process_data d (graft P A B c src) = case_IN_SET_HEADER d .NODE_LIST .IN_SET_NODE_DATA (graft P A B c src) := by
      unfold process_data; rw [show (graft P A B c src).state = c.state from rfl, hs]
    rw [e1, e2]
    have hA2 : A.add .sets = A := FamilySel.family_add_of_has A _ (hA _ (by rw [hs]; rfl))
    have hB2 : B.add .current_set = B := MemberSel.member_add_of_has B _ (hB _ (by rw [hs]; rfl))
    have h : case_IN_SET_HEADER d .NODE_LIST .IN_SET_NODE_DATA (graft P (A.add .sets) (B.add .current_set) c src)
        = ((case_IN_SET_HEADER d .NODE_LIST .IN_SET_NODE_DATA c).1, graft P (A.add .sets) (B.add .current_set) (case_IN_SET_HEADER d .NODE_LIST .IN_SET_NODE_DATA c).2 src) :=
      case_IN_SET_HEADER_local d .NODE_LIST .IN_SET_NODE_DATA P A B c src
    rw [hA2, hB2] at h
    exact h
  case IN_SET_NODE_DATA =>
    have e1 : process_data d c = case_IN_SET_DATA d c := by unfold process_data; rw [hs]
    have e2 : process_data d (graft P A B c src) = case_IN_SET_DATA d (graft P A B c src) := by
      unfold process_data; rw [show (graft P A B c src).state = c.state from rfl, hs]
    rw [e1, e2]
    have hA2 : A.add .sets = A := FamilySel.family_add_of_has A _ (hA _ (by rw [hs]; rfl))
    have hB2 : B.add .current_set = B := MemberSel.member_add_of_has B _ (hB _ (by rw [hs]; rfl))
    have h : case_IN_SET_DATA d (graft P (A.add .sets) (B.add .current_set) c src)
        = ((case_IN_SET_DATA d c).1, graft P (A.add .sets) (B.add .current_set) (case_IN_SET_DATA d c).2 src) :=
      case_IN_SET_DATA_local d P A B c src
    rw [hA2, hB2] at h
    exact h
  case IN_SET_PART_HEADER =>
    have e1 : process_data d c = case_IN_SET_HEADER d .PART_LIST .IN_SET_PART_DATA c := by unfold process_data; rw [hs]
    have e2 : process_data d (graft P A B c src) = case_IN_SET_HEADER d .PART_LIST .IN_SET_PART_DATA (graft P A B c src) := by
      unfold process_data; rw [show (graft P A B c src).state = c.state from rfl, hs]
    rw [e1, e2]
    have hA2 : A.add .sets = A := FamilySel.family_add_of_has A _ (hA _ (by rw [hs]; rfl))
    have hB2 : B.add .current_set = B := MemberSel.member_add_of_has B _ (hB _ (by rw [hs]; rfl))
    have h : case_IN_SET_HEADER d .PART_LIST .IN_SET_PART_DATA (graft P (A.add .sets) (B.add .current_set) c src)
        = ((case_IN_SET_HEADER d .PART_LIST .IN_SET_PART_DATA c).1, graft P (A.add .sets) (B.add .current_set) (case_IN_SET_HEADER d .PART_LIST .IN_SET_PART_DATA c).2 src) :=
      case_IN_SET_HEADER_local d .PART_LIST .IN_SET_PART_DATA P A B c src
    rw [hA2, hB2] at h
    exact h
  case IN_SET_PART_DATA =>
    have e1 : process_data d c = case_IN_SET_DATA d c := by unfold process_data; rw [hs]
    have e2 : process_data d (graft P A B c src) = case_IN_SET_DATA d (graft P A B c src) := by
      unfold process_data; rw [show (graft P A B c src).state = c.state from rfl, hs]
    rw [e1, e2]
    have hA2 : A.add .sets = A := FamilySel.family_add_of_has A _ (hA _ (by rw [hs]; rfl))
    have hB2 : B.add .current_set = B := MemberSel.member_add_of_has B _ (hB _ (by rw [hs]; rfl))
    have h : case_IN_SET_DATA d (graft P (A.add .sets) (B.add .current_set) c src)
        = ((case_IN_SET_DATA d c).1, graft P (A.add .sets) (B.add .current_set) (case_IN_SET_DATA d c).2 src) :=
      case_IN_SET_DATA_local d P A B c src
    rw [hA2, hB2] at h
    exact h
  case IN_SET_SEGMENT_HEADER =>
    have e1 : process_data d c = case_IN_SET_HEADER d .SEGMENT .IN_SET_SEGMENT_DATA c := by unfold process_data; rw [hs]
    have e2 : process_data d (graft P A B c src) = case_IN_SET_HEADER d .SEGMENT .IN_SET_SEGMENT_DATA (graft P A B c src) := by
      unfold process_data; rw [show (graft P A B c src).state = c.state from rfl, hs]
    rw [e1, e2]
    have hA2 : A.add .sets = A := FamilySel.family_add_of_has A _ (hA _ (by rw [hs]; rfl))
    have hB2 : B.add .current_set = B := MemberSel.member_add_of_has B _ (hB _ (by rw [hs]; rfl))
    have h : case_IN_SET_HEADER d .SEGMENT .IN_SET_SEGMENT_DATA (graft P (A.add .sets) (B.add .current_set) c src)
        = ((case_IN_SET_HEADER d .SEGMENT .IN_SET_SEGMENT_DATA c).1, graft P (A.add .sets) (B.add .current_set) (case_IN_SET_HEADER d .SEGMENT .IN_SET_SEGMENT_DATA c).2 src) :=
      case_IN_SET_HEADER_local d .SEGMENT .IN_SET_SEGMENT_DATA P A B c src
    rw [hA2, hB2] at h
    exact h
  case IN_SET_SEGMENT_DATA =>
    have e1 : process_data d c = case_IN_SET_SEGMENT_DATA d c := by unfold process_data; rw [hs]
    have e2 : process_data d (graft P A B c src) = case_IN_SET_SEGMENT_DATA d (graft P A B c src) := by
      unfold process_data; rw [show (graft P A B c src).state = c.state from rfl, hs]
    rw [e1, e2]
    have hA2 : A.add .sets = A := FamilySel.family_add_of_has A _ (hA _ (by rw [hs]; rfl))
    have hB2 : B.add .current_set = B := MemberSel.member_add_of_has B _ (hB _ (by rw [hs]; rfl))
    have h : case_IN_SET_SEGMENT_DATA d (graft P (A.add .sets) (B.add .current_set) c src)
        = ((case_IN_SET_SEGMENT_DATA d c).1, graft P (A.add .sets) (B.add .current_set) (case_IN_SET_SEGMENT_DATA d c).2 src) :=
      case_IN_SET_SEGMENT_DATA_local d P A B c src
    rw [hA2, hB2] at h
    exact h
  case IN_SET_SHELL_HEADER =>
    have e1 : process_data d c = case_IN_SET_HEADER d .SHELL .IN_SET_SHELL_DATA c := by unfold process_data; rw [hs]
    have e2 : process_data d (graft P A B c src) = case_IN_SET_HEADER d .SHELL .IN_SET_SHELL_DATA (graft P A B c src) := by
      unfold process_data; rw [show (graft P A B c src).state = c.state from rfl, hs]
    rw [e1, e2]
    have hA2 : A.add .sets = A := FamilySel.family_add_of_has A _ (hA _ (by rw [hs]; rfl))
    have hB2 : B.add .current_set = B := MemberSel.member_add_of_has B _ (hB _ (by rw [hs]; rfl))
    have h : case_IN_SET_HEADER d .SHELL .IN_SET_SHELL_DATA (graft P (A.add .sets) (B.add .current_set) c src)
        = ((case_IN_SET_HEADER d .SHELL .IN_SET_SHELL_DATA c).1, graft P (A.add .sets) (B.add .current_set) (case_IN_SET_HEADER d .SHELL .IN_SET_SHELL_DATA c).2 src) :=
      case_IN_SET_HEADER_local d .SHELL .IN_SET_SHELL_DATA P A B c src
    rw [hA2, hB2] at h
    exact h
  case IN_SET_SHELL_DATA =>
    have e1 : process_data d c = case_IN_SET_DATA d c := by unfold process_data; rw [hs]
    have e2 : process_data d (graft P A B c src) = case_IN_SET_DATA d (graft P A B c src) := by
      unfold process_data; rw [show (graft P A B c src).state = c.state from rfl, hs]
    rw [e1, e2]
    have hA2 : A.add .sets = A := FamilySel.family_add_of_has A _ (hA _ (by rw [hs]; rfl))
    have hB2 : B.add .current_set = B := MemberSel.member_add_of_has B _ (hB _ (by rw [hs]; rfl))
    have h : case_IN_SET_DATA d (graft P (A.add .sets) (B.add .current_set) c src)
        = ((case_IN_SET_DATA d c).1, graft P (A.add .sets) (B.add .current_set) (case_IN_SET_DATA d c).2 src) :=
      case_IN_SET_DATA_local d P A B c src
    rw [hA2, hB2] at h
    exact h
  case IN_SET_SOLID_HEADER =>
    have e1 : process_data d c = case_IN_SET_HEADER d .SOLID .IN_SET_SOLID_DATA c := by unfold process_data; rw [hs]
    have e2 : process_data d (graft P A B c src) = case_IN_SET_HEADER d .SOLID .IN_SET_SOLID_DATA (graft P A B c src) := by
      unfold process_data; rw [show (graft P A B c src).state = c.state from rfl, hs]
    rw [e1, e2]
    have hA2 : A.add .sets = A := FamilySel.family_add_of_has A _ (hA _ (by rw [hs]; rfl))
    have hB2 : B.add .current_set = B := MemberSel.member_add_of_has B _ (hB _ (by rw [hs]; rfl))
    have h : case_IN_SET_HEADER d .SOLID .IN_SET_SOLID_DATA (graft P (A.add .sets) (B.add .current_set) c src)
        = ((case_IN_SET_HEADER d .SOLID .IN_SET_SOLID_DATA c).1, graft P (A.add .sets) (B.add .current_set) (case_IN_SET_HEADER d .SOLID .IN_SET_SOLID_DATA c).2 src) :=
      case_IN_SET_HEADER_local d .SOLID .IN_SET_SOLID_DATA P A B c src
    rw [hA2, hB2] at h
    exact h
  case IN_SET_SOLID_DATA =>
    have e1 : process_data d c = case_IN_SET_DATA d c := by unfold process_data; rw [hs]
    have e2 : process_data d (graft P A B c src) = case_IN_SET_DATA d (graft P A B c src) := by
      unfold process_data; rw [show (graft P A B c src).state = c.state from rfl, hs]
    rw [e1, e2]
    have hA2 : A.add .sets = A := FamilySel.family_add_of_has A _ (hA _ (by rw [hs]; rfl))
    have hB2 : B.add .current_set = B := MemberSel.member_add_of_has B _ (hB _ (by rw [hs]; rfl))
    have h : case_IN_SET_DATA d (graft P (A.add .sets) (B.add .current_set) c src)
        = ((case_IN_SET_DATA d c).1, graft P (A.add .sets) (B.add .current_set) (case_IN_SET_DATA d c).2 src) :=
      case_IN_SET_DATA_local d P A B c src
    rw [hA2, hB2] at h
    exact h
  case IN_SECTION_SHELL_TITLE =>
    have e1 : process_data d c = set_state .IN_SECTION_SHELL_HEADER c := by unfold process_data; rw [hs]
    have e2 : process_data d (graft P A B c src) = set_state .IN_SECTION_SHELL_HEADER (graft P A B c src) := by
      unfold process_data; rw [show (graft P A B c src).state = c.state from rfl, hs]
    rw [e1, e2]
    rfl
  case IN_SECTION_SOLID_TITLE =>
    have e1 : process_data d c = set_state .IN_SECTION_SOLID c := by unfold process_data; rw [hs]
    have e2 : process_data d (graft P A B c src) = set_state .IN_SECTION_SOLID (graft P A B c src) := by
      unfold process_data; rw [show (graft P A B c src).state = c.state from rfl, hs]
    rw [e1, e2]
    rfl
  case IN_SECTION_BEAM_TITLE =>
    have e1 : process_data d c = set_state .IN_SECTION_BEAM_HEADER c := by unfold process_data; rw [hs]
    have e2 : process_data d (graft P A B c src) = set_state .IN_SECTION_BEAM_HEADER (graft P A B c src) := by
      unfold process_data; rw [show (graft P A B c src).state = c.state from rfl, hs]
    rw [e1, e2]
    rfl
  case IN_SECTION_SHELL_HEADER =>
    have e1 : process_data d c = case_IN_SECTION_SHELL_HEADER d c := by unfold process_data; rw [hs]
    have e2 : process_data d (graft P A B c src) = case_IN_SECTION_SHELL_HEADER d (graft P A B c src) := by
      unfold process_data; rw [show (graft P A B c src).state = c.state from rfl, hs]
    rw [e1, e2]
    have hA2 : A.add .sections = A := FamilySel.family_add_of_has A _ (hA _ (by rw [hs]; rfl))
    have hB2 : B.add .current_section = B := MemberSel.member_add_of_has B _ (hB _ (by rw [hs]; rfl))
    have h : case_IN_SECTION_SHELL_HEADER d (graft P (A.add .sections) (B.add .current_section) c src)
        = ((case_IN_SECTION_SHELL_HEADER d c).1, graft P (A.add .sections) (B.add .current_section) (case_IN_SECTION_SHELL_HEADER d c).2 src) :=
      case_IN_SECTION_SHELL_HEADER_local d P A B c src
    rw [hA2, hB2] at h
    exact h
  case IN_SECTION_SHELL_DATA =>
    have e1 : process_data d c = case_IN_SECTION_SHELL_DATA d c := by unfold process_data; rw [hs]
    have e2 : process_data d (graft P A B c src) = case_IN_SECTION_SHELL_DATA d (graft P A B c src) := by
      unfold process_data; rw [show (graft P A B c src).state = c.state from rfl, hs]
    rw [e1, e2]
    have hA2 : A.add .sections = A := FamilySel.family_add_of_has A _ (hA _ (by rw [hs]; rfl))
    have hB2 : B.add .current_section = B := MemberSel.member_add_of_has B _ (hB _ (by rw [hs]; rfl))
    have h : case_IN_SECTION_SHELL_DATA d (graft P (A.add .sections) (B.add .current_section) c src)
        = ((case_IN_SECTION_SHELL_DATA d c).1, graft P (A.add .sections) (B.add .current_section) (case_IN_SECTION_SHELL_DATA d c).2 src) :=
      case_IN_SECTION_SHELL_DATA_local d P A B c src
    rw [hA2, hB2] at h
    exact h
  case IN_SECTION_SOLID =>
    have e1 : process_data d c = case_IN_SECTION_SOLID d c := by unfold process_data; rw [hs]
    have e2 : process_data d (graft P A B c src) = case_IN_SECTION_SOLID d (graft P A B c src) := by
      unfold process_data; rw [show (graft P A B c src).state = c.state from rfl, hs]
    rw [e1, e2]
    have hA2 : A.add .sections = A := FamilySel.family_add_of_has A _ (hA _ (by rw [hs]; rfl))
    have hB2 : B.add .current_section = B := MemberSel.member_add_of_has B _ (hB _ (by rw [hs]; rfl))
    have h : case_IN_SECTION_SOLID d (graft P (A.add .sections) (B.add .current_section) c src)
        = ((case_IN_SECTION_SOLID d c).1, graft P (A.add .sections) (B.add .current_section) (case_IN_SECTION_SOLID d c).2 src) :=
      case_IN_SECTION_SOLID_local d P A B c src
    rw [hA2, hB2] at h
    exact h
  case IN_SECTION_BEAM_HEADER =>
    have e1 : process_data d c = case_IN_SECTION_BEAM_HEADER d c := by unfold process_data; rw [hs]
    have e2 : process_data d (graft P A B c src) = case_IN_SECTION_BEAM_HEADER d (graft P A B c src) := by
      unfold process_data; rw [show (graft P A B c src).state = c.state from rfl, hs]
    rw [e1, e2]
    have hA2 : A.add .sections = A := FamilySel.family_add_of_has A _ (hA _ (by rw [hs]; rfl))
    have hB2 : B.add .current_section = B := MemberSel.member_add_of_has B _ (hB _ (by rw [hs]; rfl))
    have h : case_IN_SECTION_BEAM_HEADER d (graft P (A.add .sections) (B.add .current_section) c src)
        = ((case_IN_SECTION_BEAM_HEADER d c).1, graft P (A.add .sections) (B.add .current_section) (case_IN_SECTION_BEAM_HEADER d c).2 src) :=
      case_IN_SECTION_BEAM_HEADER_local d P A B c src
    rw [hA2, hB2] at h
    exact h
  case IN_SECTION_BEAM_DATA =>
    have e1 : process_data d c = case_IN_SECTION_BEAM_DATA d c := by unfold process_data; rw [hs]
    have e2 : process_data d (graft P A B c src) = case_IN_SECTION_BEAM_DATA d (graft P A B c src) := by
      unfold process_data; rw [show (graft P A B c src).state = c.state from rfl, hs]
    rw [e1, e2]
    have hA2 : A.add .sections = A := FamilySel.family_add_of_has A _ (hA _ (by rw [hs]; rfl))
    have hB2 : B.add .current_section = B := MemberSel.member_add_of_has B _ (hB _ (by rw [hs]; rfl))
    have h : case_IN_SECTION_BEAM_DATA d (graft P (A.add .sections) (B.add .current_section) c src)
        = ((case_IN_SECTION_BEAM_DATA d c).1, graft P (A.add .sections) (B.add .current_section) (case_IN_SECTION_BEAM_DATA d c).2 src) :=
      case_IN_SECTION_BEAM_DATA_local d P A B c src
    rw [hA2, hB2] at h
    exact h
  case IN_CONTACT_ID =>
    have e1 : process_data d c = set_state .IN_CONTACT_CARD1 c := by unfold process_data; rw [hs]
    have e2 : process_data d (graft P A B c src) = set_state .IN_CONTACT_CARD1 (graft P A B c src) := by
      unfold process_data; rw [show (graft P A B c src).state = c.state from rfl, hs]
    rw [e1, e2]
    rfl
  case IN_CONTACT_TITLE =>
    have e1 : process_data d c = set_state .IN_CONTACT_CARD1 c := by unfold process_data; rw [hs]
    have e2 : process_data d (graft P A B c src) = set_state .IN_CONTACT_CARD1 (graft P A B c src) := by
      unfold process_data; rw [show (graft P A B c src).state = c.state from rfl, hs]
    rw [e1, e2]
    rfl
  case IN_CONTACT_CARD1 =>
    have e1 : process_data d c = case_IN_CONTACT_CARD1 d c := by unfold process_data; rw [hs]
    have e2 : process_data d (graft P A B c src) = case_IN_CONTACT_CARD1 d (graft P A B c src) := by
      unfold process_data; rw [show (graft P A B c src).state = c.state from rfl, hs]
    rw [e1, e2]
    have hA2 : A.add .contacts = A := FamilySel.family_add_of_has A _ (hA _ (by rw [hs]; rfl))
    have hB2 : B.add .current_contact = B := MemberSel.member_add_of_has B _ (hB _ (by rw [hs]; rfl))
    have h : case_IN_CONTACT_CARD1 d (graft P (A.add .contacts) (B.add .current_contact) c src)
        = ((case_IN_CONTACT_CARD1 d c).1, graft P (A.add .contacts) (B.add .current_contact) (case_IN_CONTACT_CARD1 d c).2 src) :=
      case_IN_CONTACT_CARD1_local d P A B c src
    rw [hA2, hB2] at h
    exact h
  case IN_CONTACT_CARD2 =>
    have e1 : process_data d c = case_IN_CONTACT_CARD2 d c := by unfold process_data; rw [hs]
    have e2 : process_data d (graft P A B c src) = case_IN_CONTACT_CARD2 d (graft P A B c src) := by
      unfold process_data; rw [show (graft P A B c src).state = c.state from rfl, hs]
    rw [e1, e2]
    have hA2 : A.add .contacts = A := FamilySel.family_add_of_has A _ (hA _ (by rw [hs]; rfl))
    have hB2 : B.add .current_contact = B := MemberSel.member_add_of_has B _ (hB _ (by rw [hs]; rfl))
    have h : case_IN_CONTACT_CARD2 d (graft P (A.add .contacts) (B.add .current_contact) c src)
        = ((case_IN_CONTACT_CARD2 d c).1, graft P (A.add .contacts) (B.add .current_contact) (case_IN_CONTACT_CARD2 d c).2 src) :=
      case_IN_CONTACT_CARD2_local d P A B c src
    rw [hA2, hB2] at h
    exact h
  case IN_CONTACT_CARD3 =>
    have e1 : process_data d c = case_IN_CONTACT_CARD3 d c := by unfold process_data; rw [hs]
    have e2 : process_data d (graft P A B c src) = case_IN_CONTACT_CARD3 d (graft P A B c src) := by
      unfold process_data; rw [show (graft P A B c src).state = c.state from rfl, hs]
    rw [e1, e2]
    have hA2 : A.add .contacts = A := FamilySel.family_add_of_has A _ (hA _ (by rw [hs]; rfl))
    have hB2 : B.add .current_contact = B := MemberSel.member_add_of_has B _ (hB _ (by rw [hs]; rfl))
    have h : case_IN_CONTACT_CARD3 d (graft P (A.add .contacts) (B.add .current_contact) c src)
        = ((case_IN_CONTACT_CARD3 d c).1, graft P (A.add .contacts) (B.add .current_contact) (case_IN_CONTACT_CARD3 d c).2 src) :=
      case_IN_CONTACT_CARD3_local d P A B c src
    rw [hA2, hB2] at h
    exact h
  case IN_MATERIAL_TITLE =>
    have e1 : process_data d c = case_IN_MATERIAL_TITLE d c := by unfold process_data; rw [hs]
    have e2 : process_data d (graft P A B c src) = case_IN_MATERIAL_TITLE d (graft P A B c src) := by
      unfold process_data; rw [show (graft P A B c src).state = c.state from rfl, hs]
    rw [e1, e2]
    have hA2 : A.add .materials = A := FamilySel.family_add_of_has A _ (hA _ (by rw [hs]; rfl))
    have hB2 : B.add .current_material = B := MemberSel.member_add_of_has B _ (hB _ (by rw [hs]; rfl))
    have h : case_IN_MATERIAL_TITLE d (graft P (A.add .materials) (B.add .current_material) c src)
        = ((case_IN_MATERIAL_TITLE d c).1, graft P (A.add .materials) (B.add .current_material) (case_IN_MATERIAL_TITLE d c).2 src) :=
      case_IN_MATERIAL_TITLE_local d P A B c src
    rw [hA2, hB2] at h
    exact h
  case IN_MATERIAL_DATA =>
    have e1 : process_data d c = case_IN_MATERIAL_DATA d c := by unfold process_data; rw [hs]
    have e2 : process_data d (graft P A B c src) = case_IN_MATERIAL_DATA d (graft P A B c src) := by
      unfold process_data; rw [show (graft P A B c src).state = c.state from rfl, hs]
    rw [e1, e2]
    have hA2 : A.add .materials = A := FamilySel.family_add_of_has A _ (hA _ (by rw [hs]; rfl))
    have hB2 : B.add .current_material = B := MemberSel.member_add_of_has B _ (hB _ (by rw [hs]; rfl))
    have h : case_IN_MATERIAL_DATA d (graft P (A.add .materials) (B.add .current_material) c src)
        = ((case_IN_MATERIAL_DATA d c).1, graft P (A.add .materials) (B.add .current_material) (case_IN_MATERIAL_DATA d c).2 src) :=
      case_IN_MATERIAL_DATA_local d P A B c src
    rw [hA2, hB2] at h
    exact h
  case IN_INCLUDE =>
    have e1 : process_data d c = case_IN_INCLUDE d c := by unfold process_data; rw [hs]
    have e2 : process_data d (graft P A B c src) = case_IN_INCLUDE d (graft P A B c src) := by
      unfold process_data; rw [show (graft P A B c src).state = c.state from rfl, hs]
    rw [e1, e2]
    have hA2 : A.add .includes = A := FamilySel.family_add_of_has A _ (hA _ (by rw [hs]; rfl))
    have h : case_IN_INCLUDE d (graft P (A.add .includes) B c src)
        = ((case_IN_INCLUDE d c).1, graft P (A.add .includes) B (case_IN_INCLUDE d c).2 src) :=
      case_IN_INCLUDE_local d P A B c src
    rw [hA2] at h
    exact h
  case IN_CURVE_TITLE =>
    have e1 : process_data d c = case_IN_CURVE_TITLE d c := by unfold process_data; rw [hs]
    have e2 : process_data d (graft P A B c src) = case_IN_CURVE_TITLE d (graft P A B c src) := by
      unfold process_data; rw [show (graft P A B c src).state = c.state from rfl, hs]
    rw [e1, e2]
    have hA2 : A.add .curves = A := FamilySel.family_add_of_has A _ (hA _ (by rw [hs]; rfl))
    have hB2 : B.add .current_curve = B := MemberSel.member_add_of_has B _ (hB _ (by rw [hs]; rfl))
    have h : case_IN_CURVE_TITLE d (graft P (A.add .curves) (B.add .current_curve) c src)
        = ((case_IN_CURVE_TITLE d c).1, graft P (A.add .curves) (B.add .current_curve) (case_IN_CURVE_TITLE d c).2 src) :=
      case_IN_CURVE_TITLE_local d P A B c src
    rw [hA2, hB2] at h
    exact h
  case IN_CURVE_HEADER =>
    have e1 : process_data d c = case_IN_CURVE_HEADER d c := by unfold process_data; rw [hs]
    have e2 : process_data d (graft P A B c src) = case_IN_CURVE_HEADER d (graft P A B c src) := by
      unfold process_data; rw [show (graft P A B c src).state = c.state from rfl, hs]
    rw [e1, e2]
    have hA2 : A.add .curves = A := FamilySel.family_add_of_has A _ (hA _ (by rw [hs]; rfl))
    have hB2 : B.add .current_curve = B := MemberSel.member_add_of_has B _ (hB _ (by rw [hs]; rfl))
    have h : case_IN_CURVE_HEADER d (graft P (A.add .curves) (B.add .current_curve) c src)
        = ((case_IN_CURVE_HEADER d c).1, graft P (A.add .curves) (B.add .current_curve) (case_IN_CURVE_HEADER d c).2 src) :=
      case_IN_CURVE_HEADER_local d P A B c src
    rw [hA2, hB2] at h
    exact h
  case IN_CURVE_DATA =>
    have e1 : process_data d c = case_IN_CURVE_DATA d c := by unfold process_data; rw [hs]
    have e2 : process_data d (graft P A B c src) = case_IN_CURVE_DATA d (graft P A B c src) := by
      unfold process_data; rw [show (graft P A B c src).state = c.state from rfl, hs]
    rw [e1, e2]
    have hA2 : A.add .curves = A := FamilySel.family_add_of_has A _ (hA _ (by rw [hs]; rfl))
    have hB2 : B.add .current_curve = B := MemberSel.member_add_of_has B _ (hB _ (by rw [hs]; rfl))
    have h : case_IN_CURVE_DATA d (graft P (A.add .curves) (B.add .current_curve) c src)
        = ((case_IN_CURVE_DATA d c).1, graft P (A.add .curves) (B.add .current_curve) (case_IN_CURVE_DATA d c).2 src) :=
      case_IN_CURVE_DATA_local d P A B c src
    rw [hA2, hB2] at h
    exact h
  case IN_BOUNDARY_SPC =>
    have e1 : process_data d c = case_IN_BOUNDARY_SPC d c := by unfold process_data; rw [hs]
    have e2 : process_data d (graft P A B c src) = case_IN_BOUNDARY_SPC d (graft P A B c src) := by
      unfold process_data; rw [show (graft P A B c src).state = c.state from rfl, hs]
    rw [e1, e2]
    have hA2 : A.add .boundaries = A := FamilySel.family_add_of_has A _ (hA _ (by rw [hs]; rfl))
    have hB2 : B.add .current_boundary_spc = B := MemberSel.member_add_of_has B _ (hB _ (by rw [hs]; rfl))
    have h : case_IN_BOUNDARY_SPC d (graft P (A.add .boundaries) (B.add .current_boundary_spc) c src)
        = ((case_IN_BOUNDARY_SPC d c).1, graft P (A.add .boundaries) (B.add .current_boundary_spc) (case_IN_BOUNDARY_SPC d c).2 src) :=
      case_IN_BOUNDARY_SPC_local d P A B c src
    rw [hA2, hB2] at h
    exact h
  case IN_BOUNDARY_MOTION =>
    have e1 : process_data d c = case_IN_BOUNDARY_MOTION d c := by unfold process_data; rw [hs]
    have e2 : process_data d (graft P A B c src) = case_IN_BOUNDARY_MOTION d (graft P A B c src) := by
      unfold process_data; rw [show (graft P A B c src).state = c.state from rfl, hs]
    rw [e1, e2]
    have hA2 : A.add .boundaries = A := FamilySel.family_add_of_has A _ (hA _ (by rw [hs]; rfl))
    have hB2 : B.add .current_boundary_motion = B := MemberSel.member_add_of_has B _ (hB _ (by rw [hs]; rfl))
    have h : case_IN_BOUNDARY_MOTION d (graft P (A.add .boundaries) (B.add .current_boundary_motion) c src)
        = ((case_IN_BOUNDARY_MOTION d c).1, graft P (A.add .boundaries) (B.add .current_boundary_motion) (case_IN_BOUNDARY_MOTION d c).2 src) :=
      case_IN_BOUNDARY_MOTION_local d P A B c src
    rw [hA2, hB2] at h
    exact h
  case IN_LOAD_NODE =>
    have e1 : process_data d c = case_IN_LOAD_NODE d c := by unfold process_data; rw [hs]
    have e2 : process_data d (graft P A B c src) = case_IN_LOAD_NODE d (graft P A B c src) := by
      unfold process_data; rw [show (graft P A B c src).state = c.state from rfl, hs]
    rw [e1, e2]
    have hA2 : A.add .loads = A := FamilySel.family_add_of_has A _ (hA _ (by rw [hs]; rfl))
    have hB2 : B.add .current_load_node = B := MemberSel.member_add_of_has B _ (hB _ (by rw [hs]; rfl))
    have h : case_IN_LOAD_NODE d (graft P (A.add .loads) (B.add .current_load_node) c src)
        = ((case_IN_LOAD_NODE d c).1, graft P (A.add .loads) (B.add .current_load_node) (case_IN_LOAD_NODE d c).2 src) :=
      case_IN_LOAD_NODE_local d P A B c src
    rw [hA2, hB2] at h
    exact h
  case IN_LOAD_SEGMENT =>
    have e1 : process_data d c = case_IN_LOAD_SEGMENT d c := by unfold process_data; rw [hs]
    have e2 : process_data d (graft P A B c src) = case_IN_LOAD_SEGMENT d (graft P A B c src) := by
      unfold process_data; rw [show (graft P A B c src).state = c.state from rfl, hs]
    rw [e1, e2]
    have hA2 : A.add .loads = A := FamilySel.family_add_of_has A _ (hA _ (by rw [hs]; rfl))
    have h : case_IN_LOAD_SEGMENT d (graft P (A.add .loads) B c src)
        = ((case_IN_LOAD_SEGMENT d c).1, graft P (A.add .loads) B (case_IN_LOAD_SEGMENT d c).2 src) :=
      case_IN_LOAD_SEGMENT_local d P A B c src
    rw [hA2] at h
    exact h
  case IN_LOAD_BODY =>
    have e1 : process_data d c = case_IN_LOAD_BODY d c := by unfold process_data; rw [hs]
    have e2 : process_data d (graft P A B c src) = case_IN_LOAD_BODY d (graft P A B c src) := by
      unfold process_data; rw [show (graft P A B c src).state = c.state from rfl, hs]
    rw [e1, e2]
    have hA2 : A.add .loads = A := FamilySel.family_add_of_has A _ (hA _ (by rw [hs]; rfl))
    have hB2 : B.add .current_load_body = B := MemberSel.member_add_of_has B _ (hB _ (by rw [hs]; rfl))
    have h : case_IN_LOAD_BODY d (graft P (A.add .loads) (B.add .current_load_body) c src)
        = ((case_IN_LOAD_BODY d c).1, graft P (A.add .loads) (B.add .current_load_body) (case_IN_LOAD_BODY d c).2 src) :=
      case_IN_LOAD_BODY_local d P A B c src
    rw [hA2, hB2] at h
    exact h
  case IN_CONTROL_TERMINATION =>
    have e1 : process_data d c = case_IN_CONTROL_TERMINATION d c := by unfold process_data; rw [hs]
    have e2 : process_data d (graft P A B c src) = case_IN_CONTROL_TERMINATION d (graft P A B c src) := by
      unfold process_data; rw [show (graft P A B c src).state = c.state from rfl, hs]
    rw [e1, e2]
    have hA2 : A.add .controls = A := FamilySel.family_add_of_has A _ (hA _ (by rw [hs]; rfl))
    have h : case_IN_CONTROL_TERMINATION d (graft P (A.add .controls) B c src)
        = ((case_IN_CONTROL_TERMINATION d c).1, graft P (A.add .controls) B (case_IN_CONTROL_TERMINATION d c).2 src) :=
      case_IN_CONTROL_TERMINATION_local d P A B c src
    rw [hA2] at h
    exact h
  case IN_CONTROL_TIMESTEP =>
    have e1 : process_data d c = case_IN_CONTROL_TIMESTEP d c := by unfold process_data; rw [hs]
    have e2 : process_data d (graft P A B c src) = case_IN_CONTROL_TIMESTEP d (graft P A B c src) := by
      unfold process_data; rw [show (graft P A B c src).state = c.state from rfl, hs]
    rw [e1, e2]
    have hA2 : A.add .controls = A := FamilySel.family_add_of_has A _ (hA _ (by rw [hs]; rfl))
    have h : case_IN_CONTROL_TIMESTEP d (graft P (A.add .controls) B c src)
        = ((case_IN_CONTROL_TIMESTEP d c).1, graft P (A.add .controls) B (case_IN_CONTROL_TIMESTEP d c).2 src) :=
      case_IN_CONTROL_TIMESTEP_local d P A B c src
    rw [hA2] at h
    exact h
  case IN_CONTROL_ENERGY =>
    have e1 : process_data d c = case_IN_CONTROL_ENERGY d c := by unfold process_data; rw [hs]
    have e2 : process_data d (graft P A B c src) = case_IN_CONTROL_ENERGY d (graft P A B c src) := by
      unfold process_data; rw [show (graft P A B c src).state = c.state from rfl, hs]
    rw [e1, e2]
    have hA2 : A.add .controls = A := FamilySel.family_add_of_has A _ (hA _ (by rw [hs]; rfl))
    have h : case_IN_CONTROL_ENERGY d (graft P (A.add .controls) B c src)
        = ((case_IN_CONTROL_ENERGY d c).1, graft P (A.add .controls) B (case_IN_CONTROL_ENERGY d c).2 src) :=
      case_IN_CONTROL_ENERGY_local d P A B c src
    rw [hA2] at h
    exact h
  case IN_CONTROL_OUTPUT =>
    have e1 : process_data d c = case_IN_CONTROL_OUTPUT d c := by unfold process_data; rw [hs]
    have e2 : process_data d (graft P A B c src) = case_IN_CONTROL_OUTPUT d (graft P A B c src) := by
      unfold process_data; rw [show (graft P A B c src).state = c.state from rfl, hs]
    rw [e1, e2]
    have hA2 : A.add .controls = A := FamilySel.family_add_of_has A _ (hA _ (by rw [hs]; rfl))
    have h : case_IN_CONTROL_OUTPUT d (graft P (A.add .controls) B c src)
        = ((case_IN_CONTROL_OUTPUT d c).1, graft P (A.add .controls) B (case_IN_CONTROL_OUTPUT d c).2 src) :=
      case_IN_CONTROL_OUTPUT_local d P A B c src
    rw [hA2] at h
    exact h
  case IN_CONTROL_SHELL =>
    have e1 : process_data d c = case_IN_CONTROL_SHELL d c := by unfold process_data; rw [hs]
    have e2 : process_data d (graft P A B c src) = case_IN_CONTROL_SHELL d (graft P A B c src) := by
      unfold process_data; rw [show (graft P A B c src).state = c.state from rfl, hs]
    rw [e1, e2]
    have hA2 : A.add .controls = A := FamilySel.family_add_of_has A _ (hA _ (by rw [hs]; rfl))
    have h : case_IN_CONTROL_SHELL d (graft P (A.add .controls) B c src)
        = ((case_IN_CONTROL_SHELL d c).1, graft P (A.add .controls) B (case_IN_CONTROL_SHELL d c).2 src) :=
      case_IN_CONTROL_SHELL_local d P A B c src
    rw [hA2] at h
    exact h
  case IN_CONTROL_CONTACT =>
    have e1 : process_data d c = case_IN_CONTROL_CONTACT d c := by unfold process_data; rw [hs]
    have e2 : process_data d (graft P A B c src) = case_IN_CONTROL_CONTACT d (graft P A B c src) := by
      unfold process_data; rw [show (graft P A B c src).state = c.state from rfl, hs]
    rw [e1, e2]
    have hA2 : A.add .controls = A := FamilySel.family_add_of_has A _ (hA _ (by rw [hs]; rfl))
    have h : case_IN_CONTROL_CONTACT d (graft P (A.add .controls) B c src)
        = ((case_IN_CONTROL_CONTACT d c).1, graft P (A.add .controls) B (case_IN_CONTROL_CONTACT d c).2 src) :=
      case_IN_CONTROL_CONTACT_local d P A B c src
    rw [hA2] at h
    exact h
  case IN_CONTROL_HOURGLASS =>
    have e1 : process_data d c = case_IN_CONTROL_HOURGLASS d c := by unfold process_data; rw [hs]
    have e2 : process_data d (graft P A B c src) = case_IN_CONTROL_HOURGLASS d (graft P A B c src) := by
      unfold process_data; rw [show (graft P A B c src).state = c.state from rfl, hs]
    rw [e1, e2]
    have hA2 : A.add .controls = A := FamilySel.family_add_of_has A _ (hA _ (by rw [hs]; rfl))
    have h : case_IN_CONTROL_HOURGLASS d (graft P (A.add .controls) B c src)
        = ((case_IN_CONTROL_HOURGLASS d c).1, graft P (A.add .controls) B (case_IN_CONTROL_HOURGLASS d c).2 src) :=
      case_IN_CONTROL_HOURGLASS_local d P A B c src
    rw [hA2] at h
    exact h
  case IN_CONTROL_BULK_VISCOSITY =>
    have e1 : process_data d c = case_IN_CONTROL_BULK_VISCOSITY d c := by unfold process_data; rw [hs]
    have e2 : process_data d (graft P A B c src) = case_IN_CONTROL_BULK_VISCOSITY d (graft P A B c src) := by
      unfold process_data; rw [show (graft P A B c src).state = c.state from rfl, hs]
    rw [e1, e2]
    have hA2 : A.add .controls = A := FamilySel.family_add_of_has A _ (hA _ (by rw [hs]; rfl))
    have h : case_IN_CONTROL_BULK_VISCOSITY d (graft P (A.add .controls) B c src)
        = ((case_IN_CONTROL_BULK_VISCOSITY d c).1, graft P (A.add .controls) B (case_IN_CONTROL_BULK_VISCOSITY d c).2 src) :=
      case_IN_CONTROL_BULK_VISCOSITY_local d P A B c src
    rw [hA2] at h
    exact h
  case IN_DATABASE_BINARY =>
    have e1 : process_data d c = case_IN_DATABASE_BINARY d c := by unfold process_data; rw [hs]
    have e2 : process_data d (graft P A B c src) = case_IN_DATABASE_BINARY d (graft P A B c src) := by
      unfold process_data; rw [show (graft P A B c src).state = c.state from rfl, hs]
    rw [e1, e2]
    have hA2 : A.add .databases = A := FamilySel.family_add_of_has A _ (hA _ (by rw [hs]; rfl))
    have hB2 : B.add .current_database_binary = B := MemberSel.member_add_of_has B _ (hB _ (by rw [hs]; rfl))
    have h : case_IN_DATABASE_BINARY d (graft P (A.add .databases) (B.add .current_database_binary) c src)
        = ((case_IN_DATABASE_BINARY d c).1, graft P (A.add .databases) (B.add .current_database_binary) (case_IN_DATABASE_BINARY d c).2 src) :=
      case_IN_DATABASE_BINARY_local d P A B c src
    rw [hA2, hB2] at h
    exact h
  case IN_DATABASE_ASCII =>
    have e1 : process_data d c = case_IN_DATABASE_ASCII d c := by unfold process_data; rw [hs]
    have e2 : process_data d (graft P A B c src) = case_IN_DATABASE_ASCII d (graft P A B c src) := by
      unfold process_data; rw [show (graft P A B c src).state = c.state from rfl, hs]
    rw [e1, e2]
    have hA2 : A.add .databases = A := FamilySel.family_add_of_has A _ (hA _ (by rw [hs]; rfl))
    have hB2 : B.add .current_database_ascii = B := MemberSel.member_add_of_has B _ (hB _ (by rw [hs]; rfl))
    have h : case_IN_DATABASE_ASCII d (graft P (A.add .databases) (B.add .current_database_ascii) c src)
        = ((case_IN_DATABASE_ASCII d c).1, graft P (A.add .databases) (B.add .current_database_ascii) (case_IN_DATABASE_ASCII d c).2 src) :=
      case_IN_DATABASE_ASCII_local d P A B c src
    rw [hA2, hB2] at h
    exact h
  case IN_DATABASE_HISTORY_NODE =>
    have e1 : process_data d c = case_IN_DATABASE_HISTORY_NODE d c := by unfold process_data; rw [hs]
    have e2 : process_data d (graft P A B c src) = case_IN_DATABASE_HISTORY_NODE d (graft P A B c src) := by
      unfold process_data; rw [show (graft P A B c src).state = c.state from rfl, hs]
    rw [e1, e2]
    have hA2 : A.add .databases = A := FamilySel.family_add_of_has A _ (hA _ (by rw [hs]; rfl))
    have hB2 : B.add .current_database_history_node = B := MemberSel.member_add_of_has B _ (hB _ (by rw [hs]; rfl))
    have h : case_IN_DATABASE_HISTORY_NODE d (graft P (A.add .databases) (B.add .current_database_history_node) c src)
        = ((case_IN_DATABASE_HISTORY_NODE d c).1, graft P (A.add .databases) (B.add .current_database_history_node) (case_IN_DATABASE_HISTORY_NODE d c).2 src) :=
      case_IN_DATABASE_HISTORY_NODE_local d P A B c src
    rw [hA2, hB2] at h
    exact h
  case IN_DATABASE_HISTORY_ELEMENT =>
    have e1 : process_data d c = case_IN_DATABASE_HISTORY_ELEMENT d c := by unfold process_data; rw [hs]
    have e2 : process_data d (graft P A B c src) = case_IN_DATABASE_HISTORY_ELEMENT d (graft P A B c src) := by
      unfold process_data; rw [show (graft P A B c src).state = c.state from rfl, hs]
    rw [e1, e2]
    have hA2 : A.add .databases = A := FamilySel.family_add_of_has A _ (hA _ (by rw [hs]; rfl))
    have hB2 : B.add .current_database_history_element = B := MemberSel.member_add_of_has B _ (hB _ (by rw [hs]; rfl))
    have h : case_IN_DATABASE_HISTORY_ELEMENT d (graft P (A.add .databases) (B.add .current_database_history_element) c src)
        = ((case_IN_DATABASE_HISTORY_ELEMENT d c).1, graft P (A.add .databases) (B.add .current_database_history_element) (case_IN_DATABASE_HISTORY_ELEMENT d c).2 src) :=
      case_IN_DATABASE_HISTORY_ELEMENT_local d P A B c src
    rw [hA2, hB2] at h
    exact h
  case IN_DATABASE_CROSS_SECTION =>
    have e1 : process_data d c = case_IN_DATABASE_CROSS_SECTION d c := by unfold process_data; rw [hs]
    have e2 : process_data d (graft P A B c src) = case_IN_DATABASE_CROSS_SECTION d (graft P A B c src) := by
      unfold process_data; rw [show (graft P A B c src).state = c.state from rfl, hs]
    rw [e1, e2]
    have hA2 : A.add .databases = A := FamilySel.family_add_of_has A _ (hA _ (by rw [hs]; rfl))
    have h : case_IN_DATABASE_CROSS_SECTION d (graft P (A.add .databases) B c src)
        = ((case_IN_DATABASE_CROSS_SECTION d c).1, graft P (A.add .databases) B (case_IN_DATABASE_CROSS_SECTION d c).2 src) :=
      case_IN_DATABASE_CROSS_SECTION_local d P A B c src
    rw [hA2] at h
    exact h
  case IN_INITIAL_VELOCITY =>
    have e1 : process_data d c = case_IN_INITIAL_VELOCITY d c := by unfold process_data; rw [hs]
    have e2 : process_data d (graft P A B c src) = case_IN_INITIAL_VELOCITY d (graft P A B c src) := by
      unfold process_data; rw [show (graft P A B c src).state = c.state from rfl, hs]
    rw [e1, e2]
    have hA2 : A.add .initials = A := FamilySel.family_add_of_has A _ (hA _ (by rw [hs]; rfl))
    have hB2 : B.add .current_initial_velocity = B := MemberSel.member_add_of_has B _ (hB _ (by rw [hs]; rfl))
    have h : case_IN_INITIAL_VELOCITY d (graft P (A.add .initials) (B.add .current_initial_velocity) c src)
        = ((case_IN_INITIAL_VELOCITY d c).1, graft P (A.add .initials) (B.add .current_initial_velocity) (case_IN_INITIAL_VELOCITY d c).2 src) :=
      case_IN_INITIAL_VELOCITY_local d P A B c src
    rw [hA2, hB2] at h
    exact h
  case IN_INITIAL_VELOCITY_GENERATION =>
    have e1 : process_data d c = case_IN_INITIAL_VELOCITY_GENERATION d c := by unfold process_data; rw [hs]
    have e2 : process_data d (graft P A B c src) = case_IN_INITIAL_VELOCITY_GENERATION d (graft P A B c src) := by
      unfold process_data; rw [show (graft P A B c src).state = c.state from rfl, hs]
    rw [e1, e2]
    have hA2 : A.add .initials = A := FamilySel.family_add_of_has A _ (hA _ (by rw [hs]; rfl))
    have hB2 : B.add .current_initial_velocity = B := MemberSel.member_add_of_has B _ (hB _ (by rw [hs]; rfl))
    have h : case_IN_INITIAL_VELOCITY_GENERATION d (graft P (A.add .initials) (B.add .current_initial_velocity) c src)
        = ((case_IN_INITIAL_VELOCITY_GENERATION d c).1, graft P (A.add .initials) (B.add .current_initial_velocity) (case_IN_INITIAL_VELOCITY_GENERATION d c).2 src) :=
      case_IN_INITIAL_VELOCITY_GENERATION_local d P A B c src
    rw [hA2, hB2] at h
    exact h
  case IN_INITIAL_STRESS =>
    have e1 : process_data d c = set_state .IDLE c := by unfold process_data; rw [hs]
    have e2 : process_data d (graft P A B c src) = set_state .IDLE (graft P A B c src) := by
      unfold process_data; rw [show (graft P A B c src).state = c.state from rfl, hs]
    rw [e1, e2]
    rfl
  case IN_CONSTRAINED_NODAL_RIGID_BODY =>
    have e1 : process_data d c = case_IN_CONSTRAINED_NODAL_RIGID_BODY d c := by unfold process_data; rw [hs]
    have e2 : process_data d (graft P A B c src) = case_IN_CONSTRAINED_NODAL_RIGID_BODY d (graft P A B c src) := by
      unfold process_data; rw [show (graft P A B c src).state = c.state from rfl, hs]
    rw [e1, e2]
    have hA2 : A.add .constraineds = A := FamilySel.family_add_of_has A _ (hA _ (by rw [hs]; rfl))
    have hB2 : B.add .current_constrained_nodal_rigid_body = B := MemberSel.member_add_of_has B _ (hB _ (by rw [hs]; rfl))
    have h : case_IN_CONSTRAINED_NODAL_RIGID_BODY d (graft P (A.add .constraineds) (B.add .current_constrained_nodal_rigid_body) c src)
        = ((case_IN_CONSTRAINED_NODAL_RIGID_BODY d c).1, graft P (A.add .constraineds) (B.add .current_constrained_nodal_rigid_body) (case_IN_CONSTRAINED_NODAL_RIGID_BODY d c).2 src) :=
      case_IN_CONSTRAINED_NODAL_RIGID_BODY_local d P A B c src
    rw [hA2, hB2] at h
    exact h
  case IN_CONSTRAINED_NODAL_RIGID_BODY_INERTIA =>
    have e1 : process_data d c = case_IN_CONSTRAINED_NODAL_RIGID_BODY_INERTIA d c := by unfold process_data; rw [hs]
    have e2 : process_data d (graft P A B c src) = case_IN_CONSTRAINED_NODAL_RIGID_BODY_INERTIA d (graft P A B c src) := by
      unfold process_data; rw [show (graft P A B c src).state = c.state from rfl, hs]
    rw [e1, e2]
    have hA2 : A.add .constraineds = A := FamilySel.family_add_of_has A _ (hA _ (by rw [hs]; rfl))
    have hB2 : B.add .current_constrained_nodal_rigid_body = B := MemberSel.member_add_of_has B _ (hB _ (by rw [hs]; rfl))
    have h : case_IN_CONSTRAINED_NODAL_RIGID_BODY_INERTIA d (graft P (A.add .constraineds) (B.add .current_constrained_nodal_rigid_body) c src)
        = ((case_IN_CONSTRAINED_NODAL_RIGID_BODY_INERTIA d c).1, graft P (A.add .constraineds) (B.add .current_constrained_nodal_rigid_body) (case_IN_CONSTRAINED_NODAL_RIGID_BODY_INERTIA d c).2 src) :=
      case_IN_CONSTRAINED_NODAL_RIGID_BODY_INERTIA_local d P A B c src
    rw [hA2, hB2] at h
    exact h
  case IN_CONSTRAINED_EXTRA_NODES =>
    have e1 : process_data d c = case_IN_CONSTRAINED_EXTRA_NODES d c := by unfold process_data; rw [hs]
    have e2 : process_data d (graft P A B c src) = case_IN_CONSTRAINED_EXTRA_NODES d (graft P A B c src) := by
      unfold process_data; rw [show (graft P A B c src).state = c.state from rfl, hs]
    rw [e1, e2]
    have hA2 : A.add .constraineds = A := FamilySel.family_add_of_has A _ (hA _ (by rw [hs]; rfl))
    have hB2 : B.add .current_constrained_extra_nodes = B := MemberSel.member_add_of_has B _ (hB _ (by rw [hs]; rfl))
    have h : case_IN_CONSTRAINED_EXTRA_NODES d (graft P (A.add .constraineds) (B.add .current_constrained_extra_nodes) c src)
        = ((case_IN_CONSTRAINED_EXTRA_NODES d c).1, graft P (A.add .constraineds) (B.add .current_constrained_extra_nodes) (case_IN_CONSTRAINED_EXTRA_NODES d c).2 src) :=
      case_IN_CONSTRAINED_EXTRA_NODES_local d P A B c src
    rw [hA2, hB2] at h
    exact h
  case IN_CONSTRAINED_JOINT =>
    have e1 : process_data d c = case_IN_CONSTRAINED_JOINT d c := by unfold process_data; rw [hs]
    have e2 : process_data d (graft P A B c src) = case_IN_CONSTRAINED_JOINT d (graft P A B c src) := by
      unfold process_data; rw [show (graft P A B c src).state = c.state from rfl, hs]
    rw [e1, e2]
    have hA2 : A.add .constraineds = A := FamilySel.family_add_of_has A _ (hA _ (by rw [hs]; rfl))
    have hB2 : B.add .current_constrained_joint = B := MemberSel.member_add_of_has B _ (hB _ (by rw [hs]; rfl))
    have h : case_IN_CONSTRAINED_JOINT d (graft P (A.add .constraineds) (B.add .current_constrained_joint) c src)
        = ((case_IN_CONSTRAINED_JOINT d c).1, graft P (A.add .constraineds) (B.add .current_constrained_joint) (case_IN_CONSTRAINED_JOINT d c).2 src) :=
      case_IN_CONSTRAINED_JOINT_local d P A B c src
    rw [hA2, hB2] at h
    exact h
  case IN_CONSTRAINED_SPOTWELD =>
    have e1 : process_data d c = case_IN_CONSTRAINED_SPOTWELD d c := by unfold process_data; rw [hs]
    have e2 : process_data d (graft P A B c src) = case_IN_CONSTRAINED_SPOTWELD d (graft P A B c src) := by
      unfold process_data; rw [show (graft P A B c src).state = c.state from rfl, hs]
    rw [e1, e2]
    have hA2 : A.add .constraineds = A := FamilySel.family_add_of_has A _ (hA _ (by rw [hs]; rfl))
    have hB2 : B.add .current_constrained_spotweld = B := MemberSel.member_add_of_has B _ (hB _ (by rw [hs]; rfl))
    have h : case_IN_CONSTRAINED_SPOTWELD d (graft P (A.add .constraineds) (B.add .current_constrained_spotweld) c src)
        = ((case_IN_CONSTRAINED_SPOTWELD d c).1, graft P (A.add .constraineds) (B.add .current_constrained_spotweld) (case_IN_CONSTRAINED_SPOTWELD d c).2 src) :=
      case_IN_CONSTRAINED_SPOTWELD_local d P A B c src
    rw [hA2, hB2] at h
    exact h
  case IDLE =>
    have e1 : process_data d c = (.ok (), c) := by unfold process_data; rw [hs]
    have e2 : process_data d (graft P A B c src) = (.ok (), graft P A B c src) := by
      unfold process_data; rw [show (graft P A B c src).state = c.state from rfl, hs]
    rw [e1, e2]

/-- A data line leaves the state where it was, or idle, or in a state of the same
family that reads the same member. -/
theorem process_data_moves (d : Str) (c : Ctx F) :
    (process_data d c).2.state = c.state
      ∨ (process_data d c).2.state.akin c.state.flag_family c.state.owner := by
  cases hs : c.state
  case IN_NODE =>
    have e1 : process_data d c = case_IN_NODE d c := by unfold process_data; rw [hs]
    rw [e1]
    have h := (case_IN_NODE_moves d c).2
    rw [hs] at h
    exact h
  case IN_PART_NAME =>
    have e1 : process_data d c = case_IN_PART_NAME d c := by unfold process_data; rw [hs]
    rw [e1]
    have h := (case_IN_PART_NAME_moves d c).2
    rw [hs] at h
    exact h
  case IN_PART_DATA =>
    have e1 : process_data d c = case_IN_PART_DATA d c := by unfold process_data; rw [hs]
    rw [e1]
    have h := (case_IN_PART_DATA_moves d c).2
    rw [hs] at h
    exact h
  case IN_ELEMENT_SHELL =>
    have e1 : process_data d c = case_IN_ELEMENT d .SHELL c := by unfold process_data; rw [hs]
    rw [e1]
    have h := (case_IN_ELEMENT_moves d .SHELL c).2
    rw [hs] at h
    exact h
  case IN_ELEMENT_SOLID =>
    have e1 : process_data d c = case_IN_ELEMENT d .SOLID c := by unfold process_data; rw [hs]
    rw [e1]
    have h := (case_IN_ELEMENT_moves d .SOLID c).2
    rw [hs] at h
    exact h
  case IN_ELEMENT_BEAM =>
    have e1 : process_data d c = case_IN_ELEMENT d .BEAM c := by unfold process_data; rw [hs]
    rw [e1]
    have h := (case_IN_ELEMENT_moves d .BEAM c).2
    rw [hs] at h
    exact h
  case IN_SET_TITLE =>
    have e1 : process_data d c = case_IN_SET_TITLE c := by unfold process_data; rw [hs]
    rw [e1]
    have h := (case_IN_SET_TITLE_moves c).2
    rw [hs] at h
    exact h
  case IN_SET_NODE_HEADER =>
    have e1 : process_data d c = case_IN_SET_HEADER d .NODE_LIST .IN_SET_NODE_DATA c := by unfold process_data; rw [hs]
    rw [e1]
    have h := (case_IN_SET_HEADER_moves d .NODE_LIST .IN_SET_NODE_DATA (by decide) c).2
    rw [hs] at h
    exact h
  case IN_SET_NODE_DATA =>
    have e1 : process_data d c = case_IN_SET_DATA d c := by unfold process_data; rw [hs]
    rw [e1]
    have h := (case_IN_SET_DATA_moves d c).2
    rw [hs] at h
    exact h
  case IN_SET_PART_HEADER =>
    have e1 : process_data d c = case_IN_SET_HEADER d .PART_LIST .IN_SET_PART_DATA c := by unfold process_data; rw [hs]
    rw [e1]
    have h := (case_IN_SET_HEADER_moves d .PART_LIST .IN_SET_PART_DATA (by decide) c).2
    rw [hs] at h
    exact h
  case IN_SET_PART_DATA =>
    have e1 : process_data d c = case_IN_SET_DATA d c := by unfold process_data; rw [hs]
    rw [e1]
    have h := (case_IN_SET_DATA_moves d c).2
    rw [hs] at h
    exact h
  case IN_SET_SEGMENT_HEADER =>
    have e1 : process_data d c = case_IN_SET_HEADER d .SEGMENT .IN_SET_SEGMENT_DATA c := by unfold process_data; rw [hs]
    rw [e1]
    have h := (case_IN_SET_HEADER_moves d .SEGMENT .IN_SET_SEGMENT_DATA (by decide) c).2
    rw [hs] at h
    exact h
  case IN_SET_SEGMENT_DATA =>
    have e1 : process_data d c = case_IN_SET_SEGMENT_DATA d c := by unfold process_data; rw [hs]
    rw [e1]
    have h := (case_IN_SET_SEGMENT_DATA_moves d c).2
    rw [hs] at h
    exact h
  case IN_SET_SHELL_HEADER =>
    have e1 : process_data d c = case_IN_SET_HEADER d .SHELL .IN_SET_SHELL_DATA c := by unfold process_data; rw [hs]
    rw [e1]
    have h := (case_IN_SET_HEADER_moves d .SHELL .IN_SET_SHELL_DATA (by decide) c).2
    rw [hs] at h
    exact h
  case IN_SET_SHELL_DATA =>
    have e1 : process_data d c = case_IN_SET_DATA d c := by unfold process_data; rw [hs]
    rw [e1]
    have h := (case_IN_SET_DATA_moves d c).2
    rw [hs] at h
    exact h
  case IN_SET_SOLID_HEADER =>
    have e1 : process_data d c = case_IN_SET_HEADER d .SOLID .IN_SET_SOLID_DATA c := by unfold process_data; rw [hs]
    rw [e1]
    have h := (case_IN_SET_HEADER_moves d .SOLID .IN_SET_SOLID_DATA (by decide) c).2
    rw [hs] at h
    exact h
  case IN_SET_SOLID_DATA =>
    have e1 : process_data d c = case_IN_SET_DATA d c := by unfold process_data; rw [hs]
    rw [e1]
    have h := (case_IN_SET_DATA_moves d c).2
    rw [hs] at h
    exact h
  case IN_SECTION_SHELL_TITLE =>
    have e1 : process_data d c = set_state .IN_SECTION_SHELL_HEADER c := by unfold process_data; rw [hs]
    rw [e1]
    exact Or.inr (Or.inr ⟨rfl, rfl⟩)
  case IN_SECTION_SOLID_TITLE =>
    have e1 : process_data d c = set_state .IN_SECTION_SOLID c := by unfold process_data; rw [hs]
    rw [e1]
    exact Or.inr (Or.inr ⟨rfl, rfl⟩)
  case IN_SECTION_BEAM_TITLE =>
    have e1 : process_data d c = set_state .IN_SECTION_BEAM_HEADER c := by unfold process_data; rw [hs]
    rw [e1]
    exact Or.inr (Or.inr ⟨rfl, rfl⟩)
  case IN_SECTION_SHELL_HEADER =>
    have e1 : process_data d c = case_IN_SECTION_SHELL_HEADER d c := by unfold process_data; rw [hs]
    rw [e1]
    have h := (case_IN_SECTION_SHELL_HEADER_moves d c).2
    rw [hs] at h
    exact h
  case IN_SECTION_SHELL_DATA =>
    have e1 : process_data d c = case_IN_SECTION_SHELL_DATA d c := by unfold process_data; rw [hs]
    rw [e1]
    have h := (case_IN_SECTION_SHELL_DATA_moves d c).2
    rw [hs] at h
    exact h
  case IN_SECTION_SOLID =>
    have e1 : process_data d c = case_IN_SECTION_SOLID d c := by unfold process_data; rw [hs]
    rw [e1]
    have h := (case_IN_SECTION_SOLID_moves d c).2
    rw [hs] at h
    exact h
  case IN_SECTION_BEAM_HEADER =>
    have e1 : process_data d c = case_IN_SECTION_BEAM_HEADER d c := by unfold process_data; rw [hs]
    rw [e1]
    have h := (case_IN_SECTION_BEAM_HEADER_moves d c).2
    rw [hs] at h
    exact h
  case IN_SECTION_BEAM_DATA =>
    have e1 : process_data d c = case_IN_SECTION_BEAM_DATA d c := by unfold process_data; rw [hs]
    rw [e1]
    have h := (case_IN_SECTION_BEAM_DATA_moves d c).2
    rw [hs] at h
    exact h
  case IN_CONTACT_ID =>
    have e1 : process_data d c = set_state .IN_CONTACT_CARD1 c := by unfold process_data; rw [hs]
    rw [e1]
    exact Or.inr (Or.inr ⟨rfl, rfl⟩)
  case IN_CONTACT_TITLE =>
    have e1 : process_data d c = set_state .IN_CONTACT_CARD1 c := by unfold process_data; rw [hs]
    rw [e1]
    exact Or.inr (Or.inr ⟨rfl, rfl⟩)
  case IN_CONTACT_CARD1 =>
    have e1 : process_data d c = case_IN_CONTACT_CARD1 d c := by unfold process_data; rw [hs]
    rw [e1]
    have h := (case_IN_CONTACT_CARD1_moves d c).2
    rw [hs] at h
    exact h
  case IN_CONTACT_CARD2 =>
    have e1 : process_data d c = case_IN_CONTACT_CARD2 d c := by unfold process_data; rw [hs]
    rw [e1]
    have h := (case_IN_CONTACT_CARD2_moves d c).2
    rw [hs] at h
    exact h
  case IN_CONTACT_CARD3 =>
    have e1 : process_data d c = case_IN_CONTACT_CARD3 d c := by unfold process_data; rw [hs]
    rw [e1]
    have h := (case_IN_CONTACT_CARD3_moves d c).2
    rw [hs] at h
    exact h
  case IN_MATERIAL_TITLE =>
    have e1 : process_data d c = case_IN_MATERIAL_TITLE d c := by unfold process_data; rw [hs]
    rw [e1]
    have h := (case_IN_MATERIAL_TITLE_moves d c).2
    rw [hs] at h
    exact h
  case IN_MATERIAL_DATA =>
    have e1 : process_data d c = case_IN_MATERIAL_DATA d c := by unfold process_data; rw [hs]
    rw [e1]
    have h := (case_IN_MATERIAL_DATA_moves d c).2
    rw [hs] at h
    exact h
  case IN_INCLUDE =>
    have e1 : process_data d c = case_IN_INCLUDE d c := by unfold process_data; rw [hs]
    rw [e1]
    have h := (case_IN_INCLUDE_moves d c).2
    rw [hs] at h
    exact h
  case IN_CURVE_TITLE =>
    have e1 : process_data d c = case_IN_CURVE_TITLE d c := by unfold process_data; rw [hs]
    rw [e1]
    have h := (case_IN_CURVE_TITLE_moves d c).2
    rw [hs] at h
    exact h
  case IN_CURVE_HEADER =>
    have e1 : process_data d c = case_IN_CURVE_HEADER d c := by unfold process_data; rw [hs]
    rw [e1]
    have h := (case_IN_CURVE_HEADER_moves d c).2
    rw [hs] at h
    exact h
  case IN_CURVE_DATA =>
    have e1 : process_data d c = case_IN_CURVE_DATA d c := by unfold process_data; rw [hs]
    rw [e1]
    have h := (case_IN_CURVE_DATA_moves d c).2
    rw [hs] at h
    exact h
  case IN_BOUNDARY_SPC =>
    have e1 : process_data d c = case_IN_BOUNDARY_SPC d c := by unfold process_data; rw [hs]
    rw [e1]
    have h := (case_IN_BOUNDARY_SPC_moves d c).2
    rw [hs] at h
    exact h
  case IN_BOUNDARY_MOTION =>
    have e1 : process_data d c = case_IN_BOUNDARY_MOTION d c := by unfold process_data; rw [hs]
    rw [e1]
    have h := (case_IN_BOUNDARY_MOTION_moves d c).2
    rw [hs] at h
    exact h
  case IN_LOAD_NODE =>
    have e1 : process_data d c = case_IN_LOAD_NODE d c := by unfold process_data; rw [hs]
    rw [e1]
    have h := (case_IN_LOAD_NODE_moves d c).2
    rw [hs] at h
    exact h
  case IN_LOAD_SEGMENT =>
    have e1 : process_data d c = case_IN_LOAD_SEGMENT d c := by unfold process_data; rw [hs]
    rw [e1]
    have h := (case_IN_LOAD_SEGMENT_moves d c).2
    rw [hs] at h
    exact h
  case IN_LOAD_BODY =>
    have e1 : process_data d c = case_IN_LOAD_BODY d c := by unfold process_data; rw [hs]
    rw [e1]
    have h := (case_IN_LOAD_BODY_moves d c).2
    rw [hs] at h
    exact h
  case IN_CONTROL_TERMINATION =>
    have e1 : process_data d c = case_IN_CONTROL_TERMINATION d c := by unfold process_data; rw [hs]
    rw [e1]
    have h := (case_IN_CONTROL_TERMINATION_moves d c).2
    rw [hs] at h
    exact h
  case IN_CONTROL_TIMESTEP =>
    have e1 : process_data d c = case_IN_CONTROL_TIMESTEP d c := by unfold process_data; rw [hs]
    rw [e1]
    have h := (case_IN_CONTROL_TIMESTEP_moves d c).2
    rw [hs] at h
    exact h
  case IN_CONTROL_ENERGY =>
    have e1 : process_data d c = case_IN_CONTROL_ENERGY d c := by unfold process_data; rw [hs]
    rw [e1]
    have h := (case_IN_CONTROL_ENERGY_moves d c).2
    rw [hs] at h
    exact h
  case IN_CONTROL_OUTPUT =>
    have e1 : process_data d c = case_IN_CONTROL_OUTPUT d c := by unfold process_data; rw [hs]
    rw [e1]
    have h := (case_IN_CONTROL_OUTPUT_moves d c).2
    rw [hs] at h
    exact h
  case IN_CONTROL_SHELL =>
    have e1 : process_data d c = case_IN_CONTROL_SHELL d c := by unfold process_data; rw [hs]
    rw [e1]
    have h := (case_IN_CONTROL_SHELL_moves d c).2
    rw [hs] at h
    exact h
  case IN_CONTROL_CONTACT =>
    have e1 : process_data d c = case_IN_CONTROL_CONTACT d c := by unfold process_data; rw [hs]
    rw [e1]
    have h := (case_IN_CONTROL_CONTACT_moves d c).2
    rw [hs] at h
    exact h
  case IN_CONTROL_HOURGLASS =>
    have e1 : process_data d c = case_IN_CONTROL_HOURGLASS d c := by unfold process_data; rw [hs]
    rw [e1]
    have h := (case_IN_CONTROL_HOURGLASS_moves d c).2
    rw [hs] at h
    exact h
  case IN_CONTROL_BULK_VISCOSITY =>
    have e1 : process_data d c = case_IN_CONTROL_BULK_VISCOSITY d c := by unfold process_data; rw [hs]
    rw [e1]
    have h := (case_IN_CONTROL_BULK_VISCOSITY_moves d c).2
    rw [hs] at h
    exact h
  case IN_DATABASE_BINARY =>
    have e1 : process_data d c = case_IN_DATABASE_BINARY d c := by unfold process_data; rw [hs]
    rw [e1]
    have h := (case_IN_DATABASE_BINARY_moves d c).2
    rw [hs] at h
    exact h
  case IN_DATABASE_ASCII =>
    have e1 : process_data d c = case_IN_DATABASE_ASCII d c := by unfold process_data; rw [hs]
    rw [e1]
    have h := (case_IN_DATABASE_ASCII_moves d c).2
    rw [hs] at h
    exact h
  case IN_DATABASE_HISTORY_NODE =>
    have e1 : process_data d c = case_IN_DATABASE_HISTORY_NODE d c := by unfold process_data; rw [hs]
    rw [e1]
    have h := (case_IN_DATABASE_HISTORY_NODE_moves d c).2
    rw [hs] at h
    exact h
  case IN_DATABASE_HISTORY_ELEMENT =>
    have e1 : process_data d c = case_IN_DATABASE_HISTORY_ELEMENT d c := by unfold process_data; rw [hs]
    rw [e1]
    have h := (case_IN_DATABASE_HISTORY_ELEMENT_moves d c).2
    rw [hs] at h
    exact h
  case IN_DATABASE_CROSS_SECTION =>
    have e1 : process_data d c = case_IN_DATABASE_CROSS_SECTION d c := by unfold process_data; rw [hs]
    rw [e1]
    have h := (case_IN_DATABASE_CROSS_SECTION_moves d c).2
    rw [hs] at h
    exact h
  case IN_INITIAL_VELOCITY =>
    have e1 : process_data d c = case_IN_INITIAL_VELOCITY d c := by unfold process_data; rw [hs]
    rw [e1]
    have h := (case_IN_INITIAL_VELOCITY_moves d c).2
    rw [hs] at h
    exact h
  case IN_INITIAL_VELOCITY_GENERATION =>
    have e1 : process_data d c = case_IN_INITIAL_VELOCITY_GENERATION d c := by unfold process_data; rw [hs]
    rw [e1]
    have h := (case_IN_INITIAL_VELOCITY_GENERATION_moves d c).2
    rw [hs] at h
    exact h
  case IN_INITIAL_STRESS =>
    have e1 : process_data d c = set_state .IDLE c := by unfold process_data; rw [hs]
    rw [e1]
    exact Or.inr (Or.inl rfl)
  case IN_CONSTRAINED_NODAL_RIGID_BODY =>
    have e1 : process_data d c = case_IN_CONSTRAINED_NODAL_RIGID_BODY d c := by unfold process_data; rw [hs]
    rw [e1]
    have h := (case_IN_CONSTRAINED_NODAL_RIGID_BODY_moves d c).2
    rw [hs] at h
    exact h
  case IN_CONSTRAINED_NODAL_RIGID_BODY_INERTIA =>
    have e1 : process_data d c = case_IN_CONSTRAINED_NODAL_RIGID_BODY_INERTIA d c := by unfold process_data; rw [hs]
    rw [e1]
    have h := (case_IN_CONSTRAINED_NODAL_RIGID_BODY_INERTIA_moves d c).2
    rw [hs] at h
    exact h
  case IN_CONSTRAINED_EXTRA_NODES =>
    have e1 : process_data d c = case_IN_CONSTRAINED_EXTRA_NODES d c := by unfold process_data; rw [hs]
    rw [e1]
    have h := (case_IN_CONSTRAINED_EXTRA_NODES_moves d c).2
    rw [hs] at h
    exact h
  case IN_CONSTRAINED_JOINT =>
    have e1 : process_data d c = case_IN_CONSTRAINED_JOINT d c := by unfold process_data; rw [hs]
    rw [e1]
    have h := (case_IN_CONSTRAINED_JOINT_moves d c).2
    rw [hs] at h
    exact h
  case IN_CONSTRAINED_SPOTWELD =>
    have e1 : process_data d c = case_IN_CONSTRAINED_SPOTWELD d c := by unfold process_data; rw [hs]
    rw [e1]
    have h := (case_IN_CONSTRAINED_SPOTWELD_moves d c).2
    rw [hs] at h
    exact h
  case IDLE =>
    have e1 : process_data d c = (.ok (), c) := by unfold process_data; rw [hs]
    rw [e1]
    exact Or.inl hs

end DataOverlay

/-! ## The shape of every keyword branch -/

section KeywordShapes

variable {F : Type} [DoubleModel F]

set_option linter.unusedTactic false
set_option linter.unreachableTactic false
set_option linter.unusedVariables false
set_option linter.unusedSectionVars false

theorem Ctx.idled_of_ne (g : Option Member) (hg : g ≠ some .part_name) (c : Ctx F) :
    c.idled g = { c with state := .IDLE } := by
  unfold Ctx.idled
  rw [if_neg hg]

theorem graft_enabled (P : ParseResult F) (A : FamilySel) (B : MemberSel) (fam : Family)
    (c src : Ctx F) : (graft P (A.add fam) B c src).self.enabled fam = c.self.enabled fam := by
  cases fam <;> rfl

theorem PlainBranch.plain_select (fam : Family) (flag : KFileParser F → Bool) (st : ParseState)
    (hflag : ∀ p : KFileParser F, flag p = p.enabled fam) (hst : st.akin (some fam) none)
    (hf : fam ≠ .sets ∧ fam ≠ .materials ∧ fam ≠ .curves) :
    PlainBranch fam none (select_state flag st) := by
  have hc : ∀ (P : ParseResult F) (A : FamilySel) (B : MemberSel),
      Local (graft P (A.add fam) B) (select_state flag st) := by
    intro P A B
    refine Local.local_select_state _ _ ?_
    intro c src
    rw [hflag, hflag, graft_enabled]
    rfl
  refine ⟨hc, fun P A B c src _ => hc P A B c src, ?_,
    Ends.ends_select_state _ _ (Or.inl rfl) hst, hf, by decide, by intro k h; cases h⟩
  intro c h
  show ((Except.ok () : Except Exn Unit),
    ({ c with state := if flag c.self = true then st else .IDLE } : Ctx F)) = _
  rw [hflag, h, Ctx.idled_of_ne _ (by decide)]
  rfl

theorem PlainBranch.plain_enabled_state (fam : Family) (flag : KFileParser F → Bool)
    (st : ParseState) (hflag : ∀ p : KFileParser F, flag p = p.enabled fam)
    (hst : st.akin (some fam) none)
    (hf : fam ≠ .sets ∧ fam ≠ .materials ∧ fam ≠ .curves) :
    PlainBranch fam none (when_enabled flag (set_state st)) := by
  have hc : ∀ (P : ParseResult F) (A : FamilySel) (B : MemberSel),
      Local (graft P (A.add fam) B) (when_enabled flag (set_state st)) := by
    intro P A B
    refine Local.local_when_enabled ?_ ?_ ?_
    · intro c src
      rw [hflag, hflag, graft_enabled]
    · exact fun _ _ => rfl
    · exact Local.local_set_state _ (fun _ _ => rfl)
  refine ⟨hc, fun P A B c src _ => hc P A B c src, ?_,
    Ends.ends_when_enabled (Or.inl rfl) (Ends.ends_set_state _ hst), hf, by decide,
    by intro k h; cases h⟩
  intro c h
  rw [Ctx.idled_of_ne _ (by decide)]
  exact when_enabled_off c (by rw [hflag]; exact h)

theorem PlainBranch.plain_part :
    PlainBranch .parts (some .part_name)
      (do
        select_state (·.parse_parts_) .IN_PART_NAME
        Run.update (fun c => { c with part_name := [] }) : Run (Ctx F) Unit) := by
  refine ⟨?_, ?_, ?_, ?_, by decide, by decide, by intro k h; cases h; rfl⟩
  · intro P A B
    refine Local.local_bind ?_ (fun _ => ?_)
    · refine Local.local_select_state _ _ ?_
      exact fun _ _ => rfl
    · refine Local.local_update ?_
      exact fun _ _ => rfl
  · intro P A B c src _
    rfl
  · intro c h
    have h2 : c.self.parse_parts_ = false := h
    show ((Except.ok () : Except Exn Unit),
      ({ c with state := if c.self.parse_parts_ = true then .IN_PART_NAME else .IDLE,
                part_name := [] } : Ctx F)) = _
    rw [h2]
    rfl
  · intro c a _
    show ParseState.akin _ _ (if c.self.parse_parts_ = true then .IN_PART_NAME else .IDLE)
    split <;> decide

theorem PlainBranch.begin {fam : Family} {g : Member} {m : Run (Ctx F) Unit}
    (hc : ∀ (P : ParseResult F) (A : FamilySel) (B : MemberSel),
      Local (graft P (A.add fam) (B.add g)) m)
    (ha : ∀ (P : ParseResult F) (A : FamilySel) (B : MemberSel) (c src : Ctx F),
      c.self.enabled fam = true →
        m (graft P (A.add fam) B c src) = ((m c).1, graft P (A.add fam) (B.add g) (m c).2 src))
    (hd : ∀ c : Ctx F, c.self.enabled fam = false → m c = (.ok (), { c with state := .IDLE }))
    (hl : Ends (ParseState.akin (some fam) (some g)) m)
    (hf : fam ≠ .sets ∧ fam ≠ .materials ∧ fam ≠ .curves)
    (hg : g ≠ .part_name ∧ g ≠ .current_set ∧ g ≠ .current_material ∧ g ≠ .current_curve)
    (hm : g.family = fam) :
    PlainBranch fam (some g) m := by
  refine ⟨hc, ha, ?_, hl, hf, ?_, by intro k h; cases h; exact hm⟩
  · intro c h
    rw [Ctx.idled_of_ne _ (by simp only [ne_eq, Option.some.injEq]; exact hg.1)]
    exact hd c h
  · simp only [ne_eq, Option.some.injEq]
    exact ⟨hg.2.1, hg.2.2.1, hg.2.2.2⟩

theorem PlainBranch.plain_control_termination :
    PlainBranch .controls (some .current_control_termination)
      (when_enabled (·.parse_controls_) (do
        Run.update (fun c => { c with
          self.current_control_termination_ := ControlTermination.init })
        set_state .IN_CONTROL_TERMINATION) : Run (Ctx F) Unit) := by
  refine PlainBranch.begin ?_ ?_ (fun c h => when_enabled_off c h) ?_ (by decide) (by decide) rfl
  · intro P A B
    refine Local.local_when_enabled ?_ ?_ ?_
    · exact fun _ _ => rfl
    · exact fun _ _ => rfl
    · refine Local.local_bind ?_ (fun _ => ?_)
      · refine Local.local_update ?_
        exact fun _ _ => rfl
      · refine Local.local_set_state _ ?_
        exact fun _ _ => rfl
  · intro P A B c src h
    refine Absorbs.when_enabled_on (K := graft P (A.add .controls) B)
      (L := graft P (A.add .controls) (B.add .current_control_termination)) ?_ ?_ c src h
    · exact fun _ _ => rfl
    · refine Absorbs.absorb_bind (K := graft P (A.add .controls) B)
        (L := graft P (A.add .controls) (B.add .current_control_termination)) ?_ (fun _ => ?_)
      · exact fun _ _ => rfl
      · refine Local.local_set_state _ ?_
        exact fun _ _ => rfl
  · exact Ends.ends_when_enabled (Or.inl rfl)
      (Ends.ends_bind (fun _ => Ends.ends_set_state _ (by decide)))

theorem PlainBranch.plain_control_timestep :
    PlainBranch .controls (some .current_control_timestep)
      (when_enabled (·.parse_controls_) (do
        Run.update (fun c => { c with self.current_control_timestep_ := ControlTimestep.init })
        set_state .IN_CONTROL_TIMESTEP) : Run (Ctx F) Unit) := by
  refine PlainBranch.begin ?_ ?_ (fun c h => when_enabled_off c h) ?_ (by decide) (by decide) rfl
  · intro P A B
    refine Local.local_when_enabled ?_ ?_ ?_
    · exact fun _ _ => rfl
    · exact fun _ _ => rfl
    · refine Local.local_bind ?_ (fun _ => ?_)
      · refine Local.local_update ?_
        exact fun _ _ => rfl
      · refine Local.local_set_state _ ?_
        exact fun _ _ => rfl
  · intro P A B c src h
    refine Absorbs.when_enabled_on (K := graft P (A.add .controls) B)
      (L := graft P (A.add .controls) (B.add .current_control_timestep)) ?_ ?_ c src h
    · exact fun _ _ => rfl
    · refine Absorbs.absorb_bind (K := graft P (A.add .controls) B)
        (L := graft P (A.add .controls) (B.add .current_control_timestep)) ?_ (fun _ => ?_)
      · exact fun _ _ => rfl
      · refine Local.local_set_state _ ?_
        exact fun _ _ => rfl
  · exact Ends.ends_when_enabled (Or.inl rfl)
      (Ends.ends_bind (fun _ => Ends.ends_set_state _ (by decide)))

theorem begin_section_plain (u : Str) (type : SectionType) (title header : ParseState)
    (hh : header.akin (some .sections) (some .current_section))
    (ht : title.akin (some .sections) (some .current_section)) :
    PlainBranch .sections (some .current_section) (begin_section u type title header : Run (Ctx F) Unit) :=
  PlainBranch.begin (fun P A B => begin_section_local u type title header P A B)
    (fun P A B c src h => begin_section_absorbs u type title header P A B c src h)
    (fun c h => by unfold KFile.begin_section; exact when_enabled_off c h)
    (begin_section_lands u type title header hh ht) (by decide) (by decide) rfl

theorem begin_contact_plain (u : Str) :
    PlainBranch .contacts (some .current_contact) (begin_contact u : Run (Ctx F) Unit) :=
  PlainBranch.begin (fun P A B => begin_contact_local u P A B)
    (fun P A B c src h => begin_contact_absorbs u P A B c src h)
    (fun c h => by unfold KFile.begin_contact; exact when_enabled_off c h)
    (begin_contact_lands u) (by decide) (by decide) rfl

theorem begin_boundary_spc_plain (u : Str) :
    PlainBranch .boundaries (some .current_boundary_spc) (begin_boundary_spc u : Run (Ctx F) Unit) :=
  PlainBranch.begin (fun P A B => begin_boundary_spc_local u P A B)
    (fun P A B c src h => begin_boundary_spc_absorbs u P A B c src h)
    (fun c h => by unfold KFile.begin_boundary_spc; exact when_enabled_off c h)
    (begin_boundary_spc_lands u) (by decide) (by decide) rfl

theorem begin_boundary_motion_plain (u : Str) :
    PlainBranch .boundaries (some .current_boundary_motion) (begin_boundary_motion u : Run (Ctx F) Unit) :=
  PlainBranch.begin (fun P A B => begin_boundary_motion_local u P A B)
    (fun P A B c src h => begin_boundary_motion_absorbs u P A B c src h)
    (fun c h => by unfold KFile.begin_boundary_motion; exact when_enabled_off c h)
    (begin_boundary_motion_lands u) (by decide) (by decide) rfl

theorem begin_load_node_plain (u : Str) :
    PlainBranch .loads (some .current_load_node) (begin_load_node u : Run (Ctx F) Unit) :=
  PlainBranch.begin (fun P A B => begin_load_node_local u P A B)
    (fun P A B c src h => begin_load_node_absorbs u P A B c src h)
    (fun c h => by unfold KFile.begin_load_node; exact when_enabled_off c h)
    (begin_load_node_lands u) (by decide) (by decide) rfl

theorem begin_load_body_plain (u : Str) :
    PlainBranch .loads (some .current_load_body) (begin_load_body u : Run (Ctx F) Unit) :=
  PlainBranch.begin (fun P A B => begin_load_body_local u P A B)
    (fun P A B c src h => begin_load_body_absorbs u P A B c src h)
    (fun c h => by unfold KFile.begin_load_body; exact when_enabled_off c h)
    (begin_load_body_lands u) (by decide) (by decide) rfl

theorem begin_database_binary_plain (t : DatabaseType) :
    PlainBranch .databases (some .current_database_binary) (begin_database_binary t : Run (Ctx F) Unit) :=
  PlainBranch.begin (fun P A B => begin_database_binary_local t P A B)
    (fun P A B c src h => begin_database_binary_absorbs t P A B c src h)
    (fun c h => by unfold KFile.begin_database_binary; exact when_enabled_off c h)
    (begin_database_binary_lands t) (by decide) (by decide) rfl

theorem begin_database_ascii_plain (t : DatabaseType) :
    PlainBranch .databases (some .current_database_ascii) (begin_database_ascii t : Run (Ctx F) Unit) :=
  PlainBranch.begin (fun P A B => begin_database_ascii_local t P A B)
    (fun P A B c src h => begin_database_ascii_absorbs t P A B c src h)
    (fun c h => by unfold KFile.begin_database_ascii; exact when_enabled_off c h)
    (begin_database_ascii_lands t) (by decide) (by decide) rfl

theorem begin_database_history_node_plain :
    PlainBranch .databases (some .current_database_history_node) (begin_database_history_node : Run (Ctx F) Unit) :=
  PlainBranch.begin (fun P A B => begin_database_history_node_local P A B)
    (fun P A B c src h => begin_database_history_node_absorbs P A B c src h)
    (fun c h => by unfold KFile.begin_database_history_node; exact when_enabled_off c h)
    (begin_database_history_node_lands) (by decide) (by decide) rfl

theorem begin_database_history_element_plain (t : Int) :
    PlainBranch .databases (some .current_database_history_element) (begin_database_history_element t : Run (Ctx F) Unit) :=
  PlainBranch.begin (fun P A B => begin_database_history_element_local t P A B)
    (fun P A B c src h => begin_database_history_element_absorbs t P A B c src h)
    (fun c h => by unfold KFile.begin_database_history_element; exact when_enabled_off c h)
    (begin_database_history_element_lands t) (by decide) (by decide) rfl

theorem begin_initial_velocity_generation_plain :
    PlainBranch .initials (some .current_initial_velocity) (begin_initial_velocity_generation : Run (Ctx F) Unit) :=
  PlainBranch.begin (fun P A B => begin_initial_velocity_generation_local P A B)
    (fun P A B c src h => begin_initial_velocity_generation_absorbs P A B c src h)
    (fun c h => by unfold KFile.begin_initial_velocity_generation; exact when_enabled_off c h)
    (begin_initial_velocity_generation_lands) (by decide) (by decide) rfl

theorem begin_initial_velocity_plain (u : Str) :
    PlainBranch .initials (some .current_initial_velocity) (begin_initial_velocity u : Run (Ctx F) Unit) :=
  PlainBranch.begin (fun P A B => begin_initial_velocity_local u P A B)
    (fun P A B c src h => begin_initial_velocity_absorbs u P A B c src h)
    (fun c h => by unfold KFile.begin_initial_velocity; exact when_enabled_off c h)
    (begin_initial_velocity_lands u) (by decide) (by decide) rfl

theorem begin_constrained_nodal_rigid_body_plain (u : Str) :
    PlainBranch .constraineds (some .current_constrained_nodal_rigid_body) (begin_constrained_nodal_rigid_body u : Run (Ctx F) Unit) :=
  PlainBranch.begin (fun P A B => begin_constrained_nodal_rigid_body_local u P A B)
    (fun P A B c src h => begin_constrained_nodal_rigid_body_absorbs u P A B c src h)
    (fun c h => by unfold KFile.begin_constrained_nodal_rigid_body; exact when_enabled_off c h)
    (begin_constrained_nodal_rigid_body_lands u) (by decide) (by decide) rfl

theorem begin_constrained_extra_nodes_plain (u : Str) :
    PlainBranch .constraineds (some .current_constrained_extra_nodes) (begin_constrained_extra_nodes u : Run (Ctx F) Unit) :=
  PlainBranch.begin (fun P A B => begin_constrained_extra_nodes_local u P A B)
    (fun P A B c src h => begin_constrained_extra_nodes_absorbs u P A B c src h)
    (fun c h => by unfold KFile.begin_constrained_extra_nodes; exact when_enabled_off c h)
    (begin_constrained_extra_nodes_lands u) (by decide) (by decide) rfl

theorem begin_constrained_joint_plain (u : Str) :
    PlainBranch .constraineds (some .current_constrained_joint) (begin_constrained_joint u : Run (Ctx F) Unit) :=
  PlainBranch.begin (fun P A B => begin_constrained_joint_local u P A B)
    (fun P A B c src h => begin_constrained_joint_absorbs u P A B c src h)
    (fun c h => by unfold KFile.begin_constrained_joint; exact when_enabled_off c h)
    (begin_constrained_joint_lands u) (by decide) (by decide) rfl

theorem begin_constrained_spotweld_plain :
    PlainBranch .constraineds (some .current_constrained_spotweld) (begin_constrained_spotweld : Run (Ctx F) Unit) :=
  PlainBranch.begin (fun P A B => begin_constrained_spotweld_local P A B)
    (fun P A B c src h => begin_constrained_spotweld_absorbs P A B c src h)
    (fun c h => by unfold KFile.begin_constrained_spotweld; exact when_enabled_off c h)
    (begin_constrained_spotweld_lands) (by decide) (by decide) rfl

theorem KeywordShape.shape_ite {u : Str} {p : Prop} [Decidable p] {a b : Run (Ctx F) Unit}
    (ha : p → KeywordShape u a) (hb : ¬p → KeywordShape u b) :
    KeywordShape u (if p then a else b) := by
  split
  · exact ha (by assumption)
  · exact hb (by assumption)

theorem KeywordShape.shape_plain {u : Str} {fam : Family} {g : Option Member} {m : Run (Ctx F) Unit}
    (h : PlainBranch fam g m) : KeywordShape u m :=
  Or.inr (Or.inr (Or.inr (Or.inr ⟨fam, g, h⟩)))

theorem KeywordShape.shape_set (u : Str) (ty : SetType) (h : set_keyword_type u = some ty) :
    KeywordShape u (begin_set u ty (header_state_of ty) : Run (Ctx F) Unit) :=
  Or.inl ⟨ty, h, rfl⟩

theorem KeywordShape.shape_material (u : Str) (h : found_at_0 u "*MAT_" = true) :
    KeywordShape u (begin_material u : Run (Ctx F) Unit) :=
  Or.inr (Or.inl ⟨h, rfl⟩)

theorem KeywordShape.shape_curve (u : Str) (h : found_at_0 u "*DEFINE_CURVE" = true) :
    KeywordShape u (begin_curve u : Run (Ctx F) Unit) :=
  Or.inr (Or.inr (Or.inl ⟨h, rfl⟩))

theorem KeywordShape.shape_other (u : Str) : KeywordShape u (other_keyword : Run (Ctx F) Unit) :=
  Or.inr (Or.inr (Or.inr (Or.inl rfl)))

/-- Every keyword line is handled by one of the branches listed in `KeywordShape`. -/
theorem process_keyword_shape (u : Str) :
    KeywordShape u (process_keyword u : Run (Ctx F) Unit) := by
  unfold process_keyword
  repeat' first
    | with_reducible refine KeywordShape.shape_ite (fun _ => ?_) (fun _ => ?_)
    | (refine KeywordShape.shape_set _ SetType.NODE_LIST ?_; simp only [set_keyword_type, *, if_true, if_false, Bool.false_eq_true]; done)
    | (refine KeywordShape.shape_set _ SetType.PART_LIST ?_; simp only [set_keyword_type, *, if_true, if_false, Bool.false_eq_true]; done)
    | (refine KeywordShape.shape_set _ SetType.SEGMENT ?_; simp only [set_keyword_type, *, if_true, if_false, Bool.false_eq_true]; done)
    | (refine KeywordShape.shape_set _ SetType.SHELL ?_; simp only [set_keyword_type, *, if_true, if_false, Bool.false_eq_true]; done)
    | (refine KeywordShape.shape_set _ SetType.SOLID ?_; simp only [set_keyword_type, *, if_true, if_false, Bool.false_eq_true]; done)
    | ((with_reducible refine KeywordShape.shape_material _ ?_); assumption)
    | ((with_reducible refine KeywordShape.shape_curve _ ?_); assumption)
    | with_reducible exact KeywordShape.shape_other _
    | exact KeywordShape.shape_plain (PlainBranch.plain_select .nodes _ _ (fun _ => rfl) (by decide) (by decide))
    | exact KeywordShape.shape_plain (PlainBranch.plain_select .elements _ _ (fun _ => rfl) (by decide) (by decide))
    | exact KeywordShape.shape_plain PlainBranch.plain_part
    | exact KeywordShape.shape_plain (PlainBranch.plain_enabled_state .includes _ _ (fun _ => rfl) (by decide) (by decide))
    | exact KeywordShape.shape_plain (PlainBranch.plain_enabled_state .loads _ _ (fun _ => rfl) (by decide) (by decide))
    | exact KeywordShape.shape_plain (PlainBranch.plain_enabled_state .controls _ _ (fun _ => rfl) (by decide) (by decide))
    | exact KeywordShape.shape_plain PlainBranch.plain_control_termination
    | exact KeywordShape.shape_plain PlainBranch.plain_control_timestep
    | exact KeywordShape.shape_plain (begin_section_plain _ _ _ _ (by decide) (by decide))
    | exact KeywordShape.shape_plain (begin_contact_plain _)
    | exact KeywordShape.shape_plain (begin_boundary_spc_plain _)
    | exact KeywordShape.shape_plain (begin_boundary_motion_plain _)
    | exact KeywordShape.shape_plain (begin_load_node_plain _)
    | exact KeywordShape.shape_plain (begin_load_body_plain _)
    | exact KeywordShape.shape_plain (begin_database_binary_plain _)
    | exact KeywordShape.shape_plain (begin_database_ascii_plain _)
    | exact KeywordShape.shape_plain begin_database_history_node_plain
    | exact KeywordShape.shape_plain (begin_database_history_element_plain _)
    | exact KeywordShape.shape_plain begin_initial_velocity_generation_plain
    | exact KeywordShape.shape_plain (begin_initial_velocity_plain _)
    | exact KeywordShape.shape_plain (begin_constrained_nodal_rigid_body_plain _)
    | exact KeywordShape.shape_plain (begin_constrained_extra_nodes_plain _)
    | exact KeywordShape.shape_plain (begin_constrained_joint_plain _)
    | exact KeywordShape.shape_plain begin_constrained_spotweld_plain

/-- No keyword branch reads the parse state: a keyword line does the same from every
state. -/
theorem process_keyword_blind (u : Str) :
    StateBlind (process_keyword u : Run (Ctx F) Unit) := by
  unfold process_keyword begin_set begin_section begin_contact begin_material begin_curve
    begin_boundary_spc begin_boundary_motion begin_load_node begin_load_body
    begin_database_binary begin_database_ascii begin_database_history_node
    begin_database_history_element begin_initial_velocity_generation begin_initial_velocity
    begin_constrained_nodal_rigid_body begin_constrained_extra_nodes begin_constrained_joint
    begin_constrained_spotweld other_keyword push_current_set push_current_material
    push_current_curve
  repeat' first
    | with_reducible exact StateBlind.blind_set_state _
    | with_reducible exact StateBlind.blind_select_state _ _
    | with_reducible exact StateBlind.blind_then (StateBlind.blind_select_state _ _)
    | with_reducible refine StateBlind.blind_when_enabled ?_
    | with_reducible refine StateBlind.blind_bind ?_ (fun _ => ?_)
    | with_reducible apply StateBlind.blind_ite
    | with_reducible exact StateFree.free_pure _
    | with_reducible exact StateFree.free_eval _
    | ((with_reducible refine StateFree.free_update ?_); exact fun _ _ => rfl)
    | ((with_reducible refine StateFree.free_update_if ?_ ?_); exact fun _ _ => rfl; exact fun _ _ => rfl)
    | with_reducible refine StateFree.free_bind ?_ (fun _ => ?_)
    | with_reducible apply StateFree.free_ite
    | split

end KeywordShapes

/-! ## The commits of in-flight entities and the overlays -/

section CommitPoints

variable {F : Type} [DoubleModel F]

set_option linter.unusedSectionVars false
set_option linter.unusedVariables false

theorem graft_same (A : FamilySel) (B : MemberSel) (c : Ctx F) :
    graft ParseResult.init A B c c = c := by
  simp only [graft, graft_self, graft_result, ParseResult.init, List.nil_append, Bool.cond_self]

theorem commit_in_flight_eq (c : Ctx F) :
    commit_in_flight c = { commit_pending c with state := .IDLE } := by
  unfold commit_in_flight commit_pending commit_curve commit_material commit_set
  by_cases h1 : c.self.current_set_.sid > 0 ∧ c.self.current_set_.count > 0 <;>
  by_cases h2 : c.self.current_material_.mid > 0 <;>
  by_cases h3 : c.self.current_curve_.lcid > 0 <;>
  simp [h1, h2, h3]

theorem finish_parse_eq (n : Nat) (c : Ctx F) :
    (finish_parse n c).2.result
        = (commit_pending c).result.finalized n c.self.build_index_
    ∧ (finish_parse n c).2.self = (commit_pending c).self := by
  unfold finish_parse commit_pending commit_curve commit_material commit_set
    ParseResult.finalized
  simp only [Run.bind_apply, Run.update]
  by_cases h1 : c.self.current_set_.sid > 0 ∧ c.self.current_set_.count > 0 <;>
  by_cases h2 : c.self.current_material_.mid > 0 <;>
  by_cases h3 : c.self.current_curve_.lcid > 0 <;>
  by_cases h4 : c.self.build_index_ = true <;>
  simp [h1, h2, h3, h4, ParseResult.build_indices]

theorem commit_set_graft (P : ParseResult F) (A : FamilySel) (B : MemberSel) (c src : Ctx F)
    (hA : A.sets = true)
    (h : B.current_set = true
      ∨ (¬ (c.self.current_set_.sid > 0 ∧ c.self.current_set_.count > 0)
          ∧ ¬ (src.self.current_set_.sid > 0 ∧ src.self.current_set_.count > 0))) :
    commit_set (graft P A B c src) = graft P A B (commit_set c) src := by
  rcases h with hB | ⟨hc, hs⟩
  · have e : (graft P A B c src).self.current_set_ = c.self.current_set_ := by
      show (bif B.current_set then _ else _) = _
      rw [hB]
      rfl
    unfold commit_set
    simp only [e]
    by_cases hg : c.self.current_set_.sid > 0 ∧ c.self.current_set_.count > 0
    · rw [if_pos hg, if_pos hg]
      simp only [graft, graft_self, graft_result, hA, hB, cond_true, List.append_assoc]
    · rw [if_neg hg, if_neg hg]
  · have hg : ¬ ((graft P A B c src).self.current_set_.sid > 0
        ∧ (graft P A B c src).self.current_set_.count > 0) := by
      show ¬ ((bif B.current_set then c.self.current_set_ else src.self.current_set_).sid > 0
        ∧ (bif B.current_set then c.self.current_set_ else src.self.current_set_).count > 0)
      cases B.current_set
      · exact hs
      · exact hc
    unfold commit_set
    rw [if_neg hg, if_neg hc]

theorem commit_material_graft (P : ParseResult F) (A : FamilySel) (B : MemberSel)
    (c src : Ctx F) (hA : A.materials = true)
    (h : B.current_material = true
      ∨ (¬ c.self.current_material_.mid > 0 ∧ ¬ src.self.current_material_.mid > 0)) :
    commit_material (graft P A B c src) = graft P A B (commit_material c) src := by
  rcases h with hB | ⟨hc, hs⟩
  · have e : (graft P A B c src).self.current_material_ = c.self.current_material_ := by
      show (bif B.current_material then _ else _) = _
      rw [hB]
      rfl
    unfold commit_material
    simp only [e]
    by_cases hg : c.self.current_material_.mid > 0
    · rw [if_pos hg, if_pos hg]
      simp only [graft, graft_self, graft_result, hA, hB, cond_true, List.append_assoc]
    · rw [if_neg hg, if_neg hg]
  · have hg : ¬ (graft P A B c src).self.current_material_.mid > 0 := by
      show ¬ (bif B.current_material then c.self.current_material_
        else src.self.current_material_).mid > 0
      cases B.current_material
      · exact hs
      · exact hc
    unfold commit_material
    rw [if_neg hg, if_neg hc]

theorem commit_curve_graft (P : ParseResult F) (A : FamilySel) (B : MemberSel)
    (c src : Ctx F) (hA : A.curves = true)
    (h : B.current_curve = true
      ∨ (¬ c.self.current_curve_.lcid > 0 ∧ ¬ src.self.current_curve_.lcid > 0)) :
    commit_curve (graft P A B c src) = graft P A B (commit_curve c) src := by
  rcases h with hB | ⟨hc, hs⟩
  · have e : (graft P A B c src).self.current_curve_ = c.self.current_curve_ := by
      show (bif B.current_curve then _ else _) = _
      rw [hB]
      rfl
    unfold commit_curve
    simp only [e]
    by_cases hg : c.self.current_curve_.lcid > 0
    · rw [if_pos hg, if_pos hg]
      simp only [graft, graft_self, graft_result, hA, hB, cond_true, List.append_assoc]
    · rw [if_neg hg, if_neg hg]
  · have hg : ¬ (graft P A B c src).self.current_curve_.lcid > 0 := by
      show ¬ (bif B.current_curve then c.self.current_curve_
        else src.self.current_curve_).lcid > 0
      cases B.current_curve
      · exact hs
      · exact hc
    unfold commit_curve
    rw [if_neg hg, if_neg hc]

theorem commit_set_keeps (c : Ctx F) :
    (commit_set c).self.current_material_ = c.self.current_material_
    ∧ (commit_set c).self.current_curve_ = c.self.current_curve_
    ∧ (commit_set c).state = c.state := by
  unfold commit_set
  split <;> exact ⟨rfl, rfl, rfl⟩

theorem commit_material_keeps (c : Ctx F) :
    (commit_material c).self.current_set_ = c.self.current_set_
    ∧ (commit_material c).self.current_curve_ = c.self.current_curve_
    ∧ (commit_material c).state = c.state := by
  unfold commit_material
  split <;> exact ⟨rfl, rfl, rfl⟩

theorem commit_curve_keeps (c : Ctx F) :
    (commit_curve c).self.current_set_ = c.self.current_set_
    ∧ (commit_curve c).self.current_material_ = c.self.current_material_
    ∧ (commit_curve c).state = c.state := by
  unfold commit_curve
  split <;> exact ⟨rfl, rfl, rfl⟩

theorem commit_set_idle (c : Ctx F) :
    ¬ ((commit_set c).self.current_set_.sid > 0 ∧ (commit_set c).self.current_set_.count > 0) := by
  unfold commit_set
  split
  · intro h
    have h1 : ¬ ((0 : Int) > 0) := by decide
    exact h1 h.1
  · assumption

theorem commit_material_idle (c : Ctx F) : ¬ (commit_material c).self.current_material_.mid > 0 := by
  unfold commit_material
  split
  · show ¬ ((0 : Int) > 0)
    decide
  · assumption

theorem commit_curve_idle (c : Ctx F) : ¬ (commit_curve c).self.current_curve_.lcid > 0 := by
  unfold commit_curve
  split
  · show ¬ ((0 : Int) > 0)
    decide
  · assumption

/-- After the three commits nothing is pending. -/
theorem commit_pending_idle (c : Ctx F) : (commit_pending c).nothing_pending := by
  unfold commit_pending Ctx.nothing_pending
  refine ⟨?_, ?_, commit_curve_idle _⟩
  · rw [(commit_curve_keeps _).1, (commit_material_keeps _).1]
    exact commit_set_idle c
  · rw [(commit_curve_keeps _).2.1]
    exact commit_material_idle _

/-- The three commits commute with every overlay that selects the three families and
in which the in-flight set, material and curve are settled. -/
theorem commit_pending_graft (P : ParseResult F) (A : FamilySel) (B : MemberSel)
    (c src : Ctx F) (hA : A.sets = true ∧ A.materials = true ∧ A.curves = true)
    (h : B.settled c src) :
    commit_pending (graft P A B c src) = graft P A B (commit_pending c) src := by
  obtain ⟨h1, h2, h3⟩ := h
  unfold commit_pending
  rw [commit_set_graft P A B c src hA.1 h1,
    commit_material_graft P A B (commit_set c) src hA.2.1
      (by rw [(commit_set_keeps c).1]; exact h2),
    commit_curve_graft P A B (commit_material (commit_set c)) src hA.2.2
      (by rw [(commit_material_keeps _).2.1, (commit_set_keeps c).2.1]; exact h3)]

theorem settled_commit_pending (B : MemberSel) (c src : Ctx F) (h : B.settled c src) :
    B.settled (commit_pending c) src := by
  obtain ⟨h1, h2, h3⟩ := h
  obtain ⟨i1, i2, i3⟩ := commit_pending_idle c
  refine ⟨?_, ?_, ?_⟩
  · rcases h1 with h | h
    · exact Or.inl h
    · exact Or.inr ⟨i1, h.2⟩
  · rcases h2 with h | h
    · exact Or.inl h
    · exact Or.inr ⟨i2, h.2⟩
  · rcases h3 with h | h
    · exact Or.inl h
    · exact Or.inr ⟨i3, h.2⟩

end CommitPoints

/-! ## A keyword line on an overlay that selects every family

When the overlay takes from `c` the member the current state reads, and the in-flight
set, material and curve are settled, a keyword line does on the overlay what it does
on `c`; the branches that reset a member add it to the members taken from `c`. -/

section SyncKeyword

variable {F : Type} [DoubleModel F]

set_option linter.unusedSectionVars false
set_option linter.unusedVariables false

theorem MemberSel.add_opt_pendable (B : MemberSel) (g : Option Member)
    (hg : g ≠ some .current_set ∧ g ≠ some .current_material ∧ g ≠ some .current_curve) :
    (B.add_opt g).current_set = B.current_set
    ∧ (B.add_opt g).current_material = B.current_material
    ∧ (B.add_opt g).current_curve = B.current_curve := by
  cases g with
  | none => exact ⟨rfl, rfl, rfl⟩
  | some k =>
    cases k <;> first
      | exact ⟨rfl, rfl, rfl⟩
      | exact absurd rfl hg.1
      | exact absurd rfl hg.2.1
      | exact absurd rfl hg.2.2

theorem MemberSel.empty_add_opt_pendable (g : Option Member)
    (hg : g ≠ some .current_set ∧ g ≠ some .current_material ∧ g ≠ some .current_curve) :
    (MemberSel.empty.add_opt g).current_set = false
    ∧ (MemberSel.empty.add_opt g).current_material = false
    ∧ (MemberSel.empty.add_opt g).current_curve = false :=
  MemberSel.add_opt_pendable MemberSel.empty g hg

/-- A plain branch leaves the in-flight set, material and curve as they are. -/
theorem PlainBranch.keeps {fam : Family} {g : Option Member} {m : Run (Ctx F) Unit}
    (hb : PlainBranch fam g m) (c : Ctx F) :
    (m c).2.self.current_set_ = c.self.current_set_
    ∧ (m c).2.self.current_material_ = c.self.current_material_
    ∧ (m c).2.self.current_curve_ = c.self.current_curve_ := by
  have h := hb.commutes ParseResult.init FamilySel.empty MemberSel.empty c c
  rw [graft_same] at h
  have h2 : (m c).2
      = graft ParseResult.init (FamilySel.empty.add fam) (MemberSel.empty.add_opt g) (m c).2 c :=
    congrArg Prod.snd h
  obtain ⟨e1, e2, e3⟩ := MemberSel.empty_add_opt_pendable g hb.member_plain
  refine ⟨?_, ?_, ?_⟩
  · rw [h2]
    show (bif (MemberSel.empty.add_opt g).current_set then _ else _) = _
    rw [e1]
    rfl
  · rw [h2]
    show (bif (MemberSel.empty.add_opt g).current_material then _ else _) = _
    rw [e2]
    rfl
  · rw [h2]
    show (bif (MemberSel.empty.add_opt g).current_curve then _ else _) = _
    rw [e3]
    rfl

theorem settled_transfer {B B2 : MemberSel} {c c2 src : Ctx F} (h : B.settled c src)
    (e1 : B2.current_set = true
      ∨ (B2.current_set = B.current_set ∧ c2.self.current_set_ = c.self.current_set_))
    (e2 : B2.current_material = true
      ∨ (B2.current_material = B.current_material
          ∧ c2.self.current_material_ = c.self.current_material_))
    (e3 : B2.current_curve = true
      ∨ (B2.current_curve = B.current_curve ∧ c2.self.current_curve_ = c.self.current_curve_)) :
    B2.settled c2 src := by
  refine ⟨?_, ?_, ?_⟩
  · rcases e1 with t | ⟨eb, ec⟩
    · exact Or.inl t
    · rw [eb, ec]
      exact h.1
  · rcases e2 with t | ⟨eb, ec⟩
    · exact Or.inl t
    · rw [eb, ec]
      exact h.2.1
  · rcases e3 with t | ⟨eb, ec⟩
    · exact Or.inl t
    · rw [eb, ec]
      exact h.2.2

theorem graft_all_enabled (P : ParseResult F) (B : MemberSel) (fam : Family) (c src : Ctx F) :
    (graft P FamilySel.all B c src).self.enabled fam = c.self.enabled fam := by
  cases fam <;> rfl

theorem idled_graft (P : ParseResult F) (A : FamilySel) (B : MemberSel) (g : Option Member)
    (c src : Ctx F) :
    ∃ B2, (graft P A B c src).idled g = graft P A B2 (c.idled g) src
      ∧ B2.current_set = B.current_set ∧ B2.current_material = B.current_material
      ∧ B2.current_curve = B.current_curve := by
  by_cases hg : g = some .part_name
  · subst hg
    refine ⟨B.add .part_name, ?_, rfl, rfl, rfl⟩
    unfold Ctx.idled
    simp only [if_true]
    rfl
  · refine ⟨B, ?_, rfl, rfl, rfl⟩
    rw [Ctx.idled_of_ne _ hg, Ctx.idled_of_ne _ hg]
    rfl

theorem covers_of_akin {B : MemberSel} {fam : Option Family} {g : Option Member}
    {st : ParseState} (h : st.akin fam g) (hg : ∀ k, g = some k → B.has k = true) :
    B.covers st := by
  intro k hk
  rcases h with h | ⟨_, h⟩
  · rw [h] at hk
    cases hk
  · exact hg k (h.symm.trans hk)

/-- A plain keyword branch on an overlay that selects every family. -/
theorem PlainBranch.sync {fam : Family} {g : Option Member} {m : Run (Ctx F) Unit}
    (hb : PlainBranch fam g m) (P : ParseResult F) (B : MemberSel) (c src : Ctx F)
    (hs : B.settled c src) (hok : (m c).1 = .ok ()) :
    ∃ B2, m (graft P FamilySel.all B c src) = ((m c).1, graft P FamilySel.all B2 (m c).2 src)
      ∧ B2.covers (m c).2.state ∧ B2.settled (m c).2 src := by
  obtain ⟨k1, k2, k3⟩ := hb.keeps c
  by_cases hf : c.self.enabled fam = true
  · refine ⟨B.add_opt g, ?_, ?_, ?_⟩
    · have h := hb.absorbs P FamilySel.all B c src hf
      rw [FamilySel.add_all] at h
      exact h
    · refine covers_of_akin (hb.lands c () hok) ?_
      intro k hk
      subst hk
      exact MemberSel.member_has_add B k
    · obtain ⟨e1, e2, e3⟩ := MemberSel.add_opt_pendable B g hb.member_plain
      exact settled_transfer hs (Or.inr ⟨e1, k1⟩) (Or.inr ⟨e2, k2⟩) (Or.inr ⟨e3, k3⟩)
  · have hf2 : c.self.enabled fam = false := by
      cases h : c.self.enabled fam
      · rfl
      · exact absurd h hf
    have hf3 : (graft P FamilySel.all B c src).self.enabled fam = false := by
      rw [graft_all_enabled]
      exact hf2
    obtain ⟨B2, e, e1, e2, e3⟩ := idled_graft P FamilySel.all B g c src
    refine ⟨B2, ?_, ?_, ?_⟩
    · rw [hb.disabled _ hf3, hb.disabled _ hf2, e]
    · rw [hb.disabled _ hf2]
      exact MemberSel.covers_idle B2
    · rw [hb.disabled _ hf2]
      exact settled_transfer hs (Or.inr ⟨e1, rfl⟩) (Or.inr ⟨e2, rfl⟩) (Or.inr ⟨e3, rfl⟩)

theorem header_state_owner (ty : SetType) :
    (header_state_of ty).owner = some .current_set := by
  cases ty <;> rfl

/-- The `*SET_...` branches on an overlay that selects every family. -/
theorem begin_set_sync (u : Str) (ty : SetType) (P : ParseResult F) (B : MemberSel)
    (c src : Ctx F) (hs : B.settled c src) :
    ∃ B2, begin_set u ty (header_state_of ty) (graft P FamilySel.all B c src)
        = ((begin_set u ty (header_state_of ty) c).1,
            graft P FamilySel.all B2 (begin_set u ty (header_state_of ty) c).2 src)
      ∧ B2.covers (begin_set u ty (header_state_of ty) c).2.state
      ∧ B2.settled (begin_set u ty (header_state_of ty) c).2 src := by
  have e1 := begin_set_eq u ty (header_state_of ty) c
  have e2 := begin_set_eq u ty (header_state_of ty) (graft P FamilySel.all B c src)
  rw [e2, e1]
  by_cases hf : c.self.parse_sets_ = true
  · have hf2 : (graft P FamilySel.all B c src).self.parse_sets_ = true := hf
    rw [if_pos hf, if_pos hf2]
    have e : (graft P FamilySel.all B c src).self.current_set_.if_committable
        = c.self.current_set_.if_committable := by
      rcases hs.1 with hB | ⟨h1, h2⟩
      · show (bif B.current_set then c.self.current_set_
          else src.self.current_set_).if_committable = _
        rw [hB]
        rfl
      · have h3 : (graft P FamilySel.all B c src).self.current_set_.if_committable = [] := by
          show (bif B.current_set then c.self.current_set_
            else src.self.current_set_).if_committable = []
          cases B.current_set
          · exact if_neg h2
          · exact if_neg h1
        rw [h3]
        exact (if_neg h1).symm
    refine ⟨B.add .current_set, ?_, ?_, ?_⟩
    · simp only [e]
      simp only [graft, graft_self, graft_result, MemberSel.add, FamilySel.all, cond_true,
        List.append_assoc]
    · intro g hg
      have h4 : (if found u "_TITLE" = true then ParseState.IN_SET_TITLE
          else header_state_of ty).owner = some .current_set := by
        split
        · rfl
        · exact header_state_owner ty
      have h5 : some Member.current_set = some g := h4.symm.trans hg
      cases h5
      rfl
    · exact ⟨Or.inl rfl, hs.2.1, hs.2.2⟩
  · rw [if_neg hf, if_neg (show ¬ (graft P FamilySel.all B c src).self.parse_sets_ = true from hf)]
    exact ⟨B, rfl, MemberSel.covers_idle B, hs⟩

/-- The `*MAT_` branch on an overlay that selects every family. -/
theorem begin_material_sync (u : Str) (h : found_at_0 u "*MAT_" = true) (P : ParseResult F)
    (B : MemberSel) (c src : Ctx F) (hs : B.settled c src) :
    ∃ B2, begin_material u (graft P FamilySel.all B c src)
        = ((begin_material u c).1, graft P FamilySel.all B2 (begin_material u c).2 src)
      ∧ B2.covers (begin_material u c).2.state
      ∧ B2.settled (begin_material u c).2 src := by
  have e1 := begin_material_eq u h c
  have e2 := begin_material_eq u h (graft P FamilySel.all B c src)
  rw [e2, e1]
  by_cases hf : c.self.parse_materials_ = true
  · have hf2 : (graft P FamilySel.all B c src).self.parse_materials_ = true := hf
    rw [if_pos hf, if_pos hf2]
    have e : (if (graft P FamilySel.all B c src).self.current_material_.mid > 0
          then [(graft P FamilySel.all B c src).self.current_material_] else [])
        = (if c.self.current_material_.mid > 0 then [c.self.current_material_] else []) := by
      rcases hs.2.1 with hB | ⟨h1, h2⟩
      · have e3 : (graft P FamilySel.all B c src).self.current_material_
            = c.self.current_material_ := by
          show (bif B.current_material then _ else _) = _
          rw [hB]
          rfl
        rw [e3]
      · have h3 : ¬ (graft P FamilySel.all B c src).self.current_material_.mid > 0 := by
          show ¬ (bif B.current_material then c.self.current_material_
            else src.self.current_material_).mid > 0
          cases B.current_material
          · exact h2
          · exact h1
        rw [if_neg h3, if_neg h1]
    refine ⟨B.add .current_material, ?_, ?_, ?_⟩
    · simp only [e]
      simp only [graft, graft_self, graft_result, MemberSel.add, FamilySel.all, cond_true,
        List.append_assoc]
    · intro g hg
      have h4 : (if material_has_title u = true then ParseState.IN_MATERIAL_TITLE
          else ParseState.IN_MATERIAL_DATA).owner = some .current_material := by
        split <;> rfl
      have h5 : some Member.current_material = some g := h4.symm.trans hg
      cases h5
      rfl
    · exact ⟨hs.1, Or.inl rfl, hs.2.2⟩
  · rw [if_neg hf,
      if_neg (show ¬ (graft P FamilySel.all B c src).self.parse_materials_ = true from hf)]
    exact ⟨B, rfl, MemberSel.covers_idle B, hs⟩

/-- The `*DEFINE_CURVE` branch on an overlay that selects every family. -/
theorem begin_curve_sync (u : Str) (P : ParseResult F) (B : MemberSel) (c src : Ctx F)
    (hs : B.settled c src) :
    ∃ B2, begin_curve u (graft P FamilySel.all B c src)
        = ((begin_curve u c).1, graft P FamilySel.all B2 (begin_curve u c).2 src)
      ∧ B2.covers (begin_curve u c).2.state
      ∧ B2.settled (begin_curve u c).2 src := by
  have e1 := begin_curve_eq u c
  have e2 := begin_curve_eq u (graft P FamilySel.all B c src)
  rw [e2, e1]
  by_cases hf : c.self.parse_curves_ = true
  · have hf2 : (graft P FamilySel.all B c src).self.parse_curves_ = true := hf
    rw [if_pos hf, if_pos hf2]
    have e : (graft P FamilySel.all B c src).self.current_curve_.if_keyed
        = c.self.current_curve_.if_keyed := by
      rcases hs.2.2 with hB | ⟨h1, h2⟩
      · show (bif B.current_curve then c.self.current_curve_
          else src.self.current_curve_).if_keyed = _
        rw [hB]
        rfl
      · have h3 : (graft P FamilySel.all B c src).self.current_curve_.if_keyed = [] := by
          show (bif B.current_curve then c.self.current_curve_
            else src.self.current_curve_).if_keyed = []
          cases B.current_curve
          · exact if_neg h2
          · exact if_neg h1
        rw [h3]
        exact (if_neg h1).symm
    refine ⟨B.add .current_curve, ?_, ?_, ?_⟩
    · simp only [e]
      simp only [graft, graft_self, graft_result, MemberSel.add, FamilySel.all, cond_true,
        List.append_assoc]
    · intro g hg
      have h4 : (if found u "_TITLE" = true then ParseState.IN_CURVE_TITLE
          else ParseState.IN_CURVE_HEADER).owner = some .current_curve := by
        split <;> rfl
      have h5 : some Member.current_curve = some g := h4.symm.trans hg
      cases h5
      rfl
    · exact ⟨hs.1, hs.2.1, Or.inl rfl⟩
  · rw [if_neg hf,
      if_neg (show ¬ (graft P FamilySel.all B c src).self.parse_curves_ = true from hf)]
    exact ⟨B, rfl, MemberSel.covers_idle B, hs⟩

/-- The final keyword branch on an overlay that selects every family. -/
theorem other_keyword_sync (P : ParseResult F) (B : MemberSel) (c src : Ctx F)
    (hs : B.settled c src) :
    other_keyword (graft P FamilySel.all B c src)
        = ((other_keyword c).1, graft P FamilySel.all B (other_keyword c).2 src)
      ∧ B.covers (other_keyword c).2.state
      ∧ B.settled (other_keyword c).2 src := by
  rw [other_keyword_eq, other_keyword_eq, commit_in_flight_eq, commit_in_flight_eq,
    commit_pending_graft P FamilySel.all B c src ⟨rfl, rfl, rfl⟩ hs]
  exact ⟨rfl, MemberSel.covers_idle B, settled_commit_pending B c src hs⟩

/-- Every keyword line on an overlay that selects every family. -/
theorem process_keyword_sync (u : Str) (P : ParseResult F) (B : MemberSel) (c src : Ctx F)
    (hs : B.settled c src) :
    ∃ B2, process_keyword u (graft P FamilySel.all B c src)
        = ((process_keyword u c).1, graft P FamilySel.all B2 (process_keyword u c).2 src)
      ∧ B2.covers (process_keyword u c).2.state
      ∧ B2.settled (process_keyword u c).2 src := by
  have hok : (process_keyword u c).1 = .ok () := by
    obtain ⟨⟨a, ha⟩, _⟩ := process_keyword_quiet u c
    exact ha
  rcases process_keyword_shape (F := F) u with ⟨ty, _, e⟩ | ⟨h, e⟩ | ⟨_, e⟩ | e | ⟨fam, g, hb⟩
  · rw [e]
    exact begin_set_sync u ty P B c src hs
  · rw [e]
    exact begin_material_sync u h P B c src hs
  · rw [e]
    exact begin_curve_sync u P B c src hs
  · rw [e]
    exact ⟨B, other_keyword_sync P B c src hs⟩
  · exact hb.sync P B c src hs hok

end SyncKeyword

/-! ## What no line changes

No branch of `process_line` writes an enable flag, `build_index_`, an index,
`total_lines` or the errors. -/

section Fixed

variable {F : Type} [DoubleModel F]

set_option linter.unusedTactic false
set_option linter.unreachableTactic false
set_option linter.unusedVariables false
set_option linter.unusedSectionVars false

theorem case_IN_NODE_fixed (line : Str) :
    Frame (fixed_view : Ctx F → _) (fun _ => True)
      (case_IN_NODE line : Run (Ctx F) Unit) := by
  unfold KFile.case_IN_NODE
  repeat' first
    | ((with_reducible refine Frame.frame_assign ?_); exact fun _ _ => ⟨rfl, Or.inl rfl⟩)
    | ((with_reducible refine Frame.frame_update ?_); exact fun _ => ⟨rfl, Or.inl rfl⟩)
    | with_reducible refine Frame.frame_bind ?_ (fun _ => ?_)
    | ((with_reducible refine Frame.frame_set_state _ ?_ ?_); exact fun _ => rfl; trivial)
    | with_reducible refine Frame.frame_try_catch ?_ (fun _ => ?_)
    | ((with_reducible refine Frame.frame_warn _ _ ?_); exact fun _ _ => rfl)
    | ((with_reducible refine Frame.frame_when_enabled ?_ ?_ ?_); exact fun _ => rfl; trivial)
    | with_reducible exact Frame.frame_pure _
    | with_reducible exact Frame.frame_read
    | with_reducible exact Frame.frame_eval _
    | ((with_reducible refine Frame.frame_zoom ?_); exact fun _ _ => ⟨rfl, Or.inl rfl⟩)
    | ((with_reducible refine Frame.frame_id_list_loop (F := F) _ ?_ _); exact fun _ _ => ⟨rfl, Or.inl rfl⟩)
    | ((with_reducible refine Frame.frame_select_state _ _ ?_ ?_ ?_); exact fun _ _ => rfl; trivial; trivial)
    | ((with_reducible refine Frame.frame_set_state_ite ?_ ?_ ?_); exact fun _ _ => rfl; trivial; trivial)
    | ((with_reducible refine Frame.frame_update_if ?_); exact fun _ => ⟨rfl, Or.inl rfl⟩)
    | with_reducible apply Frame.frame_ite
    | unfold KFile.warn
    | split

theorem case_IN_PART_NAME_fixed (line : Str) :
    Frame (fixed_view : Ctx F → _) (fun _ => True)
      (case_IN_PART_NAME line : Run (Ctx F) Unit) := by
  unfold KFile.case_IN_PART_NAME
  repeat' first
    | ((with_reducible refine Frame.frame_assign ?_); exact fun _ _ => ⟨rfl, Or.inl rfl⟩)
    | ((with_reducible refine Frame.frame_update ?_); exact fun _ => ⟨rfl, Or.inl rfl⟩)
    | with_reducible refine Frame.frame_bind ?_ (fun _ => ?_)
    | ((with_reducible refine Frame.frame_set_state _ ?_ ?_); exact fun _ => rfl; trivial)
    | with_reducible refine Frame.frame_try_catch ?_ (fun _ => ?_)
    | ((with_reducible refine Frame.frame_warn _ _ ?_); exact fun _ _ => rfl)
    | ((with_reducible refine Frame.frame_when_enabled ?_ ?_ ?_); exact fun _ => rfl; trivial)
    | with_reducible exact Frame.frame_pure _
    | with_reducible exact Frame.frame_read
    | with_reducible exact Frame.frame_eval _
    | ((with_reducible refine Frame.frame_zoom ?_); exact fun _ _ => ⟨rfl, Or.inl rfl⟩)
    | ((with_reducible refine Frame.frame_id_list_loop (F := F) _ ?_ _); exact fun _ _ => ⟨rfl, Or.inl rfl⟩)
    | ((with_reducible refine Frame.frame_select_state _ _ ?_ ?_ ?_); exact fun _ _ => rfl; trivial; trivial)
    | ((with_reducible refine Frame.frame_set_state_ite ?_ ?_ ?_); exact fun _ _ => rfl; trivial; trivial)
    | ((with_reducible refine Frame.frame_update_if ?_); exact fun _ => ⟨rfl, Or.inl rfl⟩)
    | with_reducible apply Frame.frame_ite
    | unfold KFile.warn
    | split

theorem case_IN_PART_DATA_fixed (line : Str) :
    Frame (fixed_view : Ctx F → _) (fun _ => True)
      (case_IN_PART_DATA line : Run (Ctx F) Unit) := by
  unfold KFile.case_IN_PART_DATA
  repeat' first
    | ((with_reducible refine Frame.frame_assign ?_); exact fun _ _ => ⟨rfl, Or.inl rfl⟩)
    | ((with_reducible refine Frame.frame_update ?_); exact fun _ => ⟨rfl, Or.inl rfl⟩)
    | with_reducible refine Frame.frame_bind ?_ (fun _ => ?_)
    | ((with_reducible refine Frame.frame_set_state _ ?_ ?_); exact fun _ => rfl; trivial)
    | with_reducible refine Frame.frame_try_catch ?_ (fun _ => ?_)
    | ((with_reducible refine Frame.frame_warn _ _ ?_); exact fun _ _ => rfl)
    | ((with_reducible refine Frame.frame_when_enabled ?_ ?_ ?_); exact fun _ => rfl; trivial)
    | with_reducible exact Frame.frame_pure _
    | with_reducible exact Frame.frame_read
    | with_reducible exact Frame.frame_eval _
    | ((with_reducible refine Frame.frame_zoom ?_); exact fun _ _ => ⟨rfl, Or.inl rfl⟩)
    | ((with_reducible refine Frame.frame_id_list_loop (F := F) _ ?_ _); exact fun _ _ => ⟨rfl, Or.inl rfl⟩)
    | ((with_reducible refine Frame.frame_select_state _ _ ?_ ?_ ?_); exact fun _ _ => rfl; trivial; trivial)
    | ((with_reducible refine Frame.frame_set_state_ite ?_ ?_ ?_); exact fun _ _ => rfl; trivial; trivial)
    | ((with_reducible refine Frame.frame_update_if ?_); exact fun _ => ⟨rfl, Or.inl rfl⟩)
    | with_reducible apply Frame.frame_ite
    | unfold KFile.warn
    | split

theorem case_IN_ELEMENT_fixed (line : Str) (type : ElementType) :
    Frame (fixed_view : Ctx F → _) (fun _ => True)
      (case_IN_ELEMENT line type : Run (Ctx F) Unit) := by
  unfold KFile.case_IN_ELEMENT
  repeat' first
    | ((with_reducible refine Frame.frame_assign ?_); exact fun _ _ => ⟨rfl, Or.inl rfl⟩)
    | ((with_reducible refine Frame.frame_update ?_); exact fun _ => ⟨rfl, Or.inl rfl⟩)
    | with_reducible refine Frame.frame_bind ?_ (fun _ => ?_)
    | ((with_reducible refine Frame.frame_set_state _ ?_ ?_); exact fun _ => rfl; trivial)
    | with_reducible refine Frame.frame_try_catch ?_ (fun _ => ?_)
    | ((with_reducible refine Frame.frame_warn _ _ ?_); exact fun _ _ => rfl)
    | ((with_reducible refine Frame.frame_when_enabled ?_ ?_ ?_); exact fun _ => rfl; trivial)
    | with_reducible exact Frame.frame_pure _
    | with_reducible exact Frame.frame_read
    | with_reducible exact Frame.frame_eval _
    | ((with_reducible refine Frame.frame_zoom ?_); exact fun _ _ => ⟨rfl, Or.inl rfl⟩)
    | ((with_reducible refine Frame.frame_id_list_loop (F := F) _ ?_ _); exact fun _ _ => ⟨rfl, Or.inl rfl⟩)
    | ((with_reducible refine Frame.frame_select_state _ _ ?_ ?_ ?_); exact fun _ _ => rfl; trivial; trivial)
    | ((with_reducible refine Frame.frame_set_state_ite ?_ ?_ ?_); exact fun _ _ => rfl; trivial; trivial)
    | ((with_reducible refine Frame.frame_update_if ?_); exact fun _ => ⟨rfl, Or.inl rfl⟩)
    | with_reducible apply Frame.frame_ite
    | unfold KFile.warn
    | split

theorem case_IN_SET_TITLE_fixed :
    Frame (fixed_view : Ctx F → _) (fun _ => True)
      (case_IN_SET_TITLE : Run (Ctx F) Unit) := by
  unfold KFile.case_IN_SET_TITLE
  repeat' first
    | ((with_reducible refine Frame.frame_assign ?_); exact fun _ _ => ⟨rfl, Or.inl rfl⟩)
    | ((with_reducible refine Frame.frame_update ?_); exact fun _ => ⟨rfl, Or.inl rfl⟩)
    | with_reducible refine Frame.frame_bind ?_ (fun _ => ?_)
    | ((with_reducible refine Frame.frame_set_state _ ?_ ?_); exact fun _ => rfl; trivial)
    | with_reducible refine Frame.frame_try_catch ?_ (fun _ => ?_)
    | ((with_reducible refine Frame.frame_warn _ _ ?_); exact fun _ _ => rfl)
    | ((with_reducible refine Frame.frame_when_enabled ?_ ?_ ?_); exact fun _ => rfl; trivial)
    | with_reducible exact Frame.frame_pure _
    | with_reducible exact Frame.frame_read
    | with_reducible exact Frame.frame_eval _
    | ((with_reducible refine Frame.frame_zoom ?_); exact fun _ _ => ⟨rfl, Or.inl rfl⟩)
    | ((with_reducible refine Frame.frame_id_list_loop (F := F) _ ?_ _); exact fun _ _ => ⟨rfl, Or.inl rfl⟩)
    | ((with_reducible refine Frame.frame_select_state _ _ ?_ ?_ ?_); exact fun _ _ => rfl; trivial; trivial)
    | ((with_reducible refine Frame.frame_set_state_ite ?_ ?_ ?_); exact fun _ _ => rfl; trivial; trivial)
    | ((with_reducible refine Frame.frame_update_if ?_); exact fun _ => ⟨rfl, Or.inl rfl⟩)
    | with_reducible apply Frame.frame_ite
    | unfold KFile.warn
    | split

theorem case_IN_SET_HEADER_fixed (line : Str) (type : SetType) (data : ParseState) :
    Frame (fixed_view : Ctx F → _) (fun _ => True)
      (case_IN_SET_HEADER line type data : Run (Ctx F) Unit) := by
  unfold KFile.case_IN_SET_HEADER
  repeat' first
    | ((with_reducible refine Frame.frame_assign ?_); exact fun _ _ => ⟨rfl, Or.inl rfl⟩)
    | ((with_reducible refine Frame.frame_update ?_); exact fun _ => ⟨rfl, Or.inl rfl⟩)
    | with_reducible refine Frame.frame_bind ?_ (fun _ => ?_)
    | ((with_reducible refine Frame.frame_set_state _ ?_ ?_); exact fun _ => rfl; trivial)
    | with_reducible refine Frame.frame_try_catch ?_ (fun _ => ?_)
    | ((with_reducible refine Frame.frame_warn _ _ ?_); exact fun _ _ => rfl)
    | ((with_reducible refine Frame.frame_when_enabled ?_ ?_ ?_); exact fun _ => rfl; trivial)
    | with_reducible exact Frame.frame_pure _
    | with_reducible exact Frame.frame_read
    | with_reducible exact Frame.frame_eval _
    | ((with_reducible refine Frame.frame_zoom ?_); exact fun _ _ => ⟨rfl, Or.inl rfl⟩)
    | ((with_reducible refine Frame.frame_id_list_loop (F := F) _ ?_ _); exact fun _ _ => ⟨rfl, Or.inl rfl⟩)
    | ((with_reducible refine Frame.frame_select_state _ _ ?_ ?_ ?_); exact fun _ _ => rfl; trivial; trivial)
    | ((with_reducible refine Frame.frame_set_state_ite ?_ ?_ ?_); exact fun _ _ => rfl; trivial; trivial)
    | ((with_reducible refine Frame.frame_update_if ?_); exact fun _ => ⟨rfl, Or.inl rfl⟩)
    | with_reducible apply Frame.frame_ite
    | unfold KFile.warn
    | split

theorem case_IN_SET_DATA_fixed (line : Str) :
    Frame (fixed_view : Ctx F → _) (fun _ => True)
      (case_IN_SET_DATA line : Run (Ctx F) Unit) := by
  unfold KFile.case_IN_SET_DATA
  repeat' first
    | ((with_reducible refine Frame.frame_assign ?_); exact fun _ _ => ⟨rfl, Or.inl rfl⟩)
    | ((with_reducible refine Frame.frame_update ?_); exact fun _ => ⟨rfl, Or.inl rfl⟩)
    | with_reducible refine Frame.frame_bind ?_ (fun _ => ?_)
    | ((with_reducible refine Frame.frame_set_state _ ?_ ?_); exact fun _ => rfl; trivial)
    | with_reducible refine Frame.frame_try_catch ?_ (fun _ => ?_)
    | ((with_reducible refine Frame.frame_warn _ _ ?_); exact fun _ _ => rfl)
    | ((with_reducible refine Frame.frame_when_enabled ?_ ?_ ?_); exact fun _ => rfl; trivial)
    | with_reducible exact Frame.frame_pure _
    | with_reducible exact Frame.frame_read
    | with_reducible exact Frame.frame_eval _
    | ((with_reducible refine Frame.frame_zoom ?_); exact fun _ _ => ⟨rfl, Or.inl rfl⟩)
    | ((with_reducible refine Frame.frame_id_list_loop (F := F) _ ?_ _); exact fun _ _ => ⟨rfl, Or.inl rfl⟩)
    | ((with_reducible refine Frame.frame_select_state _ _ ?_ ?_ ?_); exact fun _ _ => rfl; trivial; trivial)
    | ((with_reducible refine Frame.frame_set_state_ite ?_ ?_ ?_); exact fun _ _ => rfl; trivial; trivial)
    | ((with_reducible refine Frame.frame_update_if ?_); exact fun _ => ⟨rfl, Or.inl rfl⟩)
    | with_reducible apply Frame.frame_ite
    | unfold KFile.warn
    | split

theorem case_IN_SET_SEGMENT_DATA_fixed (line : Str) :
    Frame (fixed_view : Ctx F → _) (fun _ => True)
      (case_IN_SET_SEGMENT_DATA line : Run (Ctx F) Unit) := by
  unfold KFile.case_IN_SET_SEGMENT_DATA
  repeat' first
    | ((with_reducible refine Frame.frame_assign ?_); exact fun _ _ => ⟨rfl, Or.inl rfl⟩)
    | ((with_reducible refine Frame.frame_update ?_); exact fun _ => ⟨rfl, Or.inl rfl⟩)
    | with_reducible refine Frame.frame_bind ?_ (fun _ => ?_)
    | ((with_reducible refine Frame.frame_set_state _ ?_ ?_); exact fun _ => rfl; trivial)
    | with_reducible refine Frame.frame_try_catch ?_ (fun _ => ?_)
    | ((with_reducible refine Frame.frame_warn _ _ ?_); exact fun _ _ => rfl)
    | ((with_reducible refine Frame.frame_when_enabled ?_ ?_ ?_); exact fun _ => rfl; trivial)
    | with_reducible exact Frame.frame_pure _
    | with_reducible exact Frame.frame_read
    | with_reducible exact Frame.frame_eval _
    | ((with_reducible refine Frame.frame_zoom ?_); exact fun _ _ => ⟨rfl, Or.inl rfl⟩)
    | ((with_reducible refine Frame.frame_id_list_loop (F := F) _ ?_ _); exact fun _ _ => ⟨rfl, Or.inl rfl⟩)
    | ((with_reducible refine Frame.frame_select_state _ _ ?_ ?_ ?_); exact fun _ _ => rfl; trivial; trivial)
    | ((with_reducible refine Frame.frame_set_state_ite ?_ ?_ ?_); exact fun _ _ => rfl; trivial; trivial)
    | ((with_reducible refine Frame.frame_update_if ?_); exact fun _ => ⟨rfl, Or.inl rfl⟩)
    | with_reducible apply Frame.frame_ite
    | unfold KFile.warn
    | split

theorem case_IN_SECTION_SHELL_HEADER_fixed (line : Str) :
    Frame (fixed_view : Ctx F → _) (fun _ => True)
      (case_IN_SECTION_SHELL_HEADER line : Run (Ctx F) Unit) := by
  unfold KFile.case_IN_SECTION_SHELL_HEADER
  repeat' first
    | ((with_reducible refine Frame.frame_assign ?_); exact fun _ _ => ⟨rfl, Or.inl rfl⟩)
    | ((with_reducible refine Frame.frame_update ?_); exact fun _ => ⟨rfl, Or.inl rfl⟩)
    | with_reducible refine Frame.frame_bind ?_ (fun _ => ?_)
    | ((with_reducible refine Frame.frame_set_state _ ?_ ?_); exact fun _ => rfl; trivial)
    | with_reducible refine Frame.frame_try_catch ?_ (fun _ => ?_)
    | ((with_reducible refine Frame.frame_warn _ _ ?_); exact fun _ _ => rfl)
    | ((with_reducible refine Frame.frame_when_enabled ?_ ?_ ?_); exact fun _ => rfl; trivial)
    | with_reducible exact Frame.frame_pure _
    | with_reducible exact Frame.frame_read
    | with_reducible exact Frame.frame_eval _
    | ((with_reducible refine Frame.frame_zoom ?_); exact fun _ _ => ⟨rfl, Or.inl rfl⟩)
    | ((with_reducible refine Frame.frame_id_list_loop (F := F) _ ?_ _); exact fun _ _ => ⟨rfl, Or.inl rfl⟩)
    | ((with_reducible refine Frame.frame_select_state _ _ ?_ ?_ ?_); exact fun _ _ => rfl; trivial; trivial)
    | ((with_reducible refine Frame.frame_set_state_ite ?_ ?_ ?_); exact fun _ _ => rfl; trivial; trivial)
    | ((with_reducible refine Frame.frame_update_if ?_); exact fun _ => ⟨rfl, Or.inl rfl⟩)
    | with_reducible apply Frame.frame_ite
    | unfold KFile.warn
    | split

theorem case_IN_SECTION_SHELL_DATA_fixed (line : Str) :
    Frame (fixed_view : Ctx F → _) (fun _ => True)
      (case_IN_SECTION_SHELL_DATA line : Run (Ctx F) Unit) := by
  unfold KFile.case_IN_SECTION_SHELL_DATA
  repeat' first
    | ((with_reducible refine Frame.frame_assign ?_); exact fun _ _ => ⟨rfl, Or.inl rfl⟩)
    | ((with_reducible refine Frame.frame_update ?_); exact fun _ => ⟨rfl, Or.inl rfl⟩)
    | with_reducible refine Frame.frame_bind ?_ (fun _ => ?_)
    | ((with_reducible refine Frame.frame_set_state _ ?_ ?_); exact fun _ => rfl; trivial)
    | with_reducible refine Frame.frame_try_catch ?_ (fun _ => ?_)
    | ((with_reducible refine Frame.frame_warn _ _ ?_); exact fun _ _ => rfl)
    | ((with_reducible refine Frame.frame_when_enabled ?_ ?_ ?_); exact fun _ => rfl; trivial)
    | with_reducible exact Frame.frame_pure _
    | with_reducible exact Frame.frame_read
    | with_reducible exact Frame.frame_eval _
    | ((with_reducible refine Frame.frame_zoom ?_); exact fun _ _ => ⟨rfl, Or.inl rfl⟩)
    | ((with_reducible refine Frame.frame_id_list_loop (F := F) _ ?_ _); exact fun _ _ => ⟨rfl, Or.inl rfl⟩)
    | ((with_reducible refine Frame.frame_select_state _ _ ?_ ?_ ?_); exact fun _ _ => rfl; trivial; trivial)
    | ((with_reducible refine Frame.frame_set_state_ite ?_ ?_ ?_); exact fun _ _ => rfl; trivial; trivial)
    | ((with_reducible refine Frame.frame_update_if ?_); exact fun _ => ⟨rfl, Or.inl rfl⟩)
    | with_reducible apply Frame.frame_ite
    | unfold KFile.warn
    | unfold KFile.push_current_section
    | split

theorem case_IN_SECTION_SOLID_fixed (line : Str) :
    Frame (fixed_view : Ctx F → _) (fun _ => True)
      (case_IN_SECTION_SOLID line : Run (Ctx F) Unit) := by
  unfold KFile.case_IN_SECTION_SOLID
  repeat' first
    | ((with_reducible refine Frame.frame_assign ?_); exact fun _ _ => ⟨rfl, Or.inl rfl⟩)
    | ((with_reducible refine Frame.frame_update ?_); exact fun _ => ⟨rfl, Or.inl rfl⟩)
    | with_reducible refine Frame.frame_bind ?_ (fun _ => ?_)
    | ((with_reducible refine Frame.frame_set_state _ ?_ ?_); exact fun _ => rfl; trivial)
    | with_reducible refine Frame.frame_try_catch ?_ (fun _ => ?_)
    | ((with_reducible refine Frame.frame_warn _ _ ?_); exact fun _ _ => rfl)
    | ((with_reducible refine Frame.frame_when_enabled ?_ ?_ ?_); exact fun _ => rfl; trivial)
    | with_reducible exact Frame.frame_pure _
    | with_reducible exact Frame.frame_read
    | with_reducible exact Frame.frame_eval _
    | ((with_reducible refine Frame.frame_zoom ?_); exact fun _ _ => ⟨rfl, Or.inl rfl⟩)
    | ((with_reducible refine Frame.frame_id_list_loop (F := F) _ ?_ _); exact fun _ _ => ⟨rfl, Or.inl rfl⟩)
    | ((with_reducible refine Frame.frame_select_state _ _ ?_ ?_ ?_); exact fun _ _ => rfl; trivial; trivial)
    | ((with_reducible refine Frame.frame_set_state_ite ?_ ?_ ?_); exact fun _ _ => rfl; trivial; trivial)
    | ((with_reducible refine Frame.frame_update_if ?_); exact fun _ => ⟨rfl, Or.inl rfl⟩)
    | with_reducible apply Frame.frame_ite
    | unfold KFile.warn
    | unfold KFile.push_current_section
    | split

theorem case_IN_SECTION_BEAM_HEADER_fixed (line : Str) :
    Frame (fixed_view : Ctx F → _) (fun _ => True)
      (case_IN_SECTION_BEAM_HEADER line : Run (Ctx F) Unit) := by
  unfold KFile.case_IN_SECTION_BEAM_HEADER
  repeat' first
    | ((with_reducible refine Frame.frame_assign ?_); exact fun _ _ => ⟨rfl, Or.inl rfl⟩)
    | ((with_reducible refine Frame.frame_update ?_); exact fun _ => ⟨rfl, Or.inl rfl⟩)
    | with_reducible refine Frame.frame_bind ?_ (fun _ => ?_)
    | ((with_reducible refine Frame.frame_set_state _ ?_ ?_); exact fun _ => rfl; trivial)
    | with_reducible refine Frame.frame_try_catch ?_ (fun _ => ?_)
    | ((with_reducible refine Frame.frame_warn _ _ ?_); exact fun _ _ => rfl)
    | ((with_reducible refine Frame.frame_when_enabled ?_ ?_ ?_); exact fun _ => rfl; trivial)
    | with_reducible exact Frame.frame_pure _
    | with_reducible exact Frame.frame_read
    | with_reducible exact Frame.frame_eval _
    | ((with_reducible refine Frame.frame_zoom ?_); exact fun _ _ => ⟨rfl, Or.inl rfl⟩)
    | ((with_reducible refine Frame.frame_id_list_loop (F := F) _ ?_ _); exact fun _ _ => ⟨rfl, Or.inl rfl⟩)
    | ((with_reducible refine Frame.frame_select_state _ _ ?_ ?_ ?_); exact fun _ _ => rfl; trivial; trivial)
    | ((with_reducible refine Frame.frame_set_state_ite ?_ ?_ ?_); exact fun _ _ => rfl; trivial; trivial)
    | ((with_reducible refine Frame.frame_update_if ?_); exact fun _ => ⟨rfl, Or.inl rfl⟩)
    | with_reducible apply Frame.frame_ite
    | unfold KFile.warn
    | split

theorem case_IN_SECTION_BEAM_DATA_fixed (line : Str) :
    Frame (fixed_view : Ctx F → _) (fun _ => True)
      (case_IN_SECTION_BEAM_DATA line : Run (Ctx F) Unit) := by
  unfold KFile.case_IN_SECTION_BEAM_DATA
  repeat' first
    | ((with_reducible refine Frame.frame_assign ?_); exact fun _ _ => ⟨rfl, Or.inl rfl⟩)
    | ((with_reducible refine Frame.frame_update ?_); exact fun _ => ⟨rfl, Or.inl rfl⟩)
    | with_reducible refine Frame.frame_bind ?_ (fun _ => ?_)
    | ((with_reducible refine Frame.frame_set_state _ ?_ ?_); exact fun _ => rfl; trivial)
    | with_reducible refine Frame.frame_try_catch ?_ (fun _ => ?_)
    | ((with_reducible refine Frame.frame_warn _ _ ?_); exact fun _ _ => rfl)
    | ((with_reducible refine Frame.frame_when_enabled ?_ ?_ ?_); exact fun _ => rfl; trivial)
    | with_reducible exact Frame.frame_pure _
    | with_reducible exact Frame.frame_read
    | with_reducible exact Frame.frame_eval _
    | ((with_reducible refine Frame.frame_zoom ?_); exact fun _ _ => ⟨rfl, Or.inl rfl⟩)
    | ((with_reducible refine Frame.frame_id_list_loop (F := F) _ ?_ _); exact fun _ _ => ⟨rfl, Or.inl rfl⟩)
    | ((with_reducible refine Frame.frame_select_state _ _ ?_ ?_ ?_); exact fun _ _ => rfl; trivial; trivial)
    | ((with_reducible refine Frame.frame_set_state_ite ?_ ?_ ?_); exact fun _ _ => rfl; trivial; trivial)
    | ((with_reducible refine Frame.frame_update_if ?_); exact fun _ => ⟨rfl, Or.inl rfl⟩)
    | with_reducible apply Frame.frame_ite
    | unfold KFile.warn
    | unfold KFile.push_current_section
    | split

theorem case_IN_CONTACT_CARD1_fixed (line : Str) :
    Frame (fixed_view : Ctx F → _) (fun _ => True)
      (case_IN_CONTACT_CARD1 line : Run (Ctx F) Unit) := by
  unfold KFile.case_IN_CONTACT_CARD1
  repeat' first
    | ((with_reducible refine Frame.frame_assign ?_); exact fun _ _ => ⟨rfl, Or.inl rfl⟩)
    | ((with_reducible refine Frame.frame_update ?_); exact fun _ => ⟨rfl, Or.inl rfl⟩)
    | with_reducible refine Frame.frame_bind ?_ (fun _ => ?_)
    | ((with_reducible refine Frame.frame_set_state _ ?_ ?_); exact fun _ => rfl; trivial)
    | with_reducible refine Frame.frame_try_catch ?_ (fun _ => ?_)
    | ((with_reducible refine Frame.frame_warn _ _ ?_); exact fun _ _ => rfl)
    | ((with_reducible refine Frame.frame_when_enabled ?_ ?_ ?_); exact fun _ => rfl; trivial)
    | with_reducible exact Frame.frame_pure _
    | with_reducible exact Frame.frame_read
    | with_reducible exact Frame.frame_eval _
    | ((with_reducible refine Frame.frame_zoom ?_); exact fun _ _ => ⟨rfl, Or.inl rfl⟩)
    | ((with_reducible refine Frame.frame_id_list_loop (F := F) _ ?_ _); exact fun _ _ => ⟨rfl, Or.inl rfl⟩)
    | ((with_reducible refine Frame.frame_select_state _ _ ?_ ?_ ?_); exact fun _ _ => rfl; trivial; trivial)
    | ((with_reducible refine Frame.frame_set_state_ite ?_ ?_ ?_); exact fun _ _ => rfl; trivial; trivial)
    | ((with_reducible refine Frame.frame_update_if ?_); exact fun _ => ⟨rfl, Or.inl rfl⟩)
    | with_reducible apply Frame.frame_ite
    | unfold KFile.warn
    | split

theorem case_IN_CONTACT_CARD2_fixed (line : Str) :
    Frame (fixed_view : Ctx F → _) (fun _ => True)
      (case_IN_CONTACT_CARD2 line : Run (Ctx F) Unit) := by
  unfold KFile.case_IN_CONTACT_CARD2
  repeat' first
    | ((with_reducible refine Frame.frame_assign ?_); exact fun _ _ => ⟨rfl, Or.inl rfl⟩)
    | ((with_reducible refine Frame.frame_update ?_); exact fun _ => ⟨rfl, Or.inl rfl⟩)
    | with_reducible refine Frame.frame_bind ?_ (fun _ => ?_)
    | ((with_reducible refine Frame.frame_set_state _ ?_ ?_); exact fun _ => rfl; trivial)
    | with_reducible refine Frame.frame_try_catch ?_ (fun _ => ?_)
    | ((with_reducible refine Frame.frame_warn _ _ ?_); exact fun _ _ => rfl)
    | ((with_reducible refine Frame.frame_when_enabled ?_ ?_ ?_); exact fun _ => rfl; trivial)
    | with_reducible exact Frame.frame_pure _
    | with_reducible exact Frame.frame_read
    | with_reducible exact Frame.frame_eval _
    | ((with_reducible refine Frame.frame_zoom ?_); exact fun _ _ => ⟨rfl, Or.inl rfl⟩)
    | ((with_reducible refine Frame.frame_id_list_loop (F := F) _ ?_ _); exact fun _ _ => ⟨rfl, Or.inl rfl⟩)
    | ((with_reducible refine Frame.frame_select_state _ _ ?_ ?_ ?_); exact fun _ _ => rfl; trivial; trivial)
    | ((with_reducible refine Frame.frame_set_state_ite ?_ ?_ ?_); exact fun _ _ => rfl; trivial; trivial)
    | ((with_reducible refine Frame.frame_update_if ?_); exact fun _ => ⟨rfl, Or.inl rfl⟩)
    | with_reducible apply Frame.frame_ite
    | unfold KFile.warn
    | unfold KFile.push_current_contact
    | split

theorem case_IN_CONTACT_CARD3_fixed (line : Str) :
    Frame (fixed_view : Ctx F → _) (fun _ => True)
      (case_IN_CONTACT_CARD3 line : Run (Ctx F) Unit) := by
  unfold KFile.case_IN_CONTACT_CARD3
  repeat' first
    | ((with_reducible refine Frame.frame_assign ?_); exact fun _ _ => ⟨rfl, Or.inl rfl⟩)
    | ((with_reducible refine Frame.frame_update ?_); exact fun _ => ⟨rfl, Or.inl rfl⟩)
    | with_reducible refine Frame.frame_bind ?_ (fun _ => ?_)
    | ((with_reducible refine Frame.frame_set_state _ ?_ ?_); exact fun _ => rfl; trivial)
    | with_reducible refine Frame.frame_try_catch ?_ (fun _ => ?_)
    | ((with_reducible refine Frame.frame_warn _ _ ?_); exact fun _ _ => rfl)
    | ((with_reducible refine Frame.frame_when_enabled ?_ ?_ ?_); exact fun _ => rfl; trivial)
    | with_reducible exact Frame.frame_pure _
    | with_reducible exact Frame.frame_read
    | with_reducible exact Frame.frame_eval _
    | ((with_reducible refine Frame.frame_zoom ?_); exact fun _ _ => ⟨rfl, Or.inl rfl⟩)
    | ((with_reducible refine Frame.frame_id_list_loop (F := F) _ ?_ _); exact fun _ _ => ⟨rfl, Or.inl rfl⟩)
    | ((with_reducible refine Frame.frame_select_state _ _ ?_ ?_ ?_); exact fun _ _ => rfl; trivial; trivial)
    | ((with_reducible refine Frame.frame_set_state_ite ?_ ?_ ?_); exact fun _ _ => rfl; trivial; trivial)
    | ((with_reducible refine Frame.frame_update_if ?_); exact fun _ => ⟨rfl, Or.inl rfl⟩)
    | with_reducible apply Frame.frame_ite
    | unfold KFile.warn
    | unfold KFile.push_current_contact
    | split

theorem case_IN_MATERIAL_TITLE_fixed (line : Str) :
    Frame (fixed_view : Ctx F → _) (fun _ => True)
      (case_IN_MATERIAL_TITLE line : Run (Ctx F) Unit) := by
  unfold KFile.case_IN_MATERIAL_TITLE
  repeat' first
    | ((with_reducible refine Frame.frame_assign ?_); exact fun _ _ => ⟨rfl, Or.inl rfl⟩)
    | ((with_reducible refine Frame.frame_update ?_); exact fun _ => ⟨rfl, Or.inl rfl⟩)
    | with_reducible refine Frame.frame_bind ?_ (fun _ => ?_)
    | ((with_reducible refine Frame.frame_set_state _ ?_ ?_); exact fun _ => rfl; trivial)
    | with_reducible refine Frame.frame_try_catch ?_ (fun _ => ?_)
    | ((with_reducible refine Frame.frame_warn _ _ ?_); exact fun _ _ => rfl)
    | ((with_reducible refine Frame.frame_when_enabled ?_ ?_ ?_); exact fun _ => rfl; trivial)
    | with_reducible exact Frame.frame_pure _
    | with_reducible exact Frame.frame_read
    | with_reducible exact Frame.frame_eval _
    | ((with_reducible refine Frame.frame_zoom ?_); exact fun _ _ => ⟨rfl, Or.inl rfl⟩)
    | ((with_reducible refine Frame.frame_id_list_loop (F := F) _ ?_ _); exact fun _ _ => ⟨rfl, Or.inl rfl⟩)
    | ((with_reducible refine Frame.frame_select_state _ _ ?_ ?_ ?_); exact fun _ _ => rfl; trivial; trivial)
    | ((with_reducible refine Frame.frame_set_state_ite ?_ ?_ ?_); exact fun _ _ => rfl; trivial; trivial)
    | ((with_reducible refine Frame.frame_update_if ?_); exact fun _ => ⟨rfl, Or.inl rfl⟩)
    | with_reducible apply Frame.frame_ite
    | unfold KFile.warn
    | split

theorem case_IN_MATERIAL_DATA_fixed (line : Str) :
    Frame (fixed_view : Ctx F → _) (fun _ => True)
      (case_IN_MATERIAL_DATA line : Run (Ctx F) Unit) := by
  unfold KFile.case_IN_MATERIAL_DATA
  repeat' first
    | ((with_reducible refine Frame.frame_assign ?_); exact fun _ _ => ⟨rfl, Or.inl rfl⟩)
    | ((with_reducible refine Frame.frame_update ?_); exact fun _ => ⟨rfl, Or.inl rfl⟩)
    | with_reducible refine Frame.frame_bind ?_ (fun _ => ?_)
    | ((with_reducible refine Frame.frame_set_state _ ?_ ?_); exact fun _ => rfl; trivial)
    | with_reducible refine Frame.frame_try_catch ?_ (fun _ => ?_)
    | ((with_reducible refine Frame.frame_warn _ _ ?_); exact fun _ _ => rfl)
    | ((with_reducible refine Frame.frame_when_enabled ?_ ?_ ?_); exact fun _ => rfl; trivial)
    | with_reducible exact Frame.frame_pure _
    | with_reducible exact Frame.frame_read
    | with_reducible exact Frame.frame_eval _
    | ((with_reducible refine Frame.frame_zoom ?_); exact fun _ _ => ⟨rfl, Or.inl rfl⟩)
    | ((with_reducible refine Frame.frame_id_list_loop (F := F) _ ?_ _); exact fun _ _ => ⟨rfl, Or.inl rfl⟩)
    | ((with_reducible refine Frame.frame_select_state _ _ ?_ ?_ ?_); exact fun _ _ => rfl; trivial; trivial)
    | ((with_reducible refine Frame.frame_set_state_ite ?_ ?_ ?_); exact fun _ _ => rfl; trivial; trivial)
    | ((with_reducible refine Frame.frame_update_if ?_); exact fun _ => ⟨rfl, Or.inl rfl⟩)
    | with_reducible apply Frame.frame_ite
    | unfold KFile.warn
    | split

theorem case_IN_INCLUDE_fixed (line : Str) :
    Frame (fixed_view : Ctx F → _) (fun _ => True)
      (case_IN_INCLUDE line : Run (Ctx F) Unit) := by
  unfold KFile.case_IN_INCLUDE
  repeat' first
    | ((with_reducible refine Frame.frame_assign ?_); exact fun _ _ => ⟨rfl, Or.inl rfl⟩)
    | ((with_reducible refine Frame.frame_update ?_); exact fun _ => ⟨rfl, Or.inl rfl⟩)
    | with_reducible refine Frame.frame_bind ?_ (fun _ => ?_)
    | ((with_reducible refine Frame.frame_set_state _ ?_ ?_); exact fun _ => rfl; trivial)
    | with_reducible refine Frame.frame_try_catch ?_ (fun _ => ?_)
    | ((with_reducible refine Frame.frame_warn _ _ ?_); exact fun _ _ => rfl)
    | ((with_reducible refine Frame.frame_when_enabled ?_ ?_ ?_); exact fun _ => rfl; trivial)
    | with_reducible exact Frame.frame_pure _
    | with_reducible exact Frame.frame_read
    | with_reducible exact Frame.frame_eval _
    | ((with_reducible refine Frame.frame_zoom ?_); exact fun _ _ => ⟨rfl, Or.inl rfl⟩)
    | ((with_reducible refine Frame.frame_id_list_loop (F := F) _ ?_ _); exact fun _ _ => ⟨rfl, Or.inl rfl⟩)
    | ((with_reducible refine Frame.frame_select_state _ _ ?_ ?_ ?_); exact fun _ _ => rfl; trivial; trivial)
    | ((with_reducible refine Frame.frame_set_state_ite ?_ ?_ ?_); exact fun _ _ => rfl; trivial; trivial)
    | ((with_reducible refine Frame.frame_update_if ?_); exact fun _ => ⟨rfl, Or.inl rfl⟩)
    | with_reducible apply Frame.frame_ite
    | unfold KFile.warn
    | split

theorem case_IN_CURVE_TITLE_fixed (line : Str) :
    Frame (fixed_view : Ctx F → _) (fun _ => True)
      (case_IN_CURVE_TITLE line : Run (Ctx F) Unit) := by
  unfold KFile.case_IN_CURVE_TITLE
  repeat' first
    | ((with_reducible refine Frame.frame_assign ?_); exact fun _ _ => ⟨rfl, Or.inl rfl⟩)
    | ((with_reducible refine Frame.frame_update ?_); exact fun _ => ⟨rfl, Or.inl rfl⟩)
    | with_reducible refine Frame.frame_bind ?_ (fun _ => ?_)
    | ((with_reducible refine Frame.frame_set_state _ ?_ ?_); exact fun _ => rfl; trivial)
    | with_reducible refine Frame.frame_try_catch ?_ (fun _ => ?_)
    | ((with_reducible refine Frame.frame_warn _ _ ?_); exact fun _ _ => rfl)
    | ((with_reducible refine Frame.frame_when_enabled ?_ ?_ ?_); exact fun _ => rfl; trivial)
    | with_reducible exact Frame.frame_pure _
    | with_reducible exact Frame.frame_read
    | with_reducible exact Frame.frame_eval _
    | ((with_reducible refine Frame.frame_zoom ?_); exact fun _ _ => ⟨rfl, Or.inl rfl⟩)
    | ((with_reducible refine Frame.frame_id_list_loop (F := F) _ ?_ _); exact fun _ _ => ⟨rfl, Or.inl rfl⟩)
    | ((with_reducible refine Frame.frame_select_state _ _ ?_ ?_ ?_); exact fun _ _ => rfl; trivial; trivial)
    | ((with_reducible refine Frame.frame_set_state_ite ?_ ?_ ?_); exact fun _ _ => rfl; trivial; trivial)
    | ((with_reducible refine Frame.frame_update_if ?_); exact fun _ => ⟨rfl, Or.inl rfl⟩)
    | with_reducible apply Frame.frame_ite
    | unfold KFile.warn
    | split

theorem case_IN_CURVE_HEADER_fixed (line : Str) :
    Frame (fixed_view : Ctx F → _) (fun _ => True)
      (case_IN_CURVE_HEADER line : Run (Ctx F) Unit) := by
  unfold KFile.case_IN_CURVE_HEADER
  repeat' first
    | ((with_reducible refine Frame.frame_assign ?_); exact fun _ _ => ⟨rfl, Or.inl rfl⟩)
    | ((with_reducible refine Frame.frame_update ?_); exact fun _ => ⟨rfl, Or.inl rfl⟩)
    | with_reducible refine Frame.frame_bind ?_ (fun _ => ?_)
    | ((with_reducible refine Frame.frame_set_state _ ?_ ?_); exact fun _ => rfl; trivial)
    | with_reducible refine Frame.frame_try_catch ?_ (fun _ => ?_)
    | ((with_reducible refine Frame.frame_warn _ _ ?_); exact fun _ _ => rfl)
    | ((with_reducible refine Frame.frame_when_enabled ?_ ?_ ?_); exact fun _ => rfl; trivial)
    | with_reducible exact Frame.frame_pure _
    | with_reducible exact Frame.frame_read
    | with_reducible exact Frame.frame_eval _
    | ((with_reducible refine Frame.frame_zoom ?_); exact fun _ _ => ⟨rfl, Or.inl rfl⟩)
    | ((with_reducible refine Frame.frame_id_list_loop (F := F) _ ?_ _); exact fun _ _ => ⟨rfl, Or.inl rfl⟩)
    | ((with_reducible refine Frame.frame_select_state _ _ ?_ ?_ ?_); exact fun _ _ => rfl; trivial; trivial)
    | ((with_reducible refine Frame.frame_set_state_ite ?_ ?_ ?_); exact fun _ _ => rfl; trivial; trivial)
    | ((with_reducible refine Frame.frame_update_if ?_); exact fun _ => ⟨rfl, Or.inl rfl⟩)
    | with_reducible apply Frame.frame_ite
    | unfold KFile.warn
    | split

theorem case_IN_CURVE_DATA_fixed (line : Str) :
    Frame (fixed_view : Ctx F → _) (fun _ => True)
      (case_IN_CURVE_DATA line : Run (Ctx F) Unit) := by
  unfold KFile.case_IN_CURVE_DATA
  repeat' first
    | ((with_reducible refine Frame.frame_assign ?_); exact fun _ _ => ⟨rfl, Or.inl rfl⟩)
    | ((with_reducible refine Frame.frame_update ?_); exact fun _ => ⟨rfl, Or.inl rfl⟩)
    | with_reducible refine Frame.frame_bind ?_ (fun _ => ?_)
    | ((with_reducible refine Frame.frame_set_state _ ?_ ?_); exact fun _ => rfl; trivial)
    | with_reducible refine Frame.frame_try_catch ?_ (fun _ => ?_)
    | ((with_reducible refine Frame.frame_warn _ _ ?_); exact fun _ _ => rfl)
    | ((with_reducible refine Frame.frame_when_enabled ?_ ?_ ?_); exact fun _ => rfl; trivial)
    | with_reducible exact Frame.frame_pure _
    | with_reducible exact Frame.frame_read
    | with_reducible exact Frame.frame_eval _
    | ((with_reducible refine Frame.frame_zoom ?_); exact fun _ _ => ⟨rfl, Or.inl rfl⟩)
    | ((with_reducible refine Frame.frame_id_list_loop (F := F) _ ?_ _); exact fun _ _ => ⟨rfl, Or.inl rfl⟩)
    | ((with_reducible refine Frame.frame_select_state _ _ ?_ ?_ ?_); exact fun _ _ => rfl; trivial; trivial)
    | ((with_reducible refine Frame.frame_set_state_ite ?_ ?_ ?_); exact fun _ _ => rfl; trivial; trivial)
    | ((with_reducible refine Frame.frame_update_if ?_); exact fun _ => ⟨rfl, Or.inl rfl⟩)
    | with_reducible apply Frame.frame_ite
    | unfold KFile.warn
    | split

theorem case_IN_BOUNDARY_SPC_fixed (line : Str) :
    Frame (fixed_view : Ctx F → _) (fun _ => True)
      (case_IN_BOUNDARY_SPC line : Run (Ctx F) Unit) := by
  unfold KFile.case_IN_BOUNDARY_SPC
  repeat' first
    | ((with_reducible refine Frame.frame_assign ?_); exact fun _ _ => ⟨rfl, Or.inl rfl⟩)
    | ((with_reducible refine Frame.frame_update ?_); exact fun _ => ⟨rfl, Or.inl rfl⟩)
    | with_reducible refine Frame.frame_bind ?_ (fun _ => ?_)
    | ((with_reducible refine Frame.frame_set_state _ ?_ ?_); exact fun _ => rfl; trivial)
    | with_reducible refine Frame.frame_try_catch ?_ (fun _ => ?_)
    | ((with_reducible refine Frame.frame_warn _ _ ?_); exact fun _ _ => rfl)
    | ((with_reducible refine Frame.frame_when_enabled ?_ ?_ ?_); exact fun _ => rfl; trivial)
    | with_reducible exact Frame.frame_pure _
    | with_reducible exact Frame.frame_read
    | with_reducible exact Frame.frame_eval _
    | ((with_reducible refine Frame.frame_zoom ?_); exact fun _ _ => ⟨rfl, Or.inl rfl⟩)
    | ((with_reducible refine Frame.frame_id_list_loop (F := F) _ ?_ _); exact fun _ _ => ⟨rfl, Or.inl rfl⟩)
    | ((with_reducible refine Frame.frame_select_state _ _ ?_ ?_ ?_); exact fun _ _ => rfl; trivial; trivial)
    | ((with_reducible refine Frame.frame_set_state_ite ?_ ?_ ?_); exact fun _ _ => rfl; trivial; trivial)
    | ((with_reducible refine Frame.frame_update_if ?_); exact fun _ => ⟨rfl, Or.inl rfl⟩)
    | with_reducible apply Frame.frame_ite
    | unfold KFile.warn
    | split

theorem case_IN_BOUNDARY_MOTION_fixed (line : Str) :
    Frame (fixed_view : Ctx F → _) (fun _ => True)
      (case_IN_BOUNDARY_MOTION line : Run (Ctx F) Unit) := by
  unfold KFile.case_IN_BOUNDARY_MOTION
  repeat' first
    | ((with_reducible refine Frame.frame_assign ?_); exact fun _ _ => ⟨rfl, Or.inl rfl⟩)
    | ((with_reducible refine Frame.frame_update ?_); exact fun _ => ⟨rfl, Or.inl rfl⟩)
    | with_reducible refine Frame.frame_bind ?_ (fun _ => ?_)
    | ((with_reducible refine Frame.frame_set_state _ ?_ ?_); exact fun _ => rfl; trivial)
    | with_reducible refine Frame.frame_try_catch ?_ (fun _ => ?_)
    | ((with_reducible refine Frame.frame_warn _ _ ?_); exact fun _ _ => rfl)
    | ((with_reducible refine Frame.frame_when_enabled ?_ ?_ ?_); exact fun _ => rfl; trivial)
    | with_reducible exact Frame.frame_pure _
    | with_reducible exact Frame.frame_read
    | with_reducible exact Frame.frame_eval _
    | ((with_reducible refine Frame.frame_zoom ?_); exact fun _ _ => ⟨rfl, Or.inl rfl⟩)
    | ((with_reducible refine Frame.frame_id_list_loop (F := F) _ ?_ _); exact fun _ _ => ⟨rfl, Or.inl rfl⟩)
    | ((with_reducible refine Frame.frame_select_state _ _ ?_ ?_ ?_); exact fun _ _ => rfl; trivial; trivial)
    | ((with_reducible refine Frame.frame_set_state_ite ?_ ?_ ?_); exact fun _ _ => rfl; trivial; trivial)
    | ((with_reducible refine Frame.frame_update_if ?_); exact fun _ => ⟨rfl, Or.inl rfl⟩)
    | with_reducible apply Frame.frame_ite
    | unfold KFile.warn
    | split

theorem case_IN_LOAD_NODE_fixed (line : Str) :
    Frame (fixed_view : Ctx F → _) (fun _ => True)
      (case_IN_LOAD_NODE line : Run (Ctx F) Unit) := by
  unfold KFile.case_IN_LOAD_NODE
  repeat' first
    | ((with_reducible refine Frame.frame_assign ?_); exact fun _ _ => ⟨rfl, Or.inl rfl⟩)
    | ((with_reducible refine Frame.frame_update ?_); exact fun _ => ⟨rfl, Or.inl rfl⟩)
    | with_reducible refine Frame.frame_bind ?_ (fun _ => ?_)
    | ((with_reducible refine Frame.frame_set_state _ ?_ ?_); exact fun _ => rfl; trivial)
    | with_reducible refine Frame.frame_try_catch ?_ (fun _ => ?_)
    | ((with_reducible refine Frame.frame_warn _ _ ?_); exact fun _ _ => rfl)
    | ((with_reducible refine Frame.frame_when_enabled ?_ ?_ ?_); exact fun _ => rfl; trivial)
    | with_reducible exact Frame.frame_pure _
    | with_reducible exact Frame.frame_read
    | with_reducible exact Frame.frame_eval _
    | ((with_reducible refine Frame.frame_zoom ?_); exact fun _ _ => ⟨rfl, Or.inl rfl⟩)
    | ((with_reducible refine Frame.frame_id_list_loop (F := F) _ ?_ _); exact fun _ _ => ⟨rfl, Or.inl rfl⟩)
    | ((with_reducible refine Frame.frame_select_state _ _ ?_ ?_ ?_); exact fun _ _ => rfl; trivial; trivial)
    | ((with_reducible refine Frame.frame_set_state_ite ?_ ?_ ?_); exact fun _ _ => rfl; trivial; trivial)
    | ((with_reducible refine Frame.frame_update_if ?_); exact fun _ => ⟨rfl, Or.inl rfl⟩)
    | with_reducible apply Frame.frame_ite
    | unfold KFile.warn
    | split

theorem case_IN_LOAD_SEGMENT_fixed (line : Str) :
    Frame (fixed_view : Ctx F → _) (fun _ => True)
      (case_IN_LOAD_SEGMENT line : Run (Ctx F) Unit) := by
  unfold KFile.case_IN_LOAD_SEGMENT
  repeat' first
    | ((with_reducible refine Frame.frame_assign ?_); exact fun _ _ => ⟨rfl, Or.inl rfl⟩)
    | ((with_reducible refine Frame.frame_update ?_); exact fun _ => ⟨rfl, Or.inl rfl⟩)
    | with_reducible refine Frame.frame_bind ?_ (fun _ => ?_)
    | ((with_reducible refine Frame.frame_set_state _ ?_ ?_); exact fun _ => rfl; trivial)
    | with_reducible refine Frame.frame_try_catch ?_ (fun _ => ?_)
    | ((with_reducible refine Frame.frame_warn _ _ ?_); exact fun _ _ => rfl)
    | ((with_reducible refine Frame.frame_when_enabled ?_ ?_ ?_); exact fun _ => rfl; trivial)
    | with_reducible exact Frame.frame_pure _
    | with_reducible exact Frame.frame_read
    | with_reducible exact Frame.frame_eval _
    | ((with_reducible refine Frame.frame_zoom ?_); exact fun _ _ => ⟨rfl, Or.inl rfl⟩)
    | ((with_reducible refine Frame.frame_id_list_loop (F := F) _ ?_ _); exact fun _ _ => ⟨rfl, Or.inl rfl⟩)
    | ((with_reducible refine Frame.frame_select_state _ _ ?_ ?_ ?_); exact fun _ _ => rfl; trivial; trivial)
    | ((with_reducible refine Frame.frame_set_state_ite ?_ ?_ ?_); exact fun _ _ => rfl; trivial; trivial)
    | ((with_reducible refine Frame.frame_update_if ?_); exact fun _ => ⟨rfl, Or.inl rfl⟩)
    | with_reducible apply Frame.frame_ite
    | unfold KFile.warn
    | split

theorem case_IN_LOAD_BODY_fixed (line : Str) :
    Frame (fixed_view : Ctx F → _) (fun _ => True)
      (case_IN_LOAD_BODY line : Run (Ctx F) Unit) := by
  unfold KFile.case_IN_LOAD_BODY
  repeat' first
    | ((with_reducible refine Frame.frame_assign ?_); exact fun _ _ => ⟨rfl, Or.inl rfl⟩)
    | ((with_reducible refine Frame.frame_update ?_); exact fun _ => ⟨rfl, Or.inl rfl⟩)
    | with_reducible refine Frame.frame_bind ?_ (fun _ => ?_)
    | ((with_reducible refine Frame.frame_set_state _ ?_ ?_); exact fun _ => rfl; trivial)
    | with_reducible refine Frame.frame_try_catch ?_ (fun _ => ?_)
    | ((with_reducible refine Frame.frame_warn _ _ ?_); exact fun _ _ => rfl)
    | ((with_reducible refine Frame.frame_when_enabled ?_ ?_ ?_); exact fun _ => rfl; trivial)
    | with_reducible exact Frame.frame_pure _
    | with_reducible exact Frame.frame_read
    | with_reducible exact Frame.frame_eval _
    | ((with_reducible refine Frame.frame_zoom ?_); exact fun _ _ => ⟨rfl, Or.inl rfl⟩)
    | ((with_reducible refine Frame.frame_id_list_loop (F := F) _ ?_ _); exact fun _ _ => ⟨rfl, Or.inl rfl⟩)
    | ((with_reducible refine Frame.frame_select_state _ _ ?_ ?_ ?_); exact fun _ _ => rfl; trivial; trivial)
    | ((with_reducible refine Frame.frame_set_state_ite ?_ ?_ ?_); exact fun _ _ => rfl; trivial; trivial)
    | ((with_reducible refine Frame.frame_update_if ?_); exact fun _ => ⟨rfl, Or.inl rfl⟩)
    | with_reducible apply Frame.frame_ite
    | unfold KFile.warn
    | split

theorem case_IN_CONTROL_TERMINATION_fixed (line : Str) :
    Frame (fixed_view : Ctx F → _) (fun _ => True)
      (case_IN_CONTROL_TERMINATION line : Run (Ctx F) Unit) := by
  unfold KFile.case_IN_CONTROL_TERMINATION
  repeat' first
    | ((with_reducible refine Frame.frame_assign ?_); exact fun _ _ => ⟨rfl, Or.inl rfl⟩)
    | ((with_reducible refine Frame.frame_update ?_); exact fun _ => ⟨rfl, Or.inl rfl⟩)
    | with_reducible refine Frame.frame_bind ?_ (fun _ => ?_)
    | ((with_reducible refine Frame.frame_set_state _ ?_ ?_); exact fun _ => rfl; trivial)
    | with_reducible refine Frame.frame_try_catch ?_ (fun _ => ?_)
    | ((with_reducible refine Frame.frame_warn _ _ ?_); exact fun _ _ => rfl)
    | ((with_reducible refine Frame.frame_when_enabled ?_ ?_ ?_); exact fun _ => rfl; trivial)
    | with_reducible exact Frame.frame_pure _
    | with_reducible exact Frame.frame_read
    | with_reducible exact Frame.frame_eval _
    | ((with_reducible refine Frame.frame_zoom ?_); exact fun _ _ => ⟨rfl, Or.inl rfl⟩)
    | ((with_reducible refine Frame.frame_id_list_loop (F := F) _ ?_ _); exact fun _ _ => ⟨rfl, Or.inl rfl⟩)
    | ((with_reducible refine Frame.frame_select_state _ _ ?_ ?_ ?_); exact fun _ _ => rfl; trivial; trivial)
    | ((with_reducible refine Frame.frame_set_state_ite ?_ ?_ ?_); exact fun _ _ => rfl; trivial; trivial)
    | ((with_reducible refine Frame.frame_update_if ?_); exact fun _ => ⟨rfl, Or.inl rfl⟩)
    | with_reducible apply Frame.frame_ite
    | unfold KFile.warn
    | split

theorem case_IN_CONTROL_TIMESTEP_fixed (line : Str) :
    Frame (fixed_view : Ctx F → _) (fun _ => True)
      (case_IN_CONTROL_TIMESTEP line : Run (Ctx F) Unit) := by
  unfold KFile.case_IN_CONTROL_TIMESTEP
  repeat' first
    | ((with_reducible refine Frame.frame_assign ?_); exact fun _ _ => ⟨rfl, Or.inl rfl⟩)
    | ((with_reducible refine Frame.frame_update ?_); exact fun _ => ⟨rfl, Or.inl rfl⟩)
    | with_reducible refine Frame.frame_bind ?_ (fun _ => ?_)
    | ((with_reducible refine Frame.frame_set_state _ ?_ ?_); exact fun _ => rfl; trivial)
    | with_reducible refine Frame.frame_try_catch ?_ (fun _ => ?_)
    | ((with_reducible refine Frame.frame_warn _ _ ?_); exact fun _ _ => rfl)
    | ((with_reducible refine Frame.frame_when_enabled ?_ ?_ ?_); exact fun _ => rfl; trivial)
    | with_reducible exact Frame.frame_pure _
    | with_reducible exact Frame.frame_read
    | with_reducible exact Frame.frame_eval _
    | ((with_reducible refine Frame.frame_zoom ?_); exact fun _ _ => ⟨rfl, Or.inl rfl⟩)
    | ((with_reducible refine Frame.frame_id_list_loop (F := F) _ ?_ _); exact fun _ _ => ⟨rfl, Or.inl rfl⟩)
    | ((with_reducible refine Frame.frame_select_state _ _ ?_ ?_ ?_); exact fun _ _ => rfl; trivial; trivial)
    | ((with_reducible refine Frame.frame_set_state_ite ?_ ?_ ?_); exact fun _ _ => rfl; trivial; trivial)
    | ((with_reducible refine Frame.frame_update_if ?_); exact fun _ => ⟨rfl, Or.inl rfl⟩)
    | with_reducible apply Frame.frame_ite
    | unfold KFile.warn
    | split

theorem case_IN_CONTROL_ENERGY_fixed (line : Str) :
    Frame (fixed_view : Ctx F → _) (fun _ => True)
      (case_IN_CONTROL_ENERGY line : Run (Ctx F) Unit) := by
  unfold KFile.case_IN_CONTROL_ENERGY
  repeat' first
    | ((with_reducible refine Frame.frame_assign ?_); exact fun _ _ => ⟨rfl, Or.inl rfl⟩)
    | ((with_reducible refine Frame.frame_update ?_); exact fun _ => ⟨rfl, Or.inl rfl⟩)
    | with_reducible refine Frame.frame_bind ?_ (fun _ => ?_)
    | ((with_reducible refine Frame.frame_set_state _ ?_ ?_); exact fun _ => rfl; trivial)
    | with_reducible refine Frame.frame_try_catch ?_ (fun _ => ?_)
    | ((with_reducible refine Frame.frame_warn _ _ ?_); exact fun _ _ => rfl)
    | ((with_reducible refine Frame.frame_when_enabled ?_ ?_ ?_); exact fun _ => rfl; trivial)
    | with_reducible exact Frame.frame_pure _
    | with_reducible exact Frame.frame_read
    | with_reducible exact Frame.frame_eval _
    | ((with_reducible refine Frame.frame_zoom ?_); exact fun _ _ => ⟨rfl, Or.inl rfl⟩)
    | ((with_reducible refine Frame.frame_id_list_loop (F := F) _ ?_ _); exact fun _ _ => ⟨rfl, Or.inl rfl⟩)
    | ((with_reducible refine Frame.frame_select_state _ _ ?_ ?_ ?_); exact fun _ _ => rfl; trivial; trivial)
    | ((with_reducible refine Frame.frame_set_state_ite ?_ ?_ ?_); exact fun _ _ => rfl; trivial; trivial)
    | ((with_reducible refine Frame.frame_update_if ?_); exact fun _ => ⟨rfl, Or.inl rfl⟩)
    | with_reducible apply Frame.frame_ite
    | unfold KFile.warn
    | split

theorem case_IN_CONTROL_OUTPUT_fixed (line : Str) :
    Frame (fixed_view : Ctx F → _) (fun _ => True)
      (case_IN_CONTROL_OUTPUT line : Run (Ctx F) Unit) := by
  unfold KFile.case_IN_CONTROL_OUTPUT
  repeat' first
    | ((with_reducible refine Frame.frame_assign ?_); exact fun _ _ => ⟨rfl, Or.inl rfl⟩)
    | ((with_reducible refine Frame.frame_update ?_); exact fun _ => ⟨rfl, Or.inl rfl⟩)
    | with_reducible refine Frame.frame_bind ?_ (fun _ => ?_)
    | ((with_reducible refine Frame.frame_set_state _ ?_ ?_); exact fun _ => rfl; trivial)
    | with_reducible refine Frame.frame_try_catch ?_ (fun _ => ?_)
    | ((with_reducible refine Frame.frame_warn _ _ ?_); exact fun _ _ => rfl)
    | ((with_reducible refine Frame.frame_when_enabled ?_ ?_ ?_); exact fun _ => rfl; trivial)
    | with_reducible exact Frame.frame_pure _
    | with_reducible exact Frame.frame_read
    | with_reducible exact Frame.frame_eval _
    | ((with_reducible refine Frame.frame_zoom ?_); exact fun _ _ => ⟨rfl, Or.inl rfl⟩)
    | ((with_reducible refine Frame.frame_id_list_loop (F := F) _ ?_ _); exact fun _ _ => ⟨rfl, Or.inl rfl⟩)
    | ((with_reducible refine Frame.frame_select_state _ _ ?_ ?_ ?_); exact fun _ _ => rfl; trivial; trivial)
    | ((with_reducible refine Frame.frame_set_state_ite ?_ ?_ ?_); exact fun _ _ => rfl; trivial; trivial)
    | ((with_reducible refine Frame.frame_update_if ?_); exact fun _ => ⟨rfl, Or.inl rfl⟩)
    | with_reducible apply Frame.frame_ite
    | unfold KFile.warn
    | split

theorem case_IN_CONTROL_SHELL_fixed (line : Str) :
    Frame (fixed_view : Ctx F → _) (fun _ => True)
      (case_IN_CONTROL_SHELL line : Run (Ctx F) Unit) := by
  unfold KFile.case_IN_CONTROL_SHELL
  repeat' first
    | ((with_reducible refine Frame.frame_assign ?_); exact fun _ _ => ⟨rfl, Or.inl rfl⟩)
    | ((with_reducible refine Frame.frame_update ?_); exact fun _ => ⟨rfl, Or.inl rfl⟩)
    | with_reducible refine Frame.frame_bind ?_ (fun _ => ?_)
    | ((with_reducible refine Frame.frame_set_state _ ?_ ?_); exact fun _ => rfl; trivial)
    | with_reducible refine Frame.frame_try_catch ?_ (fun _ => ?_)
    | ((with_reducible refine Frame.frame_warn _ _ ?_); exact fun _ _ => rfl)
    | ((with_reducible refine Frame.frame_when_enabled ?_ ?_ ?_); exact fun _ => rfl; trivial)
    | with_reducible exact Frame.frame_pure _
    | with_reducible exact Frame.frame_read
    | with_reducible exact Frame.frame_eval _
    | ((with_reducible refine Frame.frame_zoom ?_); exact fun _ _ => ⟨rfl, Or.inl rfl⟩)
    | ((with_reducible refine Frame.frame_id_list_loop (F := F) _ ?_ _); exact fun _ _ => ⟨rfl, Or.inl rfl⟩)
    | ((with_reducible refine Frame.frame_select_state _ _ ?_ ?_ ?_); exact fun _ _ => rfl; trivial; trivial)
    | ((with_reducible refine Frame.frame_set_state_ite ?_ ?_ ?_); exact fun _ _ => rfl; trivial; trivial)
    | ((with_reducible refine Frame.frame_update_if ?_); exact fun _ => ⟨rfl, Or.inl rfl⟩)
    | with_reducible apply Frame.frame_ite
    | unfold KFile.warn
    | split

theorem case_IN_CONTROL_CONTACT_fixed (line : Str) :
    Frame (fixed_view : Ctx F → _) (fun _ => True)
      (case_IN_CONTROL_CONTACT line : Run (Ctx F) Unit) := by
  unfold KFile.case_IN_CONTROL_CONTACT
  repeat' first
    | ((with_reducible refine Frame.frame_assign ?_); exact fun _ _ => ⟨rfl, Or.inl rfl⟩)
    | ((with_reducible refine Frame.frame_update ?_); exact fun _ => ⟨rfl, Or.inl rfl⟩)
    | with_reducible refine Frame.frame_bind ?_ (fun _ => ?_)
    | ((with_reducible refine Frame.frame_set_state _ ?_ ?_); exact fun _ => rfl; trivial)
    | with_reducible refine Frame.frame_try_catch ?_ (fun _ => ?_)
    | ((with_reducible refine Frame.frame_warn _ _ ?_); exact fun _ _ => rfl)
    | ((with_reducible refine Frame.frame_when_enabled ?_ ?_ ?_); exact fun _ => rfl; trivial)
    | with_reducible exact Frame.frame_pure _
    | with_reducible exact Frame.frame_read
    | with_reducible exact Frame.frame_eval _
    | ((with_reducible refine Frame.frame_zoom ?_); exact fun _ _ => ⟨rfl, Or.inl rfl⟩)
    | ((with_reducible refine Frame.frame_id_list_loop (F := F) _ ?_ _); exact fun _ _ => ⟨rfl, Or.inl rfl⟩)
    | ((with_reducible refine Frame.frame_select_state _ _ ?_ ?_ ?_); exact fun _ _ => rfl; trivial; trivial)
    | ((with_reducible refine Frame.frame_set_state_ite ?_ ?_ ?_); exact fun _ _ => rfl; trivial; trivial)
    | ((with_reducible refine Frame.frame_update_if ?_); exact fun _ => ⟨rfl, Or.inl rfl⟩)
    | with_reducible apply Frame.frame_ite
    | unfold KFile.warn
    | split

theorem case_IN_CONTROL_HOURGLASS_fixed (line : Str) :
    Frame (fixed_view : Ctx F → _) (fun _ => True)
      (case_IN_CONTROL_HOURGLASS line : Run (Ctx F) Unit) := by
  unfold KFile.case_IN_CONTROL_HOURGLASS
  repeat' first
    | ((with_reducible refine Frame.frame_assign ?_); exact fun _ _ => ⟨rfl, Or.inl rfl⟩)
    | ((with_reducible refine Frame.frame_update ?_); exact fun _ => ⟨rfl, Or.inl rfl⟩)
    | with_reducible refine Frame.frame_bind ?_ (fun _ => ?_)
    | ((with_reducible refine Frame.frame_set_state _ ?_ ?_); exact fun _ => rfl; trivial)
    | with_reducible refine Frame.frame_try_catch ?_ (fun _ => ?_)
    | ((with_reducible refine Frame.frame_warn _ _ ?_); exact fun _ _ => rfl)
    | ((with_reducible refine Frame.frame_when_enabled ?_ ?_ ?_); exact fun _ => rfl; trivial)
    | with_reducible exact Frame.frame_pure _
    | with_reducible exact Frame.frame_read
    | with_reducible exact Frame.frame_eval _
    | ((with_reducible refine Frame.frame_zoom ?_); exact fun _ _ => ⟨rfl, Or.inl rfl⟩)
    | ((with_reducible refine Frame.frame_id_list_loop (F := F) _ ?_ _); exact fun _ _ => ⟨rfl, Or.inl rfl⟩)
    | ((with_reducible refine Frame.frame_select_state _ _ ?_ ?_ ?_); exact fun _ _ => rfl; trivial; trivial)
    | ((with_reducible refine Frame.frame_set_state_ite ?_ ?_ ?_); exact fun _ _ => rfl; trivial; trivial)
    | ((with_reducible refine Frame.frame_update_if ?_); exact fun _ => ⟨rfl, Or.inl rfl⟩)
    | with_reducible apply Frame.frame_ite
    | unfold KFile.warn
    | split

theorem case_IN_CONTROL_BULK_VISCOSITY_fixed (line : Str) :
    Frame (fixed_view : Ctx F → _) (fun _ => True)
      (case_IN_CONTROL_BULK_VISCOSITY line : Run (Ctx F) Unit) := by
  unfold KFile.case_IN_CONTROL_BULK_VISCOSITY
  repeat' first
    | ((with_reducible refine Frame.frame_assign ?_); exact fun _ _ => ⟨rfl, Or.inl rfl⟩)
    | ((with_reducible refine Frame.frame_update ?_); exact fun _ => ⟨rfl, Or.inl rfl⟩)
    | with_reducible refine Frame.frame_bind ?_ (fun _ => ?_)
    | ((with_reducible refine Frame.frame_set_state _ ?_ ?_); exact fun _ => rfl; trivial)
    | with_reducible refine Frame.frame_try_catch ?_ (fun _ => ?_)
    | ((with_reducible refine Frame.frame_warn _ _ ?_); exact fun _ _ => rfl)
    | ((with_reducible refine Frame.frame_when_enabled ?_ ?_ ?_); exact fun _ => rfl; trivial)
    | with_reducible exact Frame.frame_pure _
    | with_reducible exact Frame.frame_read
    | with_reducible exact Frame.frame_eval _
    | ((with_reducible refine Frame.frame_zoom ?_); exact fun _ _ => ⟨rfl, Or.inl rfl⟩)
    | ((with_reducible refine Frame.frame_id_list_loop (F := F) _ ?_ _); exact fun _ _ => ⟨rfl, Or.inl rfl⟩)
    | ((with_reducible refine Frame.frame_select_state _ _ ?_ ?_ ?_); exact fun _ _ => rfl; trivial; trivial)
    | ((with_reducible refine Frame.frame_set_state_ite ?_ ?_ ?_); exact fun _ _ => rfl; trivial; trivial)
    | ((with_reducible refine Frame.frame_update_if ?_); exact fun _ => ⟨rfl, Or.inl rfl⟩)
    | with_reducible apply Frame.frame_ite
    | unfold KFile.warn
    | split

theorem case_IN_DATABASE_BINARY_fixed (line : Str) :
    Frame (fixed_view : Ctx F → _) (fun _ => True)
      (case_IN_DATABASE_BINARY line : Run (Ctx F) Unit) := by
  unfold KFile.case_IN_DATABASE_BINARY
  repeat' first
    | ((with_reducible refine Frame.frame_assign ?_); exact fun _ _ => ⟨rfl, Or.inl rfl⟩)
    | ((with_reducible refine Frame.frame_update ?_); exact fun _ => ⟨rfl, Or.inl rfl⟩)
    | with_reducible refine Frame.frame_bind ?_ (fun _ => ?_)
    | ((with_reducible refine Frame.frame_set_state _ ?_ ?_); exact fun _ => rfl; trivial)
    | with_reducible refine Frame.frame_try_catch ?_ (fun _ => ?_)
    | ((with_reducible refine Frame.frame_warn _ _ ?_); exact fun _ _ => rfl)
    | ((with_reducible refine Frame.frame_when_enabled ?_ ?_ ?_); exact fun _ => rfl; trivial)
    | with_reducible exact Frame.frame_pure _
    | with_reducible exact Frame.frame_read
    | with_reducible exact Frame.frame_eval _
    | ((with_reducible refine Frame.frame_zoom ?_); exact fun _ _ => ⟨rfl, Or.inl rfl⟩)
    | ((with_reducible refine Frame.frame_id_list_loop (F := F) _ ?_ _); exact fun _ _ => ⟨rfl, Or.inl rfl⟩)
    | ((with_reducible refine Frame.frame_select_state _ _ ?_ ?_ ?_); exact fun _ _ => rfl; trivial; trivial)
    | ((with_reducible refine Frame.frame_set_state_ite ?_ ?_ ?_); exact fun _ _ => rfl; trivial; trivial)
    | ((with_reducible refine Frame.frame_update_if ?_); exact fun _ => ⟨rfl, Or.inl rfl⟩)
    | with_reducible apply Frame.frame_ite
    | unfold KFile.warn
    | split

theorem case_IN_DATABASE_ASCII_fixed (line : Str) :
    Frame (fixed_view : Ctx F → _) (fun _ => True)
      (case_IN_DATABASE_ASCII line : Run (Ctx F) Unit) := by
  unfold KFile.case_IN_DATABASE_ASCII
  repeat' first
    | ((with_reducible refine Frame.frame_assign ?_); exact fun _ _ => ⟨rfl, Or.inl rfl⟩)
    | ((with_reducible refine Frame.frame_update ?_); exact fun _ => ⟨rfl, Or.inl rfl⟩)
    | with_reducible refine Frame.frame_bind ?_ (fun _ => ?_)
    | ((with_reducible refine Frame.frame_set_state _ ?_ ?_); exact fun _ => rfl; trivial)
    | with_reducible refine Frame.frame_try_catch ?_ (fun _ => ?_)
    | ((with_reducible refine Frame.frame_warn _ _ ?_); exact fun _ _ => rfl)
    | ((with_reducible refine Frame.frame_when_enabled ?_ ?_ ?_); exact fun _ => rfl; trivial)
    | with_reducible exact Frame.frame_pure _
    | with_reducible exact Frame.frame_read
    | with_reducible exact Frame.frame_eval _
    | ((with_reducible refine Frame.frame_zoom ?_); exact fun _ _ => ⟨rfl, Or.inl rfl⟩)
    | ((with_reducible refine Frame.frame_id_list_loop (F := F) _ ?_ _); exact fun _ _ => ⟨rfl, Or.inl rfl⟩)
    | ((with_reducible refine Frame.frame_select_state _ _ ?_ ?_ ?_); exact fun _ _ => rfl; trivial; trivial)
    | ((with_reducible refine Frame.frame_set_state_ite ?_ ?_ ?_); exact fun _ _ => rfl; trivial; trivial)
    | ((with_reducible refine Frame.frame_update_if ?_); exact fun _ => ⟨rfl, Or.inl rfl⟩)
    | with_reducible apply Frame.frame_ite
    | unfold KFile.warn
    | split

theorem case_IN_DATABASE_HISTORY_NODE_fixed (line : Str) :
    Frame (fixed_view : Ctx F → _) (fun _ => True)
      (case_IN_DATABASE_HISTORY_NODE line : Run (Ctx F) Unit) := by
  unfold KFile.case_IN_DATABASE_HISTORY_NODE
  repeat' first
    | ((with_reducible refine Frame.frame_assign ?_); exact fun _ _ => ⟨rfl, Or.inl rfl⟩)
    | ((with_reducible refine Frame.frame_update ?_); exact fun _ => ⟨rfl, Or.inl rfl⟩)
    | with_reducible refine Frame.frame_bind ?_ (fun _ => ?_)
    | ((with_reducible refine Frame.frame_set_state _ ?_ ?_); exact fun _ => rfl; trivial)
    | with_reducible refine Frame.frame_try_catch ?_ (fun _ => ?_)
    | ((with_reducible refine Frame.frame_warn _ _ ?_); exact fun _ _ => rfl)
    | ((with_reducible refine Frame.frame_when_enabled ?_ ?_ ?_); exact fun _ => rfl; trivial)
    | with_reducible exact Frame.frame_pure _
    | with_reducible exact Frame.frame_read
    | with_reducible exact Frame.frame_eval _
    | ((with_reducible refine Frame.frame_zoom ?_); exact fun _ _ => ⟨rfl, Or.inl rfl⟩)
    | ((with_reducible refine Frame.frame_id_list_loop (F := F) _ ?_ _); exact fun _ _ => ⟨rfl, Or.inl rfl⟩)
    | ((with_reducible refine Frame.frame_select_state _ _ ?_ ?_ ?_); exact fun _ _ => rfl; trivial; trivial)
    | ((with_reducible refine Frame.frame_set_state_ite ?_ ?_ ?_); exact fun _ _ => rfl; trivial; trivial)
    | ((with_reducible refine Frame.frame_update_if ?_); exact fun _ => ⟨rfl, Or.inl rfl⟩)
    | with_reducible apply Frame.frame_ite
    | unfold KFile.warn
    | split

theorem case_IN_DATABASE_HISTORY_ELEMENT_fixed (line : Str) :
    Frame (fixed_view : Ctx F → _) (fun _ => True)
      (case_IN_DATABASE_HISTORY_ELEMENT line : Run (Ctx F) Unit) := by
  unfold KFile.case_IN_DATABASE_HISTORY_ELEMENT
  repeat' first
    | ((with_reducible refine Frame.frame_assign ?_); exact fun _ _ => ⟨rfl, Or.inl rfl⟩)
    | ((with_reducible refine Frame.frame_update ?_); exact fun _ => ⟨rfl, Or.inl rfl⟩)
    | with_reducible refine Frame.frame_bind ?_ (fun _ => ?_)
    | ((with_reducible refine Frame.frame_set_state _ ?_ ?_); exact fun _ => rfl; trivial)
    | with_reducible refine Frame.frame_try_catch ?_ (fun _ => ?_)
    | ((with_reducible refine Frame.frame_warn _ _ ?_); exact fun _ _ => rfl)
    | ((with_reducible refine Frame.frame_when_enabled ?_ ?_ ?_); exact fun _ => rfl; trivial)
    | with_reducible exact Frame.frame_pure _
    | with_reducible exact Frame.frame_read
    | with_reducible exact Frame.frame_eval _
    | ((with_reducible refine Frame.frame_zoom ?_); exact fun _ _ => ⟨rfl, Or.inl rfl⟩)
    | ((with_reducible refine Frame.frame_id_list_loop (F := F) _ ?_ _); exact fun _ _ => ⟨rfl, Or.inl rfl⟩)
    | ((with_reducible refine Frame.frame_select_state _ _ ?_ ?_ ?_); exact fun _ _ => rfl; trivial; trivial)
    | ((with_reducible refine Frame.frame_set_state_ite ?_ ?_ ?_); exact fun _ _ => rfl; trivial; trivial)
    | ((with_reducible refine Frame.frame_update_if ?_); exact fun _ => ⟨rfl, Or.inl rfl⟩)
    | with_reducible apply Frame.frame_ite
    | unfold KFile.warn
    | split

theorem case_IN_DATABASE_CROSS_SECTION_fixed (line : Str) :
    Frame (fixed_view : Ctx F → _) (fun _ => True)
      (case_IN_DATABASE_CROSS_SECTION line : Run (Ctx F) Unit) := by
  unfold KFile.case_IN_DATABASE_CROSS_SECTION
  repeat' first
    | ((with_reducible refine Frame.frame_assign ?_); exact fun _ _ => ⟨rfl, Or.inl rfl⟩)
    | ((with_reducible refine Frame.frame_update ?_); exact fun _ => ⟨rfl, Or.inl rfl⟩)
    | with_reducible refine Frame.frame_bind ?_ (fun _ => ?_)
    | ((with_reducible refine Frame.frame_set_state _ ?_ ?_); exact fun _ => rfl; trivial)
    | with_reducible refine Frame.frame_try_catch ?_ (fun _ => ?_)
    | ((with_reducible refine Frame.frame_warn _ _ ?_); exact fun _ _ => rfl)
    | ((with_reducible refine Frame.frame_when_enabled ?_ ?_ ?_); exact fun _ => rfl; trivial)
    | with_reducible exact Frame.frame_pure _
    | with_reducible exact Frame.frame_read
    | with_reducible exact Frame.frame_eval _
    | ((with_reducible refine Frame.frame_zoom ?_); exact fun _ _ => ⟨rfl, Or.inl rfl⟩)
    | ((with_reducible refine Frame.frame_id_list_loop (F := F) _ ?_ _); exact fun _ _ => ⟨rfl, Or.inl rfl⟩)
    | ((with_reducible refine Frame.frame_select_state _ _ ?_ ?_ ?_); exact fun _ _ => rfl; trivial; trivial)
    | ((with_reducible refine Frame.frame_set_state_ite ?_ ?_ ?_); exact fun _ _ => rfl; trivial; trivial)
    | ((with_reducible refine Frame.frame_update_if ?_); exact fun _ => ⟨rfl, Or.inl rfl⟩)
    | with_reducible apply Frame.frame_ite
    | unfold KFile.warn
    | split

theorem case_IN_INITIAL_VELOCITY_fixed (line : Str) :
    Frame (fixed_view : Ctx F → _) (fun _ => True)
      (case_IN_INITIAL_VELOCITY line : Run (Ctx F) Unit) := by
  unfold KFile.case_IN_INITIAL_VELOCITY
  repeat' first
    | ((with_reducible refine Frame.frame_assign ?_); exact fun _ _ => ⟨rfl, Or.inl rfl⟩)
    | ((with_reducible refine Frame.frame_update ?_); exact fun _ => ⟨rfl, Or.inl rfl⟩)
    | with_reducible refine Frame.frame_bind ?_ (fun _ => ?_)
    | ((with_reducible refine Frame.frame_set_state _ ?_ ?_); exact fun _ => rfl; trivial)
    | with_reducible refine Frame.frame_try_catch ?_ (fun _ => ?_)
    | ((with_reducible refine Frame.frame_warn _ _ ?_); exact fun _ _ => rfl)
    | ((with_reducible refine Frame.frame_when_enabled ?_ ?_ ?_); exact fun _ => rfl; trivial)
    | with_reducible exact Frame.frame_pure _
    | with_reducible exact Frame.frame_read
    | with_reducible exact Frame.frame_eval _
    | ((with_reducible refine Frame.frame_zoom ?_); exact fun _ _ => ⟨rfl, Or.inl rfl⟩)
    | ((with_reducible refine Frame.frame_id_list_loop (F := F) _ ?_ _); exact fun _ _ => ⟨rfl, Or.inl rfl⟩)
    | ((with_reducible refine Frame.frame_select_state _ _ ?_ ?_ ?_); exact fun _ _ => rfl; trivial; trivial)
    | ((with_reducible refine Frame.frame_set_state_ite ?_ ?_ ?_); exact fun _ _ => rfl; trivial; trivial)
    | ((with_reducible refine Frame.frame_update_if ?_); exact fun _ => ⟨rfl, Or.inl rfl⟩)
    | with_reducible apply Frame.frame_ite
    | unfold KFile.warn
    | unfold KFile.push_current_initial_velocity
    | split

theorem case_IN_INITIAL_VELOCITY_GENERATION_fixed (line : Str) :
    Frame (fixed_view : Ctx F → _) (fun _ => True)
      (case_IN_INITIAL_VELOCITY_GENERATION line : Run (Ctx F) Unit) := by
  unfold KFile.case_IN_INITIAL_VELOCITY_GENERATION
  repeat' first
    | ((with_reducible refine Frame.frame_assign ?_); exact fun _ _ => ⟨rfl, Or.inl rfl⟩)
    | ((with_reducible refine Frame.frame_update ?_); exact fun _ => ⟨rfl, Or.inl rfl⟩)
    | with_reducible refine Frame.frame_bind ?_ (fun _ => ?_)
    | ((with_reducible refine Frame.frame_set_state _ ?_ ?_); exact fun _ => rfl; trivial)
    | with_reducible refine Frame.frame_try_catch ?_ (fun _ => ?_)
    | ((with_reducible refine Frame.frame_warn _ _ ?_); exact fun _ _ => rfl)
    | ((with_reducible refine Frame.frame_when_enabled ?_ ?_ ?_); exact fun _ => rfl; trivial)
    | with_reducible exact Frame.frame_pure _
    | with_reducible exact Frame.frame_read
    | with_reducible exact Frame.frame_eval _
    | ((with_reducible refine Frame.frame_zoom ?_); exact fun _ _ => ⟨rfl, Or.inl rfl⟩)
    | ((with_reducible refine Frame.frame_id_list_loop (F := F) _ ?_ _); exact fun _ _ => ⟨rfl, Or.inl rfl⟩)
    | ((with_reducible refine Frame.frame_select_state _ _ ?_ ?_ ?_); exact fun _ _ => rfl; trivial; trivial)
    | ((with_reducible refine Frame.frame_set_state_ite ?_ ?_ ?_); exact fun _ _ => rfl; trivial; trivial)
    | ((with_reducible refine Frame.frame_update_if ?_); exact fun _ => ⟨rfl, Or.inl rfl⟩)
    | with_reducible apply Frame.frame_ite
    | unfold KFile.warn
    | unfold KFile.push_current_initial_velocity
    | split

theorem case_IN_CONSTRAINED_NODAL_RIGID_BODY_fixed (line : Str) :
    Frame (fixed_view : Ctx F → _) (fun _ => True)
      (case_IN_CONSTRAINED_NODAL_RIGID_BODY line : Run (Ctx F) Unit) := by
  unfold KFile.case_IN_CONSTRAINED_NODAL_RIGID_BODY
  repeat' first
    | ((with_reducible refine Frame.frame_assign ?_); exact fun _ _ => ⟨rfl, Or.inl rfl⟩)
    | ((with_reducible refine Frame.frame_update ?_); exact fun _ => ⟨rfl, Or.inl rfl⟩)
    | with_reducible refine Frame.frame_bind ?_ (fun _ => ?_)
    | ((with_reducible refine Frame.frame_set_state _ ?_ ?_); exact fun _ => rfl; trivial)
    | with_reducible refine Frame.frame_try_catch ?_ (fun _ => ?_)
    | ((with_reducible refine Frame.frame_warn _ _ ?_); exact fun _ _ => rfl)
    | ((with_reducible refine Frame.frame_when_enabled ?_ ?_ ?_); exact fun _ => rfl; trivial)
    | with_reducible exact Frame.frame_pure _
    | with_reducible exact Frame.frame_read
    | with_reducible exact Frame.frame_eval _
    | ((with_reducible refine Frame.frame_zoom ?_); exact fun _ _ => ⟨rfl, Or.inl rfl⟩)
    | ((with_reducible refine Frame.frame_id_list_loop (F := F) _ ?_ _); exact fun _ _ => ⟨rfl, Or.inl rfl⟩)
    | ((with_reducible refine Frame.frame_select_state _ _ ?_ ?_ ?_); exact fun _ _ => rfl; trivial; trivial)
    | ((with_reducible refine Frame.frame_set_state_ite ?_ ?_ ?_); exact fun _ _ => rfl; trivial; trivial)
    | ((with_reducible refine Frame.frame_update_if ?_); exact fun _ => ⟨rfl, Or.inl rfl⟩)
    | with_reducible apply Frame.frame_ite
    | unfold KFile.warn
    | unfold KFile.push_current_nodal_rigid_body
    | split

theorem case_IN_CONSTRAINED_NODAL_RIGID_BODY_INERTIA_fixed (line : Str) :
    Frame (fixed_view : Ctx F → _) (fun _ => True)
      (case_IN_CONSTRAINED_NODAL_RIGID_BODY_INERTIA line : Run (Ctx F) Unit) := by
  unfold KFile.case_IN_CONSTRAINED_NODAL_RIGID_BODY_INERTIA
  repeat' first
    | ((with_reducible refine Frame.frame_assign ?_); exact fun _ _ => ⟨rfl, Or.inl rfl⟩)
    | ((with_reducible refine Frame.frame_update ?_); exact fun _ => ⟨rfl, Or.inl rfl⟩)
    | with_reducible refine Frame.frame_bind ?_ (fun _ => ?_)
    | ((with_reducible refine Frame.frame_set_state _ ?_ ?_); exact fun _ => rfl; trivial)
    | with_reducible refine Frame.frame_try_catch ?_ (fun _ => ?_)
    | ((with_reducible refine Frame.frame_warn _ _ ?_); exact fun _ _ => rfl)
    | ((with_reducible refine Frame.frame_when_enabled ?_ ?_ ?_); exact fun _ => rfl; trivial)
    | with_reducible exact Frame.frame_pure _
    | with_reducible exact Frame.frame_read
    | with_reducible exact Frame.frame_eval _
    | ((with_reducible refine Frame.frame_zoom ?_); exact fun _ _ => ⟨rfl, Or.inl rfl⟩)
    | ((with_reducible refine Frame.frame_id_list_loop (F := F) _ ?_ _); exact fun _ _ => ⟨rfl, Or.inl rfl⟩)
    | ((with_reducible refine Frame.frame_select_state _ _ ?_ ?_ ?_); exact fun _ _ => rfl; trivial; trivial)
    | ((with_reducible refine Frame.frame_set_state_ite ?_ ?_ ?_); exact fun _ _ => rfl; trivial; trivial)
    | ((with_reducible refine Frame.frame_update_if ?_); exact fun _ => ⟨rfl, Or.inl rfl⟩)
    | with_reducible apply Frame.frame_ite
    | unfold KFile.warn
    | unfold KFile.push_current_nodal_rigid_body
    | split

theorem case_IN_CONSTRAINED_EXTRA_NODES_fixed (line : Str) :
    Frame (fixed_view : Ctx F → _) (fun _ => True)
      (case_IN_CONSTRAINED_EXTRA_NODES line : Run (Ctx F) Unit) := by
  unfold KFile.case_IN_CONSTRAINED_EXTRA_NODES
  repeat' first
    | ((with_reducible refine Frame.frame_assign ?_); exact fun _ _ => ⟨rfl, Or.inl rfl⟩)
    | ((with_reducible refine Frame.frame_update ?_); exact fun _ => ⟨rfl, Or.inl rfl⟩)
    | with_reducible refine Frame.frame_bind ?_ (fun _ => ?_)
    | ((with_reducible refine Frame.frame_set_state _ ?_ ?_); exact fun _ => rfl; trivial)
    | with_reducible refine Frame.frame_try_catch ?_ (fun _ => ?_)
    | ((with_reducible refine Frame.frame_warn _ _ ?_); exact fun _ _ => rfl)
    | ((with_reducible refine Frame.frame_when_enabled ?_ ?_ ?_); exact fun _ => rfl; trivial)
    | with_reducible exact Frame.frame_pure _
    | with_reducible exact Frame.frame_read
    | with_reducible exact Frame.frame_eval _
    | ((with_reducible refine Frame.frame_zoom ?_); exact fun _ _ => ⟨rfl, Or.inl rfl⟩)
    | ((with_reducible refine Frame.frame_id_list_loop (F := F) _ ?_ _); exact fun _ _ => ⟨rfl, Or.inl rfl⟩)
    | ((with_reducible refine Frame.frame_select_state _ _ ?_ ?_ ?_); exact fun _ _ => rfl; trivial; trivial)
    | ((with_reducible refine Frame.frame_set_state_ite ?_ ?_ ?_); exact fun _ _ => rfl; trivial; trivial)
    | ((with_reducible refine Frame.frame_update_if ?_); exact fun _ => ⟨rfl, Or.inl rfl⟩)
    | with_reducible apply Frame.frame_ite
    | unfold KFile.warn
    | split

theorem case_IN_CONSTRAINED_JOINT_fixed (line : Str) :
    Frame (fixed_view : Ctx F → _) (fun _ => True)
      (case_IN_CONSTRAINED_JOINT line : Run (Ctx F) Unit) := by
  unfold KFile.case_IN_CONSTRAINED_JOINT
  repeat' first
    | ((with_reducible refine Frame.frame_assign ?_); exact fun _ _ => ⟨rfl, Or.inl rfl⟩)
    | ((with_reducible refine Frame.frame_update ?_); exact fun _ => ⟨rfl, Or.inl rfl⟩)
    | with_reducible refine Frame.frame_bind ?_ (fun _ => ?_)
    | ((with_reducible refine Frame.frame_set_state _ ?_ ?_); exact fun _ => rfl; trivial)
    | with_reducible refine Frame.frame_try_catch ?_ (fun _ => ?_)
    | ((with_reducible refine Frame.frame_warn _ _ ?_); exact fun _ _ => rfl)
    | ((with_reducible refine Frame.frame_when_enabled ?_ ?_ ?_); exact fun _ => rfl; trivial)
    | with_reducible exact Frame.frame_pure _
    | with_reducible exact Frame.frame_read
    | with_reducible exact Frame.frame_eval _
    | ((with_reducible refine Frame.frame_zoom ?_); exact fun _ _ => ⟨rfl, Or.inl rfl⟩)
    | ((with_reducible refine Frame.frame_id_list_loop (F := F) _ ?_ _); exact fun _ _ => ⟨rfl, Or.inl rfl⟩)
    | ((with_reducible refine Frame.frame_select_state _ _ ?_ ?_ ?_); exact fun _ _ => rfl; trivial; trivial)
    | ((with_reducible refine Frame.frame_set_state_ite ?_ ?_ ?_); exact fun _ _ => rfl; trivial; trivial)
    | ((with_reducible refine Frame.frame_update_if ?_); exact fun _ => ⟨rfl, Or.inl rfl⟩)
    | with_reducible apply Frame.frame_ite
    | unfold KFile.warn
    | split

theorem case_IN_CONSTRAINED_SPOTWELD_fixed (line : Str) :
    Frame (fixed_view : Ctx F → _) (fun _ => True)
      (case_IN_CONSTRAINED_SPOTWELD line : Run (Ctx F) Unit) := by
  unfold KFile.case_IN_CONSTRAINED_SPOTWELD
  repeat' first
    | ((with_reducible refine Frame.frame_assign ?_); exact fun _ _ => ⟨rfl, Or.inl rfl⟩)
    | ((with_reducible refine Frame.frame_update ?_); exact fun _ => ⟨rfl, Or.inl rfl⟩)
    | with_reducible refine Frame.frame_bind ?_ (fun _ => ?_)
    | ((with_reducible refine Frame.frame_set_state _ ?_ ?_); exact fun _ => rfl; trivial)
    | with_reducible refine Frame.frame_try_catch ?_ (fun _ => ?_)
    | ((with_reducible refine Frame.frame_warn _ _ ?_); exact fun _ _ => rfl)
    | ((with_reducible refine Frame.frame_when_enabled ?_ ?_ ?_); exact fun _ => rfl; trivial)
    | with_reducible exact Frame.frame_pure _
    | with_reducible exact Frame.frame_read
    | with_reducible exact Frame.frame_eval _
    | ((with_reducible refine Frame.frame_zoom ?_); exact fun _ _ => ⟨rfl, Or.inl rfl⟩)
    | ((with_reducible refine Frame.frame_id_list_loop (F := F) _ ?_ _); exact fun _ _ => ⟨rfl, Or.inl rfl⟩)
    | ((with_reducible refine Frame.frame_select_state _ _ ?_ ?_ ?_); exact fun _ _ => rfl; trivial; trivial)
    | ((with_reducible refine Frame.frame_set_state_ite ?_ ?_ ?_); exact fun _ _ => rfl; trivial; trivial)
    | ((with_reducible refine Frame.frame_update_if ?_); exact fun _ => ⟨rfl, Or.inl rfl⟩)
    | with_reducible apply Frame.frame_ite
    | unfold KFile.warn
    | split

theorem process_keyword_fixed (u : Str) :
    Frame (fixed_view : Ctx F → _) (fun _ => True) (process_keyword u : Run (Ctx F) Unit) := by
  unfold process_keyword begin_set begin_section begin_contact begin_material begin_curve
    begin_boundary_spc begin_boundary_motion begin_load_node begin_load_body
    begin_database_binary begin_database_ascii begin_database_history_node
    begin_database_history_element begin_initial_velocity_generation begin_initial_velocity
    begin_constrained_nodal_rigid_body begin_constrained_extra_nodes begin_constrained_joint
    begin_constrained_spotweld other_keyword push_current_set push_current_material
    push_current_curve
  repeat' first
    | ((with_reducible refine Frame.frame_assign ?_); exact fun _ _ => ⟨rfl, Or.inl rfl⟩)
    | ((with_reducible refine Frame.frame_update ?_); exact fun _ => ⟨rfl, Or.inl rfl⟩)
    | with_reducible refine Frame.frame_bind ?_ (fun _ => ?_)
    | ((with_reducible refine Frame.frame_set_state _ ?_ ?_); exact fun _ => rfl; trivial)
    | with_reducible refine Frame.frame_try_catch ?_ (fun _ => ?_)
    | ((with_reducible refine Frame.frame_warn _ _ ?_); exact fun _ _ => rfl)
    | ((with_reducible refine Frame.frame_when_enabled ?_ ?_ ?_); exact fun _ => rfl; trivial)
    | with_reducible exact Frame.frame_pure _
    | with_reducible exact Frame.frame_read
    | with_reducible exact Frame.frame_eval _
    | ((with_reducible refine Frame.frame_zoom ?_); exact fun _ _ => ⟨rfl, Or.inl rfl⟩)
    | ((with_reducible refine Frame.frame_id_list_loop (F := F) _ ?_ _); exact fun _ _ => ⟨rfl, Or.inl rfl⟩)
    | ((with_reducible refine Frame.frame_select_state _ _ ?_ ?_ ?_); exact fun _ _ => rfl; trivial; trivial)
    | ((with_reducible refine Frame.frame_set_state_ite ?_ ?_ ?_); exact fun _ _ => rfl; trivial; trivial)
    | ((with_reducible refine Frame.frame_update_if ?_); exact fun _ => ⟨rfl, Or.inl rfl⟩)
    | with_reducible apply Frame.frame_ite
    | unfold KFile.warn
    | split

theorem process_data_fixed (d : Str) (c : Ctx F) :
    fixed_view (process_data d c).2 = fixed_view c := by
  unfold process_data
  split
  · exact (case_IN_NODE_fixed _ c).1
  · exact (case_IN_PART_NAME_fixed _ c).1
  · exact (case_IN_PART_DATA_fixed _ c).1
  · exact (case_IN_ELEMENT_fixed _ _ c).1
  · exact (case_IN_ELEMENT_fixed _ _ c).1
  · exact (case_IN_ELEMENT_fixed _ _ c).1
  · exact (case_IN_SET_TITLE_fixed c).1
  · exact (case_IN_SET_HEADER_fixed _ _ _ c).1
  · exact (case_IN_SET_DATA_fixed _ c).1
  · exact (case_IN_SET_HEADER_fixed _ _ _ c).1
  · exact (case_IN_SET_DATA_fixed _ c).1
  · exact (case_IN_SET_HEADER_fixed _ _ _ c).1
  · exact (case_IN_SET_SEGMENT_DATA_fixed _ c).1
  · exact (case_IN_SET_HEADER_fixed _ _ _ c).1
  · exact (case_IN_SET_DATA_fixed _ c).1
  · exact (case_IN_SET_HEADER_fixed _ _ _ c).1
  · exact (case_IN_SET_DATA_fixed _ c).1
  · rfl
  · rfl
  · rfl
  · exact (case_IN_SECTION_SHELL_HEADER_fixed _ c).1
  · exact (case_IN_SECTION_SHELL_DATA_fixed _ c).1
  · exact (case_IN_SECTION_SOLID_fixed _ c).1
  · exact (case_IN_SECTION_BEAM_HEADER_fixed _ c).1
  · exact (case_IN_SECTION_BEAM_DATA_fixed _ c).1
  · rfl
  · rfl
  · exact (case_IN_CONTACT_CARD1_fixed _ c).1
  · exact (case_IN_CONTACT_CARD2_fixed _ c).1
  · exact (case_IN_CONTACT_CARD3_fixed _ c).1
  · exact (case_IN_MATERIAL_TITLE_fixed _ c).1
  · exact (case_IN_MATERIAL_DATA_fixed _ c).1
  · exact (case_IN_INCLUDE_fixed _ c).1
  · exact (case_IN_CURVE_TITLE_fixed _ c).1
  · exact (case_IN_CURVE_HEADER_fixed _ c).1
  · exact (case_IN_CURVE_DATA_fixed _ c).1
  · exact (case_IN_BOUNDARY_SPC_fixed _ c).1
  · exact (case_IN_BOUNDARY_MOTION_fixed _ c).1
  · exact (case_IN_LOAD_NODE_fixed _ c).1
  · exact (case_IN_LOAD_SEGMENT_fixed _ c).1
  · exact (case_IN_LOAD_BODY_fixed _ c).1
  · exact (case_IN_CONTROL_TERMINATION_fixed _ c).1
  · exact (case_IN_CONTROL_TIMESTEP_fixed _ c).1
  · exact (case_IN_CONTROL_ENERGY_fixed _ c).1
  · exact (case_IN_CONTROL_OUTPUT_fixed _ c).1
  · exact (case_IN_CONTROL_SHELL_fixed _ c).1
  · exact (case_IN_CONTROL_CONTACT_fixed _ c).1
  · exact (case_IN_CONTROL_HOURGLASS_fixed _ c).1
  · exact (case_IN_CONTROL_BULK_VISCOSITY_fixed _ c).1
  · exact (case_IN_DATABASE_BINARY_fixed _ c).1
  · exact (case_IN_DATABASE_ASCII_fixed _ c).1
  · exact (case_IN_DATABASE_HISTORY_NODE_fixed _ c).1
  · exact (case_IN_DATABASE_HISTORY_ELEMENT_fixed _ c).1
  · exact (case_IN_DATABASE_CROSS_SECTION_fixed _ c).1
  · exact (case_IN_INITIAL_VELOCITY_fixed _ c).1
  · exact (case_IN_INITIAL_VELOCITY_GENERATION_fixed _ c).1
  · rfl
  · exact (case_IN_CONSTRAINED_NODAL_RIGID_BODY_fixed _ c).1
  · exact (case_IN_CONSTRAINED_NODAL_RIGID_BODY_INERTIA_fixed _ c).1
  · exact (case_IN_CONSTRAINED_EXTRA_NODES_fixed _ c).1
  · exact (case_IN_CONSTRAINED_JOINT_fixed _ c).1
  · exact (case_IN_CONSTRAINED_SPOTWELD_fixed _ c).1
  · rfl

/-- No line changes the enable flags, `build_index_`, the indices, `total_lines` or
the errors. -/
theorem process_line_fixed (l : Str) (c : Ctx F) :
    fixed_view (process_line l c).2 = fixed_view c := by
  unfold process_line
  split
  · rfl
  · split
    · exact (process_keyword_fixed _ c).1
    · split
      · rfl
      · exact process_data_fixed l c

theorem ctx_after_fixed (lines : List Str) :
    ∀ c : Ctx F, fixed_view (ctx_after lines c) = fixed_view c := by
  induction lines with
  | nil => intro c; rfl
  | cons l rest ih =>
    intro c
    rw [ctx_after_cons, ih, process_line_fixed]

end Fixed

/-! ## Whole runs on an overlay that selects every family -/

section SyncLines

variable {F : Type} [DoubleModel F]

set_option linter.unusedSectionVars false
set_option linter.unusedVariables false

theorem family_of_owner (st : ParseState) :
    (st.family = .set → st.owner = some .current_set)
    ∧ (st.family = .material → st.owner = some .current_material)
    ∧ (st.family = .curve → st.owner = some .current_curve) := by
  cases st <;> exact ⟨by decide, by decide, by decide⟩

/-- A data line on an overlay that selects every family. -/
theorem process_data_sync (d : Str) (P : ParseResult F) (B : MemberSel) (c src : Ctx F)
    (hc : B.covers c.state) (hs : B.settled c src) :
    process_data d (graft P FamilySel.all B c src)
        = ((process_data d c).1, graft P FamilySel.all B (process_data d c).2 src)
      ∧ B.covers (process_data d c).2.state
      ∧ B.settled (process_data d c).2 src := by
  refine ⟨process_data_local d P FamilySel.all B c src (FamilySel.covers_all _) hc, ?_, ?_⟩
  · rcases process_data_moves d c with h | h
    · rw [h]
      exact hc
    · exact covers_of_akin h (fun k hk => hc k hk)
  · obtain ⟨f1, f2, _, f4, _⟩ := process_data_frame d c
    obtain ⟨o1, o2, o3⟩ := family_of_owner c.state
    refine settled_transfer hs ?_ ?_ ?_
    · cases hB : B.current_set
      · refine Or.inr ⟨rfl, ?_⟩
        have hn : c.state.family ≠ .set := by
          intro hf
          have h1 := hc _ (o1 hf)
          rw [show B.has .current_set = B.current_set from rfl, hB] at h1
          cases h1
        exact congrArg (fun v => v.2.1) (f1 hn)
      · exact Or.inl rfl
    · cases hB : B.current_material
      · refine Or.inr ⟨rfl, ?_⟩
        have hn : c.state.family ≠ .material := by
          intro hf
          have h1 := hc _ (o2 hf)
          rw [show B.has .current_material = B.current_material from rfl, hB] at h1
          cases h1
        exact congrArg (fun v => v.2.1) (f2 hn)
      · exact Or.inl rfl
    · cases hB : B.current_curve
      · refine Or.inr ⟨rfl, ?_⟩
        have hn : c.state.family ≠ .curve := by
          intro hf
          have h1 := hc _ (o3 hf)
          rw [show B.has .current_curve = B.current_curve from rfl, hB] at h1
          cases h1
        exact congrArg (fun v => v.2.1) (f4 hn)
      · exact Or.inl rfl

/-- A line on an overlay that selects every family. -/
theorem after_line_sync (l : Str) (P : ParseResult F) (B : MemberSel) (c src : Ctx F)
    (hc : B.covers c.state) (hs : B.settled c src) :
    ∃ B2, after_line l (graft P FamilySel.all B c src)
        = graft P FamilySel.all B2 (after_line l c) src
      ∧ B2.covers (after_line l c).state ∧ B2.settled (after_line l c) src := by
  unfold after_line process_line
  by_cases h1 : is_empty_or_whitespace l = true
  · simp only [h1, if_true]
    exact ⟨B, rfl, hc, hs⟩
  · by_cases h2 : is_keyword l = true
    · simp only [h1, h2, if_true, if_false]
      obtain ⟨B2, e, k1, k2⟩ := process_keyword_sync (to_upper l) P B c src hs
      exact ⟨B2, congrArg Prod.snd e, k1, k2⟩
    · by_cases h3 : is_comment l = true
      · simp only [h1, h2, h3, if_true, if_false]
        exact ⟨B, rfl, hc, hs⟩
      · simp only [h1, h2, h3, if_false]
        obtain ⟨e, k1, k2⟩ := process_data_sync l P B c src hc hs
        exact ⟨B, congrArg Prod.snd e, k1, k2⟩

/-- A run of lines on an overlay that selects every family: the run does on the
overlay what it does on `c`, and the overlay takes more members from `c`. -/
theorem ctx_after_sync (lines : List Str) :
    ∀ (P : ParseResult F) (B : MemberSel) (c src : Ctx F),
      B.covers c.state → B.settled c src →
      ∃ B2, ctx_after lines (graft P FamilySel.all B c src)
          = graft P FamilySel.all B2 (ctx_after lines c) src
        ∧ B2.covers (ctx_after lines c).state ∧ B2.settled (ctx_after lines c) src := by
  induction lines with
  | nil =>
    intro P B c src hc hs
    exact ⟨B, rfl, hc, hs⟩
  | cons l rest ih =>
    intro P B c src hc hs
    obtain ⟨B1, e1, c1, s1⟩ := after_line_sync l P B c src hc hs
    obtain ⟨B2, e2, c2, s2⟩ := ih P B1 (after_line l c) src c1 s1
    refine ⟨B2, ?_, ?_, ?_⟩
    · rw [ctx_after_cons, ctx_after_cons]
      show ctx_after rest (after_line l (graft P FamilySel.all B c src)) = _
      rw [e1, e2]
      rfl
    · rw [ctx_after_cons]
      exact c2
    · rw [ctx_after_cons]
      exact s2

theorem graft_result_all (P r s : ParseResult F) :
    graft_result P FamilySel.all r s = P.concat r := rfl

theorem concat_init (r : ParseResult F) : (ParseResult.init : ParseResult F).concat r = r := by
  simp only [ParseResult.concat, ParseResult.init, List.nil_append]

/-- The result of `parse_string` on an overlay that selects every family: the
collections of `P` followed by those of the result on `c`. -/
theorem finish_parse_sync (n : Nat) (P : ParseResult F) (B : MemberSel) (c src : Ctx F)
    (hs : B.settled c src) :
    (finish_parse n (graft P FamilySel.all B c src)).2.result
      = (P.concat (commit_pending c).result).finalized n c.self.build_index_ := by
  rw [(finish_parse_eq n _).1, commit_pending_graft P FamilySel.all B c src ⟨rfl, rfl, rfl⟩ hs]
  rfl

theorem start_ctx_settled (p q : KFileParser F)
    (hp : ¬ (p.current_set_.sid > 0 ∧ p.current_set_.count > 0)
      ∧ ¬ p.current_material_.mid > 0 ∧ ¬ p.current_curve_.lcid > 0)
    (hq : ¬ (q.current_set_.sid > 0 ∧ q.current_set_.count > 0)
      ∧ ¬ q.current_material_.mid > 0 ∧ ¬ q.current_curve_.lcid > 0) :
    MemberSel.empty.settled (start_ctx p) (start_ctx q) :=
  ⟨Or.inr ⟨hp.1, hq.1⟩, Or.inr ⟨hp.2.1, hq.2.1⟩, Or.inr ⟨hp.2.2, hq.2.2⟩⟩

/-- Two parsers with the same flags in which no set, material or curve is pending
return the same result for every text, whatever the in-flight members hold. -/
theorem parse_string_members_irrelevant (text : Str) (p q : KFileParser F)
    (hflags : p.enabled = q.enabled) (hbuild : p.build_index_ = q.build_index_)
    (hp : ¬ (p.current_set_.sid > 0 ∧ p.current_set_.count > 0)
      ∧ ¬ p.current_material_.mid > 0 ∧ ¬ p.current_curve_.lcid > 0)
    (hq : ¬ (q.current_set_.sid > 0 ∧ q.current_set_.count > 0)
      ∧ ¬ q.current_material_.mid > 0 ∧ ¬ q.current_curve_.lcid > 0) :
    (parse_string text q).1 = (parse_string text p).1 := by
  have e0 : start_ctx q
      = graft ParseResult.init FamilySel.all MemberSel.empty (start_ctx p) (start_ctx q) := by
    have f : ∀ fam, q.enabled fam = p.enabled fam := fun fam => (congrFun hflags fam).symm
    have f1 := f .nodes
    have f2 := f .parts
    have f3 := f .elements
    have f4 := f .sets
    have f5 := f .sections
    have f6 := f .contacts
    have f7 := f .materials
    have f8 := f .includes
    have f9 := f .curves
    have f10 := f .boundaries
    have f11 := f .loads
    have f12 := f .controls
    have f13 := f .databases
    have f14 := f .initials
    have f15 := f .constraineds
    simp only [KFileParser.enabled] at f1 f2 f3 f4 f5 f6 f7 f8 f9 f10 f11 f12 f13 f14 f15
    cases q
    simp only at f1 f2 f3 f4 f5 f6 f7 f8 f9 f10 f11 f12 f13 f14 f15 hbuild
    subst f1 f2 f3 f4 f5 f6 f7 f8 f9 f10 f11 f12 f13 f14 f15 hbuild
    rfl
  obtain ⟨B2, e, _, s2⟩ := ctx_after_sync (getlines text) ParseResult.init MemberSel.empty
    (start_ctx p) (start_ctx q) (MemberSel.covers_idle _) (start_ctx_settled p q hp hq)
  rw [parse_string_eq, parse_string_eq, e0, e, finish_parse_sync _ _ _ _ _ s2,
    (finish_parse_eq _ _).1, concat_init]

theorem commit_pending_fixed (c : Ctx F) :
    (commit_pending c).self.enabled = c.self.enabled
    ∧ (commit_pending c).self.build_index_ = c.self.build_index_ := by
  have h1 : ∀ x : Ctx F, (commit_set x).self.enabled = x.self.enabled
      ∧ (commit_set x).self.build_index_ = x.self.build_index_ := by
    intro x
    unfold commit_set
    split <;> exact ⟨rfl, rfl⟩
  have h2 : ∀ x : Ctx F, (commit_material x).self.enabled = x.self.enabled
      ∧ (commit_material x).self.build_index_ = x.self.build_index_ := by
    intro x
    unfold commit_material
    split <;> exact ⟨rfl, rfl⟩
  have h3 : ∀ x : Ctx F, (commit_curve x).self.enabled = x.self.enabled
      ∧ (commit_curve x).self.build_index_ = x.self.build_index_ := by
    intro x
    unfold commit_curve
    split <;> exact ⟨rfl, rfl⟩
  unfold commit_pending
  exact ⟨((h3 _).1.trans (h2 _).1).trans (h1 c).1, ((h3 _).2.trans (h2 _).2).trans (h1 c).2⟩

/-- The parser object after `parse_string`: its flags are those it had, and no set,
material or curve is pending. -/
theorem parse_string_leaves (text : Str) (p : KFileParser F) :
    (parse_string text p).2.enabled = p.enabled
    ∧ (parse_string text p).2.build_index_ = p.build_index_
    ∧ (¬ ((parse_string text p).2.current_set_.sid > 0
          ∧ (parse_string text p).2.current_set_.count > 0)
        ∧ ¬ (parse_string text p).2.current_material_.mid > 0
        ∧ ¬ (parse_string text p).2.current_curve_.lcid > 0) := by
  rw [parse_string_self, (finish_parse_eq _ _).2]
  have h := ctx_after_fixed (getlines text) (start_ctx p)
  have h1 : (ctx_after (getlines text) (start_ctx p)).self.enabled = p.enabled :=
    congrArg (fun v => v.1) h
  have h2 : (ctx_after (getlines text) (start_ctx p)).self.build_index_ = p.build_index_ :=
    congrArg (fun v => v.2.1) h
  refine ⟨?_, ?_, commit_pending_idle _⟩
  · rw [(commit_pending_fixed _).1, h1]
  · rw [(commit_pending_fixed _).2, h2]

theorem configured_leaves (flags : FamilySel) (build : Bool) (e : Int) :
    ¬ ((KFileParser.configured flags build e : KFileParser F).current_set_.sid > 0
        ∧ (KFileParser.configured flags build e : KFileParser F).current_set_.count > 0)
    ∧ ¬ (KFileParser.configured flags build e : KFileParser F).current_material_.mid > 0
    ∧ ¬ (KFileParser.configured flags build e : KFileParser F).current_curve_.lcid > 0 := by
  have h0 : ¬ ((0 : Int) > 0) := by decide
  exact ⟨fun h => h0 h.1, h0, h0⟩

theorem configured_enabled (flags : FamilySel) (build : Bool) (e1 e2 : Int) :
    (KFileParser.configured flags build e1 : KFileParser F).enabled
        = (KFileParser.configured flags build e2 : KFileParser F).enabled
    ∧ (KFileParser.configured flags build e1 : KFileParser F).build_index_
        = (KFileParser.configured flags build e2 : KFileParser F).build_index_ :=
  ⟨rfl, rfl⟩

end SyncLines

/-! ## C31: calls of `parse_string` on one parser do not interact -/

section AcrossCalls

variable {F : Type} [DoubleModel F]

/-- C31. For all texts `s1` and `s2` and every setting of the enable flags and of
`build_index_`: `parse_string(s2)` on a parser that has already run `parse_string(s1)`
returns the same result (every collection, the indices, `total_lines`, the warnings
and the errors) as `parse_string(s2)` on a freshly constructed parser with the same
settings, whatever the uninitialised `material_expected_cards_` of the two parsers
holds. The in-flight members the first call leaves behind are never read before
they are overwritten. -/
theorem no_interaction_across_calls (s1 s2 : Str) (flags : FamilySel) (build_index : Bool)
    (e1 e2 : Int) :
    (parse_string s2
        (parse_string s1 (KFileParser.configured flags build_index e1 : KFileParser F)).2).1
      = (parse_string s2 (KFileParser.configured flags build_index e2 : KFileParser F)).1 := by
  obtain ⟨h1, h2, h3⟩ :=
    parse_string_leaves s1 (KFileParser.configured flags build_index e1 : KFileParser F)
  exact parse_string_members_irrelevant s2 (KFileParser.configured flags build_index e2) _
    (((configured_enabled flags build_index e2 e1).1).trans h1.symm)
    (((configured_enabled flags build_index e2 e1).2).trans h2.symm)
    (configured_leaves flags build_index e2) h3

end AcrossCalls
/-! ## Overlays of overlays -/

section GraftAlgebra

variable {F : Type} [DoubleModel F]

set_option linter.unusedSectionVars false
set_option linter.unusedVariables false

theorem cond_cond_else {α : Type} (b : Bool) (u v w : α) :
    (bif b then u else (bif b then v else w)) = bif b then u else w := by
  cases b <;> rfl

/-- Overlaying `x` on an overlay of `x` changes nothing. -/
theorem graft_idem (A : FamilySel) (B : MemberSel) (x y : Ctx F) :
    graft ParseResult.init A B x (graft ParseResult.init A B x y)
      = graft ParseResult.init A B x y := by
  simp only [graft, graft_self, graft_result, ParseResult.init, List.nil_append, cond_cond_else]

theorem Ctx.state_self (c : Ctx F) : { c with state := c.state } = c := rfl

/-- What a branch of the family `f` changes is not seen through the overlay that
leaves the family `f` out. -/
theorem graft_footprint (f : Family) (u v z : Ctx F) (s : ParseState) :
    graft ParseResult.init (FamilySel.all.remove f) (MemberSel.outside f)
        { graft ParseResult.init (FamilySel.empty.add f) (MemberSel.inside f) u v
            with state := s } z
      = graft ParseResult.init (FamilySel.all.remove f) (MemberSel.outside f)
          { u.with_shared v with state := s } z := by
  cases f <;> rfl

theorem Ctx.with_shared_eq (u v : Ctx F) (hf : fixed_view u = fixed_view v)
    (hw : u.result.warnings = v.result.warnings) : u.with_shared v = v := by
  simp only [fixed_view, Prod.mk.injEq] at hf
  obtain ⟨_, h1, h2, h3, h4, h5, h6, h7, h8, h9, h10, h11⟩ := hf
  unfold Ctx.with_shared
  rw [h1, h2, h3, h4, h5, h6, h7, h8, h9, h10, h11, hw]

end GraftAlgebra
/-! ## Every keyword branch but the last belongs to one family -/

section FamilyBranches

variable {F : Type} [DoubleModel F]

set_option linter.unusedSectionVars false
set_option linter.unusedVariables false

theorem PlainBranch.family_branch {fam : Family} {g : Option Member} {m : Run (Ctx F) Unit}
    (hb : PlainBranch fam g m) : FamilyBranch fam g m :=
  ⟨hb.commutes, hb.disabled, hb.lands, hb.member_family⟩

theorem header_state_akin (ty : SetType) :
    (header_state_of ty).akin (some .sets) (some .current_set) := by
  cases ty <;> decide

theorem begin_set_family (u : Str) (ty : SetType) :
    FamilyBranch .sets (some .current_set)
      (begin_set u ty (header_state_of ty) : Run (Ctx F) Unit) := by
  refine ⟨fun P A B => begin_set_local u ty _ P A B, ?_,
    begin_set_lands u ty _ (header_state_akin ty), ?_⟩
  · intro c h
    have h2 : ¬ c.self.parse_sets_ = true := by
      rw [show c.self.parse_sets_ = false from h]
      decide
    rw [begin_set_eq, if_neg h2, Ctx.idled_of_ne _ (by decide)]
  · intro k h
    cases h
    rfl

theorem begin_material_family (u : Str) (hu : found_at_0 u "*MAT_" = true) :
    FamilyBranch .materials (some .current_material)
      (begin_material u : Run (Ctx F) Unit) := by
  refine ⟨fun P A B => begin_material_local u P A B, ?_, begin_material_lands u, ?_⟩
  · intro c h
    have h2 : ¬ c.self.parse_materials_ = true := by
      rw [show c.self.parse_materials_ = false from h]
      decide
    rw [begin_material_eq u hu, if_neg h2, Ctx.idled_of_ne _ (by decide)]
  · intro k h
    cases h
    rfl

theorem begin_curve_family (u : Str) :
    FamilyBranch .curves (some .current_curve) (begin_curve u : Run (Ctx F) Unit) := by
  refine ⟨fun P A B => begin_curve_local u P A B, ?_, begin_curve_lands u, ?_⟩
  · intro c h
    have h2 : ¬ c.self.parse_curves_ = true := by
      rw [show c.self.parse_curves_ = false from h]
      decide
    rw [begin_curve_eq, if_neg h2, Ctx.idled_of_ne _ (by decide)]
  · intro k h
    cases h
    rfl

/-- A keyword line runs the final branch or a branch of one family. -/
theorem process_keyword_family (u : Str) :
    (process_keyword u : Run (Ctx F) Unit) = other_keyword
      ∨ ∃ fam g, FamilyBranch fam g (process_keyword u : Run (Ctx F) Unit) := by
  rcases process_keyword_shape (F := F) u with ⟨ty, _, e⟩ | ⟨h, e⟩ | ⟨_, e⟩ | e | ⟨fam, g, hb⟩
  · refine Or.inr ⟨.sets, some .current_set, ?_⟩
    rw [e]
    exact begin_set_family u ty
  · refine Or.inr ⟨.materials, some .current_material, ?_⟩
    rw [e]
    exact begin_material_family u h
  · refine Or.inr ⟨.curves, some .current_curve, ?_⟩
    rw [e]
    exact begin_curve_family u
  · exact Or.inl e
  · exact Or.inr ⟨fam, g, hb.family_branch⟩

/-- The family of a state is the family of the member its case reads. -/
theorem owner_family (s : ParseState) (g : Member) (h : s.owner = some g) :
    s.flag_family = some g.family := by
  cases s <;> cases h <;> rfl

theorem has_remove_all (f fam : Family) (h : fam ≠ f) :
    (FamilySel.all.remove f).has fam = true := by
  cases f <;> cases fam <;> first
    | rfl
    | exact absurd rfl h

theorem has_outside (f : Family) (g : Member) (h : g.family ≠ f) :
    (MemberSel.outside f).has g = true := by
  cases g <;> exact decide_eq_true h

theorem has_inside (f : Family) (g : Member) (h : g.family = f) :
    (MemberSel.inside f).has g = true := by
  cases g <;> exact decide_eq_true h

theorem covers_remove (f : Family) (s : ParseState) (hs : s.flag_family ≠ some f) :
    (FamilySel.all.remove f).covers s := by
  intro fam hfam
  refine has_remove_all f fam ?_
  intro e
  rw [e] at hfam
  exact hs hfam

theorem covers_outside (f : Family) (s : ParseState) (hs : s.flag_family ≠ some f) :
    (MemberSel.outside f).covers s := by
  intro g hg
  refine has_outside f g ?_
  intro e
  have h := owner_family s g hg
  rw [e] at h
  exact hs h

theorem covers_only (f : Family) (s : ParseState) (hs : s.flag_family = some f) :
    (FamilySel.empty.add f).covers s := by
  intro fam hfam
  have e : fam = f := Option.some.inj (hfam.symm.trans hs)
  rw [e]
  exact FamilySel.family_has_add _ f

theorem covers_inside (f : Family) (s : ParseState) (hs : s.flag_family = some f) :
    (MemberSel.inside f).covers s := by
  intro g hg
  refine has_inside f g ?_
  have h := owner_family s g hg
  exact Option.some.inj (h.symm.trans hs)

theorem add_remove_all (f fam : Family) (h : fam ≠ f) :
    (FamilySel.all.remove f).add fam = FamilySel.all.remove f :=
  FamilySel.family_add_of_has _ fam (has_remove_all f fam h)

theorem add_opt_outside (f : Family) (g : Option Member) (h : ∀ k, g = some k → k.family ≠ f) :
    (MemberSel.outside f).add_opt g = MemberSel.outside f := by
  cases g with
  | none => rfl
  | some k => exact MemberSel.member_add_of_has _ k (has_outside f k (h k rfl))

theorem add_only (f : Family) : (FamilySel.empty.add f).add f = FamilySel.empty.add f :=
  FamilySel.family_add_of_has _ f (FamilySel.family_has_add _ f)

theorem add_opt_inside (f : Family) (g : Option Member) (h : ∀ k, g = some k → k.family = f) :
    (MemberSel.inside f).add_opt g = MemberSel.inside f := by
  cases g with
  | none => rfl
  | some k => exact MemberSel.member_add_of_has _ k (has_inside f k (h k rfl))

end FamilyBranches
/-! ## A run with one family disabled, line by line

Two contexts are compared: the first of a run with the family `f` enabled or not, the
second of the run over the same lines with `f` disabled. Outside the family `f` and
the parse state the two contexts stay the same. -/

section ApartSteps

variable {F : Type} [DoubleModel F]

set_option linter.unusedSectionVars false
set_option linter.unusedVariables false

theorem graft_apart_keeps (f : Family) (x y : Ctx F) :
    (graft ParseResult.init (FamilySel.all.remove f) (MemberSel.outside f) x y).self.enabled f
        = y.self.enabled f
    ∧ ((graft ParseResult.init (FamilySel.all.remove f) (MemberSel.outside f) x y).dormant f
        ↔ y.dormant f)
    ∧ (graft ParseResult.init (FamilySel.all.remove f) (MemberSel.outside f) x y).result.only f
        = y.result.only f := by
  cases f <;> exact ⟨rfl, Iff.rfl, rfl⟩

theorem Beside.left_state {f : Family} {x y : Ctx F} (s : ParseState) :
    Beside f { x with state := s } y ↔ Beside f x y := Iff.rfl

/-- The overlay of any context on the second context is beside that context. -/
theorem Beside.of_graft {f : Family} {c1 c2 : Ctx F} (h : Beside f c1 c2) (x : Ctx F) :
    Beside f x
      (graft ParseResult.init (FamilySel.all.remove f) (MemberSel.outside f) x c2) := by
  obtain ⟨_, h2, h3, h4⟩ := h
  obtain ⟨k1, k2, k3⟩ := graft_apart_keeps f x c2
  exact ⟨graft_idem _ _ x c2, k1.trans h2, k2.mpr h3, k3.trans h4⟩

theorem Beside.restate {f : Family} {c1 c2 : Ctx F} (h : Beside f c1 c2) (s1 s2 : ParseState) :
    Beside f { c1 with state := s1 } { c2 with state := s2 } := by
  obtain ⟨h1, h2, h3, h4⟩ := h
  refine ⟨?_, h2, h3, h4⟩
  show ({ graft ParseResult.init (FamilySel.all.remove f) (MemberSel.outside f)
      { c1 with state := c2.state } c2 with state := s2 } : Ctx F) = _
  rw [h1]

theorem graft_idled (f : Family) (g : Option Member) (hg : ∀ k, g = some k → k.family = f)
    (x y : Ctx F) (s : ParseState) :
    graft ParseResult.init (FamilySel.all.remove f) (MemberSel.outside f)
        { x with state := .IDLE } (y.idled g)
      = (graft ParseResult.init (FamilySel.all.remove f) (MemberSel.outside f)
          { x with state := s } y).idled g := by
  by_cases hp : g = some .part_name
  · subst hp
    have hf : Member.part_name.family = f := hg _ rfl
    subst hf
    rfl
  · rw [Ctx.idled_of_ne _ hp, Ctx.idled_of_ne _ hp]
    rfl

/-- A step that changes, in the first run, only what belongs to the family `f`, and
in the second run only makes the state idle. -/
theorem Beside.of_footprint {f : Family} {c1 c2 x : Ctx F} (g : Option Member)
    (hg : ∀ k, g = some k → k.family = f) (h : Beside f c1 c2)
    (e : x = graft ParseResult.init (FamilySel.empty.add f) (MemberSel.inside f) x c1)
    (hf : fixed_view x = fixed_view c1) (hw : x.result.warnings = c1.result.warnings) :
    Beside f x (c2.idled g) := by
  obtain ⟨h1, h2, h3, h4⟩ := h
  refine ⟨?_, h2, h3, h4⟩
  have e1 := graft_footprint f x c1 (c2.idled g) .IDLE
  rw [← e, Ctx.with_shared_eq x c1 hf hw] at e1
  have e2 := graft_idled f g hg c1 c2 c2.state
  rw [h1] at e2
  exact e1.trans e2

theorem idle_family (f : Family) : ParseState.IDLE.flag_family ≠ some f := by
  intro h
  cases h

theorem moves_family (d : Str) (c : Ctx F) (f : Family) (h : c.state.flag_family ≠ some f) :
    (process_data d c).2.state.flag_family ≠ some f := by
  rcases process_data_moves d c with e | e | ⟨e, _⟩
  · rw [e]
    exact h
  · rw [e]
    exact idle_family f
  · rw [e]
    exact h

theorem Ctx.idled_idle (c : Ctx F) (h : c.state = .IDLE) : c.idled none = c := by
  rw [Ctx.idled_of_ne _ (by decide), ← h]

/-- A data line. -/
theorem process_data_apart (d : Str) (f : Family) (c1 c2 : Ctx F) (h : Apart f c1 c2) :
    Apart f (process_data d c1).2 (process_data d c2).2 := by
  obtain ⟨hb, hs⟩ := h
  rcases hs with ⟨es, hne⟩ | ⟨es, hfam⟩
  · have R : graft ParseResult.init (FamilySel.all.remove f) (MemberSel.outside f) c1 c2
        = c2 := by
      have h1 := hb.1
      rw [es] at h1
      exact h1
    have L := process_data_local d ParseResult.init (FamilySel.all.remove f)
      (MemberSel.outside f) c1 c2 (covers_remove f _ hne) (covers_outside f _ hne)
    rw [R] at L
    rw [congrArg Prod.snd L]
    exact ⟨hb.of_graft _, Or.inl ⟨rfl, moves_family d c1 f hne⟩⟩
  · have e2 : (process_data d c2).2 = c2.idled none := by
      rw [process_data_idle d c2 es, Ctx.idled_idle c2 es]
    have L := process_data_local d ParseResult.init (FamilySel.empty.add f)
      (MemberSel.inside f) c1 c1 (covers_only f _ hfam) (covers_inside f _ hfam)
    rw [graft_same] at L
    rw [e2]
    refine ⟨Beside.of_footprint none (by intro k hk; cases hk) hb (congrArg Prod.snd L)
      (process_data_fixed d c1) (process_data_quiet d c1).2, ?_⟩
    rcases process_data_moves d c1 with e | e | ⟨e, _⟩
    · exact Or.inr ⟨rfl, by rw [e]; exact hfam⟩
    · exact Or.inl ⟨e.symm, by rw [e]; exact idle_family f⟩
    · exact Or.inr ⟨rfl, by rw [e]; exact hfam⟩

theorem commit_set_state (c : Ctx F) (s : ParseState) :
    commit_set { c with state := s } = { commit_set c with state := s } := by
  unfold commit_set
  by_cases h : c.self.current_set_.sid > 0 ∧ c.self.current_set_.count > 0
  · simp only [h, and_self, if_true]
  · simp only [h, if_false]

theorem commit_material_state (c : Ctx F) (s : ParseState) :
    commit_material { c with state := s } = { commit_material c with state := s } := by
  unfold commit_material
  by_cases h : c.self.current_material_.mid > 0
  · simp only [h, if_true]
  · simp only [h, if_false]

theorem commit_curve_state (c : Ctx F) (s : ParseState) :
    commit_curve { c with state := s } = { commit_curve c with state := s } := by
  unfold commit_curve
  by_cases h : c.self.current_curve_.lcid > 0
  · simp only [h, if_true]
  · simp only [h, if_false]

theorem commit_set_beside (f : Family) (c1 c2 : Ctx F) (h : Beside f c1 c2) :
    Beside f (commit_set c1) (commit_set c2) := by
  by_cases hf : f = .sets
  · subst hf
    obtain ⟨h1, h2, h3, h4⟩ := h
    have e2 : commit_set c2 = c2 := if_neg h3
    rw [e2]
    refine ⟨?_, h2, h3, h4⟩
    unfold commit_set
    split
    · exact h1
    · exact h1
  · have hA : (FamilySel.all.remove f).sets = true := by
      cases f <;> first
        | rfl
        | exact absurd rfl hf
    have hB : (MemberSel.outside f).current_set = true := by
      cases f <;> first
        | rfl
        | exact absurd rfl hf
    have e2 := commit_set_graft ParseResult.init (FamilySel.all.remove f) (MemberSel.outside f)
      { c1 with state := c2.state } c2 hA (Or.inl hB)
    rw [h.1, commit_set_state c1 c2.state] at e2
    rw [e2]
    exact (Beside.left_state c2.state).mp (h.of_graft _)

theorem commit_material_beside (f : Family) (c1 c2 : Ctx F) (h : Beside f c1 c2) :
    Beside f (commit_material c1) (commit_material c2) := by
  by_cases hf : f = .materials
  · subst hf
    obtain ⟨h1, h2, h3, h4⟩ := h
    have e2 : commit_material c2 = c2 := if_neg h3
    rw [e2]
    refine ⟨?_, h2, h3, h4⟩
    unfold commit_material
    split
    · exact h1
    · exact h1
  · have hA : (FamilySel.all.remove f).materials = true := by
      cases f <;> first
        | rfl
        | exact absurd rfl hf
    have hB : (MemberSel.outside f).current_material = true := by
      cases f <;> first
        | rfl
        | exact absurd rfl hf
    have e2 := commit_material_graft ParseResult.init (FamilySel.all.remove f)
      (MemberSel.outside f) { c1 with state := c2.state } c2 hA (Or.inl hB)
    rw [h.1, commit_material_state c1 c2.state] at e2
    rw [e2]
    exact (Beside.left_state c2.state).mp (h.of_graft _)

theorem commit_curve_beside (f : Family) (c1 c2 : Ctx F) (h : Beside f c1 c2) :
    Beside f (commit_curve c1) (commit_curve c2) := by
  by_cases hf : f = .curves
  · subst hf
    obtain ⟨h1, h2, h3, h4⟩ := h
    have e2 : commit_curve c2 = c2 := if_neg h3
    rw [e2]
    refine ⟨?_, h2, h3, h4⟩
    unfold commit_curve
    split
    · exact h1
    · exact h1
  · have hA : (FamilySel.all.remove f).curves = true := by
      cases f <;> first
        | rfl
        | exact absurd rfl hf
    have hB : (MemberSel.outside f).current_curve = true := by
      cases f <;> first
        | rfl
        | exact absurd rfl hf
    have e2 := commit_curve_graft ParseResult.init (FamilySel.all.remove f) (MemberSel.outside f)
      { c1 with state := c2.state } c2 hA (Or.inl hB)
    rw [h.1, commit_curve_state c1 c2.state] at e2
    rw [e2]
    exact (Beside.left_state c2.state).mp (h.of_graft _)

/-- The three commits. -/
theorem commit_pending_beside (f : Family) (c1 c2 : Ctx F) (h : Beside f c1 c2) :
    Beside f (commit_pending c1) (commit_pending c2) :=
  commit_curve_beside f _ _ (commit_material_beside f _ _ (commit_set_beside f c1 c2 h))

/-- A keyword line. -/
theorem process_keyword_apart (u : Str) (f : Family) (c1 c2 : Ctx F) (h : Apart f c1 c2) :
    Apart f (process_keyword u c1).2 (process_keyword u c2).2 := by
  obtain ⟨hb, hs⟩ := h
  obtain ⟨⟨a, hok⟩, hw⟩ := process_keyword_quiet u c1
  have blind : process_keyword u { c1 with state := c2.state } = process_keyword u c1 :=
    process_keyword_blind u c1 c2.state ⟨a, hok⟩
  rcases process_keyword_family (F := F) u with e | ⟨fam, g, fb⟩
  · rw [e, other_keyword_eq, other_keyword_eq, commit_in_flight_eq, commit_in_flight_eq]
    exact ⟨(commit_pending_beside f c1 c2 hb).restate .IDLE .IDLE, Or.inl ⟨rfl, idle_family f⟩⟩
  · have hl := fb.lands c1 a hok
    by_cases hf : fam = f
    · subst hf
      have e2 : process_keyword u c2 = (.ok (), c2.idled g) := fb.disabled c2 hb.2.1
      have L := fb.commutes ParseResult.init (FamilySel.empty.add fam) (MemberSel.inside fam)
        { c1 with state := c2.state } { c1 with state := c2.state }
      rw [add_only, add_opt_inside fam g fb.member_family, graft_same, blind] at L
      rw [e2]
      refine ⟨Beside.of_footprint g fb.member_family hb (congrArg Prod.snd L)
        (process_keyword_fixed u c1).1 hw, ?_⟩
      rcases hl with hl | ⟨hl, _⟩
      · exact Or.inl ⟨hl.symm, by rw [hl]; exact idle_family fam⟩
      · exact Or.inr ⟨rfl, hl⟩
    · have L := fb.commutes ParseResult.init (FamilySel.all.remove f) (MemberSel.outside f)
        { c1 with state := c2.state } c2
      rw [add_remove_all f fam hf,
        add_opt_outside f g (fun k hk => by rw [fb.member_family k hk]; exact hf),
        hb.1, blind] at L
      rw [congrArg Prod.snd L]
      refine ⟨hb.of_graft _, Or.inl ⟨rfl, ?_⟩⟩
      rcases hl with hl | ⟨hl, _⟩
      · rw [hl]
        exact idle_family f
      · rw [hl]
        intro e
        exact hf (Option.some.inj e)

/-- Any line. -/
theorem after_line_apart (l : Str) (f : Family) (c1 c2 : Ctx F) (h : Apart f c1 c2) :
    Apart f (after_line l c1) (after_line l c2) := by
  unfold after_line process_line
  by_cases h1 : is_empty_or_whitespace l = true
  · simp only [h1, if_true]
    exact h
  · by_cases h2 : is_keyword l = true
    · simp only [h1, h2, if_true, if_false]
      exact process_keyword_apart (to_upper l) f c1 c2 h
    · by_cases h3 : is_comment l = true
      · simp only [h1, h2, h3, if_true, if_false]
        exact h
      · simp only [h1, h2, h3, if_false]
        exact process_data_apart l f c1 c2 h

/-- Any run of lines. -/
theorem ctx_after_apart (lines : List Str) (f : Family) :
    ∀ c1 c2 : Ctx F, Apart f c1 c2 → Apart f (ctx_after lines c1) (ctx_after lines c2) := by
  induction lines with
  | nil =>
    intro c1 c2 h
    exact h
  | cons l rest ih =>
    intro c1 c2 h
    rw [ctx_after_cons, ctx_after_cons]
    exact ih _ _ (after_line_apart l f c1 c2 h)

end ApartSteps
/-! ## Disabling one family -/

section DisabledFamily

variable {F : Type} [DoubleModel F]

set_option linter.unusedSectionVars false
set_option linter.unusedVariables false

theorem finalized_without (r : ParseResult F) (n : Nat) (b : Bool) (f : Family) :
    (r.finalized n b).without f = r.without f ∧ (r.finalized n b).only f = r.only f := by
  cases b <;> exact ⟨rfl, rfl⟩

theorem Beside.results {f : Family} {c1 c2 : Ctx F} (h : Beside f c1 c2) :
    c2.result.without f = c1.result.without f := by
  have e := congrArg (fun c => c.result.without f) h.1
  have k : (graft ParseResult.init (FamilySel.all.remove f) (MemberSel.outside f)
      { c1 with state := c2.state } c2).result.without f = c1.result.without f := by
    cases f <;> rfl
  exact e.symm.trans k

theorem start_apart (f : Family) (flags : FamilySel) (b : Bool) (e : Int) :
    Apart f (start_ctx (KFileParser.configured flags b e : KFileParser F))
      (start_ctx (KFileParser.configured (flags.remove f) b e : KFileParser F)) := by
  obtain ⟨k1, k2, k3⟩ := configured_leaves (F := F) (flags.remove f) b e
  refine ⟨⟨?_, ?_, ?_, rfl⟩, Or.inl ⟨rfl, idle_family f⟩⟩
  · cases f <;> rfl
  · cases f <;> rfl
  · cases f <;> first
      | exact k1
      | exact k2
      | exact k3
      | exact True.intro

/-- With the same text, a parser configured with the flags `flags` and the parser
configured with the same flags except that the family `f` is disabled return results
that agree on every collection of the other families; the second result has no entity
of the family `f`. -/
theorem parse_string_apart (text : Str) (f : Family) (flags : FamilySel) (b : Bool)
    (e1 e2 : Int) :
    ∃ r_on r_off : ParseResult F,
      (parse_string text (KFileParser.configured flags b e1 : KFileParser F)).1 = .ok r_on
      ∧ (parse_string text (KFileParser.configured (flags.remove f) b e2 : KFileParser F)).1
          = .ok r_off
      ∧ r_off.only f = (ParseResult.init : ParseResult F).only f
      ∧ r_off.without f = r_on.without f := by
  have sw := parse_string_members_irrelevant text
    (KFileParser.configured (flags.remove f) b e1 : KFileParser F)
    (KFileParser.configured (flags.remove f) b e2 : KFileParser F)
    (configured_enabled _ b e1 e2).1 (configured_enabled _ b e1 e2).2
    (configured_leaves _ b e1) (configured_leaves _ b e2)
  have h := ctx_after_apart (getlines text) f _ _ (start_apart (F := F) f flags b e1)
  have hb := commit_pending_beside f _ _ h.1
  refine ⟨_, _, parse_string_eq text _, sw.trans (parse_string_eq text _), ?_, ?_⟩
  · rw [(finish_parse_eq _ _).1, (finalized_without _ _ _ f).2]
    exact hb.2.2.2
  · rw [(finish_parse_eq _ _).1, (finish_parse_eq _ _).1, (finalized_without _ _ _ f).1,
      (finalized_without _ _ _ f).1]
    exact hb.results

end DisabledFamily

/-- C29. For every text and every family `f`: `parse_string` on a fresh parser on which
only the family `f` is disabled returns a result in which the collections of `f`
are empty (`only f` is that of the empty result) and every collection of every other
family is the one returned by a fresh parser with all flags enabled (`without f`
agrees); both parses return. The setting of `build_index_` is the same for the two
parsers, and the uninitialised `material_expected_cards_` of each is arbitrary. -/
theorem disabled_family_removed_alone {F : Type} [DoubleModel F] (text : Str) (f : Family)
    (build_index : Bool) (e1 e2 : Int) :
    ∃ r_all r_off : ParseResult F,
      (parse_string text
          (KFileParser.configured FamilySel.all build_index e1 : KFileParser F)).1 = .ok r_all
      ∧ (parse_string text
          (KFileParser.configured (FamilySel.all.remove f) build_index e2 : KFileParser F)).1
          = .ok r_off
      ∧ r_off.only f = (ParseResult.init : ParseResult F).only f
      ∧ r_off.without f = r_all.without f :=
  parse_string_apart text f FamilySel.all build_index e1 e2
/-! ## The in-flight set, material and curve, selected or not by an overlay -/

section DeferredAlgebra

variable {F : Type} [DoubleModel F]

set_option linter.unusedSectionVars false
set_option linter.unusedVariables false

theorem graft_all_all (x y : Ctx F) :
    graft ParseResult.init FamilySel.all MemberSel.all x y = x := by
  simp only [graft, graft_self, graft_result, ParseResult.init, List.nil_append, FamilySel.all,
    MemberSel.all, cond_true]

/-- What an overlay that leaves the sets out takes from `src`. -/
theorem graft_set_off (P : ParseResult F) (A : FamilySel) (B : MemberSel) (c src : Ctx F)
    (hA : A.sets = false) (hB : B.current_set = false) :
    (graft P A B c src).result.sets = src.result.sets
    ∧ (graft P A B c src).self.current_set_ = src.self.current_set_
    ∧ (graft P A B c src).self.parse_sets_ = src.self.parse_sets_ := by
  refine ⟨?_, ?_, ?_⟩ <;> simp only [graft, graft_self, graft_result, hA, hB, cond_false]

/-- What an overlay that selects the sets takes from `c`. -/
theorem graft_set_on (A : FamilySel) (B : MemberSel) (c src : Ctx F)
    (hA : A.sets = true) (hB : B.current_set = true) :
    (graft ParseResult.init A B c src).result.sets = c.result.sets
    ∧ (graft ParseResult.init A B c src).self.current_set_ = c.self.current_set_
    ∧ (graft ParseResult.init A B c src).self.parse_sets_ = c.self.parse_sets_ := by
  refine ⟨?_, ?_, ?_⟩ <;>
    simp only [graft, graft_self, graft_result, hA, hB, cond_true, ParseResult.init,
      List.nil_append]

/-- Once both runs have the same sets, the overlay may select them. -/
theorem absorb_set (A : FamilySel) (B : MemberSel) (x y : Ctx F) (l l2 : List (Set F))
    (N N2 : Set F) (S S2 : ParseState)
    (hc : graft ParseResult.init A B x y = y)
    (hflag : x.self.parse_sets_ = y.self.parse_sets_) :
    graft ParseResult.init { A with sets := true } { B with current_set := true }
        { x with result.sets := l, self.current_set_ := N, state := S }
        { y with result.sets := l2, self.current_set_ := N2, state := S2 }
      = { y with result.sets := l, self.current_set_ := N, state := S } := by
  have e : graft ParseResult.init { A with sets := true } { B with current_set := true }
        { x with result.sets := l, self.current_set_ := N, state := S }
        { y with result.sets := l2, self.current_set_ := N2, state := S2 }
      = { graft ParseResult.init A B x y with
          result.sets := l, self.current_set_ := N, state := S, self.parse_sets_ := x.self.parse_sets_ } := by
    simp only [graft, graft_self, graft_result, ParseResult.init, List.nil_append, cond_true]
  rw [e, hc, hflag]

/-- When the second run commits its set first, the overlay leaves the
sets out. -/
theorem release_set (A : FamilySel) (B : MemberSel) (x y : Ctx F) (l : List (Set F))
    (N : Set F)
    (hc : graft ParseResult.init A B x y = y) :
    graft ParseResult.init { A with sets := false } { B with current_set := false } x
        { y with result.sets := l, self.current_set_ := N }
      = { y with result.sets := l, self.current_set_ := N } := by
  have e : graft ParseResult.init { A with sets := false } { B with current_set := false } x
        { y with result.sets := l, self.current_set_ := N }
      = { graft ParseResult.init A B x y with
          result.sets := l, self.current_set_ := N, self.parse_sets_ := y.self.parse_sets_ } := by
    simp only [graft, graft_self, graft_result, ParseResult.init, List.nil_append, cond_false]
  rw [e, hc]

/-- What an overlay that leaves the materials out takes from `src`. -/
theorem graft_material_off (P : ParseResult F) (A : FamilySel) (B : MemberSel) (c src : Ctx F)
    (hA : A.materials = false) (hB : B.current_material = false) :
    (graft P A B c src).result.materials = src.result.materials
    ∧ (graft P A B c src).self.current_material_ = src.self.current_material_
    ∧ (graft P A B c src).self.parse_materials_ = src.self.parse_materials_
    ∧ (graft P A B c src).self.material_expected_cards_ = src.self.material_expected_cards_ := by
  refine ⟨?_, ?_, ?_, ?_⟩ <;> simp only [graft, graft_self, graft_result, hA, hB, cond_false]

/-- What an overlay that selects the materials takes from `c`. -/
theorem graft_material_on (A : FamilySel) (B : MemberSel) (c src : Ctx F)
    (hA : A.materials = true) (hB : B.current_material = true) :
    (graft ParseResult.init A B c src).result.materials = c.result.materials
    ∧ (graft ParseResult.init A B c src).self.current_material_ = c.self.current_material_
    ∧ (graft ParseResult.init A B c src).self.parse_materials_ = c.self.parse_materials_
    ∧ (graft ParseResult.init A B c src).self.material_expected_cards_ = c.self.material_expected_cards_ := by
  refine ⟨?_, ?_, ?_, ?_⟩ <;>
    simp only [graft, graft_self, graft_result, hA, hB, cond_true, ParseResult.init,
      List.nil_append]

/-- Once both runs have the same materials, the overlay may select them. -/
theorem absorb_material (A : FamilySel) (B : MemberSel) (x y : Ctx F) (l l2 : List (Material F))
    (N N2 : Material F) (E E2 : Int) (S S2 : ParseState)
    (hc : graft ParseResult.init A B x y = y)
    (hflag : x.self.parse_materials_ = y.self.parse_materials_) :
    graft ParseResult.init { A with materials := true } { B with current_material := true }
        { x with result.materials := l, self.current_material_ := N, self.material_expected_cards_ := E, state := S }
        { y with result.materials := l2, self.current_material_ := N2, self.material_expected_cards_ := E2, state := S2 }
      = { y with result.materials := l, self.current_material_ := N, self.material_expected_cards_ := E, state := S } := by
  have e : graft ParseResult.init { A with materials := true } { B with current_material := true }
        { x with result.materials := l, self.current_material_ := N, self.material_expected_cards_ := E, state := S }
        { y with result.materials := l2, self.current_material_ := N2, self.material_expected_cards_ := E2, state := S2 }
      = { graft ParseResult.init A B x y with
          result.materials := l, self.current_material_ := N, self.material_expected_cards_ := E, state := S, self.parse_materials_ := x.self.parse_materials_ } := by
    simp only [graft, graft_self, graft_result, ParseResult.init, List.nil_append, cond_true]
  rw [e, hc, hflag]

/-- When the second run commits its material first, the overlay leaves the
materials out. -/
theorem release_material (A : FamilySel) (B : MemberSel) (x y : Ctx F) (l : List (Material F))
    (N : Material F) (E : Int)
    (hc : graft ParseResult.init A B x y = y) :
    graft ParseResult.init { A with materials := false } { B with current_material := false } x
        { y with result.materials := l, self.current_material_ := N, self.material_expected_cards_ := E }
      = { y with result.materials := l, self.current_material_ := N, self.material_expected_cards_ := E } := by
  have e : graft ParseResult.init { A with materials := false } { B with current_material := false } x
        { y with result.materials := l, self.current_material_ := N, self.material_expected_cards_ := E }
      = { graft ParseResult.init A B x y with
          result.materials := l, self.current_material_ := N, self.material_expected_cards_ := E, self.parse_materials_ := y.self.parse_materials_ } := by
    simp only [graft, graft_self, graft_result, ParseResult.init, List.nil_append, cond_false]
  rw [e, hc]

/-- What an overlay that leaves the curves out takes from `src`. -/
theorem graft_curve_off (P : ParseResult F) (A : FamilySel) (B : MemberSel) (c src : Ctx F)
    (hA : A.curves = false) (hB : B.current_curve = false) :
    (graft P A B c src).result.curves = src.result.curves
    ∧ (graft P A B c src).self.current_curve_ = src.self.current_curve_
    ∧ (graft P A B c src).self.parse_curves_ = src.self.parse_curves_ := by
  refine ⟨?_, ?_, ?_⟩ <;> simp only [graft, graft_self, graft_result, hA, hB, cond_false]

/-- What an overlay that selects the curves takes from `c`. -/
theorem graft_curve_on (A : FamilySel) (B : MemberSel) (c src : Ctx F)
    (hA : A.curves = true) (hB : B.current_curve = true) :
    (graft ParseResult.init A B c src).result.curves = c.result.curves
    ∧ (graft ParseResult.init A B c src).self.current_curve_ = c.self.current_curve_
    ∧ (graft ParseResult.init A B c src).self.parse_curves_ = c.self.parse_curves_ := by
  refine ⟨?_, ?_, ?_⟩ <;>
    simp only [graft, graft_self, graft_result, hA, hB, cond_true, ParseResult.init,
      List.nil_append]

/-- Once both runs have the same curves, the overlay may select them. -/
theorem absorb_curve (A : FamilySel) (B : MemberSel) (x y : Ctx F) (l l2 : List (Curve F))
    (N N2 : Curve F) (S S2 : ParseState)
    (hc : graft ParseResult.init A B x y = y)
    (hflag : x.self.parse_curves_ = y.self.parse_curves_) :
    graft ParseResult.init { A with curves := true } { B with current_curve := true }
        { x with result.curves := l, self.current_curve_ := N, state := S }
        { y with result.curves := l2, self.current_curve_ := N2, state := S2 }
      = { y with result.curves := l, self.current_curve_ := N, state := S } := by
  have e : graft ParseResult.init { A with curves := true } { B with current_curve := true }
        { x with result.curves := l, self.current_curve_ := N, state := S }
        { y with result.curves := l2, self.current_curve_ := N2, state := S2 }
      = { graft ParseResult.init A B x y with
          result.curves := l, self.current_curve_ := N, state := S, self.parse_curves_ := x.self.parse_curves_ } := by
    simp only [graft, graft_self, graft_result, ParseResult.init, List.nil_append, cond_true]
  rw [e, hc, hflag]

/-- When the second run commits its curve first, the overlay leaves the
curves out. -/
theorem release_curve (A : FamilySel) (B : MemberSel) (x y : Ctx F) (l : List (Curve F))
    (N : Curve F)
    (hc : graft ParseResult.init A B x y = y) :
    graft ParseResult.init { A with curves := false } { B with current_curve := false } x
        { y with result.curves := l, self.current_curve_ := N }
      = { y with result.curves := l, self.current_curve_ := N } := by
  have e : graft ParseResult.init { A with curves := false } { B with current_curve := false } x
        { y with result.curves := l, self.current_curve_ := N }
      = { graft ParseResult.init A B x y with
          result.curves := l, self.current_curve_ := N, self.parse_curves_ := y.self.parse_curves_ } := by
    simp only [graft, graft_self, graft_result, ParseResult.init, List.nil_append, cond_false]
  rw [e, hc]

end DeferredAlgebra
/-! ## The run that has still to commit, line by line -/

section DeferredSteps

variable {F : Type} [DoubleModel F]

set_option linter.unusedSectionVars false
set_option linter.unusedVariables false

theorem MemberSel.add_opt_of_has (B : MemberSel) (g : Option Member)
    (h : ∀ k, g = some k → B.has k = true) : B.add_opt g = B := by
  cases g with
  | none => rfl
  | some k => exact MemberSel.member_add_of_has B k (h k rfl)

theorem owner_of_family_set (s : ParseState) (h : s.flag_family = some .sets) :
    s.owner = some .current_set := by
  cases s <;> first
    | rfl
    | exact absurd h (by decide)

theorem Pending.off_set (D : Pending) (h : D.set = true) :
    D.families.sets = false ∧ D.members.current_set = false := by
  constructor <;>
  · show (!D.set) = false
    rw [h]
    rfl

theorem Pending.on_set (D : Pending) (h : D.set = false) :
    D.families.sets = true ∧ D.members.current_set = true := by
  constructor <;>
  · show (!D.set) = true
    rw [h]
    rfl

theorem Pending.clear_set (D : Pending) (h : ¬ D.set = true) : { D with set := false } = D := by
  cases D with
  | mk s m c =>
    simp only [Bool.not_eq_true] at h
    subst h
    rfl

theorem Pending.covers_clear_set (D : Pending) (s : ParseState) (h : D.members.covers s) :
    ({ D with set := false } : Pending).members.covers s := by
  intro g hg
  cases g <;> first
    | rfl
    | exact h _ hg

theorem owner_of_family_material (s : ParseState) (h : s.flag_family = some .materials) :
    s.owner = some .current_material := by
  cases s <;> first
    | rfl
    | exact absurd h (by decide)

theorem Pending.off_material (D : Pending) (h : D.material = true) :
    D.families.materials = false ∧ D.members.current_material = false := by
  constructor <;>
  · show (!D.material) = false
    rw [h]
    rfl

theorem Pending.on_material (D : Pending) (h : D.material = false) :
    D.families.materials = true ∧ D.members.current_material = true := by
  constructor <;>
  · show (!D.material) = true
    rw [h]
    rfl

theorem Pending.clear_material (D : Pending) (h : ¬ D.material = true) : { D with material := false } = D := by
  cases D with
  | mk s m c =>
    simp only [Bool.not_eq_true] at h
    subst h
    rfl

theorem Pending.covers_clear_material (D : Pending) (s : ParseState) (h : D.members.covers s) :
    ({ D with material := false } : Pending).members.covers s := by
  intro g hg
  cases g <;> first
    | rfl
    | exact h _ hg

theorem owner_of_family_curve (s : ParseState) (h : s.flag_family = some .curves) :
    s.owner = some .current_curve := by
  cases s <;> first
    | rfl
    | exact absurd h (by decide)

theorem Pending.off_curve (D : Pending) (h : D.curve = true) :
    D.families.curves = false ∧ D.members.current_curve = false := by
  constructor <;>
  · show (!D.curve) = false
    rw [h]
    rfl

theorem Pending.on_curve (D : Pending) (h : D.curve = false) :
    D.families.curves = true ∧ D.members.current_curve = true := by
  constructor <;>
  · show (!D.curve) = true
    rw [h]
    rfl

theorem Pending.clear_curve (D : Pending) (h : ¬ D.curve = true) : { D with curve := false } = D := by
  cases D with
  | mk s m c =>
    simp only [Bool.not_eq_true] at h
    subst h
    rfl

theorem Pending.covers_clear_curve (D : Pending) (s : ParseState) (h : D.members.covers s) :
    ({ D with curve := false } : Pending).members.covers s := by
  intro g hg
  cases g <;> first
    | rfl
    | exact h _ hg

theorem Pending.has_plain (D : Pending) (fam : Family)
    (h : fam ≠ .sets ∧ fam ≠ .materials ∧ fam ≠ .curves) : D.families.has fam = true := by
  cases fam <;> first
    | rfl
    | exact absurd rfl h.1
    | exact absurd rfl h.2.1
    | exact absurd rfl h.2.2

theorem Pending.has_plain_member (D : Pending) (g : Option Member)
    (h : g ≠ some .current_set ∧ g ≠ some .current_material ∧ g ≠ some .current_curve) :
    ∀ k, g = some k → D.members.has k = true := by
  intro k hk
  subst hk
  cases k <;> first
    | rfl
    | exact absurd rfl h.1
    | exact absurd rfl h.2.1
    | exact absurd rfl h.2.2

theorem Deferred.families_cover {D : Pending} {x y : Ctx F} (h : Deferred D x y) :
    D.families.covers x.state := by
  intro fam hfam
  cases fam <;> first
    | rfl
    | exact h.2.1 _ (owner_of_family_set _ hfam)
    | exact h.2.1 _ (owner_of_family_material _ hfam)
    | exact h.2.1 _ (owner_of_family_curve _ hfam)

theorem Deferred.same {x : Ctx F} (hs : x.state = .IDLE) : Deferred ⟨false, false, false⟩ x x := by
  refine ⟨graft_all_all x x, ?_, ?_, ?_, ?_⟩
  · rw [hs]
    exact MemberSel.covers_idle _
  · intro h
    cases h
  · intro h
    cases h
  · intro h
    cases h

theorem Deferred.idle_both {D : Pending} {x y : Ctx F} (h : Deferred D x y) :
    Deferred D { x with state := .IDLE } { y with state := .IDLE } := by
  obtain ⟨hc, _, hs, hm, hk⟩ := h
  refine ⟨?_, MemberSel.covers_idle _, hs, hm, hk⟩
  show ({ graft ParseResult.init D.families D.members x y with state := .IDLE } : Ctx F) = _
  rw [hc]

/-- A step that commutes with the overlay of the agreeing families and members, and
ends in a state that reads an agreeing member. -/
theorem Deferred.step {D : Pending} {x y : Ctx F} {α : Type} {m : Run (Ctx F) α}
    (h : Deferred D x y)
    (L : ∀ src, m (graft ParseResult.init D.families D.members x src)
        = ((m x).1, graft ParseResult.init D.families D.members (m x).2 src))
    (ho : D.members.covers (m x).2.state) :
    Deferred D (m x).2 (m y).2 := by
  obtain ⟨hc, _, hs, hm, hk⟩ := h
  have ey : (m y).2 = graft ParseResult.init D.families D.members (m x).2 y := by
    have k := L y
    rw [hc] at k
    exact congrArg Prod.snd k
  have ex : (m x).2 = graft ParseResult.init D.families D.members (m x).2 x := by
    have k := L x
    rw [graft_same] at k
    exact congrArg Prod.snd k
  refine ⟨?_, ho, ?_, ?_, ?_⟩
  · rw [ey]
    exact graft_idem _ _ _ _
  · intro hD
    obtain ⟨g1, g2, g3, g4⟩ := hs hD
    obtain ⟨hA, hB⟩ := D.off_set hD
    obtain ⟨a1, a2, a3⟩ := graft_set_off ParseResult.init D.families D.members (m x).2 x hA hB
    obtain ⟨b1, b2, b3⟩ := graft_set_off ParseResult.init D.families D.members (m x).2 y hA hB
    have u1 := (congrArg (fun c => c.result.sets) ex).trans a1
    have v1 := (congrArg (fun c => c.result.sets) ey).trans b1
    have u2 := (congrArg (fun c => c.self.current_set_) ex).trans a2
    have v2 := (congrArg (fun c => c.self.current_set_) ey).trans b2
    have u3 := (congrArg (fun c => c.self.parse_sets_) ex).trans a3
    have v3 := (congrArg (fun c => c.self.parse_sets_) ey).trans b3
    exact ⟨by rw [u2]; exact g1, by rw [v1, u1, u2]; exact g2, by rw [v2]; exact g3, by rw [u3, v3]; exact g4⟩
  · intro hD
    obtain ⟨g1, g2, g3, g4, g5⟩ := hm hD
    obtain ⟨hA, hB⟩ := D.off_material hD
    obtain ⟨a1, a2, a3, a4⟩ := graft_material_off ParseResult.init D.families D.members (m x).2 x hA hB
    obtain ⟨b1, b2, b3, b4⟩ := graft_material_off ParseResult.init D.families D.members (m x).2 y hA hB
    have u1 := (congrArg (fun c => c.result.materials) ex).trans a1
    have v1 := (congrArg (fun c => c.result.materials) ey).trans b1
    have u2 := (congrArg (fun c => c.self.current_material_) ex).trans a2
    have v2 := (congrArg (fun c => c.self.current_material_) ey).trans b2
    have u3 := (congrArg (fun c => c.self.parse_materials_) ex).trans a3
    have v3 := (congrArg (fun c => c.self.parse_materials_) ey).trans b3
    have u4 := (congrArg (fun c => c.self.material_expected_cards_) ex).trans a4
    have v4 := (congrArg (fun c => c.self.material_expected_cards_) ey).trans b4
    exact ⟨by rw [u2]; exact g1, by rw [v1, u1, u2]; exact g2, by rw [v2]; exact g3, by rw [v4, u4]; exact g4, by rw [u3, v3]; exact g5⟩
  · intro hD
    obtain ⟨g1, g2, g3, g4⟩ := hk hD
    obtain ⟨hA, hB⟩ := D.off_curve hD
    obtain ⟨a1, a2, a3⟩ := graft_curve_off ParseResult.init D.families D.members (m x).2 x hA hB
    obtain ⟨b1, b2, b3⟩ := graft_curve_off ParseResult.init D.families D.members (m x).2 y hA hB
    have u1 := (congrArg (fun c => c.result.curves) ex).trans a1
    have v1 := (congrArg (fun c => c.result.curves) ey).trans b1
    have u2 := (congrArg (fun c => c.self.current_curve_) ex).trans a2
    have v2 := (congrArg (fun c => c.self.current_curve_) ey).trans b2
    have u3 := (congrArg (fun c => c.self.parse_curves_) ex).trans a3
    have v3 := (congrArg (fun c => c.self.parse_curves_) ey).trans b3
    exact ⟨by rw [u2]; exact g1, by rw [v1, u1, u2]; exact g2, by rw [v2]; exact g3, by rw [u3, v3]; exact g4⟩

/-- A data line. -/
theorem process_data_deferred (d : Str) (D : Pending) (x y : Ctx F) (h : Deferred D x y) :
    Deferred D (process_data d x).2 (process_data d y).2 := by
  refine h.step (fun src => process_data_local d ParseResult.init D.families D.members x src
    h.families_cover h.2.1) ?_
  rcases process_data_moves d x with e | e
  · rw [e]
    exact h.2.1
  · exact covers_of_akin e (fun k hk => h.2.1 k hk)

/-- A keyword branch of a family in which the two runs agree. -/
theorem Deferred.branch {D : Pending} {x y : Ctx F} {fam : Family} {g : Option Member}
    {m : Run (Ctx F) Unit} (h : Deferred D x y) (fb : FamilyBranch fam g m)
    (hfam : D.families.has fam = true) (hg : ∀ k, g = some k → D.members.has k = true)
    (a : Unit) (hok : (m x).1 = .ok a) :
    Deferred D (m x).2 (m y).2 := by
  refine h.step (fun src => ?_) (covers_of_akin (fb.lands x a hok) hg)
  have L := fb.commutes ParseResult.init D.families D.members x src
  rw [FamilySel.family_add_of_has _ _ hfam, MemberSel.add_opt_of_has _ _ hg] at L
  exact L

/-- The `begin_set` branch when the first run has still to commit its
set: the first run commits it now, the second has nothing to commit, and both
start the same new set. -/
theorem begin_set_flush (u : Str) (ty : SetType) (D : Pending) (x y : Ctx F)
    (h : Deferred D x y) (hD : D.set = true) :
    ∃ D2, Deferred D2 (begin_set u ty (header_state_of ty) x).2 (begin_set u ty (header_state_of ty) y).2 := by
  obtain ⟨hc, hcov, hs, hm, hk⟩ := h
  obtain ⟨g1, g2, g3, g4⟩ := hs hD
  rw [begin_set_eq, begin_set_eq]
  by_cases hf : x.self.parse_sets_ = true
  · have hf2 : y.self.parse_sets_ = true := by
      rw [← g4]
      exact hf
    have ex : x.self.current_set_.if_committable = [x.self.current_set_] := if_pos g1
    have ey : y.self.current_set_.if_committable = [] := by
      rw [g3]
      exact init_not_committable
    simp only [if_pos hf, if_pos hf2, ex, ey, List.append_nil, g2]
    refine ⟨{ D with set := false }, ?_, ?_, ?_, hm, hk⟩
    · exact absorb_set D.families D.members x y _ _ _ _ _ _ hc g4
    · intro k hk2
      have ho : (if found u "_TITLE" = true then ParseState.IN_SET_TITLE else header_state_of ty).owner = some .current_set := by
        split
        · rfl
        · exact header_state_owner ty
      have e2 : some Member.current_set = some k := ho.symm.trans hk2
      cases e2
      rfl
    · intro h2
      cases h2
  · have hf2 : ¬ y.self.parse_sets_ = true := by
      rw [← g4]
      exact hf
    simp only [if_neg hf, if_neg hf2]
    exact ⟨D, Deferred.idle_both ⟨hc, hcov, hs, hm, hk⟩⟩

/-- The conditional commit of the set, in both runs. -/
theorem commit_set_deferred (D : Pending) (x y : Ctx F) (h : Deferred D x y) :
    Deferred { D with set := false } (commit_set x) (commit_set y) := by
  by_cases hD : D.set = true
  · obtain ⟨hc, hcov, hs, hm, hk⟩ := h
    obtain ⟨g1, g2, g3, g4⟩ := hs hD
    have hst : x.state = y.state := congrArg (fun c => c.state) hc
    have ex : commit_set x =
        { x with
          result.sets := x.result.sets ++ [x.self.current_set_]
          self.current_set_ := Set.init } := if_pos g1
    have ey : commit_set y = y := by
      refine if_neg ?_
      rw [g3]
      exact fun k => (by decide : ¬ ((0 : Int) > 0)) k.1
    rw [ex, ey]
    refine ⟨?_, Pending.covers_clear_set D _ hcov, ?_, hm, hk⟩
    · have a := absorb_set D.families D.members x y (x.result.sets ++ [x.self.current_set_]) y.result.sets
        Set.init y.self.current_set_ x.state y.state hc g4
      have r : ({ y with
          result.sets := x.result.sets ++ [x.self.current_set_]
          self.current_set_ := Set.init
          state := x.state } : Ctx F) = y := by
        rw [← g2, ← g3, hst]
      exact a.trans r
    · intro h2
      cases h2
  · rw [Pending.clear_set D hD]
    have hD2 : D.set = false := by
      simp only [Bool.not_eq_true] at hD
      exact hD
    obtain ⟨hA, hB⟩ := D.on_set hD2
    have hcov := h.2.1
    refine h.step (m := fun c => ((Except.ok () : Except Exn Unit), commit_set c)) (fun src => ?_) ?_
    · show ((Except.ok () : Except Exn Unit),
        commit_set (graft ParseResult.init D.families D.members x src)) = _
      rw [commit_set_graft ParseResult.init D.families D.members x src hA (Or.inl hB)]
    · show D.members.covers (commit_set x).state
      rw [(commit_set_keeps x).2.2]
      exact hcov

/-- The second run commits its set, the first does not yet. -/
theorem defer_set (D : Pending) (x y : Ctx F) (h : Deferred D x y) (hD : D.set = false)
    (hown : x.state.owner ≠ some .current_set) :
    ∃ D2, D2.material = D.material ∧ D2.curve = D.curve ∧ Deferred D2 x (commit_set y) := by
  obtain ⟨hc, hcov, hs, hm, hk⟩ := h
  obtain ⟨hA, hB⟩ := D.on_set hD
  obtain ⟨a1, a2, a3⟩ := graft_set_on D.families D.members x y hA hB
  have u1 := (congrArg (fun c => c.result.sets) hc).symm.trans a1
  have u2 := (congrArg (fun c => c.self.current_set_) hc).symm.trans a2
  have u3 := (congrArg (fun c => c.self.parse_sets_) hc).symm.trans a3
  by_cases hg : y.self.current_set_.sid > 0 ∧ y.self.current_set_.count > 0
  · have ey : commit_set y =
        { y with
          result.sets := y.result.sets ++ [y.self.current_set_]
          self.current_set_ := Set.init } := if_pos hg
    rw [ey]
    refine ⟨{ D with set := true }, rfl, rfl, ?_, ?_, ?_, hm, hk⟩
    · exact release_set D.families D.members x y _ _ hc
    · intro k hk2
      cases k <;> first
        | exact absurd hk2 hown
        | exact hcov _ hk2
    · intro _
      exact ⟨by rw [← u2]; exact hg, by rw [u1, u2], rfl, u3.symm⟩
  · have ey : commit_set y = y := if_neg hg
    rw [ey]
    exact ⟨D, rfl, rfl, hc, hcov, hs, hm, hk⟩

/-- The `begin_material` branch when the first run has still to commit its
material: the first run commits it now, the second has nothing to commit, and both
start the same new material. -/
theorem begin_material_flush (u : Str) (hu : found_at_0 u "*MAT_" = true) (D : Pending) (x y : Ctx F)
    (h : Deferred D x y) (hD : D.material = true) :
    ∃ D2, Deferred D2 (begin_material u x).2 (begin_material u y).2 := by
  obtain ⟨hc, hcov, hs, hm, hk⟩ := h
  obtain ⟨g1, g2, g3, g4, g5⟩ := hm hD
  rw [begin_material_eq u hu, begin_material_eq u hu]
  by_cases hf : x.self.parse_materials_ = true
  · have hf2 : y.self.parse_materials_ = true := by
      rw [← g5]
      exact hf
    have ex : (if x.self.current_material_.mid > 0 then [x.self.current_material_] else [])
        = [x.self.current_material_] := if_pos g1
    have ey : (if y.self.current_material_.mid > 0 then [y.self.current_material_] else [])
        = [] := by
      rw [g3]
      exact if_neg (by decide : ¬ ((0 : Int) > 0))
    simp only [if_pos hf, if_pos hf2, ex, ey, List.append_nil, g2]
    refine ⟨{ D with material := false }, ?_, ?_, hs, ?_, hk⟩
    · exact absorb_material D.families D.members x y _ _ _ _ _ _ _ _ hc g5
    · intro k hk2
      have ho : (if material_has_title u = true then ParseState.IN_MATERIAL_TITLE
          else ParseState.IN_MATERIAL_DATA).owner = some .current_material := by
        split <;> rfl
      have e2 : some Member.current_material = some k := ho.symm.trans hk2
      cases e2
      rfl
    · intro h2
      cases h2
  · have hf2 : ¬ y.self.parse_materials_ = true := by
      rw [← g5]
      exact hf
    simp only [if_neg hf, if_neg hf2]
    exact ⟨D, Deferred.idle_both ⟨hc, hcov, hs, hm, hk⟩⟩

/-- The conditional commit of the material, in both runs. -/
theorem commit_material_deferred (D : Pending) (x y : Ctx F) (h : Deferred D x y) :
    Deferred { D with material := false } (commit_material x) (commit_material y) := by
  by_cases hD : D.material = true
  · obtain ⟨hc, hcov, hs, hm, hk⟩ := h
    obtain ⟨g1, g2, g3, g4, g5⟩ := hm hD
    have hst : x.state = y.state := congrArg (fun c => c.state) hc
    have ex : commit_material x =
        { x with
          result.materials := x.result.materials ++ [x.self.current_material_]
          self.current_material_ := Material.init } := if_pos g1
    have ey : commit_material y = y := by
      refine if_neg ?_
      rw [g3]
      exact (by decide : ¬ ((0 : Int) > 0))
    rw [ex, ey]
    refine ⟨?_, Pending.covers_clear_material D _ hcov, hs, ?_, hk⟩
    · have a := absorb_material D.families D.members x y (x.result.materials ++ [x.self.current_material_]) y.result.materials
        Material.init y.self.current_material_ x.self.material_expected_cards_ y.self.material_expected_cards_ x.state y.state hc g5
      have r : ({ y with
          result.materials := x.result.materials ++ [x.self.current_material_]
          self.current_material_ := Material.init
          self.material_expected_cards_ := x.self.material_expected_cards_
          state := x.state } : Ctx F) = y := by
        rw [← g2, ← g3, ← g4, hst]
      exact a.trans r
    · intro h2
      cases h2
  · rw [Pending.clear_material D hD]
    have hD2 : D.material = false := by
      simp only [Bool.not_eq_true] at hD
      exact hD
    obtain ⟨hA, hB⟩ := D.on_material hD2
    have hcov := h.2.1
    refine h.step (m := fun c => ((Except.ok () : Except Exn Unit), commit_material c)) (fun src => ?_) ?_
    · show ((Except.ok () : Except Exn Unit),
        commit_material (graft ParseResult.init D.families D.members x src)) = _
      rw [commit_material_graft ParseResult.init D.families D.members x src hA (Or.inl hB)]
    · show D.members.covers (commit_material x).state
      rw [(commit_material_keeps x).2.2]
      exact hcov

/-- The second run commits its material, the first does not yet. -/
theorem defer_material (D : Pending) (x y : Ctx F) (h : Deferred D x y) (hD : D.material = false)
    (hown : x.state.owner ≠ some .current_material) :
    ∃ D2, D2.set = D.set ∧ D2.curve = D.curve ∧ Deferred D2 x (commit_material y) := by
  obtain ⟨hc, hcov, hs, hm, hk⟩ := h
  obtain ⟨hA, hB⟩ := D.on_material hD
  obtain ⟨a1, a2, a3, a4⟩ := graft_material_on D.families D.members x y hA hB
  have u1 := (congrArg (fun c => c.result.materials) hc).symm.trans a1
  have u2 := (congrArg (fun c => c.self.current_material_) hc).symm.trans a2
  have u3 := (congrArg (fun c => c.self.parse_materials_) hc).symm.trans a3
  have u4 := (congrArg (fun c => c.self.material_expected_cards_) hc).symm.trans a4
  by_cases hg : y.self.current_material_.mid > 0
  · have ey : commit_material y =
        { y with
          result.materials := y.result.materials ++ [y.self.current_material_]
          self.current_material_ := Material.init } := if_pos hg
    rw [ey]
    refine ⟨{ D with material := true }, rfl, rfl, ?_, ?_, hs, ?_, hk⟩
    · exact release_material D.families D.members x y _ _ y.self.material_expected_cards_ hc
    · intro k hk2
      cases k <;> first
        | exact absurd hk2 hown
        | exact hcov _ hk2
    · intro _
      exact ⟨by rw [← u2]; exact hg, by rw [u1, u2], rfl, u4, u3.symm⟩
  · have ey : commit_material y = y := if_neg hg
    rw [ey]
    exact ⟨D, rfl, rfl, hc, hcov, hs, hm, hk⟩

/-- The `begin_curve` branch when the first run has still to commit its
curve: the first run commits it now, the second has nothing to commit, and both
start the same new curve. -/
theorem begin_curve_flush (u : Str) (D : Pending) (x y : Ctx F)
    (h : Deferred D x y) (hD : D.curve = true) :
    ∃ D2, Deferred D2 (begin_curve u x).2 (begin_curve u y).2 := by
  obtain ⟨hc, hcov, hs, hm, hk⟩ := h
  obtain ⟨g1, g2, g3, g4⟩ := hk hD
  rw [begin_curve_eq, begin_curve_eq]
  by_cases hf : x.self.parse_curves_ = true
  · have hf2 : y.self.parse_curves_ = true := by
      rw [← g4]
      exact hf
    have ex : x.self.current_curve_.if_keyed = [x.self.current_curve_] := if_pos g1
    have ey : y.self.current_curve_.if_keyed = [] := by
      rw [g3]
      exact init_curve_not_keyed
    simp only [if_pos hf, if_pos hf2, ex, ey, List.append_nil, g2]
    refine ⟨{ D with curve := false }, ?_, ?_, hs, hm, ?_⟩
    · exact absorb_curve D.families D.members x y _ _ _ _ _ _ hc g4
    · intro k hk2
      have ho : (if found u "_TITLE" = true then ParseState.IN_CURVE_TITLE
          else ParseState.IN_CURVE_HEADER).owner = some .current_curve := by
        split <;> rfl
      have e2 : some Member.current_curve = some k := ho.symm.trans hk2
      cases e2
      rfl
    · intro h2
      cases h2
  · have hf2 : ¬ y.self.parse_curves_ = true := by
      rw [← g4]
      exact hf
    simp only [if_neg hf, if_neg hf2]
    exact ⟨D, Deferred.idle_both ⟨hc, hcov, hs, hm, hk⟩⟩

/-- The conditional commit of the curve, in both runs. -/
theorem commit_curve_deferred (D : Pending) (x y : Ctx F) (h : Deferred D x y) :
    Deferred { D with curve := false } (commit_curve x) (commit_curve y) := by
  by_cases hD : D.curve = true
  · obtain ⟨hc, hcov, hs, hm, hk⟩ := h
    obtain ⟨g1, g2, g3, g4⟩ := hk hD
    have hst : x.state = y.state := congrArg (fun c => c.state) hc
    have ex : commit_curve x =
        { x with
          result.curves := x.result.curves ++ [x.self.current_curve_]
          self.current_curve_ := Curve.init } := if_pos g1
    have ey : commit_curve y = y := by
      refine if_neg ?_
      rw [g3]
      exact (by decide : ¬ ((0 : Int) > 0))
    rw [ex, ey]
    refine ⟨?_, Pending.covers_clear_curve D _ hcov, hs, hm, ?_⟩
    · have a := absorb_curve D.families D.members x y (x.result.curves ++ [x.self.current_curve_]) y.result.curves
        Curve.init y.self.current_curve_ x.state y.state hc g4
      have r : ({ y with
          result.curves := x.result.curves ++ [x.self.current_curve_]
          self.current_curve_ := Curve.init
          state := x.state } : Ctx F) = y := by
        rw [← g2, ← g3, hst]
      exact a.trans r
    · intro h2
      cases h2
  · rw [Pending.clear_curve D hD]
    have hD2 : D.curve = false := by
      simp only [Bool.not_eq_true] at hD
      exact hD
    obtain ⟨hA, hB⟩ := D.on_curve hD2
    have hcov := h.2.1
    refine h.step (m := fun c => ((Except.ok () : Except Exn Unit), commit_curve c)) (fun src => ?_) ?_
    · show ((Except.ok () : Except Exn Unit),
        commit_curve (graft ParseResult.init D.families D.members x src)) = _
      rw [commit_curve_graft ParseResult.init D.families D.members x src hA (Or.inl hB)]
    · show D.members.covers (commit_curve x).state
      rw [(commit_curve_keeps x).2.2]
      exact hcov

/-- The second run commits its curve, the first does not yet. -/
theorem defer_curve (D : Pending) (x y : Ctx F) (h : Deferred D x y) (hD : D.curve = false)
    (hown : x.state.owner ≠ some .current_curve) :
    ∃ D2, D2.set = D.set ∧ D2.material = D.material ∧ Deferred D2 x (commit_curve y) := by
  obtain ⟨hc, hcov, hs, hm, hk⟩ := h
  obtain ⟨hA, hB⟩ := D.on_curve hD
  obtain ⟨a1, a2, a3⟩ := graft_curve_on D.families D.members x y hA hB
  have u1 := (congrArg (fun c => c.result.curves) hc).symm.trans a1
  have u2 := (congrArg (fun c => c.self.current_curve_) hc).symm.trans a2
  have u3 := (congrArg (fun c => c.self.parse_curves_) hc).symm.trans a3
  by_cases hg : y.self.current_curve_.lcid > 0
  · have ey : commit_curve y =
        { y with
          result.curves := y.result.curves ++ [y.self.current_curve_]
          self.current_curve_ := Curve.init } := if_pos hg
    rw [ey]
    refine ⟨{ D with curve := true }, rfl, rfl, ?_, ?_, hs, hm, ?_⟩
    · exact release_curve D.families D.members x y _ _ hc
    · intro k hk2
      cases k <;> first
        | exact absurd hk2 hown
        | exact hcov _ hk2
    · intro _
      exact ⟨by rw [← u2]; exact hg, by rw [u1, u2], rfl, u3.symm⟩
  · have ey : commit_curve y = y := if_neg hg
    rw [ey]
    exact ⟨D, rfl, rfl, hc, hcov, hs, hm, hk⟩

/-- After the three commits the two runs are in the same context. -/
theorem commit_pending_deferred (D : Pending) (x y : Ctx F) (h : Deferred D x y) :
    commit_pending x = commit_pending y := by
  have h3 := commit_curve_deferred _ _ _
    (commit_material_deferred _ _ _ (commit_set_deferred D x y h))
  exact (graft_all_all (commit_pending x) (commit_pending y)).symm.trans h3.1

/-- The run that starts after the three commits, against the run that starts before
them in the idle state. -/
theorem Deferred.start (x : Ctx F) (hs : x.state = .IDLE) :
    ∃ D, Deferred D x (commit_pending x) := by
  have hown : ∀ g, x.state.owner ≠ some g := by
    intro g
    rw [hs]
    intro h
    cases h
  obtain ⟨D1, m1, k1, h1⟩ := defer_set ⟨false, false, false⟩ x x (Deferred.same hs) rfl (hown _)
  obtain ⟨D2, _, k2, h2⟩ := defer_material D1 x (commit_set x) h1 m1 (hown _)
  obtain ⟨D3, _, _, h3⟩ := defer_curve D2 x (commit_material (commit_set x)) h2
    (k2.trans k1) (hown _)
  exact ⟨D3, h3⟩

/-- A keyword line. -/
theorem process_keyword_deferred (u : Str) (D : Pending) (x y : Ctx F) (h : Deferred D x y) :
    ∃ D2, Deferred D2 (process_keyword u x).2 (process_keyword u y).2 := by
  obtain ⟨⟨a, hok⟩, _⟩ := process_keyword_quiet u x
  rcases process_keyword_shape (F := F) u with ⟨ty, _, e⟩ | ⟨hu, e⟩ | ⟨_, e⟩ | e | ⟨fam, g, hb⟩
  · rw [e] at hok ⊢
    by_cases hD : D.set = true
    · exact begin_set_flush u ty D x y h hD
    · have hD2 : D.set = false := by
        simp only [Bool.not_eq_true] at hD
        exact hD
      refine ⟨D, h.branch (begin_set_family u ty) (D.on_set hD2).1 ?_ a hok⟩
      intro k hk
      cases hk
      exact (D.on_set hD2).2
  · rw [e] at hok ⊢
    by_cases hD : D.material = true
    · exact begin_material_flush u hu D x y h hD
    · have hD2 : D.material = false := by
        simp only [Bool.not_eq_true] at hD
        exact hD
      refine ⟨D, h.branch (begin_material_family u hu) (D.on_material hD2).1 ?_ a hok⟩
      intro k hk
      cases hk
      exact (D.on_material hD2).2
  · rw [e] at hok ⊢
    by_cases hD : D.curve = true
    · exact begin_curve_flush u D x y h hD
    · have hD2 : D.curve = false := by
        simp only [Bool.not_eq_true] at hD
        exact hD
      refine ⟨D, h.branch (begin_curve_family u) (D.on_curve hD2).1 ?_ a hok⟩
      intro k hk
      cases hk
      exact (D.on_curve hD2).2
  · rw [e, other_keyword_eq, other_keyword_eq, commit_in_flight_eq, commit_in_flight_eq,
      commit_pending_deferred D x y h]
    exact ⟨⟨false, false, false⟩, Deferred.same rfl⟩
  · exact ⟨D, h.branch hb.family_branch (D.has_plain fam hb.family_plain)
      (D.has_plain_member g hb.member_plain) a hok⟩

/-- Any line. -/
theorem after_line_deferred (l : Str) (D : Pending) (x y : Ctx F) (h : Deferred D x y) :
    ∃ D2, Deferred D2 (after_line l x) (after_line l y) := by
  unfold after_line process_line
  by_cases h1 : is_empty_or_whitespace l = true
  · simp only [h1, if_true]
    exact ⟨D, h⟩
  · by_cases h2 : is_keyword l = true
    · simp only [h1, h2, if_true, if_false]
      exact process_keyword_deferred (to_upper l) D x y h
    · by_cases h3 : is_comment l = true
      · simp only [h1, h2, h3, if_true, if_false]
        exact ⟨D, h⟩
      · simp only [h1, h2, h3, if_false]
        exact ⟨D, process_data_deferred l D x y h⟩

/-- Any run of lines. -/
theorem ctx_after_deferred (lines : List Str) :
    ∀ (D : Pending) (x y : Ctx F), Deferred D x y →
      ∃ D2, Deferred D2 (ctx_after lines x) (ctx_after lines y) := by
  induction lines with
  | nil =>
    intro D x y h
    exact ⟨D, h⟩
  | cons l rest ih =>
    intro D x y h
    obtain ⟨D1, h1⟩ := after_line_deferred l D x y h
    rw [ctx_after_cons, ctx_after_cons]
    exact ih D1 _ _ h1

end DeferredSteps
/-! ## The lines of a concatenation, and the run over the second text -/

section Concatenation

variable {F : Type} [DoubleModel F]

set_option linter.unusedSectionVars false
set_option linter.unusedVariables false

theorem getlines_from_append (B : Str) :
    ∀ (A cur : Str), A.getLast? = some '\n' →
      getlines_from (A ++ B) cur = getlines_from A cur ++ getlines_from B [] := by
  intro A
  induction A with
  | nil =>
    intro cur h
    cases h
  | cons c rest ih =>
    intro cur h
    by_cases hc : c = '\n'
    · cases rest with
      | nil =>
        show getlines_from (c :: B) cur = getlines_from [c] cur ++ getlines_from B []
        simp only [getlines_from, hc, if_true, List.isEmpty_nil, List.cons_append,
          List.nil_append]
      | cons d r =>
        have h2 : (d :: r).getLast? = some '\n' := by
          rw [List.getLast?_cons_cons] at h
          exact h
        show getlines_from (c :: ((d :: r) ++ B)) cur
          = getlines_from (c :: d :: r) cur ++ getlines_from B []
        rw [getlines_from, getlines_from, if_pos hc, if_pos hc, ih [] h2]
        rfl
    · cases rest with
      | nil =>
        simp only [List.getLast?_singleton, Option.some.injEq] at h
        exact absurd h hc
      | cons d r =>
        have h2 : (d :: r).getLast? = some '\n' := by
          rw [List.getLast?_cons_cons] at h
          exact h
        show getlines_from (c :: ((d :: r) ++ B)) cur
          = getlines_from (c :: d :: r) cur ++ getlines_from B []
        rw [getlines_from, getlines_from, if_neg hc, if_neg hc, ih (c :: cur) h2]

/-- The lines of a concatenation whose first text is empty or ends with a line
terminator: the lines of the first text, then those of the second. -/
theorem getlines_append (A B : Str) (hA : A = [] ∨ A.getLast? = some '\n') :
    getlines (A ++ B) = getlines A ++ getlines B := by
  rcases hA with h | h
  · subst h
    rfl
  · exact getlines_from_append B A [] h

theorem skipped_after_line (l : Str) (h : skipped l = true) (c : Ctx F) :
    (process_line l c).2 = c := by
  unfold skipped at h
  simp only [Bool.or_eq_true] at h
  have h2 : is_empty_or_whitespace l = true ∨ l.head? = some '$' := by
    rcases h with h | h
    · exact Or.inl h
    · refine Or.inr ?_
      cases l with
      | nil => cases h
      | cons ch t =>
        simp only [is_comment, decide_eq_true_eq] at h
        rw [h]
        rfl
  rw [skipped_line l h2 c]

/-- When the first line that is processed is a keyword line, the run does not depend
on the state it starts in. -/
theorem ctx_after_keyword_first (lines : List Str) :
    keyword_first lines = true → ∀ c : Ctx F,
      ∃ s, ctx_after lines { c with state := .IDLE } = { ctx_after lines c with state := s } := by
  induction lines with
  | nil =>
    intro _ c
    exact ⟨.IDLE, rfl⟩
  | cons l rest ih =>
    intro h c
    unfold keyword_first at h
    by_cases hs : skipped l = true
    · rw [if_pos hs] at h
      rw [ctx_after_cons, ctx_after_cons, skipped_after_line l hs, skipped_after_line l hs]
      exact ih h c
    · rw [if_neg hs] at h
      refine ⟨(ctx_after (l :: rest) c).state, ?_⟩
      rw [ctx_after_cons, ctx_after_cons]
      have e : (process_line l { c with state := .IDLE }).2 = (process_line l c).2 := by
        rw [process_line_keyword l h]
        exact congrArg Prod.snd
          (process_keyword_blind (to_upper l) c .IDLE (process_keyword_quiet _ c).1)
      rw [e]

theorem commit_pending_state (c : Ctx F) (s : ParseState) :
    commit_pending { c with state := s } = { commit_pending c with state := s } := by
  unfold commit_pending
  rw [commit_set_state, commit_material_state, commit_curve_state]

theorem commit_pending_view (c : Ctx F) :
    fixed_view (commit_pending c) = fixed_view c
    ∧ (commit_pending c).result.warnings = c.result.warnings
    ∧ (commit_pending c).state = c.state := by
  have h1 : ∀ x : Ctx F, fixed_view (commit_set x) = fixed_view x
      ∧ (commit_set x).result.warnings = x.result.warnings ∧ (commit_set x).state = x.state := by
    intro x
    unfold commit_set
    split <;> exact ⟨rfl, rfl, rfl⟩
  have h2 : ∀ x : Ctx F, fixed_view (commit_material x) = fixed_view x
      ∧ (commit_material x).result.warnings = x.result.warnings
      ∧ (commit_material x).state = x.state := by
    intro x
    unfold commit_material
    split <;> exact ⟨rfl, rfl, rfl⟩
  have h3 : ∀ x : Ctx F, fixed_view (commit_curve x) = fixed_view x
      ∧ (commit_curve x).result.warnings = x.result.warnings
      ∧ (commit_curve x).state = x.state := by
    intro x
    unfold commit_curve
    split <;> exact ⟨rfl, rfl, rfl⟩
  unfold commit_pending
  exact ⟨((h3 _).1.trans (h2 _).1).trans (h1 c).1,
    ((h3 _).2.1.trans (h2 _).2.1).trans (h1 c).2.1,
    ((h3 _).2.2.trans (h2 _).2.2).trans (h1 c).2.2⟩

/-- An idle context reached from the start is the start overlaid on it, with what
has been committed so far in front. -/
theorem graft_onto (c : Ctx F) (p : KFileParser F) (hs : c.state = .IDLE)
    (hfix : fixed_view c = fixed_view (start_ctx p)) (hw : c.result.warnings = []) :
    graft c.result FamilySel.all MemberSel.empty (start_ctx p) c = c := by
  simp only [fixed_view, Prod.mk.injEq] at hfix
  obtain ⟨he, hb, i1, i2, i3, i4, i5, i6, i7, i8, ht, herr⟩ := hfix
  have f : ∀ fam, p.enabled fam = c.self.enabled fam := fun fam => (congrFun he fam).symm
  have f1 := f .nodes
  have f2 := f .parts
  have f3 := f .elements
  have f4 := f .sets
  have f5 := f .sections
  have f6 := f .contacts
  have f7 := f .materials
  have f8 := f .includes
  have f9 := f .curves
  have f10 := f .boundaries
  have f11 := f .loads
  have f12 := f .controls
  have f13 := f .databases
  have f14 := f .initials
  have f15 := f .constraineds
  simp only [KFileParser.enabled] at f1 f2 f3 f4 f5 f6 f7 f8 f9 f10 f11 f12 f13 f14 f15
  have hb2 : p.build_index_ = c.self.build_index_ := hb.symm
  have j1 : (ParseResult.init : ParseResult F).node_index = c.result.node_index := i1.symm
  have j2 : (ParseResult.init : ParseResult F).part_index = c.result.part_index := i2.symm
  have j3 : (ParseResult.init : ParseResult F).element_index = c.result.element_index := i3.symm
  have j4 : (ParseResult.init : ParseResult F).set_index = c.result.set_index := i4.symm
  have j5 : (ParseResult.init : ParseResult F).section_index = c.result.section_index := i5.symm
  have j6 : (ParseResult.init : ParseResult F).contact_index = c.result.contact_index := i6.symm
  have j7 : (ParseResult.init : ParseResult F).material_index = c.result.material_index :=
    i7.symm
  have j8 : (ParseResult.init : ParseResult F).curve_index = c.result.curve_index := i8.symm
  have j9 : (ParseResult.init : ParseResult F).total_lines = c.result.total_lines := ht.symm
  have j10 : (ParseResult.init : ParseResult F).errors = c.result.errors := herr.symm
  have j11 : (ParseResult.init : ParseResult F).warnings = c.result.warnings := hw.symm
  have j12 : (ParseResult.init : ParseResult F).nodes = [] := rfl
  simp only [graft, graft_self, graft_result, FamilySel.all, MemberSel.empty, cond_true,
    cond_false, start_ctx, f1, f2, f3, f4, f5, f6, f7, f8, f9, f10, f11, f12, f13, f14, f15, hb2,
    j1, j2, j3, j4, j5, j6, j7, j8, j9, j10, j11]
  rw [← hs]
  simp only [ParseResult.init, List.append_nil]

end Concatenation
/-! ## Parsing a concatenation -/

section ConcatResult

variable {F : Type} [DoubleModel F]

set_option linter.unusedSectionVars false
set_option linter.unusedVariables false

theorem finalized_entities (r : ParseResult F) (n : Nat) (b : Bool) :
    (r.finalized n b).entities = r.entities := by
  cases b <;> rfl

theorem concat_entities (a b : ParseResult F) :
    (a.concat b).entities = (a.entities.concat b.entities).entities := rfl

/-- The context after the lines of the second text, run from the context the first
text leaves: once the pending entities are committed, it holds the collections the
first text yields followed by those the second text yields on its own. -/
theorem commit_pending_append (LB : List Str) (p : KFileParser F) (cA : Ctx F)
    (hp : ¬ (p.current_set_.sid > 0 ∧ p.current_set_.count > 0)
      ∧ ¬ p.current_material_.mid > 0 ∧ ¬ p.current_curve_.lcid > 0)
    (hfix : fixed_view cA = fixed_view (start_ctx p)) (hw : cA.result.warnings = [])
    (hB : keyword_first LB = true) :
    (commit_pending (ctx_after LB cA)).result
      = (commit_pending cA).result.concat (commit_pending (ctx_after LB (start_ctx p))).result := by
  obtain ⟨s, es⟩ := ctx_after_keyword_first LB hB cA
  obtain ⟨D, hD⟩ := Deferred.start ({ cA with state := .IDLE }) rfl
  obtain ⟨D2, hD2⟩ := ctx_after_deferred LB D _ _ hD
  have e1 := commit_pending_deferred D2 _ _ hD2
  rw [es, commit_pending_state] at e1
  have v := commit_pending_view ({ cA with state := .IDLE } : Ctx F)
  have hon := graft_onto (commit_pending { cA with state := .IDLE }) p v.2.2
    (v.1.trans hfix) (v.2.1.trans hw)
  have hi := commit_pending_idle ({ cA with state := .IDLE } : Ctx F)
  have hset : MemberSel.empty.settled (start_ctx p) (commit_pending { cA with state := .IDLE }) :=
    ⟨Or.inr ⟨hp.1, hi.1⟩, Or.inr ⟨hp.2.1, hi.2.1⟩, Or.inr ⟨hp.2.2, hi.2.2⟩⟩
  obtain ⟨B2, e2, _, s2⟩ := ctx_after_sync LB (commit_pending { cA with state := .IDLE }).result
    MemberSel.empty (start_ctx p) (commit_pending { cA with state := .IDLE })
    (MemberSel.covers_idle _) hset
  rw [hon] at e2
  have e3 := commit_pending_graft (commit_pending { cA with state := .IDLE }).result
    FamilySel.all B2 (ctx_after LB (start_ctx p)) (commit_pending { cA with state := .IDLE })
    ⟨rfl, rfl, rfl⟩ s2
  have e4 : (commit_pending (ctx_after LB cA)).result
      = (commit_pending (ctx_after LB (commit_pending { cA with state := .IDLE }))).result :=
    congrArg (fun c => c.result) e1
  rw [e4, e2, e3, commit_pending_state]
  rfl

/-- The result for a concatenation, for every parser in which nothing is pending. -/
theorem finish_parse_append (A B : Str) (p : KFileParser F)
    (hp : ¬ (p.current_set_.sid > 0 ∧ p.current_set_.count > 0)
      ∧ ¬ p.current_material_.mid > 0 ∧ ¬ p.current_curve_.lcid > 0)
    (hA : A = [] ∨ A.getLast? = some '\n') (hB : keyword_first (getlines B) = true) :
    (finish_parse (getlines (A ++ B)).length
        (ctx_after (getlines (A ++ B)) (start_ctx p))).2.result.entities
      = ((finish_parse (getlines A).length (ctx_after (getlines A) (start_ctx p))).2.result.concat
          (finish_parse (getlines B).length
            (ctx_after (getlines B) (start_ctx p))).2.result).entities := by
  rw [(finish_parse_eq _ _).1, (finish_parse_eq _ _).1, (finish_parse_eq _ _).1,
    finalized_entities, concat_entities, finalized_entities, finalized_entities,
    ← concat_entities, getlines_append A B hA, ctx_after_append,
    commit_pending_append (getlines B) p _ hp (ctx_after_fixed _ _)
      ((ctx_after_warnings _ _).trans rfl) hB]

end ConcatResult

/-- C30. For all texts `A` and `B` such that `A` is empty or ends with the line
terminator `\n` and the first line of `B` that is neither blank nor a comment is a
keyword line (lines as `process_line` classifies them: a comment starts with `$`, a
keyword line with `*`), and for every setting of the flags: the three parses, each on
a freshly configured parser, return, and every collection of the result for `A ++ B`
is the collection of the result for `A` followed by the collection of the result
for `B`. -/
theorem concatenation_preserves_order {F : Type} [DoubleModel F] (A B : Str)
    (flags : FamilySel) (build_index : Bool) (e1 e2 e3 : Int)
    (hA : A = [] ∨ A.getLast? = some '\n') (hB : keyword_first (getlines B) = true) :
    ∃ rA rB rAB : ParseResult F,
      (parse_string A (KFileParser.configured flags build_index e1 : KFileParser F)).1 = .ok rA
      ∧ (parse_string B (KFileParser.configured flags build_index e2 : KFileParser F)).1
          = .ok rB
      ∧ (parse_string (A ++ B)
          (KFileParser.configured flags build_index e3 : KFileParser F)).1 = .ok rAB
      ∧ rAB.entities = (rA.concat rB).entities := by
  have sw2 := parse_string_members_irrelevant B
    (KFileParser.configured flags build_index e1 : KFileParser F)
    (KFileParser.configured flags build_index e2 : KFileParser F)
    (configured_enabled _ _ e1 e2).1 (configured_enabled _ _ e1 e2).2
    (configured_leaves _ _ e1) (configured_leaves _ _ e2)
  have sw3 := parse_string_members_irrelevant (A ++ B)
    (KFileParser.configured flags build_index e1 : KFileParser F)
    (KFileParser.configured flags build_index e3 : KFileParser F)
    (configured_enabled _ _ e1 e3).1 (configured_enabled _ _ e1 e3).2
    (configured_leaves _ _ e1) (configured_leaves _ _ e3)
  exact ⟨_, _, _, parse_string_eq A _, sw2.trans (parse_string_eq B _),
    sw3.trans (parse_string_eq (A ++ B) _),
    finish_parse_append A B _ (configured_leaves _ _ e1) hA hB⟩

set_option maxRecDepth 100000 in
/-- Witness for C30: the first text ends inside a set block, whose set is committed
only at the next set keyword of the second text; the second text starts with a
comment line followed by a keyword line. -/
theorem concatenation_preserves_order_witness :
    ("*SET_NODE_LIST\n         1\n         5         6\n".toList = []
        ∨ "*SET_NODE_LIST\n         1\n         5         6\n".toList.getLast? = some '\n')
    ∧ keyword_first (getlines "$ second\n*NODE\n       1     1.0\n*SET_NODE_LIST\n         2\n         7\n".toList) = true
    ∧ ∃ rA rB rAB : ParseResult SymDouble,
      (parse_string "*SET_NODE_LIST\n         1\n         5         6\n".toList
          (KFileParser.configured FamilySel.all false 0 : KFileParser SymDouble)).1 = .ok rA
      ∧ (parse_string "$ second\n*NODE\n       1     1.0\n*SET_NODE_LIST\n         2\n         7\n".toList
          (KFileParser.configured FamilySel.all false 0 : KFileParser SymDouble)).1 = .ok rB
      ∧ (parse_string ("*SET_NODE_LIST\n         1\n         5         6\n".toList
            ++ "$ second\n*NODE\n       1     1.0\n*SET_NODE_LIST\n         2\n         7\n".toList)
          (KFileParser.configured FamilySel.all false 0 : KFileParser SymDouble)).1 = .ok rAB
      ∧ rAB.entities = (rA.concat rB).entities :=
  ⟨Or.inr (by decide), by decide,
    concatenation_preserves_order _ _ FamilySel.all false 0 0 0 (Or.inr (by decide)) (by decide)⟩

end KFile
